import Mathlib

/-!
Verification of the advent-of-code-2023-rust repository.

Each `day05`/`day14`/`day17` namespace is a shallow embedding of the
corresponding `src/days/day_NN.rs` module; the `puzzleLib` namespace embeds
the `PuzzleBase` trait of `src/lib.rs`.  Rust `u32`/`usize` values are
modelled as `Nat` (no arithmetic in the verified paths overflows, and
subtraction is only performed under the guards the source checks first, so
truncated `Nat` subtraction agrees with the source).  Rust loops are
modelled either by structural recursion or by fuel-indexed recursion where
the fuel is an upper bound, proved sufficient, on the number of iterations
the source loop performs; this keeps every definition executable.
-/

set_option maxRecDepth 1000000
set_option maxHeartbeats 1000000

namespace day05

/-- One remap rule, `Range` of day_05.rs (fields `destination_start`,
`source_start`, `length`, all `u32`). -/
structure Range where
  destination_start : Nat
  source_start : Nat
  length : Nat
deriving DecidableEq, Repr

/-- One mapping stage, `Map` of day_05.rs: a name and rules sorted by
`source_start` (the sort is performed by `Map::parse`). -/
structure Map where
  name : String
  ranges : List Range
deriving DecidableEq, Repr

/-- A half-open range of values, `Slice` of day_05.rs (fields `start`,
`length`). -/
structure Slice where
  start : Nat
  length : Nat
deriving DecidableEq, Repr

/-- The scalar-mapping loop of `Map::map` (day_05.rs lines 73-80): the first
rule whose source interval contains `source` applies; otherwise identity. -/
def mapRangesGo : List Range → Nat → Nat
  | [], source => source
  | r :: rest, source =>
    if r.source_start ≤ source ∧ source - r.source_start < r.length then
      source - r.source_start + r.destination_start
    else
      mapRangesGo rest source

/-- `Map::map` of day_05.rs. -/
def Map.map (m : Map) (source : Nat) : Nat :=
  mapRangesGo m.ranges source

/-- The cursor-advance inner loop of `Map::map_slices` (day_05.rs lines
92-95): advance `current_range` while the popped slice's start lies beyond
the current rule, i.e. until
`slice.start < range.source_start || slice.start - range.source_start < range.length`. -/
def advanceRanges (s : Nat) : List Range → List Range
  | [] => []
  | r :: rest =>
    if s < r.source_start ∨ s - r.source_start < r.length then r :: rest
    else advanceRanges s rest

/-- Termination measure for the `map_slices` work-stack: every loop
iteration of the source pops one slice and pushes back at most one strictly
shorter slice, so this quantity strictly decreases. -/
def sliceMeasure : List Slice → Nat
  | [] => 0
  | s :: rest => s.length + 1 + sliceMeasure rest

/-- The local `non_matching_length` of `Map::map_slices` (day_05.rs line
98): the part of the slice strictly before the current rule. -/
def non_matching_length (slice : Slice) (range : Range) : Nat :=
  min slice.length (range.source_start - slice.start)

/-- The local `matching_length` of `Map::map_slices` (day_05.rs line 110):
the part of the slice covered by the current rule. -/
def matching_length (slice : Slice) (range : Range) : Nat :=
  min slice.length (range.length - (slice.start - range.source_start))

/-- The `while let Some(slice) = source_slices.pop()` loop of
`Map::map_slices` (day_05.rs lines 91-128).  The stack head is the next
popped slice; `fuel` bounds the number of pops (`sliceMeasure` of the stack
always suffices, since each pop pushes back at most one strictly shorter
slice).  The three emission cases mirror the source: (no rule) emit
unchanged; (slice starts before the rule) emit the uncovered
`non_matching_length` prefix unchanged and push back the remainder; (slice
starts inside the rule) emit the covered `matching_length` prefix shifted
by the rule and push back the remainder. -/
def mapSlicesGo (fuel : Nat) (ranges : List Range) (stack : List Slice) : List Slice :=
  match fuel with
  | 0 => []
  | fuel + 1 =>
    match stack with
    | [] => []
    | slice :: rest =>
      match advanceRanges slice.start ranges with
      | [] => { start := slice.start, length := slice.length } :: mapSlicesGo fuel [] rest
      | range :: tl =>
        if slice.start < range.source_start then
          { start := slice.start, length := non_matching_length slice range } ::
            mapSlicesGo fuel (range :: tl)
              (if non_matching_length slice range < slice.length then
                { start := slice.start + non_matching_length slice range,
                  length := slice.length - non_matching_length slice range } :: rest
              else rest)
        else
          { start := range.destination_start + (slice.start - range.source_start),
            length := matching_length slice range } ::
            mapSlicesGo fuel (range :: tl)
              (if matching_length slice range < slice.length then
                { start := slice.start + matching_length slice range,
                  length := slice.length - matching_length slice range } :: rest
              else rest)

/-- `Map::map_slices` of day_05.rs (lines 83-130): sort the input slices by
start (ascending; the source sorts ascending, reverses and pops from the
back, which processes slices in ascending-start order) and run the
work-stack loop. -/
def Map.map_slices (m : Map) (source_slices : List Slice) : List Slice :=
  let sorted := List.insertionSort (fun a b => Slice.start a ≤ Slice.start b) source_slices
  mapSlicesGo (sliceMeasure sorted) m.ranges sorted

/-- The day-5 puzzle structure (`seeds`, `maps`). -/
structure Puzzle where
  seeds : List Nat
  maps : List Map
deriving DecidableEq, Repr

/-- `seeds.chunks_exact(2)` turned into seed slices (day_05.rs lines
167-169); an incomplete trailing chunk is dropped, as `chunks_exact` does. -/
def chunkPairs : List Nat → List Slice
  | a :: b :: rest => { start := a, length := b } :: chunkPairs rest
  | _ => []

/-- `Puzzle::part_2` of day_05.rs (lines 166-177): fold the seed slices
through all stages with `map_slices` and return the minimum start value of
the final slices, as a string.  The `Option` models the `unwrap` on `min`
(`none` would be the panic on an empty final slice list). -/
def Puzzle.part_2 (p : Puzzle) : Option String :=
  let seed_slices := chunkPairs p.seeds
  let location_slices := p.maps.foldl (fun seeds m => m.map_slices seeds) seed_slices
  ((location_slices.map (fun s => s.start)).min?).map (fun n => toString n)

/-- `Puzzle::part_1` of day_05.rs (lines 152-164): map every seed through
all stages with the scalar `Map::map` and take the minimum. -/
def Puzzle.part_1 (p : Puzzle) : Option String :=
  ((p.seeds.map (fun seed => p.maps.foldl (fun source m => m.map source) seed)).min?).map
    (fun n => toString n)

/-- The parsed day-5 example puzzle, exactly the structure asserted by the
`new` test of day_05.rs (lines 195-256). -/
def examplePuzzle : Puzzle :=
  { seeds := [79, 14, 55, 13]
    maps :=
      [ { name := "seed-to-soil"
          ranges :=
            [ { destination_start := 52, source_start := 50, length := 48 }
            , { destination_start := 50, source_start := 98, length := 2 } ] }
      , { name := "soil-to-fertilizer"
          ranges :=
            [ { destination_start := 39, source_start := 0, length := 15 }
            , { destination_start := 0, source_start := 15, length := 37 }
            , { destination_start := 37, source_start := 52, length := 2 } ] }
      , { name := "fertilizer-to-water"
          ranges :=
            [ { destination_start := 42, source_start := 0, length := 7 }
            , { destination_start := 57, source_start := 7, length := 4 }
            , { destination_start := 0, source_start := 11, length := 42 }
            , { destination_start := 49, source_start := 53, length := 8 } ] }
      , { name := "water-to-light"
          ranges :=
            [ { destination_start := 88, source_start := 18, length := 7 }
            , { destination_start := 18, source_start := 25, length := 70 } ] }
      , { name := "light-to-temperature"
          ranges :=
            [ { destination_start := 81, source_start := 45, length := 19 }
            , { destination_start := 68, source_start := 64, length := 13 }
            , { destination_start := 45, source_start := 77, length := 23 } ] }
      , { name := "temperature-to-humidity"
          ranges :=
            [ { destination_start := 1, source_start := 0, length := 69 }
            , { destination_start := 0, source_start := 69, length := 1 } ] }
      , { name := "humidity-to-location"
          ranges :=
            [ { destination_start := 60, source_start := 56, length := 37 }
            , { destination_start := 56, source_start := 93, length := 4 } ] } ] }

/-- The stand-alone map used by the `map_slices` unit test of day_05.rs
(lines 274-280); also a convenient concrete stage for boundary checks. -/
def testMap : Map :=
  { name := "a-to-b"
    ranges :=
      [ { destination_start := 113, source_start := 13, length := 17 }
      , { destination_start := 254, source_start := 54, length := 7 } ] }

/-- Sum of the lengths of a list of slices (the total measure of §4.4 of
the spec). -/
def sumLengths : List Slice → Nat
  | [] => 0
  | s :: rest => s.length + sumLengths rest

/-- A concrete identity-only stage (its single rule shifts by offset zero),
used to witness the measure-preservation statement. -/
def identityMap : Map :=
  { name := "identity"
    ranges := [ { destination_start := 10, source_start := 10, length := 5 } ] }

end day05

namespace day17

/-- The movement direction enum of day_17.rs. -/
inductive Direction
  | Up
  | Down
  | Left
  | Right
deriving DecidableEq, Repr

/-- `Direction::get_turns` (day_17.rs lines 115-122): the two perpendicular
directions, in source order. -/
def Direction.get_turns : Direction → List Direction
  | .Right => [.Up, .Down]
  | .Up => [.Left, .Right]
  | .Left => [.Down, .Up]
  | .Down => [.Right, .Left]

/-- Grid position of day_17.rs (fields `row`, `col`, both `usize`). -/
structure Position where
  row : Nat
  col : Nat
deriving DecidableEq, Repr

/-- Rust `usize::checked_sub`. -/
def checkedSub (a b : Nat) : Option Nat :=
  if b ≤ a then some (a - b) else none

/-- `Position::get_at` (day_17.rs lines 96-103): the cell `distance` steps
away in `direction`, or `None` when the step would leave the
`height`/`width` grid (upward/leftward underflow is caught by
`checked_sub`, downward/rightward overflow by the explicit bound check). -/
def Position.get_at (p : Position) (distance : Nat) (direction : Direction)
    (height width : Nat) : Option Position :=
  match direction with
  | .Up => (checkedSub p.row distance).map (fun r => { row := r, col := p.col })
  | .Left => (checkedSub p.col distance).map (fun c => { row := p.row, col := c })
  | .Down =>
    if p.row + distance < height then some { row := p.row + distance, col := p.col }
    else none
  | .Right =>
    if p.col + distance < width then some { row := p.row, col := p.col + distance }
    else none

/-- Search state of day_17.rs (fields `position`, `direction`,
`heat_loss`). -/
structure State where
  position : Position
  direction : Direction
  heat_loss : Nat
deriving DecidableEq, Repr

/-- The `Ord` implementation for `State` (day_17.rs lines 50-56): compare
`self.heat_loss + other.row + other.col` against
`other.heat_loss + self.row + self.col`, tie-break by `heat_loss`, then
`reverse` the result (so the max-`BinaryHeap` pops the state that is
minimal in this key). -/
def stateCmp (a b : State) : Ordering :=
  ((compare (a.heat_loss + b.position.row + b.position.col)
      (b.heat_loss + a.position.row + a.position.col)).then
    (compare a.heat_loss b.heat_loss)).swap

/-- `grid[row][col]` (all accesses in the solver are made on positions
validated by `get_at`, so the default value is never read there). -/
def gridAt (grid : List (List Nat)) (p : Position) : Nat :=
  (grid.getD p.row []).getD p.col 0

/-- The fold of day_17.rs lines 68-73: walk the distances strictly before
the minimum run length, adding the weight of every cell that exists
(out-of-grid distances are skipped by the `filter_map`). -/
def prefixHeat (grid : List (List Nat)) (pos : Position) (dir : Direction)
    (height width : Nat) : List Nat → Nat → Nat
  | [], acc => acc
  | d :: rest, acc =>
    match pos.get_at d dir height width with
    | none => prefixHeat grid pos dir height width rest acc
    | some p => prefixHeat grid pos dir height width rest (acc + gridAt grid p)

/-- The `wobbly.clone().filter_map(...).map(...)` chain of day_17.rs lines
76-81: for every in-grid run length, the landing position together with the
accumulated heat loss up to and including that cell. -/
def runPairs (grid : List (List Nat)) (pos : Position) (dir : Direction)
    (height width : Nat) : List Nat → Nat → List (Position × Nat)
  | [], _ => []
  | d :: rest, acc =>
    match pos.get_at d dir height width with
    | none => runPairs grid pos dir height width rest acc
    | some p =>
      (p, acc + gridAt grid p) :: runPairs grid pos dir height width rest (acc + gridAt grid p)

/-- `State::get_next_states` (day_17.rs lines 65-86): accumulate the heat
of the forced prefix, then emit one successor per legal run length and
perpendicular direction.  The run-length range `min_run..=max_run` of the
source (`wobbly`) is passed as `lo`/`hi`. -/
def State.get_next_states (state : State) (grid : List (List Nat)) (lo hi : Nat) :
    List State :=
  let height := grid.length
  let width := (grid.headD []).length
  let hl := prefixHeat grid state.position state.direction height width
    (List.range' 1 (lo - 1)) state.heat_loss
  let turns := state.direction.get_turns
  (runPairs grid state.position state.direction height width
      (List.range' lo (hi + 1 - lo)) hl).flatMap
    (fun ph => turns.map (fun d => { position := ph.1, direction := d, heat_loss := ph.2 }))

/-- Model of `std::collections::BinaryHeap<State>`: a pairing heap whose
root is a maximal element under the source `Ord` (`stateCmp`).  Rust's
`BinaryHeap` leaves the order among `Ord`-equal elements unspecified, so
any max-heap is a faithful model. -/
inductive Heap
  | empty
  | node (s : State) (children : List Heap)

/-- Meld two pairing heaps, keeping the `stateCmp`-larger root. -/
def Heap.meld : Heap → Heap → Heap
  | .empty, h => h
  | .node a ca, .empty => .node a ca
  | .node a ca, .node b cb =>
    if stateCmp a b = Ordering.lt then .node b (.node a ca :: cb)
    else .node a (.node b cb :: ca)

/-- `BinaryHeap::push`. -/
def Heap.insert (s : State) (h : Heap) : Heap :=
  Heap.meld (.node s []) h

/-- Pairwise melding of the children of a popped root. -/
def Heap.mergePairs : List Heap → Heap
  | [] => .empty
  | [h] => h
  | h1 :: h2 :: rest => Heap.meld (Heap.meld h1 h2) (Heap.mergePairs rest)

/-- `BinaryHeap::pop`: remove and return a maximal element. -/
def Heap.pop : Heap → Option (State × Heap)
  | .empty => none
  | .node a ca => some (a, Heap.mergePairs ca)

/-- `BinaryHeap::extend`. -/
def Heap.extendList (h : Heap) (l : List State) : Heap :=
  l.foldl (fun h s => Heap.insert s h) h

/-- Key of a `(Position, Direction)` pair for the visited set. -/
def sdKey (p : Position) (d : Direction) : Nat × Nat × Nat :=
  (p.row, p.col, match d with | .Up => 0 | .Down => 1 | .Left => 2 | .Right => 3)

/-- Lexicographic comparison of visited-set keys. -/
def keyCmp (a b : Nat × Nat × Nat) : Ordering :=
  (compare a.1 b.1).then ((compare a.2.1 b.2.1).then (compare a.2.2 b.2.2))

/-- Model of `HashSet<(Position, Direction)>`: an (unbalanced) binary
search tree over the injective `sdKey` encoding; only its set semantics
matter. -/
inductive SeenTree
  | leaf
  | branch (l : SeenTree) (k : Nat × Nat × Nat) (r : SeenTree)

/-- `HashSet::contains`. -/
def SeenTree.member (k : Nat × Nat × Nat) : SeenTree → Bool
  | .leaf => false
  | .branch l k' r =>
    match keyCmp k k' with
    | .lt => SeenTree.member k l
    | .eq => true
    | .gt => SeenTree.member k r

/-- `HashSet::insert` (as a set update; the returned boolean of the source
is modelled by a separate `member` test before the insertion). -/
def SeenTree.insert (k : Nat × Nat × Nat) : SeenTree → SeenTree
  | .leaf => .branch .leaf k .leaf
  | .branch l k' r =>
    match keyCmp k k' with
    | .lt => .branch (SeenTree.insert k l) k' r
    | .eq => .branch l k' r
    | .gt => .branch l k' (SeenTree.insert k r)

/-- The value `u32::MAX` returned by `get_minimal_heat_loss` when the queue
empties without the target having been popped (day_17.rs line 143). -/
def u32MAX : Nat := 4294967295

/-- The `while let Some(state) = heap.pop()` loop of
`get_minimal_heat_loss` (day_17.rs lines 134-142), indexed by an explicit
pop budget so that a run can be replayed and checked in bounded segments:
pop a maximal state; skip it if its `(position, direction)` pair was
already settled; answer (`Sum.inr`) its heat loss if it sits on the target
cell; otherwise extend the heap with its successors.  `Sum.inr u32MAX` is
the source's return value for an emptied queue; `Sum.inl` carries the
visited set and heap after exactly `fuel` pops (the loop itself never
stops there: `get_minimal_heat_loss` runs it with a budget larger than the
total number of insertions, which bounds the number of pops). -/
def goSteps (grid : List (List Nat)) (lo hi height width : Nat) :
    Nat → SeenTree → Heap → (SeenTree × Heap) ⊕ Nat
  | 0, seen, heap => .inl (seen, heap)
  | fuel + 1, seen, heap =>
    match Heap.pop heap with
    | none => .inr u32MAX
    | some (state, heap') =>
      if SeenTree.member (sdKey state.position state.direction) seen then
        goSteps grid lo hi height width fuel seen heap'
      else
        if state.position.row = height - 1 ∧ state.position.col = width - 1 then
          .inr state.heat_loss
        else
          goSteps grid lo hi height width fuel
            (SeenTree.insert (sdKey state.position state.direction) seen)
            (heap'.extendList (state.get_next_states grid lo hi))

/-- Pop budget for the search loop: at most `4 * height * width` states are
settled, each settling inserts at most `2 * (hi + 1)` successors, and every
pop consumes one insertion (plus the two initial states). -/
def heatLossFuel (height width hi : Nat) : Nat :=
  8 * height * width * (hi + 1) + 3

/-- The two initial states of `get_minimal_heat_loss` (day_17.rs lines
128-130): the origin cell facing `Right` and `Down`, cost 0. -/
def initialHeap : Heap :=
  Heap.extendList Heap.empty
    [ { position := { row := 0, col := 0 }, direction := Direction.Right, heat_loss := 0 }
    , { position := { row := 0, col := 0 }, direction := Direction.Down, heat_loss := 0 } ]

/-- `get_minimal_heat_loss` (day_17.rs lines 126-144): run the settle loop
from the two initial states.  The `Sum.inl` branch (pop budget exhausted)
is unreachable because the budget exceeds the total number of insertions;
mapping it to `u32MAX` keeps the definition total. -/
def get_minimal_heat_loss (grid : List (List Nat)) (lo hi : Nat) : Nat :=
  let height := grid.length
  let width := (grid.headD []).length
  match goSteps grid lo hi height width (heatLossFuel height width hi)
    SeenTree.leaf initialHeap with
  | .inl _ => u32MAX
  | .inr v => v

/-- The day-17 puzzle structure: the digit grid. -/
structure Puzzle where
  grid : List (List Nat)
deriving DecidableEq, Repr

/-- `Puzzle::part_1` of day_17.rs (lines 34-36): run lengths 1..=3. -/
def Puzzle.part_1 (p : Puzzle) : String :=
  toString (get_minimal_heat_loss p.grid 1 3)

/-- `Puzzle::part_2` of day_17.rs (lines 38-40): run lengths 4..=10. -/
def Puzzle.part_2 (p : Puzzle) : String :=
  toString (get_minimal_heat_loss p.grid 4 10)

/-- The parsed 13x13 day-17 example grid, exactly the structure asserted by
the `new` test of day_17.rs (lines 164-180). -/
def examplePuzzle : Puzzle :=
  { grid :=
      [ [2, 4, 1, 3, 4, 3, 2, 3, 1, 1, 3, 2, 3]
      , [3, 2, 1, 5, 4, 5, 3, 5, 3, 5, 6, 2, 3]
      , [3, 2, 5, 5, 2, 4, 5, 6, 5, 4, 2, 5, 4]
      , [3, 4, 4, 6, 5, 8, 5, 8, 4, 5, 4, 5, 2]
      , [4, 5, 4, 6, 6, 5, 7, 8, 6, 7, 5, 3, 6]
      , [1, 4, 3, 8, 5, 9, 8, 7, 9, 8, 4, 5, 4]
      , [4, 4, 5, 7, 8, 7, 6, 9, 8, 7, 7, 6, 6]
      , [3, 6, 3, 7, 8, 7, 7, 9, 7, 9, 6, 5, 3]
      , [4, 6, 5, 4, 9, 6, 7, 9, 8, 6, 8, 8, 7]
      , [4, 5, 6, 4, 6, 7, 9, 9, 8, 6, 4, 5, 3]
      , [1, 2, 2, 4, 6, 8, 6, 8, 6, 5, 5, 6, 3]
      , [2, 5, 4, 6, 5, 4, 8, 8, 8, 7, 7, 3, 5]
      , [4, 3, 2, 2, 6, 7, 4, 6, 5, 5, 5, 3, 3] ] }

/-- The displaced coordinates of `get_at` as integers, for stating the
bounds contract: the row/column the move would reach, before any
clamping. -/
def displaced (p : Position) (distance : Nat) : Direction → Int × Int
  | .Up => ((p.row : Int) - (distance : Int), (p.col : Int))
  | .Down => ((p.row : Int) + (distance : Int), (p.col : Int))
  | .Left => ((p.row : Int), (p.col : Int) - (distance : Int))
  | .Right => ((p.row : Int), (p.col : Int) + (distance : Int))

/-- A displaced cell lies outside the `height`/`width` grid. -/
def outsideGrid (height width : Nat) (rc : Int × Int) : Prop :=
  rc.1 < 0 ∨ rc.2 < 0 ∨ (height : Int) ≤ rc.1 ∨ (width : Int) ≤ rc.2

/-- The per-input bounds contract claimed for `get_at`: `None` exactly when
the displaced cell would lie outside the grid, `Some` of the displaced cell
otherwise. -/
def getAtSpec (p : Position) (distance : Nat) (direction : Direction)
    (height width : Nat) : Prop :=
  (outsideGrid height width (displaced p distance direction) →
    p.get_at distance direction height width = none) ∧
  (¬outsideGrid height width (displaced p distance direction) →
    p.get_at distance direction height width =
      some { row := (displaced p distance direction).1.toNat
           , col := (displaced p distance direction).2.toNat })

/-- The A*-style priority actually used by the source ordering:
accumulated cost minus the coordinate sum (over the integers). -/
def stateKey (s : State) : Int :=
  (s.heat_loss : Int) - (s.position.row : Int) - (s.position.col : Int)

/-- Simulation snapshot: visited set after segment 0 of the day-17 a-run. -/
def d17aSeen1 : SeenTree := (.branch (.branch .leaf (0, 0, 0) .leaf) (0, 0, 1) (.branch (.branch .leaf (0, 0, 2) .leaf) (0, 0, 3) (.branch (.branch (.branch .leaf (0, 1, 0) .leaf) (0, 1, 1) (.branch (.branch (.branch (.branch .leaf (0, 1, 2) .leaf) (0, 1, 3) .leaf) (0, 2, 0) .leaf) (0, 2, 1) (.branch (.branch .leaf (0, 2, 2) .leaf) (0, 2, 3) (.branch (.branch .leaf (0, 3, 0) .leaf) (0, 3, 1) (.branch (.branch (.branch (.branch (.branch .leaf (0, 3, 2) .leaf) (0, 3, 3) .leaf) (0, 4, 0) .leaf) (0, 4, 1) (.branch (.branch (.branch (.branch .leaf (0, 4, 2) .leaf) (0, 4, 3) .leaf) (0, 5, 0) .leaf) (0, 5, 1) .leaf)) (1, 0, 0) (.branch .leaf (1, 0, 1) .leaf)))))) (1, 0, 2) (.branch .leaf (1, 0, 3) (.branch (.branch .leaf (1, 1, 0) .leaf) (1, 1, 1) (.branch (.branch (.branch (.branch .leaf (1, 1, 2) (.branch .leaf (1, 1, 3) .leaf)) (1, 2, 0) .leaf) (1, 2, 1) .leaf) (1, 2, 2) (.branch .leaf (1, 2, 3) (.branch (.branch (.branch .leaf (1, 3, 0) .leaf) (1, 3, 1) (.branch (.branch .leaf (1, 3, 2) (.branch .leaf (1, 3, 3) (.branch (.branch .leaf (1, 4, 0) .leaf) (1, 4, 1) (.branch .leaf (1, 4, 2) (.branch .leaf (1, 4, 3) (.branch (.branch .leaf (1, 5, 0) .leaf) (1, 5, 1) (.branch .leaf (1, 5, 2) (.branch .leaf (1, 5, 3) .leaf)))))))) (2, 0, 0) (.branch .leaf (2, 0, 1) .leaf))) (2, 0, 2) (.branch .leaf (2, 0, 3) (.branch (.branch (.branch .leaf (2, 1, 0) .leaf) (2, 1, 1) .leaf) (2, 1, 2) (.branch .leaf (2, 1, 3) (.branch (.branch (.branch (.branch .leaf (2, 2, 0) .leaf) (2, 2, 1) .leaf) (2, 2, 2) (.branch .leaf (2, 2, 3) (.branch (.branch (.branch .leaf (2, 3, 0) .leaf) (2, 3, 1) (.branch .leaf (2, 3, 2) (.branch .leaf (2, 3, 3) (.branch (.branch (.branch .leaf (2, 4, 0) .leaf) (2, 4, 1) .leaf) (2, 4, 2) (.branch .leaf (2, 4, 3) (.branch (.branch .leaf (2, 5, 0) .leaf) (2, 5, 1) .leaf)))))) (3, 0, 0) (.branch .leaf (3, 0, 1) .leaf)))) (3, 0, 2) (.branch .leaf (3, 0, 3) (.branch (.branch (.branch .leaf (3, 1, 0) .leaf) (3, 1, 1) .leaf) (3, 1, 2) (.branch .leaf (3, 1, 3) (.branch (.branch .leaf (3, 2, 0) .leaf) (3, 2, 1) (.branch .leaf (3, 2, 2) (.branch .leaf (3, 2, 3) (.branch (.branch (.branch (.branch .leaf (3, 3, 0) .leaf) (3, 3, 1) (.branch (.branch .leaf (3, 3, 2) (.branch .leaf (3, 3, 3) .leaf)) (3, 4, 2) (.branch .leaf (3, 4, 3) (.branch .leaf (4, 0, 0) (.branch .leaf (4, 0, 1) .leaf))))) (4, 0, 2) (.branch .leaf (4, 0, 3) (.branch (.branch .leaf (4, 1, 0) .leaf) (4, 1, 1) .leaf))) (4, 1, 2) (.branch .leaf (4, 1, 3) (.branch (.branch (.branch (.branch .leaf (4, 2, 0) .leaf) (4, 2, 1) .leaf) (4, 2, 2) (.branch .leaf (4, 2, 3) (.branch .leaf (5, 0, 0) (.branch .leaf (5, 0, 1) .leaf)))) (5, 0, 2) (.branch .leaf (5, 0, 3) (.branch (.branch (.branch .leaf (5, 1, 0) .leaf) (5, 1, 1) .leaf) (5, 1, 2) (.branch .leaf (5, 1, 3) (.branch .leaf (5, 2, 2) (.branch .leaf (5, 2, 3) .leaf))))))))))))))))))))))))))

/-- Simulation snapshot: heap after segment 0 of the day-17 a-run. -/
def d17aHeap1 : Heap := (.node ⟨⟨0, 6⟩, .Down, 23⟩ [(.node ⟨⟨1, 5⟩, .Down, 23⟩ [(.node ⟨⟨3, 4⟩, .Left, 25⟩ [(.node ⟨⟨6, 2⟩, .Left, 28⟩ [(.node ⟨⟨3, 5⟩, .Left, 32⟩ [(.node ⟨⟨4, 5⟩, .Left, 37⟩ [(.node ⟨⟨4, 5⟩, .Right, 37⟩ [])]), (.node ⟨⟨3, 5⟩, .Right, 32⟩ [])]), (.node ⟨⟨7, 2⟩, .Left, 31⟩ [(.node ⟨⟨7, 2⟩, .Right, 31⟩ [])]), (.node ⟨⟨6, 2⟩, .Right, 28⟩ [])]), (.node ⟨⟨3, 4⟩, .Right, 25⟩ [])]), (.node ⟨⟨1, 0⟩, .Up, 19⟩ [(.node ⟨⟨0, 4⟩, .Right, 26⟩ [(.node ⟨⟨0, 4⟩, .Left, 26⟩ [])]), (.node ⟨⟨3, 3⟩, .Left, 24⟩ [(.node ⟨⟨2, 6⟩, .Down, 27⟩ [(.node ⟨⟨0, 3⟩, .Right, 24⟩ [(.node ⟨⟨0, 3⟩, .Left, 24⟩ [])]), (.node ⟨⟨2, 6⟩, .Up, 27⟩ [])]), (.node ⟨⟨1, 6⟩, .Down, 25⟩ [(.node ⟨⟨6, 1⟩, .Left, 26⟩ [(.node ⟨⟨1, 4⟩, .Up, 26⟩ [(.node ⟨⟨1, 3⟩, .Up, 31⟩ [(.node ⟨⟨1, 2⟩, .Up, 32⟩ [(.node ⟨⟨1, 2⟩, .Down, 32⟩ [])]), (.node ⟨⟨1, 3⟩, .Down, 31⟩ [])]), (.node ⟨⟨3, 1⟩, .Right, 31⟩ [(.node ⟨⟨2, 1⟩, .Right, 33⟩ [(.node ⟨⟨2, 1⟩, .Left, 33⟩ [])]), (.node ⟨⟨3, 1⟩, .Left, 31⟩ [])]), (.node ⟨⟨1, 4⟩, .Down, 26⟩ [])]), (.node ⟨⟨6, 1⟩, .Right, 26⟩ [])]), (.node ⟨⟨1, 7⟩, .Down, 30⟩ [(.node ⟨⟨1, 8⟩, .Down, 33⟩ [(.node ⟨⟨1, 8⟩, .Up, 33⟩ [])]), (.node ⟨⟨1, 7⟩, .Up, 30⟩ [])]), (.node ⟨⟨1, 6⟩, .Up, 25⟩ [])]), (.node ⟨⟨1, 6⟩, .Down, 25⟩ [(.node ⟨⟨3, 4⟩, .Down, 27⟩ [(.node ⟨⟨4, 3⟩, .Left, 28⟩ [(.node ⟨⟨5, 3⟩, .Left, 36⟩ [(.node ⟨⟨5, 3⟩, .Right, 36⟩ [])]), (.node ⟨⟨4, 3⟩, .Right, 28⟩ [])]), (.node ⟨⟨3, 5⟩, .Down, 35⟩ [(.node ⟨⟨3, 6⟩, .Down, 40⟩ [(.node ⟨⟨3, 6⟩, .Up, 40⟩ [])]), (.node ⟨⟨3, 5⟩, .Up, 35⟩ [])]), (.node ⟨⟨3, 2⟩, .Up, 26⟩ [(.node ⟨⟨3, 1⟩, .Up, 30⟩ [(.node ⟨⟨3, 0⟩, .Up, 33⟩ [(.node ⟨⟨3, 0⟩, .Down, 33⟩ [])]), (.node ⟨⟨3, 1⟩, .Down, 30⟩ [])]), (.node ⟨⟨7, 1⟩, .Left, 32⟩ [(.node ⟨⟨8, 1⟩, .Left, 38⟩ [(.node ⟨⟨8, 1⟩, .Right, 38⟩ [])]), (.node ⟨⟨7, 1⟩, .Right, 32⟩ [])]), (.node ⟨⟨3, 2⟩, .Down, 26⟩ [])]), (.node ⟨⟨3, 4⟩, .Up, 27⟩ [])]), (.node ⟨⟨4, 1⟩, .Right, 27⟩ [(.node ⟨⟨4, 1⟩, .Left, 27⟩ [])]), (.node ⟨⟨4, 4⟩, .Left, 29⟩ [(.node ⟨⟨5, 4⟩, .Left, 34⟩ [(.node ⟨⟨5, 4⟩, .Right, 34⟩ [])]), (.node ⟨⟨4, 4⟩, .Right, 29⟩ [])]), (.node ⟨⟨1, 6⟩, .Up, 25⟩ [])]), (.node ⟨⟨1, 6⟩, .Down, 26⟩ [(.node ⟨⟨2, 5⟩, .Left, 26⟩ [(.node ⟨⟨3, 5⟩, .Left, 34⟩ [(.node ⟨⟨3, 5⟩, .Right, 34⟩ [])]), (.node ⟨⟨2, 5⟩, .Right, 26⟩ [])]), (.node ⟨⟨1, 7⟩, .Down, 31⟩ [(.node ⟨⟨1, 7⟩, .Up, 31⟩ [])]), (.node ⟨⟨1, 6⟩, .Up, 26⟩ [])]), (.node ⟨⟨4, 3⟩, .Down, 26⟩ [(.node ⟨⟨2, 1⟩, .Up, 23⟩ [(.node ⟨⟨2, 0⟩, .Up, 26⟩ [(.node ⟨⟨2, 0⟩, .Down, 26⟩ [])]), (.node ⟨⟨2, 1⟩, .Down, 23⟩ [])]), (.node ⟨⟨4, 4⟩, .Down, 32⟩ [(.node ⟨⟨4, 4⟩, .Up, 32⟩ [])]), (.node ⟨⟨4, 3⟩, .Up, 26⟩ [])]), (.node ⟨⟨5, 2⟩, .Down, 25⟩ [(.node ⟨⟨1, 2⟩, .Up, 24⟩ [(.node ⟨⟨1, 1⟩, .Up, 26⟩ [(.node ⟨⟨1, 1⟩, .Down, 26⟩ [])]), (.node ⟨⟨1, 2⟩, .Down, 24⟩ [])]), (.node ⟨⟨5, 3⟩, .Down, 33⟩ [(.node ⟨⟨5, 3⟩, .Up, 33⟩ [])]), (.node ⟨⟨5, 2⟩, .Up, 25⟩ [])]), (.node ⟨⟨0, 1⟩, .Right, 21⟩ [(.node ⟨⟨0, 1⟩, .Left, 21⟩ [])]), (.node ⟨⟨3, 3⟩, .Right, 24⟩ [])]), (.node ⟨⟨4, 3⟩, .Down, 25⟩ [(.node ⟨⟨4, 1⟩, .Up, 24⟩ [(.node ⟨⟨4, 0⟩, .Up, 28⟩ [(.node ⟨⟨4, 0⟩, .Down, 28⟩ [])]), (.node ⟨⟨4, 1⟩, .Down, 24⟩ [])]), (.node ⟨⟨4, 3⟩, .Up, 25⟩ [])]), (.node ⟨⟨1, 0⟩, .Down, 19⟩ [])]), (.node ⟨⟨5, 1⟩, .Left, 26⟩ [(.node ⟨⟨6, 1⟩, .Left, 30⟩ [(.node ⟨⟨7, 1⟩, .Left, 36⟩ [(.node ⟨⟨7, 1⟩, .Right, 36⟩ [])]), (.node ⟨⟨6, 1⟩, .Right, 30⟩ [])]), (.node ⟨⟨3, 0⟩, .Right, 29⟩ [(.node ⟨⟨2, 0⟩, .Right, 32⟩ [(.node ⟨⟨2, 0⟩, .Left, 32⟩ [])]), (.node ⟨⟨3, 0⟩, .Left, 29⟩ [])]), (.node ⟨⟨5, 1⟩, .Right, 26⟩ [])]), (.node ⟨⟨5, 3⟩, .Left, 35⟩ [(.node ⟨⟨6, 3⟩, .Left, 42⟩ [(.node ⟨⟨6, 3⟩, .Right, 42⟩ [])]), (.node ⟨⟨5, 3⟩, .Right, 35⟩ [])]), (.node ⟨⟨6, 2⟩, .Left, 27⟩ [(.node ⟨⟨4, 4⟩, .Down, 31⟩ [(.node ⟨⟨4, 5⟩, .Down, 36⟩ [(.node ⟨⟨4, 5⟩, .Up, 36⟩ [])]), (.node ⟨⟨4, 4⟩, .Up, 31⟩ [])]), (.node ⟨⟨3, 5⟩, .Down, 30⟩ [(.node ⟨⟨3, 5⟩, .Up, 30⟩ [])]), (.node ⟨⟨4, 4⟩, .Left, 28⟩ [(.node ⟨⟨4, 4⟩, .Right, 28⟩ [])]), (.node ⟨⟨6, 2⟩, .Right, 27⟩ [])]), (.node ⟨⟨2, 5⟩, .Left, 24⟩ [(.node ⟨⟨0, 5⟩, .Right, 23⟩ [(.node ⟨⟨2, 6⟩, .Down, 26⟩ [(.node ⟨⟨3, 2⟩, .Right, 24⟩ [(.node ⟨⟨3, 2⟩, .Left, 24⟩ [])]), (.node ⟨⟨2, 2⟩, .Up, 27⟩ [(.node ⟨⟨2, 1⟩, .Up, 29⟩ [(.node ⟨⟨2, 1⟩, .Down, 29⟩ [])]), (.node ⟨⟨2, 2⟩, .Down, 27⟩ [])]), (.node ⟨⟨2, 7⟩, .Down, 32⟩ [(.node ⟨⟨2, 7⟩, .Up, 32⟩ [])]), (.node ⟨⟨2, 6⟩, .Up, 26⟩ [])]), (.node ⟨⟨0, 5⟩, .Left, 23⟩ [])]), (.node ⟨⟨1, 3⟩, .Up, 23⟩ [(.node ⟨⟨1, 3⟩, .Down, 23⟩ [])]), (.node ⟨⟨2, 5⟩, .Right, 24⟩ [])]), (.node ⟨⟨5, 2⟩, .Down, 24⟩ [(.node ⟨⟨1, 5⟩, .Right, 26⟩ [(.node ⟨⟨3, 5⟩, .Left, 29⟩ [(.node ⟨⟨4, 5⟩, .Left, 34⟩ [(.node ⟨⟨5, 5⟩, .Left, 43⟩ [(.node ⟨⟨5, 5⟩, .Right, 43⟩ [])]), (.node ⟨⟨4, 5⟩, .Right, 34⟩ [])]), (.node ⟨⟨2, 2⟩, .Right, 29⟩ [(.node ⟨⟨1, 2⟩, .Right, 30⟩ [(.node ⟨⟨1, 2⟩, .Left, 30⟩ [])]), (.node ⟨⟨2, 2⟩, .Left, 29⟩ [])]), (.node ⟨⟨3, 5⟩, .Right, 29⟩ [])]), (.node ⟨⟨0, 5⟩, .Right, 29⟩ [(.node ⟨⟨0, 5⟩, .Left, 29⟩ [])]), (.node ⟨⟨1, 5⟩, .Left, 26⟩ [])]), (.node ⟨⟨0, 1⟩, .Up, 19⟩ [(.node ⟨⟨0, 3⟩, .Up, 22⟩ [(.node ⟨⟨3, 0⟩, .Up, 22⟩ [(.node ⟨⟨3, 0⟩, .Down, 22⟩ [])]), (.node ⟨⟨0, 3⟩, .Down, 22⟩ [])]), (.node ⟨⟨1, 0⟩, .Right, 20⟩ [(.node ⟨⟨0, 0⟩, .Right, 22⟩ [(.node ⟨⟨0, 0⟩, .Left, 22⟩ [])]), (.node ⟨⟨1, 0⟩, .Left, 20⟩ [])]), (.node ⟨⟨0, 0⟩, .Up, 21⟩ [(.node ⟨⟨0, 0⟩, .Down, 21⟩ [])]), (.node ⟨⟨0, 1⟩, .Down, 19⟩ [])]), (.node ⟨⟨5, 2⟩, .Up, 24⟩ [])]), (.node ⟨⟨6, 0⟩, .Left, 23⟩ [(.node ⟨⟨6, 0⟩, .Right, 23⟩ [])]), (.node ⟨⟨1, 5⟩, .Up, 23⟩ [])]), (.node ⟨⟨3, 1⟩, .Right, 26⟩ [(.node ⟨⟨2, 1⟩, .Right, 28⟩ [(.node ⟨⟨1, 1⟩, .Right, 30⟩ [(.node ⟨⟨1, 1⟩, .Left, 30⟩ [])]), (.node ⟨⟨2, 1⟩, .Left, 28⟩ [])]), (.node ⟨⟨7, 0⟩, .Left, 29⟩ [(.node ⟨⟨8, 0⟩, .Left, 33⟩ [(.node ⟨⟨8, 0⟩, .Right, 33⟩ [])]), (.node ⟨⟨7, 0⟩, .Right, 29⟩ [])]), (.node ⟨⟨3, 1⟩, .Left, 26⟩ [])]), (.node ⟨⟨6, 0⟩, .Left, 26⟩ [(.node ⟨⟨6, 0⟩, .Right, 26⟩ [])]), (.node ⟨⟨3, 3⟩, .Down, 23⟩ [(.node ⟨⟨1, 2⟩, .Right, 21⟩ [(.node ⟨⟨0, 2⟩, .Up, 23⟩ [(.node ⟨⟨0, 1⟩, .Up, 27⟩ [(.node ⟨⟨0, 1⟩, .Down, 27⟩ [])]), (.node ⟨⟨0, 2⟩, .Down, 23⟩ [])]), (.node ⟨⟨4, 3⟩, .Left, 27⟩ [(.node ⟨⟨4, 3⟩, .Right, 27⟩ [])]), (.node ⟨⟨3, 4⟩, .Down, 26⟩ [(.node ⟨⟨3, 5⟩, .Down, 34⟩ [(.node ⟨⟨3, 5⟩, .Up, 34⟩ [])]), (.node ⟨⟨3, 4⟩, .Up, 26⟩ [])]), (.node ⟨⟨0, 2⟩, .Right, 22⟩ [(.node ⟨⟨0, 2⟩, .Left, 22⟩ [])]), (.node ⟨⟨1, 2⟩, .Left, 21⟩ [])]), (.node ⟨⟨3, 4⟩, .Down, 26⟩ [(.node ⟨⟨5, 1⟩, .Up, 26⟩ [(.node ⟨⟨2, 3⟩, .Right, 26⟩ [(.node ⟨⟨3, 2⟩, .Up, 32⟩ [(.node ⟨⟨3, 1⟩, .Up, 36⟩ [(.node ⟨⟨3, 1⟩, .Down, 36⟩ [])]), (.node ⟨⟨3, 2⟩, .Down, 32⟩ [])]), (.node ⟨⟨3, 3⟩, .Up, 28⟩ [(.node ⟨⟨3, 3⟩, .Down, 28⟩ [])]), (.node ⟨⟨1, 3⟩, .Right, 31⟩ [(.node ⟨⟨0, 3⟩, .Right, 34⟩ [(.node ⟨⟨0, 3⟩, .Left, 34⟩ [])]), (.node ⟨⟨1, 3⟩, .Left, 31⟩ [])]), (.node ⟨⟨5, 3⟩, .Down, 32⟩ [(.node ⟨⟨5, 4⟩, .Down, 37⟩ [(.node ⟨⟨5, 4⟩, .Up, 37⟩ [])]), (.node ⟨⟨5, 3⟩, .Up, 32⟩ [])]), (.node ⟨⟨2, 3⟩, .Left, 26⟩ [])]), (.node ⟨⟨5, 0⟩, .Up, 27⟩ [(.node ⟨⟨5, 0⟩, .Down, 27⟩ [])]), (.node ⟨⟨5, 1⟩, .Down, 26⟩ [])]), (.node ⟨⟨3, 4⟩, .Up, 26⟩ [])]), (.node ⟨⟨4, 3⟩, .Left, 28⟩ [(.node ⟨⟨4, 3⟩, .Right, 28⟩ [])]), (.node ⟨⟨3, 3⟩, .Up, 23⟩ [])]), (.node ⟨⟨4, 0⟩, .Right, 26⟩ [(.node ⟨⟨4, 0⟩, .Left, 26⟩ [])]), (.node ⟨⟨4, 2⟩, .Down, 26⟩ [(.node ⟨⟨4, 3⟩, .Down, 32⟩ [(.node ⟨⟨4, 3⟩, .Up, 32⟩ [])]), (.node ⟨⟨4, 2⟩, .Up, 26⟩ [])]), (.node ⟨⟨6, 0⟩, .Left, 25⟩ [(.node ⟨⟨6, 1⟩, .Left, 26⟩ [(.node ⟨⟨6, 1⟩, .Right, 26⟩ [])]), (.node ⟨⟨3, 0⟩, .Right, 23⟩ [(.node ⟨⟨5, 3⟩, .Down, 30⟩ [(.node ⟨⟨3, 6⟩, .Down, 35⟩ [(.node ⟨⟨3, 7⟩, .Down, 43⟩ [(.node ⟨⟨3, 7⟩, .Up, 43⟩ [])]), (.node ⟨⟨3, 6⟩, .Up, 35⟩ [])]), (.node ⟨⟨5, 3⟩, .Up, 30⟩ [])]), (.node ⟨⟨2, 0⟩, .Right, 26⟩ [(.node ⟨⟨1, 0⟩, .Right, 29⟩ [(.node ⟨⟨1, 0⟩, .Left, 29⟩ [])]), (.node ⟨⟨2, 0⟩, .Left, 26⟩ [])]), (.node ⟨⟨5, 4⟩, .Down, 35⟩ [(.node ⟨⟨5, 5⟩, .Down, 44⟩ [(.node ⟨⟨5, 5⟩, .Up, 44⟩ [])]), (.node ⟨⟨5, 4⟩, .Up, 35⟩ [])]), (.node ⟨⟨3, 0⟩, .Left, 23⟩ [])]), (.node ⟨⟨7, 0⟩, .Left, 28⟩ [(.node ⟨⟨7, 0⟩, .Right, 28⟩ [])]), (.node ⟨⟨6, 0⟩, .Right, 25⟩ [])]), (.node ⟨⟨0, 6⟩, .Down, 24⟩ [(.node ⟨⟨0, 7⟩, .Down, 27⟩ [(.node ⟨⟨0, 7⟩, .Up, 27⟩ [])]), (.node ⟨⟨0, 6⟩, .Up, 24⟩ [])]), (.node ⟨⟨0, 6⟩, .Up, 23⟩ [])])

/-- Simulation snapshot: visited set after segment 1 of the day-17 a-run. -/
def d17aSeen2 : SeenTree := (.branch (.branch .leaf (0, 0, 0) .leaf) (0, 0, 1) (.branch (.branch .leaf (0, 0, 2) .leaf) (0, 0, 3) (.branch (.branch (.branch .leaf (0, 1, 0) .leaf) (0, 1, 1) (.branch (.branch (.branch (.branch .leaf (0, 1, 2) .leaf) (0, 1, 3) .leaf) (0, 2, 0) .leaf) (0, 2, 1) (.branch (.branch .leaf (0, 2, 2) .leaf) (0, 2, 3) (.branch (.branch .leaf (0, 3, 0) .leaf) (0, 3, 1) (.branch (.branch (.branch (.branch (.branch .leaf (0, 3, 2) .leaf) (0, 3, 3) .leaf) (0, 4, 0) .leaf) (0, 4, 1) (.branch (.branch (.branch (.branch .leaf (0, 4, 2) .leaf) (0, 4, 3) .leaf) (0, 5, 0) .leaf) (0, 5, 1) (.branch (.branch (.branch (.branch .leaf (0, 5, 2) .leaf) (0, 5, 3) .leaf) (0, 6, 0) .leaf) (0, 6, 1) (.branch (.branch (.branch (.branch .leaf (0, 6, 2) .leaf) (0, 6, 3) .leaf) (0, 7, 0) .leaf) (0, 7, 1) (.branch (.branch .leaf (0, 8, 0) .leaf) (0, 8, 1) (.branch (.branch .leaf (0, 9, 0) .leaf) (0, 9, 1) .leaf)))))) (1, 0, 0) (.branch .leaf (1, 0, 1) .leaf)))))) (1, 0, 2) (.branch .leaf (1, 0, 3) (.branch (.branch .leaf (1, 1, 0) .leaf) (1, 1, 1) (.branch (.branch (.branch (.branch .leaf (1, 1, 2) (.branch .leaf (1, 1, 3) .leaf)) (1, 2, 0) .leaf) (1, 2, 1) .leaf) (1, 2, 2) (.branch .leaf (1, 2, 3) (.branch (.branch (.branch .leaf (1, 3, 0) .leaf) (1, 3, 1) (.branch (.branch .leaf (1, 3, 2) (.branch .leaf (1, 3, 3) (.branch (.branch .leaf (1, 4, 0) .leaf) (1, 4, 1) (.branch .leaf (1, 4, 2) (.branch .leaf (1, 4, 3) (.branch (.branch .leaf (1, 5, 0) .leaf) (1, 5, 1) (.branch .leaf (1, 5, 2) (.branch .leaf (1, 5, 3) (.branch (.branch .leaf (1, 6, 0) .leaf) (1, 6, 1) (.branch .leaf (1, 6, 2) (.branch .leaf (1, 6, 3) (.branch (.branch .leaf (1, 7, 0) .leaf) (1, 7, 1) (.branch (.branch .leaf (1, 7, 2) (.branch .leaf (1, 7, 3) (.branch (.branch .leaf (1, 8, 0) .leaf) (1, 8, 1) .leaf))) (1, 8, 2) (.branch .leaf (1, 8, 3) .leaf)))))))))))))) (2, 0, 0) (.branch .leaf (2, 0, 1) .leaf))) (2, 0, 2) (.branch .leaf (2, 0, 3) (.branch (.branch (.branch .leaf (2, 1, 0) .leaf) (2, 1, 1) .leaf) (2, 1, 2) (.branch .leaf (2, 1, 3) (.branch (.branch (.branch (.branch .leaf (2, 2, 0) .leaf) (2, 2, 1) .leaf) (2, 2, 2) (.branch .leaf (2, 2, 3) (.branch (.branch (.branch .leaf (2, 3, 0) .leaf) (2, 3, 1) (.branch .leaf (2, 3, 2) (.branch .leaf (2, 3, 3) (.branch (.branch (.branch .leaf (2, 4, 0) .leaf) (2, 4, 1) .leaf) (2, 4, 2) (.branch .leaf (2, 4, 3) (.branch (.branch .leaf (2, 5, 0) .leaf) (2, 5, 1) (.branch .leaf (2, 5, 2) (.branch .leaf (2, 5, 3) (.branch (.branch .leaf (2, 6, 0) .leaf) (2, 6, 1) (.branch .leaf (2, 6, 2) (.branch .leaf (2, 6, 3) (.branch (.branch .leaf (2, 7, 0) .leaf) (2, 7, 1) .leaf)))))))))))) (3, 0, 0) (.branch .leaf (3, 0, 1) .leaf)))) (3, 0, 2) (.branch .leaf (3, 0, 3) (.branch (.branch (.branch .leaf (3, 1, 0) .leaf) (3, 1, 1) .leaf) (3, 1, 2) (.branch .leaf (3, 1, 3) (.branch (.branch .leaf (3, 2, 0) .leaf) (3, 2, 1) (.branch .leaf (3, 2, 2) (.branch .leaf (3, 2, 3) (.branch (.branch (.branch (.branch .leaf (3, 3, 0) .leaf) (3, 3, 1) (.branch (.branch .leaf (3, 3, 2) (.branch .leaf (3, 3, 3) (.branch (.branch .leaf (3, 4, 0) .leaf) (3, 4, 1) .leaf))) (3, 4, 2) (.branch .leaf (3, 4, 3) (.branch (.branch (.branch (.branch .leaf (3, 5, 0) .leaf) (3, 5, 1) .leaf) (3, 5, 2) (.branch .leaf (3, 5, 3) (.branch .leaf (3, 6, 2) (.branch .leaf (3, 6, 3) .leaf)))) (4, 0, 0) (.branch .leaf (4, 0, 1) .leaf))))) (4, 0, 2) (.branch .leaf (4, 0, 3) (.branch (.branch .leaf (4, 1, 0) .leaf) (4, 1, 1) .leaf))) (4, 1, 2) (.branch .leaf (4, 1, 3) (.branch (.branch (.branch (.branch .leaf (4, 2, 0) .leaf) (4, 2, 1) .leaf) (4, 2, 2) (.branch .leaf (4, 2, 3) (.branch (.branch (.branch .leaf (4, 3, 0) .leaf) (4, 3, 1) (.branch .leaf (4, 3, 2) (.branch .leaf (4, 3, 3) (.branch (.branch (.branch .leaf (4, 4, 0) .leaf) (4, 4, 1) .leaf) (4, 4, 2) (.branch .leaf (4, 4, 3) (.branch (.branch .leaf (4, 5, 0) .leaf) (4, 5, 1) .leaf)))))) (5, 0, 0) (.branch .leaf (5, 0, 1) .leaf)))) (5, 0, 2) (.branch .leaf (5, 0, 3) (.branch (.branch (.branch .leaf (5, 1, 0) .leaf) (5, 1, 1) .leaf) (5, 1, 2) (.branch .leaf (5, 1, 3) (.branch (.branch (.branch .leaf (5, 2, 0) .leaf) (5, 2, 1) .leaf) (5, 2, 2) (.branch .leaf (5, 2, 3) (.branch (.branch (.branch .leaf (5, 3, 0) .leaf) (5, 3, 1) (.branch .leaf (6, 0, 0) (.branch .leaf (6, 0, 1) .leaf))) (6, 0, 2) (.branch .leaf (6, 0, 3) (.branch (.branch (.branch .leaf (6, 1, 0) .leaf) (6, 1, 1) .leaf) (6, 1, 2) (.branch .leaf (6, 1, 3) (.branch (.branch (.branch .leaf (6, 2, 0) .leaf) (6, 2, 1) .leaf) (6, 2, 2) (.branch .leaf (6, 2, 3) (.branch .leaf (7, 0, 2) (.branch .leaf (7, 0, 3) (.branch (.branch .leaf (7, 1, 2) (.branch .leaf (7, 1, 3) .leaf)) (7, 2, 2) (.branch .leaf (7, 2, 3) .leaf))))))))))))))))))))))))))))))))))))

/-- Simulation snapshot: heap after segment 1 of the day-17 a-run. -/
def d17aHeap2 : Heap := (.node ⟨⟨7, 1⟩, .Left, 33⟩ [(.node ⟨⟨5, 3⟩, .Left, 33⟩ [(.node ⟨⟨7, 2⟩, .Left, 34⟩ [(.node ⟨⟨2, 5⟩, .Up, 34⟩ [(.node ⟨⟨6, 3⟩, .Left, 40⟩ [(.node ⟨⟨7, 3⟩, .Left, 47⟩ [(.node ⟨⟨7, 3⟩, .Right, 47⟩ [])]), (.node ⟨⟨6, 3⟩, .Right, 40⟩ [])]), (.node ⟨⟨3, 7⟩, .Left, 44⟩ [(.node ⟨⟨4, 7⟩, .Left, 52⟩ [(.node ⟨⟨4, 7⟩, .Right, 52⟩ [])]), (.node ⟨⟨3, 7⟩, .Right, 44⟩ [])]), (.node ⟨⟨2, 5⟩, .Down, 34⟩ [])]), (.node ⟨⟨4, 5⟩, .Left, 35⟩ [(.node ⟨⟨2, 8⟩, .Left, 37⟩ [(.node ⟨⟨3, 8⟩, .Left, 41⟩ [(.node ⟨⟨3, 8⟩, .Right, 41⟩ [])]), (.node ⟨⟨2, 8⟩, .Right, 37⟩ [])]), (.node ⟨⟨4, 5⟩, .Right, 35⟩ [])]), (.node ⟨⟨5, 2⟩, .Right, 34⟩ [(.node ⟨⟨5, 2⟩, .Left, 34⟩ [])]), (.node ⟨⟨7, 2⟩, .Right, 34⟩ [])]), (.node ⟨⟨7, 1⟩, .Down, 34⟩ [(.node ⟨⟨7, 2⟩, .Down, 37⟩ [(.node ⟨⟨7, 3⟩, .Down, 44⟩ [(.node ⟨⟨7, 3⟩, .Up, 44⟩ [])]), (.node ⟨⟨7, 2⟩, .Up, 37⟩ [])]), (.node ⟨⟨7, 1⟩, .Up, 34⟩ [])]), (.node ⟨⟨5, 3⟩, .Right, 33⟩ [])]), (.node ⟨⟨4, 4⟩, .Down, 33⟩ [(.node ⟨⟨5, 3⟩, .Left, 36⟩ [(.node ⟨⟨5, 3⟩, .Right, 36⟩ [])]), (.node ⟨⟨5, 3⟩, .Down, 33⟩ [(.node ⟨⟨2, 7⟩, .Down, 35⟩ [(.node ⟨⟨2, 7⟩, .Left, 36⟩ [(.node ⟨⟨5, 5⟩, .Left, 44⟩ [(.node ⟨⟨6, 5⟩, .Left, 51⟩ [(.node ⟨⟨6, 5⟩, .Right, 51⟩ [])]), (.node ⟨⟨5, 5⟩, .Right, 44⟩ [])]), (.node ⟨⟨2, 7⟩, .Right, 36⟩ [])]), (.node ⟨⟨3, 2⟩, .Right, 32⟩ [(.node ⟨⟨4, 5⟩, .Left, 37⟩ [(.node ⟨⟨4, 5⟩, .Right, 37⟩ [])]), (.node ⟨⟨2, 2⟩, .Right, 37⟩ [(.node ⟨⟨2, 2⟩, .Left, 37⟩ [])]), (.node ⟨⟨3, 2⟩, .Left, 32⟩ [])]), (.node ⟨⟨6, 3⟩, .Left, 37⟩ [(.node ⟨⟨4, 6⟩, .Left, 38⟩ [(.node ⟨⟨5, 6⟩, .Left, 46⟩ [(.node ⟨⟨5, 6⟩, .Right, 46⟩ [])]), (.node ⟨⟨4, 6⟩, .Right, 38⟩ [])]), (.node ⟨⟨2, 4⟩, .Up, 36⟩ [(.node ⟨⟨2, 3⟩, .Up, 41⟩ [(.node ⟨⟨2, 3⟩, .Down, 41⟩ [])]), (.node ⟨⟨2, 4⟩, .Down, 36⟩ [])]), (.node ⟨⟨6, 3⟩, .Right, 37⟩ [])]), (.node ⟨⟨5, 4⟩, .Down, 35⟩ [(.node ⟨⟨1, 0⟩, .Right, 29⟩ [(.node ⟨⟨1, 0⟩, .Left, 29⟩ [])]), (.node ⟨⟨5, 5⟩, .Down, 44⟩ [(.node ⟨⟨5, 5⟩, .Up, 44⟩ [])]), (.node ⟨⟨5, 4⟩, .Up, 35⟩ [])]), (.node ⟨⟨1, 4⟩, .Up, 35⟩ [(.node ⟨⟨1, 3⟩, .Up, 40⟩ [(.node ⟨⟨1, 3⟩, .Down, 40⟩ [])]), (.node ⟨⟨1, 4⟩, .Down, 35⟩ [])]), (.node ⟨⟨2, 8⟩, .Down, 40⟩ [(.node ⟨⟨2, 8⟩, .Up, 40⟩ [])]), (.node ⟨⟨2, 7⟩, .Up, 35⟩ [])]), (.node ⟨⟨4, 5⟩, .Left, 34⟩ [(.node ⟨⟨1, 2⟩, .Right, 30⟩ [(.node ⟨⟨1, 2⟩, .Left, 30⟩ [])]), (.node ⟨⟨3, 6⟩, .Down, 34⟩ [(.node ⟨⟨3, 6⟩, .Up, 34⟩ [])]), (.node ⟨⟨3, 5⟩, .Down, 34⟩ [(.node ⟨⟨4, 1⟩, .Up, 36⟩ [(.node ⟨⟨4, 0⟩, .Up, 40⟩ [(.node ⟨⟨4, 0⟩, .Down, 40⟩ [])]), (.node ⟨⟨4, 1⟩, .Down, 36⟩ [])]), (.node ⟨⟨3, 5⟩, .Up, 34⟩ [])]), (.node ⟨⟨5, 5⟩, .Left, 43⟩ [(.node ⟨⟨5, 5⟩, .Right, 43⟩ [])]), (.node ⟨⟨4, 5⟩, .Right, 34⟩ [])]), (.node ⟨⟨0, 8⟩, .Right, 34⟩ [(.node ⟨⟨2, 5⟩, .Right, 45⟩ [(.node ⟨⟨1, 5⟩, .Right, 50⟩ [(.node ⟨⟨1, 5⟩, .Left, 50⟩ [])]), (.node ⟨⟨2, 5⟩, .Left, 45⟩ [])]), (.node ⟨⟨3, 5⟩, .Right, 41⟩ [(.node ⟨⟨3, 5⟩, .Left, 41⟩ [])]), (.node ⟨⟨6, 5⟩, .Left, 49⟩ [(.node ⟨⟨7, 5⟩, .Left, 56⟩ [(.node ⟨⟨7, 5⟩, .Right, 56⟩ [])]), (.node ⟨⟨6, 5⟩, .Right, 49⟩ [])]), (.node ⟨⟨0, 8⟩, .Left, 34⟩ [])]), (.node ⟨⟨1, 8⟩, .Down, 34⟩ [(.node ⟨⟨1, 6⟩, .Up, 35⟩ [(.node ⟨⟨1, 6⟩, .Down, 35⟩ [])]), (.node ⟨⟨6, 4⟩, .Down, 42⟩ [(.node ⟨⟨6, 5⟩, .Down, 49⟩ [(.node ⟨⟨6, 5⟩, .Up, 49⟩ [])]), (.node ⟨⟨6, 4⟩, .Up, 42⟩ [])]), (.node ⟨⟨1, 9⟩, .Down, 39⟩ [(.node ⟨⟨1, 9⟩, .Up, 39⟩ [])]), (.node ⟨⟨1, 8⟩, .Up, 34⟩ [])]), (.node ⟨⟨1, 3⟩, .Right, 31⟩ [(.node ⟨⟨3, 2⟩, .Up, 32⟩ [(.node ⟨⟨5, 4⟩, .Down, 37⟩ [(.node ⟨⟨5, 4⟩, .Up, 37⟩ [])]), (.node ⟨⟨3, 1⟩, .Up, 36⟩ [(.node ⟨⟨3, 1⟩, .Down, 36⟩ [])]), (.node ⟨⟨3, 2⟩, .Down, 32⟩ [])]), (.node ⟨⟨3, 4⟩, .Up, 34⟩ [(.node ⟨⟨3, 3⟩, .Up, 40⟩ [(.node ⟨⟨3, 2⟩, .Up, 44⟩ [(.node ⟨⟨3, 2⟩, .Down, 44⟩ [])]), (.node ⟨⟨3, 3⟩, .Down, 40⟩ [])]), (.node ⟨⟨3, 4⟩, .Down, 34⟩ [])]), (.node ⟨⟨0, 3⟩, .Right, 34⟩ [(.node ⟨⟨0, 3⟩, .Left, 34⟩ [])]), (.node ⟨⟨1, 3⟩, .Left, 31⟩ [])]), (.node ⟨⟨6, 3⟩, .Down, 34⟩ [(.node ⟨⟨6, 0⟩, .Up, 35⟩ [(.node ⟨⟨6, 0⟩, .Down, 35⟩ [])]), (.node ⟨⟨6, 3⟩, .Up, 34⟩ [])]), (.node ⟨⟨1, 9⟩, .Down, 37⟩ [(.node ⟨⟨1, 10⟩, .Down, 43⟩ [(.node ⟨⟨1, 11⟩, .Down, 45⟩ [(.node ⟨⟨1, 11⟩, .Up, 45⟩ [])]), (.node ⟨⟨1, 10⟩, .Up, 43⟩ [])]), (.node ⟨⟨1, 7⟩, .Up, 37⟩ [(.node ⟨⟨1, 6⟩, .Up, 40⟩ [(.node ⟨⟨1, 5⟩, .Up, 45⟩ [(.node ⟨⟨1, 5⟩, .Down, 45⟩ [])]), (.node ⟨⟨1, 6⟩, .Down, 40⟩ [])]), (.node ⟨⟨1, 7⟩, .Right, 37⟩ [(.node ⟨⟨0, 7⟩, .Right, 40⟩ [(.node ⟨⟨0, 7⟩, .Left, 40⟩ [])]), (.node ⟨⟨1, 7⟩, .Left, 37⟩ [])]), (.node ⟨⟨1, 7⟩, .Down, 37⟩ [])]), (.node ⟨⟨1, 9⟩, .Up, 37⟩ [])]), (.node ⟨⟨0, 3⟩, .Up, 30⟩ [(.node ⟨⟨3, 7⟩, .Down, 39⟩ [(.node ⟨⟨3, 8⟩, .Down, 43⟩ [(.node ⟨⟨3, 9⟩, .Down, 48⟩ [(.node ⟨⟨3, 9⟩, .Up, 48⟩ [])]), (.node ⟨⟨3, 8⟩, .Up, 43⟩ [])]), (.node ⟨⟨7, 4⟩, .Down, 46⟩ [(.node ⟨⟨7, 5⟩, .Down, 53⟩ [(.node ⟨⟨7, 5⟩, .Up, 53⟩ [])]), (.node ⟨⟨7, 4⟩, .Up, 46⟩ [])]), (.node ⟨⟨3, 7⟩, .Up, 39⟩ [])]), (.node ⟨⟨0, 2⟩, .Up, 31⟩ [(.node ⟨⟨0, 2⟩, .Down, 31⟩ [])]), (.node ⟨⟨0, 3⟩, .Down, 30⟩ [])]), (.node ⟨⟨5, 3⟩, .Up, 33⟩ [])]), (.node ⟨⟨0, 1⟩, .Up, 27⟩ [(.node ⟨⟨2, 1⟩, .Up, 29⟩ [(.node ⟨⟨0, 4⟩, .Up, 34⟩ [(.node ⟨⟨0, 3⟩, .Up, 37⟩ [(.node ⟨⟨0, 3⟩, .Down, 37⟩ [])]), (.node ⟨⟨0, 4⟩, .Down, 34⟩ [])]), (.node ⟨⟨2, 8⟩, .Left, 38⟩ [(.node ⟨⟨3, 8⟩, .Left, 42⟩ [(.node ⟨⟨5, 5⟩, .Left, 42⟩ [(.node ⟨⟨5, 5⟩, .Right, 42⟩ [])]), (.node ⟨⟨4, 8⟩, .Left, 48⟩ [(.node ⟨⟨4, 8⟩, .Right, 48⟩ [])]), (.node ⟨⟨3, 8⟩, .Right, 42⟩ [])]), (.node ⟨⟨1, 9⟩, .Down, 40⟩ [(.node ⟨⟨1, 10⟩, .Down, 46⟩ [(.node ⟨⟨1, 10⟩, .Up, 46⟩ [])]), (.node ⟨⟨1, 9⟩, .Up, 40⟩ [])]), (.node ⟨⟨2, 8⟩, .Right, 38⟩ [])]), (.node ⟨⟨1, 8⟩, .Down, 35⟩ [(.node ⟨⟨7, 3⟩, .Down, 42⟩ [(.node ⟨⟨7, 4⟩, .Down, 50⟩ [(.node ⟨⟨7, 4⟩, .Up, 50⟩ [])]), (.node ⟨⟨7, 3⟩, .Up, 42⟩ [])]), (.node ⟨⟨1, 8⟩, .Up, 35⟩ [])]), (.node ⟨⟨1, 5⟩, .Up, 40⟩ [(.node ⟨⟨1, 4⟩, .Up, 44⟩ [(.node ⟨⟨1, 4⟩, .Down, 44⟩ [])]), (.node ⟨⟨1, 5⟩, .Down, 40⟩ [])]), (.node ⟨⟨5, 0⟩, .Right, 31⟩ [(.node ⟨⟨7, 0⟩, .Up, 35⟩ [(.node ⟨⟨7, 0⟩, .Down, 35⟩ [])]), (.node ⟨⟨7, 0⟩, .Left, 33⟩ [(.node ⟨⟨8, 0⟩, .Left, 37⟩ [(.node ⟨⟨9, 0⟩, .Left, 41⟩ [(.node ⟨⟨9, 0⟩, .Right, 41⟩ [])]), (.node ⟨⟨8, 0⟩, .Right, 37⟩ [])]), (.node ⟨⟨4, 0⟩, .Right, 35⟩ [(.node ⟨⟨3, 0⟩, .Right, 38⟩ [(.node ⟨⟨3, 0⟩, .Left, 38⟩ [])]), (.node ⟨⟨4, 0⟩, .Left, 35⟩ [])]), (.node ⟨⟨7, 0⟩, .Right, 33⟩ [])]), (.node ⟨⟨1, 4⟩, .Right, 32⟩ [(.node ⟨⟨0, 4⟩, .Right, 36⟩ [(.node ⟨⟨0, 4⟩, .Left, 36⟩ [])]), (.node ⟨⟨1, 4⟩, .Left, 32⟩ [])]), (.node ⟨⟨5, 0⟩, .Left, 31⟩ [])]), (.node ⟨⟨6, 3⟩, .Down, 39⟩ [(.node ⟨⟨6, 3⟩, .Up, 39⟩ [])]), (.node ⟨⟨2, 1⟩, .Down, 29⟩ [])]), (.node ⟨⟨7, 2⟩, .Down, 35⟩ [(.node ⟨⟨7, 2⟩, .Up, 35⟩ [])]), (.node ⟨⟨3, 0⟩, .Right, 29⟩ [(.node ⟨⟨3, 5⟩, .Left, 34⟩ [(.node ⟨⟨3, 5⟩, .Right, 34⟩ [])]), (.node ⟨⟨7, 1⟩, .Left, 36⟩ [(.node ⟨⟨7, 1⟩, .Right, 36⟩ [])]), (.node ⟨⟨2, 0⟩, .Right, 32⟩ [(.node ⟨⟨2, 0⟩, .Left, 32⟩ [])]), (.node ⟨⟨3, 0⟩, .Left, 29⟩ [])]), (.node ⟨⟨2, 7⟩, .Left, 38⟩ [(.node ⟨⟨3, 7⟩, .Left, 46⟩ [(.node ⟨⟨3, 7⟩, .Right, 46⟩ [])]), (.node ⟨⟨2, 7⟩, .Right, 38⟩ [])]), (.node ⟨⟨0, 1⟩, .Down, 27⟩ [])]), (.node ⟨⟨3, 1⟩, .Up, 30⟩ [(.node ⟨⟨5, 4⟩, .Left, 36⟩ [(.node ⟨⟨3, 7⟩, .Left, 40⟩ [(.node ⟨⟨2, 4⟩, .Right, 38⟩ [(.node ⟨⟨1, 4⟩, .Right, 42⟩ [(.node ⟨⟨1, 4⟩, .Left, 42⟩ [])]), (.node ⟨⟨2, 4⟩, .Left, 38⟩ [])]), (.node ⟨⟨3, 7⟩, .Right, 40⟩ [])]), (.node ⟨⟨1, 9⟩, .Left, 37⟩ [(.node ⟨⟨2, 9⟩, .Left, 41⟩ [(.node ⟨⟨3, 9⟩, .Left, 46⟩ [(.node ⟨⟨3, 9⟩, .Right, 46⟩ [])]), (.node ⟨⟨2, 9⟩, .Right, 41⟩ [])]), (.node ⟨⟨4, 7⟩, .Left, 48⟩ [(.node ⟨⟨5, 7⟩, .Left, 55⟩ [(.node ⟨⟨5, 7⟩, .Right, 55⟩ [])]), (.node ⟨⟨4, 7⟩, .Right, 48⟩ [])]), (.node ⟨⟨1, 9⟩, .Right, 37⟩ [])]), (.node ⟨⟨5, 4⟩, .Right, 36⟩ [])]), (.node ⟨⟨2, 3⟩, .Up, 31⟩ [(.node ⟨⟨3, 7⟩, .Down, 42⟩ [(.node ⟨⟨3, 8⟩, .Down, 46⟩ [(.node ⟨⟨3, 8⟩, .Up, 46⟩ [])]), (.node ⟨⟨3, 7⟩, .Up, 42⟩ [])]), (.node ⟨⟨8, 2⟩, .Left, 37⟩ [(.node ⟨⟨8, 2⟩, .Right, 37⟩ [])]), (.node ⟨⟨7, 3⟩, .Down, 38⟩ [(.node ⟨⟨4, 3⟩, .Right, 36⟩ [(.node ⟨⟨7, 1⟩, .Up, 37⟩ [(.node ⟨⟨3, 5⟩, .Up, 39⟩ [(.node ⟨⟨3, 5⟩, .Down, 39⟩ [])]), (.node ⟨⟨7, 0⟩, .Up, 40⟩ [(.node ⟨⟨7, 0⟩, .Down, 40⟩ [])]), (.node ⟨⟨7, 1⟩, .Down, 37⟩ [])]), (.node ⟨⟨3, 3⟩, .Right, 42⟩ [(.node ⟨⟨2, 3⟩, .Right, 47⟩ [(.node ⟨⟨2, 3⟩, .Left, 47⟩ [])]), (.node ⟨⟨3, 3⟩, .Left, 42⟩ [])]), (.node ⟨⟨2, 8⟩, .Down, 41⟩ [(.node ⟨⟨2, 9⟩, .Down, 45⟩ [(.node ⟨⟨2, 9⟩, .Up, 45⟩ [])]), (.node ⟨⟨2, 8⟩, .Up, 41⟩ [])]), (.node ⟨⟨4, 3⟩, .Left, 36⟩ [])]), (.node ⟨⟨3, 4⟩, .Up, 44⟩ [(.node ⟨⟨3, 3⟩, .Up, 50⟩ [(.node ⟨⟨3, 3⟩, .Down, 50⟩ [])]), (.node ⟨⟨3, 4⟩, .Down, 44⟩ [])]), (.node ⟨⟨7, 3⟩, .Up, 38⟩ [])]), (.node ⟨⟨5, 3⟩, .Left, 35⟩ [(.node ⟨⟨6, 3⟩, .Left, 42⟩ [(.node ⟨⟨6, 3⟩, .Right, 42⟩ [])]), (.node ⟨⟨5, 3⟩, .Right, 35⟩ [])]), (.node ⟨⟨2, 2⟩, .Up, 36⟩ [(.node ⟨⟨2, 2⟩, .Down, 36⟩ [])]), (.node ⟨⟨2, 3⟩, .Down, 31⟩ [])]), (.node ⟨⟨8, 1⟩, .Left, 38⟩ [(.node ⟨⟨8, 1⟩, .Right, 38⟩ [])]), (.node ⟨⟨3, 5⟩, .Down, 35⟩ [(.node ⟨⟨3, 6⟩, .Down, 40⟩ [(.node ⟨⟨3, 6⟩, .Up, 40⟩ [])]), (.node ⟨⟨3, 5⟩, .Up, 35⟩ [])]), (.node ⟨⟨3, 0⟩, .Up, 33⟩ [(.node ⟨⟨3, 0⟩, .Down, 33⟩ [])]), (.node ⟨⟨3, 1⟩, .Down, 30⟩ [])]), (.node ⟨⟨6, 3⟩, .Down, 38⟩ [(.node ⟨⟨6, 4⟩, .Down, 46⟩ [(.node ⟨⟨6, 4⟩, .Up, 46⟩ [])]), (.node ⟨⟨6, 3⟩, .Up, 38⟩ [])]), (.node ⟨⟨3, 4⟩, .Right, 36⟩ [(.node ⟨⟨6, 4⟩, .Left, 44⟩ [(.node ⟨⟨7, 4⟩, .Left, 52⟩ [(.node ⟨⟨7, 4⟩, .Right, 52⟩ [])]), (.node ⟨⟨6, 4⟩, .Right, 44⟩ [])]), (.node ⟨⟨3, 4⟩, .Left, 36⟩ [])]), (.node ⟨⟨4, 5⟩, .Down, 36⟩ [(.node ⟨⟨4, 5⟩, .Up, 36⟩ [])]), (.node ⟨⟨4, 4⟩, .Up, 33⟩ [])]), (.node ⟨⟨8, 0⟩, .Left, 33⟩ [(.node ⟨⟨3, 6⟩, .Left, 35⟩ [(.node ⟨⟨2, 3⟩, .Right, 36⟩ [(.node ⟨⟨1, 3⟩, .Right, 41⟩ [(.node ⟨⟨1, 3⟩, .Left, 41⟩ [])]), (.node ⟨⟨2, 3⟩, .Left, 36⟩ [])]), (.node ⟨⟨4, 6⟩, .Left, 42⟩ [(.node ⟨⟨4, 6⟩, .Right, 42⟩ [])]), (.node ⟨⟨3, 6⟩, .Right, 35⟩ [])]), (.node ⟨⟨5, 4⟩, .Left, 34⟩ [(.node ⟨⟨1, 3⟩, .Up, 31⟩ [(.node ⟨⟨1, 2⟩, .Up, 32⟩ [(.node ⟨⟨1, 2⟩, .Down, 32⟩ [])]), (.node ⟨⟨1, 3⟩, .Down, 31⟩ [])]), (.node ⟨⟨5, 4⟩, .Right, 34⟩ [])]), (.node ⟨⟨0, 7⟩, .Right, 33⟩ [(.node ⟨⟨3, 6⟩, .Down, 35⟩ [(.node ⟨⟨3, 7⟩, .Down, 43⟩ [(.node ⟨⟨3, 7⟩, .Up, 43⟩ [])]), (.node ⟨⟨3, 6⟩, .Up, 35⟩ [])]), (.node ⟨⟨8, 2⟩, .Left, 39⟩ [(.node ⟨⟨4, 2⟩, .Right, 38⟩ [(.node ⟨⟨3, 2⟩, .Right, 42⟩ [(.node ⟨⟨3, 2⟩, .Left, 42⟩ [])]), (.node ⟨⟨4, 2⟩, .Left, 38⟩ [])]), (.node ⟨⟨9, 2⟩, .Left, 45⟩ [(.node ⟨⟨9, 2⟩, .Right, 45⟩ [])]), (.node ⟨⟨8, 2⟩, .Right, 39⟩ [])]), (.node ⟨⟨2, 5⟩, .Right, 34⟩ [(.node ⟨⟨7, 3⟩, .Left, 44⟩ [(.node ⟨⟨8, 3⟩, .Left, 48⟩ [(.node ⟨⟨8, 3⟩, .Right, 48⟩ [])]), (.node ⟨⟨7, 3⟩, .Right, 44⟩ [])]), (.node ⟨⟨2, 5⟩, .Left, 34⟩ [])]), (.node ⟨⟨2, 7⟩, .Down, 36⟩ [(.node ⟨⟨2, 7⟩, .Up, 36⟩ [])]), (.node ⟨⟨1, 5⟩, .Right, 39⟩ [(.node ⟨⟨0, 5⟩, .Right, 42⟩ [(.node ⟨⟨0, 5⟩, .Left, 42⟩ [])]), (.node ⟨⟨1, 5⟩, .Left, 39⟩ [])]), (.node ⟨⟨0, 7⟩, .Left, 33⟩ [])]), (.node ⟨⟨1, 1⟩, .Right, 30⟩ [(.node ⟨⟨1, 1⟩, .Left, 30⟩ [])]), (.node ⟨⟨3, 6⟩, .Left, 36⟩ [(.node ⟨⟨5, 4⟩, .Left, 37⟩ [(.node ⟨⟨6, 4⟩, .Left, 45⟩ [(.node ⟨⟨6, 4⟩, .Right, 45⟩ [])]), (.node ⟨⟨5, 4⟩, .Right, 37⟩ [])]), (.node ⟨⟨3, 6⟩, .Right, 36⟩ [])]), (.node ⟨⟨8, 0⟩, .Right, 33⟩ [])]), (.node ⟨⟨3, 1⟩, .Right, 31⟩ [(.node ⟨⟨4, 3⟩, .Up, 34⟩ [(.node ⟨⟨4, 1⟩, .Right, 36⟩ [(.node ⟨⟨3, 1⟩, .Right, 40⟩ [(.node ⟨⟨3, 1⟩, .Left, 40⟩ [])]), (.node ⟨⟨4, 1⟩, .Left, 36⟩ [])]), (.node ⟨⟨4, 3⟩, .Down, 34⟩ [])]), (.node ⟨⟨4, 2⟩, .Up, 38⟩ [(.node ⟨⟨4, 1⟩, .Up, 43⟩ [(.node ⟨⟨4, 1⟩, .Down, 43⟩ [])]), (.node ⟨⟨4, 2⟩, .Down, 38⟩ [])]), (.node ⟨⟨4, 6⟩, .Down, 40⟩ [(.node ⟨⟨4, 7⟩, .Down, 48⟩ [(.node ⟨⟨4, 7⟩, .Up, 48⟩ [])]), (.node ⟨⟨4, 6⟩, .Up, 40⟩ [])]), (.node ⟨⟨2, 1⟩, .Right, 33⟩ [(.node ⟨⟨2, 1⟩, .Left, 33⟩ [])]), (.node ⟨⟨3, 1⟩, .Left, 31⟩ [])]), (.node ⟨⟨8, 1⟩, .Left, 39⟩ [(.node ⟨⟨9, 1⟩, .Left, 44⟩ [(.node ⟨⟨9, 1⟩, .Right, 44⟩ [])]), (.node ⟨⟨8, 1⟩, .Right, 39⟩ [])]), (.node ⟨⟨4, 5⟩, .Down, 38⟩ [(.node ⟨⟨4, 6⟩, .Down, 45⟩ [(.node ⟨⟨4, 6⟩, .Up, 45⟩ [])]), (.node ⟨⟨4, 5⟩, .Up, 38⟩ [])]), (.node ⟨⟨7, 1⟩, .Right, 33⟩ [])])

/-- Simulation snapshot: visited set after segment 2 of the day-17 a-run. -/
def d17aSeen3 : SeenTree := (.branch (.branch .leaf (0, 0, 0) .leaf) (0, 0, 1) (.branch (.branch .leaf (0, 0, 2) .leaf) (0, 0, 3) (.branch (.branch (.branch .leaf (0, 1, 0) .leaf) (0, 1, 1) (.branch (.branch (.branch (.branch .leaf (0, 1, 2) .leaf) (0, 1, 3) .leaf) (0, 2, 0) .leaf) (0, 2, 1) (.branch (.branch .leaf (0, 2, 2) .leaf) (0, 2, 3) (.branch (.branch .leaf (0, 3, 0) .leaf) (0, 3, 1) (.branch (.branch (.branch (.branch (.branch .leaf (0, 3, 2) .leaf) (0, 3, 3) .leaf) (0, 4, 0) .leaf) (0, 4, 1) (.branch (.branch (.branch (.branch .leaf (0, 4, 2) .leaf) (0, 4, 3) .leaf) (0, 5, 0) .leaf) (0, 5, 1) (.branch (.branch (.branch (.branch .leaf (0, 5, 2) .leaf) (0, 5, 3) .leaf) (0, 6, 0) .leaf) (0, 6, 1) (.branch (.branch (.branch (.branch .leaf (0, 6, 2) .leaf) (0, 6, 3) .leaf) (0, 7, 0) .leaf) (0, 7, 1) (.branch (.branch (.branch (.branch .leaf (0, 7, 2) .leaf) (0, 7, 3) .leaf) (0, 8, 0) .leaf) (0, 8, 1) (.branch (.branch (.branch (.branch .leaf (0, 8, 2) .leaf) (0, 8, 3) .leaf) (0, 9, 0) .leaf) (0, 9, 1) (.branch (.branch (.branch (.branch .leaf (0, 9, 2) .leaf) (0, 9, 3) .leaf) (0, 10, 0) .leaf) (0, 10, 1) (.branch (.branch .leaf (0, 11, 0) .leaf) (0, 11, 1) .leaf)))))))) (1, 0, 0) (.branch .leaf (1, 0, 1) .leaf)))))) (1, 0, 2) (.branch .leaf (1, 0, 3) (.branch (.branch .leaf (1, 1, 0) .leaf) (1, 1, 1) (.branch (.branch (.branch (.branch .leaf (1, 1, 2) (.branch .leaf (1, 1, 3) .leaf)) (1, 2, 0) .leaf) (1, 2, 1) .leaf) (1, 2, 2) (.branch .leaf (1, 2, 3) (.branch (.branch (.branch .leaf (1, 3, 0) .leaf) (1, 3, 1) (.branch (.branch .leaf (1, 3, 2) (.branch .leaf (1, 3, 3) (.branch (.branch .leaf (1, 4, 0) .leaf) (1, 4, 1) (.branch .leaf (1, 4, 2) (.branch .leaf (1, 4, 3) (.branch (.branch .leaf (1, 5, 0) .leaf) (1, 5, 1) (.branch .leaf (1, 5, 2) (.branch .leaf (1, 5, 3) (.branch (.branch .leaf (1, 6, 0) .leaf) (1, 6, 1) (.branch .leaf (1, 6, 2) (.branch .leaf (1, 6, 3) (.branch (.branch .leaf (1, 7, 0) .leaf) (1, 7, 1) (.branch (.branch .leaf (1, 7, 2) (.branch .leaf (1, 7, 3) (.branch (.branch .leaf (1, 8, 0) .leaf) (1, 8, 1) .leaf))) (1, 8, 2) (.branch .leaf (1, 8, 3) (.branch (.branch .leaf (1, 9, 0) .leaf) (1, 9, 1) (.branch .leaf (1, 9, 2) (.branch .leaf (1, 9, 3) (.branch .leaf (1, 11, 2) (.branch .leaf (1, 11, 3) .leaf))))))))))))))))))) (2, 0, 0) (.branch .leaf (2, 0, 1) .leaf))) (2, 0, 2) (.branch .leaf (2, 0, 3) (.branch (.branch (.branch .leaf (2, 1, 0) .leaf) (2, 1, 1) .leaf) (2, 1, 2) (.branch .leaf (2, 1, 3) (.branch (.branch (.branch (.branch .leaf (2, 2, 0) .leaf) (2, 2, 1) .leaf) (2, 2, 2) (.branch .leaf (2, 2, 3) (.branch (.branch (.branch .leaf (2, 3, 0) .leaf) (2, 3, 1) (.branch .leaf (2, 3, 2) (.branch .leaf (2, 3, 3) (.branch (.branch (.branch .leaf (2, 4, 0) .leaf) (2, 4, 1) .leaf) (2, 4, 2) (.branch .leaf (2, 4, 3) (.branch (.branch .leaf (2, 5, 0) .leaf) (2, 5, 1) (.branch .leaf (2, 5, 2) (.branch .leaf (2, 5, 3) (.branch (.branch .leaf (2, 6, 0) .leaf) (2, 6, 1) (.branch .leaf (2, 6, 2) (.branch .leaf (2, 6, 3) (.branch (.branch .leaf (2, 7, 0) .leaf) (2, 7, 1) (.branch .leaf (2, 7, 2) (.branch .leaf (2, 7, 3) (.branch (.branch (.branch .leaf (2, 8, 0) .leaf) (2, 8, 1) .leaf) (2, 8, 2) (.branch .leaf (2, 8, 3) (.branch (.branch (.branch .leaf (2, 9, 0) .leaf) (2, 9, 1) .leaf) (2, 9, 2) (.branch .leaf (2, 9, 3) .leaf)))))))))))))))))) (3, 0, 0) (.branch .leaf (3, 0, 1) .leaf)))) (3, 0, 2) (.branch .leaf (3, 0, 3) (.branch (.branch (.branch .leaf (3, 1, 0) .leaf) (3, 1, 1) .leaf) (3, 1, 2) (.branch .leaf (3, 1, 3) (.branch (.branch .leaf (3, 2, 0) .leaf) (3, 2, 1) (.branch .leaf (3, 2, 2) (.branch .leaf (3, 2, 3) (.branch (.branch (.branch (.branch .leaf (3, 3, 0) .leaf) (3, 3, 1) (.branch (.branch .leaf (3, 3, 2) (.branch .leaf (3, 3, 3) (.branch (.branch .leaf (3, 4, 0) .leaf) (3, 4, 1) .leaf))) (3, 4, 2) (.branch .leaf (3, 4, 3) (.branch (.branch (.branch (.branch .leaf (3, 5, 0) .leaf) (3, 5, 1) .leaf) (3, 5, 2) (.branch .leaf (3, 5, 3) (.branch (.branch (.branch .leaf (3, 6, 0) .leaf) (3, 6, 1) .leaf) (3, 6, 2) (.branch .leaf (3, 6, 3) (.branch (.branch .leaf (3, 7, 0) .leaf) (3, 7, 1) (.branch .leaf (3, 7, 2) (.branch .leaf (3, 7, 3) (.branch .leaf (3, 8, 2) (.branch .leaf (3, 8, 3) .leaf))))))))) (4, 0, 0) (.branch .leaf (4, 0, 1) .leaf))))) (4, 0, 2) (.branch .leaf (4, 0, 3) (.branch (.branch .leaf (4, 1, 0) .leaf) (4, 1, 1) .leaf))) (4, 1, 2) (.branch .leaf (4, 1, 3) (.branch (.branch (.branch (.branch .leaf (4, 2, 0) .leaf) (4, 2, 1) .leaf) (4, 2, 2) (.branch .leaf (4, 2, 3) (.branch (.branch (.branch .leaf (4, 3, 0) .leaf) (4, 3, 1) (.branch .leaf (4, 3, 2) (.branch .leaf (4, 3, 3) (.branch (.branch (.branch .leaf (4, 4, 0) .leaf) (4, 4, 1) .leaf) (4, 4, 2) (.branch .leaf (4, 4, 3) (.branch (.branch .leaf (4, 5, 0) .leaf) (4, 5, 1) (.branch .leaf (4, 5, 2) (.branch .leaf (4, 5, 3) (.branch (.branch (.branch .leaf (4, 6, 0) .leaf) (4, 6, 1) .leaf) (4, 6, 2) (.branch .leaf (4, 6, 3) .leaf)))))))))) (5, 0, 0) (.branch .leaf (5, 0, 1) .leaf)))) (5, 0, 2) (.branch .leaf (5, 0, 3) (.branch (.branch (.branch .leaf (5, 1, 0) .leaf) (5, 1, 1) .leaf) (5, 1, 2) (.branch .leaf (5, 1, 3) (.branch (.branch (.branch .leaf (5, 2, 0) .leaf) (5, 2, 1) .leaf) (5, 2, 2) (.branch .leaf (5, 2, 3) (.branch (.branch (.branch .leaf (5, 3, 0) .leaf) (5, 3, 1) (.branch (.branch .leaf (5, 3, 2) (.branch .leaf (5, 3, 3) (.branch (.branch (.branch .leaf (5, 4, 0) .leaf) (5, 4, 1) .leaf) (5, 4, 2) (.branch .leaf (5, 4, 3) .leaf)))) (6, 0, 0) (.branch .leaf (6, 0, 1) .leaf))) (6, 0, 2) (.branch .leaf (6, 0, 3) (.branch (.branch (.branch .leaf (6, 1, 0) .leaf) (6, 1, 1) .leaf) (6, 1, 2) (.branch .leaf (6, 1, 3) (.branch (.branch (.branch .leaf (6, 2, 0) .leaf) (6, 2, 1) .leaf) (6, 2, 2) (.branch .leaf (6, 2, 3) (.branch (.branch (.branch .leaf (6, 3, 0) .leaf) (6, 3, 1) (.branch (.branch .leaf (6, 3, 2) (.branch .leaf (6, 3, 3) .leaf)) (7, 0, 0) (.branch .leaf (7, 0, 1) .leaf))) (7, 0, 2) (.branch .leaf (7, 0, 3) (.branch (.branch (.branch (.branch .leaf (7, 1, 0) .leaf) (7, 1, 1) .leaf) (7, 1, 2) (.branch .leaf (7, 1, 3) (.branch (.branch .leaf (7, 2, 0) .leaf) (7, 2, 1) .leaf))) (7, 2, 2) (.branch .leaf (7, 2, 3) (.branch (.branch (.branch .leaf (7, 3, 0) .leaf) (7, 3, 1) .leaf) (8, 0, 2) (.branch .leaf (8, 0, 3) (.branch (.branch (.branch (.branch .leaf (8, 1, 0) .leaf) (8, 1, 1) .leaf) (8, 1, 2) (.branch .leaf (8, 1, 3) .leaf)) (8, 2, 2) (.branch .leaf (8, 2, 3) (.branch (.branch .leaf (8, 3, 0) .leaf) (8, 3, 1) .leaf)))))))))))))))))))))))))))))))))))))))))

/-- Simulation snapshot: heap after segment 2 of the day-17 a-run. -/
def d17aHeap3 : Heap := (.node ⟨⟨6, 3⟩, .Left, 40⟩ [(.node ⟨⟨8, 1⟩, .Left, 40⟩ [(.node ⟨⟨0, 10⟩, .Down, 41⟩ [(.node ⟨⟨2, 11⟩, .Left, 47⟩ [(.node ⟨⟨5, 6⟩, .Left, 46⟩ [(.node ⟨⟨2, 3⟩, .Up, 41⟩ [(.node ⟨⟨2, 3⟩, .Down, 41⟩ [])]), (.node ⟨⟨5, 6⟩, .Right, 46⟩ [])]), (.node ⟨⟨3, 11⟩, .Left, 52⟩ [(.node ⟨⟨3, 11⟩, .Right, 52⟩ [])]), (.node ⟨⟨2, 11⟩, .Right, 47⟩ [])]), (.node ⟨⟨2, 10⟩, .Down, 43⟩ [(.node ⟨⟨3, 1⟩, .Up, 36⟩ [(.node ⟨⟨1, 12⟩, .Down, 45⟩ [(.node ⟨⟨1, 9⟩, .Up, 53⟩ [(.node ⟨⟨1, 8⟩, .Up, 56⟩ [(.node ⟨⟨1, 8⟩, .Down, 56⟩ [])]), (.node ⟨⟨1, 9⟩, .Down, 53⟩ [])]), (.node ⟨⟨1, 12⟩, .Up, 45⟩ [])]), (.node ⟨⟨6, 4⟩, .Down, 42⟩ [(.node ⟨⟨9, 2⟩, .Left, 45⟩ [(.node ⟨⟨9, 2⟩, .Right, 45⟩ [])]), (.node ⟨⟨1, 10⟩, .Left, 44⟩ [(.node ⟨⟨4, 5⟩, .Up, 43⟩ [(.node ⟨⟨3, 4⟩, .Up, 44⟩ [(.node ⟨⟨3, 3⟩, .Up, 50⟩ [(.node ⟨⟨3, 3⟩, .Down, 50⟩ [])]), (.node ⟨⟨3, 4⟩, .Down, 44⟩ [])]), (.node ⟨⟨2, 10⟩, .Left, 46⟩ [(.node ⟨⟨3, 10⟩, .Left, 50⟩ [(.node ⟨⟨3, 10⟩, .Right, 50⟩ [])]), (.node ⟨⟨2, 10⟩, .Right, 46⟩ [])]), (.node ⟨⟨4, 5⟩, .Down, 43⟩ [])]), (.node ⟨⟨6, 5⟩, .Down, 52⟩ [(.node ⟨⟨6, 6⟩, .Down, 58⟩ [(.node ⟨⟨6, 6⟩, .Up, 58⟩ [])]), (.node ⟨⟨6, 5⟩, .Up, 52⟩ [])]), (.node ⟨⟨1, 10⟩, .Right, 44⟩ [])]), (.node ⟨⟨6, 5⟩, .Down, 49⟩ [(.node ⟨⟨6, 5⟩, .Up, 49⟩ [])]), (.node ⟨⟨6, 4⟩, .Up, 42⟩ [])]), (.node ⟨⟨1, 5⟩, .Right, 39⟩ [(.node ⟨⟨0, 5⟩, .Right, 42⟩ [(.node ⟨⟨0, 5⟩, .Left, 42⟩ [])]), (.node ⟨⟨1, 5⟩, .Left, 39⟩ [])]), (.node ⟨⟨6, 4⟩, .Down, 45⟩ [(.node ⟨⟨6, 4⟩, .Up, 45⟩ [])]), (.node ⟨⟨3, 3⟩, .Up, 40⟩ [(.node ⟨⟨3, 2⟩, .Up, 44⟩ [(.node ⟨⟨3, 2⟩, .Down, 44⟩ [])]), (.node ⟨⟨3, 3⟩, .Down, 40⟩ [])]), (.node ⟨⟨3, 1⟩, .Down, 36⟩ [])]), (.node ⟨⟨2, 10⟩, .Down, 43⟩ [(.node ⟨⟨3, 9⟩, .Left, 46⟩ [(.node ⟨⟨2, 11⟩, .Down, 48⟩ [(.node ⟨⟨2, 12⟩, .Down, 52⟩ [(.node ⟨⟨2, 12⟩, .Up, 52⟩ [])]), (.node ⟨⟨2, 11⟩, .Up, 48⟩ [])]), (.node ⟨⟨3, 9⟩, .Right, 46⟩ [])]), (.node ⟨⟨10, 3⟩, .Left, 49⟩ [(.node ⟨⟨3, 6⟩, .Up, 54⟩ [(.node ⟨⟨3, 5⟩, .Up, 62⟩ [(.node ⟨⟨3, 5⟩, .Down, 62⟩ [])]), (.node ⟨⟨3, 6⟩, .Down, 54⟩ [])]), (.node ⟨⟨3, 7⟩, .Up, 49⟩ [(.node ⟨⟨3, 7⟩, .Down, 49⟩ [])]), (.node ⟨⟨11, 3⟩, .Left, 55⟩ [(.node ⟨⟨11, 3⟩, .Right, 55⟩ [])]), (.node ⟨⟨10, 3⟩, .Right, 49⟩ [])]), (.node ⟨⟨2, 10⟩, .Up, 43⟩ [])]), (.node ⟨⟨1, 7⟩, .Up, 45⟩ [(.node ⟨⟨4, 7⟩, .Left, 48⟩ [(.node ⟨⟨5, 7⟩, .Left, 55⟩ [(.node ⟨⟨5, 7⟩, .Right, 55⟩ [])]), (.node ⟨⟨4, 7⟩, .Right, 48⟩ [])]), (.node ⟨⟨1, 6⟩, .Up, 48⟩ [(.node ⟨⟨1, 6⟩, .Down, 48⟩ [])]), (.node ⟨⟨1, 7⟩, .Down, 45⟩ [])]), (.node ⟨⟨6, 0⟩, .Right, 39⟩ [(.node ⟨⟨6, 0⟩, .Left, 39⟩ [])]), (.node ⟨⟨2, 11⟩, .Down, 48⟩ [(.node ⟨⟨2, 11⟩, .Up, 48⟩ [])]), (.node ⟨⟨2, 10⟩, .Up, 43⟩ [])]), (.node ⟨⟨2, 4⟩, .Right, 38⟩ [(.node ⟨⟨6, 2⟩, .Right, 40⟩ [(.node ⟨⟨5, 6⟩, .Left, 48⟩ [(.node ⟨⟨6, 6⟩, .Left, 54⟩ [(.node ⟨⟨7, 6⟩, .Left, 61⟩ [(.node ⟨⟨7, 6⟩, .Right, 61⟩ [])]), (.node ⟨⟨6, 6⟩, .Right, 54⟩ [])]), (.node ⟨⟨3, 5⟩, .Up, 53⟩ [(.node ⟨⟨3, 4⟩, .Up, 58⟩ [(.node ⟨⟨3, 4⟩, .Down, 58⟩ [])]), (.node ⟨⟨3, 5⟩, .Down, 53⟩ [])]), (.node ⟨⟨5, 6⟩, .Right, 48⟩ [])]), (.node ⟨⟨10, 1⟩, .Left, 46⟩ [(.node ⟨⟨1, 3⟩, .Up, 40⟩ [(.node ⟨⟨1, 3⟩, .Down, 40⟩ [])]), (.node ⟨⟨4, 8⟩, .Left, 50⟩ [(.node ⟨⟨5, 8⟩, .Left, 59⟩ [(.node ⟨⟨5, 8⟩, .Right, 59⟩ [])]), (.node ⟨⟨4, 8⟩, .Right, 50⟩ [])]), (.node ⟨⟨6, 1⟩, .Right, 49⟩ [(.node ⟨⟨5, 1⟩, .Right, 53⟩ [(.node ⟨⟨5, 1⟩, .Left, 53⟩ [])]), (.node ⟨⟨6, 1⟩, .Left, 49⟩ [])]), (.node ⟨⟨7, 1⟩, .Right, 45⟩ [(.node ⟨⟨7, 1⟩, .Left, 45⟩ [])]), (.node ⟨⟨11, 1⟩, .Left, 51⟩ [(.node ⟨⟨11, 1⟩, .Right, 51⟩ [])]), (.node ⟨⟨10, 1⟩, .Right, 46⟩ [])]), (.node ⟨⟨6, 4⟩, .Left, 43⟩ [(.node ⟨⟨9, 2⟩, .Left, 46⟩ [(.node ⟨⟨10, 2⟩, .Left, 48⟩ [(.node ⟨⟨10, 2⟩, .Right, 48⟩ [])]), (.node ⟨⟨9, 2⟩, .Right, 46⟩ [])]), (.node ⟨⟨7, 4⟩, .Left, 51⟩ [(.node ⟨⟨8, 4⟩, .Left, 60⟩ [(.node ⟨⟨8, 4⟩, .Right, 60⟩ [])]), (.node ⟨⟨7, 4⟩, .Right, 51⟩ [])]), (.node ⟨⟨6, 4⟩, .Right, 43⟩ [])]), (.node ⟨⟨4, 4⟩, .Right, 41⟩ [(.node ⟨⟨2, 5⟩, .Up, 45⟩ [(.node ⟨⟨2, 4⟩, .Up, 47⟩ [(.node ⟨⟨2, 4⟩, .Down, 47⟩ [])]), (.node ⟨⟨2, 5⟩, .Down, 45⟩ [])]), (.node ⟨⟨3, 4⟩, .Right, 46⟩ [(.node ⟨⟨2, 4⟩, .Right, 48⟩ [(.node ⟨⟨2, 4⟩, .Left, 48⟩ [])]), (.node ⟨⟨3, 4⟩, .Left, 46⟩ [])]), (.node ⟨⟨4, 4⟩, .Left, 41⟩ [])]), (.node ⟨⟨5, 5⟩, .Down, 44⟩ [(.node ⟨⟨5, 5⟩, .Up, 44⟩ [])]), (.node ⟨⟨5, 2⟩, .Right, 43⟩ [(.node ⟨⟨4, 2⟩, .Right, 47⟩ [(.node ⟨⟨4, 2⟩, .Left, 47⟩ [])]), (.node ⟨⟨5, 2⟩, .Left, 43⟩ [])]), (.node ⟨⟨6, 2⟩, .Left, 40⟩ [])]), (.node ⟨⟨9, 3⟩, .Left, 45⟩ [(.node ⟨⟨2, 7⟩, .Up, 52⟩ [(.node ⟨⟨2, 6⟩, .Up, 57⟩ [(.node ⟨⟨2, 6⟩, .Down, 57⟩ [])]), (.node ⟨⟨2, 7⟩, .Down, 52⟩ [])]), (.node ⟨⟨9, 3⟩, .Right, 45⟩ [])]), (.node ⟨⟨3, 9⟩, .Left, 46⟩ [(.node ⟨⟨3, 9⟩, .Right, 46⟩ [])]), (.node ⟨⟨1, 4⟩, .Right, 42⟩ [(.node ⟨⟨1, 4⟩, .Left, 42⟩ [])]), (.node ⟨⟨2, 4⟩, .Left, 38⟩ [])]), (.node ⟨⟨2, 8⟩, .Down, 41⟩ [(.node ⟨⟨4, 6⟩, .Down, 41⟩ [(.node ⟨⟨4, 7⟩, .Down, 49⟩ [(.node ⟨⟨4, 8⟩, .Down, 55⟩ [(.node ⟨⟨4, 8⟩, .Up, 55⟩ [])]), (.node ⟨⟨4, 7⟩, .Up, 49⟩ [])]), (.node ⟨⟨8, 3⟩, .Left, 45⟩ [(.node ⟨⟨9, 3⟩, .Left, 49⟩ [(.node ⟨⟨9, 3⟩, .Right, 49⟩ [])]), (.node ⟨⟨8, 3⟩, .Right, 45⟩ [])]), (.node ⟨⟨4, 6⟩, .Up, 41⟩ [])]), (.node ⟨⟨7, 3⟩, .Left, 41⟩ [(.node ⟨⟨5, 6⟩, .Left, 49⟩ [(.node ⟨⟨6, 6⟩, .Left, 55⟩ [(.node ⟨⟨6, 6⟩, .Right, 55⟩ [])]), (.node ⟨⟨5, 6⟩, .Right, 49⟩ [])]), (.node ⟨⟨7, 3⟩, .Right, 41⟩ [])]), (.node ⟨⟨2, 8⟩, .Up, 41⟩ [])]), (.node ⟨⟨1, 10⟩, .Down, 43⟩ [(.node ⟨⟨0, 7⟩, .Right, 40⟩ [(.node ⟨⟨0, 7⟩, .Left, 40⟩ [])]), (.node ⟨⟨1, 11⟩, .Down, 45⟩ [(.node ⟨⟨1, 11⟩, .Up, 45⟩ [])]), (.node ⟨⟨1, 10⟩, .Up, 43⟩ [])]), (.node ⟨⟨2, 6⟩, .Up, 41⟩ [(.node ⟨⟨6, 4⟩, .Left, 44⟩ [(.node ⟨⟨7, 4⟩, .Left, 52⟩ [(.node ⟨⟨7, 4⟩, .Right, 52⟩ [])]), (.node ⟨⟨6, 4⟩, .Right, 44⟩ [])]), (.node ⟨⟨2, 6⟩, .Down, 41⟩ [])]), (.node ⟨⟨6, 4⟩, .Down, 46⟩ [(.node ⟨⟨6, 4⟩, .Up, 46⟩ [])]), (.node ⟨⟨0, 11⟩, .Down, 43⟩ [(.node ⟨⟨0, 12⟩, .Down, 46⟩ [(.node ⟨⟨0, 12⟩, .Up, 46⟩ [])]), (.node ⟨⟨0, 11⟩, .Up, 43⟩ [])]), (.node ⟨⟨0, 10⟩, .Up, 41⟩ [])]), (.node ⟨⟨2, 8⟩, .Down, 41⟩ [(.node ⟨⟨1, 6⟩, .Up, 40⟩ [(.node ⟨⟨8, 0⟩, .Up, 42⟩ [(.node ⟨⟨8, 0⟩, .Down, 42⟩ [])]), (.node ⟨⟨1, 5⟩, .Up, 45⟩ [(.node ⟨⟨1, 5⟩, .Down, 45⟩ [])]), (.node ⟨⟨1, 6⟩, .Down, 40⟩ [])]), (.node ⟨⟨7, 0⟩, .Up, 40⟩ [(.node ⟨⟨7, 0⟩, .Down, 40⟩ [])]), (.node ⟨⟨3, 3⟩, .Right, 42⟩ [(.node ⟨⟨2, 3⟩, .Right, 47⟩ [(.node ⟨⟨2, 3⟩, .Left, 47⟩ [])]), (.node ⟨⟨3, 3⟩, .Left, 42⟩ [])]), (.node ⟨⟨2, 9⟩, .Down, 45⟩ [(.node ⟨⟨2, 9⟩, .Up, 45⟩ [])]), (.node ⟨⟨2, 8⟩, .Up, 41⟩ [])]), (.node ⟨⟨3, 7⟩, .Left, 46⟩ [(.node ⟨⟨4, 7⟩, .Left, 47⟩ [(.node ⟨⟨4, 7⟩, .Right, 47⟩ [])]), (.node ⟨⟨3, 7⟩, .Right, 46⟩ [])]), (.node ⟨⟨3, 6⟩, .Down, 40⟩ [(.node ⟨⟨3, 7⟩, .Down, 42⟩ [(.node ⟨⟨3, 8⟩, .Down, 46⟩ [(.node ⟨⟨3, 8⟩, .Up, 46⟩ [])]), (.node ⟨⟨3, 7⟩, .Up, 42⟩ [])]), (.node ⟨⟨5, 3⟩, .Right, 42⟩ [(.node ⟨⟨4, 3⟩, .Right, 48⟩ [(.node ⟨⟨3, 3⟩, .Right, 54⟩ [(.node ⟨⟨3, 3⟩, .Left, 54⟩ [])]), (.node ⟨⟨4, 3⟩, .Left, 48⟩ [])]), (.node ⟨⟨1, 6⟩, .Right, 42⟩ [(.node ⟨⟨0, 6⟩, .Right, 44⟩ [(.node ⟨⟨0, 6⟩, .Left, 44⟩ [])]), (.node ⟨⟨1, 6⟩, .Left, 42⟩ [])]), (.node ⟨⟨5, 3⟩, .Left, 42⟩ [])]), (.node ⟨⟨3, 6⟩, .Up, 40⟩ [])]), (.node ⟨⟨6, 3⟩, .Right, 45⟩ [(.node ⟨⟨5, 3⟩, .Right, 53⟩ [(.node ⟨⟨4, 3⟩, .Right, 59⟩ [(.node ⟨⟨4, 3⟩, .Left, 59⟩ [])]), (.node ⟨⟨5, 3⟩, .Left, 53⟩ [])]), (.node ⟨⟨4, 8⟩, .Down, 52⟩ [(.node ⟨⟨4, 9⟩, .Down, 59⟩ [(.node ⟨⟨4, 9⟩, .Up, 59⟩ [])]), (.node ⟨⟨4, 8⟩, .Up, 52⟩ [])]), (.node ⟨⟨6, 3⟩, .Left, 45⟩ [])]), (.node ⟨⟨9, 1⟩, .Left, 45⟩ [(.node ⟨⟨10, 1⟩, .Left, 47⟩ [(.node ⟨⟨10, 1⟩, .Right, 47⟩ [])]), (.node ⟨⟨9, 1⟩, .Right, 45⟩ [])]), (.node ⟨⟨8, 1⟩, .Right, 40⟩ [])]), (.node ⟨⟨4, 6⟩, .Left, 41⟩ [(.node ⟨⟨3, 9⟩, .Down, 46⟩ [(.node ⟨⟨1, 9⟩, .Right, 46⟩ [(.node ⟨⟨1, 10⟩, .Up, 48⟩ [(.node ⟨⟨1, 10⟩, .Down, 48⟩ [])]), (.node ⟨⟨0, 9⟩, .Right, 47⟩ [(.node ⟨⟨0, 9⟩, .Left, 47⟩ [])]), (.node ⟨⟨1, 9⟩, .Left, 46⟩ [])]), (.node ⟨⟨6, 3⟩, .Right, 55⟩ [(.node ⟨⟨5, 3⟩, .Right, 63⟩ [(.node ⟨⟨5, 3⟩, .Left, 63⟩ [])]), (.node ⟨⟨6, 3⟩, .Left, 55⟩ [])]), (.node ⟨⟨7, 3⟩, .Right, 48⟩ [(.node ⟨⟨7, 3⟩, .Left, 48⟩ [])]), (.node ⟨⟨3, 10⟩, .Down, 50⟩ [(.node ⟨⟨3, 11⟩, .Down, 55⟩ [(.node ⟨⟨3, 11⟩, .Up, 55⟩ [])]), (.node ⟨⟨3, 10⟩, .Up, 50⟩ [])]), (.node ⟨⟨4, 9⟩, .Left, 53⟩ [(.node ⟨⟨5, 9⟩, .Left, 61⟩ [(.node ⟨⟨5, 9⟩, .Right, 61⟩ [])]), (.node ⟨⟨4, 9⟩, .Right, 53⟩ [])]), (.node ⟨⟨3, 9⟩, .Up, 46⟩ [])]), (.node ⟨⟨8, 3⟩, .Left, 42⟩ [(.node ⟨⟨2, 2⟩, .Right, 37⟩ [(.node ⟨⟨5, 1⟩, .Right, 42⟩ [(.node ⟨⟨4, 1⟩, .Right, 47⟩ [(.node ⟨⟨4, 1⟩, .Left, 47⟩ [])]), (.node ⟨⟨5, 1⟩, .Left, 42⟩ [])]), (.node ⟨⟨5, 5⟩, .Left, 44⟩ [(.node ⟨⟨2, 5⟩, .Right, 45⟩ [(.node ⟨⟨1, 5⟩, .Right, 50⟩ [(.node ⟨⟨1, 5⟩, .Left, 50⟩ [])]), (.node ⟨⟨2, 5⟩, .Left, 45⟩ [])]), (.node ⟨⟨6, 5⟩, .Left, 51⟩ [(.node ⟨⟨6, 5⟩, .Right, 51⟩ [])]), (.node ⟨⟨5, 5⟩, .Right, 44⟩ [])]), (.node ⟨⟨2, 2⟩, .Left, 37⟩ [])]), (.node ⟨⟨4, 2⟩, .Right, 38⟩ [(.node ⟨⟨5, 5⟩, .Down, 47⟩ [(.node ⟨⟨5, 6⟩, .Down, 55⟩ [(.node ⟨⟨5, 6⟩, .Up, 55⟩ [])]), (.node ⟨⟨5, 5⟩, .Up, 47⟩ [])]), (.node ⟨⟨5, 5⟩, .Down, 43⟩ [(.node ⟨⟨8, 2⟩, .Down, 44⟩ [(.node ⟨⟨8, 3⟩, .Down, 48⟩ [(.node ⟨⟨8, 3⟩, .Up, 48⟩ [])]), (.node ⟨⟨8, 2⟩, .Up, 44⟩ [])]), (.node ⟨⟨5, 2⟩, .Up, 45⟩ [(.node ⟨⟨5, 1⟩, .Up, 49⟩ [(.node ⟨⟨5, 1⟩, .Down, 49⟩ [])]), (.node ⟨⟨5, 2⟩, .Down, 45⟩ [])]), (.node ⟨⟨5, 5⟩, .Up, 43⟩ [])]), (.node ⟨⟨7, 3⟩, .Left, 44⟩ [(.node ⟨⟨8, 3⟩, .Left, 48⟩ [(.node ⟨⟨8, 3⟩, .Right, 48⟩ [])]), (.node ⟨⟨7, 3⟩, .Right, 44⟩ [])]), (.node ⟨⟨3, 7⟩, .Down, 43⟩ [(.node ⟨⟨3, 7⟩, .Up, 43⟩ [])]), (.node ⟨⟨3, 2⟩, .Right, 42⟩ [(.node ⟨⟨3, 2⟩, .Left, 42⟩ [])]), (.node ⟨⟨4, 2⟩, .Left, 38⟩ [])]), (.node ⟨⟨2, 2⟩, .Up, 36⟩ [(.node ⟨⟨2, 9⟩, .Down, 45⟩ [(.node ⟨⟨2, 10⟩, .Down, 47⟩ [(.node ⟨⟨2, 10⟩, .Up, 47⟩ [])]), (.node ⟨⟨2, 9⟩, .Up, 45⟩ [])]), (.node ⟨⟨6, 3⟩, .Left, 42⟩ [(.node ⟨⟨6, 3⟩, .Right, 42⟩ [])]), (.node ⟨⟨2, 2⟩, .Down, 36⟩ [])]), (.node ⟨⟨4, 7⟩, .Down, 46⟩ [(.node ⟨⟨4, 7⟩, .Up, 46⟩ [])]), (.node ⟨⟨9, 3⟩, .Left, 46⟩ [(.node ⟨⟨10, 3⟩, .Left, 50⟩ [(.node ⟨⟨10, 3⟩, .Right, 50⟩ [])]), (.node ⟨⟨9, 3⟩, .Right, 46⟩ [])]), (.node ⟨⟨4, 4⟩, .Up, 49⟩ [(.node ⟨⟨4, 3⟩, .Up, 55⟩ [(.node ⟨⟨4, 3⟩, .Down, 55⟩ [])]), (.node ⟨⟨4, 4⟩, .Down, 49⟩ [])]), (.node ⟨⟨8, 3⟩, .Right, 42⟩ [])]), (.node ⟨⟨4, 0⟩, .Up, 40⟩ [(.node ⟨⟨4, 0⟩, .Down, 40⟩ [])]), (.node ⟨⟨0, 6⟩, .Up, 39⟩ [(.node ⟨⟨0, 5⟩, .Up, 42⟩ [(.node ⟨⟨0, 5⟩, .Down, 42⟩ [])]), (.node ⟨⟨0, 6⟩, .Down, 39⟩ [])]), (.node ⟨⟨3, 5⟩, .Right, 41⟩ [(.node ⟨⟨6, 5⟩, .Left, 49⟩ [(.node ⟨⟨7, 5⟩, .Left, 56⟩ [(.node ⟨⟨7, 5⟩, .Right, 56⟩ [])]), (.node ⟨⟨6, 5⟩, .Right, 49⟩ [])]), (.node ⟨⟨3, 5⟩, .Left, 41⟩ [])]), (.node ⟨⟨4, 4⟩, .Up, 40⟩ [(.node ⟨⟨5, 3⟩, .Up, 42⟩ [(.node ⟨⟨5, 3⟩, .Down, 42⟩ [])]), (.node ⟨⟨4, 3⟩, .Up, 46⟩ [(.node ⟨⟨4, 2⟩, .Up, 50⟩ [(.node ⟨⟨4, 2⟩, .Down, 50⟩ [])]), (.node ⟨⟨4, 3⟩, .Down, 46⟩ [])]), (.node ⟨⟨5, 6⟩, .Down, 51⟩ [(.node ⟨⟨5, 7⟩, .Down, 58⟩ [(.node ⟨⟨5, 7⟩, .Up, 58⟩ [])]), (.node ⟨⟨5, 6⟩, .Up, 51⟩ [])]), (.node ⟨⟨4, 4⟩, .Down, 40⟩ [])]), (.node ⟨⟨4, 6⟩, .Right, 41⟩ [])]), (.node ⟨⟨1, 8⟩, .Up, 40⟩ [(.node ⟨⟨3, 8⟩, .Left, 42⟩ [(.node ⟨⟨0, 4⟩, .Right, 36⟩ [(.node ⟨⟨4, 2⟩, .Up, 38⟩ [(.node ⟨⟨7, 3⟩, .Down, 42⟩ [(.node ⟨⟨4, 6⟩, .Left, 42⟩ [(.node ⟨⟨4, 6⟩, .Right, 42⟩ [])]), (.node ⟨⟨5, 1⟩, .Up, 40⟩ [(.node ⟨⟨5, 0⟩, .Up, 41⟩ [(.node ⟨⟨5, 0⟩, .Down, 41⟩ [])]), (.node ⟨⟨5, 1⟩, .Down, 40⟩ [])]), (.node ⟨⟨1, 5⟩, .Up, 40⟩ [(.node ⟨⟨1, 4⟩, .Up, 44⟩ [(.node ⟨⟨1, 4⟩, .Down, 44⟩ [])]), (.node ⟨⟨1, 5⟩, .Down, 40⟩ [])]), (.node ⟨⟨7, 4⟩, .Down, 50⟩ [(.node ⟨⟨7, 4⟩, .Up, 50⟩ [])]), (.node ⟨⟨7, 3⟩, .Up, 42⟩ [])]), (.node ⟨⟨3, 1⟩, .Right, 40⟩ [(.node ⟨⟨3, 1⟩, .Left, 40⟩ [])]), (.node ⟨⟨4, 1⟩, .Up, 43⟩ [(.node ⟨⟨4, 1⟩, .Down, 43⟩ [])]), (.node ⟨⟨4, 2⟩, .Down, 38⟩ [])]), (.node ⟨⟨3, 8⟩, .Down, 43⟩ [(.node ⟨⟨3, 6⟩, .Up, 45⟩ [(.node ⟨⟨3, 6⟩, .Down, 45⟩ [])]), (.node ⟨⟨7, 4⟩, .Down, 46⟩ [(.node ⟨⟨7, 5⟩, .Down, 53⟩ [(.node ⟨⟨7, 5⟩, .Up, 53⟩ [])]), (.node ⟨⟨7, 4⟩, .Up, 46⟩ [])]), (.node ⟨⟨5, 5⟩, .Left, 43⟩ [(.node ⟨⟨5, 5⟩, .Right, 43⟩ [])]), (.node ⟨⟨3, 9⟩, .Down, 48⟩ [(.node ⟨⟨3, 9⟩, .Up, 48⟩ [])]), (.node ⟨⟨3, 8⟩, .Up, 43⟩ [])]), (.node ⟨⟨3, 0⟩, .Right, 38⟩ [(.node ⟨⟨3, 0⟩, .Left, 38⟩ [])]), (.node ⟨⟨9, 0⟩, .Left, 41⟩ [(.node ⟨⟨0, 5⟩, .Up, 38⟩ [(.node ⟨⟨0, 4⟩, .Up, 42⟩ [(.node ⟨⟨0, 4⟩, .Down, 42⟩ [])]), (.node ⟨⟨0, 5⟩, .Down, 38⟩ [])]), (.node ⟨⟨5, 0⟩, .Right, 40⟩ [(.node ⟨⟨4, 0⟩, .Right, 44⟩ [(.node ⟨⟨4, 0⟩, .Left, 44⟩ [])]), (.node ⟨⟨5, 0⟩, .Left, 40⟩ [])]), (.node ⟨⟨9, 0⟩, .Right, 41⟩ [])]), (.node ⟨⟨0, 4⟩, .Left, 36⟩ [])]), (.node ⟨⟨2, 7⟩, .Up, 43⟩ [(.node ⟨⟨8, 1⟩, .Up, 43⟩ [(.node ⟨⟨8, 0⟩, .Up, 47⟩ [(.node ⟨⟨8, 0⟩, .Down, 47⟩ [])]), (.node ⟨⟨8, 1⟩, .Down, 43⟩ [])]), (.node ⟨⟨7, 3⟩, .Down, 44⟩ [(.node ⟨⟨7, 3⟩, .Up, 44⟩ [])]), (.node ⟨⟨3, 9⟩, .Left, 46⟩ [(.node ⟨⟨4, 9⟩, .Left, 53⟩ [(.node ⟨⟨4, 9⟩, .Right, 53⟩ [])]), (.node ⟨⟨3, 9⟩, .Right, 46⟩ [])]), (.node ⟨⟨2, 7⟩, .Down, 43⟩ [])]), (.node ⟨⟨6, 2⟩, .Up, 42⟩ [(.node ⟨⟨6, 1⟩, .Up, 46⟩ [(.node ⟨⟨6, 0⟩, .Up, 50⟩ [(.node ⟨⟨6, 0⟩, .Down, 50⟩ [])]), (.node ⟨⟨6, 1⟩, .Down, 46⟩ [])]), (.node ⟨⟨6, 2⟩, .Down, 42⟩ [])]), (.node ⟨⟨5, 5⟩, .Left, 42⟩ [(.node ⟨⟨5, 5⟩, .Right, 42⟩ [])]), (.node ⟨⟨4, 8⟩, .Left, 48⟩ [(.node ⟨⟨4, 8⟩, .Right, 48⟩ [])]), (.node ⟨⟨3, 8⟩, .Right, 42⟩ [])]), (.node ⟨⟨8, 3⟩, .Down, 47⟩ [(.node ⟨⟨8, 4⟩, .Down, 56⟩ [(.node ⟨⟨8, 4⟩, .Up, 56⟩ [])]), (.node ⟨⟨8, 3⟩, .Up, 47⟩ [])]), (.node ⟨⟨0, 7⟩, .Up, 42⟩ [(.node ⟨⟨5, 7⟩, .Left, 54⟩ [(.node ⟨⟨6, 7⟩, .Left, 63⟩ [(.node ⟨⟨6, 7⟩, .Right, 63⟩ [])]), (.node ⟨⟨5, 7⟩, .Right, 54⟩ [])]), (.node ⟨⟨0, 6⟩, .Up, 44⟩ [(.node ⟨⟨0, 6⟩, .Down, 44⟩ [])]), (.node ⟨⟨0, 7⟩, .Down, 42⟩ [])]), (.node ⟨⟨1, 10⟩, .Down, 46⟩ [(.node ⟨⟨1, 10⟩, .Up, 46⟩ [])]), (.node ⟨⟨8, 2⟩, .Down, 43⟩ [(.node ⟨⟨8, 2⟩, .Up, 43⟩ [])]), (.node ⟨⟨2, 6⟩, .Up, 48⟩ [(.node ⟨⟨2, 5⟩, .Up, 52⟩ [(.node ⟨⟨2, 5⟩, .Down, 52⟩ [])]), (.node ⟨⟨2, 6⟩, .Down, 48⟩ [])]), (.node ⟨⟨1, 8⟩, .Down, 40⟩ [])]), (.node ⟨⟨3, 8⟩, .Down, 44⟩ [(.node ⟨⟨0, 3⟩, .Up, 37⟩ [(.node ⟨⟨1, 8⟩, .Right, 43⟩ [(.node ⟨⟨2, 8⟩, .Up, 46⟩ [(.node ⟨⟨2, 8⟩, .Down, 46⟩ [])]), (.node ⟨⟨3, 6⟩, .Right, 45⟩ [(.node ⟨⟨2, 6⟩, .Right, 50⟩ [(.node ⟨⟨1, 6⟩, .Right, 53⟩ [(.node ⟨⟨1, 6⟩, .Left, 53⟩ [])]), (.node ⟨⟨2, 6⟩, .Left, 50⟩ [])]), (.node ⟨⟨3, 9⟩, .Down, 49⟩ [(.node ⟨⟨3, 10⟩, .Down, 53⟩ [(.node ⟨⟨3, 10⟩, .Up, 53⟩ [])]), (.node ⟨⟨3, 9⟩, .Up, 49⟩ [])]), (.node ⟨⟨3, 6⟩, .Left, 45⟩ [])]), (.node ⟨⟨0, 8⟩, .Right, 44⟩ [(.node ⟨⟨0, 8⟩, .Left, 44⟩ [])]), (.node ⟨⟨1, 8⟩, .Left, 43⟩ [])]), (.node ⟨⟨2, 7⟩, .Right, 45⟩ [(.node ⟨⟨1, 7⟩, .Right, 50⟩ [(.node ⟨⟨0, 7⟩, .Right, 53⟩ [(.node ⟨⟨0, 7⟩, .Left, 53⟩ [])]), (.node ⟨⟨1, 7⟩, .Left, 50⟩ [])]), (.node ⟨⟨2, 7⟩, .Left, 45⟩ [])]), (.node ⟨⟨0, 3⟩, .Down, 37⟩ [])]), (.node ⟨⟨3, 8⟩, .Left, 44⟩ [(.node ⟨⟨9, 1⟩, .Left, 44⟩ [(.node ⟨⟨9, 1⟩, .Left, 44⟩ [(.node ⟨⟨4, 6⟩, .Down, 45⟩ [(.node ⟨⟨4, 6⟩, .Up, 45⟩ [])]), (.node ⟨⟨9, 1⟩, .Right, 44⟩ [])]), (.node ⟨⟨9, 1⟩, .Right, 44⟩ [])]), (.node ⟨⟨3, 8⟩, .Right, 44⟩ [])]), (.node ⟨⟨3, 8⟩, .Up, 44⟩ [])]), (.node ⟨⟨1, 10⟩, .Down, 43⟩ [(.node ⟨⟨1, 3⟩, .Right, 41⟩ [(.node ⟨⟨1, 3⟩, .Left, 41⟩ [])]), (.node ⟨⟨4, 7⟩, .Down, 48⟩ [(.node ⟨⟨4, 7⟩, .Up, 48⟩ [])]), (.node ⟨⟨1, 11⟩, .Down, 45⟩ [(.node ⟨⟨1, 12⟩, .Down, 48⟩ [(.node ⟨⟨1, 12⟩, .Up, 48⟩ [])]), (.node ⟨⟨1, 11⟩, .Up, 45⟩ [])]), (.node ⟨⟨8, 4⟩, .Down, 50⟩ [(.node ⟨⟨8, 5⟩, .Down, 56⟩ [(.node ⟨⟨8, 5⟩, .Up, 56⟩ [])]), (.node ⟨⟨8, 4⟩, .Up, 50⟩ [])]), (.node ⟨⟨1, 10⟩, .Up, 43⟩ [])]), (.node ⟨⟨9, 0⟩, .Left, 43⟩ [(.node ⟨⟨10, 0⟩, .Left, 44⟩ [(.node ⟨⟨10, 0⟩, .Right, 44⟩ [])]), (.node ⟨⟨9, 0⟩, .Right, 43⟩ [])]), (.node ⟨⟨6, 4⟩, .Left, 45⟩ [(.node ⟨⟨6, 4⟩, .Right, 45⟩ [])]), (.node ⟨⟨3, 7⟩, .Left, 44⟩ [(.node ⟨⟨4, 7⟩, .Left, 52⟩ [(.node ⟨⟨4, 7⟩, .Right, 52⟩ [])]), (.node ⟨⟨3, 7⟩, .Right, 44⟩ [])]), (.node ⟨⟨7, 3⟩, .Left, 47⟩ [(.node ⟨⟨7, 3⟩, .Right, 47⟩ [])]), (.node ⟨⟨6, 3⟩, .Right, 40⟩ [])])

/-- Simulation snapshot: visited set after segment 3 of the day-17 a-run. -/
def d17aSeen4 : SeenTree := (.branch (.branch .leaf (0, 0, 0) .leaf) (0, 0, 1) (.branch (.branch .leaf (0, 0, 2) .leaf) (0, 0, 3) (.branch (.branch (.branch .leaf (0, 1, 0) .leaf) (0, 1, 1) (.branch (.branch (.branch (.branch .leaf (0, 1, 2) .leaf) (0, 1, 3) .leaf) (0, 2, 0) .leaf) (0, 2, 1) (.branch (.branch .leaf (0, 2, 2) .leaf) (0, 2, 3) (.branch (.branch .leaf (0, 3, 0) .leaf) (0, 3, 1) (.branch (.branch (.branch (.branch (.branch .leaf (0, 3, 2) .leaf) (0, 3, 3) .leaf) (0, 4, 0) .leaf) (0, 4, 1) (.branch (.branch (.branch (.branch .leaf (0, 4, 2) .leaf) (0, 4, 3) .leaf) (0, 5, 0) .leaf) (0, 5, 1) (.branch (.branch (.branch (.branch .leaf (0, 5, 2) .leaf) (0, 5, 3) .leaf) (0, 6, 0) .leaf) (0, 6, 1) (.branch (.branch (.branch (.branch .leaf (0, 6, 2) .leaf) (0, 6, 3) .leaf) (0, 7, 0) .leaf) (0, 7, 1) (.branch (.branch (.branch (.branch .leaf (0, 7, 2) .leaf) (0, 7, 3) .leaf) (0, 8, 0) .leaf) (0, 8, 1) (.branch (.branch (.branch (.branch .leaf (0, 8, 2) .leaf) (0, 8, 3) .leaf) (0, 9, 0) .leaf) (0, 9, 1) (.branch (.branch (.branch (.branch .leaf (0, 9, 2) .leaf) (0, 9, 3) .leaf) (0, 10, 0) .leaf) (0, 10, 1) (.branch (.branch .leaf (0, 11, 0) .leaf) (0, 11, 1) (.branch (.branch .leaf (0, 12, 0) .leaf) (0, 12, 1) .leaf))))))))) (1, 0, 0) (.branch .leaf (1, 0, 1) .leaf)))))) (1, 0, 2) (.branch .leaf (1, 0, 3) (.branch (.branch .leaf (1, 1, 0) .leaf) (1, 1, 1) (.branch (.branch (.branch (.branch .leaf (1, 1, 2) (.branch .leaf (1, 1, 3) .leaf)) (1, 2, 0) .leaf) (1, 2, 1) .leaf) (1, 2, 2) (.branch .leaf (1, 2, 3) (.branch (.branch (.branch .leaf (1, 3, 0) .leaf) (1, 3, 1) (.branch (.branch .leaf (1, 3, 2) (.branch .leaf (1, 3, 3) (.branch (.branch .leaf (1, 4, 0) .leaf) (1, 4, 1) (.branch .leaf (1, 4, 2) (.branch .leaf (1, 4, 3) (.branch (.branch .leaf (1, 5, 0) .leaf) (1, 5, 1) (.branch .leaf (1, 5, 2) (.branch .leaf (1, 5, 3) (.branch (.branch .leaf (1, 6, 0) .leaf) (1, 6, 1) (.branch .leaf (1, 6, 2) (.branch .leaf (1, 6, 3) (.branch (.branch .leaf (1, 7, 0) .leaf) (1, 7, 1) (.branch (.branch .leaf (1, 7, 2) (.branch .leaf (1, 7, 3) (.branch (.branch .leaf (1, 8, 0) .leaf) (1, 8, 1) .leaf))) (1, 8, 2) (.branch .leaf (1, 8, 3) (.branch (.branch .leaf (1, 9, 0) .leaf) (1, 9, 1) (.branch .leaf (1, 9, 2) (.branch .leaf (1, 9, 3) (.branch (.branch (.branch .leaf (1, 10, 0) .leaf) (1, 10, 1) (.branch .leaf (1, 10, 2) (.branch .leaf (1, 10, 3) (.branch (.branch .leaf (1, 11, 0) .leaf) (1, 11, 1) .leaf)))) (1, 11, 2) (.branch .leaf (1, 11, 3) (.branch (.branch .leaf (1, 12, 0) .leaf) (1, 12, 1) .leaf)))))))))))))))))))) (2, 0, 0) (.branch .leaf (2, 0, 1) .leaf))) (2, 0, 2) (.branch .leaf (2, 0, 3) (.branch (.branch (.branch .leaf (2, 1, 0) .leaf) (2, 1, 1) .leaf) (2, 1, 2) (.branch .leaf (2, 1, 3) (.branch (.branch (.branch (.branch .leaf (2, 2, 0) .leaf) (2, 2, 1) .leaf) (2, 2, 2) (.branch .leaf (2, 2, 3) (.branch (.branch (.branch .leaf (2, 3, 0) .leaf) (2, 3, 1) (.branch .leaf (2, 3, 2) (.branch .leaf (2, 3, 3) (.branch (.branch (.branch .leaf (2, 4, 0) .leaf) (2, 4, 1) .leaf) (2, 4, 2) (.branch .leaf (2, 4, 3) (.branch (.branch .leaf (2, 5, 0) .leaf) (2, 5, 1) (.branch .leaf (2, 5, 2) (.branch .leaf (2, 5, 3) (.branch (.branch .leaf (2, 6, 0) .leaf) (2, 6, 1) (.branch .leaf (2, 6, 2) (.branch .leaf (2, 6, 3) (.branch (.branch .leaf (2, 7, 0) .leaf) (2, 7, 1) (.branch .leaf (2, 7, 2) (.branch .leaf (2, 7, 3) (.branch (.branch (.branch .leaf (2, 8, 0) .leaf) (2, 8, 1) .leaf) (2, 8, 2) (.branch .leaf (2, 8, 3) (.branch (.branch (.branch .leaf (2, 9, 0) .leaf) (2, 9, 1) .leaf) (2, 9, 2) (.branch .leaf (2, 9, 3) (.branch (.branch .leaf (2, 10, 0) .leaf) (2, 10, 1) (.branch .leaf (2, 10, 2) (.branch .leaf (2, 10, 3) (.branch (.branch (.branch .leaf (2, 11, 0) .leaf) (2, 11, 1) .leaf) (2, 11, 2) (.branch .leaf (2, 11, 3) (.branch .leaf (2, 12, 2) (.branch .leaf (2, 12, 3) .leaf))))))))))))))))))))))))) (3, 0, 0) (.branch .leaf (3, 0, 1) .leaf)))) (3, 0, 2) (.branch .leaf (3, 0, 3) (.branch (.branch (.branch .leaf (3, 1, 0) .leaf) (3, 1, 1) .leaf) (3, 1, 2) (.branch .leaf (3, 1, 3) (.branch (.branch .leaf (3, 2, 0) .leaf) (3, 2, 1) (.branch .leaf (3, 2, 2) (.branch .leaf (3, 2, 3) (.branch (.branch (.branch (.branch .leaf (3, 3, 0) .leaf) (3, 3, 1) (.branch (.branch .leaf (3, 3, 2) (.branch .leaf (3, 3, 3) (.branch (.branch .leaf (3, 4, 0) .leaf) (3, 4, 1) .leaf))) (3, 4, 2) (.branch .leaf (3, 4, 3) (.branch (.branch (.branch (.branch .leaf (3, 5, 0) .leaf) (3, 5, 1) .leaf) (3, 5, 2) (.branch .leaf (3, 5, 3) (.branch (.branch (.branch .leaf (3, 6, 0) .leaf) (3, 6, 1) .leaf) (3, 6, 2) (.branch .leaf (3, 6, 3) (.branch (.branch .leaf (3, 7, 0) .leaf) (3, 7, 1) (.branch .leaf (3, 7, 2) (.branch .leaf (3, 7, 3) (.branch (.branch (.branch .leaf (3, 8, 0) .leaf) (3, 8, 1) .leaf) (3, 8, 2) (.branch .leaf (3, 8, 3) (.branch (.branch (.branch .leaf (3, 9, 0) .leaf) (3, 9, 1) .leaf) (3, 9, 2) (.branch .leaf (3, 9, 3) (.branch .leaf (3, 10, 2) (.branch .leaf (3, 10, 3) .leaf))))))))))))) (4, 0, 0) (.branch .leaf (4, 0, 1) .leaf))))) (4, 0, 2) (.branch .leaf (4, 0, 3) (.branch (.branch .leaf (4, 1, 0) .leaf) (4, 1, 1) .leaf))) (4, 1, 2) (.branch .leaf (4, 1, 3) (.branch (.branch (.branch (.branch .leaf (4, 2, 0) .leaf) (4, 2, 1) .leaf) (4, 2, 2) (.branch .leaf (4, 2, 3) (.branch (.branch (.branch .leaf (4, 3, 0) .leaf) (4, 3, 1) (.branch .leaf (4, 3, 2) (.branch .leaf (4, 3, 3) (.branch (.branch (.branch .leaf (4, 4, 0) .leaf) (4, 4, 1) .leaf) (4, 4, 2) (.branch .leaf (4, 4, 3) (.branch (.branch .leaf (4, 5, 0) .leaf) (4, 5, 1) (.branch .leaf (4, 5, 2) (.branch .leaf (4, 5, 3) (.branch (.branch (.branch .leaf (4, 6, 0) .leaf) (4, 6, 1) .leaf) (4, 6, 2) (.branch .leaf (4, 6, 3) (.branch (.branch .leaf (4, 7, 0) .leaf) (4, 7, 1) .leaf))))))))))) (5, 0, 0) (.branch .leaf (5, 0, 1) .leaf)))) (5, 0, 2) (.branch .leaf (5, 0, 3) (.branch (.branch (.branch .leaf (5, 1, 0) .leaf) (5, 1, 1) .leaf) (5, 1, 2) (.branch .leaf (5, 1, 3) (.branch (.branch (.branch .leaf (5, 2, 0) .leaf) (5, 2, 1) .leaf) (5, 2, 2) (.branch .leaf (5, 2, 3) (.branch (.branch (.branch .leaf (5, 3, 0) .leaf) (5, 3, 1) (.branch (.branch .leaf (5, 3, 2) (.branch .leaf (5, 3, 3) (.branch (.branch (.branch .leaf (5, 4, 0) .leaf) (5, 4, 1) .leaf) (5, 4, 2) (.branch .leaf (5, 4, 3) (.branch (.branch (.branch .leaf (5, 5, 0) .leaf) (5, 5, 1) .leaf) (5, 5, 2) (.branch .leaf (5, 5, 3) (.branch .leaf (5, 6, 2) (.branch .leaf (5, 6, 3) .leaf)))))))) (6, 0, 0) (.branch .leaf (6, 0, 1) .leaf))) (6, 0, 2) (.branch .leaf (6, 0, 3) (.branch (.branch (.branch .leaf (6, 1, 0) .leaf) (6, 1, 1) .leaf) (6, 1, 2) (.branch .leaf (6, 1, 3) (.branch (.branch (.branch .leaf (6, 2, 0) .leaf) (6, 2, 1) .leaf) (6, 2, 2) (.branch .leaf (6, 2, 3) (.branch (.branch (.branch .leaf (6, 3, 0) .leaf) (6, 3, 1) (.branch (.branch .leaf (6, 3, 2) (.branch .leaf (6, 3, 3) (.branch (.branch .leaf (6, 4, 0) .leaf) (6, 4, 1) (.branch .leaf (6, 4, 2) (.branch .leaf (6, 4, 3) .leaf))))) (7, 0, 0) (.branch .leaf (7, 0, 1) .leaf))) (7, 0, 2) (.branch .leaf (7, 0, 3) (.branch (.branch (.branch (.branch .leaf (7, 1, 0) .leaf) (7, 1, 1) .leaf) (7, 1, 2) (.branch .leaf (7, 1, 3) (.branch (.branch .leaf (7, 2, 0) .leaf) (7, 2, 1) .leaf))) (7, 2, 2) (.branch .leaf (7, 2, 3) (.branch (.branch (.branch .leaf (7, 3, 0) .leaf) (7, 3, 1) (.branch .leaf (7, 3, 2) (.branch .leaf (7, 3, 3) (.branch (.branch (.branch .leaf (7, 4, 0) .leaf) (7, 4, 1) .leaf) (8, 0, 0) (.branch .leaf (8, 0, 1) .leaf))))) (8, 0, 2) (.branch .leaf (8, 0, 3) (.branch (.branch (.branch (.branch .leaf (8, 1, 0) .leaf) (8, 1, 1) .leaf) (8, 1, 2) (.branch .leaf (8, 1, 3) (.branch (.branch .leaf (8, 2, 0) .leaf) (8, 2, 1) .leaf))) (8, 2, 2) (.branch .leaf (8, 2, 3) (.branch (.branch .leaf (8, 3, 0) .leaf) (8, 3, 1) (.branch .leaf (8, 3, 2) (.branch .leaf (8, 3, 3) (.branch .leaf (9, 0, 2) (.branch .leaf (9, 0, 3) (.branch (.branch .leaf (9, 1, 2) (.branch .leaf (9, 1, 3) (.branch .leaf (9, 2, 2) (.branch .leaf (9, 2, 3) .leaf)))) (9, 3, 2) (.branch .leaf (9, 3, 3) (.branch .leaf (10, 0, 2) (.branch .leaf (10, 0, 3) (.branch (.branch .leaf (10, 1, 0) .leaf) (10, 1, 1) (.branch .leaf (10, 1, 2) (.branch .leaf (10, 1, 3) .leaf))))))))))))))))))))))))))))))))))))))))))))))))))))

/-- Simulation snapshot: heap after segment 3 of the day-17 a-run. -/
def d17aHeap4 : Heap := (.node ⟨⟨3, 6⟩, .Up, 45⟩ [(.node ⟨⟨3, 6⟩, .Right, 45⟩ [(.node ⟨⟨7, 1⟩, .Right, 45⟩ [(.node ⟨⟨5, 6⟩, .Left, 48⟩ [(.node ⟨⟨6, 6⟩, .Left, 54⟩ [(.node ⟨⟨7, 6⟩, .Left, 61⟩ [(.node ⟨⟨7, 6⟩, .Right, 61⟩ [])]), (.node ⟨⟨6, 6⟩, .Right, 54⟩ [])]), (.node ⟨⟨3, 5⟩, .Up, 53⟩ [(.node ⟨⟨3, 4⟩, .Up, 58⟩ [(.node ⟨⟨3, 4⟩, .Down, 58⟩ [])]), (.node ⟨⟨3, 5⟩, .Down, 53⟩ [])]), (.node ⟨⟨5, 6⟩, .Right, 48⟩ [])]), (.node ⟨⟨4, 8⟩, .Left, 50⟩ [(.node ⟨⟨6, 1⟩, .Right, 49⟩ [(.node ⟨⟨5, 1⟩, .Right, 53⟩ [(.node ⟨⟨5, 1⟩, .Left, 53⟩ [])]), (.node ⟨⟨6, 1⟩, .Left, 49⟩ [])]), (.node ⟨⟨5, 8⟩, .Left, 59⟩ [(.node ⟨⟨5, 8⟩, .Right, 59⟩ [])]), (.node ⟨⟨4, 8⟩, .Right, 50⟩ [])]), (.node ⟨⟨11, 1⟩, .Left, 51⟩ [(.node ⟨⟨11, 1⟩, .Right, 51⟩ [])]), (.node ⟨⟨7, 1⟩, .Left, 45⟩ [])]), (.node ⟨⟨2, 7⟩, .Up, 52⟩ [(.node ⟨⟨2, 6⟩, .Up, 57⟩ [(.node ⟨⟨2, 6⟩, .Down, 57⟩ [])]), (.node ⟨⟨2, 7⟩, .Down, 52⟩ [])]), (.node ⟨⟨2, 8⟩, .Up, 46⟩ [(.node ⟨⟨2, 8⟩, .Down, 46⟩ [])]), (.node ⟨⟨2, 6⟩, .Right, 50⟩ [(.node ⟨⟨1, 6⟩, .Right, 53⟩ [(.node ⟨⟨1, 6⟩, .Left, 53⟩ [])]), (.node ⟨⟨2, 6⟩, .Left, 50⟩ [])]), (.node ⟨⟨3, 9⟩, .Down, 49⟩ [(.node ⟨⟨3, 10⟩, .Down, 53⟩ [(.node ⟨⟨3, 10⟩, .Up, 53⟩ [])]), (.node ⟨⟨3, 9⟩, .Up, 49⟩ [])]), (.node ⟨⟨3, 6⟩, .Left, 45⟩ [])]), (.node ⟨⟨10, 2⟩, .Left, 48⟩ [(.node ⟨⟨10, 2⟩, .Down, 48⟩ [(.node ⟨⟨6, 4⟩, .Right, 54⟩ [(.node ⟨⟨5, 4⟩, .Right, 59⟩ [(.node ⟨⟨4, 4⟩, .Right, 65⟩ [(.node ⟨⟨4, 4⟩, .Left, 65⟩ [])]), (.node ⟨⟨5, 4⟩, .Left, 59⟩ [])]), (.node ⟨⟨6, 7⟩, .Left, 62⟩ [(.node ⟨⟨7, 7⟩, .Left, 71⟩ [(.node ⟨⟨7, 7⟩, .Right, 71⟩ [])]), (.node ⟨⟨6, 7⟩, .Right, 62⟩ [])]), (.node ⟨⟨6, 4⟩, .Left, 54⟩ [])]), (.node ⟨⟨10, 2⟩, .Up, 48⟩ [])]), (.node ⟨⟨1, 4⟩, .Right, 42⟩ [(.node ⟨⟨4, 7⟩, .Down, 49⟩ [(.node ⟨⟨4, 8⟩, .Down, 55⟩ [(.node ⟨⟨4, 8⟩, .Up, 55⟩ [])]), (.node ⟨⟨4, 7⟩, .Up, 49⟩ [])]), (.node ⟨⟨7, 3⟩, .Left, 47⟩ [(.node ⟨⟨4, 7⟩, .Left, 52⟩ [(.node ⟨⟨4, 7⟩, .Right, 52⟩ [])]), (.node ⟨⟨7, 3⟩, .Right, 47⟩ [])]), (.node ⟨⟨2, 10⟩, .Up, 49⟩ [(.node ⟨⟨2, 9⟩, .Right, 50⟩ [(.node ⟨⟨1, 9⟩, .Right, 55⟩ [(.node ⟨⟨0, 9⟩, .Right, 56⟩ [(.node ⟨⟨0, 9⟩, .Left, 56⟩ [])]), (.node ⟨⟨1, 9⟩, .Left, 55⟩ [])]), (.node ⟨⟨2, 12⟩, .Left, 53⟩ [(.node ⟨⟨3, 12⟩, .Left, 55⟩ [(.node ⟨⟨3, 12⟩, .Right, 55⟩ [])]), (.node ⟨⟨2, 12⟩, .Right, 53⟩ [])]), (.node ⟨⟨2, 9⟩, .Left, 50⟩ [])]), (.node ⟨⟨2, 10⟩, .Down, 49⟩ [])]), (.node ⟨⟨1, 4⟩, .Left, 42⟩ [])]), (.node ⟨⟨10, 0⟩, .Up, 47⟩ [(.node ⟨⟨11, 1⟩, .Left, 51⟩ [(.node ⟨⟨9, 4⟩, .Left, 61⟩ [(.node ⟨⟨10, 4⟩, .Left, 67⟩ [(.node ⟨⟨10, 4⟩, .Right, 67⟩ [])]), (.node ⟨⟨9, 4⟩, .Right, 61⟩ [])]), (.node ⟨⟨8, 4⟩, .Left, 55⟩ [(.node ⟨⟨8, 4⟩, .Right, 55⟩ [])]), (.node ⟨⟨12, 1⟩, .Left, 54⟩ [(.node ⟨⟨12, 1⟩, .Right, 54⟩ [])]), (.node ⟨⟨11, 1⟩, .Right, 51⟩ [])]), (.node ⟨⟨10, 0⟩, .Down, 47⟩ [])]), (.node ⟨⟨2, 5⟩, .Up, 45⟩ [(.node ⟨⟨3, 4⟩, .Right, 46⟩ [(.node ⟨⟨2, 4⟩, .Right, 48⟩ [(.node ⟨⟨2, 4⟩, .Left, 48⟩ [])]), (.node ⟨⟨3, 4⟩, .Left, 46⟩ [])]), (.node ⟨⟨2, 4⟩, .Up, 47⟩ [(.node ⟨⟨2, 4⟩, .Down, 47⟩ [])]), (.node ⟨⟨2, 5⟩, .Down, 45⟩ [])]), (.node ⟨⟨10, 2⟩, .Right, 48⟩ [])]), (.node ⟨⟨7, 2⟩, .Right, 46⟩ [(.node ⟨⟨9, 3⟩, .Left, 49⟩ [(.node ⟨⟨2, 3⟩, .Right, 47⟩ [(.node ⟨⟨2, 3⟩, .Left, 47⟩ [])]), (.node ⟨⟨7, 4⟩, .Down, 49⟩ [(.node ⟨⟨7, 1⟩, .Up, 50⟩ [(.node ⟨⟨7, 0⟩, .Up, 53⟩ [(.node ⟨⟨7, 0⟩, .Down, 53⟩ [])]), (.node ⟨⟨7, 1⟩, .Down, 50⟩ [])]), (.node ⟨⟨7, 4⟩, .Up, 49⟩ [])]), (.node ⟨⟨9, 3⟩, .Right, 49⟩ [])]), (.node ⟨⟨5, 5⟩, .Down, 47⟩ [(.node ⟨⟨4, 1⟩, .Right, 47⟩ [(.node ⟨⟨4, 1⟩, .Left, 47⟩ [])]), (.node ⟨⟨5, 6⟩, .Down, 55⟩ [(.node ⟨⟨5, 6⟩, .Up, 55⟩ [])]), (.node ⟨⟨5, 5⟩, .Up, 47⟩ [])]), (.node ⟨⟨8, 3⟩, .Left, 48⟩ [(.node ⟨⟨8, 3⟩, .Right, 48⟩ [])]), (.node ⟨⟨8, 3⟩, .Down, 48⟩ [(.node ⟨⟨8, 3⟩, .Up, 48⟩ [])]), (.node ⟨⟨1, 8⟩, .Up, 52⟩ [(.node ⟨⟨3, 5⟩, .Right, 56⟩ [(.node ⟨⟨2, 5⟩, .Right, 60⟩ [(.node ⟨⟨2, 5⟩, .Left, 60⟩ [])]), (.node ⟨⟨3, 5⟩, .Left, 56⟩ [])]), (.node ⟨⟨1, 7⟩, .Up, 57⟩ [(.node ⟨⟨1, 7⟩, .Down, 57⟩ [])]), (.node ⟨⟨1, 8⟩, .Down, 52⟩ [])]), (.node ⟨⟨5, 2⟩, .Up, 45⟩ [(.node ⟨⟨5, 1⟩, .Up, 49⟩ [(.node ⟨⟨5, 1⟩, .Down, 49⟩ [])]), (.node ⟨⟨5, 2⟩, .Down, 45⟩ [])]), (.node ⟨⟨6, 2⟩, .Right, 51⟩ [(.node ⟨⟨5, 2⟩, .Right, 54⟩ [(.node ⟨⟨5, 2⟩, .Left, 54⟩ [])]), (.node ⟨⟨6, 2⟩, .Left, 51⟩ [])]), (.node ⟨⟨6, 6⟩, .Down, 56⟩ [(.node ⟨⟨6, 7⟩, .Down, 65⟩ [(.node ⟨⟨6, 7⟩, .Up, 65⟩ [])]), (.node ⟨⟨6, 6⟩, .Up, 56⟩ [])]), (.node ⟨⟨7, 2⟩, .Left, 46⟩ [])]), (.node ⟨⟨2, 7⟩, .Right, 45⟩ [(.node ⟨⟨0, 12⟩, .Right, 48⟩ [(.node ⟨⟨1, 12⟩, .Down, 49⟩ [(.node ⟨⟨2, 11⟩, .Up, 54⟩ [(.node ⟨⟨2, 11⟩, .Down, 54⟩ [])]), (.node ⟨⟨1, 11⟩, .Right, 50⟩ [(.node ⟨⟨0, 11⟩, .Right, 52⟩ [(.node ⟨⟨0, 11⟩, .Left, 52⟩ [])]), (.node ⟨⟨1, 11⟩, .Left, 50⟩ [])]), (.node ⟨⟨10, 3⟩, .Left, 49⟩ [(.node ⟨⟨2, 12⟩, .Down, 52⟩ [(.node ⟨⟨2, 12⟩, .Up, 52⟩ [])]), (.node ⟨⟨3, 6⟩, .Up, 54⟩ [(.node ⟨⟨3, 5⟩, .Up, 62⟩ [(.node ⟨⟨3, 5⟩, .Down, 62⟩ [])]), (.node ⟨⟨3, 6⟩, .Down, 54⟩ [])]), (.node ⟨⟨3, 7⟩, .Up, 49⟩ [(.node ⟨⟨3, 7⟩, .Down, 49⟩ [])]), (.node ⟨⟨11, 3⟩, .Left, 55⟩ [(.node ⟨⟨11, 3⟩, .Right, 55⟩ [])]), (.node ⟨⟨10, 3⟩, .Right, 49⟩ [])]), (.node ⟨⟨3, 11⟩, .Left, 53⟩ [(.node ⟨⟨3, 11⟩, .Right, 53⟩ [])]), (.node ⟨⟨3, 11⟩, .Down, 55⟩ [(.node ⟨⟨3, 12⟩, .Down, 57⟩ [(.node ⟨⟨3, 12⟩, .Up, 57⟩ [])]), (.node ⟨⟨3, 11⟩, .Up, 55⟩ [])]), (.node ⟨⟨3, 10⟩, .Down, 50⟩ [(.node ⟨⟨3, 10⟩, .Up, 50⟩ [])]), (.node ⟨⟨4, 9⟩, .Left, 53⟩ [(.node ⟨⟨4, 9⟩, .Right, 53⟩ [])]), (.node ⟨⟨3, 2⟩, .Up, 44⟩ [(.node ⟨⟨3, 2⟩, .Down, 44⟩ [])]), (.node ⟨⟨1, 9⟩, .Up, 49⟩ [(.node ⟨⟨1, 9⟩, .Down, 49⟩ [])]), (.node ⟨⟨1, 12⟩, .Up, 49⟩ [])]), (.node ⟨⟨2, 10⟩, .Up, 56⟩ [(.node ⟨⟨2, 9⟩, .Up, 60⟩ [(.node ⟨⟨2, 9⟩, .Down, 60⟩ [])]), (.node ⟨⟨2, 10⟩, .Down, 56⟩ [])]), (.node ⟨⟨10, 3⟩, .Left, 50⟩ [(.node ⟨⟨3, 7⟩, .Right, 54⟩ [(.node ⟨⟨2, 7⟩, .Right, 60⟩ [(.node ⟨⟨1, 7⟩, .Right, 65⟩ [(.node ⟨⟨1, 7⟩, .Left, 65⟩ [])]), (.node ⟨⟨2, 7⟩, .Left, 60⟩ [])]), (.node ⟨⟨5, 8⟩, .Down, 62⟩ [(.node ⟨⟨5, 9⟩, .Down, 70⟩ [(.node ⟨⟨5, 9⟩, .Up, 70⟩ [])]), (.node ⟨⟨5, 8⟩, .Up, 62⟩ [])]), (.node ⟨⟨3, 7⟩, .Left, 54⟩ [])]), (.node ⟨⟨4, 4⟩, .Up, 49⟩ [(.node ⟨⟨4, 3⟩, .Up, 55⟩ [(.node ⟨⟨4, 3⟩, .Down, 55⟩ [])]), (.node ⟨⟨4, 4⟩, .Down, 49⟩ [])]), (.node ⟨⟨10, 3⟩, .Right, 50⟩ [])]), (.node ⟨⟨9, 3⟩, .Down, 49⟩ [(.node ⟨⟨3, 8⟩, .Up, 50⟩ [(.node ⟨⟨3, 8⟩, .Down, 50⟩ [])]), (.node ⟨⟨9, 4⟩, .Down, 55⟩ [(.node ⟨⟨9, 5⟩, .Down, 62⟩ [(.node ⟨⟨9, 5⟩, .Up, 62⟩ [])]), (.node ⟨⟨9, 4⟩, .Up, 55⟩ [])]), (.node ⟨⟨9, 1⟩, .Up, 50⟩ [(.node ⟨⟨9, 0⟩, .Up, 54⟩ [(.node ⟨⟨9, 0⟩, .Down, 54⟩ [])]), (.node ⟨⟨9, 1⟩, .Down, 50⟩ [])]), (.node ⟨⟨9, 3⟩, .Up, 49⟩ [])]), (.node ⟨⟨3, 4⟩, .Up, 44⟩ [(.node ⟨⟨1, 8⟩, .Right, 51⟩ [(.node ⟨⟨0, 8⟩, .Right, 52⟩ [(.node ⟨⟨0, 8⟩, .Left, 52⟩ [])]), (.node ⟨⟨1, 8⟩, .Left, 51⟩ [])]), (.node ⟨⟨6, 5⟩, .Down, 52⟩ [(.node ⟨⟨6, 6⟩, .Down, 58⟩ [(.node ⟨⟨6, 6⟩, .Up, 58⟩ [])]), (.node ⟨⟨6, 5⟩, .Up, 52⟩ [])]), (.node ⟨⟨3, 3⟩, .Up, 50⟩ [(.node ⟨⟨3, 3⟩, .Down, 50⟩ [])]), (.node ⟨⟨3, 4⟩, .Down, 44⟩ [])]), (.node ⟨⟨3, 10⟩, .Left, 50⟩ [(.node ⟨⟨3, 10⟩, .Right, 50⟩ [])]), (.node ⟨⟨6, 5⟩, .Down, 49⟩ [(.node ⟨⟨6, 5⟩, .Up, 49⟩ [])]), (.node ⟨⟨9, 2⟩, .Down, 50⟩ [(.node ⟨⟨9, 2⟩, .Up, 50⟩ [])]), (.node ⟨⟨2, 5⟩, .Right, 45⟩ [(.node ⟨⟨6, 5⟩, .Left, 51⟩ [(.node ⟨⟨6, 5⟩, .Right, 51⟩ [])]), (.node ⟨⟨1, 5⟩, .Right, 50⟩ [(.node ⟨⟨1, 5⟩, .Left, 50⟩ [])]), (.node ⟨⟨2, 5⟩, .Left, 45⟩ [])]), (.node ⟨⟨3, 2⟩, .Right, 42⟩ [(.node ⟨⟨3, 2⟩, .Left, 42⟩ [])]), (.node ⟨⟨3, 12⟩, .Left, 51⟩ [(.node ⟨⟨4, 12⟩, .Left, 57⟩ [(.node ⟨⟨4, 12⟩, .Right, 57⟩ [])]), (.node ⟨⟨3, 12⟩, .Right, 51⟩ [])]), (.node ⟨⟨0, 12⟩, .Left, 48⟩ [])]), (.node ⟨⟨10, 2⟩, .Down, 48⟩ [(.node ⟨⟨4, 2⟩, .Right, 47⟩ [(.node ⟨⟨4, 2⟩, .Left, 47⟩ [])]), (.node ⟨⟨6, 1⟩, .Up, 46⟩ [(.node ⟨⟨7, 4⟩, .Left, 50⟩ [(.node ⟨⟨9, 2⟩, .Down, 52⟩ [(.node ⟨⟨9, 3⟩, .Down, 56⟩ [(.node ⟨⟨9, 3⟩, .Up, 56⟩ [])]), (.node ⟨⟨9, 2⟩, .Up, 52⟩ [])]), (.node ⟨⟨7, 4⟩, .Right, 50⟩ [])]), (.node ⟨⟨6, 0⟩, .Up, 50⟩ [(.node ⟨⟨6, 0⟩, .Down, 50⟩ [])]), (.node ⟨⟨6, 1⟩, .Down, 46⟩ [])]), (.node ⟨⟨10, 3⟩, .Down, 52⟩ [(.node ⟨⟨10, 3⟩, .Up, 52⟩ [])]), (.node ⟨⟨10, 2⟩, .Up, 48⟩ [])]), (.node ⟨⟨10, 0⟩, .Left, 47⟩ [(.node ⟨⟨4, 11⟩, .Left, 56⟩ [(.node ⟨⟨5, 11⟩, .Left, 61⟩ [(.node ⟨⟨5, 11⟩, .Right, 61⟩ [])]), (.node ⟨⟨4, 11⟩, .Right, 56⟩ [])]), (.node ⟨⟨2, 12⟩, .Down, 51⟩ [(.node ⟨⟨0, 4⟩, .Up, 42⟩ [(.node ⟨⟨4, 0⟩, .Right, 44⟩ [(.node ⟨⟨4, 0⟩, .Left, 44⟩ [])]), (.node ⟨⟨0, 4⟩, .Down, 42⟩ [])]), (.node ⟨⟨3, 11⟩, .Down, 52⟩ [(.node ⟨⟨3, 12⟩, .Down, 54⟩ [(.node ⟨⟨3, 12⟩, .Up, 54⟩ [])]), (.node ⟨⟨3, 11⟩, .Up, 52⟩ [])]), (.node ⟨⟨3, 8⟩, .Up, 56⟩ [(.node ⟨⟨3, 7⟩, .Up, 64⟩ [(.node ⟨⟨3, 7⟩, .Down, 64⟩ [])]), (.node ⟨⟨3, 8⟩, .Down, 56⟩ [])]), (.node ⟨⟨2, 12⟩, .Up, 51⟩ [])]), (.node ⟨⟨9, 0⟩, .Up, 48⟩ [(.node ⟨⟨9, 0⟩, .Down, 48⟩ [])]), (.node ⟨⟨5, 9⟩, .Left, 61⟩ [(.node ⟨⟨6, 9⟩, .Left, 68⟩ [(.node ⟨⟨6, 9⟩, .Right, 68⟩ [])]), (.node ⟨⟨5, 9⟩, .Right, 61⟩ [])]), (.node ⟨⟨11, 0⟩, .Left, 49⟩ [(.node ⟨⟨11, 0⟩, .Right, 49⟩ [])]), (.node ⟨⟨10, 0⟩, .Right, 47⟩ [])]), (.node ⟨⟨1, 3⟩, .Right, 41⟩ [(.node ⟨⟨9, 2⟩, .Up, 51⟩ [(.node ⟨⟨9, 2⟩, .Down, 51⟩ [])]), (.node ⟨⟨8, 4⟩, .Down, 50⟩ [(.node ⟨⟨8, 5⟩, .Down, 56⟩ [(.node ⟨⟨8, 5⟩, .Up, 56⟩ [])]), (.node ⟨⟨8, 4⟩, .Up, 50⟩ [])]), (.node ⟨⟨4, 7⟩, .Down, 48⟩ [(.node ⟨⟨4, 7⟩, .Up, 48⟩ [])]), (.node ⟨⟨1, 3⟩, .Left, 41⟩ [])]), (.node ⟨⟨3, 9⟩, .Down, 48⟩ [(.node ⟨⟨9, 2⟩, .Left, 49⟩ [(.node ⟨⟨7, 4⟩, .Left, 51⟩ [(.node ⟨⟨6, 3⟩, .Up, 50⟩ [(.node ⟨⟨6, 3⟩, .Down, 50⟩ [])]), (.node ⟨⟨8, 4⟩, .Left, 60⟩ [(.node ⟨⟨8, 4⟩, .Right, 60⟩ [])]), (.node ⟨⟨7, 4⟩, .Right, 51⟩ [])]), (.node ⟨⟨4, 5⟩, .Right, 48⟩ [(.node ⟨⟨4, 5⟩, .Left, 48⟩ [])]), (.node ⟨⟨6, 5⟩, .Left, 50⟩ [(.node ⟨⟨6, 5⟩, .Right, 50⟩ [])]), (.node ⟨⟨10, 2⟩, .Left, 51⟩ [(.node ⟨⟨11, 2⟩, .Left, 55⟩ [(.node ⟨⟨11, 2⟩, .Right, 55⟩ [])]), (.node ⟨⟨10, 2⟩, .Right, 51⟩ [])]), (.node ⟨⟨6, 2⟩, .Up, 55⟩ [(.node ⟨⟨6, 1⟩, .Up, 59⟩ [(.node ⟨⟨6, 1⟩, .Down, 59⟩ [])]), (.node ⟨⟨6, 2⟩, .Down, 55⟩ [])]), (.node ⟨⟨9, 2⟩, .Right, 49⟩ [])]), (.node ⟨⟨6, 5⟩, .Down, 50⟩ [(.node ⟨⟨7, 5⟩, .Left, 57⟩ [(.node ⟨⟨8, 5⟩, .Left, 63⟩ [(.node ⟨⟨8, 5⟩, .Right, 63⟩ [])]), (.node ⟨⟨7, 5⟩, .Right, 57⟩ [])]), (.node ⟨⟨6, 5⟩, .Up, 50⟩ [])]), (.node ⟨⟨3, 9⟩, .Up, 48⟩ [])]), (.node ⟨⟨1, 7⟩, .Right, 50⟩ [(.node ⟨⟨0, 7⟩, .Right, 53⟩ [(.node ⟨⟨0, 7⟩, .Left, 53⟩ [])]), (.node ⟨⟨1, 7⟩, .Left, 50⟩ [])]), (.node ⟨⟨2, 7⟩, .Left, 45⟩ [])]), (.node ⟨⟨6, 3⟩, .Right, 45⟩ [(.node ⟨⟨10, 3⟩, .Down, 52⟩ [(.node ⟨⟨5, 7⟩, .Down, 53⟩ [(.node ⟨⟨8, 1⟩, .Right, 57⟩ [(.node ⟨⟨7, 1⟩, .Right, 63⟩ [(.node ⟨⟨7, 1⟩, .Left, 63⟩ [])]), (.node ⟨⟨8, 1⟩, .Left, 57⟩ [])]), (.node ⟨⟨5, 7⟩, .Up, 53⟩ [])]), (.node ⟨⟨5, 7⟩, .Left, 53⟩ [(.node ⟨⟨5, 7⟩, .Right, 53⟩ [])]), (.node ⟨⟨9, 1⟩, .Right, 51⟩ [(.node ⟨⟨9, 1⟩, .Left, 51⟩ [])]), (.node ⟨⟨10, 4⟩, .Down, 58⟩ [(.node ⟨⟨10, 4⟩, .Up, 58⟩ [])]), (.node ⟨⟨10, 3⟩, .Up, 52⟩ [])]), (.node ⟨⟨9, 1⟩, .Down, 46⟩ [(.node ⟨⟨5, 4⟩, .Up, 60⟩ [(.node ⟨⟨5, 3⟩, .Up, 68⟩ [(.node ⟨⟨5, 3⟩, .Down, 68⟩ [])]), (.node ⟨⟨5, 4⟩, .Down, 60⟩ [])]), (.node ⟨⟨5, 7⟩, .Left, 54⟩ [(.node ⟨⟨6, 7⟩, .Left, 63⟩ [(.node ⟨⟨6, 7⟩, .Right, 63⟩ [])]), (.node ⟨⟨5, 7⟩, .Right, 54⟩ [])]), (.node ⟨⟨0, 6⟩, .Up, 44⟩ [(.node ⟨⟨0, 6⟩, .Down, 44⟩ [])]), (.node ⟨⟨8, 0⟩, .Up, 47⟩ [(.node ⟨⟨4, 9⟩, .Left, 53⟩ [(.node ⟨⟨4, 9⟩, .Right, 53⟩ [])]), (.node ⟨⟨8, 0⟩, .Down, 47⟩ [])]), (.node ⟨⟨8, 3⟩, .Down, 47⟩ [(.node ⟨⟨8, 4⟩, .Down, 56⟩ [(.node ⟨⟨8, 4⟩, .Up, 56⟩ [])]), (.node ⟨⟨8, 3⟩, .Up, 47⟩ [])]), (.node ⟨⟨9, 1⟩, .Up, 46⟩ [])]), (.node ⟨⟨1, 9⟩, .Right, 46⟩ [(.node ⟨⟨1, 10⟩, .Up, 48⟩ [(.node ⟨⟨1, 10⟩, .Down, 48⟩ [])]), (.node ⟨⟨0, 9⟩, .Right, 47⟩ [(.node ⟨⟨0, 9⟩, .Left, 47⟩ [])]), (.node ⟨⟨1, 9⟩, .Left, 46⟩ [])]), (.node ⟨⟨0, 5⟩, .Right, 42⟩ [(.node ⟨⟨6, 5⟩, .Left, 49⟩ [(.node ⟨⟨4, 3⟩, .Up, 46⟩ [(.node ⟨⟨5, 6⟩, .Down, 51⟩ [(.node ⟨⟨5, 7⟩, .Down, 58⟩ [(.node ⟨⟨5, 7⟩, .Up, 58⟩ [])]), (.node ⟨⟨5, 6⟩, .Up, 51⟩ [])]), (.node ⟨⟨4, 2⟩, .Up, 50⟩ [(.node ⟨⟨4, 2⟩, .Down, 50⟩ [])]), (.node ⟨⟨4, 3⟩, .Down, 46⟩ [])]), (.node ⟨⟨7, 5⟩, .Left, 56⟩ [(.node ⟨⟨7, 5⟩, .Right, 56⟩ [])]), (.node ⟨⟨6, 5⟩, .Right, 49⟩ [])]), (.node ⟨⟨0, 5⟩, .Left, 42⟩ [])]), (.node ⟨⟨3, 10⟩, .Down, 50⟩ [(.node ⟨⟨3, 7⟩, .Up, 58⟩ [(.node ⟨⟨3, 6⟩, .Up, 63⟩ [(.node ⟨⟨3, 6⟩, .Down, 63⟩ [])]), (.node ⟨⟨3, 7⟩, .Down, 58⟩ [])]), (.node ⟨⟨7, 3⟩, .Right, 48⟩ [(.node ⟨⟨6, 3⟩, .Right, 55⟩ [(.node ⟨⟨5, 3⟩, .Right, 63⟩ [(.node ⟨⟨5, 3⟩, .Left, 63⟩ [])]), (.node ⟨⟨6, 3⟩, .Left, 55⟩ [])]), (.node ⟨⟨7, 3⟩, .Left, 48⟩ [])]), (.node ⟨⟨4, 9⟩, .Left, 53⟩ [(.node ⟨⟨5, 9⟩, .Left, 61⟩ [(.node ⟨⟨5, 9⟩, .Right, 61⟩ [])]), (.node ⟨⟨4, 9⟩, .Right, 53⟩ [])]), (.node ⟨⟨3, 11⟩, .Down, 55⟩ [(.node ⟨⟨3, 11⟩, .Up, 55⟩ [])]), (.node ⟨⟨3, 10⟩, .Up, 50⟩ [])]), (.node ⟨⟨1, 12⟩, .Left, 49⟩ [(.node ⟨⟨1, 7⟩, .Up, 45⟩ [(.node ⟨⟨8, 2⟩, .Up, 47⟩ [(.node ⟨⟨4, 10⟩, .Left, 52⟩ [(.node ⟨⟨5, 10⟩, .Left, 56⟩ [(.node ⟨⟨5, 10⟩, .Right, 56⟩ [])]), (.node ⟨⟨4, 10⟩, .Right, 52⟩ [])]), (.node ⟨⟨8, 5⟩, .Down, 57⟩ [(.node ⟨⟨8, 6⟩, .Down, 64⟩ [(.node ⟨⟨8, 6⟩, .Up, 64⟩ [])]), (.node ⟨⟨8, 5⟩, .Up, 57⟩ [])]), (.node ⟨⟨8, 4⟩, .Down, 51⟩ [(.node ⟨⟨8, 4⟩, .Up, 51⟩ [])]), (.node ⟨⟨8, 1⟩, .Up, 53⟩ [(.node ⟨⟨8, 0⟩, .Up, 57⟩ [(.node ⟨⟨8, 0⟩, .Down, 57⟩ [])]), (.node ⟨⟨8, 1⟩, .Down, 53⟩ [])]), (.node ⟨⟨7, 5⟩, .Down, 56⟩ [(.node ⟨⟨7, 6⟩, .Down, 63⟩ [(.node ⟨⟨7, 6⟩, .Up, 63⟩ [])]), (.node ⟨⟨7, 5⟩, .Up, 56⟩ [])]), (.node ⟨⟨8, 2⟩, .Down, 47⟩ [])]), (.node ⟨⟨4, 7⟩, .Left, 48⟩ [(.node ⟨⟨5, 7⟩, .Left, 55⟩ [(.node ⟨⟨5, 7⟩, .Right, 55⟩ [])]), (.node ⟨⟨4, 7⟩, .Right, 48⟩ [])]), (.node ⟨⟨1, 6⟩, .Up, 48⟩ [(.node ⟨⟨1, 6⟩, .Down, 48⟩ [])]), (.node ⟨⟨1, 7⟩, .Down, 45⟩ [])]), (.node ⟨⟨3, 9⟩, .Up, 52⟩ [(.node ⟨⟨2, 9⟩, .Up, 53⟩ [(.node ⟨⟨2, 8⟩, .Up, 58⟩ [(.node ⟨⟨2, 8⟩, .Down, 58⟩ [])]), (.node ⟨⟨2, 9⟩, .Down, 53⟩ [])]), (.node ⟨⟨3, 9⟩, .Down, 52⟩ [])]), (.node ⟨⟨0, 5⟩, .Up, 42⟩ [(.node ⟨⟨4, 4⟩, .Right, 53⟩ [(.node ⟨⟨3, 4⟩, .Right, 58⟩ [(.node ⟨⟨3, 4⟩, .Left, 58⟩ [])]), (.node ⟨⟨4, 4⟩, .Left, 53⟩ [])]), (.node ⟨⟨0, 5⟩, .Down, 42⟩ [])]), (.node ⟨⟨1, 12⟩, .Right, 49⟩ [])]), (.node ⟨⟨1, 10⟩, .Right, 49⟩ [(.node ⟨⟨5, 6⟩, .Left, 49⟩ [(.node ⟨⟨6, 6⟩, .Left, 55⟩ [(.node ⟨⟨6, 6⟩, .Right, 55⟩ [])]), (.node ⟨⟨5, 6⟩, .Right, 49⟩ [])]), (.node ⟨⟨0, 10⟩, .Right, 52⟩ [(.node ⟨⟨0, 10⟩, .Left, 52⟩ [])]), (.node ⟨⟨1, 10⟩, .Left, 49⟩ [])]), (.node ⟨⟨10, 1⟩, .Left, 47⟩ [(.node ⟨⟨10, 1⟩, .Right, 47⟩ [])]), (.node ⟨⟨5, 3⟩, .Right, 53⟩ [(.node ⟨⟨4, 3⟩, .Right, 59⟩ [(.node ⟨⟨4, 3⟩, .Left, 59⟩ [])]), (.node ⟨⟨5, 3⟩, .Left, 53⟩ [])]), (.node ⟨⟨4, 8⟩, .Down, 52⟩ [(.node ⟨⟨4, 9⟩, .Down, 59⟩ [(.node ⟨⟨4, 9⟩, .Up, 59⟩ [])]), (.node ⟨⟨4, 8⟩, .Up, 52⟩ [])]), (.node ⟨⟨6, 3⟩, .Left, 45⟩ [])]), (.node ⟨⟨3, 7⟩, .Left, 46⟩ [(.node ⟨⟨7, 4⟩, .Down, 50⟩ [(.node ⟨⟨7, 4⟩, .Up, 50⟩ [])]), (.node ⟨⟨0, 6⟩, .Right, 44⟩ [(.node ⟨⟨1, 4⟩, .Up, 44⟩ [(.node ⟨⟨1, 4⟩, .Down, 44⟩ [])]), (.node ⟨⟨4, 3⟩, .Right, 48⟩ [(.node ⟨⟨3, 3⟩, .Right, 54⟩ [(.node ⟨⟨3, 3⟩, .Left, 54⟩ [])]), (.node ⟨⟨4, 3⟩, .Left, 48⟩ [])]), (.node ⟨⟨0, 6⟩, .Left, 44⟩ [])]), (.node ⟨⟨5, 5⟩, .Up, 55⟩ [(.node ⟨⟨5, 5⟩, .Down, 55⟩ [])]), (.node ⟨⟨5, 4⟩, .Up, 47⟩ [(.node ⟨⟨1, 9⟩, .Up, 53⟩ [(.node ⟨⟨1, 8⟩, .Up, 56⟩ [(.node ⟨⟨1, 8⟩, .Down, 56⟩ [])]), (.node ⟨⟨1, 9⟩, .Down, 53⟩ [])]), (.node ⟨⟨5, 7⟩, .Down, 57⟩ [(.node ⟨⟨5, 8⟩, .Down, 66⟩ [(.node ⟨⟨5, 8⟩, .Up, 66⟩ [])]), (.node ⟨⟨5, 7⟩, .Up, 57⟩ [])]), (.node ⟨⟨5, 6⟩, .Down, 50⟩ [(.node ⟨⟨5, 6⟩, .Up, 50⟩ [])]), (.node ⟨⟨5, 3⟩, .Up, 55⟩ [(.node ⟨⟨5, 2⟩, .Up, 58⟩ [(.node ⟨⟨5, 2⟩, .Down, 58⟩ [])]), (.node ⟨⟨5, 3⟩, .Down, 55⟩ [])]), (.node ⟨⟨8, 4⟩, .Left, 59⟩ [(.node ⟨⟨9, 4⟩, .Left, 65⟩ [(.node ⟨⟨9, 4⟩, .Right, 65⟩ [])]), (.node ⟨⟨8, 4⟩, .Right, 59⟩ [])]), (.node ⟨⟨5, 4⟩, .Down, 47⟩ [])]), (.node ⟨⟨4, 7⟩, .Left, 47⟩ [(.node ⟨⟨4, 7⟩, .Right, 47⟩ [])]), (.node ⟨⟨3, 7⟩, .Right, 46⟩ [])]), (.node ⟨⟨0, 10⟩, .Right, 46⟩ [(.node ⟨⟨6, 4⟩, .Down, 46⟩ [(.node ⟨⟨3, 11⟩, .Left, 52⟩ [(.node ⟨⟨3, 11⟩, .Right, 52⟩ [])]), (.node ⟨⟨0, 11⟩, .Right, 47⟩ [(.node ⟨⟨9, 4⟩, .Down, 51⟩ [(.node ⟨⟨9, 4⟩, .Up, 51⟩ [])]), (.node ⟨⟨2, 11⟩, .Left, 50⟩ [(.node ⟨⟨3, 11⟩, .Left, 55⟩ [(.node ⟨⟨4, 11⟩, .Left, 58⟩ [(.node ⟨⟨4, 11⟩, .Right, 58⟩ [])]), (.node ⟨⟨3, 11⟩, .Right, 55⟩ [])]), (.node ⟨⟨9, 1⟩, .Up, 56⟩ [(.node ⟨⟨9, 0⟩, .Up, 60⟩ [(.node ⟨⟨9, 0⟩, .Down, 60⟩ [])]), (.node ⟨⟨9, 1⟩, .Down, 56⟩ [])]), (.node ⟨⟨2, 11⟩, .Right, 50⟩ [])]), (.node ⟨⟨0, 11⟩, .Left, 47⟩ [])]), (.node ⟨⟨6, 4⟩, .Up, 46⟩ [])]), (.node ⟨⟨9, 3⟩, .Down, 54⟩ [(.node ⟨⟨9, 4⟩, .Down, 60⟩ [(.node ⟨⟨9, 4⟩, .Up, 60⟩ [])]), (.node ⟨⟨9, 3⟩, .Up, 54⟩ [])]), (.node ⟨⟨1, 5⟩, .Up, 45⟩ [(.node ⟨⟨7, 4⟩, .Left, 52⟩ [(.node ⟨⟨7, 4⟩, .Right, 52⟩ [])]), (.node ⟨⟨1, 5⟩, .Down, 45⟩ [])]), (.node ⟨⟨4, 8⟩, .Left, 48⟩ [(.node ⟨⟨2, 6⟩, .Up, 48⟩ [(.node ⟨⟨2, 5⟩, .Up, 52⟩ [(.node ⟨⟨2, 5⟩, .Down, 52⟩ [])]), (.node ⟨⟨2, 6⟩, .Down, 48⟩ [])]), (.node ⟨⟨4, 8⟩, .Right, 48⟩ [])]), (.node ⟨⟨2, 8⟩, .Right, 48⟩ [(.node ⟨⟨2, 8⟩, .Left, 48⟩ [])]), (.node ⟨⟨5, 8⟩, .Left, 58⟩ [(.node ⟨⟨6, 8⟩, .Left, 66⟩ [(.node ⟨⟨6, 8⟩, .Right, 66⟩ [])]), (.node ⟨⟨5, 8⟩, .Right, 58⟩ [])]), (.node ⟨⟨0, 10⟩, .Left, 46⟩ [])]), (.node ⟨⟨3, 10⟩, .Left, 49⟩ [(.node ⟨⟨4, 1⟩, .Up, 43⟩ [(.node ⟨⟨4, 1⟩, .Down, 43⟩ [])]), (.node ⟨⟨4, 8⟩, .Left, 49⟩ [(.node ⟨⟨4, 8⟩, .Right, 49⟩ [])]), (.node ⟨⟨2, 9⟩, .Up, 49⟩ [(.node ⟨⟨2, 8⟩, .Up, 54⟩ [(.node ⟨⟨2, 7⟩, .Up, 60⟩ [(.node ⟨⟨2, 7⟩, .Down, 60⟩ [])]), (.node ⟨⟨2, 8⟩, .Down, 54⟩ [])]), (.node ⟨⟨9, 5⟩, .Down, 58⟩ [(.node ⟨⟨9, 6⟩, .Down, 67⟩ [(.node ⟨⟨9, 6⟩, .Up, 67⟩ [])]), (.node ⟨⟨9, 5⟩, .Up, 58⟩ [])]), (.node ⟨⟨2, 9⟩, .Down, 49⟩ [])]), (.node ⟨⟨5, 4⟩, .Right, 47⟩ [(.node ⟨⟨5, 4⟩, .Left, 47⟩ [])]), (.node ⟨⟨4, 10⟩, .Left, 54⟩ [(.node ⟨⟨4, 10⟩, .Right, 54⟩ [])]), (.node ⟨⟨3, 10⟩, .Right, 49⟩ [])]), (.node ⟨⟨9, 0⟩, .Left, 46⟩ [(.node ⟨⟨2, 11⟩, .Down, 50⟩ [(.node ⟨⟨7, 0⟩, .Right, 45⟩ [(.node ⟨⟨7, 0⟩, .Left, 45⟩ [])]), (.node ⟨⟨2, 12⟩, .Down, 54⟩ [(.node ⟨⟨2, 12⟩, .Up, 54⟩ [])]), (.node ⟨⟨2, 11⟩, .Up, 50⟩ [])]), (.node ⟨⟨6, 0⟩, .Right, 49⟩ [(.node ⟨⟨5, 0⟩, .Right, 50⟩ [(.node ⟨⟨5, 0⟩, .Left, 50⟩ [])]), (.node ⟨⟨6, 0⟩, .Left, 49⟩ [])]), (.node ⟨⟨9, 0⟩, .Right, 46⟩ [])]), (.node ⟨⟨7, 5⟩, .Down, 53⟩ [(.node ⟨⟨7, 5⟩, .Up, 53⟩ [])]), (.node ⟨⟨3, 6⟩, .Down, 45⟩ [])])

/-- Simulation snapshot: visited set after segment 4 of the day-17 a-run. -/
def d17aSeen5 : SeenTree := (.branch (.branch .leaf (0, 0, 0) .leaf) (0, 0, 1) (.branch (.branch .leaf (0, 0, 2) .leaf) (0, 0, 3) (.branch (.branch (.branch .leaf (0, 1, 0) .leaf) (0, 1, 1) (.branch (.branch (.branch (.branch .leaf (0, 1, 2) .leaf) (0, 1, 3) .leaf) (0, 2, 0) .leaf) (0, 2, 1) (.branch (.branch .leaf (0, 2, 2) .leaf) (0, 2, 3) (.branch (.branch .leaf (0, 3, 0) .leaf) (0, 3, 1) (.branch (.branch (.branch (.branch (.branch .leaf (0, 3, 2) .leaf) (0, 3, 3) .leaf) (0, 4, 0) .leaf) (0, 4, 1) (.branch (.branch (.branch (.branch .leaf (0, 4, 2) .leaf) (0, 4, 3) .leaf) (0, 5, 0) .leaf) (0, 5, 1) (.branch (.branch (.branch (.branch .leaf (0, 5, 2) .leaf) (0, 5, 3) .leaf) (0, 6, 0) .leaf) (0, 6, 1) (.branch (.branch (.branch (.branch .leaf (0, 6, 2) .leaf) (0, 6, 3) .leaf) (0, 7, 0) .leaf) (0, 7, 1) (.branch (.branch (.branch (.branch .leaf (0, 7, 2) .leaf) (0, 7, 3) .leaf) (0, 8, 0) .leaf) (0, 8, 1) (.branch (.branch (.branch (.branch .leaf (0, 8, 2) .leaf) (0, 8, 3) .leaf) (0, 9, 0) .leaf) (0, 9, 1) (.branch (.branch (.branch (.branch .leaf (0, 9, 2) .leaf) (0, 9, 3) .leaf) (0, 10, 0) .leaf) (0, 10, 1) (.branch (.branch (.branch (.branch .leaf (0, 10, 2) .leaf) (0, 10, 3) .leaf) (0, 11, 0) .leaf) (0, 11, 1) (.branch (.branch (.branch (.branch .leaf (0, 11, 2) .leaf) (0, 11, 3) .leaf) (0, 12, 0) .leaf) (0, 12, 1) (.branch (.branch .leaf (0, 12, 2) .leaf) (0, 12, 3) .leaf)))))))))) (1, 0, 0) (.branch .leaf (1, 0, 1) .leaf)))))) (1, 0, 2) (.branch .leaf (1, 0, 3) (.branch (.branch .leaf (1, 1, 0) .leaf) (1, 1, 1) (.branch (.branch (.branch (.branch .leaf (1, 1, 2) (.branch .leaf (1, 1, 3) .leaf)) (1, 2, 0) .leaf) (1, 2, 1) .leaf) (1, 2, 2) (.branch .leaf (1, 2, 3) (.branch (.branch (.branch .leaf (1, 3, 0) .leaf) (1, 3, 1) (.branch (.branch .leaf (1, 3, 2) (.branch .leaf (1, 3, 3) (.branch (.branch .leaf (1, 4, 0) .leaf) (1, 4, 1) (.branch .leaf (1, 4, 2) (.branch .leaf (1, 4, 3) (.branch (.branch .leaf (1, 5, 0) .leaf) (1, 5, 1) (.branch .leaf (1, 5, 2) (.branch .leaf (1, 5, 3) (.branch (.branch .leaf (1, 6, 0) .leaf) (1, 6, 1) (.branch .leaf (1, 6, 2) (.branch .leaf (1, 6, 3) (.branch (.branch .leaf (1, 7, 0) .leaf) (1, 7, 1) (.branch (.branch .leaf (1, 7, 2) (.branch .leaf (1, 7, 3) (.branch (.branch .leaf (1, 8, 0) .leaf) (1, 8, 1) .leaf))) (1, 8, 2) (.branch .leaf (1, 8, 3) (.branch (.branch .leaf (1, 9, 0) .leaf) (1, 9, 1) (.branch .leaf (1, 9, 2) (.branch .leaf (1, 9, 3) (.branch (.branch (.branch .leaf (1, 10, 0) .leaf) (1, 10, 1) (.branch .leaf (1, 10, 2) (.branch .leaf (1, 10, 3) (.branch (.branch .leaf (1, 11, 0) .leaf) (1, 11, 1) .leaf)))) (1, 11, 2) (.branch .leaf (1, 11, 3) (.branch (.branch .leaf (1, 12, 0) .leaf) (1, 12, 1) (.branch .leaf (1, 12, 2) (.branch .leaf (1, 12, 3) .leaf)))))))))))))))))))))) (2, 0, 0) (.branch .leaf (2, 0, 1) .leaf))) (2, 0, 2) (.branch .leaf (2, 0, 3) (.branch (.branch (.branch .leaf (2, 1, 0) .leaf) (2, 1, 1) .leaf) (2, 1, 2) (.branch .leaf (2, 1, 3) (.branch (.branch (.branch (.branch .leaf (2, 2, 0) .leaf) (2, 2, 1) .leaf) (2, 2, 2) (.branch .leaf (2, 2, 3) (.branch (.branch (.branch .leaf (2, 3, 0) .leaf) (2, 3, 1) (.branch .leaf (2, 3, 2) (.branch .leaf (2, 3, 3) (.branch (.branch (.branch .leaf (2, 4, 0) .leaf) (2, 4, 1) .leaf) (2, 4, 2) (.branch .leaf (2, 4, 3) (.branch (.branch .leaf (2, 5, 0) .leaf) (2, 5, 1) (.branch .leaf (2, 5, 2) (.branch .leaf (2, 5, 3) (.branch (.branch .leaf (2, 6, 0) .leaf) (2, 6, 1) (.branch .leaf (2, 6, 2) (.branch .leaf (2, 6, 3) (.branch (.branch .leaf (2, 7, 0) .leaf) (2, 7, 1) (.branch .leaf (2, 7, 2) (.branch .leaf (2, 7, 3) (.branch (.branch (.branch .leaf (2, 8, 0) .leaf) (2, 8, 1) .leaf) (2, 8, 2) (.branch .leaf (2, 8, 3) (.branch (.branch (.branch .leaf (2, 9, 0) .leaf) (2, 9, 1) .leaf) (2, 9, 2) (.branch .leaf (2, 9, 3) (.branch (.branch .leaf (2, 10, 0) .leaf) (2, 10, 1) (.branch .leaf (2, 10, 2) (.branch .leaf (2, 10, 3) (.branch (.branch (.branch .leaf (2, 11, 0) .leaf) (2, 11, 1) .leaf) (2, 11, 2) (.branch .leaf (2, 11, 3) (.branch (.branch (.branch .leaf (2, 12, 0) .leaf) (2, 12, 1) .leaf) (2, 12, 2) (.branch .leaf (2, 12, 3) .leaf))))))))))))))))))))))))) (3, 0, 0) (.branch .leaf (3, 0, 1) .leaf)))) (3, 0, 2) (.branch .leaf (3, 0, 3) (.branch (.branch (.branch .leaf (3, 1, 0) .leaf) (3, 1, 1) .leaf) (3, 1, 2) (.branch .leaf (3, 1, 3) (.branch (.branch .leaf (3, 2, 0) .leaf) (3, 2, 1) (.branch .leaf (3, 2, 2) (.branch .leaf (3, 2, 3) (.branch (.branch (.branch (.branch .leaf (3, 3, 0) .leaf) (3, 3, 1) (.branch (.branch .leaf (3, 3, 2) (.branch .leaf (3, 3, 3) (.branch (.branch .leaf (3, 4, 0) .leaf) (3, 4, 1) .leaf))) (3, 4, 2) (.branch .leaf (3, 4, 3) (.branch (.branch (.branch (.branch .leaf (3, 5, 0) .leaf) (3, 5, 1) .leaf) (3, 5, 2) (.branch .leaf (3, 5, 3) (.branch (.branch (.branch .leaf (3, 6, 0) .leaf) (3, 6, 1) .leaf) (3, 6, 2) (.branch .leaf (3, 6, 3) (.branch (.branch .leaf (3, 7, 0) .leaf) (3, 7, 1) (.branch .leaf (3, 7, 2) (.branch .leaf (3, 7, 3) (.branch (.branch (.branch .leaf (3, 8, 0) .leaf) (3, 8, 1) .leaf) (3, 8, 2) (.branch .leaf (3, 8, 3) (.branch (.branch (.branch .leaf (3, 9, 0) .leaf) (3, 9, 1) .leaf) (3, 9, 2) (.branch .leaf (3, 9, 3) (.branch (.branch (.branch .leaf (3, 10, 0) .leaf) (3, 10, 1) .leaf) (3, 10, 2) (.branch .leaf (3, 10, 3) (.branch (.branch (.branch .leaf (3, 11, 0) .leaf) (3, 11, 1) (.branch .leaf (3, 11, 2) (.branch .leaf (3, 11, 3) .leaf))) (3, 12, 2) (.branch .leaf (3, 12, 3) .leaf))))))))))))))) (4, 0, 0) (.branch .leaf (4, 0, 1) .leaf))))) (4, 0, 2) (.branch .leaf (4, 0, 3) (.branch (.branch .leaf (4, 1, 0) .leaf) (4, 1, 1) .leaf))) (4, 1, 2) (.branch .leaf (4, 1, 3) (.branch (.branch (.branch (.branch .leaf (4, 2, 0) .leaf) (4, 2, 1) .leaf) (4, 2, 2) (.branch .leaf (4, 2, 3) (.branch (.branch (.branch .leaf (4, 3, 0) .leaf) (4, 3, 1) (.branch .leaf (4, 3, 2) (.branch .leaf (4, 3, 3) (.branch (.branch (.branch .leaf (4, 4, 0) .leaf) (4, 4, 1) .leaf) (4, 4, 2) (.branch .leaf (4, 4, 3) (.branch (.branch .leaf (4, 5, 0) .leaf) (4, 5, 1) (.branch .leaf (4, 5, 2) (.branch .leaf (4, 5, 3) (.branch (.branch (.branch .leaf (4, 6, 0) .leaf) (4, 6, 1) .leaf) (4, 6, 2) (.branch .leaf (4, 6, 3) (.branch (.branch .leaf (4, 7, 0) .leaf) (4, 7, 1) (.branch .leaf (4, 7, 2) (.branch .leaf (4, 7, 3) (.branch .leaf (4, 8, 2) (.branch .leaf (4, 8, 3) (.branch .leaf (4, 10, 2) (.branch .leaf (4, 10, 3) .leaf))))))))))))))))) (5, 0, 0) (.branch .leaf (5, 0, 1) .leaf)))) (5, 0, 2) (.branch .leaf (5, 0, 3) (.branch (.branch (.branch .leaf (5, 1, 0) .leaf) (5, 1, 1) .leaf) (5, 1, 2) (.branch .leaf (5, 1, 3) (.branch (.branch (.branch .leaf (5, 2, 0) .leaf) (5, 2, 1) .leaf) (5, 2, 2) (.branch .leaf (5, 2, 3) (.branch (.branch (.branch .leaf (5, 3, 0) .leaf) (5, 3, 1) (.branch (.branch .leaf (5, 3, 2) (.branch .leaf (5, 3, 3) (.branch (.branch (.branch .leaf (5, 4, 0) .leaf) (5, 4, 1) .leaf) (5, 4, 2) (.branch .leaf (5, 4, 3) (.branch (.branch (.branch .leaf (5, 5, 0) .leaf) (5, 5, 1) .leaf) (5, 5, 2) (.branch .leaf (5, 5, 3) (.branch (.branch (.branch .leaf (5, 6, 0) .leaf) (5, 6, 1) .leaf) (5, 6, 2) (.branch .leaf (5, 6, 3) .leaf)))))))) (6, 0, 0) (.branch .leaf (6, 0, 1) .leaf))) (6, 0, 2) (.branch .leaf (6, 0, 3) (.branch (.branch (.branch .leaf (6, 1, 0) .leaf) (6, 1, 1) .leaf) (6, 1, 2) (.branch .leaf (6, 1, 3) (.branch (.branch (.branch .leaf (6, 2, 0) .leaf) (6, 2, 1) .leaf) (6, 2, 2) (.branch .leaf (6, 2, 3) (.branch (.branch (.branch .leaf (6, 3, 0) .leaf) (6, 3, 1) (.branch (.branch .leaf (6, 3, 2) (.branch .leaf (6, 3, 3) (.branch (.branch .leaf (6, 4, 0) .leaf) (6, 4, 1) (.branch .leaf (6, 4, 2) (.branch .leaf (6, 4, 3) (.branch (.branch .leaf (6, 5, 0) .leaf) (6, 5, 1) (.branch .leaf (6, 5, 2) (.branch .leaf (6, 5, 3) .leaf)))))))) (7, 0, 0) (.branch .leaf (7, 0, 1) .leaf))) (7, 0, 2) (.branch .leaf (7, 0, 3) (.branch (.branch (.branch (.branch .leaf (7, 1, 0) .leaf) (7, 1, 1) .leaf) (7, 1, 2) (.branch .leaf (7, 1, 3) (.branch (.branch .leaf (7, 2, 0) .leaf) (7, 2, 1) .leaf))) (7, 2, 2) (.branch .leaf (7, 2, 3) (.branch (.branch (.branch .leaf (7, 3, 0) .leaf) (7, 3, 1) (.branch .leaf (7, 3, 2) (.branch .leaf (7, 3, 3) (.branch (.branch (.branch .leaf (7, 4, 0) .leaf) (7, 4, 1) (.branch .leaf (7, 4, 2) (.branch .leaf (7, 4, 3) .leaf))) (8, 0, 0) (.branch .leaf (8, 0, 1) .leaf))))) (8, 0, 2) (.branch .leaf (8, 0, 3) (.branch (.branch (.branch (.branch .leaf (8, 1, 0) .leaf) (8, 1, 1) .leaf) (8, 1, 2) (.branch .leaf (8, 1, 3) (.branch (.branch .leaf (8, 2, 0) .leaf) (8, 2, 1) .leaf))) (8, 2, 2) (.branch .leaf (8, 2, 3) (.branch (.branch .leaf (8, 3, 0) .leaf) (8, 3, 1) (.branch .leaf (8, 3, 2) (.branch .leaf (8, 3, 3) (.branch (.branch (.branch .leaf (8, 4, 0) .leaf) (8, 4, 1) (.branch .leaf (9, 0, 0) (.branch .leaf (9, 0, 1) .leaf))) (9, 0, 2) (.branch .leaf (9, 0, 3) (.branch (.branch (.branch (.branch .leaf (9, 1, 0) .leaf) (9, 1, 1) .leaf) (9, 1, 2) (.branch .leaf (9, 1, 3) (.branch (.branch (.branch .leaf (9, 2, 0) .leaf) (9, 2, 1) .leaf) (9, 2, 2) (.branch .leaf (9, 2, 3) (.branch (.branch .leaf (9, 3, 0) .leaf) (9, 3, 1) .leaf))))) (9, 3, 2) (.branch .leaf (9, 3, 3) (.branch (.branch (.branch (.branch .leaf (9, 4, 0) .leaf) (9, 4, 1) .leaf) (10, 0, 0) (.branch .leaf (10, 0, 1) .leaf)) (10, 0, 2) (.branch .leaf (10, 0, 3) (.branch (.branch .leaf (10, 1, 0) .leaf) (10, 1, 1) (.branch .leaf (10, 1, 2) (.branch .leaf (10, 1, 3) (.branch (.branch (.branch .leaf (10, 2, 0) .leaf) (10, 2, 1) .leaf) (10, 2, 2) (.branch .leaf (10, 2, 3) (.branch (.branch (.branch .leaf (10, 3, 0) .leaf) (10, 3, 1) .leaf) (10, 3, 2) (.branch .leaf (10, 3, 3) (.branch .leaf (11, 0, 2) (.branch .leaf (11, 0, 3) (.branch .leaf (11, 1, 2) (.branch .leaf (11, 1, 3) (.branch .leaf (11, 2, 2) .leaf)))))))))))))))))))))))))))))))))))))))))))))))))))))))))))))

/-- Simulation snapshot: heap after segment 4 of the day-17 a-run. -/
def d17aHeap5 : Heap := (.node ⟨⟨10, 3⟩, .Down, 52⟩ [(.node ⟨⟨7, 3⟩, .Right, 67⟩ []), (.node ⟨⟨7, 3⟩, .Left, 67⟩ []), (.node ⟨⟨8, 3⟩, .Right, 60⟩ []), (.node ⟨⟨8, 3⟩, .Left, 60⟩ []), (.node ⟨⟨9, 3⟩, .Right, 56⟩ []), (.node ⟨⟨9, 3⟩, .Left, 56⟩ []), (.node ⟨⟨11, 3⟩, .Left, 58⟩ [(.node ⟨⟨12, 3⟩, .Left, 60⟩ [(.node ⟨⟨12, 3⟩, .Right, 60⟩ [])]), (.node ⟨⟨11, 3⟩, .Right, 58⟩ [])]), (.node ⟨⟨2, 12⟩, .Left, 53⟩ [(.node ⟨⟨7, 4⟩, .Left, 51⟩ [(.node ⟨⟨2, 3⟩, .Right, 47⟩ [(.node ⟨⟨2, 3⟩, .Left, 47⟩ [])]), (.node ⟨⟨7, 1⟩, .Up, 50⟩ [(.node ⟨⟨6, 0⟩, .Up, 50⟩ [(.node ⟨⟨6, 0⟩, .Down, 50⟩ [])]), (.node ⟨⟨2, 8⟩, .Up, 54⟩ [(.node ⟨⟨2, 7⟩, .Up, 60⟩ [(.node ⟨⟨2, 7⟩, .Down, 60⟩ [])]), (.node ⟨⟨2, 8⟩, .Down, 54⟩ [])]), (.node ⟨⟨7, 0⟩, .Up, 53⟩ [(.node ⟨⟨7, 0⟩, .Down, 53⟩ [])]), (.node ⟨⟨7, 1⟩, .Down, 50⟩ [])]), (.node ⟨⟨4, 2⟩, .Right, 47⟩ [(.node ⟨⟨9, 2⟩, .Down, 52⟩ [(.node ⟨⟨9, 3⟩, .Down, 56⟩ [(.node ⟨⟨9, 3⟩, .Up, 56⟩ [])]), (.node ⟨⟨9, 2⟩, .Up, 52⟩ [])]), (.node ⟨⟨4, 2⟩, .Left, 47⟩ [])]), (.node ⟨⟨7, 5⟩, .Down, 57⟩ [(.node ⟨⟨7, 6⟩, .Down, 64⟩ [(.node ⟨⟨7, 7⟩, .Down, 73⟩ [(.node ⟨⟨7, 7⟩, .Up, 73⟩ [])]), (.node ⟨⟨7, 6⟩, .Up, 64⟩ [])]), (.node ⟨⟨7, 6⟩, .Left, 63⟩ [(.node ⟨⟨8, 6⟩, .Left, 70⟩ [(.node ⟨⟨8, 6⟩, .Right, 70⟩ [])]), (.node ⟨⟨7, 6⟩, .Right, 63⟩ [])]), (.node ⟨⟨7, 5⟩, .Up, 57⟩ [])]), (.node ⟨⟨6, 6⟩, .Left, 56⟩ [(.node ⟨⟨6, 6⟩, .Right, 56⟩ [])]), (.node ⟨⟨4, 6⟩, .Up, 54⟩ [(.node ⟨⟨7, 1⟩, .Right, 58⟩ [(.node ⟨⟨6, 1⟩, .Right, 62⟩ [(.node ⟨⟨6, 1⟩, .Left, 62⟩ [])]), (.node ⟨⟨7, 1⟩, .Left, 58⟩ [])]), (.node ⟨⟨4, 6⟩, .Down, 54⟩ [])]), (.node ⟨⟨7, 5⟩, .Left, 57⟩ [(.node ⟨⟨8, 5⟩, .Left, 63⟩ [(.node ⟨⟨8, 5⟩, .Right, 63⟩ [])]), (.node ⟨⟨7, 5⟩, .Right, 57⟩ [])]), (.node ⟨⟨6, 3⟩, .Up, 50⟩ [(.node ⟨⟨6, 3⟩, .Down, 50⟩ [])]), (.node ⟨⟨8, 4⟩, .Left, 60⟩ [(.node ⟨⟨8, 4⟩, .Right, 60⟩ [])]), (.node ⟨⟨7, 4⟩, .Right, 51⟩ [])]), (.node ⟨⟨3, 12⟩, .Down, 54⟩ [(.node ⟨⟨5, 6⟩, .Down, 51⟩ [(.node ⟨⟨11, 3⟩, .Down, 61⟩ [(.node ⟨⟨11, 4⟩, .Down, 66⟩ [(.node ⟨⟨11, 4⟩, .Up, 66⟩ [])]), (.node ⟨⟨11, 3⟩, .Up, 61⟩ [])]), (.node ⟨⟨2, 4⟩, .Up, 47⟩ [(.node ⟨⟨7, 0⟩, .Right, 55⟩ [(.node ⟨⟨6, 0⟩, .Right, 59⟩ [(.node ⟨⟨6, 0⟩, .Left, 59⟩ [])]), (.node ⟨⟨7, 0⟩, .Left, 55⟩ [])]), (.node ⟨⟨9, 3⟩, .Down, 54⟩ [(.node ⟨⟨11, 4⟩, .Left, 62⟩ [(.node ⟨⟨8, 4⟩, .Right, 60⟩ [(.node ⟨⟨8, 4⟩, .Left, 60⟩ [])]), (.node ⟨⟨12, 4⟩, .Left, 68⟩ [(.node ⟨⟨12, 4⟩, .Right, 68⟩ [])]), (.node ⟨⟨11, 4⟩, .Right, 62⟩ [])]), (.node ⟨⟨9, 4⟩, .Down, 60⟩ [(.node ⟨⟨9, 4⟩, .Up, 60⟩ [])]), (.node ⟨⟨9, 3⟩, .Up, 54⟩ [])]), (.node ⟨⟨2, 4⟩, .Right, 48⟩ [(.node ⟨⟨2, 4⟩, .Left, 48⟩ [])]), (.node ⟨⟨2, 4⟩, .Down, 47⟩ [])]), (.node ⟨⟨12, 1⟩, .Left, 54⟩ [(.node ⟨⟨8, 4⟩, .Left, 55⟩ [(.node ⟨⟨8, 4⟩, .Right, 55⟩ [])]), (.node ⟨⟨12, 1⟩, .Right, 54⟩ [])]), (.node ⟨⟨9, 2⟩, .Up, 51⟩ [(.node ⟨⟨9, 4⟩, .Left, 61⟩ [(.node ⟨⟨10, 4⟩, .Left, 67⟩ [(.node ⟨⟨10, 4⟩, .Right, 67⟩ [])]), (.node ⟨⟨9, 4⟩, .Right, 61⟩ [])]), (.node ⟨⟨6, 6⟩, .Down, 55⟩ [(.node ⟨⟨6, 7⟩, .Down, 64⟩ [(.node ⟨⟨6, 8⟩, .Down, 72⟩ [(.node ⟨⟨6, 8⟩, .Up, 72⟩ [])]), (.node ⟨⟨6, 7⟩, .Up, 64⟩ [])]), (.node ⟨⟨4, 5⟩, .Right, 63⟩ [(.node ⟨⟨3, 5⟩, .Right, 71⟩ [(.node ⟨⟨3, 5⟩, .Left, 71⟩ [])]), (.node ⟨⟨4, 5⟩, .Left, 63⟩ [])]), (.node ⟨⟨6, 6⟩, .Up, 55⟩ [])]), (.node ⟨⟨8, 5⟩, .Down, 56⟩ [(.node ⟨⟨8, 5⟩, .Up, 56⟩ [])]), (.node ⟨⟨9, 2⟩, .Down, 51⟩ [])]), (.node ⟨⟨7, 5⟩, .Left, 56⟩ [(.node ⟨⟨7, 5⟩, .Left, 56⟩ [(.node ⟨⟨7, 5⟩, .Right, 56⟩ [])]), (.node ⟨⟨7, 5⟩, .Right, 56⟩ [])]), (.node ⟨⟨4, 2⟩, .Up, 50⟩ [(.node ⟨⟨4, 2⟩, .Down, 50⟩ [])]), (.node ⟨⟨5, 7⟩, .Down, 58⟩ [(.node ⟨⟨5, 7⟩, .Up, 58⟩ [])]), (.node ⟨⟨5, 6⟩, .Up, 51⟩ [])]), (.node ⟨⟨11, 2⟩, .Down, 55⟩ [(.node ⟨⟨11, 2⟩, .Up, 55⟩ [])]), (.node ⟨⟨10, 3⟩, .Left, 53⟩ [(.node ⟨⟨6, 1⟩, .Right, 49⟩ [(.node ⟨⟨5, 1⟩, .Right, 53⟩ [(.node ⟨⟨5, 1⟩, .Left, 53⟩ [])]), (.node ⟨⟨6, 1⟩, .Left, 49⟩ [])]), (.node ⟨⟨5, 8⟩, .Left, 59⟩ [(.node ⟨⟨5, 8⟩, .Right, 59⟩ [])]), (.node ⟨⟨6, 6⟩, .Left, 54⟩ [(.node ⟨⟨2, 7⟩, .Up, 52⟩ [(.node ⟨⟨2, 6⟩, .Up, 57⟩ [(.node ⟨⟨2, 6⟩, .Down, 57⟩ [])]), (.node ⟨⟨2, 7⟩, .Down, 52⟩ [])]), (.node ⟨⟨3, 5⟩, .Up, 53⟩ [(.node ⟨⟨3, 4⟩, .Up, 58⟩ [(.node ⟨⟨3, 4⟩, .Down, 58⟩ [])]), (.node ⟨⟨3, 5⟩, .Down, 53⟩ [])]), (.node ⟨⟨7, 6⟩, .Left, 61⟩ [(.node ⟨⟨7, 6⟩, .Right, 61⟩ [])]), (.node ⟨⟨6, 6⟩, .Right, 54⟩ [])]), (.node ⟨⟨8, 3⟩, .Right, 53⟩ [(.node ⟨⟨8, 3⟩, .Left, 53⟩ [])]), (.node ⟨⟨10, 3⟩, .Right, 53⟩ [])]), (.node ⟨⟨4, 8⟩, .Down, 55⟩ [(.node ⟨⟨10, 4⟩, .Left, 57⟩ [(.node ⟨⟨10, 4⟩, .Right, 57⟩ [])]), (.node ⟨⟨6, 4⟩, .Right, 54⟩ [(.node ⟨⟨5, 4⟩, .Right, 59⟩ [(.node ⟨⟨4, 4⟩, .Right, 65⟩ [(.node ⟨⟨4, 4⟩, .Left, 65⟩ [])]), (.node ⟨⟨5, 4⟩, .Left, 59⟩ [])]), (.node ⟨⟨6, 7⟩, .Left, 62⟩ [(.node ⟨⟨7, 7⟩, .Left, 71⟩ [(.node ⟨⟨7, 7⟩, .Right, 71⟩ [])]), (.node ⟨⟨6, 7⟩, .Right, 62⟩ [])]), (.node ⟨⟨6, 4⟩, .Left, 54⟩ [])]), (.node ⟨⟨4, 8⟩, .Up, 55⟩ [])]), (.node ⟨⟨3, 12⟩, .Down, 54⟩ [(.node ⟨⟨3, 12⟩, .Up, 54⟩ [])]), (.node ⟨⟨4, 11⟩, .Left, 55⟩ [(.node ⟨⟨7, 4⟩, .Right, 68⟩ [(.node ⟨⟨6, 4⟩, .Right, 76⟩ [(.node ⟨⟨6, 4⟩, .Left, 76⟩ [])]), (.node ⟨⟨7, 4⟩, .Left, 68⟩ [])]), (.node ⟨⟨4, 11⟩, .Right, 55⟩ [])]), (.node ⟨⟨1, 11⟩, .Right, 59⟩ [(.node ⟨⟨0, 11⟩, .Right, 61⟩ [(.node ⟨⟨0, 11⟩, .Left, 61⟩ [])]), (.node ⟨⟨1, 11⟩, .Left, 59⟩ [])]), (.node ⟨⟨2, 11⟩, .Right, 57⟩ [(.node ⟨⟨2, 11⟩, .Left, 57⟩ [])]), (.node ⟨⟨4, 8⟩, .Up, 65⟩ [(.node ⟨⟨4, 7⟩, .Up, 73⟩ [(.node ⟨⟨4, 7⟩, .Down, 73⟩ [])]), (.node ⟨⟨4, 8⟩, .Down, 65⟩ [])]), (.node ⟨⟨3, 12⟩, .Up, 54⟩ [])]), (.node ⟨⟨0, 8⟩, .Up, 48⟩ [(.node ⟨⟨4, 10⟩, .Left, 54⟩ [(.node ⟨⟨7, 4⟩, .Left, 52⟩ [(.node ⟨⟨7, 4⟩, .Right, 58⟩ [(.node ⟨⟨10, 4⟩, .Left, 62⟩ [(.node ⟨⟨11, 4⟩, .Left, 67⟩ [(.node ⟨⟨11, 4⟩, .Right, 67⟩ [])]), (.node ⟨⟨10, 4⟩, .Right, 62⟩ [])]), (.node ⟨⟨7, 4⟩, .Left, 58⟩ [])]), (.node ⟨⟨7, 4⟩, .Right, 52⟩ [])]), (.node ⟨⟨3, 10⟩, .Up, 56⟩ [(.node ⟨⟨4, 9⟩, .Up, 59⟩ [(.node ⟨⟨3, 9⟩, .Up, 61⟩ [(.node ⟨⟨3, 8⟩, .Up, 65⟩ [(.node ⟨⟨3, 8⟩, .Down, 65⟩ [])]), (.node ⟨⟨3, 9⟩, .Down, 61⟩ [])]), (.node ⟨⟨4, 9⟩, .Down, 59⟩ [])]), (.node ⟨⟨5, 11⟩, .Left, 60⟩ [(.node ⟨⟨6, 11⟩, .Left, 66⟩ [(.node ⟨⟨6, 11⟩, .Right, 66⟩ [])]), (.node ⟨⟨5, 11⟩, .Right, 60⟩ [])]), (.node ⟨⟨3, 10⟩, .Down, 56⟩ [])]), (.node ⟨⟨5, 5⟩, .Right, 58⟩ [(.node ⟨⟨5, 5⟩, .Left, 58⟩ [])]), (.node ⟨⟨12, 0⟩, .Left, 53⟩ [(.node ⟨⟨4, 1⟩, .Right, 47⟩ [(.node ⟨⟨5, 6⟩, .Down, 55⟩ [(.node ⟨⟨6, 6⟩, .Down, 56⟩ [(.node ⟨⟨6, 7⟩, .Down, 65⟩ [(.node ⟨⟨6, 7⟩, .Up, 65⟩ [])]), (.node ⟨⟨6, 6⟩, .Up, 56⟩ [])]), (.node ⟨⟨5, 6⟩, .Up, 55⟩ [])]), (.node ⟨⟨4, 1⟩, .Left, 47⟩ [])]), (.node ⟨⟨12, 0⟩, .Right, 53⟩ [])]), (.node ⟨⟨9, 5⟩, .Down, 58⟩ [(.node ⟨⟨9, 6⟩, .Down, 67⟩ [(.node ⟨⟨9, 6⟩, .Up, 67⟩ [])]), (.node ⟨⟨9, 5⟩, .Up, 58⟩ [])]), (.node ⟨⟨7, 5⟩, .Down, 53⟩ [(.node ⟨⟨7, 5⟩, .Up, 53⟩ [])]), (.node ⟨⟨4, 10⟩, .Right, 54⟩ [])]), (.node ⟨⟨3, 11⟩, .Left, 55⟩ [(.node ⟨⟨5, 8⟩, .Left, 58⟩ [(.node ⟨⟨6, 8⟩, .Left, 66⟩ [(.node ⟨⟨6, 8⟩, .Right, 66⟩ [])]), (.node ⟨⟨5, 8⟩, .Right, 58⟩ [])]), (.node ⟨⟨11, 3⟩, .Left, 59⟩ [(.node ⟨⟨12, 3⟩, .Left, 61⟩ [(.node ⟨⟨12, 3⟩, .Right, 61⟩ [])]), (.node ⟨⟨11, 3⟩, .Right, 59⟩ [])]), (.node ⟨⟨9, 1⟩, .Up, 56⟩ [(.node ⟨⟨9, 0⟩, .Up, 60⟩ [(.node ⟨⟨9, 0⟩, .Down, 60⟩ [])]), (.node ⟨⟨9, 1⟩, .Down, 56⟩ [])]), (.node ⟨⟨4, 11⟩, .Left, 58⟩ [(.node ⟨⟨4, 11⟩, .Right, 58⟩ [])]), (.node ⟨⟨3, 11⟩, .Right, 55⟩ [])]), (.node ⟨⟨8, 1⟩, .Right, 52⟩ [(.node ⟨⟨8, 1⟩, .Left, 52⟩ [])]), (.node ⟨⟨2, 6⟩, .Up, 48⟩ [(.node ⟨⟨2, 5⟩, .Up, 52⟩ [(.node ⟨⟨2, 5⟩, .Down, 52⟩ [])]), (.node ⟨⟨2, 6⟩, .Down, 48⟩ [])]), (.node ⟨⟨11, 1⟩, .Left, 53⟩ [(.node ⟨⟨12, 1⟩, .Left, 56⟩ [(.node ⟨⟨12, 1⟩, .Right, 56⟩ [])]), (.node ⟨⟨11, 1⟩, .Right, 53⟩ [])]), (.node ⟨⟨0, 7⟩, .Up, 51⟩ [(.node ⟨⟨0, 7⟩, .Down, 51⟩ [])]), (.node ⟨⟨0, 8⟩, .Down, 48⟩ [])]), (.node ⟨⟨11, 2⟩, .Left, 55⟩ [(.node ⟨⟨11, 2⟩, .Right, 55⟩ [])]), (.node ⟨⟨1, 7⟩, .Right, 50⟩ [(.node ⟨⟨6, 2⟩, .Up, 55⟩ [(.node ⟨⟨6, 1⟩, .Up, 59⟩ [(.node ⟨⟨6, 1⟩, .Down, 59⟩ [])]), (.node ⟨⟨6, 2⟩, .Down, 55⟩ [])]), (.node ⟨⟨1, 8⟩, .Right, 51⟩ [(.node ⟨⟨0, 8⟩, .Right, 52⟩ [(.node ⟨⟨0, 8⟩, .Left, 52⟩ [])]), (.node ⟨⟨1, 8⟩, .Left, 51⟩ [])]), (.node ⟨⟨3, 11⟩, .Up, 56⟩ [(.node ⟨⟨3, 10⟩, .Up, 60⟩ [(.node ⟨⟨3, 9⟩, .Up, 65⟩ [(.node ⟨⟨3, 9⟩, .Down, 65⟩ [])]), (.node ⟨⟨3, 10⟩, .Down, 60⟩ [])]), (.node ⟨⟨10, 5⟩, .Down, 63⟩ [(.node ⟨⟨10, 6⟩, .Down, 69⟩ [(.node ⟨⟨10, 6⟩, .Up, 69⟩ [])]), (.node ⟨⟨10, 5⟩, .Up, 63⟩ [])]), (.node ⟨⟨3, 11⟩, .Down, 56⟩ [])]), (.node ⟨⟨8, 2⟩, .Right, 59⟩ [(.node ⟨⟨7, 2⟩, .Right, 62⟩ [(.node ⟨⟨7, 2⟩, .Left, 62⟩ [])]), (.node ⟨⟨8, 2⟩, .Left, 59⟩ [])]), (.node ⟨⟨0, 7⟩, .Right, 53⟩ [(.node ⟨⟨0, 7⟩, .Left, 53⟩ [])]), (.node ⟨⟨1, 7⟩, .Left, 50⟩ [])]), (.node ⟨⟨11, 0⟩, .Left, 51⟩ [(.node ⟨⟨4, 11⟩, .Down, 55⟩ [(.node ⟨⟨0, 11⟩, .Right, 52⟩ [(.node ⟨⟨11, 3⟩, .Left, 55⟩ [(.node ⟨⟨11, 3⟩, .Right, 55⟩ [])]), (.node ⟨⟨3, 6⟩, .Up, 54⟩ [(.node ⟨⟨3, 5⟩, .Up, 62⟩ [(.node ⟨⟨3, 5⟩, .Down, 62⟩ [])]), (.node ⟨⟨3, 6⟩, .Down, 54⟩ [])]), (.node ⟨⟨2, 10⟩, .Up, 56⟩ [(.node ⟨⟨2, 9⟩, .Up, 60⟩ [(.node ⟨⟨2, 9⟩, .Down, 60⟩ [])]), (.node ⟨⟨2, 10⟩, .Down, 56⟩ [])]), (.node ⟨⟨2, 11⟩, .Up, 54⟩ [(.node ⟨⟨2, 11⟩, .Down, 54⟩ [])]), (.node ⟨⟨0, 11⟩, .Left, 52⟩ [])]), (.node ⟨⟨9, 4⟩, .Left, 56⟩ [(.node ⟨⟨6, 4⟩, .Right, 66⟩ [(.node ⟨⟨5, 4⟩, .Right, 71⟩ [(.node ⟨⟨5, 4⟩, .Left, 71⟩ [])]), (.node ⟨⟨6, 4⟩, .Left, 66⟩ [])]), (.node ⟨⟨9, 4⟩, .Right, 56⟩ [])]), (.node ⟨⟨4, 12⟩, .Down, 61⟩ [(.node ⟨⟨4, 12⟩, .Up, 61⟩ [])]), (.node ⟨⟨4, 11⟩, .Up, 55⟩ [])]), (.node ⟨⟨12, 0⟩, .Left, 55⟩ [(.node ⟨⟨12, 0⟩, .Right, 55⟩ [])]), (.node ⟨⟨11, 0⟩, .Right, 51⟩ [])]), (.node ⟨⟨4, 7⟩, .Left, 52⟩ [(.node ⟨⟨1, 9⟩, .Right, 55⟩ [(.node ⟨⟨0, 9⟩, .Right, 56⟩ [(.node ⟨⟨0, 9⟩, .Left, 56⟩ [])]), (.node ⟨⟨1, 9⟩, .Left, 55⟩ [])]), (.node ⟨⟨4, 7⟩, .Right, 52⟩ [])]), (.node ⟨⟨3, 12⟩, .Left, 55⟩ [(.node ⟨⟨3, 12⟩, .Right, 55⟩ [])]), (.node ⟨⟨2, 12⟩, .Right, 53⟩ [])]), (.node ⟨⟨11, 1⟩, .Up, 57⟩ [(.node ⟨⟨11, 0⟩, .Up, 59⟩ [(.node ⟨⟨11, 0⟩, .Down, 59⟩ [])]), (.node ⟨⟨11, 1⟩, .Down, 57⟩ [])]), (.node ⟨⟨10, 3⟩, .Up, 52⟩ [(.node ⟨⟨4, 9⟩, .Left, 53⟩ [(.node ⟨⟨3, 6⟩, .Right, 62⟩ [(.node ⟨⟨2, 6⟩, .Right, 67⟩ [(.node ⟨⟨2, 6⟩, .Left, 67⟩ [])]), (.node ⟨⟨3, 6⟩, .Left, 62⟩ [])]), (.node ⟨⟨1, 6⟩, .Up, 48⟩ [(.node ⟨⟨8, 1⟩, .Up, 53⟩ [(.node ⟨⟨8, 0⟩, .Up, 57⟩ [(.node ⟨⟨8, 0⟩, .Down, 57⟩ [])]), (.node ⟨⟨8, 1⟩, .Down, 53⟩ [])]), (.node ⟨⟨7, 5⟩, .Down, 56⟩ [(.node ⟨⟨7, 6⟩, .Down, 63⟩ [(.node ⟨⟨7, 6⟩, .Up, 63⟩ [])]), (.node ⟨⟨7, 5⟩, .Up, 56⟩ [])]), (.node ⟨⟨9, 0⟩, .Right, 51⟩ [(.node ⟨⟨9, 0⟩, .Left, 51⟩ [])]), (.node ⟨⟨5, 7⟩, .Left, 55⟩ [(.node ⟨⟨5, 7⟩, .Right, 55⟩ [])]), (.node ⟨⟨1, 6⟩, .Down, 48⟩ [])]), (.node ⟨⟨3, 11⟩, .Down, 55⟩ [(.node ⟨⟨5, 10⟩, .Left, 56⟩ [(.node ⟨⟨8, 5⟩, .Down, 57⟩ [(.node ⟨⟨8, 6⟩, .Down, 64⟩ [(.node ⟨⟨8, 6⟩, .Up, 64⟩ [])]), (.node ⟨⟨8, 5⟩, .Up, 57⟩ [])]), (.node ⟨⟨5, 10⟩, .Right, 56⟩ [])]), (.node ⟨⟨3, 7⟩, .Up, 58⟩ [(.node ⟨⟨3, 6⟩, .Up, 63⟩ [(.node ⟨⟨3, 6⟩, .Down, 63⟩ [])]), (.node ⟨⟨3, 7⟩, .Down, 58⟩ [])]), (.node ⟨⟨3, 11⟩, .Up, 55⟩ [])]), (.node ⟨⟨5, 1⟩, .Up, 49⟩ [(.node ⟨⟨5, 10⟩, .Left, 59⟩ [(.node ⟨⟨6, 10⟩, .Left, 66⟩ [(.node ⟨⟨6, 10⟩, .Right, 66⟩ [])]), (.node ⟨⟨5, 10⟩, .Right, 59⟩ [])]), (.node ⟨⟨1, 8⟩, .Up, 52⟩ [(.node ⟨⟨8, 0⟩, .Right, 55⟩ [(.node ⟨⟨7, 0⟩, .Right, 58⟩ [(.node ⟨⟨7, 0⟩, .Left, 58⟩ [])]), (.node ⟨⟨8, 0⟩, .Left, 55⟩ [])]), (.node ⟨⟨3, 5⟩, .Right, 56⟩ [(.node ⟨⟨2, 5⟩, .Right, 60⟩ [(.node ⟨⟨2, 5⟩, .Left, 60⟩ [])]), (.node ⟨⟨3, 5⟩, .Left, 56⟩ [])]), (.node ⟨⟨1, 7⟩, .Up, 57⟩ [(.node ⟨⟨1, 7⟩, .Down, 57⟩ [])]), (.node ⟨⟨1, 8⟩, .Down, 52⟩ [])]), (.node ⟨⟨6, 2⟩, .Right, 51⟩ [(.node ⟨⟨5, 2⟩, .Right, 54⟩ [(.node ⟨⟨5, 2⟩, .Left, 54⟩ [])]), (.node ⟨⟨6, 2⟩, .Left, 51⟩ [])]), (.node ⟨⟨5, 1⟩, .Down, 49⟩ [])]), (.node ⟨⟨6, 3⟩, .Right, 55⟩ [(.node ⟨⟨5, 3⟩, .Right, 63⟩ [(.node ⟨⟨5, 3⟩, .Left, 63⟩ [])]), (.node ⟨⟨6, 3⟩, .Left, 55⟩ [])]), (.node ⟨⟨5, 9⟩, .Left, 61⟩ [(.node ⟨⟨5, 9⟩, .Right, 61⟩ [])]), (.node ⟨⟨4, 9⟩, .Right, 53⟩ [])]), (.node ⟨⟨4, 9⟩, .Left, 53⟩ [(.node ⟨⟨3, 10⟩, .Down, 53⟩ [(.node ⟨⟨5, 3⟩, .Up, 55⟩ [(.node ⟨⟨5, 2⟩, .Up, 58⟩ [(.node ⟨⟨5, 2⟩, .Down, 58⟩ [])]), (.node ⟨⟨5, 3⟩, .Down, 55⟩ [])]), (.node ⟨⟨8, 4⟩, .Left, 59⟩ [(.node ⟨⟨9, 4⟩, .Left, 65⟩ [(.node ⟨⟨9, 4⟩, .Right, 65⟩ [])]), (.node ⟨⟨8, 4⟩, .Right, 59⟩ [])]), (.node ⟨⟨1, 9⟩, .Up, 53⟩ [(.node ⟨⟨5, 7⟩, .Down, 57⟩ [(.node ⟨⟨5, 8⟩, .Down, 66⟩ [(.node ⟨⟨5, 8⟩, .Up, 66⟩ [])]), (.node ⟨⟨5, 7⟩, .Up, 57⟩ [])]), (.node ⟨⟨1, 8⟩, .Up, 56⟩ [(.node ⟨⟨1, 8⟩, .Down, 56⟩ [])]), (.node ⟨⟨1, 9⟩, .Down, 53⟩ [])]), (.node ⟨⟨5, 5⟩, .Up, 55⟩ [(.node ⟨⟨5, 5⟩, .Down, 55⟩ [])]), (.node ⟨⟨2, 6⟩, .Right, 50⟩ [(.node ⟨⟨1, 6⟩, .Right, 53⟩ [(.node ⟨⟨1, 6⟩, .Left, 53⟩ [])]), (.node ⟨⟨2, 6⟩, .Left, 50⟩ [])]), (.node ⟨⟨3, 10⟩, .Up, 53⟩ [])]), (.node ⟨⟨11, 2⟩, .Left, 56⟩ [(.node ⟨⟨12, 2⟩, .Left, 58⟩ [(.node ⟨⟨12, 2⟩, .Right, 58⟩ [])]), (.node ⟨⟨11, 2⟩, .Right, 56⟩ [])]), (.node ⟨⟨4, 3⟩, .Right, 48⟩ [(.node ⟨⟨3, 3⟩, .Right, 54⟩ [(.node ⟨⟨3, 3⟩, .Left, 54⟩ [])]), (.node ⟨⟨4, 3⟩, .Left, 48⟩ [])]), (.node ⟨⟨10, 4⟩, .Down, 55⟩ [(.node ⟨⟨7, 3⟩, .Right, 60⟩ [(.node ⟨⟨6, 3⟩, .Right, 67⟩ [(.node ⟨⟨6, 3⟩, .Left, 67⟩ [])]), (.node ⟨⟨7, 3⟩, .Left, 60⟩ [])]), (.node ⟨⟨4, 12⟩, .Left, 57⟩ [(.node ⟨⟨4, 12⟩, .Right, 57⟩ [])]), (.node ⟨⟨10, 1⟩, .Up, 53⟩ [(.node ⟨⟨10, 0⟩, .Up, 54⟩ [(.node ⟨⟨10, 0⟩, .Down, 54⟩ [])]), (.node ⟨⟨10, 1⟩, .Down, 53⟩ [])]), (.node ⟨⟨10, 4⟩, .Up, 55⟩ [])]), (.node ⟨⟨8, 0⟩, .Right, 52⟩ [(.node ⟨⟨8, 0⟩, .Left, 52⟩ [])]), (.node ⟨⟨4, 9⟩, .Right, 53⟩ [])]), (.node ⟨⟨10, 0⟩, .Up, 51⟩ [(.node ⟨⟨7, 3⟩, .Up, 57⟩ [(.node ⟨⟨7, 3⟩, .Down, 57⟩ [])]), (.node ⟨⟨4, 9⟩, .Down, 55⟩ [(.node ⟨⟨4, 10⟩, .Down, 60⟩ [(.node ⟨⟨4, 11⟩, .Down, 63⟩ [(.node ⟨⟨4, 11⟩, .Up, 63⟩ [])]), (.node ⟨⟨4, 10⟩, .Up, 60⟩ [])]), (.node ⟨⟨4, 6⟩, .Up, 63⟩ [(.node ⟨⟨4, 5⟩, .Up, 68⟩ [(.node ⟨⟨4, 5⟩, .Down, 68⟩ [])]), (.node ⟨⟨4, 6⟩, .Down, 63⟩ [])]), (.node ⟨⟨4, 9⟩, .Up, 55⟩ [])]), (.node ⟨⟨10, 0⟩, .Down, 51⟩ [])]), (.node ⟨⟨0, 10⟩, .Up, 50⟩ [(.node ⟨⟨3, 9⟩, .Up, 52⟩ [(.node ⟨⟨2, 9⟩, .Up, 53⟩ [(.node ⟨⟨2, 8⟩, .Up, 58⟩ [(.node ⟨⟨2, 8⟩, .Down, 58⟩ [])]), (.node ⟨⟨2, 9⟩, .Down, 53⟩ [])]), (.node ⟨⟨3, 9⟩, .Down, 52⟩ [])]), (.node ⟨⟨5, 7⟩, .Left, 54⟩ [(.node ⟨⟨8, 4⟩, .Down, 56⟩ [(.node ⟨⟨8, 4⟩, .Up, 56⟩ [])]), (.node ⟨⟨5, 4⟩, .Up, 60⟩ [(.node ⟨⟨5, 3⟩, .Up, 68⟩ [(.node ⟨⟨5, 3⟩, .Down, 68⟩ [])]), (.node ⟨⟨5, 4⟩, .Down, 60⟩ [])]), (.node ⟨⟨6, 7⟩, .Left, 63⟩ [(.node ⟨⟨6, 7⟩, .Right, 63⟩ [])]), (.node ⟨⟨5, 7⟩, .Right, 54⟩ [])]), (.node ⟨⟨2, 10⟩, .Right, 52⟩ [(.node ⟨⟨1, 10⟩, .Right, 58⟩ [(.node ⟨⟨0, 10⟩, .Right, 61⟩ [(.node ⟨⟨0, 10⟩, .Left, 61⟩ [])]), (.node ⟨⟨1, 10⟩, .Left, 58⟩ [])]), (.node ⟨⟨2, 10⟩, .Left, 52⟩ [])]), (.node ⟨⟨2, 12⟩, .Down, 54⟩ [(.node ⟨⟨6, 0⟩, .Right, 49⟩ [(.node ⟨⟨5, 0⟩, .Right, 50⟩ [(.node ⟨⟨5, 0⟩, .Left, 50⟩ [])]), (.node ⟨⟨6, 0⟩, .Left, 49⟩ [])]), (.node ⟨⟨4, 10⟩, .Left, 55⟩ [(.node ⟨⟨4, 10⟩, .Right, 55⟩ [])]), (.node ⟨⟨2, 12⟩, .Up, 54⟩ [])]), (.node ⟨⟨11, 1⟩, .Down, 54⟩ [(.node ⟨⟨11, 2⟩, .Down, 58⟩ [(.node ⟨⟨11, 3⟩, .Down, 64⟩ [(.node ⟨⟨11, 3⟩, .Up, 64⟩ [])]), (.node ⟨⟨11, 2⟩, .Up, 58⟩ [])]), (.node ⟨⟨6, 4⟩, .Up, 57⟩ [(.node ⟨⟨6, 3⟩, .Up, 64⟩ [(.node ⟨⟨6, 2⟩, .Up, 69⟩ [(.node ⟨⟨6, 2⟩, .Down, 69⟩ [])]), (.node ⟨⟨6, 3⟩, .Down, 64⟩ [])]), (.node ⟨⟨8, 5⟩, .Left, 62⟩ [(.node ⟨⟨9, 5⟩, .Left, 69⟩ [(.node ⟨⟨9, 5⟩, .Right, 69⟩ [])]), (.node ⟨⟨8, 5⟩, .Right, 62⟩ [])]), (.node ⟨⟨6, 4⟩, .Down, 57⟩ [])]), (.node ⟨⟨11, 1⟩, .Up, 54⟩ [])]), (.node ⟨⟨4, 8⟩, .Down, 52⟩ [(.node ⟨⟨6, 6⟩, .Left, 55⟩ [(.node ⟨⟨6, 6⟩, .Right, 55⟩ [])]), (.node ⟨⟨5, 3⟩, .Right, 53⟩ [(.node ⟨⟨4, 3⟩, .Right, 59⟩ [(.node ⟨⟨4, 3⟩, .Left, 59⟩ [])]), (.node ⟨⟨5, 3⟩, .Left, 53⟩ [])]), (.node ⟨⟨4, 9⟩, .Down, 59⟩ [(.node ⟨⟨4, 9⟩, .Up, 59⟩ [])]), (.node ⟨⟨4, 8⟩, .Up, 52⟩ [])]), (.node ⟨⟨0, 10⟩, .Right, 52⟩ [(.node ⟨⟨0, 10⟩, .Left, 52⟩ [])]), (.node ⟨⟨4, 7⟩, .Up, 56⟩ [(.node ⟨⟨4, 7⟩, .Down, 56⟩ [])]), (.node ⟨⟨4, 9⟩, .Down, 60⟩ [(.node ⟨⟨4, 10⟩, .Down, 65⟩ [(.node ⟨⟨4, 10⟩, .Up, 65⟩ [])]), (.node ⟨⟨4, 9⟩, .Up, 60⟩ [])]), (.node ⟨⟨4, 8⟩, .Down, 53⟩ [(.node ⟨⟨4, 8⟩, .Up, 53⟩ [])]), (.node ⟨⟨0, 9⟩, .Up, 51⟩ [(.node ⟨⟨0, 8⟩, .Up, 52⟩ [(.node ⟨⟨0, 8⟩, .Down, 52⟩ [])]), (.node ⟨⟨0, 9⟩, .Down, 51⟩ [])]), (.node ⟨⟨4, 5⟩, .Up, 59⟩ [(.node ⟨⟨4, 4⟩, .Up, 65⟩ [(.node ⟨⟨4, 4⟩, .Down, 65⟩ [])]), (.node ⟨⟨4, 5⟩, .Down, 59⟩ [])]), (.node ⟨⟨0, 10⟩, .Down, 50⟩ [])]), (.node ⟨⟨5, 7⟩, .Down, 53⟩ [(.node ⟨⟨5, 7⟩, .Left, 53⟩ [(.node ⟨⟨5, 7⟩, .Right, 53⟩ [])]), (.node ⟨⟨8, 1⟩, .Right, 57⟩ [(.node ⟨⟨7, 1⟩, .Right, 63⟩ [(.node ⟨⟨7, 1⟩, .Left, 63⟩ [])]), (.node ⟨⟨8, 1⟩, .Left, 57⟩ [])]), (.node ⟨⟨5, 7⟩, .Up, 53⟩ [])]), (.node ⟨⟨9, 1⟩, .Right, 51⟩ [(.node ⟨⟨10, 4⟩, .Down, 58⟩ [(.node ⟨⟨10, 4⟩, .Up, 58⟩ [])]), (.node ⟨⟨9, 1⟩, .Left, 51⟩ [])])]), (.node ⟨⟨4, 0⟩, .Right, 44⟩ [(.node ⟨⟨11, 0⟩, .Up, 53⟩ [(.node ⟨⟨11, 0⟩, .Down, 53⟩ [])]), (.node ⟨⟨4, 6⟩, .Right, 57⟩ [(.node ⟨⟨4, 6⟩, .Left, 57⟩ [])]), (.node ⟨⟨7, 2⟩, .Up, 60⟩ [(.node ⟨⟨7, 1⟩, .Up, 66⟩ [(.node ⟨⟨7, 1⟩, .Down, 66⟩ [])]), (.node ⟨⟨7, 2⟩, .Down, 60⟩ [])]), (.node ⟨⟨6, 5⟩, .Left, 51⟩ [(.node ⟨⟨6, 5⟩, .Down, 52⟩ [(.node ⟨⟨3, 3⟩, .Up, 50⟩ [(.node ⟨⟨3, 3⟩, .Down, 50⟩ [])]), (.node ⟨⟨6, 6⟩, .Down, 58⟩ [(.node ⟨⟨6, 6⟩, .Up, 58⟩ [])]), (.node ⟨⟨6, 5⟩, .Up, 52⟩ [])]), (.node ⟨⟨1, 5⟩, .Right, 50⟩ [(.node ⟨⟨1, 5⟩, .Left, 50⟩ [])]), (.node ⟨⟨6, 5⟩, .Right, 51⟩ [])]), (.node ⟨⟨4, 11⟩, .Left, 56⟩ [(.node ⟨⟨5, 9⟩, .Left, 61⟩ [(.node ⟨⟨6, 9⟩, .Left, 68⟩ [(.node ⟨⟨6, 9⟩, .Right, 68⟩ [])]), (.node ⟨⟨5, 9⟩, .Right, 61⟩ [])]), (.node ⟨⟨3, 8⟩, .Up, 56⟩ [(.node ⟨⟨3, 7⟩, .Up, 64⟩ [(.node ⟨⟨3, 7⟩, .Down, 64⟩ [])]), (.node ⟨⟨3, 8⟩, .Down, 56⟩ [])]), (.node ⟨⟨5, 11⟩, .Left, 61⟩ [(.node ⟨⟨5, 11⟩, .Right, 61⟩ [])]), (.node ⟨⟨4, 11⟩, .Right, 56⟩ [])]), (.node ⟨⟨1, 12⟩, .Right, 54⟩ [(.node ⟨⟨4, 12⟩, .Left, 59⟩ [(.node ⟨⟨5, 12⟩, .Left, 63⟩ [(.node ⟨⟨5, 12⟩, .Right, 63⟩ [])]), (.node ⟨⟨4, 12⟩, .Right, 59⟩ [])]), (.node ⟨⟨0, 12⟩, .Right, 57⟩ [(.node ⟨⟨0, 12⟩, .Left, 57⟩ [])]), (.node ⟨⟨1, 12⟩, .Left, 54⟩ [])]), (.node ⟨⟨4, 0⟩, .Left, 44⟩ [])]), (.node ⟨⟨10, 4⟩, .Down, 58⟩ [(.node ⟨⟨7, 2⟩, .Right, 58⟩ [(.node ⟨⟨6, 2⟩, .Right, 63⟩ [(.node ⟨⟨6, 2⟩, .Left, 63⟩ [])]), (.node ⟨⟨7, 2⟩, .Left, 58⟩ [])]), (.node ⟨⟨4, 4⟩, .Right, 53⟩ [(.node ⟨⟨1, 10⟩, .Up, 57⟩ [(.node ⟨⟨1, 9⟩, .Up, 62⟩ [(.node ⟨⟨1, 9⟩, .Down, 62⟩ [])]), (.node ⟨⟨1, 10⟩, .Down, 57⟩ [])]), (.node ⟨⟨3, 4⟩, .Right, 58⟩ [(.node ⟨⟨3, 4⟩, .Left, 58⟩ [])]), (.node ⟨⟨4, 4⟩, .Left, 53⟩ [])]), (.node ⟨⟨10, 5⟩, .Down, 66⟩ [(.node ⟨⟨10, 5⟩, .Up, 66⟩ [])]), (.node ⟨⟨10, 4⟩, .Up, 58⟩ [])]), (.node ⟨⟨11, 2⟩, .Right, 52⟩ [(.node ⟨⟨12, 2⟩, .Left, 54⟩ [(.node ⟨⟨12, 2⟩, .Right, 54⟩ [])])]), (.node ⟨⟨3, 11⟩, .Left, 53⟩ [(.node ⟨⟨8, 2⟩, .Right, 55⟩ [(.node ⟨⟨8, 2⟩, .Left, 55⟩ [])]), (.node ⟨⟨10, 2⟩, .Left, 52⟩ [(.node ⟨⟨10, 2⟩, .Right, 52⟩ [])]), (.node ⟨⟨9, 1⟩, .Up, 50⟩ [(.node ⟨⟨9, 4⟩, .Down, 55⟩ [(.node ⟨⟨9, 5⟩, .Down, 62⟩ [(.node ⟨⟨9, 5⟩, .Up, 62⟩ [])]), (.node ⟨⟨9, 4⟩, .Up, 55⟩ [])]), (.node ⟨⟨9, 0⟩, .Up, 54⟩ [(.node ⟨⟨9, 0⟩, .Down, 54⟩ [])]), (.node ⟨⟨9, 1⟩, .Down, 50⟩ [])]), (.node ⟨⟨4, 9⟩, .Left, 53⟩ [(.node ⟨⟨4, 9⟩, .Right, 53⟩ [])]), (.node ⟨⟨4, 4⟩, .Up, 49⟩ [(.node ⟨⟨3, 7⟩, .Right, 54⟩ [(.node ⟨⟨2, 7⟩, .Right, 60⟩ [(.node ⟨⟨1, 7⟩, .Right, 65⟩ [(.node ⟨⟨1, 7⟩, .Left, 65⟩ [])]), (.node ⟨⟨2, 7⟩, .Left, 60⟩ [])]), (.node ⟨⟨5, 8⟩, .Down, 62⟩ [(.node ⟨⟨5, 9⟩, .Down, 70⟩ [(.node ⟨⟨5, 9⟩, .Up, 70⟩ [])]), (.node ⟨⟨5, 8⟩, .Up, 62⟩ [])]), (.node ⟨⟨3, 7⟩, .Left, 54⟩ [])]), (.node ⟨⟨4, 3⟩, .Up, 55⟩ [(.node ⟨⟨4, 3⟩, .Down, 55⟩ [])]), (.node ⟨⟨4, 4⟩, .Down, 49⟩ [])]), (.node ⟨⟨3, 11⟩, .Down, 55⟩ [(.node ⟨⟨3, 12⟩, .Down, 57⟩ [(.node ⟨⟨3, 12⟩, .Up, 57⟩ [])]), (.node ⟨⟨3, 11⟩, .Up, 55⟩ [])]), (.node ⟨⟨3, 11⟩, .Right, 53⟩ [])]), (.node ⟨⟨0, 10⟩, .Up, 53⟩ [(.node ⟨⟨9, 2⟩, .Right, 54⟩ [(.node ⟨⟨9, 2⟩, .Left, 54⟩ [])]), (.node ⟨⟨0, 9⟩, .Up, 54⟩ [(.node ⟨⟨0, 9⟩, .Down, 54⟩ [])]), (.node ⟨⟨0, 10⟩, .Down, 53⟩ [])]), (.node ⟨⟨10, 3⟩, .Up, 52⟩ [])])

/-- Simulation snapshot: visited set after segment 5 of the day-17 a-run. -/
def d17aSeen6 : SeenTree := (.branch (.branch .leaf (0, 0, 0) .leaf) (0, 0, 1) (.branch (.branch .leaf (0, 0, 2) .leaf) (0, 0, 3) (.branch (.branch (.branch .leaf (0, 1, 0) .leaf) (0, 1, 1) (.branch (.branch (.branch (.branch .leaf (0, 1, 2) .leaf) (0, 1, 3) .leaf) (0, 2, 0) .leaf) (0, 2, 1) (.branch (.branch .leaf (0, 2, 2) .leaf) (0, 2, 3) (.branch (.branch .leaf (0, 3, 0) .leaf) (0, 3, 1) (.branch (.branch (.branch (.branch (.branch .leaf (0, 3, 2) .leaf) (0, 3, 3) .leaf) (0, 4, 0) .leaf) (0, 4, 1) (.branch (.branch (.branch (.branch .leaf (0, 4, 2) .leaf) (0, 4, 3) .leaf) (0, 5, 0) .leaf) (0, 5, 1) (.branch (.branch (.branch (.branch .leaf (0, 5, 2) .leaf) (0, 5, 3) .leaf) (0, 6, 0) .leaf) (0, 6, 1) (.branch (.branch (.branch (.branch .leaf (0, 6, 2) .leaf) (0, 6, 3) .leaf) (0, 7, 0) .leaf) (0, 7, 1) (.branch (.branch (.branch (.branch .leaf (0, 7, 2) .leaf) (0, 7, 3) .leaf) (0, 8, 0) .leaf) (0, 8, 1) (.branch (.branch (.branch (.branch .leaf (0, 8, 2) .leaf) (0, 8, 3) .leaf) (0, 9, 0) .leaf) (0, 9, 1) (.branch (.branch (.branch (.branch .leaf (0, 9, 2) .leaf) (0, 9, 3) .leaf) (0, 10, 0) .leaf) (0, 10, 1) (.branch (.branch (.branch (.branch .leaf (0, 10, 2) .leaf) (0, 10, 3) .leaf) (0, 11, 0) .leaf) (0, 11, 1) (.branch (.branch (.branch (.branch .leaf (0, 11, 2) .leaf) (0, 11, 3) .leaf) (0, 12, 0) .leaf) (0, 12, 1) (.branch (.branch .leaf (0, 12, 2) .leaf) (0, 12, 3) .leaf)))))))))) (1, 0, 0) (.branch .leaf (1, 0, 1) .leaf)))))) (1, 0, 2) (.branch .leaf (1, 0, 3) (.branch (.branch .leaf (1, 1, 0) .leaf) (1, 1, 1) (.branch (.branch (.branch (.branch .leaf (1, 1, 2) (.branch .leaf (1, 1, 3) .leaf)) (1, 2, 0) .leaf) (1, 2, 1) .leaf) (1, 2, 2) (.branch .leaf (1, 2, 3) (.branch (.branch (.branch .leaf (1, 3, 0) .leaf) (1, 3, 1) (.branch (.branch .leaf (1, 3, 2) (.branch .leaf (1, 3, 3) (.branch (.branch .leaf (1, 4, 0) .leaf) (1, 4, 1) (.branch .leaf (1, 4, 2) (.branch .leaf (1, 4, 3) (.branch (.branch .leaf (1, 5, 0) .leaf) (1, 5, 1) (.branch .leaf (1, 5, 2) (.branch .leaf (1, 5, 3) (.branch (.branch .leaf (1, 6, 0) .leaf) (1, 6, 1) (.branch .leaf (1, 6, 2) (.branch .leaf (1, 6, 3) (.branch (.branch .leaf (1, 7, 0) .leaf) (1, 7, 1) (.branch (.branch .leaf (1, 7, 2) (.branch .leaf (1, 7, 3) (.branch (.branch .leaf (1, 8, 0) .leaf) (1, 8, 1) .leaf))) (1, 8, 2) (.branch .leaf (1, 8, 3) (.branch (.branch .leaf (1, 9, 0) .leaf) (1, 9, 1) (.branch .leaf (1, 9, 2) (.branch .leaf (1, 9, 3) (.branch (.branch (.branch .leaf (1, 10, 0) .leaf) (1, 10, 1) (.branch .leaf (1, 10, 2) (.branch .leaf (1, 10, 3) (.branch (.branch .leaf (1, 11, 0) .leaf) (1, 11, 1) .leaf)))) (1, 11, 2) (.branch .leaf (1, 11, 3) (.branch (.branch .leaf (1, 12, 0) .leaf) (1, 12, 1) (.branch .leaf (1, 12, 2) (.branch .leaf (1, 12, 3) .leaf)))))))))))))))))))))) (2, 0, 0) (.branch .leaf (2, 0, 1) .leaf))) (2, 0, 2) (.branch .leaf (2, 0, 3) (.branch (.branch (.branch .leaf (2, 1, 0) .leaf) (2, 1, 1) .leaf) (2, 1, 2) (.branch .leaf (2, 1, 3) (.branch (.branch (.branch (.branch .leaf (2, 2, 0) .leaf) (2, 2, 1) .leaf) (2, 2, 2) (.branch .leaf (2, 2, 3) (.branch (.branch (.branch .leaf (2, 3, 0) .leaf) (2, 3, 1) (.branch .leaf (2, 3, 2) (.branch .leaf (2, 3, 3) (.branch (.branch (.branch .leaf (2, 4, 0) .leaf) (2, 4, 1) .leaf) (2, 4, 2) (.branch .leaf (2, 4, 3) (.branch (.branch .leaf (2, 5, 0) .leaf) (2, 5, 1) (.branch .leaf (2, 5, 2) (.branch .leaf (2, 5, 3) (.branch (.branch .leaf (2, 6, 0) .leaf) (2, 6, 1) (.branch .leaf (2, 6, 2) (.branch .leaf (2, 6, 3) (.branch (.branch .leaf (2, 7, 0) .leaf) (2, 7, 1) (.branch .leaf (2, 7, 2) (.branch .leaf (2, 7, 3) (.branch (.branch (.branch .leaf (2, 8, 0) .leaf) (2, 8, 1) .leaf) (2, 8, 2) (.branch .leaf (2, 8, 3) (.branch (.branch (.branch .leaf (2, 9, 0) .leaf) (2, 9, 1) .leaf) (2, 9, 2) (.branch .leaf (2, 9, 3) (.branch (.branch .leaf (2, 10, 0) .leaf) (2, 10, 1) (.branch .leaf (2, 10, 2) (.branch .leaf (2, 10, 3) (.branch (.branch (.branch .leaf (2, 11, 0) .leaf) (2, 11, 1) .leaf) (2, 11, 2) (.branch .leaf (2, 11, 3) (.branch (.branch (.branch .leaf (2, 12, 0) .leaf) (2, 12, 1) .leaf) (2, 12, 2) (.branch .leaf (2, 12, 3) .leaf))))))))))))))))))))))))) (3, 0, 0) (.branch .leaf (3, 0, 1) .leaf)))) (3, 0, 2) (.branch .leaf (3, 0, 3) (.branch (.branch (.branch .leaf (3, 1, 0) .leaf) (3, 1, 1) .leaf) (3, 1, 2) (.branch .leaf (3, 1, 3) (.branch (.branch .leaf (3, 2, 0) .leaf) (3, 2, 1) (.branch .leaf (3, 2, 2) (.branch .leaf (3, 2, 3) (.branch (.branch (.branch (.branch .leaf (3, 3, 0) .leaf) (3, 3, 1) (.branch (.branch .leaf (3, 3, 2) (.branch .leaf (3, 3, 3) (.branch (.branch .leaf (3, 4, 0) .leaf) (3, 4, 1) .leaf))) (3, 4, 2) (.branch .leaf (3, 4, 3) (.branch (.branch (.branch (.branch .leaf (3, 5, 0) .leaf) (3, 5, 1) .leaf) (3, 5, 2) (.branch .leaf (3, 5, 3) (.branch (.branch (.branch .leaf (3, 6, 0) .leaf) (3, 6, 1) .leaf) (3, 6, 2) (.branch .leaf (3, 6, 3) (.branch (.branch .leaf (3, 7, 0) .leaf) (3, 7, 1) (.branch .leaf (3, 7, 2) (.branch .leaf (3, 7, 3) (.branch (.branch (.branch .leaf (3, 8, 0) .leaf) (3, 8, 1) .leaf) (3, 8, 2) (.branch .leaf (3, 8, 3) (.branch (.branch (.branch .leaf (3, 9, 0) .leaf) (3, 9, 1) .leaf) (3, 9, 2) (.branch .leaf (3, 9, 3) (.branch (.branch (.branch .leaf (3, 10, 0) .leaf) (3, 10, 1) .leaf) (3, 10, 2) (.branch .leaf (3, 10, 3) (.branch (.branch (.branch .leaf (3, 11, 0) .leaf) (3, 11, 1) (.branch .leaf (3, 11, 2) (.branch .leaf (3, 11, 3) (.branch (.branch .leaf (3, 12, 0) .leaf) (3, 12, 1) .leaf)))) (3, 12, 2) (.branch .leaf (3, 12, 3) .leaf))))))))))))))) (4, 0, 0) (.branch .leaf (4, 0, 1) .leaf))))) (4, 0, 2) (.branch .leaf (4, 0, 3) (.branch (.branch .leaf (4, 1, 0) .leaf) (4, 1, 1) .leaf))) (4, 1, 2) (.branch .leaf (4, 1, 3) (.branch (.branch (.branch (.branch .leaf (4, 2, 0) .leaf) (4, 2, 1) .leaf) (4, 2, 2) (.branch .leaf (4, 2, 3) (.branch (.branch (.branch .leaf (4, 3, 0) .leaf) (4, 3, 1) (.branch .leaf (4, 3, 2) (.branch .leaf (4, 3, 3) (.branch (.branch (.branch .leaf (4, 4, 0) .leaf) (4, 4, 1) .leaf) (4, 4, 2) (.branch .leaf (4, 4, 3) (.branch (.branch .leaf (4, 5, 0) .leaf) (4, 5, 1) (.branch .leaf (4, 5, 2) (.branch .leaf (4, 5, 3) (.branch (.branch (.branch .leaf (4, 6, 0) .leaf) (4, 6, 1) .leaf) (4, 6, 2) (.branch .leaf (4, 6, 3) (.branch (.branch .leaf (4, 7, 0) .leaf) (4, 7, 1) (.branch .leaf (4, 7, 2) (.branch .leaf (4, 7, 3) (.branch (.branch (.branch .leaf (4, 8, 0) .leaf) (4, 8, 1) .leaf) (4, 8, 2) (.branch .leaf (4, 8, 3) (.branch (.branch (.branch (.branch .leaf (4, 9, 0) .leaf) (4, 9, 1) .leaf) (4, 9, 2) (.branch .leaf (4, 9, 3) .leaf)) (4, 10, 2) (.branch .leaf (4, 10, 3) (.branch (.branch (.branch .leaf (4, 11, 0) .leaf) (4, 11, 1) .leaf) (4, 11, 2) (.branch .leaf (4, 11, 3) (.branch .leaf (4, 12, 2) (.branch .leaf (4, 12, 3) .leaf))))))))))))))))))))) (5, 0, 0) (.branch .leaf (5, 0, 1) .leaf)))) (5, 0, 2) (.branch .leaf (5, 0, 3) (.branch (.branch (.branch .leaf (5, 1, 0) .leaf) (5, 1, 1) .leaf) (5, 1, 2) (.branch .leaf (5, 1, 3) (.branch (.branch (.branch .leaf (5, 2, 0) .leaf) (5, 2, 1) .leaf) (5, 2, 2) (.branch .leaf (5, 2, 3) (.branch (.branch (.branch .leaf (5, 3, 0) .leaf) (5, 3, 1) (.branch (.branch .leaf (5, 3, 2) (.branch .leaf (5, 3, 3) (.branch (.branch (.branch .leaf (5, 4, 0) .leaf) (5, 4, 1) .leaf) (5, 4, 2) (.branch .leaf (5, 4, 3) (.branch (.branch (.branch .leaf (5, 5, 0) .leaf) (5, 5, 1) .leaf) (5, 5, 2) (.branch .leaf (5, 5, 3) (.branch (.branch (.branch .leaf (5, 6, 0) .leaf) (5, 6, 1) .leaf) (5, 6, 2) (.branch .leaf (5, 6, 3) (.branch (.branch .leaf (5, 7, 0) .leaf) (5, 7, 1) (.branch .leaf (5, 7, 2) (.branch .leaf (5, 7, 3) (.branch .leaf (5, 10, 2) (.branch .leaf (5, 10, 3) .leaf))))))))))))) (6, 0, 0) (.branch .leaf (6, 0, 1) .leaf))) (6, 0, 2) (.branch .leaf (6, 0, 3) (.branch (.branch (.branch .leaf (6, 1, 0) .leaf) (6, 1, 1) .leaf) (6, 1, 2) (.branch .leaf (6, 1, 3) (.branch (.branch (.branch .leaf (6, 2, 0) .leaf) (6, 2, 1) .leaf) (6, 2, 2) (.branch .leaf (6, 2, 3) (.branch (.branch (.branch .leaf (6, 3, 0) .leaf) (6, 3, 1) (.branch (.branch .leaf (6, 3, 2) (.branch .leaf (6, 3, 3) (.branch (.branch .leaf (6, 4, 0) .leaf) (6, 4, 1) (.branch .leaf (6, 4, 2) (.branch .leaf (6, 4, 3) (.branch (.branch .leaf (6, 5, 0) .leaf) (6, 5, 1) (.branch .leaf (6, 5, 2) (.branch .leaf (6, 5, 3) (.branch (.branch (.branch .leaf (6, 6, 0) .leaf) (6, 6, 1) .leaf) (6, 6, 2) (.branch .leaf (6, 6, 3) .leaf)))))))))) (7, 0, 0) (.branch .leaf (7, 0, 1) .leaf))) (7, 0, 2) (.branch .leaf (7, 0, 3) (.branch (.branch (.branch (.branch .leaf (7, 1, 0) .leaf) (7, 1, 1) .leaf) (7, 1, 2) (.branch .leaf (7, 1, 3) (.branch (.branch .leaf (7, 2, 0) .leaf) (7, 2, 1) .leaf))) (7, 2, 2) (.branch .leaf (7, 2, 3) (.branch (.branch (.branch .leaf (7, 3, 0) .leaf) (7, 3, 1) (.branch .leaf (7, 3, 2) (.branch .leaf (7, 3, 3) (.branch (.branch (.branch .leaf (7, 4, 0) .leaf) (7, 4, 1) (.branch .leaf (7, 4, 2) (.branch .leaf (7, 4, 3) (.branch (.branch .leaf (7, 5, 0) .leaf) (7, 5, 1) .leaf)))) (8, 0, 0) (.branch .leaf (8, 0, 1) .leaf))))) (8, 0, 2) (.branch .leaf (8, 0, 3) (.branch (.branch (.branch (.branch .leaf (8, 1, 0) .leaf) (8, 1, 1) .leaf) (8, 1, 2) (.branch .leaf (8, 1, 3) (.branch (.branch .leaf (8, 2, 0) .leaf) (8, 2, 1) .leaf))) (8, 2, 2) (.branch .leaf (8, 2, 3) (.branch (.branch .leaf (8, 3, 0) .leaf) (8, 3, 1) (.branch .leaf (8, 3, 2) (.branch .leaf (8, 3, 3) (.branch (.branch (.branch .leaf (8, 4, 0) .leaf) (8, 4, 1) (.branch (.branch .leaf (8, 4, 2) (.branch .leaf (8, 4, 3) (.branch (.branch .leaf (8, 5, 0) .leaf) (8, 5, 1) .leaf))) (9, 0, 0) (.branch .leaf (9, 0, 1) .leaf))) (9, 0, 2) (.branch .leaf (9, 0, 3) (.branch (.branch (.branch (.branch .leaf (9, 1, 0) .leaf) (9, 1, 1) .leaf) (9, 1, 2) (.branch .leaf (9, 1, 3) (.branch (.branch (.branch .leaf (9, 2, 0) .leaf) (9, 2, 1) .leaf) (9, 2, 2) (.branch .leaf (9, 2, 3) (.branch (.branch .leaf (9, 3, 0) .leaf) (9, 3, 1) .leaf))))) (9, 3, 2) (.branch .leaf (9, 3, 3) (.branch (.branch (.branch (.branch .leaf (9, 4, 0) .leaf) (9, 4, 1) (.branch .leaf (9, 4, 2) (.branch .leaf (9, 4, 3) .leaf))) (10, 0, 0) (.branch .leaf (10, 0, 1) .leaf)) (10, 0, 2) (.branch .leaf (10, 0, 3) (.branch (.branch .leaf (10, 1, 0) .leaf) (10, 1, 1) (.branch .leaf (10, 1, 2) (.branch .leaf (10, 1, 3) (.branch (.branch (.branch .leaf (10, 2, 0) .leaf) (10, 2, 1) .leaf) (10, 2, 2) (.branch .leaf (10, 2, 3) (.branch (.branch (.branch .leaf (10, 3, 0) .leaf) (10, 3, 1) .leaf) (10, 3, 2) (.branch .leaf (10, 3, 3) (.branch (.branch (.branch .leaf (10, 4, 0) .leaf) (10, 4, 1) (.branch (.branch .leaf (10, 4, 2) (.branch .leaf (10, 4, 3) .leaf)) (11, 0, 0) (.branch .leaf (11, 0, 1) .leaf))) (11, 0, 2) (.branch .leaf (11, 0, 3) (.branch (.branch (.branch .leaf (11, 1, 0) .leaf) (11, 1, 1) .leaf) (11, 1, 2) (.branch .leaf (11, 1, 3) (.branch (.branch (.branch .leaf (11, 2, 0) .leaf) (11, 2, 1) .leaf) (11, 2, 2) (.branch .leaf (11, 2, 3) (.branch (.branch (.branch .leaf (11, 3, 2) (.branch .leaf (11, 3, 3) .leaf)) (12, 0, 2) (.branch .leaf (12, 0, 3) (.branch (.branch (.branch .leaf (12, 1, 0) .leaf) (12, 1, 1) .leaf) (12, 1, 2) (.branch .leaf (12, 1, 3) (.branch (.branch .leaf (12, 2, 0) .leaf) (12, 2, 1) .leaf))))) (12, 2, 2) (.branch .leaf (12, 2, 3) (.branch (.branch .leaf (12, 3, 0) .leaf) (12, 3, 1) .leaf)))))))))))))))))))))))))))))))))))))))))))))))))))))))))))))))))

/-- Simulation snapshot: heap after segment 5 of the day-17 a-run. -/
def d17aHeap6 : Heap := (.node ⟨⟨10, 0⟩, .Right, 54⟩ [(.node ⟨⟨10, 0⟩, .Down, 54⟩ [(.node ⟨⟨3, 8⟩, .Right, 56⟩ [(.node ⟨⟨8, 0⟩, .Up, 57⟩ [(.node ⟨⟨8, 0⟩, .Down, 57⟩ [])]), (.node ⟨⟨0, 7⟩, .Right, 53⟩ [(.node ⟨⟨8, 2⟩, .Right, 59⟩ [(.node ⟨⟨7, 2⟩, .Right, 62⟩ [(.node ⟨⟨7, 2⟩, .Left, 62⟩ [])]), (.node ⟨⟨8, 2⟩, .Left, 59⟩ [])]), (.node ⟨⟨0, 7⟩, .Left, 53⟩ [])]), (.node ⟨⟨10, 5⟩, .Down, 63⟩ [(.node ⟨⟨10, 6⟩, .Down, 69⟩ [(.node ⟨⟨10, 6⟩, .Up, 69⟩ [])]), (.node ⟨⟨10, 5⟩, .Up, 63⟩ [])]), (.node ⟨⟨3, 10⟩, .Up, 60⟩ [(.node ⟨⟨3, 9⟩, .Up, 65⟩ [(.node ⟨⟨3, 9⟩, .Down, 65⟩ [])]), (.node ⟨⟨3, 10⟩, .Down, 60⟩ [])]), (.node ⟨⟨6, 2⟩, .Up, 55⟩ [(.node ⟨⟨6, 1⟩, .Up, 59⟩ [(.node ⟨⟨6, 1⟩, .Down, 59⟩ [])]), (.node ⟨⟨6, 2⟩, .Down, 55⟩ [])]), (.node ⟨⟨5, 8⟩, .Left, 61⟩ [(.node ⟨⟨6, 8⟩, .Left, 69⟩ [(.node ⟨⟨7, 8⟩, .Left, 76⟩ [(.node ⟨⟨7, 8⟩, .Right, 76⟩ [])]), (.node ⟨⟨6, 8⟩, .Right, 69⟩ [])]), (.node ⟨⟨5, 8⟩, .Right, 61⟩ [])]), (.node ⟨⟨3, 8⟩, .Left, 56⟩ [])]), (.node ⟨⟨7, 5⟩, .Down, 56⟩ [(.node ⟨⟨7, 6⟩, .Down, 63⟩ [(.node ⟨⟨7, 6⟩, .Up, 63⟩ [])]), (.node ⟨⟨7, 5⟩, .Up, 56⟩ [])])]), (.node ⟨⟨2, 10⟩, .Up, 56⟩ [(.node ⟨⟨5, 11⟩, .Left, 60⟩ [(.node ⟨⟨7, 2⟩, .Up, 60⟩ [(.node ⟨⟨7, 1⟩, .Up, 66⟩ [(.node ⟨⟨7, 1⟩, .Down, 66⟩ [])]), (.node ⟨⟨7, 2⟩, .Down, 60⟩ [])]), (.node ⟨⟨2, 5⟩, .Up, 52⟩ [(.node ⟨⟨5, 8⟩, .Left, 58⟩ [(.node ⟨⟨11, 3⟩, .Left, 59⟩ [(.node ⟨⟨9, 1⟩, .Up, 56⟩ [(.node ⟨⟨9, 0⟩, .Up, 60⟩ [(.node ⟨⟨9, 0⟩, .Down, 60⟩ [])]), (.node ⟨⟨9, 1⟩, .Down, 56⟩ [])]), (.node ⟨⟨12, 3⟩, .Left, 61⟩ [(.node ⟨⟨12, 3⟩, .Right, 61⟩ [])]), (.node ⟨⟨11, 3⟩, .Right, 59⟩ [])]), (.node ⟨⟨6, 8⟩, .Left, 66⟩ [(.node ⟨⟨6, 8⟩, .Right, 66⟩ [])]), (.node ⟨⟨5, 8⟩, .Right, 58⟩ [])]), (.node ⟨⟨2, 5⟩, .Down, 52⟩ [])]), (.node ⟨⟨4, 9⟩, .Up, 59⟩ [(.node ⟨⟨3, 9⟩, .Up, 61⟩ [(.node ⟨⟨3, 8⟩, .Up, 65⟩ [(.node ⟨⟨3, 8⟩, .Down, 65⟩ [])]), (.node ⟨⟨3, 9⟩, .Down, 61⟩ [])]), (.node ⟨⟨4, 9⟩, .Down, 59⟩ [])]), (.node ⟨⟨6, 11⟩, .Left, 66⟩ [(.node ⟨⟨6, 11⟩, .Right, 66⟩ [])]), (.node ⟨⟨5, 11⟩, .Right, 60⟩ [])]), (.node ⟨⟨9, 3⟩, .Right, 56⟩ [(.node ⟨⟨5, 3⟩, .Right, 53⟩ [(.node ⟨⟨4, 7⟩, .Up, 56⟩ [(.node ⟨⟨4, 5⟩, .Up, 59⟩ [(.node ⟨⟨4, 4⟩, .Up, 65⟩ [(.node ⟨⟨4, 4⟩, .Down, 65⟩ [])]), (.node ⟨⟨4, 5⟩, .Down, 59⟩ [])]), (.node ⟨⟨4, 9⟩, .Down, 60⟩ [(.node ⟨⟨4, 10⟩, .Down, 65⟩ [(.node ⟨⟨4, 10⟩, .Up, 65⟩ [])]), (.node ⟨⟨4, 9⟩, .Up, 60⟩ [])]), (.node ⟨⟨4, 7⟩, .Down, 56⟩ [])]), (.node ⟨⟨7, 3⟩, .Up, 57⟩ [(.node ⟨⟨7, 3⟩, .Down, 57⟩ [])]), (.node ⟨⟨4, 9⟩, .Down, 59⟩ [(.node ⟨⟨4, 9⟩, .Up, 59⟩ [])]), (.node ⟨⟨4, 3⟩, .Right, 59⟩ [(.node ⟨⟨4, 3⟩, .Left, 59⟩ [])]), (.node ⟨⟨5, 3⟩, .Left, 53⟩ [])]), (.node ⟨⟨4, 6⟩, .Right, 70⟩ [(.node ⟨⟨3, 6⟩, .Right, 75⟩ [(.node ⟨⟨3, 6⟩, .Left, 75⟩ [])]), (.node ⟨⟨4, 6⟩, .Left, 70⟩ [])]), (.node ⟨⟨4, 12⟩, .Down, 61⟩ [(.node ⟨⟨6, 4⟩, .Right, 66⟩ [(.node ⟨⟨5, 4⟩, .Right, 71⟩ [(.node ⟨⟨5, 4⟩, .Left, 71⟩ [])]), (.node ⟨⟨6, 4⟩, .Left, 66⟩ [])]), (.node ⟨⟨4, 12⟩, .Up, 61⟩ [])]), (.node ⟨⟨4, 12⟩, .Down, 61⟩ [(.node ⟨⟨3, 11⟩, .Right, 60⟩ [(.node ⟨⟨2, 11⟩, .Right, 65⟩ [(.node ⟨⟨1, 11⟩, .Right, 67⟩ [(.node ⟨⟨1, 11⟩, .Left, 67⟩ [])]), (.node ⟨⟨2, 11⟩, .Left, 65⟩ [])]), (.node ⟨⟨3, 11⟩, .Left, 60⟩ [])]), (.node ⟨⟨6, 11⟩, .Left, 66⟩ [(.node ⟨⟨7, 11⟩, .Left, 71⟩ [(.node ⟨⟨7, 11⟩, .Right, 71⟩ [])]), (.node ⟨⟨6, 11⟩, .Right, 66⟩ [])]), (.node ⟨⟨4, 12⟩, .Up, 61⟩ [])]), (.node ⟨⟨11, 1⟩, .Up, 57⟩ [(.node ⟨⟨8, 3⟩, .Right, 60⟩ [(.node ⟨⟨7, 3⟩, .Right, 67⟩ [(.node ⟨⟨7, 3⟩, .Left, 67⟩ [])]), (.node ⟨⟨8, 3⟩, .Left, 60⟩ [])]), (.node ⟨⟨11, 0⟩, .Up, 59⟩ [(.node ⟨⟨11, 0⟩, .Down, 59⟩ [])]), (.node ⟨⟨11, 1⟩, .Down, 57⟩ [])]), (.node ⟨⟨11, 3⟩, .Left, 58⟩ [(.node ⟨⟨12, 3⟩, .Left, 60⟩ [(.node ⟨⟨12, 3⟩, .Right, 60⟩ [])]), (.node ⟨⟨11, 3⟩, .Right, 58⟩ [])]), (.node ⟨⟨9, 3⟩, .Left, 56⟩ [])]), (.node ⟨⟨7, 4⟩, .Right, 58⟩ [(.node ⟨⟨10, 4⟩, .Left, 62⟩ [(.node ⟨⟨11, 4⟩, .Left, 67⟩ [(.node ⟨⟨11, 4⟩, .Right, 67⟩ [])]), (.node ⟨⟨10, 4⟩, .Right, 62⟩ [])]), (.node ⟨⟨7, 4⟩, .Left, 58⟩ [])]), (.node ⟨⟨12, 4⟩, .Down, 64⟩ [(.node ⟨⟨12, 4⟩, .Up, 64⟩ [])]), (.node ⟨⟨10, 4⟩, .Down, 58⟩ [(.node ⟨⟨11, 4⟩, .Down, 60⟩ [(.node ⟨⟨11, 5⟩, .Down, 64⟩ [(.node ⟨⟨11, 6⟩, .Down, 72⟩ [(.node ⟨⟨11, 6⟩, .Up, 72⟩ [])]), (.node ⟨⟨11, 5⟩, .Up, 64⟩ [])]), (.node ⟨⟨11, 4⟩, .Left, 60⟩ [(.node ⟨⟨12, 4⟩, .Left, 66⟩ [(.node ⟨⟨12, 4⟩, .Right, 66⟩ [])]), (.node ⟨⟨11, 4⟩, .Right, 60⟩ [])]), (.node ⟨⟨11, 4⟩, .Up, 60⟩ [])]), (.node ⟨⟨8, 1⟩, .Right, 57⟩ [(.node ⟨⟨7, 1⟩, .Right, 63⟩ [(.node ⟨⟨7, 1⟩, .Left, 63⟩ [])]), (.node ⟨⟨8, 1⟩, .Left, 57⟩ [])]), (.node ⟨⟨10, 4⟩, .Up, 58⟩ [])]), (.node ⟨⟨12, 0⟩, .Left, 57⟩ [(.node ⟨⟨9, 0⟩, .Right, 58⟩ [(.node ⟨⟨8, 0⟩, .Right, 62⟩ [(.node ⟨⟨8, 0⟩, .Left, 62⟩ [])]), (.node ⟨⟨9, 0⟩, .Left, 58⟩ [])]), (.node ⟨⟨12, 0⟩, .Right, 57⟩ [])]), (.node ⟨⟨4, 7⟩, .Right, 61⟩ [(.node ⟨⟨5, 6⟩, .Up, 61⟩ [(.node ⟨⟨7, 7⟩, .Left, 71⟩ [(.node ⟨⟨8, 7⟩, .Left, 80⟩ [(.node ⟨⟨8, 7⟩, .Right, 80⟩ [])]), (.node ⟨⟨7, 7⟩, .Right, 71⟩ [])]), (.node ⟨⟨5, 6⟩, .Down, 61⟩ [])]), (.node ⟨⟨9, 5⟩, .Left, 66⟩ [(.node ⟨⟨10, 5⟩, .Left, 74⟩ [(.node ⟨⟨10, 5⟩, .Right, 74⟩ [])]), (.node ⟨⟨9, 5⟩, .Right, 66⟩ [])]), (.node ⟨⟨4, 7⟩, .Left, 61⟩ [])]), (.node ⟨⟨3, 6⟩, .Up, 54⟩ [(.node ⟨⟨3, 5⟩, .Up, 62⟩ [(.node ⟨⟨3, 5⟩, .Down, 62⟩ [])]), (.node ⟨⟨3, 6⟩, .Down, 54⟩ [])]), (.node ⟨⟨2, 9⟩, .Up, 60⟩ [(.node ⟨⟨2, 9⟩, .Down, 60⟩ [])]), (.node ⟨⟨2, 10⟩, .Down, 56⟩ [])]), (.node ⟨⟨4, 6⟩, .Up, 54⟩ [(.node ⟨⟨8, 2⟩, .Right, 55⟩ [(.node ⟨⟨10, 3⟩, .Up, 61⟩ [(.node ⟨⟨10, 5⟩, .Down, 65⟩ [(.node ⟨⟨10, 6⟩, .Down, 71⟩ [(.node ⟨⟨10, 7⟩, .Down, 79⟩ [(.node ⟨⟨10, 7⟩, .Up, 79⟩ [])]), (.node ⟨⟨10, 6⟩, .Up, 71⟩ [])]), (.node ⟨⟨10, 5⟩, .Up, 65⟩ [])]), (.node ⟨⟨7, 5⟩, .Right, 63⟩ [(.node ⟨⟨6, 5⟩, .Right, 70⟩ [(.node ⟨⟨5, 5⟩, .Right, 79⟩ [(.node ⟨⟨5, 5⟩, .Left, 79⟩ [])]), (.node ⟨⟨6, 5⟩, .Left, 70⟩ [])]), (.node ⟨⟨7, 5⟩, .Left, 63⟩ [])]), (.node ⟨⟨10, 2⟩, .Up, 63⟩ [(.node ⟨⟨10, 1⟩, .Up, 65⟩ [(.node ⟨⟨10, 1⟩, .Down, 65⟩ [])]), (.node ⟨⟨10, 2⟩, .Down, 63⟩ [])]), (.node ⟨⟨10, 3⟩, .Down, 61⟩ [])]), (.node ⟨⟨4, 6⟩, .Right, 57⟩ [(.node ⟨⟨4, 6⟩, .Left, 57⟩ [])]), (.node ⟨⟨6, 6⟩, .Down, 58⟩ [(.node ⟨⟨6, 6⟩, .Up, 58⟩ [])]), (.node ⟨⟨8, 2⟩, .Left, 55⟩ [])]), (.node ⟨⟨3, 7⟩, .Right, 54⟩ [(.node ⟨⟨9, 5⟩, .Down, 58⟩ [(.node ⟨⟨10, 2⟩, .Right, 57⟩ [(.node ⟨⟨8, 5⟩, .Left, 59⟩ [(.node ⟨⟨11, 2⟩, .Right, 60⟩ [(.node ⟨⟨10, 2⟩, .Right, 62⟩ [(.node ⟨⟨9, 2⟩, .Right, 68⟩ [(.node ⟨⟨9, 2⟩, .Left, 68⟩ [])]), (.node ⟨⟨10, 2⟩, .Left, 62⟩ [])]), (.node ⟨⟨11, 2⟩, .Left, 60⟩ [])]), (.node ⟨⟨5, 5⟩, .Up, 70⟩ [(.node ⟨⟨5, 4⟩, .Up, 75⟩ [(.node ⟨⟨5, 4⟩, .Down, 75⟩ [])]), (.node ⟨⟨5, 5⟩, .Down, 70⟩ [])]), (.node ⟨⟨8, 5⟩, .Right, 59⟩ [])]), (.node ⟨⟨9, 3⟩, .Up, 60⟩ [(.node ⟨⟨9, 3⟩, .Down, 60⟩ [])]), (.node ⟨⟨12, 0⟩, .Up, 58⟩ [(.node ⟨⟨6, 5⟩, .Right, 60⟩ [(.node ⟨⟨5, 5⟩, .Right, 69⟩ [(.node ⟨⟨4, 5⟩, .Right, 74⟩ [(.node ⟨⟨4, 5⟩, .Left, 74⟩ [])]), (.node ⟨⟨5, 5⟩, .Left, 69⟩ [])]), (.node ⟨⟨5, 9⟩, .Down, 70⟩ [(.node ⟨⟨5, 10⟩, .Down, 74⟩ [(.node ⟨⟨5, 10⟩, .Up, 74⟩ [])]), (.node ⟨⟨5, 9⟩, .Up, 70⟩ [])]), (.node ⟨⟨6, 5⟩, .Left, 60⟩ [])]), (.node ⟨⟨12, 0⟩, .Down, 58⟩ [])]), (.node ⟨⟨9, 2⟩, .Right, 63⟩ [(.node ⟨⟨8, 2⟩, .Right, 68⟩ [(.node ⟨⟨8, 2⟩, .Left, 68⟩ [])]), (.node ⟨⟨9, 2⟩, .Left, 63⟩ [])]), (.node ⟨⟨2, 9⟩, .Right, 64⟩ [(.node ⟨⟨1, 9⟩, .Right, 69⟩ [(.node ⟨⟨1, 9⟩, .Left, 69⟩ [])]), (.node ⟨⟨2, 9⟩, .Left, 64⟩ [])]), (.node ⟨⟨10, 2⟩, .Left, 57⟩ [])]), (.node ⟨⟨9, 5⟩, .Left, 63⟩ [(.node ⟨⟨9, 5⟩, .Right, 63⟩ [])]), (.node ⟨⟨9, 5⟩, .Down, 63⟩ [(.node ⟨⟨10, 5⟩, .Left, 71⟩ [(.node ⟨⟨11, 5⟩, .Left, 75⟩ [(.node ⟨⟨11, 5⟩, .Right, 75⟩ [])]), (.node ⟨⟨10, 5⟩, .Right, 71⟩ [])]), (.node ⟨⟨9, 5⟩, .Up, 63⟩ [])]), (.node ⟨⟨6, 7⟩, .Left, 62⟩ [(.node ⟨⟨6, 7⟩, .Right, 62⟩ [])]), (.node ⟨⟨3, 7⟩, .Right, 69⟩ [(.node ⟨⟨2, 7⟩, .Right, 75⟩ [(.node ⟨⟨2, 7⟩, .Left, 75⟩ [])]), (.node ⟨⟨3, 7⟩, .Left, 69⟩ [])]), (.node ⟨⟨9, 6⟩, .Down, 67⟩ [(.node ⟨⟨9, 6⟩, .Up, 67⟩ [])]), (.node ⟨⟨9, 5⟩, .Up, 58⟩ [])]), (.node ⟨⟨6, 4⟩, .Left, 54⟩ [(.node ⟨⟨2, 11⟩, .Right, 57⟩ [(.node ⟨⟨8, 5⟩, .Down, 61⟩ [(.node ⟨⟨8, 5⟩, .Up, 61⟩ [])]), (.node ⟨⟨5, 8⟩, .Left, 59⟩ [(.node ⟨⟨5, 1⟩, .Right, 53⟩ [(.node ⟨⟨5, 1⟩, .Left, 53⟩ [])]), (.node ⟨⟨5, 8⟩, .Right, 59⟩ [])]), (.node ⟨⟨1, 11⟩, .Right, 59⟩ [(.node ⟨⟨0, 11⟩, .Right, 61⟩ [(.node ⟨⟨0, 11⟩, .Left, 61⟩ [])]), (.node ⟨⟨1, 11⟩, .Left, 59⟩ [])]), (.node ⟨⟨2, 11⟩, .Left, 57⟩ [])]), (.node ⟨⟨4, 12⟩, .Left, 60⟩ [(.node ⟨⟨5, 4⟩, .Right, 59⟩ [(.node ⟨⟨4, 4⟩, .Right, 65⟩ [(.node ⟨⟨4, 4⟩, .Left, 65⟩ [])]), (.node ⟨⟨5, 4⟩, .Left, 59⟩ [])]), (.node ⟨⟨4, 11⟩, .Down, 61⟩ [(.node ⟨⟨6, 5⟩, .Up, 61⟩ [(.node ⟨⟨6, 5⟩, .Down, 61⟩ [])]), (.node ⟨⟨2, 8⟩, .Up, 58⟩ [(.node ⟨⟨2, 8⟩, .Down, 58⟩ [])]), (.node ⟨⟨4, 12⟩, .Down, 67⟩ [(.node ⟨⟨4, 12⟩, .Up, 67⟩ [])]), (.node ⟨⟨4, 11⟩, .Up, 61⟩ [])]), (.node ⟨⟨6, 7⟩, .Down, 63⟩ [(.node ⟨⟨6, 8⟩, .Down, 71⟩ [(.node ⟨⟨6, 9⟩, .Down, 78⟩ [(.node ⟨⟨6, 9⟩, .Up, 78⟩ [])]), (.node ⟨⟨6, 8⟩, .Up, 71⟩ [])]), (.node ⟨⟨9, 1⟩, .Right, 61⟩ [(.node ⟨⟨8, 1⟩, .Right, 67⟩ [(.node ⟨⟨8, 1⟩, .Left, 67⟩ [])]), (.node ⟨⟨9, 1⟩, .Left, 61⟩ [])]), (.node ⟨⟨6, 7⟩, .Up, 63⟩ [])]), (.node ⟨⟨6, 4⟩, .Up, 69⟩ [(.node ⟨⟨6, 3⟩, .Up, 76⟩ [(.node ⟨⟨6, 3⟩, .Down, 76⟩ [])]), (.node ⟨⟨6, 4⟩, .Down, 69⟩ [])]), (.node ⟨⟨11, 2⟩, .Down, 58⟩ [(.node ⟨⟨6, 4⟩, .Up, 57⟩ [(.node ⟨⟨6, 3⟩, .Up, 64⟩ [(.node ⟨⟨6, 2⟩, .Up, 69⟩ [(.node ⟨⟨6, 2⟩, .Down, 69⟩ [])]), (.node ⟨⟨6, 3⟩, .Down, 64⟩ [])]), (.node ⟨⟨8, 5⟩, .Left, 62⟩ [(.node ⟨⟨9, 5⟩, .Left, 69⟩ [(.node ⟨⟨9, 5⟩, .Right, 69⟩ [])]), (.node ⟨⟨8, 5⟩, .Right, 62⟩ [])]), (.node ⟨⟨6, 4⟩, .Down, 57⟩ [])]), (.node ⟨⟨11, 3⟩, .Down, 64⟩ [(.node ⟨⟨11, 3⟩, .Up, 64⟩ [])]), (.node ⟨⟨11, 2⟩, .Up, 58⟩ [])]), (.node ⟨⟨1, 10⟩, .Right, 58⟩ [(.node ⟨⟨0, 10⟩, .Right, 61⟩ [(.node ⟨⟨0, 10⟩, .Left, 61⟩ [])]), (.node ⟨⟨1, 10⟩, .Left, 58⟩ [])]), (.node ⟨⟨1, 12⟩, .Right, 61⟩ [(.node ⟨⟨0, 12⟩, .Right, 64⟩ [(.node ⟨⟨0, 12⟩, .Left, 64⟩ [])]), (.node ⟨⟨1, 12⟩, .Left, 61⟩ [])]), (.node ⟨⟨11, 4⟩, .Down, 63⟩ [(.node ⟨⟨11, 5⟩, .Down, 67⟩ [(.node ⟨⟨11, 5⟩, .Up, 67⟩ [])]), (.node ⟨⟨11, 4⟩, .Up, 63⟩ [])]), (.node ⟨⟨5, 12⟩, .Left, 64⟩ [(.node ⟨⟨6, 12⟩, .Left, 70⟩ [(.node ⟨⟨6, 12⟩, .Right, 70⟩ [])]), (.node ⟨⟨5, 12⟩, .Right, 64⟩ [])]), (.node ⟨⟨4, 12⟩, .Right, 60⟩ [])]), (.node ⟨⟨6, 7⟩, .Left, 62⟩ [(.node ⟨⟨7, 7⟩, .Left, 71⟩ [(.node ⟨⟨7, 7⟩, .Right, 71⟩ [])]), (.node ⟨⟨6, 7⟩, .Right, 62⟩ [])])]), (.node ⟨⟨5, 5⟩, .Up, 55⟩ [(.node ⟨⟨7, 6⟩, .Left, 62⟩ [(.node ⟨⟨7, 6⟩, .Right, 62⟩ [])]), (.node ⟨⟨1, 8⟩, .Up, 56⟩ [(.node ⟨⟨1, 8⟩, .Down, 56⟩ [])]), (.node ⟨⟨1, 6⟩, .Right, 53⟩ [(.node ⟨⟨5, 3⟩, .Up, 55⟩ [(.node ⟨⟨8, 4⟩, .Left, 59⟩ [(.node ⟨⟨9, 4⟩, .Left, 65⟩ [(.node ⟨⟨9, 4⟩, .Right, 65⟩ [])]), (.node ⟨⟨8, 4⟩, .Right, 59⟩ [])]), (.node ⟨⟨5, 2⟩, .Up, 58⟩ [(.node ⟨⟨5, 2⟩, .Down, 58⟩ [])]), (.node ⟨⟨5, 3⟩, .Down, 55⟩ [])]), (.node ⟨⟨1, 6⟩, .Left, 53⟩ [])]), (.node ⟨⟨5, 7⟩, .Down, 57⟩ [(.node ⟨⟨5, 8⟩, .Down, 66⟩ [(.node ⟨⟨5, 8⟩, .Up, 66⟩ [])]), (.node ⟨⟨5, 7⟩, .Up, 57⟩ [])]), (.node ⟨⟨5, 5⟩, .Down, 55⟩ [])]), (.node ⟨⟨5, 9⟩, .Left, 63⟩ [(.node ⟨⟨6, 9⟩, .Left, 70⟩ [(.node ⟨⟨7, 9⟩, .Left, 79⟩ [(.node ⟨⟨7, 9⟩, .Right, 79⟩ [])]), (.node ⟨⟨6, 9⟩, .Right, 70⟩ [])]), (.node ⟨⟨5, 9⟩, .Right, 63⟩ [])]), (.node ⟨⟨5, 0⟩, .Right, 50⟩ [(.node ⟨⟨4, 8⟩, .Up, 59⟩ [(.node ⟨⟨4, 7⟩, .Up, 67⟩ [(.node ⟨⟨4, 6⟩, .Up, 74⟩ [(.node ⟨⟨4, 6⟩, .Down, 74⟩ [])]), (.node ⟨⟨4, 7⟩, .Down, 67⟩ [])]), (.node ⟨⟨2, 8⟩, .Right, 61⟩ [(.node ⟨⟨1, 8⟩, .Right, 64⟩ [(.node ⟨⟨1, 8⟩, .Left, 64⟩ [])]), (.node ⟨⟨2, 8⟩, .Left, 61⟩ [])]), (.node ⟨⟨4, 8⟩, .Down, 59⟩ [])]), (.node ⟨⟨5, 0⟩, .Left, 50⟩ [])]), (.node ⟨⟨0, 9⟩, .Up, 54⟩ [(.node ⟨⟨0, 9⟩, .Down, 54⟩ [])]), (.node ⟨⟨11, 3⟩, .Down, 58⟩ [(.node ⟨⟨11, 3⟩, .Up, 58⟩ [])]), (.node ⟨⟨4, 3⟩, .Up, 55⟩ [(.node ⟨⟨4, 3⟩, .Down, 55⟩ [])]), (.node ⟨⟨2, 7⟩, .Right, 60⟩ [(.node ⟨⟨1, 7⟩, .Right, 65⟩ [(.node ⟨⟨1, 7⟩, .Left, 65⟩ [])]), (.node ⟨⟨2, 7⟩, .Left, 60⟩ [])]), (.node ⟨⟨5, 8⟩, .Down, 62⟩ [(.node ⟨⟨5, 9⟩, .Down, 70⟩ [(.node ⟨⟨5, 9⟩, .Up, 70⟩ [])]), (.node ⟨⟨5, 8⟩, .Up, 62⟩ [])]), (.node ⟨⟨3, 7⟩, .Left, 54⟩ [])]), (.node ⟨⟨2, 8⟩, .Up, 54⟩ [(.node ⟨⟨5, 6⟩, .Down, 55⟩ [(.node ⟨⟨7, 0⟩, .Up, 53⟩ [(.node ⟨⟨7, 0⟩, .Down, 53⟩ [])]), (.node ⟨⟨5, 5⟩, .Right, 58⟩ [(.node ⟨⟨5, 5⟩, .Left, 58⟩ [])]), (.node ⟨⟨6, 6⟩, .Down, 56⟩ [(.node ⟨⟨6, 7⟩, .Down, 65⟩ [(.node ⟨⟨6, 7⟩, .Up, 65⟩ [])]), (.node ⟨⟨6, 6⟩, .Up, 56⟩ [])]), (.node ⟨⟨5, 6⟩, .Up, 55⟩ [])]), (.node ⟨⟨2, 7⟩, .Up, 60⟩ [(.node ⟨⟨2, 7⟩, .Down, 60⟩ [])]), (.node ⟨⟨2, 8⟩, .Down, 54⟩ [])]), (.node ⟨⟨5, 11⟩, .Left, 60⟩ [(.node ⟨⟨5, 7⟩, .Down, 58⟩ [(.node ⟨⟨5, 7⟩, .Up, 58⟩ [])]), (.node ⟨⟨4, 10⟩, .Up, 60⟩ [(.node ⟨⟨4, 10⟩, .Down, 60⟩ [])]), (.node ⟨⟨4, 9⟩, .Up, 67⟩ [(.node ⟨⟨4, 8⟩, .Up, 73⟩ [(.node ⟨⟨4, 8⟩, .Down, 73⟩ [])]), (.node ⟨⟨4, 9⟩, .Down, 67⟩ [])]), (.node ⟨⟨5, 11⟩, .Right, 60⟩ [])]), (.node ⟨⟨9, 4⟩, .Down, 60⟩ [(.node ⟨⟨7, 0⟩, .Right, 55⟩ [(.node ⟨⟨6, 0⟩, .Right, 59⟩ [(.node ⟨⟨6, 0⟩, .Left, 59⟩ [])]), (.node ⟨⟨7, 0⟩, .Left, 55⟩ [])]), (.node ⟨⟨11, 4⟩, .Left, 62⟩ [(.node ⟨⟨8, 4⟩, .Right, 60⟩ [(.node ⟨⟨8, 4⟩, .Left, 60⟩ [])]), (.node ⟨⟨12, 4⟩, .Left, 68⟩ [(.node ⟨⟨12, 4⟩, .Right, 68⟩ [])]), (.node ⟨⟨11, 4⟩, .Right, 62⟩ [])]), (.node ⟨⟨9, 4⟩, .Up, 60⟩ [])]), (.node ⟨⟨12, 4⟩, .Down, 62⟩ [(.node ⟨⟨7, 4⟩, .Right, 68⟩ [(.node ⟨⟨6, 4⟩, .Right, 76⟩ [(.node ⟨⟨6, 4⟩, .Left, 76⟩ [])]), (.node ⟨⟨7, 4⟩, .Left, 68⟩ [])]), (.node ⟨⟨12, 5⟩, .Down, 69⟩ [(.node ⟨⟨12, 5⟩, .Up, 69⟩ [])]), (.node ⟨⟨12, 4⟩, .Up, 62⟩ [])]), (.node ⟨⟨8, 4⟩, .Left, 60⟩ [(.node ⟨⟨8, 4⟩, .Right, 60⟩ [])]), (.node ⟨⟨6, 6⟩, .Left, 56⟩ [(.node ⟨⟨7, 5⟩, .Down, 57⟩ [(.node ⟨⟨7, 6⟩, .Down, 64⟩ [(.node ⟨⟨7, 7⟩, .Down, 73⟩ [(.node ⟨⟨7, 7⟩, .Up, 73⟩ [])]), (.node ⟨⟨7, 6⟩, .Up, 64⟩ [])]), (.node ⟨⟨7, 6⟩, .Left, 63⟩ [(.node ⟨⟨8, 6⟩, .Left, 70⟩ [(.node ⟨⟨8, 6⟩, .Right, 70⟩ [])]), (.node ⟨⟨7, 6⟩, .Right, 63⟩ [])]), (.node ⟨⟨7, 5⟩, .Up, 57⟩ [])]), (.node ⟨⟨6, 6⟩, .Right, 56⟩ [])]), (.node ⟨⟨7, 5⟩, .Left, 57⟩ [(.node ⟨⟨8, 5⟩, .Left, 63⟩ [(.node ⟨⟨8, 5⟩, .Right, 63⟩ [])]), (.node ⟨⟨7, 5⟩, .Right, 57⟩ [])]), (.node ⟨⟨7, 1⟩, .Right, 58⟩ [(.node ⟨⟨6, 1⟩, .Right, 62⟩ [(.node ⟨⟨6, 1⟩, .Left, 62⟩ [])]), (.node ⟨⟨7, 1⟩, .Left, 58⟩ [])]), (.node ⟨⟨4, 6⟩, .Down, 54⟩ [])]), (.node ⟨⟨7, 5⟩, .Left, 56⟩ [(.node ⟨⟨12, 2⟩, .Left, 58⟩ [(.node ⟨⟨12, 2⟩, .Right, 58⟩ [])]), (.node ⟨⟨8, 5⟩, .Down, 57⟩ [(.node ⟨⟨3, 3⟩, .Right, 54⟩ [(.node ⟨⟨7, 3⟩, .Right, 60⟩ [(.node ⟨⟨6, 3⟩, .Right, 67⟩ [(.node ⟨⟨6, 3⟩, .Left, 67⟩ [])]), (.node ⟨⟨7, 3⟩, .Left, 60⟩ [])]), (.node ⟨⟨3, 3⟩, .Left, 54⟩ [])]), (.node ⟨⟨8, 3⟩, .Up, 59⟩ [(.node ⟨⟨8, 3⟩, .Down, 59⟩ [])]), (.node ⟨⟨5, 10⟩, .Left, 59⟩ [(.node ⟨⟨1, 7⟩, .Up, 57⟩ [(.node ⟨⟨1, 7⟩, .Down, 57⟩ [])]), (.node ⟨⟨8, 0⟩, .Right, 55⟩ [(.node ⟨⟨3, 5⟩, .Right, 56⟩ [(.node ⟨⟨2, 5⟩, .Right, 60⟩ [(.node ⟨⟨2, 5⟩, .Left, 60⟩ [])]), (.node ⟨⟨3, 5⟩, .Left, 56⟩ [])]), (.node ⟨⟨7, 0⟩, .Right, 58⟩ [(.node ⟨⟨7, 0⟩, .Left, 58⟩ [])]), (.node ⟨⟨8, 0⟩, .Left, 55⟩ [])]), (.node ⟨⟨5, 2⟩, .Right, 54⟩ [(.node ⟨⟨5, 2⟩, .Left, 54⟩ [])]), (.node ⟨⟨6, 3⟩, .Right, 55⟩ [(.node ⟨⟨3, 6⟩, .Right, 62⟩ [(.node ⟨⟨2, 6⟩, .Right, 67⟩ [(.node ⟨⟨2, 6⟩, .Left, 67⟩ [])]), (.node ⟨⟨3, 6⟩, .Left, 62⟩ [])]), (.node ⟨⟨5, 9⟩, .Left, 61⟩ [(.node ⟨⟨5, 9⟩, .Right, 61⟩ [])]), (.node ⟨⟨5, 3⟩, .Right, 63⟩ [(.node ⟨⟨5, 3⟩, .Left, 63⟩ [])]), (.node ⟨⟨6, 3⟩, .Left, 55⟩ [])]), (.node ⟨⟨6, 10⟩, .Left, 66⟩ [(.node ⟨⟨6, 10⟩, .Right, 66⟩ [])]), (.node ⟨⟨5, 10⟩, .Right, 59⟩ [])]), (.node ⟨⟨3, 7⟩, .Up, 58⟩ [(.node ⟨⟨3, 6⟩, .Up, 63⟩ [(.node ⟨⟨3, 6⟩, .Down, 63⟩ [])]), (.node ⟨⟨3, 7⟩, .Down, 58⟩ [])]), (.node ⟨⟨8, 6⟩, .Down, 64⟩ [(.node ⟨⟨8, 6⟩, .Up, 64⟩ [])]), (.node ⟨⟨8, 5⟩, .Up, 57⟩ [])]), (.node ⟨⟨8, 4⟩, .Down, 56⟩ [(.node ⟨⟨0, 12⟩, .Right, 57⟩ [(.node ⟨⟨5, 12⟩, .Left, 63⟩ [(.node ⟨⟨5, 12⟩, .Right, 63⟩ [])]), (.node ⟨⟨0, 12⟩, .Left, 57⟩ [])]), (.node ⟨⟨12, 1⟩, .Up, 57⟩ [(.node ⟨⟨12, 2⟩, .Down, 58⟩ [(.node ⟨⟨5, 8⟩, .Down, 62⟩ [(.node ⟨⟨5, 8⟩, .Up, 62⟩ [])]), (.node ⟨⟨12, 3⟩, .Down, 60⟩ [(.node ⟨⟨12, 3⟩, .Up, 60⟩ [])]), (.node ⟨⟨12, 2⟩, .Up, 58⟩ [])]), (.node ⟨⟨5, 11⟩, .Left, 61⟩ [(.node ⟨⟨5, 11⟩, .Right, 61⟩ [])]), (.node ⟨⟨3, 8⟩, .Up, 56⟩ [(.node ⟨⟨5, 9⟩, .Left, 61⟩ [(.node ⟨⟨6, 9⟩, .Left, 68⟩ [(.node ⟨⟨6, 9⟩, .Right, 68⟩ [])]), (.node ⟨⟨5, 9⟩, .Right, 61⟩ [])]), (.node ⟨⟨3, 7⟩, .Up, 64⟩ [(.node ⟨⟨3, 7⟩, .Down, 64⟩ [])]), (.node ⟨⟨3, 8⟩, .Down, 56⟩ [])]), (.node ⟨⟨10, 4⟩, .Down, 58⟩ [(.node ⟨⟨7, 2⟩, .Right, 58⟩ [(.node ⟨⟨6, 2⟩, .Right, 63⟩ [(.node ⟨⟨6, 2⟩, .Left, 63⟩ [])]), (.node ⟨⟨7, 2⟩, .Left, 58⟩ [])]), (.node ⟨⟨4, 4⟩, .Right, 53⟩ [(.node ⟨⟨1, 10⟩, .Up, 57⟩ [(.node ⟨⟨1, 9⟩, .Up, 62⟩ [(.node ⟨⟨1, 9⟩, .Down, 62⟩ [])]), (.node ⟨⟨1, 10⟩, .Down, 57⟩ [])]), (.node ⟨⟨3, 4⟩, .Right, 58⟩ [(.node ⟨⟨3, 4⟩, .Left, 58⟩ [])]), (.node ⟨⟨4, 4⟩, .Left, 53⟩ [])]), (.node ⟨⟨10, 5⟩, .Down, 66⟩ [(.node ⟨⟨10, 5⟩, .Up, 66⟩ [])]), (.node ⟨⟨10, 4⟩, .Up, 58⟩ [])]), (.node ⟨⟨12, 0⟩, .Up, 61⟩ [(.node ⟨⟨12, 0⟩, .Down, 61⟩ [])]), (.node ⟨⟨12, 1⟩, .Down, 57⟩ [])]), (.node ⟨⟨11, 3⟩, .Right, 62⟩ [(.node ⟨⟨5, 9⟩, .Up, 64⟩ [(.node ⟨⟨5, 8⟩, .Up, 73⟩ [(.node ⟨⟨5, 7⟩, .Up, 80⟩ [(.node ⟨⟨5, 7⟩, .Down, 80⟩ [])]), (.node ⟨⟨5, 8⟩, .Down, 73⟩ [])]), (.node ⟨⟨5, 9⟩, .Down, 64⟩ [])]), (.node ⟨⟨10, 3⟩, .Right, 66⟩ [(.node ⟨⟨9, 3⟩, .Right, 70⟩ [(.node ⟨⟨9, 3⟩, .Left, 70⟩ [])]), (.node ⟨⟨10, 3⟩, .Left, 66⟩ [])]), (.node ⟨⟨11, 3⟩, .Left, 62⟩ [])]), (.node ⟨⟨9, 4⟩, .Right, 61⟩ [(.node ⟨⟨9, 4⟩, .Left, 61⟩ [])]), (.node ⟨⟨6, 7⟩, .Left, 63⟩ [(.node ⟨⟨6, 7⟩, .Right, 63⟩ [])]), (.node ⟨⟨5, 4⟩, .Up, 60⟩ [(.node ⟨⟨5, 3⟩, .Up, 68⟩ [(.node ⟨⟨5, 3⟩, .Down, 68⟩ [])]), (.node ⟨⟨5, 4⟩, .Down, 60⟩ [])]), (.node ⟨⟨8, 4⟩, .Up, 56⟩ [])]), (.node ⟨⟨12, 1⟩, .Left, 57⟩ [(.node ⟨⟨9, 2⟩, .Up, 66⟩ [(.node ⟨⟨9, 1⟩, .Up, 71⟩ [(.node ⟨⟨9, 1⟩, .Down, 71⟩ [])]), (.node ⟨⟨9, 2⟩, .Down, 66⟩ [])]), (.node ⟨⟨5, 6⟩, .Right, 63⟩ [(.node ⟨⟨8, 6⟩, .Down, 68⟩ [(.node ⟨⟨8, 7⟩, .Down, 77⟩ [(.node ⟨⟨8, 7⟩, .Up, 77⟩ [])]), (.node ⟨⟨8, 6⟩, .Up, 68⟩ [])]), (.node ⟨⟨5, 6⟩, .Left, 63⟩ [])]), (.node ⟨⟨8, 2⟩, .Up, 64⟩ [(.node ⟨⟨8, 1⟩, .Up, 70⟩ [(.node ⟨⟨8, 1⟩, .Down, 70⟩ [])]), (.node ⟨⟨8, 2⟩, .Down, 64⟩ [])]), (.node ⟨⟨2, 6⟩, .Up, 57⟩ [(.node ⟨⟨2, 6⟩, .Down, 57⟩ [])]), (.node ⟨⟨10, 1⟩, .Right, 56⟩ [(.node ⟨⟨3, 9⟩, .Right, 60⟩ [(.node ⟨⟨3, 9⟩, .Left, 60⟩ [])]), (.node ⟨⟨10, 1⟩, .Left, 56⟩ [])]), (.node ⟨⟨11, 3⟩, .Down, 61⟩ [(.node ⟨⟨4, 8⟩, .Up, 65⟩ [(.node ⟨⟨4, 7⟩, .Up, 73⟩ [(.node ⟨⟨4, 7⟩, .Down, 73⟩ [])]), (.node ⟨⟨4, 8⟩, .Down, 65⟩ [])]), (.node ⟨⟨11, 4⟩, .Down, 66⟩ [(.node ⟨⟨11, 4⟩, .Up, 66⟩ [])]), (.node ⟨⟨11, 3⟩, .Up, 61⟩ [])]), (.node ⟨⟨3, 5⟩, .Up, 53⟩ [(.node ⟨⟨7, 6⟩, .Left, 61⟩ [(.node ⟨⟨7, 6⟩, .Right, 61⟩ [])]), (.node ⟨⟨3, 4⟩, .Up, 58⟩ [(.node ⟨⟨3, 4⟩, .Down, 58⟩ [])]), (.node ⟨⟨3, 5⟩, .Down, 53⟩ [])]), (.node ⟨⟨12, 1⟩, .Right, 57⟩ [])]), (.node ⟨⟨11, 1⟩, .Right, 61⟩ [(.node ⟨⟨10, 1⟩, .Right, 63⟩ [(.node ⟨⟨9, 1⟩, .Right, 68⟩ [(.node ⟨⟨9, 1⟩, .Left, 68⟩ [])]), (.node ⟨⟨10, 1⟩, .Left, 63⟩ [])]), (.node ⟨⟨9, 6⟩, .Down, 72⟩ [(.node ⟨⟨9, 7⟩, .Down, 81⟩ [(.node ⟨⟨9, 7⟩, .Up, 81⟩ [])]), (.node ⟨⟨9, 6⟩, .Up, 72⟩ [])]), (.node ⟨⟨11, 1⟩, .Left, 61⟩ [])]), (.node ⟨⟨6, 7⟩, .Down, 64⟩ [(.node ⟨⟨8, 6⟩, .Left, 69⟩ [(.node ⟨⟨9, 6⟩, .Left, 78⟩ [(.node ⟨⟨9, 6⟩, .Right, 78⟩ [])]), (.node ⟨⟨8, 6⟩, .Right, 69⟩ [])]), (.node ⟨⟨4, 5⟩, .Right, 63⟩ [(.node ⟨⟨3, 5⟩, .Right, 71⟩ [(.node ⟨⟨3, 5⟩, .Left, 71⟩ [])]), (.node ⟨⟨4, 5⟩, .Left, 63⟩ [])]), (.node ⟨⟨6, 8⟩, .Down, 72⟩ [(.node ⟨⟨6, 8⟩, .Up, 72⟩ [])]), (.node ⟨⟨6, 7⟩, .Up, 64⟩ [])]), (.node ⟨⟨9, 4⟩, .Left, 61⟩ [(.node ⟨⟨10, 4⟩, .Left, 67⟩ [(.node ⟨⟨10, 4⟩, .Right, 67⟩ [])]), (.node ⟨⟨9, 4⟩, .Right, 61⟩ [])]), (.node ⟨⟨7, 5⟩, .Left, 56⟩ [(.node ⟨⟨7, 5⟩, .Right, 56⟩ [])]), (.node ⟨⟨7, 5⟩, .Right, 56⟩ [])]), (.node ⟨⟨9, 3⟩, .Down, 56⟩ [(.node ⟨⟨4, 11⟩, .Up, 60⟩ [(.node ⟨⟨11, 2⟩, .Up, 59⟩ [(.node ⟨⟨11, 1⟩, .Up, 64⟩ [(.node ⟨⟨11, 0⟩, .Up, 66⟩ [(.node ⟨⟨11, 0⟩, .Down, 66⟩ [])]), (.node ⟨⟨11, 1⟩, .Down, 64⟩ [])]), (.node ⟨⟨11, 2⟩, .Down, 59⟩ [])]), (.node ⟨⟨8, 4⟩, .Right, 70⟩ [(.node ⟨⟨7, 4⟩, .Right, 78⟩ [(.node ⟨⟨7, 4⟩, .Left, 78⟩ [])]), (.node ⟨⟨8, 4⟩, .Left, 70⟩ [])]), (.node ⟨⟨4, 10⟩, .Up, 65⟩ [(.node ⟨⟨4, 9⟩, .Up, 72⟩ [(.node ⟨⟨4, 9⟩, .Down, 72⟩ [])]), (.node ⟨⟨4, 10⟩, .Down, 65⟩ [])]), (.node ⟨⟨5, 11⟩, .Down, 61⟩ [(.node ⟨⟨5, 12⟩, .Down, 65⟩ [(.node ⟨⟨5, 12⟩, .Up, 65⟩ [])]), (.node ⟨⟨5, 11⟩, .Up, 61⟩ [])]), (.node ⟨⟨4, 11⟩, .Down, 60⟩ [])]), (.node ⟨⟨2, 12⟩, .Right, 58⟩ [(.node ⟨⟨2, 12⟩, .Left, 58⟩ [])]), (.node ⟨⟨9, 3⟩, .Up, 56⟩ [])]), (.node ⟨⟨1, 9⟩, .Right, 55⟩ [(.node ⟨⟨4, 6⟩, .Up, 63⟩ [(.node ⟨⟨4, 5⟩, .Up, 68⟩ [(.node ⟨⟨4, 5⟩, .Down, 68⟩ [])]), (.node ⟨⟨4, 6⟩, .Down, 63⟩ [])]), (.node ⟨⟨4, 10⟩, .Down, 60⟩ [(.node ⟨⟨4, 11⟩, .Down, 63⟩ [(.node ⟨⟨4, 11⟩, .Up, 63⟩ [])]), (.node ⟨⟨4, 10⟩, .Up, 60⟩ [])]), (.node ⟨⟨0, 9⟩, .Right, 56⟩ [(.node ⟨⟨0, 9⟩, .Left, 56⟩ [])]), (.node ⟨⟨1, 9⟩, .Left, 55⟩ [])]), (.node ⟨⟨4, 10⟩, .Down, 58⟩ [(.node ⟨⟨9, 5⟩, .Down, 62⟩ [(.node ⟨⟨9, 5⟩, .Up, 62⟩ [])]), (.node ⟨⟨9, 0⟩, .Up, 54⟩ [(.node ⟨⟨9, 0⟩, .Down, 54⟩ [])]), (.node ⟨⟨4, 10⟩, .Up, 58⟩ [])]), (.node ⟨⟨10, 0⟩, .Left, 54⟩ [])])

/-- Simulation snapshot: visited set after segment 6 of the day-17 a-run. -/
def d17aSeen7 : SeenTree := (.branch (.branch .leaf (0, 0, 0) .leaf) (0, 0, 1) (.branch (.branch .leaf (0, 0, 2) .leaf) (0, 0, 3) (.branch (.branch (.branch .leaf (0, 1, 0) .leaf) (0, 1, 1) (.branch (.branch (.branch (.branch .leaf (0, 1, 2) .leaf) (0, 1, 3) .leaf) (0, 2, 0) .leaf) (0, 2, 1) (.branch (.branch .leaf (0, 2, 2) .leaf) (0, 2, 3) (.branch (.branch .leaf (0, 3, 0) .leaf) (0, 3, 1) (.branch (.branch (.branch (.branch (.branch .leaf (0, 3, 2) .leaf) (0, 3, 3) .leaf) (0, 4, 0) .leaf) (0, 4, 1) (.branch (.branch (.branch (.branch .leaf (0, 4, 2) .leaf) (0, 4, 3) .leaf) (0, 5, 0) .leaf) (0, 5, 1) (.branch (.branch (.branch (.branch .leaf (0, 5, 2) .leaf) (0, 5, 3) .leaf) (0, 6, 0) .leaf) (0, 6, 1) (.branch (.branch (.branch (.branch .leaf (0, 6, 2) .leaf) (0, 6, 3) .leaf) (0, 7, 0) .leaf) (0, 7, 1) (.branch (.branch (.branch (.branch .leaf (0, 7, 2) .leaf) (0, 7, 3) .leaf) (0, 8, 0) .leaf) (0, 8, 1) (.branch (.branch (.branch (.branch .leaf (0, 8, 2) .leaf) (0, 8, 3) .leaf) (0, 9, 0) .leaf) (0, 9, 1) (.branch (.branch (.branch (.branch .leaf (0, 9, 2) .leaf) (0, 9, 3) .leaf) (0, 10, 0) .leaf) (0, 10, 1) (.branch (.branch (.branch (.branch .leaf (0, 10, 2) .leaf) (0, 10, 3) .leaf) (0, 11, 0) .leaf) (0, 11, 1) (.branch (.branch (.branch (.branch .leaf (0, 11, 2) .leaf) (0, 11, 3) .leaf) (0, 12, 0) .leaf) (0, 12, 1) (.branch (.branch .leaf (0, 12, 2) .leaf) (0, 12, 3) .leaf)))))))))) (1, 0, 0) (.branch .leaf (1, 0, 1) .leaf)))))) (1, 0, 2) (.branch .leaf (1, 0, 3) (.branch (.branch .leaf (1, 1, 0) .leaf) (1, 1, 1) (.branch (.branch (.branch (.branch .leaf (1, 1, 2) (.branch .leaf (1, 1, 3) .leaf)) (1, 2, 0) .leaf) (1, 2, 1) .leaf) (1, 2, 2) (.branch .leaf (1, 2, 3) (.branch (.branch (.branch .leaf (1, 3, 0) .leaf) (1, 3, 1) (.branch (.branch .leaf (1, 3, 2) (.branch .leaf (1, 3, 3) (.branch (.branch .leaf (1, 4, 0) .leaf) (1, 4, 1) (.branch .leaf (1, 4, 2) (.branch .leaf (1, 4, 3) (.branch (.branch .leaf (1, 5, 0) .leaf) (1, 5, 1) (.branch .leaf (1, 5, 2) (.branch .leaf (1, 5, 3) (.branch (.branch .leaf (1, 6, 0) .leaf) (1, 6, 1) (.branch .leaf (1, 6, 2) (.branch .leaf (1, 6, 3) (.branch (.branch .leaf (1, 7, 0) .leaf) (1, 7, 1) (.branch (.branch .leaf (1, 7, 2) (.branch .leaf (1, 7, 3) (.branch (.branch .leaf (1, 8, 0) .leaf) (1, 8, 1) .leaf))) (1, 8, 2) (.branch .leaf (1, 8, 3) (.branch (.branch .leaf (1, 9, 0) .leaf) (1, 9, 1) (.branch .leaf (1, 9, 2) (.branch .leaf (1, 9, 3) (.branch (.branch (.branch .leaf (1, 10, 0) .leaf) (1, 10, 1) (.branch .leaf (1, 10, 2) (.branch .leaf (1, 10, 3) (.branch (.branch .leaf (1, 11, 0) .leaf) (1, 11, 1) .leaf)))) (1, 11, 2) (.branch .leaf (1, 11, 3) (.branch (.branch .leaf (1, 12, 0) .leaf) (1, 12, 1) (.branch .leaf (1, 12, 2) (.branch .leaf (1, 12, 3) .leaf)))))))))))))))))))))) (2, 0, 0) (.branch .leaf (2, 0, 1) .leaf))) (2, 0, 2) (.branch .leaf (2, 0, 3) (.branch (.branch (.branch .leaf (2, 1, 0) .leaf) (2, 1, 1) .leaf) (2, 1, 2) (.branch .leaf (2, 1, 3) (.branch (.branch (.branch (.branch .leaf (2, 2, 0) .leaf) (2, 2, 1) .leaf) (2, 2, 2) (.branch .leaf (2, 2, 3) (.branch (.branch (.branch .leaf (2, 3, 0) .leaf) (2, 3, 1) (.branch .leaf (2, 3, 2) (.branch .leaf (2, 3, 3) (.branch (.branch (.branch .leaf (2, 4, 0) .leaf) (2, 4, 1) .leaf) (2, 4, 2) (.branch .leaf (2, 4, 3) (.branch (.branch .leaf (2, 5, 0) .leaf) (2, 5, 1) (.branch .leaf (2, 5, 2) (.branch .leaf (2, 5, 3) (.branch (.branch .leaf (2, 6, 0) .leaf) (2, 6, 1) (.branch .leaf (2, 6, 2) (.branch .leaf (2, 6, 3) (.branch (.branch .leaf (2, 7, 0) .leaf) (2, 7, 1) (.branch .leaf (2, 7, 2) (.branch .leaf (2, 7, 3) (.branch (.branch (.branch .leaf (2, 8, 0) .leaf) (2, 8, 1) .leaf) (2, 8, 2) (.branch .leaf (2, 8, 3) (.branch (.branch (.branch .leaf (2, 9, 0) .leaf) (2, 9, 1) .leaf) (2, 9, 2) (.branch .leaf (2, 9, 3) (.branch (.branch .leaf (2, 10, 0) .leaf) (2, 10, 1) (.branch .leaf (2, 10, 2) (.branch .leaf (2, 10, 3) (.branch (.branch (.branch .leaf (2, 11, 0) .leaf) (2, 11, 1) .leaf) (2, 11, 2) (.branch .leaf (2, 11, 3) (.branch (.branch (.branch .leaf (2, 12, 0) .leaf) (2, 12, 1) .leaf) (2, 12, 2) (.branch .leaf (2, 12, 3) .leaf))))))))))))))))))))))))) (3, 0, 0) (.branch .leaf (3, 0, 1) .leaf)))) (3, 0, 2) (.branch .leaf (3, 0, 3) (.branch (.branch (.branch .leaf (3, 1, 0) .leaf) (3, 1, 1) .leaf) (3, 1, 2) (.branch .leaf (3, 1, 3) (.branch (.branch .leaf (3, 2, 0) .leaf) (3, 2, 1) (.branch .leaf (3, 2, 2) (.branch .leaf (3, 2, 3) (.branch (.branch (.branch (.branch .leaf (3, 3, 0) .leaf) (3, 3, 1) (.branch (.branch .leaf (3, 3, 2) (.branch .leaf (3, 3, 3) (.branch (.branch .leaf (3, 4, 0) .leaf) (3, 4, 1) .leaf))) (3, 4, 2) (.branch .leaf (3, 4, 3) (.branch (.branch (.branch (.branch .leaf (3, 5, 0) .leaf) (3, 5, 1) .leaf) (3, 5, 2) (.branch .leaf (3, 5, 3) (.branch (.branch (.branch .leaf (3, 6, 0) .leaf) (3, 6, 1) .leaf) (3, 6, 2) (.branch .leaf (3, 6, 3) (.branch (.branch .leaf (3, 7, 0) .leaf) (3, 7, 1) (.branch .leaf (3, 7, 2) (.branch .leaf (3, 7, 3) (.branch (.branch (.branch .leaf (3, 8, 0) .leaf) (3, 8, 1) .leaf) (3, 8, 2) (.branch .leaf (3, 8, 3) (.branch (.branch (.branch .leaf (3, 9, 0) .leaf) (3, 9, 1) .leaf) (3, 9, 2) (.branch .leaf (3, 9, 3) (.branch (.branch (.branch .leaf (3, 10, 0) .leaf) (3, 10, 1) .leaf) (3, 10, 2) (.branch .leaf (3, 10, 3) (.branch (.branch (.branch .leaf (3, 11, 0) .leaf) (3, 11, 1) (.branch .leaf (3, 11, 2) (.branch .leaf (3, 11, 3) (.branch (.branch .leaf (3, 12, 0) .leaf) (3, 12, 1) .leaf)))) (3, 12, 2) (.branch .leaf (3, 12, 3) .leaf))))))))))))))) (4, 0, 0) (.branch .leaf (4, 0, 1) .leaf))))) (4, 0, 2) (.branch .leaf (4, 0, 3) (.branch (.branch .leaf (4, 1, 0) .leaf) (4, 1, 1) .leaf))) (4, 1, 2) (.branch .leaf (4, 1, 3) (.branch (.branch (.branch (.branch .leaf (4, 2, 0) .leaf) (4, 2, 1) .leaf) (4, 2, 2) (.branch .leaf (4, 2, 3) (.branch (.branch (.branch .leaf (4, 3, 0) .leaf) (4, 3, 1) (.branch .leaf (4, 3, 2) (.branch .leaf (4, 3, 3) (.branch (.branch (.branch .leaf (4, 4, 0) .leaf) (4, 4, 1) .leaf) (4, 4, 2) (.branch .leaf (4, 4, 3) (.branch (.branch .leaf (4, 5, 0) .leaf) (4, 5, 1) (.branch .leaf (4, 5, 2) (.branch .leaf (4, 5, 3) (.branch (.branch (.branch .leaf (4, 6, 0) .leaf) (4, 6, 1) .leaf) (4, 6, 2) (.branch .leaf (4, 6, 3) (.branch (.branch .leaf (4, 7, 0) .leaf) (4, 7, 1) (.branch .leaf (4, 7, 2) (.branch .leaf (4, 7, 3) (.branch (.branch (.branch .leaf (4, 8, 0) .leaf) (4, 8, 1) .leaf) (4, 8, 2) (.branch .leaf (4, 8, 3) (.branch (.branch (.branch (.branch .leaf (4, 9, 0) .leaf) (4, 9, 1) .leaf) (4, 9, 2) (.branch .leaf (4, 9, 3) (.branch (.branch .leaf (4, 10, 0) .leaf) (4, 10, 1) .leaf))) (4, 10, 2) (.branch .leaf (4, 10, 3) (.branch (.branch (.branch .leaf (4, 11, 0) .leaf) (4, 11, 1) .leaf) (4, 11, 2) (.branch .leaf (4, 11, 3) (.branch (.branch (.branch .leaf (4, 12, 0) .leaf) (4, 12, 1) .leaf) (4, 12, 2) (.branch .leaf (4, 12, 3) .leaf))))))))))))))))))))) (5, 0, 0) (.branch .leaf (5, 0, 1) .leaf)))) (5, 0, 2) (.branch .leaf (5, 0, 3) (.branch (.branch (.branch .leaf (5, 1, 0) .leaf) (5, 1, 1) .leaf) (5, 1, 2) (.branch .leaf (5, 1, 3) (.branch (.branch (.branch .leaf (5, 2, 0) .leaf) (5, 2, 1) .leaf) (5, 2, 2) (.branch .leaf (5, 2, 3) (.branch (.branch (.branch .leaf (5, 3, 0) .leaf) (5, 3, 1) (.branch (.branch .leaf (5, 3, 2) (.branch .leaf (5, 3, 3) (.branch (.branch (.branch .leaf (5, 4, 0) .leaf) (5, 4, 1) .leaf) (5, 4, 2) (.branch .leaf (5, 4, 3) (.branch (.branch (.branch .leaf (5, 5, 0) .leaf) (5, 5, 1) .leaf) (5, 5, 2) (.branch .leaf (5, 5, 3) (.branch (.branch (.branch .leaf (5, 6, 0) .leaf) (5, 6, 1) .leaf) (5, 6, 2) (.branch .leaf (5, 6, 3) (.branch (.branch .leaf (5, 7, 0) .leaf) (5, 7, 1) (.branch .leaf (5, 7, 2) (.branch .leaf (5, 7, 3) (.branch (.branch .leaf (5, 8, 2) (.branch .leaf (5, 8, 3) (.branch .leaf (5, 9, 2) (.branch .leaf (5, 9, 3) .leaf)))) (5, 10, 2) (.branch .leaf (5, 10, 3) (.branch (.branch (.branch .leaf (5, 11, 0) .leaf) (5, 11, 1) .leaf) (5, 11, 2) (.branch .leaf (5, 11, 3) (.branch (.branch (.branch .leaf (5, 12, 0) .leaf) (5, 12, 1) .leaf) (5, 12, 2) (.branch .leaf (5, 12, 3) .leaf))))))))))))))))) (6, 0, 0) (.branch .leaf (6, 0, 1) .leaf))) (6, 0, 2) (.branch .leaf (6, 0, 3) (.branch (.branch (.branch .leaf (6, 1, 0) .leaf) (6, 1, 1) .leaf) (6, 1, 2) (.branch .leaf (6, 1, 3) (.branch (.branch (.branch .leaf (6, 2, 0) .leaf) (6, 2, 1) .leaf) (6, 2, 2) (.branch .leaf (6, 2, 3) (.branch (.branch (.branch .leaf (6, 3, 0) .leaf) (6, 3, 1) (.branch (.branch .leaf (6, 3, 2) (.branch .leaf (6, 3, 3) (.branch (.branch .leaf (6, 4, 0) .leaf) (6, 4, 1) (.branch .leaf (6, 4, 2) (.branch .leaf (6, 4, 3) (.branch (.branch .leaf (6, 5, 0) .leaf) (6, 5, 1) (.branch .leaf (6, 5, 2) (.branch .leaf (6, 5, 3) (.branch (.branch (.branch .leaf (6, 6, 0) .leaf) (6, 6, 1) .leaf) (6, 6, 2) (.branch .leaf (6, 6, 3) .leaf)))))))))) (7, 0, 0) (.branch .leaf (7, 0, 1) .leaf))) (7, 0, 2) (.branch .leaf (7, 0, 3) (.branch (.branch (.branch (.branch .leaf (7, 1, 0) .leaf) (7, 1, 1) .leaf) (7, 1, 2) (.branch .leaf (7, 1, 3) (.branch (.branch .leaf (7, 2, 0) .leaf) (7, 2, 1) .leaf))) (7, 2, 2) (.branch .leaf (7, 2, 3) (.branch (.branch (.branch .leaf (7, 3, 0) .leaf) (7, 3, 1) (.branch .leaf (7, 3, 2) (.branch .leaf (7, 3, 3) (.branch (.branch (.branch .leaf (7, 4, 0) .leaf) (7, 4, 1) (.branch .leaf (7, 4, 2) (.branch .leaf (7, 4, 3) (.branch (.branch .leaf (7, 5, 0) .leaf) (7, 5, 1) (.branch .leaf (7, 5, 2) (.branch .leaf (7, 5, 3) .leaf)))))) (8, 0, 0) (.branch .leaf (8, 0, 1) .leaf))))) (8, 0, 2) (.branch .leaf (8, 0, 3) (.branch (.branch (.branch (.branch .leaf (8, 1, 0) .leaf) (8, 1, 1) .leaf) (8, 1, 2) (.branch .leaf (8, 1, 3) (.branch (.branch .leaf (8, 2, 0) .leaf) (8, 2, 1) .leaf))) (8, 2, 2) (.branch .leaf (8, 2, 3) (.branch (.branch .leaf (8, 3, 0) .leaf) (8, 3, 1) (.branch .leaf (8, 3, 2) (.branch .leaf (8, 3, 3) (.branch (.branch (.branch .leaf (8, 4, 0) .leaf) (8, 4, 1) (.branch (.branch .leaf (8, 4, 2) (.branch .leaf (8, 4, 3) (.branch (.branch .leaf (8, 5, 0) .leaf) (8, 5, 1) (.branch .leaf (8, 5, 2) (.branch .leaf (8, 5, 3) .leaf))))) (9, 0, 0) (.branch .leaf (9, 0, 1) .leaf))) (9, 0, 2) (.branch .leaf (9, 0, 3) (.branch (.branch (.branch (.branch .leaf (9, 1, 0) .leaf) (9, 1, 1) .leaf) (9, 1, 2) (.branch .leaf (9, 1, 3) (.branch (.branch (.branch .leaf (9, 2, 0) .leaf) (9, 2, 1) .leaf) (9, 2, 2) (.branch .leaf (9, 2, 3) (.branch (.branch .leaf (9, 3, 0) .leaf) (9, 3, 1) .leaf))))) (9, 3, 2) (.branch .leaf (9, 3, 3) (.branch (.branch (.branch (.branch .leaf (9, 4, 0) .leaf) (9, 4, 1) (.branch .leaf (9, 4, 2) (.branch .leaf (9, 4, 3) (.branch (.branch .leaf (9, 5, 0) .leaf) (9, 5, 1) .leaf)))) (10, 0, 0) (.branch .leaf (10, 0, 1) .leaf)) (10, 0, 2) (.branch .leaf (10, 0, 3) (.branch (.branch .leaf (10, 1, 0) .leaf) (10, 1, 1) (.branch .leaf (10, 1, 2) (.branch .leaf (10, 1, 3) (.branch (.branch (.branch .leaf (10, 2, 0) .leaf) (10, 2, 1) .leaf) (10, 2, 2) (.branch .leaf (10, 2, 3) (.branch (.branch (.branch .leaf (10, 3, 0) .leaf) (10, 3, 1) .leaf) (10, 3, 2) (.branch .leaf (10, 3, 3) (.branch (.branch (.branch .leaf (10, 4, 0) .leaf) (10, 4, 1) (.branch (.branch .leaf (10, 4, 2) (.branch .leaf (10, 4, 3) .leaf)) (11, 0, 0) (.branch .leaf (11, 0, 1) .leaf))) (11, 0, 2) (.branch .leaf (11, 0, 3) (.branch (.branch (.branch .leaf (11, 1, 0) .leaf) (11, 1, 1) .leaf) (11, 1, 2) (.branch .leaf (11, 1, 3) (.branch (.branch (.branch .leaf (11, 2, 0) .leaf) (11, 2, 1) .leaf) (11, 2, 2) (.branch .leaf (11, 2, 3) (.branch (.branch (.branch (.branch (.branch .leaf (11, 3, 0) .leaf) (11, 3, 1) .leaf) (11, 3, 2) (.branch .leaf (11, 3, 3) (.branch (.branch .leaf (11, 4, 0) .leaf) (11, 4, 1) (.branch .leaf (11, 4, 2) (.branch .leaf (11, 4, 3) (.branch .leaf (12, 0, 0) (.branch .leaf (12, 0, 1) .leaf))))))) (12, 0, 2) (.branch .leaf (12, 0, 3) (.branch (.branch (.branch .leaf (12, 1, 0) .leaf) (12, 1, 1) .leaf) (12, 1, 2) (.branch .leaf (12, 1, 3) (.branch (.branch .leaf (12, 2, 0) .leaf) (12, 2, 1) .leaf))))) (12, 2, 2) (.branch .leaf (12, 2, 3) (.branch (.branch .leaf (12, 3, 0) .leaf) (12, 3, 1) (.branch .leaf (12, 3, 2) (.branch .leaf (12, 3, 3) (.branch (.branch .leaf (12, 4, 0) .leaf) (12, 4, 1) .leaf))))))))))))))))))))))))))))))))))))))))))))))))))))))))))))))))))))

/-- Simulation snapshot: heap after segment 6 of the day-17 a-run. -/
def d17aHeap7 : Heap := (.node ⟨⟨9, 3⟩, .Down, 60⟩ [(.node ⟨⟨3, 9⟩, .Right, 60⟩ [(.node ⟨⟨9, 5⟩, .Down, 62⟩ [(.node ⟨⟨8, 6⟩, .Down, 64⟩ [(.node ⟨⟨3, 6⟩, .Up, 63⟩ [(.node ⟨⟨3, 6⟩, .Down, 63⟩ [])]), (.node ⟨⟨8, 6⟩, .Up, 64⟩ [])]), (.node ⟨⟨6, 10⟩, .Left, 66⟩ [(.node ⟨⟨5, 3⟩, .Right, 63⟩ [(.node ⟨⟨5, 3⟩, .Left, 63⟩ [])]), (.node ⟨⟨2, 10⟩, .Right, 64⟩ [(.node ⟨⟨1, 10⟩, .Right, 70⟩ [(.node ⟨⟨1, 10⟩, .Left, 70⟩ [])]), (.node ⟨⟨2, 10⟩, .Left, 64⟩ [])]), (.node ⟨⟨6, 10⟩, .Right, 66⟩ [])]), (.node ⟨⟨9, 5⟩, .Up, 62⟩ [])]), (.node ⟨⟨8, 4⟩, .Left, 60⟩ [(.node ⟨⟨1, 7⟩, .Up, 57⟩ [(.node ⟨⟨6, 0⟩, .Right, 59⟩ [(.node ⟨⟨6, 0⟩, .Left, 59⟩ [])]), (.node ⟨⟨2, 5⟩, .Right, 60⟩ [(.node ⟨⟨2, 5⟩, .Left, 60⟩ [])]), (.node ⟨⟨3, 6⟩, .Right, 62⟩ [(.node ⟨⟨2, 6⟩, .Right, 67⟩ [(.node ⟨⟨2, 6⟩, .Left, 67⟩ [])]), (.node ⟨⟨3, 6⟩, .Left, 62⟩ [])]), (.node ⟨⟨1, 7⟩, .Down, 57⟩ [])]), (.node ⟨⟨8, 4⟩, .Left, 60⟩ []), (.node ⟨⟨12, 4⟩, .Left, 68⟩ [(.node ⟨⟨12, 4⟩, .Right, 68⟩ [])]), (.node ⟨⟨11, 4⟩, .Right, 67⟩ [(.node ⟨⟨11, 4⟩, .Left, 67⟩ [])]), (.node ⟨⟨12, 5⟩, .Down, 69⟩ [(.node ⟨⟨7, 4⟩, .Right, 68⟩ [(.node ⟨⟨6, 4⟩, .Right, 76⟩ [(.node ⟨⟨6, 4⟩, .Left, 76⟩ [])]), (.node ⟨⟨7, 4⟩, .Left, 68⟩ [])]), (.node ⟨⟨12, 5⟩, .Up, 69⟩ [])]), (.node ⟨⟨8, 4⟩, .Right, 60⟩ [])]), (.node ⟨⟨7, 6⟩, .Left, 62⟩ [(.node ⟨⟨5, 11⟩, .Down, 70⟩ [(.node ⟨⟨5, 12⟩, .Down, 74⟩ [(.node ⟨⟨5, 12⟩, .Up, 74⟩ [])]), (.node ⟨⟨5, 11⟩, .Up, 70⟩ [])]), (.node ⟨⟨5, 10⟩, .Down, 65⟩ [(.node ⟨⟨5, 7⟩, .Up, 77⟩ [(.node ⟨⟨5, 6⟩, .Up, 85⟩ [(.node ⟨⟨5, 6⟩, .Down, 85⟩ [])]), (.node ⟨⟨5, 7⟩, .Down, 77⟩ [])]), (.node ⟨⟨5, 10⟩, .Up, 65⟩ [])]), (.node ⟨⟨2, 8⟩, .Right, 61⟩ [(.node ⟨⟨4, 7⟩, .Up, 67⟩ [(.node ⟨⟨4, 6⟩, .Up, 74⟩ [(.node ⟨⟨4, 6⟩, .Down, 74⟩ [])]), (.node ⟨⟨4, 7⟩, .Down, 67⟩ [])]), (.node ⟨⟨1, 8⟩, .Right, 64⟩ [(.node ⟨⟨1, 8⟩, .Left, 64⟩ [])]), (.node ⟨⟨2, 8⟩, .Left, 61⟩ [])]), (.node ⟨⟨5, 2⟩, .Up, 58⟩ [(.node ⟨⟨9, 4⟩, .Left, 65⟩ [(.node ⟨⟨9, 4⟩, .Right, 65⟩ [])]), (.node ⟨⟨5, 2⟩, .Down, 58⟩ [])]), (.node ⟨⟨7, 6⟩, .Down, 63⟩ [(.node ⟨⟨8, 6⟩, .Down, 66⟩ [(.node ⟨⟨8, 6⟩, .Up, 66⟩ [])]), (.node ⟨⟨4, 3⟩, .Right, 59⟩ [(.node ⟨⟨4, 3⟩, .Left, 59⟩ [])]), (.node ⟨⟨7, 6⟩, .Up, 63⟩ [])]), (.node ⟨⟨8, 7⟩, .Down, 75⟩ [(.node ⟨⟨8, 8⟩, .Down, 83⟩ [(.node ⟨⟨8, 8⟩, .Up, 83⟩ [])]), (.node ⟨⟨8, 7⟩, .Up, 75⟩ [])]), (.node ⟨⟨5, 8⟩, .Down, 66⟩ [(.node ⟨⟨5, 8⟩, .Up, 66⟩ [])]), (.node ⟨⟨10, 0⟩, .Right, 61⟩ [(.node ⟨⟨8, 4⟩, .Up, 68⟩ [(.node ⟨⟨8, 4⟩, .Down, 68⟩ [])]), (.node ⟨⟨9, 0⟩, .Right, 65⟩ [(.node ⟨⟨9, 0⟩, .Left, 65⟩ [])]), (.node ⟨⟨10, 0⟩, .Left, 61⟩ [])]), (.node ⟨⟨12, 4⟩, .Down, 66⟩ [(.node ⟨⟨12, 5⟩, .Down, 73⟩ [(.node ⟨⟨12, 6⟩, .Down, 77⟩ [(.node ⟨⟨12, 6⟩, .Up, 77⟩ [])]), (.node ⟨⟨12, 5⟩, .Up, 73⟩ [])]), (.node ⟨⟨11, 6⟩, .Down, 72⟩ [(.node ⟨⟨11, 7⟩, .Down, 80⟩ [(.node ⟨⟨11, 7⟩, .Up, 80⟩ [])]), (.node ⟨⟨11, 6⟩, .Up, 72⟩ [])]), (.node ⟨⟨12, 4⟩, .Up, 66⟩ [])]), (.node ⟨⟨5, 7⟩, .Up, 65⟩ [(.node ⟨⟨5, 7⟩, .Down, 65⟩ [])]), (.node ⟨⟨5, 9⟩, .Left, 63⟩ [(.node ⟨⟨6, 9⟩, .Left, 70⟩ [(.node ⟨⟨7, 9⟩, .Left, 79⟩ [(.node ⟨⟨7, 9⟩, .Right, 79⟩ [])]), (.node ⟨⟨6, 9⟩, .Right, 70⟩ [])]), (.node ⟨⟨5, 9⟩, .Right, 63⟩ [])]), (.node ⟨⟨7, 6⟩, .Right, 62⟩ [])]), (.node ⟨⟨11, 0⟩, .Right, 60⟩ [(.node ⟨⟨6, 4⟩, .Right, 66⟩ [(.node ⟨⟨4, 6⟩, .Right, 70⟩ [(.node ⟨⟨3, 6⟩, .Right, 75⟩ [(.node ⟨⟨3, 6⟩, .Left, 75⟩ [])]), (.node ⟨⟨4, 6⟩, .Left, 70⟩ [])]), (.node ⟨⟨5, 4⟩, .Right, 71⟩ [(.node ⟨⟨5, 4⟩, .Left, 71⟩ [])]), (.node ⟨⟨6, 4⟩, .Left, 66⟩ [])]), (.node ⟨⟨11, 0⟩, .Left, 60⟩ [])]), (.node ⟨⟨7, 6⟩, .Left, 61⟩ [(.node ⟨⟨11, 4⟩, .Down, 66⟩ [(.node ⟨⟨4, 8⟩, .Up, 65⟩ [(.node ⟨⟨4, 7⟩, .Up, 73⟩ [(.node ⟨⟨4, 7⟩, .Down, 73⟩ [])]), (.node ⟨⟨4, 8⟩, .Down, 65⟩ [])]), (.node ⟨⟨11, 4⟩, .Up, 66⟩ [])]), (.node ⟨⟨5, 6⟩, .Right, 63⟩ [(.node ⟨⟨8, 2⟩, .Up, 64⟩ [(.node ⟨⟨8, 1⟩, .Up, 70⟩ [(.node ⟨⟨8, 1⟩, .Down, 70⟩ [])]), (.node ⟨⟨8, 2⟩, .Down, 64⟩ [])]), (.node ⟨⟨8, 6⟩, .Down, 68⟩ [(.node ⟨⟨8, 7⟩, .Down, 77⟩ [(.node ⟨⟨8, 7⟩, .Up, 77⟩ [])]), (.node ⟨⟨8, 6⟩, .Up, 68⟩ [])]), (.node ⟨⟨5, 6⟩, .Left, 63⟩ [])]), (.node ⟨⟨9, 4⟩, .Left, 61⟩ [(.node ⟨⟨7, 7⟩, .Down, 72⟩ [(.node ⟨⟨7, 8⟩, .Down, 79⟩ [(.node ⟨⟨7, 8⟩, .Up, 79⟩ [])]), (.node ⟨⟨7, 7⟩, .Up, 72⟩ [])]), (.node ⟨⟨11, 1⟩, .Right, 61⟩ [(.node ⟨⟨9, 2⟩, .Up, 66⟩ [(.node ⟨⟨9, 1⟩, .Up, 71⟩ [(.node ⟨⟨9, 1⟩, .Down, 71⟩ [])]), (.node ⟨⟨9, 2⟩, .Down, 66⟩ [])]), (.node ⟨⟨10, 1⟩, .Right, 63⟩ [(.node ⟨⟨9, 1⟩, .Right, 68⟩ [(.node ⟨⟨9, 1⟩, .Left, 68⟩ [])]), (.node ⟨⟨10, 1⟩, .Left, 63⟩ [])]), (.node ⟨⟨9, 6⟩, .Down, 72⟩ [(.node ⟨⟨9, 7⟩, .Down, 81⟩ [(.node ⟨⟨9, 7⟩, .Up, 81⟩ [])]), (.node ⟨⟨9, 6⟩, .Up, 72⟩ [])]), (.node ⟨⟨11, 1⟩, .Left, 61⟩ [])]), (.node ⟨⟨7, 6⟩, .Down, 63⟩ [(.node ⟨⟨7, 6⟩, .Up, 63⟩ [])]), (.node ⟨⟨6, 7⟩, .Down, 64⟩ [(.node ⟨⟨8, 6⟩, .Left, 69⟩ [(.node ⟨⟨9, 6⟩, .Left, 78⟩ [(.node ⟨⟨9, 6⟩, .Right, 78⟩ [])]), (.node ⟨⟨8, 6⟩, .Right, 69⟩ [])]), (.node ⟨⟨4, 5⟩, .Right, 63⟩ [(.node ⟨⟨3, 5⟩, .Right, 71⟩ [(.node ⟨⟨3, 5⟩, .Left, 71⟩ [])]), (.node ⟨⟨4, 5⟩, .Left, 63⟩ [])]), (.node ⟨⟨6, 8⟩, .Down, 72⟩ [(.node ⟨⟨6, 8⟩, .Up, 72⟩ [])]), (.node ⟨⟨6, 7⟩, .Up, 64⟩ [])]), (.node ⟨⟨10, 4⟩, .Left, 67⟩ [(.node ⟨⟨10, 4⟩, .Right, 67⟩ [])]), (.node ⟨⟨9, 4⟩, .Right, 61⟩ [])]), (.node ⟨⟨3, 4⟩, .Up, 58⟩ [(.node ⟨⟨3, 4⟩, .Down, 58⟩ [])]), (.node ⟨⟨7, 6⟩, .Right, 61⟩ [])]), (.node ⟨⟨4, 11⟩, .Right, 64⟩ [(.node ⟨⟨6, 11⟩, .Left, 67⟩ [(.node ⟨⟨6, 11⟩, .Right, 67⟩ [])]), (.node ⟨⟨4, 11⟩, .Left, 64⟩ [])]), (.node ⟨⟨9, 4⟩, .Right, 61⟩ [(.node ⟨⟨3, 10⟩, .Right, 62⟩ [(.node ⟨⟨5, 10⟩, .Up, 64⟩ [(.node ⟨⟨5, 10⟩, .Down, 64⟩ [])]), (.node ⟨⟨6, 10⟩, .Left, 69⟩ [(.node ⟨⟨7, 10⟩, .Left, 75⟩ [(.node ⟨⟨7, 10⟩, .Right, 75⟩ [])]), (.node ⟨⟨6, 10⟩, .Right, 69⟩ [])]), (.node ⟨⟨3, 10⟩, .Left, 62⟩ [])]), (.node ⟨⟨6, 7⟩, .Left, 63⟩ [(.node ⟨⟨5, 4⟩, .Up, 60⟩ [(.node ⟨⟨5, 3⟩, .Up, 68⟩ [(.node ⟨⟨5, 3⟩, .Down, 68⟩ [])]), (.node ⟨⟨5, 4⟩, .Down, 60⟩ [])]), (.node ⟨⟨6, 7⟩, .Right, 63⟩ [])]), (.node ⟨⟨11, 3⟩, .Right, 62⟩ [(.node ⟨⟨5, 9⟩, .Up, 64⟩ [(.node ⟨⟨5, 8⟩, .Up, 73⟩ [(.node ⟨⟨5, 7⟩, .Up, 80⟩ [(.node ⟨⟨5, 7⟩, .Down, 80⟩ [])]), (.node ⟨⟨5, 8⟩, .Down, 73⟩ [])]), (.node ⟨⟨5, 9⟩, .Down, 64⟩ [])]), (.node ⟨⟨10, 3⟩, .Right, 66⟩ [(.node ⟨⟨9, 3⟩, .Right, 70⟩ [(.node ⟨⟨9, 3⟩, .Left, 70⟩ [])]), (.node ⟨⟨10, 3⟩, .Left, 66⟩ [])]), (.node ⟨⟨11, 3⟩, .Left, 62⟩ [])]), (.node ⟨⟨9, 4⟩, .Left, 61⟩ [])]), (.node ⟨⟨2, 6⟩, .Up, 57⟩ [(.node ⟨⟨2, 6⟩, .Down, 57⟩ [])]), (.node ⟨⟨3, 9⟩, .Left, 60⟩ [])]), (.node ⟨⟨5, 8⟩, .Left, 61⟩ [(.node ⟨⟨10, 4⟩, .Left, 62⟩ [(.node ⟨⟨5, 8⟩, .Up, 70⟩ [(.node ⟨⟨5, 8⟩, .Down, 70⟩ [])]), (.node ⟨⟨10, 5⟩, .Down, 63⟩ [(.node ⟨⟨3, 9⟩, .Up, 65⟩ [(.node ⟨⟨3, 9⟩, .Down, 65⟩ [])]), (.node ⟨⟨10, 6⟩, .Down, 69⟩ [(.node ⟨⟨10, 6⟩, .Up, 69⟩ [])]), (.node ⟨⟨10, 5⟩, .Up, 63⟩ [])]), (.node ⟨⟨4, 5⟩, .Up, 59⟩ [(.node ⟨⟨4, 10⟩, .Down, 65⟩ [(.node ⟨⟨4, 10⟩, .Up, 65⟩ [])]), (.node ⟨⟨4, 4⟩, .Up, 65⟩ [(.node ⟨⟨4, 4⟩, .Down, 65⟩ [])]), (.node ⟨⟨4, 5⟩, .Down, 59⟩ [])]), (.node ⟨⟨11, 4⟩, .Left, 67⟩ [(.node ⟨⟨11, 4⟩, .Right, 67⟩ [])]), (.node ⟨⟨10, 4⟩, .Right, 62⟩ [])]), (.node ⟨⟨6, 7⟩, .Down, 65⟩ [(.node ⟨⟨7, 4⟩, .Up, 64⟩ [(.node ⟨⟨7, 3⟩, .Up, 71⟩ [(.node ⟨⟨7, 2⟩, .Up, 74⟩ [(.node ⟨⟨7, 2⟩, .Down, 74⟩ [])]), (.node ⟨⟨7, 3⟩, .Down, 71⟩ [])]), (.node ⟨⟨7, 4⟩, .Down, 64⟩ [])]), (.node ⟨⟨6, 7⟩, .Up, 65⟩ [])]), (.node ⟨⟨5, 12⟩, .Left, 65⟩ [(.node ⟨⟨8, 0⟩, .Up, 57⟩ [(.node ⟨⟨8, 2⟩, .Right, 59⟩ [(.node ⟨⟨7, 2⟩, .Right, 62⟩ [(.node ⟨⟨7, 2⟩, .Left, 62⟩ [])]), (.node ⟨⟨8, 2⟩, .Left, 59⟩ [])]), (.node ⟨⟨6, 11⟩, .Left, 66⟩ [(.node ⟨⟨7, 2⟩, .Up, 60⟩ [(.node ⟨⟨7, 1⟩, .Up, 66⟩ [(.node ⟨⟨7, 1⟩, .Down, 66⟩ [])]), (.node ⟨⟨7, 2⟩, .Down, 60⟩ [])]), (.node ⟨⟨6, 11⟩, .Right, 66⟩ [])]), (.node ⟨⟨8, 0⟩, .Down, 57⟩ [])]), (.node ⟨⟨5, 9⟩, .Down, 66⟩ [(.node ⟨⟨5, 6⟩, .Up, 73⟩ [(.node ⟨⟨5, 5⟩, .Up, 82⟩ [(.node ⟨⟨5, 5⟩, .Down, 82⟩ [])]), (.node ⟨⟨5, 6⟩, .Down, 73⟩ [])]), (.node ⟨⟨5, 9⟩, .Up, 66⟩ [])]), (.node ⟨⟨12, 4⟩, .Left, 66⟩ [(.node ⟨⟨12, 4⟩, .Right, 66⟩ [])]), (.node ⟨⟨5, 12⟩, .Right, 65⟩ [])]), (.node ⟨⟨7, 0⟩, .Right, 58⟩ [(.node ⟨⟨7, 0⟩, .Left, 58⟩ [])]), (.node ⟨⟨6, 1⟩, .Up, 59⟩ [(.node ⟨⟨6, 1⟩, .Down, 59⟩ [])]), (.node ⟨⟨6, 8⟩, .Left, 69⟩ [(.node ⟨⟨7, 8⟩, .Left, 76⟩ [(.node ⟨⟨7, 8⟩, .Right, 76⟩ [])]), (.node ⟨⟨6, 8⟩, .Right, 69⟩ [])]), (.node ⟨⟨5, 8⟩, .Right, 61⟩ [])]), (.node ⟨⟨4, 11⟩, .Down, 63⟩ [(.node ⟨⟨3, 12⟩, .Right, 63⟩ [(.node ⟨⟨9, 0⟩, .Right, 58⟩ [(.node ⟨⟨6, 7⟩, .Left, 62⟩ [(.node ⟨⟨2, 9⟩, .Right, 64⟩ [(.node ⟨⟨1, 9⟩, .Right, 69⟩ [(.node ⟨⟨1, 9⟩, .Left, 69⟩ [])]), (.node ⟨⟨2, 9⟩, .Left, 64⟩ [])]), (.node ⟨⟨6, 7⟩, .Left, 62⟩ [(.node ⟨⟨7, 7⟩, .Left, 71⟩ [(.node ⟨⟨7, 7⟩, .Right, 71⟩ [])]), (.node ⟨⟨6, 7⟩, .Right, 62⟩ [])]), (.node ⟨⟨9, 6⟩, .Down, 67⟩ [(.node ⟨⟨9, 6⟩, .Up, 67⟩ [])]), (.node ⟨⟨9, 5⟩, .Left, 63⟩ [(.node ⟨⟨9, 5⟩, .Down, 63⟩ [(.node ⟨⟨10, 5⟩, .Left, 71⟩ [(.node ⟨⟨11, 5⟩, .Left, 75⟩ [(.node ⟨⟨11, 5⟩, .Right, 75⟩ [])]), (.node ⟨⟨10, 5⟩, .Right, 71⟩ [])]), (.node ⟨⟨9, 5⟩, .Up, 63⟩ [])]), (.node ⟨⟨9, 5⟩, .Right, 63⟩ [])]), (.node ⟨⟨3, 7⟩, .Right, 69⟩ [(.node ⟨⟨2, 7⟩, .Right, 75⟩ [(.node ⟨⟨2, 7⟩, .Left, 75⟩ [])]), (.node ⟨⟨3, 7⟩, .Left, 69⟩ [])]), (.node ⟨⟨6, 7⟩, .Right, 62⟩ [])]), (.node ⟨⟨8, 5⟩, .Left, 62⟩ [(.node ⟨⟨6, 3⟩, .Up, 64⟩ [(.node ⟨⟨6, 2⟩, .Up, 69⟩ [(.node ⟨⟨6, 2⟩, .Down, 69⟩ [])]), (.node ⟨⟨6, 3⟩, .Down, 64⟩ [])]), (.node ⟨⟨9, 5⟩, .Left, 69⟩ [(.node ⟨⟨9, 5⟩, .Right, 69⟩ [])]), (.node ⟨⟨8, 5⟩, .Right, 62⟩ [])]), (.node ⟨⟨11, 3⟩, .Down, 64⟩ [(.node ⟨⟨11, 3⟩, .Up, 64⟩ [])]), (.node ⟨⟨8, 0⟩, .Right, 62⟩ [(.node ⟨⟨8, 0⟩, .Left, 62⟩ [])]), (.node ⟨⟨9, 0⟩, .Left, 58⟩ [])]), (.node ⟨⟨7, 3⟩, .Right, 60⟩ [(.node ⟨⟨6, 3⟩, .Right, 67⟩ [(.node ⟨⟨6, 3⟩, .Left, 67⟩ [])]), (.node ⟨⟨7, 3⟩, .Left, 60⟩ [])]), (.node ⟨⟨10, 5⟩, .Down, 66⟩ [(.node ⟨⟨11, 5⟩, .Left, 70⟩ [(.node ⟨⟨12, 5⟩, .Left, 77⟩ [(.node ⟨⟨12, 5⟩, .Right, 77⟩ [])]), (.node ⟨⟨11, 5⟩, .Right, 70⟩ [])]), (.node ⟨⟨10, 5⟩, .Up, 66⟩ [])]), (.node ⟨⟨12, 0⟩, .Up, 61⟩ [(.node ⟨⟨12, 0⟩, .Down, 61⟩ [])]), (.node ⟨⟨5, 8⟩, .Down, 62⟩ [(.node ⟨⟨10, 5⟩, .Left, 66⟩ [(.node ⟨⟨10, 5⟩, .Right, 66⟩ [])]), (.node ⟨⟨5, 8⟩, .Up, 62⟩ [])]), (.node ⟨⟨7, 2⟩, .Right, 58⟩ [(.node ⟨⟨1, 9⟩, .Up, 62⟩ [(.node ⟨⟨1, 9⟩, .Down, 62⟩ [])]), (.node ⟨⟨3, 4⟩, .Right, 58⟩ [(.node ⟨⟨3, 4⟩, .Left, 58⟩ [])]), (.node ⟨⟨6, 2⟩, .Right, 63⟩ [(.node ⟨⟨6, 2⟩, .Left, 63⟩ [])]), (.node ⟨⟨7, 2⟩, .Left, 58⟩ [])]), (.node ⟨⟨3, 11⟩, .Right, 69⟩ [(.node ⟨⟨2, 11⟩, .Right, 74⟩ [(.node ⟨⟨2, 11⟩, .Left, 74⟩ [])]), (.node ⟨⟨3, 11⟩, .Left, 69⟩ [])]), (.node ⟨⟨3, 12⟩, .Left, 63⟩ [])]), (.node ⟨⟨8, 3⟩, .Right, 60⟩ [(.node ⟨⟨5, 8⟩, .Down, 62⟩ [(.node ⟨⟨6, 11⟩, .Left, 66⟩ [(.node ⟨⟨7, 11⟩, .Left, 71⟩ [(.node ⟨⟨7, 11⟩, .Right, 71⟩ [])]), (.node ⟨⟨6, 11⟩, .Right, 66⟩ [])]), (.node ⟨⟨2, 7⟩, .Right, 60⟩ [(.node ⟨⟨1, 7⟩, .Right, 65⟩ [(.node ⟨⟨1, 7⟩, .Left, 65⟩ [])]), (.node ⟨⟨2, 7⟩, .Left, 60⟩ [])]), (.node ⟨⟨5, 9⟩, .Down, 70⟩ [(.node ⟨⟨5, 9⟩, .Up, 70⟩ [])]), (.node ⟨⟨5, 8⟩, .Up, 62⟩ [])]), (.node ⟨⟨2, 12⟩, .Right, 67⟩ [(.node ⟨⟨7, 11⟩, .Left, 72⟩ [(.node ⟨⟨8, 11⟩, .Left, 80⟩ [(.node ⟨⟨8, 11⟩, .Right, 80⟩ [])]), (.node ⟨⟨7, 11⟩, .Right, 72⟩ [])]), (.node ⟨⟨1, 12⟩, .Right, 70⟩ [(.node ⟨⟨1, 12⟩, .Left, 70⟩ [])]), (.node ⟨⟨2, 12⟩, .Left, 67⟩ [])]), (.node ⟨⟨2, 11⟩, .Right, 65⟩ [(.node ⟨⟨1, 11⟩, .Right, 67⟩ [(.node ⟨⟨1, 11⟩, .Left, 67⟩ [])]), (.node ⟨⟨2, 11⟩, .Left, 65⟩ [])]), (.node ⟨⟨7, 3⟩, .Right, 67⟩ [(.node ⟨⟨7, 3⟩, .Left, 67⟩ [])]), (.node ⟨⟨8, 3⟩, .Left, 60⟩ [])]), (.node ⟨⟨5, 12⟩, .Down, 65⟩ [(.node ⟨⟨9, 0⟩, .Up, 60⟩ [(.node ⟨⟨9, 0⟩, .Down, 60⟩ [])]), (.node ⟨⟨4, 10⟩, .Up, 65⟩ [(.node ⟨⟨11, 1⟩, .Up, 64⟩ [(.node ⟨⟨11, 0⟩, .Up, 66⟩ [(.node ⟨⟨11, 0⟩, .Down, 66⟩ [])]), (.node ⟨⟨11, 1⟩, .Down, 64⟩ [])]), (.node ⟨⟨8, 4⟩, .Right, 70⟩ [(.node ⟨⟨7, 4⟩, .Right, 78⟩ [(.node ⟨⟨7, 4⟩, .Left, 78⟩ [])]), (.node ⟨⟨8, 4⟩, .Left, 70⟩ [])]), (.node ⟨⟨4, 9⟩, .Up, 72⟩ [(.node ⟨⟨4, 9⟩, .Down, 72⟩ [])]), (.node ⟨⟨4, 10⟩, .Down, 65⟩ [])]), (.node ⟨⟨6, 12⟩, .Left, 71⟩ [(.node ⟨⟨7, 12⟩, .Left, 74⟩ [(.node ⟨⟨7, 12⟩, .Right, 74⟩ [])]), (.node ⟨⟨6, 12⟩, .Right, 71⟩ [])]), (.node ⟨⟨5, 12⟩, .Up, 65⟩ [])]), (.node ⟨⟨6, 9⟩, .Left, 68⟩ [(.node ⟨⟨3, 7⟩, .Up, 64⟩ [(.node ⟨⟨3, 7⟩, .Down, 64⟩ [])]), (.node ⟨⟨6, 9⟩, .Right, 68⟩ [])]), (.node ⟨⟨4, 6⟩, .Up, 63⟩ [(.node ⟨⟨4, 5⟩, .Up, 68⟩ [(.node ⟨⟨4, 5⟩, .Down, 68⟩ [])]), (.node ⟨⟨4, 6⟩, .Down, 63⟩ [])]), (.node ⟨⟨11, 5⟩, .Down, 64⟩ [(.node ⟨⟨12, 1⟩, .Up, 65⟩ [(.node ⟨⟨9, 4⟩, .Right, 72⟩ [(.node ⟨⟨8, 4⟩, .Right, 81⟩ [(.node ⟨⟨8, 4⟩, .Left, 81⟩ [])]), (.node ⟨⟨9, 4⟩, .Left, 72⟩ [])]), (.node ⟨⟨10, 4⟩, .Right, 66⟩ [(.node ⟨⟨10, 4⟩, .Left, 66⟩ [])]), (.node ⟨⟨11, 2⟩, .Up, 70⟩ [(.node ⟨⟨11, 1⟩, .Up, 75⟩ [(.node ⟨⟨11, 1⟩, .Down, 75⟩ [])]), (.node ⟨⟨11, 2⟩, .Down, 70⟩ [])]), (.node ⟨⟨11, 3⟩, .Up, 66⟩ [(.node ⟨⟨11, 3⟩, .Down, 66⟩ [])]), (.node ⟨⟨12, 0⟩, .Up, 69⟩ [(.node ⟨⟨12, 0⟩, .Down, 69⟩ [])]), (.node ⟨⟨12, 1⟩, .Down, 65⟩ [])]), (.node ⟨⟨11, 5⟩, .Up, 64⟩ [])]), (.node ⟨⟨4, 11⟩, .Up, 63⟩ [])]), (.node ⟨⟨10, 3⟩, .Up, 61⟩ [(.node ⟨⟨12, 4⟩, .Down, 64⟩ [(.node ⟨⟨7, 1⟩, .Right, 63⟩ [(.node ⟨⟨7, 1⟩, .Left, 63⟩ [])]), (.node ⟨⟨6, 5⟩, .Right, 60⟩ [(.node ⟨⟨2, 9⟩, .Up, 60⟩ [(.node ⟨⟨3, 5⟩, .Up, 62⟩ [(.node ⟨⟨3, 5⟩, .Down, 62⟩ [])]), (.node ⟨⟨4, 7⟩, .Right, 61⟩ [(.node ⟨⟨5, 6⟩, .Up, 61⟩ [(.node ⟨⟨7, 7⟩, .Left, 71⟩ [(.node ⟨⟨8, 7⟩, .Left, 80⟩ [(.node ⟨⟨8, 7⟩, .Right, 80⟩ [])]), (.node ⟨⟨7, 7⟩, .Right, 71⟩ [])]), (.node ⟨⟨5, 6⟩, .Down, 61⟩ [])]), (.node ⟨⟨9, 5⟩, .Left, 66⟩ [(.node ⟨⟨10, 5⟩, .Left, 74⟩ [(.node ⟨⟨10, 5⟩, .Right, 74⟩ [])]), (.node ⟨⟨9, 5⟩, .Right, 66⟩ [])]), (.node ⟨⟨4, 7⟩, .Left, 61⟩ [])]), (.node ⟨⟨2, 9⟩, .Down, 60⟩ [])]), (.node ⟨⟨9, 2⟩, .Right, 63⟩ [(.node ⟨⟨8, 2⟩, .Right, 68⟩ [(.node ⟨⟨8, 2⟩, .Left, 68⟩ [])]), (.node ⟨⟨9, 2⟩, .Left, 63⟩ [])]), (.node ⟨⟨5, 5⟩, .Right, 69⟩ [(.node ⟨⟨4, 5⟩, .Right, 74⟩ [(.node ⟨⟨4, 5⟩, .Left, 74⟩ [])]), (.node ⟨⟨5, 5⟩, .Left, 69⟩ [])]), (.node ⟨⟨5, 9⟩, .Down, 70⟩ [(.node ⟨⟨5, 10⟩, .Down, 74⟩ [(.node ⟨⟨5, 10⟩, .Up, 74⟩ [])]), (.node ⟨⟨5, 9⟩, .Up, 70⟩ [])]), (.node ⟨⟨6, 5⟩, .Left, 60⟩ [])]), (.node ⟨⟨10, 3⟩, .Right, 62⟩ [(.node ⟨⟨10, 3⟩, .Left, 62⟩ [])]), (.node ⟨⟨12, 4⟩, .Up, 64⟩ [])]), (.node ⟨⟨4, 12⟩, .Right, 70⟩ [(.node ⟨⟨7, 12⟩, .Left, 73⟩ [(.node ⟨⟨8, 12⟩, .Left, 80⟩ [(.node ⟨⟨8, 12⟩, .Right, 80⟩ [])]), (.node ⟨⟨7, 12⟩, .Right, 73⟩ [])]), (.node ⟨⟨4, 12⟩, .Left, 70⟩ [])]), (.node ⟨⟨3, 12⟩, .Right, 72⟩ [(.node ⟨⟨2, 12⟩, .Right, 76⟩ [(.node ⟨⟨2, 12⟩, .Left, 76⟩ [])]), (.node ⟨⟨3, 12⟩, .Left, 72⟩ [])]), (.node ⟨⟨8, 5⟩, .Right, 64⟩ [(.node ⟨⟨9, 3⟩, .Right, 66⟩ [(.node ⟨⟨8, 3⟩, .Right, 70⟩ [(.node ⟨⟨8, 3⟩, .Left, 70⟩ [])]), (.node ⟨⟨9, 3⟩, .Left, 66⟩ [])]), (.node ⟨⟨7, 5⟩, .Right, 71⟩ [(.node ⟨⟨6, 5⟩, .Right, 78⟩ [(.node ⟨⟨6, 5⟩, .Left, 78⟩ [])]), (.node ⟨⟨7, 5⟩, .Left, 71⟩ [])]), (.node ⟨⟨8, 5⟩, .Left, 64⟩ [])]), (.node ⟨⟨12, 2⟩, .Up, 62⟩ [(.node ⟨⟨3, 9⟩, .Up, 61⟩ [(.node ⟨⟨6, 8⟩, .Left, 66⟩ [(.node ⟨⟨5, 10⟩, .Down, 70⟩ [(.node ⟨⟨5, 11⟩, .Down, 75⟩ [(.node ⟨⟨5, 11⟩, .Up, 75⟩ [])]), (.node ⟨⟨5, 10⟩, .Up, 70⟩ [])]), (.node ⟨⟨6, 8⟩, .Right, 66⟩ [])]), (.node ⟨⟨5, 9⟩, .Up, 72⟩ [(.node ⟨⟨5, 8⟩, .Up, 81⟩ [(.node ⟨⟨5, 8⟩, .Down, 81⟩ [])]), (.node ⟨⟨5, 9⟩, .Down, 72⟩ [])]), (.node ⟨⟨3, 8⟩, .Up, 65⟩ [(.node ⟨⟨3, 8⟩, .Down, 65⟩ [])]), (.node ⟨⟨3, 9⟩, .Down, 61⟩ [])]), (.node ⟨⟨11, 5⟩, .Down, 64⟩ [(.node ⟨⟨12, 4⟩, .Left, 66⟩ [(.node ⟨⟨12, 4⟩, .Right, 66⟩ [])]), (.node ⟨⟨11, 6⟩, .Down, 72⟩ [(.node ⟨⟨11, 6⟩, .Up, 72⟩ [])]), (.node ⟨⟨11, 5⟩, .Up, 64⟩ [])]), (.node ⟨⟨12, 2⟩, .Down, 62⟩ [])]), (.node ⟨⟨2, 7⟩, .Up, 60⟩ [(.node ⟨⟨2, 7⟩, .Down, 60⟩ [])]), (.node ⟨⟨10, 5⟩, .Down, 65⟩ [(.node ⟨⟨10, 6⟩, .Down, 71⟩ [(.node ⟨⟨10, 7⟩, .Down, 79⟩ [(.node ⟨⟨10, 7⟩, .Up, 79⟩ [])]), (.node ⟨⟨10, 6⟩, .Up, 71⟩ [])]), (.node ⟨⟨10, 5⟩, .Up, 65⟩ [])]), (.node ⟨⟨7, 5⟩, .Right, 63⟩ [(.node ⟨⟨6, 5⟩, .Right, 70⟩ [(.node ⟨⟨5, 5⟩, .Right, 79⟩ [(.node ⟨⟨5, 5⟩, .Left, 79⟩ [])]), (.node ⟨⟨6, 5⟩, .Left, 70⟩ [])]), (.node ⟨⟨7, 5⟩, .Left, 63⟩ [])]), (.node ⟨⟨10, 2⟩, .Up, 63⟩ [(.node ⟨⟨10, 1⟩, .Up, 65⟩ [(.node ⟨⟨10, 1⟩, .Down, 65⟩ [])]), (.node ⟨⟨10, 2⟩, .Down, 63⟩ [])]), (.node ⟨⟨10, 3⟩, .Down, 61⟩ [])]), (.node ⟨⟨1, 12⟩, .Right, 61⟩ [(.node ⟨⟨6, 5⟩, .Up, 61⟩ [(.node ⟨⟨6, 5⟩, .Down, 61⟩ [])]), (.node ⟨⟨8, 5⟩, .Down, 61⟩ [(.node ⟨⟨10, 2⟩, .Right, 62⟩ [(.node ⟨⟨9, 2⟩, .Right, 68⟩ [(.node ⟨⟨9, 2⟩, .Left, 68⟩ [])]), (.node ⟨⟨10, 2⟩, .Left, 62⟩ [])]), (.node ⟨⟨0, 10⟩, .Right, 61⟩ [(.node ⟨⟨0, 10⟩, .Left, 61⟩ [])]), (.node ⟨⟨7, 1⟩, .Right, 58⟩ [(.node ⟨⟨5, 11⟩, .Up, 68⟩ [(.node ⟨⟨5, 10⟩, .Up, 72⟩ [(.node ⟨⟨5, 9⟩, .Up, 80⟩ [(.node ⟨⟨5, 9⟩, .Down, 80⟩ [])]), (.node ⟨⟨5, 10⟩, .Down, 72⟩ [])]), (.node ⟨⟨10, 4⟩, .Right, 73⟩ [(.node ⟨⟨9, 4⟩, .Right, 79⟩ [(.node ⟨⟨9, 4⟩, .Left, 79⟩ [])]), (.node ⟨⟨10, 4⟩, .Left, 73⟩ [])]), (.node ⟨⟨5, 11⟩, .Down, 68⟩ [])]), (.node ⟨⟨4, 9⟩, .Up, 67⟩ [(.node ⟨⟨4, 8⟩, .Up, 73⟩ [(.node ⟨⟨4, 8⟩, .Down, 73⟩ [])]), (.node ⟨⟨4, 9⟩, .Down, 67⟩ [])]), (.node ⟨⟨7, 6⟩, .Left, 63⟩ [(.node ⟨⟨7, 6⟩, .Down, 64⟩ [(.node ⟨⟨7, 7⟩, .Down, 73⟩ [(.node ⟨⟨7, 7⟩, .Up, 73⟩ [])]), (.node ⟨⟨7, 6⟩, .Up, 64⟩ [])]), (.node ⟨⟨8, 6⟩, .Left, 70⟩ [(.node ⟨⟨8, 6⟩, .Right, 70⟩ [])]), (.node ⟨⟨7, 6⟩, .Right, 63⟩ [])]), (.node ⟨⟨8, 5⟩, .Left, 63⟩ [(.node ⟨⟨8, 5⟩, .Right, 63⟩ [])]), (.node ⟨⟨6, 1⟩, .Right, 62⟩ [(.node ⟨⟨6, 1⟩, .Left, 62⟩ [])]), (.node ⟨⟨7, 1⟩, .Left, 58⟩ [])]), (.node ⟨⟨0, 11⟩, .Right, 61⟩ [(.node ⟨⟨0, 11⟩, .Left, 61⟩ [])]), (.node ⟨⟨8, 5⟩, .Up, 61⟩ [])]), (.node ⟨⟨6, 12⟩, .Left, 70⟩ [(.node ⟨⟨6, 12⟩, .Right, 70⟩ [])]), (.node ⟨⟨6, 12⟩, .Left, 70⟩ [(.node ⟨⟨6, 12⟩, .Right, 70⟩ [])]), (.node ⟨⟨11, 4⟩, .Down, 63⟩ [(.node ⟨⟨11, 5⟩, .Down, 67⟩ [(.node ⟨⟨11, 5⟩, .Up, 67⟩ [])]), (.node ⟨⟨11, 4⟩, .Up, 63⟩ [])]), (.node ⟨⟨0, 12⟩, .Right, 64⟩ [(.node ⟨⟨0, 12⟩, .Left, 64⟩ [])]), (.node ⟨⟨1, 12⟩, .Left, 61⟩ [])]), (.node ⟨⟨5, 4⟩, .Right, 59⟩ [(.node ⟨⟨8, 3⟩, .Up, 72⟩ [(.node ⟨⟨8, 2⟩, .Up, 77⟩ [(.node ⟨⟨8, 2⟩, .Down, 77⟩ [])]), (.node ⟨⟨8, 3⟩, .Down, 72⟩ [])]), (.node ⟨⟨4, 12⟩, .Down, 67⟩ [(.node ⟨⟨4, 12⟩, .Up, 67⟩ [])]), (.node ⟨⟨6, 7⟩, .Down, 63⟩ [(.node ⟨⟨6, 4⟩, .Up, 69⟩ [(.node ⟨⟨6, 3⟩, .Up, 76⟩ [(.node ⟨⟨6, 3⟩, .Down, 76⟩ [])]), (.node ⟨⟨6, 4⟩, .Down, 69⟩ [])]), (.node ⟨⟨6, 8⟩, .Down, 71⟩ [(.node ⟨⟨6, 9⟩, .Down, 78⟩ [(.node ⟨⟨6, 9⟩, .Up, 78⟩ [])]), (.node ⟨⟨6, 8⟩, .Up, 71⟩ [])]), (.node ⟨⟨9, 1⟩, .Right, 61⟩ [(.node ⟨⟨8, 1⟩, .Right, 67⟩ [(.node ⟨⟨8, 1⟩, .Left, 67⟩ [])]), (.node ⟨⟨9, 1⟩, .Left, 61⟩ [])]), (.node ⟨⟨6, 7⟩, .Up, 63⟩ [])]), (.node ⟨⟨4, 4⟩, .Right, 65⟩ [(.node ⟨⟨4, 4⟩, .Left, 65⟩ [])]), (.node ⟨⟨5, 4⟩, .Left, 59⟩ [])]), (.node ⟨⟨5, 5⟩, .Up, 70⟩ [(.node ⟨⟨5, 4⟩, .Up, 75⟩ [(.node ⟨⟨5, 4⟩, .Down, 75⟩ [])]), (.node ⟨⟨5, 5⟩, .Down, 70⟩ [])])])

/-- Simulation snapshot: visited set after segment 7 of the day-17 a-run. -/
def d17aSeen8 : SeenTree := (.branch (.branch .leaf (0, 0, 0) .leaf) (0, 0, 1) (.branch (.branch .leaf (0, 0, 2) .leaf) (0, 0, 3) (.branch (.branch (.branch .leaf (0, 1, 0) .leaf) (0, 1, 1) (.branch (.branch (.branch (.branch .leaf (0, 1, 2) .leaf) (0, 1, 3) .leaf) (0, 2, 0) .leaf) (0, 2, 1) (.branch (.branch .leaf (0, 2, 2) .leaf) (0, 2, 3) (.branch (.branch .leaf (0, 3, 0) .leaf) (0, 3, 1) (.branch (.branch (.branch (.branch (.branch .leaf (0, 3, 2) .leaf) (0, 3, 3) .leaf) (0, 4, 0) .leaf) (0, 4, 1) (.branch (.branch (.branch (.branch .leaf (0, 4, 2) .leaf) (0, 4, 3) .leaf) (0, 5, 0) .leaf) (0, 5, 1) (.branch (.branch (.branch (.branch .leaf (0, 5, 2) .leaf) (0, 5, 3) .leaf) (0, 6, 0) .leaf) (0, 6, 1) (.branch (.branch (.branch (.branch .leaf (0, 6, 2) .leaf) (0, 6, 3) .leaf) (0, 7, 0) .leaf) (0, 7, 1) (.branch (.branch (.branch (.branch .leaf (0, 7, 2) .leaf) (0, 7, 3) .leaf) (0, 8, 0) .leaf) (0, 8, 1) (.branch (.branch (.branch (.branch .leaf (0, 8, 2) .leaf) (0, 8, 3) .leaf) (0, 9, 0) .leaf) (0, 9, 1) (.branch (.branch (.branch (.branch .leaf (0, 9, 2) .leaf) (0, 9, 3) .leaf) (0, 10, 0) .leaf) (0, 10, 1) (.branch (.branch (.branch (.branch .leaf (0, 10, 2) .leaf) (0, 10, 3) .leaf) (0, 11, 0) .leaf) (0, 11, 1) (.branch (.branch (.branch (.branch .leaf (0, 11, 2) .leaf) (0, 11, 3) .leaf) (0, 12, 0) .leaf) (0, 12, 1) (.branch (.branch .leaf (0, 12, 2) .leaf) (0, 12, 3) .leaf)))))))))) (1, 0, 0) (.branch .leaf (1, 0, 1) .leaf)))))) (1, 0, 2) (.branch .leaf (1, 0, 3) (.branch (.branch .leaf (1, 1, 0) .leaf) (1, 1, 1) (.branch (.branch (.branch (.branch .leaf (1, 1, 2) (.branch .leaf (1, 1, 3) .leaf)) (1, 2, 0) .leaf) (1, 2, 1) .leaf) (1, 2, 2) (.branch .leaf (1, 2, 3) (.branch (.branch (.branch .leaf (1, 3, 0) .leaf) (1, 3, 1) (.branch (.branch .leaf (1, 3, 2) (.branch .leaf (1, 3, 3) (.branch (.branch .leaf (1, 4, 0) .leaf) (1, 4, 1) (.branch .leaf (1, 4, 2) (.branch .leaf (1, 4, 3) (.branch (.branch .leaf (1, 5, 0) .leaf) (1, 5, 1) (.branch .leaf (1, 5, 2) (.branch .leaf (1, 5, 3) (.branch (.branch .leaf (1, 6, 0) .leaf) (1, 6, 1) (.branch .leaf (1, 6, 2) (.branch .leaf (1, 6, 3) (.branch (.branch .leaf (1, 7, 0) .leaf) (1, 7, 1) (.branch (.branch .leaf (1, 7, 2) (.branch .leaf (1, 7, 3) (.branch (.branch .leaf (1, 8, 0) .leaf) (1, 8, 1) .leaf))) (1, 8, 2) (.branch .leaf (1, 8, 3) (.branch (.branch .leaf (1, 9, 0) .leaf) (1, 9, 1) (.branch .leaf (1, 9, 2) (.branch .leaf (1, 9, 3) (.branch (.branch (.branch .leaf (1, 10, 0) .leaf) (1, 10, 1) (.branch .leaf (1, 10, 2) (.branch .leaf (1, 10, 3) (.branch (.branch .leaf (1, 11, 0) .leaf) (1, 11, 1) .leaf)))) (1, 11, 2) (.branch .leaf (1, 11, 3) (.branch (.branch .leaf (1, 12, 0) .leaf) (1, 12, 1) (.branch .leaf (1, 12, 2) (.branch .leaf (1, 12, 3) .leaf)))))))))))))))))))))) (2, 0, 0) (.branch .leaf (2, 0, 1) .leaf))) (2, 0, 2) (.branch .leaf (2, 0, 3) (.branch (.branch (.branch .leaf (2, 1, 0) .leaf) (2, 1, 1) .leaf) (2, 1, 2) (.branch .leaf (2, 1, 3) (.branch (.branch (.branch (.branch .leaf (2, 2, 0) .leaf) (2, 2, 1) .leaf) (2, 2, 2) (.branch .leaf (2, 2, 3) (.branch (.branch (.branch .leaf (2, 3, 0) .leaf) (2, 3, 1) (.branch .leaf (2, 3, 2) (.branch .leaf (2, 3, 3) (.branch (.branch (.branch .leaf (2, 4, 0) .leaf) (2, 4, 1) .leaf) (2, 4, 2) (.branch .leaf (2, 4, 3) (.branch (.branch .leaf (2, 5, 0) .leaf) (2, 5, 1) (.branch .leaf (2, 5, 2) (.branch .leaf (2, 5, 3) (.branch (.branch .leaf (2, 6, 0) .leaf) (2, 6, 1) (.branch .leaf (2, 6, 2) (.branch .leaf (2, 6, 3) (.branch (.branch .leaf (2, 7, 0) .leaf) (2, 7, 1) (.branch .leaf (2, 7, 2) (.branch .leaf (2, 7, 3) (.branch (.branch (.branch .leaf (2, 8, 0) .leaf) (2, 8, 1) .leaf) (2, 8, 2) (.branch .leaf (2, 8, 3) (.branch (.branch (.branch .leaf (2, 9, 0) .leaf) (2, 9, 1) .leaf) (2, 9, 2) (.branch .leaf (2, 9, 3) (.branch (.branch .leaf (2, 10, 0) .leaf) (2, 10, 1) (.branch .leaf (2, 10, 2) (.branch .leaf (2, 10, 3) (.branch (.branch (.branch .leaf (2, 11, 0) .leaf) (2, 11, 1) .leaf) (2, 11, 2) (.branch .leaf (2, 11, 3) (.branch (.branch (.branch .leaf (2, 12, 0) .leaf) (2, 12, 1) .leaf) (2, 12, 2) (.branch .leaf (2, 12, 3) .leaf))))))))))))))))))))))))) (3, 0, 0) (.branch .leaf (3, 0, 1) .leaf)))) (3, 0, 2) (.branch .leaf (3, 0, 3) (.branch (.branch (.branch .leaf (3, 1, 0) .leaf) (3, 1, 1) .leaf) (3, 1, 2) (.branch .leaf (3, 1, 3) (.branch (.branch .leaf (3, 2, 0) .leaf) (3, 2, 1) (.branch .leaf (3, 2, 2) (.branch .leaf (3, 2, 3) (.branch (.branch (.branch (.branch .leaf (3, 3, 0) .leaf) (3, 3, 1) (.branch (.branch .leaf (3, 3, 2) (.branch .leaf (3, 3, 3) (.branch (.branch .leaf (3, 4, 0) .leaf) (3, 4, 1) .leaf))) (3, 4, 2) (.branch .leaf (3, 4, 3) (.branch (.branch (.branch (.branch .leaf (3, 5, 0) .leaf) (3, 5, 1) .leaf) (3, 5, 2) (.branch .leaf (3, 5, 3) (.branch (.branch (.branch .leaf (3, 6, 0) .leaf) (3, 6, 1) .leaf) (3, 6, 2) (.branch .leaf (3, 6, 3) (.branch (.branch .leaf (3, 7, 0) .leaf) (3, 7, 1) (.branch .leaf (3, 7, 2) (.branch .leaf (3, 7, 3) (.branch (.branch (.branch .leaf (3, 8, 0) .leaf) (3, 8, 1) .leaf) (3, 8, 2) (.branch .leaf (3, 8, 3) (.branch (.branch (.branch .leaf (3, 9, 0) .leaf) (3, 9, 1) .leaf) (3, 9, 2) (.branch .leaf (3, 9, 3) (.branch (.branch (.branch .leaf (3, 10, 0) .leaf) (3, 10, 1) .leaf) (3, 10, 2) (.branch .leaf (3, 10, 3) (.branch (.branch (.branch .leaf (3, 11, 0) .leaf) (3, 11, 1) (.branch .leaf (3, 11, 2) (.branch .leaf (3, 11, 3) (.branch (.branch .leaf (3, 12, 0) .leaf) (3, 12, 1) .leaf)))) (3, 12, 2) (.branch .leaf (3, 12, 3) .leaf))))))))))))))) (4, 0, 0) (.branch .leaf (4, 0, 1) .leaf))))) (4, 0, 2) (.branch .leaf (4, 0, 3) (.branch (.branch .leaf (4, 1, 0) .leaf) (4, 1, 1) .leaf))) (4, 1, 2) (.branch .leaf (4, 1, 3) (.branch (.branch (.branch (.branch .leaf (4, 2, 0) .leaf) (4, 2, 1) .leaf) (4, 2, 2) (.branch .leaf (4, 2, 3) (.branch (.branch (.branch .leaf (4, 3, 0) .leaf) (4, 3, 1) (.branch .leaf (4, 3, 2) (.branch .leaf (4, 3, 3) (.branch (.branch (.branch .leaf (4, 4, 0) .leaf) (4, 4, 1) .leaf) (4, 4, 2) (.branch .leaf (4, 4, 3) (.branch (.branch .leaf (4, 5, 0) .leaf) (4, 5, 1) (.branch .leaf (4, 5, 2) (.branch .leaf (4, 5, 3) (.branch (.branch (.branch .leaf (4, 6, 0) .leaf) (4, 6, 1) .leaf) (4, 6, 2) (.branch .leaf (4, 6, 3) (.branch (.branch .leaf (4, 7, 0) .leaf) (4, 7, 1) (.branch .leaf (4, 7, 2) (.branch .leaf (4, 7, 3) (.branch (.branch (.branch .leaf (4, 8, 0) .leaf) (4, 8, 1) .leaf) (4, 8, 2) (.branch .leaf (4, 8, 3) (.branch (.branch (.branch (.branch .leaf (4, 9, 0) .leaf) (4, 9, 1) .leaf) (4, 9, 2) (.branch .leaf (4, 9, 3) (.branch (.branch .leaf (4, 10, 0) .leaf) (4, 10, 1) .leaf))) (4, 10, 2) (.branch .leaf (4, 10, 3) (.branch (.branch (.branch .leaf (4, 11, 0) .leaf) (4, 11, 1) .leaf) (4, 11, 2) (.branch .leaf (4, 11, 3) (.branch (.branch (.branch .leaf (4, 12, 0) .leaf) (4, 12, 1) .leaf) (4, 12, 2) (.branch .leaf (4, 12, 3) .leaf))))))))))))))))))))) (5, 0, 0) (.branch .leaf (5, 0, 1) .leaf)))) (5, 0, 2) (.branch .leaf (5, 0, 3) (.branch (.branch (.branch .leaf (5, 1, 0) .leaf) (5, 1, 1) .leaf) (5, 1, 2) (.branch .leaf (5, 1, 3) (.branch (.branch (.branch .leaf (5, 2, 0) .leaf) (5, 2, 1) .leaf) (5, 2, 2) (.branch .leaf (5, 2, 3) (.branch (.branch (.branch .leaf (5, 3, 0) .leaf) (5, 3, 1) (.branch (.branch .leaf (5, 3, 2) (.branch .leaf (5, 3, 3) (.branch (.branch (.branch .leaf (5, 4, 0) .leaf) (5, 4, 1) .leaf) (5, 4, 2) (.branch .leaf (5, 4, 3) (.branch (.branch (.branch .leaf (5, 5, 0) .leaf) (5, 5, 1) .leaf) (5, 5, 2) (.branch .leaf (5, 5, 3) (.branch (.branch (.branch .leaf (5, 6, 0) .leaf) (5, 6, 1) .leaf) (5, 6, 2) (.branch .leaf (5, 6, 3) (.branch (.branch .leaf (5, 7, 0) .leaf) (5, 7, 1) (.branch .leaf (5, 7, 2) (.branch .leaf (5, 7, 3) (.branch (.branch (.branch (.branch .leaf (5, 8, 0) .leaf) (5, 8, 1) .leaf) (5, 8, 2) (.branch .leaf (5, 8, 3) (.branch (.branch .leaf (5, 9, 0) (.branch .leaf (5, 9, 1) .leaf)) (5, 9, 2) (.branch .leaf (5, 9, 3) (.branch .leaf (5, 10, 0) (.branch .leaf (5, 10, 1) .leaf)))))) (5, 10, 2) (.branch .leaf (5, 10, 3) (.branch (.branch (.branch .leaf (5, 11, 0) .leaf) (5, 11, 1) .leaf) (5, 11, 2) (.branch .leaf (5, 11, 3) (.branch (.branch (.branch .leaf (5, 12, 0) .leaf) (5, 12, 1) .leaf) (5, 12, 2) (.branch .leaf (5, 12, 3) .leaf))))))))))))))))) (6, 0, 0) (.branch .leaf (6, 0, 1) .leaf))) (6, 0, 2) (.branch .leaf (6, 0, 3) (.branch (.branch (.branch .leaf (6, 1, 0) .leaf) (6, 1, 1) .leaf) (6, 1, 2) (.branch .leaf (6, 1, 3) (.branch (.branch (.branch .leaf (6, 2, 0) .leaf) (6, 2, 1) .leaf) (6, 2, 2) (.branch .leaf (6, 2, 3) (.branch (.branch (.branch .leaf (6, 3, 0) .leaf) (6, 3, 1) (.branch (.branch .leaf (6, 3, 2) (.branch .leaf (6, 3, 3) (.branch (.branch .leaf (6, 4, 0) .leaf) (6, 4, 1) (.branch .leaf (6, 4, 2) (.branch .leaf (6, 4, 3) (.branch (.branch .leaf (6, 5, 0) .leaf) (6, 5, 1) (.branch .leaf (6, 5, 2) (.branch .leaf (6, 5, 3) (.branch (.branch (.branch .leaf (6, 6, 0) .leaf) (6, 6, 1) .leaf) (6, 6, 2) (.branch .leaf (6, 6, 3) (.branch (.branch (.branch .leaf (6, 7, 0) .leaf) (6, 7, 1) .leaf) (6, 7, 2) (.branch .leaf (6, 7, 3) (.branch (.branch (.branch .leaf (6, 8, 2) (.branch .leaf (6, 8, 3) .leaf)) (6, 10, 2) (.branch .leaf (6, 10, 3) .leaf)) (6, 11, 2) (.branch .leaf (6, 11, 3) .leaf)))))))))))))) (7, 0, 0) (.branch .leaf (7, 0, 1) .leaf))) (7, 0, 2) (.branch .leaf (7, 0, 3) (.branch (.branch (.branch (.branch .leaf (7, 1, 0) .leaf) (7, 1, 1) .leaf) (7, 1, 2) (.branch .leaf (7, 1, 3) (.branch (.branch .leaf (7, 2, 0) .leaf) (7, 2, 1) .leaf))) (7, 2, 2) (.branch .leaf (7, 2, 3) (.branch (.branch (.branch .leaf (7, 3, 0) .leaf) (7, 3, 1) (.branch .leaf (7, 3, 2) (.branch .leaf (7, 3, 3) (.branch (.branch (.branch .leaf (7, 4, 0) .leaf) (7, 4, 1) (.branch .leaf (7, 4, 2) (.branch .leaf (7, 4, 3) (.branch (.branch .leaf (7, 5, 0) .leaf) (7, 5, 1) (.branch .leaf (7, 5, 2) (.branch .leaf (7, 5, 3) (.branch (.branch (.branch .leaf (7, 6, 0) .leaf) (7, 6, 1) .leaf) (7, 6, 2) (.branch .leaf (7, 6, 3) .leaf)))))))) (8, 0, 0) (.branch .leaf (8, 0, 1) .leaf))))) (8, 0, 2) (.branch .leaf (8, 0, 3) (.branch (.branch (.branch (.branch .leaf (8, 1, 0) .leaf) (8, 1, 1) .leaf) (8, 1, 2) (.branch .leaf (8, 1, 3) (.branch (.branch .leaf (8, 2, 0) .leaf) (8, 2, 1) .leaf))) (8, 2, 2) (.branch .leaf (8, 2, 3) (.branch (.branch .leaf (8, 3, 0) .leaf) (8, 3, 1) (.branch .leaf (8, 3, 2) (.branch .leaf (8, 3, 3) (.branch (.branch (.branch .leaf (8, 4, 0) .leaf) (8, 4, 1) (.branch (.branch .leaf (8, 4, 2) (.branch .leaf (8, 4, 3) (.branch (.branch .leaf (8, 5, 0) .leaf) (8, 5, 1) (.branch .leaf (8, 5, 2) (.branch .leaf (8, 5, 3) (.branch (.branch .leaf (8, 6, 0) .leaf) (8, 6, 1) .leaf)))))) (9, 0, 0) (.branch .leaf (9, 0, 1) .leaf))) (9, 0, 2) (.branch .leaf (9, 0, 3) (.branch (.branch (.branch (.branch .leaf (9, 1, 0) .leaf) (9, 1, 1) .leaf) (9, 1, 2) (.branch .leaf (9, 1, 3) (.branch (.branch (.branch .leaf (9, 2, 0) .leaf) (9, 2, 1) .leaf) (9, 2, 2) (.branch .leaf (9, 2, 3) (.branch (.branch .leaf (9, 3, 0) .leaf) (9, 3, 1) .leaf))))) (9, 3, 2) (.branch .leaf (9, 3, 3) (.branch (.branch (.branch (.branch .leaf (9, 4, 0) .leaf) (9, 4, 1) (.branch .leaf (9, 4, 2) (.branch .leaf (9, 4, 3) (.branch (.branch .leaf (9, 5, 0) .leaf) (9, 5, 1) (.branch .leaf (9, 5, 2) (.branch .leaf (9, 5, 3) (.branch (.branch .leaf (9, 6, 0) .leaf) (9, 6, 1) .leaf))))))) (10, 0, 0) (.branch .leaf (10, 0, 1) .leaf)) (10, 0, 2) (.branch .leaf (10, 0, 3) (.branch (.branch .leaf (10, 1, 0) .leaf) (10, 1, 1) (.branch .leaf (10, 1, 2) (.branch .leaf (10, 1, 3) (.branch (.branch (.branch .leaf (10, 2, 0) .leaf) (10, 2, 1) .leaf) (10, 2, 2) (.branch .leaf (10, 2, 3) (.branch (.branch (.branch .leaf (10, 3, 0) .leaf) (10, 3, 1) .leaf) (10, 3, 2) (.branch .leaf (10, 3, 3) (.branch (.branch (.branch .leaf (10, 4, 0) .leaf) (10, 4, 1) (.branch (.branch .leaf (10, 4, 2) (.branch .leaf (10, 4, 3) (.branch (.branch .leaf (10, 5, 0) .leaf) (10, 5, 1) (.branch .leaf (10, 5, 2) (.branch .leaf (10, 5, 3) .leaf))))) (11, 0, 0) (.branch .leaf (11, 0, 1) .leaf))) (11, 0, 2) (.branch .leaf (11, 0, 3) (.branch (.branch (.branch .leaf (11, 1, 0) .leaf) (11, 1, 1) .leaf) (11, 1, 2) (.branch .leaf (11, 1, 3) (.branch (.branch (.branch .leaf (11, 2, 0) .leaf) (11, 2, 1) .leaf) (11, 2, 2) (.branch .leaf (11, 2, 3) (.branch (.branch (.branch (.branch (.branch .leaf (11, 3, 0) .leaf) (11, 3, 1) .leaf) (11, 3, 2) (.branch .leaf (11, 3, 3) (.branch (.branch .leaf (11, 4, 0) .leaf) (11, 4, 1) (.branch .leaf (11, 4, 2) (.branch .leaf (11, 4, 3) (.branch (.branch (.branch .leaf (11, 5, 0) .leaf) (11, 5, 1) (.branch .leaf (11, 5, 2) (.branch .leaf (11, 5, 3) .leaf))) (12, 0, 0) (.branch .leaf (12, 0, 1) .leaf))))))) (12, 0, 2) (.branch .leaf (12, 0, 3) (.branch (.branch (.branch .leaf (12, 1, 0) .leaf) (12, 1, 1) .leaf) (12, 1, 2) (.branch .leaf (12, 1, 3) (.branch (.branch .leaf (12, 2, 0) .leaf) (12, 2, 1) .leaf))))) (12, 2, 2) (.branch .leaf (12, 2, 3) (.branch (.branch .leaf (12, 3, 0) .leaf) (12, 3, 1) (.branch .leaf (12, 3, 2) (.branch .leaf (12, 3, 3) (.branch (.branch .leaf (12, 4, 0) .leaf) (12, 4, 1) (.branch .leaf (12, 4, 2) (.branch .leaf (12, 4, 3) .leaf))))))))))))))))))))))))))))))))))))))))))))))))))))))))))))))))))))))

/-- Simulation snapshot: heap after segment 7 of the day-17 a-run. -/
def d17aHeap8 : Heap := (.node ⟨⟨12, 4⟩, .Right, 68⟩ [(.node ⟨⟨6, 12⟩, .Left, 70⟩ [(.node ⟨⟨7, 6⟩, .Right, 81⟩ [(.node ⟨⟨6, 6⟩, .Right, 87⟩ [(.node ⟨⟨6, 6⟩, .Left, 87⟩ [])]), (.node ⟨⟨7, 6⟩, .Left, 81⟩ [])]), (.node ⟨⟨8, 6⟩, .Right, 74⟩ [(.node ⟨⟨8, 6⟩, .Left, 74⟩ [])]), (.node ⟨⟨12, 3⟩, .Up, 68⟩ [(.node ⟨⟨4, 9⟩, .Up, 67⟩ [(.node ⟨⟨6, 12⟩, .Down, 72⟩ [(.node ⟨⟨3, 7⟩, .Right, 69⟩ [(.node ⟨⟨2, 7⟩, .Right, 75⟩ [(.node ⟨⟨2, 7⟩, .Left, 75⟩ [])]), (.node ⟨⟨3, 7⟩, .Left, 69⟩ [])]), (.node ⟨⟨9, 6⟩, .Down, 72⟩ [(.node ⟨⟨6, 9⟩, .Down, 77⟩ [(.node ⟨⟨6, 10⟩, .Down, 84⟩ [(.node ⟨⟨6, 10⟩, .Up, 84⟩ [])]), (.node ⟨⟨6, 9⟩, .Up, 77⟩ [])]), (.node ⟨⟨9, 7⟩, .Down, 81⟩ [(.node ⟨⟨9, 8⟩, .Down, 89⟩ [(.node ⟨⟨9, 8⟩, .Up, 89⟩ [])]), (.node ⟨⟨9, 7⟩, .Up, 81⟩ [])]), (.node ⟨⟨9, 6⟩, .Up, 72⟩ [])]), (.node ⟨⟨4, 10⟩, .Right, 69⟩ [(.node ⟨⟨7, 10⟩, .Left, 77⟩ [(.node ⟨⟨8, 10⟩, .Left, 85⟩ [(.node ⟨⟨8, 10⟩, .Right, 85⟩ [])]), (.node ⟨⟨7, 10⟩, .Right, 77⟩ [])]), (.node ⟨⟨3, 10⟩, .Right, 73⟩ [(.node ⟨⟨2, 10⟩, .Right, 75⟩ [(.node ⟨⟨2, 10⟩, .Left, 75⟩ [])]), (.node ⟨⟨3, 10⟩, .Left, 73⟩ [])]), (.node ⟨⟨4, 10⟩, .Left, 69⟩ [])]), (.node ⟨⟨6, 9⟩, .Up, 80⟩ [(.node ⟨⟨6, 8⟩, .Up, 88⟩ [(.node ⟨⟨6, 8⟩, .Down, 88⟩ [])]), (.node ⟨⟨6, 9⟩, .Down, 80⟩ [])]), (.node ⟨⟨6, 12⟩, .Up, 72⟩ [])]), (.node ⟨⟨6, 1⟩, .Right, 62⟩ [(.node ⟨⟨7, 7⟩, .Down, 73⟩ [(.node ⟨⟨7, 7⟩, .Up, 73⟩ [])]), (.node ⟨⟨3, 11⟩, .Right, 69⟩ [(.node ⟨⟨7, 7⟩, .Down, 70⟩ [(.node ⟨⟨7, 7⟩, .Up, 70⟩ [])]), (.node ⟨⟨2, 11⟩, .Right, 74⟩ [(.node ⟨⟨2, 11⟩, .Left, 74⟩ [])]), (.node ⟨⟨3, 11⟩, .Left, 69⟩ [])]), (.node ⟨⟨6, 1⟩, .Left, 62⟩ [])]), (.node ⟨⟨6, 6⟩, .Right, 69⟩ [(.node ⟨⟨6, 6⟩, .Left, 69⟩ [])]), (.node ⟨⟨8, 6⟩, .Left, 70⟩ [(.node ⟨⟨8, 6⟩, .Right, 70⟩ [])]), (.node ⟨⟨4, 8⟩, .Up, 73⟩ [(.node ⟨⟨4, 8⟩, .Down, 73⟩ [])]), (.node ⟨⟨4, 9⟩, .Down, 67⟩ [])]), (.node ⟨⟨10, 1⟩, .Up, 65⟩ [(.node ⟨⟨10, 4⟩, .Up, 72⟩ [(.node ⟨⟨10, 3⟩, .Up, 76⟩ [(.node ⟨⟨10, 2⟩, .Up, 78⟩ [(.node ⟨⟨10, 2⟩, .Down, 78⟩ [])]), (.node ⟨⟨10, 3⟩, .Down, 76⟩ [])]), (.node ⟨⟨10, 4⟩, .Down, 72⟩ [])]), (.node ⟨⟨5, 10⟩, .Down, 70⟩ [(.node ⟨⟨5, 9⟩, .Up, 72⟩ [(.node ⟨⟨5, 8⟩, .Up, 81⟩ [(.node ⟨⟨5, 8⟩, .Down, 81⟩ [])]), (.node ⟨⟨5, 9⟩, .Down, 72⟩ [])]), (.node ⟨⟨5, 11⟩, .Down, 75⟩ [(.node ⟨⟨5, 11⟩, .Up, 75⟩ [])]), (.node ⟨⟨5, 10⟩, .Up, 70⟩ [])]), (.node ⟨⟨9, 3⟩, .Right, 66⟩ [(.node ⟨⟨7, 5⟩, .Right, 71⟩ [(.node ⟨⟨6, 5⟩, .Right, 78⟩ [(.node ⟨⟨6, 5⟩, .Left, 78⟩ [])]), (.node ⟨⟨7, 5⟩, .Left, 71⟩ [])]), (.node ⟨⟨3, 12⟩, .Right, 72⟩ [(.node ⟨⟨2, 12⟩, .Right, 76⟩ [(.node ⟨⟨2, 12⟩, .Left, 76⟩ [])]), (.node ⟨⟨3, 12⟩, .Left, 72⟩ [])]), (.node ⟨⟨8, 3⟩, .Right, 70⟩ [(.node ⟨⟨8, 3⟩, .Left, 70⟩ [])]), (.node ⟨⟨9, 3⟩, .Left, 66⟩ [])]), (.node ⟨⟨12, 5⟩, .Down, 73⟩ [(.node ⟨⟨12, 5⟩, .Up, 73⟩ [])]), (.node ⟨⟨10, 1⟩, .Down, 65⟩ [])]), (.node ⟨⟨6, 2⟩, .Right, 63⟩ [(.node ⟨⟨6, 2⟩, .Left, 63⟩ [])]), (.node ⟨⟨5, 6⟩, .Right, 77⟩ [(.node ⟨⟨4, 6⟩, .Right, 84⟩ [(.node ⟨⟨4, 6⟩, .Left, 84⟩ [])]), (.node ⟨⟨5, 6⟩, .Left, 77⟩ [])]), (.node ⟨⟨6, 11⟩, .Down, 72⟩ [(.node ⟨⟨12, 2⟩, .Up, 70⟩ [(.node ⟨⟨12, 1⟩, .Up, 73⟩ [(.node ⟨⟨12, 1⟩, .Down, 73⟩ [])]), (.node ⟨⟨12, 2⟩, .Down, 70⟩ [])]), (.node ⟨⟨6, 12⟩, .Down, 78⟩ [(.node ⟨⟨6, 12⟩, .Up, 78⟩ [])]), (.node ⟨⟨6, 11⟩, .Up, 72⟩ [])]), (.node ⟨⟨6, 8⟩, .Up, 81⟩ [(.node ⟨⟨6, 7⟩, .Up, 90⟩ [(.node ⟨⟨6, 7⟩, .Down, 90⟩ [])]), (.node ⟨⟨6, 8⟩, .Down, 81⟩ [])]), (.node ⟨⟨12, 3⟩, .Down, 68⟩ [])]), (.node ⟨⟨11, 6⟩, .Left, 81⟩ [(.node ⟨⟨12, 6⟩, .Left, 85⟩ [(.node ⟨⟨12, 6⟩, .Right, 85⟩ [])]), (.node ⟨⟨11, 6⟩, .Right, 81⟩ [])]), (.node ⟨⟨10, 6⟩, .Left, 73⟩ [(.node ⟨⟨10, 6⟩, .Right, 73⟩ [])]), (.node ⟨⟨5, 9⟩, .Down, 70⟩ [(.node ⟨⟨4, 4⟩, .Up, 65⟩ [(.node ⟨⟨4, 4⟩, .Down, 65⟩ [])]), (.node ⟨⟨5, 5⟩, .Right, 69⟩ [(.node ⟨⟨4, 5⟩, .Right, 74⟩ [(.node ⟨⟨4, 5⟩, .Left, 74⟩ [])]), (.node ⟨⟨5, 5⟩, .Left, 69⟩ [])]), (.node ⟨⟨5, 10⟩, .Down, 74⟩ [(.node ⟨⟨5, 10⟩, .Up, 74⟩ [])]), (.node ⟨⟨5, 9⟩, .Up, 70⟩ [])]), (.node ⟨⟨3, 5⟩, .Up, 62⟩ [(.node ⟨⟨6, 9⟩, .Down, 73⟩ [(.node ⟨⟨6, 9⟩, .Up, 73⟩ [])]), (.node ⟨⟨7, 7⟩, .Left, 71⟩ [(.node ⟨⟨10, 5⟩, .Left, 74⟩ [(.node ⟨⟨10, 5⟩, .Right, 74⟩ [])]), (.node ⟨⟨8, 7⟩, .Left, 80⟩ [(.node ⟨⟨8, 7⟩, .Right, 80⟩ [])]), (.node ⟨⟨7, 7⟩, .Right, 71⟩ [])]), (.node ⟨⟨8, 2⟩, .Right, 68⟩ [(.node ⟨⟨8, 2⟩, .Left, 68⟩ [])]), (.node ⟨⟨3, 5⟩, .Down, 62⟩ [])]), (.node ⟨⟨7, 2⟩, .Right, 62⟩ [(.node ⟨⟨4, 8⟩, .Up, 65⟩ [(.node ⟨⟨1, 10⟩, .Right, 70⟩ [(.node ⟨⟨1, 10⟩, .Left, 70⟩ [])]), (.node ⟨⟨10, 7⟩, .Down, 80⟩ [(.node ⟨⟨10, 8⟩, .Down, 86⟩ [(.node ⟨⟨10, 8⟩, .Up, 86⟩ [])]), (.node ⟨⟨10, 7⟩, .Up, 80⟩ [])]), (.node ⟨⟨11, 4⟩, .Up, 72⟩ [(.node ⟨⟨11, 4⟩, .Down, 72⟩ [])]), (.node ⟨⟨8, 6⟩, .Down, 68⟩ [(.node ⟨⟨8, 7⟩, .Down, 77⟩ [(.node ⟨⟨8, 7⟩, .Up, 77⟩ [])]), (.node ⟨⟨8, 6⟩, .Up, 68⟩ [])]), (.node ⟨⟨12, 5⟩, .Left, 71⟩ [(.node ⟨⟨7, 8⟩, .Down, 77⟩ [(.node ⟨⟨7, 4⟩, .Up, 76⟩ [(.node ⟨⟨7, 3⟩, .Up, 83⟩ [(.node ⟨⟨7, 3⟩, .Down, 83⟩ [])]), (.node ⟨⟨7, 4⟩, .Down, 76⟩ [])]), (.node ⟨⟨7, 9⟩, .Down, 86⟩ [(.node ⟨⟨7, 9⟩, .Up, 86⟩ [])]), (.node ⟨⟨7, 8⟩, .Up, 77⟩ [])]), (.node ⟨⟨6, 8⟩, .Left, 69⟩ [(.node ⟨⟨7, 8⟩, .Left, 76⟩ [(.node ⟨⟨7, 8⟩, .Right, 76⟩ [])]), (.node ⟨⟨6, 8⟩, .Right, 69⟩ [])]), (.node ⟨⟨10, 5⟩, .Right, 72⟩ [(.node ⟨⟨10, 5⟩, .Left, 72⟩ [])]), (.node ⟨⟨12, 5⟩, .Right, 71⟩ [])]), (.node ⟨⟨8, 2⟩, .Up, 64⟩ [(.node ⟨⟨8, 1⟩, .Up, 70⟩ [(.node ⟨⟨8, 1⟩, .Down, 70⟩ [])]), (.node ⟨⟨8, 2⟩, .Down, 64⟩ [])]), (.node ⟨⟨4, 7⟩, .Up, 73⟩ [(.node ⟨⟨4, 7⟩, .Down, 73⟩ [])]), (.node ⟨⟨4, 8⟩, .Down, 65⟩ [])]), (.node ⟨⟨3, 9⟩, .Up, 65⟩ [(.node ⟨⟨10, 6⟩, .Down, 69⟩ [(.node ⟨⟨9, 5⟩, .Right, 70⟩ [(.node ⟨⟨8, 5⟩, .Right, 76⟩ [(.node ⟨⟨7, 5⟩, .Right, 83⟩ [(.node ⟨⟨7, 5⟩, .Left, 83⟩ [])]), (.node ⟨⟨8, 5⟩, .Left, 76⟩ [])]), (.node ⟨⟨9, 5⟩, .Left, 70⟩ [])]), (.node ⟨⟨12, 5⟩, .Left, 74⟩ [(.node ⟨⟨12, 5⟩, .Right, 74⟩ [])]), (.node ⟨⟨10, 6⟩, .Up, 69⟩ [])]), (.node ⟨⟨8, 6⟩, .Left, 70⟩ [(.node ⟨⟨6, 8⟩, .Down, 71⟩ [(.node ⟨⟨5, 5⟩, .Up, 70⟩ [(.node ⟨⟨8, 3⟩, .Up, 72⟩ [(.node ⟨⟨8, 2⟩, .Up, 77⟩ [(.node ⟨⟨8, 2⟩, .Down, 77⟩ [])]), (.node ⟨⟨8, 3⟩, .Down, 72⟩ [])]), (.node ⟨⟨5, 4⟩, .Up, 75⟩ [(.node ⟨⟨5, 4⟩, .Down, 75⟩ [])]), (.node ⟨⟨5, 5⟩, .Down, 70⟩ [])]), (.node ⟨⟨6, 4⟩, .Up, 69⟩ [(.node ⟨⟨6, 3⟩, .Up, 76⟩ [(.node ⟨⟨6, 3⟩, .Down, 76⟩ [])]), (.node ⟨⟨6, 4⟩, .Down, 69⟩ [])]), (.node ⟨⟨6, 9⟩, .Down, 78⟩ [(.node ⟨⟨6, 9⟩, .Up, 78⟩ [])]), (.node ⟨⟨6, 8⟩, .Up, 71⟩ [])]), (.node ⟨⟨8, 1⟩, .Right, 67⟩ [(.node ⟨⟨8, 1⟩, .Left, 67⟩ [])]), (.node ⟨⟨9, 2⟩, .Right, 68⟩ [(.node ⟨⟨9, 2⟩, .Left, 68⟩ [])]), (.node ⟨⟨7, 7⟩, .Left, 72⟩ [(.node ⟨⟨7, 7⟩, .Right, 72⟩ [])]), (.node ⟨⟨8, 7⟩, .Left, 81⟩ [(.node ⟨⟨9, 7⟩, .Left, 90⟩ [(.node ⟨⟨9, 7⟩, .Right, 90⟩ [])]), (.node ⟨⟨8, 7⟩, .Right, 81⟩ [])]), (.node ⟨⟨8, 6⟩, .Right, 70⟩ [])]), (.node ⟨⟨5, 3⟩, .Right, 63⟩ [(.node ⟨⟨5, 3⟩, .Left, 63⟩ [])]), (.node ⟨⟨5, 8⟩, .Up, 70⟩ [(.node ⟨⟨5, 8⟩, .Down, 70⟩ [])]), (.node ⟨⟨3, 9⟩, .Down, 65⟩ [])]), (.node ⟨⟨5, 6⟩, .Up, 73⟩ [(.node ⟨⟨5, 5⟩, .Up, 82⟩ [(.node ⟨⟨5, 5⟩, .Down, 82⟩ [])]), (.node ⟨⟨5, 6⟩, .Down, 73⟩ [])]), (.node ⟨⟨7, 2⟩, .Left, 62⟩ [])]), (.node ⟨⟨11, 6⟩, .Down, 75⟩ [(.node ⟨⟨11, 3⟩, .Up, 78⟩ [(.node ⟨⟨11, 2⟩, .Up, 82⟩ [(.node ⟨⟨11, 2⟩, .Down, 82⟩ [])]), (.node ⟨⟨11, 3⟩, .Down, 78⟩ [])]), (.node ⟨⟨11, 6⟩, .Up, 75⟩ [])]), (.node ⟨⟨11, 7⟩, .Down, 83⟩ [(.node ⟨⟨11, 8⟩, .Down, 91⟩ [(.node ⟨⟨11, 8⟩, .Up, 91⟩ [])]), (.node ⟨⟨11, 7⟩, .Up, 83⟩ [])]), (.node ⟨⟨3, 8⟩, .Up, 65⟩ [(.node ⟨⟨10, 6⟩, .Down, 71⟩ [(.node ⟨⟨6, 5⟩, .Right, 70⟩ [(.node ⟨⟨5, 5⟩, .Right, 79⟩ [(.node ⟨⟨5, 5⟩, .Left, 79⟩ [])]), (.node ⟨⟨6, 5⟩, .Left, 70⟩ [])]), (.node ⟨⟨10, 7⟩, .Down, 79⟩ [(.node ⟨⟨10, 7⟩, .Up, 79⟩ [])]), (.node ⟨⟨10, 6⟩, .Up, 71⟩ [])]), (.node ⟨⟨3, 8⟩, .Down, 65⟩ [])]), (.node ⟨⟨11, 6⟩, .Down, 72⟩ [(.node ⟨⟨11, 6⟩, .Up, 72⟩ [])]), (.node ⟨⟨4, 4⟩, .Right, 65⟩ [(.node ⟨⟨4, 4⟩, .Left, 65⟩ [])]), (.node ⟨⟨6, 12⟩, .Left, 70⟩ [(.node ⟨⟨6, 12⟩, .Right, 70⟩ [])]), (.node ⟨⟨6, 12⟩, .Right, 70⟩ [])]), (.node ⟨⟨5, 11⟩, .Down, 68⟩ [(.node ⟨⟨12, 5⟩, .Down, 69⟩ [(.node ⟨⟨4, 6⟩, .Up, 63⟩ [(.node ⟨⟨10, 4⟩, .Left, 67⟩ [(.node ⟨⟨9, 2⟩, .Up, 66⟩ [(.node ⟨⟨9, 1⟩, .Right, 68⟩ [(.node ⟨⟨9, 1⟩, .Left, 68⟩ [])]), (.node ⟨⟨9, 1⟩, .Up, 71⟩ [(.node ⟨⟨9, 1⟩, .Down, 71⟩ [])]), (.node ⟨⟨9, 2⟩, .Down, 66⟩ [])]), (.node ⟨⟨6, 8⟩, .Down, 72⟩ [(.node ⟨⟨6, 8⟩, .Up, 72⟩ [])]), (.node ⟨⟨4, 5⟩, .Right, 63⟩ [(.node ⟨⟨8, 6⟩, .Left, 69⟩ [(.node ⟨⟨9, 6⟩, .Left, 78⟩ [(.node ⟨⟨9, 6⟩, .Right, 78⟩ [])]), (.node ⟨⟨8, 6⟩, .Right, 69⟩ [])]), (.node ⟨⟨3, 5⟩, .Right, 71⟩ [(.node ⟨⟨3, 5⟩, .Left, 71⟩ [])]), (.node ⟨⟨4, 5⟩, .Left, 63⟩ [])]), (.node ⟨⟨10, 4⟩, .Right, 67⟩ [])]), (.node ⟨⟨7, 11⟩, .Left, 71⟩ [(.node ⟨⟨4, 7⟩, .Up, 67⟩ [(.node ⟨⟨4, 6⟩, .Up, 74⟩ [(.node ⟨⟨4, 6⟩, .Down, 74⟩ [])]), (.node ⟨⟨4, 7⟩, .Down, 67⟩ [])]), (.node ⟨⟨1, 8⟩, .Right, 64⟩ [(.node ⟨⟨1, 8⟩, .Left, 64⟩ [])]), (.node ⟨⟨12, 6⟩, .Down, 77⟩ [(.node ⟨⟨12, 7⟩, .Down, 83⟩ [(.node ⟨⟨12, 7⟩, .Up, 83⟩ [])]), (.node ⟨⟨12, 6⟩, .Up, 77⟩ [])]), (.node ⟨⟨1, 7⟩, .Right, 65⟩ [(.node ⟨⟨1, 7⟩, .Left, 65⟩ [])]), (.node ⟨⟨5, 9⟩, .Down, 70⟩ [(.node ⟨⟨5, 9⟩, .Up, 70⟩ [])]), (.node ⟨⟨7, 11⟩, .Right, 71⟩ [])]), (.node ⟨⟨7, 4⟩, .Up, 64⟩ [(.node ⟨⟨7, 3⟩, .Up, 71⟩ [(.node ⟨⟨7, 2⟩, .Up, 74⟩ [(.node ⟨⟨7, 2⟩, .Down, 74⟩ [])]), (.node ⟨⟨7, 3⟩, .Down, 71⟩ [])]), (.node ⟨⟨7, 4⟩, .Down, 64⟩ [])]), (.node ⟨⟨6, 10⟩, .Left, 71⟩ [(.node ⟨⟨7, 8⟩, .Left, 77⟩ [(.node ⟨⟨8, 8⟩, .Left, 85⟩ [(.node ⟨⟨8, 8⟩, .Right, 85⟩ [])]), (.node ⟨⟨7, 8⟩, .Right, 77⟩ [])]), (.node ⟨⟨6, 10⟩, .Up, 73⟩ [(.node ⟨⟨6, 10⟩, .Down, 73⟩ [])]), (.node ⟨⟨6, 10⟩, .Right, 71⟩ [])]), (.node ⟨⟨9, 5⟩, .Right, 79⟩ [(.node ⟨⟨8, 5⟩, .Right, 85⟩ [(.node ⟨⟨8, 5⟩, .Left, 85⟩ [])]), (.node ⟨⟨9, 5⟩, .Left, 79⟩ [])]), (.node ⟨⟨6, 9⟩, .Left, 68⟩ [(.node ⟨⟨3, 7⟩, .Up, 64⟩ [(.node ⟨⟨3, 7⟩, .Down, 64⟩ [])]), (.node ⟨⟨6, 9⟩, .Right, 68⟩ [])]), (.node ⟨⟨4, 5⟩, .Up, 68⟩ [(.node ⟨⟨4, 5⟩, .Down, 68⟩ [])]), (.node ⟨⟨4, 6⟩, .Down, 63⟩ [])]), (.node ⟨⟨6, 0⟩, .Right, 59⟩ [(.node ⟨⟨3, 6⟩, .Up, 63⟩ [(.node ⟨⟨3, 6⟩, .Down, 63⟩ [])]), (.node ⟨⟨2, 9⟩, .Right, 64⟩ [(.node ⟨⟨7, 1⟩, .Up, 66⟩ [(.node ⟨⟨7, 1⟩, .Down, 66⟩ [])]), (.node ⟨⟨6, 8⟩, .Down, 70⟩ [(.node ⟨⟨6, 8⟩, .Up, 70⟩ [])]), (.node ⟨⟨7, 7⟩, .Left, 71⟩ [(.node ⟨⟨7, 7⟩, .Right, 71⟩ [])]), (.node ⟨⟨1, 9⟩, .Right, 69⟩ [(.node ⟨⟨1, 9⟩, .Left, 69⟩ [])]), (.node ⟨⟨2, 9⟩, .Left, 64⟩ [])]), (.node ⟨⟨4, 12⟩, .Right, 70⟩ [(.node ⟨⟨7, 1⟩, .Right, 63⟩ [(.node ⟨⟨7, 1⟩, .Left, 63⟩ [])]), (.node ⟨⟨7, 12⟩, .Left, 73⟩ [(.node ⟨⟨8, 12⟩, .Left, 80⟩ [(.node ⟨⟨8, 12⟩, .Right, 80⟩ [])]), (.node ⟨⟨7, 12⟩, .Right, 73⟩ [])]), (.node ⟨⟨4, 12⟩, .Left, 70⟩ [])]), (.node ⟨⟨3, 6⟩, .Right, 62⟩ [(.node ⟨⟨2, 6⟩, .Right, 67⟩ [(.node ⟨⟨2, 6⟩, .Left, 67⟩ [])]), (.node ⟨⟨3, 6⟩, .Left, 62⟩ [])]), (.node ⟨⟨2, 5⟩, .Right, 60⟩ [(.node ⟨⟨2, 5⟩, .Left, 60⟩ [])]), (.node ⟨⟨6, 0⟩, .Left, 59⟩ [])]), (.node ⟨⟨7, 4⟩, .Right, 68⟩ [(.node ⟨⟨6, 4⟩, .Right, 76⟩ [(.node ⟨⟨6, 4⟩, .Left, 76⟩ [])]), (.node ⟨⟨7, 4⟩, .Left, 68⟩ [])]), (.node ⟨⟨12, 5⟩, .Up, 69⟩ [])]), (.node ⟨⟨10, 3⟩, .Right, 66⟩ [(.node ⟨⟨11, 5⟩, .Left, 70⟩ [(.node ⟨⟨6, 3⟩, .Right, 67⟩ [(.node ⟨⟨6, 3⟩, .Left, 67⟩ [])]), (.node ⟨⟨12, 5⟩, .Left, 77⟩ [(.node ⟨⟨12, 5⟩, .Right, 77⟩ [])]), (.node ⟨⟨11, 5⟩, .Right, 70⟩ [])]), (.node ⟨⟨10, 6⟩, .Down, 72⟩ [(.node ⟨⟨10, 6⟩, .Up, 72⟩ [])]), (.node ⟨⟨6, 9⟩, .Left, 71⟩ [(.node ⟨⟨4, 9⟩, .Right, 71⟩ [(.node ⟨⟨9, 6⟩, .Left, 73⟩ [(.node ⟨⟨9, 6⟩, .Right, 73⟩ [])]), (.node ⟨⟨10, 6⟩, .Left, 79⟩ [(.node ⟨⟨11, 6⟩, .Left, 87⟩ [(.node ⟨⟨11, 6⟩, .Right, 87⟩ [])]), (.node ⟨⟨10, 6⟩, .Right, 79⟩ [])]), (.node ⟨⟨4, 9⟩, .Left, 71⟩ [])]), (.node ⟨⟨7, 9⟩, .Left, 80⟩ [(.node ⟨⟨8, 9⟩, .Left, 86⟩ [(.node ⟨⟨8, 9⟩, .Right, 86⟩ [])]), (.node ⟨⟨7, 9⟩, .Right, 80⟩ [])]), (.node ⟨⟨7, 6⟩, .Right, 71⟩ [(.node ⟨⟨6, 6⟩, .Right, 77⟩ [(.node ⟨⟨5, 6⟩, .Right, 85⟩ [(.node ⟨⟨5, 6⟩, .Left, 85⟩ [])]), (.node ⟨⟨6, 6⟩, .Left, 77⟩ [])]), (.node ⟨⟨3, 9⟩, .Right, 76⟩ [(.node ⟨⟨2, 9⟩, .Right, 80⟩ [(.node ⟨⟨2, 9⟩, .Left, 80⟩ [])]), (.node ⟨⟨3, 9⟩, .Left, 76⟩ [])]), (.node ⟨⟨7, 6⟩, .Left, 71⟩ [])]), (.node ⟨⟨6, 9⟩, .Right, 71⟩ [])]), (.node ⟨⟨5, 3⟩, .Up, 68⟩ [(.node ⟨⟨5, 3⟩, .Down, 68⟩ [])]), (.node ⟨⟨6, 10⟩, .Left, 69⟩ [(.node ⟨⟨8, 0⟩, .Right, 62⟩ [(.node ⟨⟨6, 3⟩, .Up, 64⟩ [(.node ⟨⟨6, 6⟩, .Up, 68⟩ [(.node ⟨⟨9, 4⟩, .Up, 69⟩ [(.node ⟨⟨9, 4⟩, .Down, 69⟩ [])]), (.node ⟨⟨6, 5⟩, .Up, 75⟩ [(.node ⟨⟨6, 4⟩, .Up, 83⟩ [(.node ⟨⟨6, 4⟩, .Down, 83⟩ [])]), (.node ⟨⟨6, 5⟩, .Down, 75⟩ [])]), (.node ⟨⟨3, 8⟩, .Right, 72⟩ [(.node ⟨⟨2, 8⟩, .Right, 77⟩ [(.node ⟨⟨2, 8⟩, .Left, 77⟩ [])]), (.node ⟨⟨3, 8⟩, .Left, 72⟩ [])]), (.node ⟨⟨6, 6⟩, .Down, 68⟩ [])]), (.node ⟨⟨9, 5⟩, .Left, 69⟩ [(.node ⟨⟨9, 5⟩, .Right, 69⟩ [])]), (.node ⟨⟨6, 2⟩, .Up, 69⟩ [(.node ⟨⟨6, 2⟩, .Down, 69⟩ [])]), (.node ⟨⟨6, 3⟩, .Down, 64⟩ [])]), (.node ⟨⟨8, 0⟩, .Left, 62⟩ [])]), (.node ⟨⟨10, 5⟩, .Left, 71⟩ [(.node ⟨⟨9, 3⟩, .Up, 73⟩ [(.node ⟨⟨9, 2⟩, .Up, 79⟩ [(.node ⟨⟨9, 2⟩, .Down, 79⟩ [])]), (.node ⟨⟨9, 3⟩, .Down, 73⟩ [])]), (.node ⟨⟨11, 5⟩, .Left, 75⟩ [(.node ⟨⟨11, 5⟩, .Right, 75⟩ [])]), (.node ⟨⟨10, 5⟩, .Right, 71⟩ [])]), (.node ⟨⟨7, 10⟩, .Left, 75⟩ [(.node ⟨⟨7, 10⟩, .Right, 75⟩ [])]), (.node ⟨⟨6, 10⟩, .Right, 69⟩ [])]), (.node ⟨⟨7, 5⟩, .Up, 68⟩ [(.node ⟨⟨7, 7⟩, .Down, 72⟩ [(.node ⟨⟨7, 8⟩, .Down, 79⟩ [(.node ⟨⟨7, 8⟩, .Up, 79⟩ [])]), (.node ⟨⟨7, 7⟩, .Up, 72⟩ [])]), (.node ⟨⟨7, 5⟩, .Down, 68⟩ [])]), (.node ⟨⟨5, 8⟩, .Up, 73⟩ [(.node ⟨⟨5, 7⟩, .Up, 80⟩ [(.node ⟨⟨5, 7⟩, .Down, 80⟩ [])]), (.node ⟨⟨5, 8⟩, .Down, 73⟩ [])]), (.node ⟨⟨9, 3⟩, .Right, 70⟩ [(.node ⟨⟨9, 3⟩, .Left, 70⟩ [])]), (.node ⟨⟨10, 3⟩, .Left, 66⟩ [])]), (.node ⟨⟨5, 10⟩, .Up, 72⟩ [(.node ⟨⟨10, 4⟩, .Right, 73⟩ [(.node ⟨⟨9, 4⟩, .Right, 79⟩ [(.node ⟨⟨9, 4⟩, .Left, 79⟩ [])]), (.node ⟨⟨10, 4⟩, .Left, 73⟩ [])]), (.node ⟨⟨5, 9⟩, .Up, 80⟩ [(.node ⟨⟨5, 9⟩, .Down, 80⟩ [])]), (.node ⟨⟨5, 10⟩, .Down, 72⟩ [])])]), (.node ⟨⟨6, 10⟩, .Down, 80⟩ [(.node ⟨⟨6, 11⟩, .Down, 86⟩ [(.node ⟨⟨6, 11⟩, .Up, 86⟩ [])]), (.node ⟨⟨6, 10⟩, .Up, 80⟩ [])]), (.node ⟨⟨5, 7⟩, .Up, 65⟩ [(.node ⟨⟨6, 6⟩, .Up, 81⟩ [(.node ⟨⟨6, 5⟩, .Up, 88⟩ [(.node ⟨⟨6, 5⟩, .Down, 88⟩ [])]), (.node ⟨⟨6, 6⟩, .Down, 81⟩ [])]), (.node ⟨⟨8, 7⟩, .Down, 75⟩ [(.node ⟨⟨8, 8⟩, .Down, 83⟩ [(.node ⟨⟨8, 8⟩, .Up, 83⟩ [])]), (.node ⟨⟨8, 7⟩, .Up, 75⟩ [])]), (.node ⟨⟨5, 8⟩, .Down, 66⟩ [(.node ⟨⟨9, 0⟩, .Right, 65⟩ [(.node ⟨⟨8, 4⟩, .Up, 68⟩ [(.node ⟨⟨8, 4⟩, .Down, 68⟩ [])]), (.node ⟨⟨9, 0⟩, .Left, 65⟩ [])]), (.node ⟨⟨5, 8⟩, .Up, 66⟩ [])]), (.node ⟨⟨6, 9⟩, .Left, 70⟩ [(.node ⟨⟨5, 7⟩, .Right, 70⟩ [(.node ⟨⟨6, 9⟩, .Up, 73⟩ [(.node ⟨⟨6, 9⟩, .Down, 73⟩ [])]), (.node ⟨⟨4, 7⟩, .Right, 78⟩ [(.node ⟨⟨3, 7⟩, .Right, 86⟩ [(.node ⟨⟨3, 7⟩, .Left, 86⟩ [])]), (.node ⟨⟨4, 7⟩, .Left, 78⟩ [])]), (.node ⟨⟨9, 6⟩, .Left, 79⟩ [(.node ⟨⟨10, 6⟩, .Left, 85⟩ [(.node ⟨⟨10, 6⟩, .Right, 85⟩ [])]), (.node ⟨⟨9, 6⟩, .Right, 79⟩ [])]), (.node ⟨⟨5, 7⟩, .Left, 70⟩ [])]), (.node ⟨⟨4, 8⟩, .Right, 68⟩ [(.node ⟨⟨4, 8⟩, .Left, 68⟩ [])]), (.node ⟨⟨7, 9⟩, .Left, 79⟩ [(.node ⟨⟨7, 9⟩, .Right, 79⟩ [])]), (.node ⟨⟨6, 9⟩, .Right, 70⟩ [])]), (.node ⟨⟨11, 6⟩, .Down, 72⟩ [(.node ⟨⟨11, 7⟩, .Down, 80⟩ [(.node ⟨⟨11, 7⟩, .Up, 80⟩ [])]), (.node ⟨⟨11, 6⟩, .Up, 72⟩ [])]), (.node ⟨⟨12, 5⟩, .Down, 73⟩ [(.node ⟨⟨12, 6⟩, .Down, 77⟩ [(.node ⟨⟨12, 6⟩, .Up, 77⟩ [])]), (.node ⟨⟨12, 5⟩, .Up, 73⟩ [])]), (.node ⟨⟨5, 7⟩, .Down, 65⟩ [])]), (.node ⟨⟨12, 0⟩, .Up, 69⟩ [(.node ⟨⟨6, 7⟩, .Up, 75⟩ [(.node ⟨⟨6, 7⟩, .Down, 75⟩ [])]), (.node ⟨⟨12, 0⟩, .Down, 69⟩ [])]), (.node ⟨⟨2, 12⟩, .Right, 67⟩ [(.node ⟨⟨11, 2⟩, .Up, 70⟩ [(.node ⟨⟨11, 1⟩, .Up, 75⟩ [(.node ⟨⟨11, 1⟩, .Down, 75⟩ [])]), (.node ⟨⟨11, 2⟩, .Down, 70⟩ [])]), (.node ⟨⟨6, 12⟩, .Left, 71⟩ [(.node ⟨⟨8, 4⟩, .Right, 70⟩ [(.node ⟨⟨4, 9⟩, .Up, 72⟩ [(.node ⟨⟨4, 9⟩, .Down, 72⟩ [])]), (.node ⟨⟨7, 4⟩, .Right, 78⟩ [(.node ⟨⟨7, 4⟩, .Left, 78⟩ [])]), (.node ⟨⟨8, 4⟩, .Left, 70⟩ [])]), (.node ⟨⟨11, 0⟩, .Up, 66⟩ [(.node ⟨⟨11, 0⟩, .Down, 66⟩ [])]), (.node ⟨⟨7, 12⟩, .Left, 74⟩ [(.node ⟨⟨7, 12⟩, .Right, 74⟩ [])]), (.node ⟨⟨6, 12⟩, .Right, 71⟩ [])]), (.node ⟨⟨1, 11⟩, .Right, 67⟩ [(.node ⟨⟨1, 11⟩, .Left, 67⟩ [])]), (.node ⟨⟨7, 3⟩, .Right, 67⟩ [(.node ⟨⟨7, 3⟩, .Left, 67⟩ [])]), (.node ⟨⟨7, 11⟩, .Left, 72⟩ [(.node ⟨⟨8, 11⟩, .Left, 80⟩ [(.node ⟨⟨8, 11⟩, .Right, 80⟩ [])]), (.node ⟨⟨7, 11⟩, .Right, 72⟩ [])]), (.node ⟨⟨1, 12⟩, .Right, 70⟩ [(.node ⟨⟨1, 12⟩, .Left, 70⟩ [])]), (.node ⟨⟨2, 12⟩, .Left, 67⟩ [])]), (.node ⟨⟨5, 11⟩, .Down, 70⟩ [(.node ⟨⟨9, 4⟩, .Right, 72⟩ [(.node ⟨⟨8, 4⟩, .Right, 81⟩ [(.node ⟨⟨8, 4⟩, .Left, 81⟩ [])]), (.node ⟨⟨9, 4⟩, .Left, 72⟩ [])]), (.node ⟨⟨6, 8⟩, .Left, 70⟩ [(.node ⟨⟨6, 8⟩, .Right, 70⟩ [])]), (.node ⟨⟨5, 7⟩, .Up, 77⟩ [(.node ⟨⟨5, 6⟩, .Up, 85⟩ [(.node ⟨⟨5, 6⟩, .Down, 85⟩ [])]), (.node ⟨⟨5, 7⟩, .Down, 77⟩ [])]), (.node ⟨⟨5, 12⟩, .Down, 74⟩ [(.node ⟨⟨5, 12⟩, .Up, 74⟩ [])]), (.node ⟨⟨5, 11⟩, .Up, 70⟩ [])]), (.node ⟨⟨6, 4⟩, .Right, 66⟩ [(.node ⟨⟨9, 6⟩, .Down, 72⟩ [(.node ⟨⟨9, 7⟩, .Down, 81⟩ [(.node ⟨⟨9, 7⟩, .Up, 81⟩ [])]), (.node ⟨⟨9, 6⟩, .Up, 72⟩ [])]), (.node ⟨⟨4, 6⟩, .Right, 70⟩ [(.node ⟨⟨3, 6⟩, .Right, 75⟩ [(.node ⟨⟨3, 6⟩, .Left, 75⟩ [])]), (.node ⟨⟨4, 6⟩, .Left, 70⟩ [])]), (.node ⟨⟨5, 4⟩, .Right, 71⟩ [(.node ⟨⟨5, 4⟩, .Left, 71⟩ [])]), (.node ⟨⟨6, 4⟩, .Left, 66⟩ [])])])

/-- Simulation snapshot: visited set after segment 8 of the day-17 a-run. -/
def d17aSeen9 : SeenTree := (.branch (.branch .leaf (0, 0, 0) .leaf) (0, 0, 1) (.branch (.branch .leaf (0, 0, 2) .leaf) (0, 0, 3) (.branch (.branch (.branch .leaf (0, 1, 0) .leaf) (0, 1, 1) (.branch (.branch (.branch (.branch .leaf (0, 1, 2) .leaf) (0, 1, 3) .leaf) (0, 2, 0) .leaf) (0, 2, 1) (.branch (.branch .leaf (0, 2, 2) .leaf) (0, 2, 3) (.branch (.branch .leaf (0, 3, 0) .leaf) (0, 3, 1) (.branch (.branch (.branch (.branch (.branch .leaf (0, 3, 2) .leaf) (0, 3, 3) .leaf) (0, 4, 0) .leaf) (0, 4, 1) (.branch (.branch (.branch (.branch .leaf (0, 4, 2) .leaf) (0, 4, 3) .leaf) (0, 5, 0) .leaf) (0, 5, 1) (.branch (.branch (.branch (.branch .leaf (0, 5, 2) .leaf) (0, 5, 3) .leaf) (0, 6, 0) .leaf) (0, 6, 1) (.branch (.branch (.branch (.branch .leaf (0, 6, 2) .leaf) (0, 6, 3) .leaf) (0, 7, 0) .leaf) (0, 7, 1) (.branch (.branch (.branch (.branch .leaf (0, 7, 2) .leaf) (0, 7, 3) .leaf) (0, 8, 0) .leaf) (0, 8, 1) (.branch (.branch (.branch (.branch .leaf (0, 8, 2) .leaf) (0, 8, 3) .leaf) (0, 9, 0) .leaf) (0, 9, 1) (.branch (.branch (.branch (.branch .leaf (0, 9, 2) .leaf) (0, 9, 3) .leaf) (0, 10, 0) .leaf) (0, 10, 1) (.branch (.branch (.branch (.branch .leaf (0, 10, 2) .leaf) (0, 10, 3) .leaf) (0, 11, 0) .leaf) (0, 11, 1) (.branch (.branch (.branch (.branch .leaf (0, 11, 2) .leaf) (0, 11, 3) .leaf) (0, 12, 0) .leaf) (0, 12, 1) (.branch (.branch .leaf (0, 12, 2) .leaf) (0, 12, 3) .leaf)))))))))) (1, 0, 0) (.branch .leaf (1, 0, 1) .leaf)))))) (1, 0, 2) (.branch .leaf (1, 0, 3) (.branch (.branch .leaf (1, 1, 0) .leaf) (1, 1, 1) (.branch (.branch (.branch (.branch .leaf (1, 1, 2) (.branch .leaf (1, 1, 3) .leaf)) (1, 2, 0) .leaf) (1, 2, 1) .leaf) (1, 2, 2) (.branch .leaf (1, 2, 3) (.branch (.branch (.branch .leaf (1, 3, 0) .leaf) (1, 3, 1) (.branch (.branch .leaf (1, 3, 2) (.branch .leaf (1, 3, 3) (.branch (.branch .leaf (1, 4, 0) .leaf) (1, 4, 1) (.branch .leaf (1, 4, 2) (.branch .leaf (1, 4, 3) (.branch (.branch .leaf (1, 5, 0) .leaf) (1, 5, 1) (.branch .leaf (1, 5, 2) (.branch .leaf (1, 5, 3) (.branch (.branch .leaf (1, 6, 0) .leaf) (1, 6, 1) (.branch .leaf (1, 6, 2) (.branch .leaf (1, 6, 3) (.branch (.branch .leaf (1, 7, 0) .leaf) (1, 7, 1) (.branch (.branch .leaf (1, 7, 2) (.branch .leaf (1, 7, 3) (.branch (.branch .leaf (1, 8, 0) .leaf) (1, 8, 1) .leaf))) (1, 8, 2) (.branch .leaf (1, 8, 3) (.branch (.branch .leaf (1, 9, 0) .leaf) (1, 9, 1) (.branch .leaf (1, 9, 2) (.branch .leaf (1, 9, 3) (.branch (.branch (.branch .leaf (1, 10, 0) .leaf) (1, 10, 1) (.branch .leaf (1, 10, 2) (.branch .leaf (1, 10, 3) (.branch (.branch .leaf (1, 11, 0) .leaf) (1, 11, 1) .leaf)))) (1, 11, 2) (.branch .leaf (1, 11, 3) (.branch (.branch .leaf (1, 12, 0) .leaf) (1, 12, 1) (.branch .leaf (1, 12, 2) (.branch .leaf (1, 12, 3) .leaf)))))))))))))))))))))) (2, 0, 0) (.branch .leaf (2, 0, 1) .leaf))) (2, 0, 2) (.branch .leaf (2, 0, 3) (.branch (.branch (.branch .leaf (2, 1, 0) .leaf) (2, 1, 1) .leaf) (2, 1, 2) (.branch .leaf (2, 1, 3) (.branch (.branch (.branch (.branch .leaf (2, 2, 0) .leaf) (2, 2, 1) .leaf) (2, 2, 2) (.branch .leaf (2, 2, 3) (.branch (.branch (.branch .leaf (2, 3, 0) .leaf) (2, 3, 1) (.branch .leaf (2, 3, 2) (.branch .leaf (2, 3, 3) (.branch (.branch (.branch .leaf (2, 4, 0) .leaf) (2, 4, 1) .leaf) (2, 4, 2) (.branch .leaf (2, 4, 3) (.branch (.branch .leaf (2, 5, 0) .leaf) (2, 5, 1) (.branch .leaf (2, 5, 2) (.branch .leaf (2, 5, 3) (.branch (.branch .leaf (2, 6, 0) .leaf) (2, 6, 1) (.branch .leaf (2, 6, 2) (.branch .leaf (2, 6, 3) (.branch (.branch .leaf (2, 7, 0) .leaf) (2, 7, 1) (.branch .leaf (2, 7, 2) (.branch .leaf (2, 7, 3) (.branch (.branch (.branch .leaf (2, 8, 0) .leaf) (2, 8, 1) .leaf) (2, 8, 2) (.branch .leaf (2, 8, 3) (.branch (.branch (.branch .leaf (2, 9, 0) .leaf) (2, 9, 1) .leaf) (2, 9, 2) (.branch .leaf (2, 9, 3) (.branch (.branch .leaf (2, 10, 0) .leaf) (2, 10, 1) (.branch .leaf (2, 10, 2) (.branch .leaf (2, 10, 3) (.branch (.branch (.branch .leaf (2, 11, 0) .leaf) (2, 11, 1) .leaf) (2, 11, 2) (.branch .leaf (2, 11, 3) (.branch (.branch (.branch .leaf (2, 12, 0) .leaf) (2, 12, 1) .leaf) (2, 12, 2) (.branch .leaf (2, 12, 3) .leaf))))))))))))))))))))))))) (3, 0, 0) (.branch .leaf (3, 0, 1) .leaf)))) (3, 0, 2) (.branch .leaf (3, 0, 3) (.branch (.branch (.branch .leaf (3, 1, 0) .leaf) (3, 1, 1) .leaf) (3, 1, 2) (.branch .leaf (3, 1, 3) (.branch (.branch .leaf (3, 2, 0) .leaf) (3, 2, 1) (.branch .leaf (3, 2, 2) (.branch .leaf (3, 2, 3) (.branch (.branch (.branch (.branch .leaf (3, 3, 0) .leaf) (3, 3, 1) (.branch (.branch .leaf (3, 3, 2) (.branch .leaf (3, 3, 3) (.branch (.branch .leaf (3, 4, 0) .leaf) (3, 4, 1) .leaf))) (3, 4, 2) (.branch .leaf (3, 4, 3) (.branch (.branch (.branch (.branch .leaf (3, 5, 0) .leaf) (3, 5, 1) .leaf) (3, 5, 2) (.branch .leaf (3, 5, 3) (.branch (.branch (.branch .leaf (3, 6, 0) .leaf) (3, 6, 1) .leaf) (3, 6, 2) (.branch .leaf (3, 6, 3) (.branch (.branch .leaf (3, 7, 0) .leaf) (3, 7, 1) (.branch .leaf (3, 7, 2) (.branch .leaf (3, 7, 3) (.branch (.branch (.branch .leaf (3, 8, 0) .leaf) (3, 8, 1) .leaf) (3, 8, 2) (.branch .leaf (3, 8, 3) (.branch (.branch (.branch .leaf (3, 9, 0) .leaf) (3, 9, 1) .leaf) (3, 9, 2) (.branch .leaf (3, 9, 3) (.branch (.branch (.branch .leaf (3, 10, 0) .leaf) (3, 10, 1) .leaf) (3, 10, 2) (.branch .leaf (3, 10, 3) (.branch (.branch (.branch .leaf (3, 11, 0) .leaf) (3, 11, 1) (.branch .leaf (3, 11, 2) (.branch .leaf (3, 11, 3) (.branch (.branch .leaf (3, 12, 0) .leaf) (3, 12, 1) .leaf)))) (3, 12, 2) (.branch .leaf (3, 12, 3) .leaf))))))))))))))) (4, 0, 0) (.branch .leaf (4, 0, 1) .leaf))))) (4, 0, 2) (.branch .leaf (4, 0, 3) (.branch (.branch .leaf (4, 1, 0) .leaf) (4, 1, 1) .leaf))) (4, 1, 2) (.branch .leaf (4, 1, 3) (.branch (.branch (.branch (.branch .leaf (4, 2, 0) .leaf) (4, 2, 1) .leaf) (4, 2, 2) (.branch .leaf (4, 2, 3) (.branch (.branch (.branch .leaf (4, 3, 0) .leaf) (4, 3, 1) (.branch .leaf (4, 3, 2) (.branch .leaf (4, 3, 3) (.branch (.branch (.branch .leaf (4, 4, 0) .leaf) (4, 4, 1) .leaf) (4, 4, 2) (.branch .leaf (4, 4, 3) (.branch (.branch .leaf (4, 5, 0) .leaf) (4, 5, 1) (.branch .leaf (4, 5, 2) (.branch .leaf (4, 5, 3) (.branch (.branch (.branch .leaf (4, 6, 0) .leaf) (4, 6, 1) .leaf) (4, 6, 2) (.branch .leaf (4, 6, 3) (.branch (.branch .leaf (4, 7, 0) .leaf) (4, 7, 1) (.branch .leaf (4, 7, 2) (.branch .leaf (4, 7, 3) (.branch (.branch (.branch .leaf (4, 8, 0) .leaf) (4, 8, 1) .leaf) (4, 8, 2) (.branch .leaf (4, 8, 3) (.branch (.branch (.branch (.branch .leaf (4, 9, 0) .leaf) (4, 9, 1) .leaf) (4, 9, 2) (.branch .leaf (4, 9, 3) (.branch (.branch .leaf (4, 10, 0) .leaf) (4, 10, 1) .leaf))) (4, 10, 2) (.branch .leaf (4, 10, 3) (.branch (.branch (.branch .leaf (4, 11, 0) .leaf) (4, 11, 1) .leaf) (4, 11, 2) (.branch .leaf (4, 11, 3) (.branch (.branch (.branch .leaf (4, 12, 0) .leaf) (4, 12, 1) .leaf) (4, 12, 2) (.branch .leaf (4, 12, 3) .leaf))))))))))))))))))))) (5, 0, 0) (.branch .leaf (5, 0, 1) .leaf)))) (5, 0, 2) (.branch .leaf (5, 0, 3) (.branch (.branch (.branch .leaf (5, 1, 0) .leaf) (5, 1, 1) .leaf) (5, 1, 2) (.branch .leaf (5, 1, 3) (.branch (.branch (.branch .leaf (5, 2, 0) .leaf) (5, 2, 1) .leaf) (5, 2, 2) (.branch .leaf (5, 2, 3) (.branch (.branch (.branch .leaf (5, 3, 0) .leaf) (5, 3, 1) (.branch (.branch .leaf (5, 3, 2) (.branch .leaf (5, 3, 3) (.branch (.branch (.branch .leaf (5, 4, 0) .leaf) (5, 4, 1) .leaf) (5, 4, 2) (.branch .leaf (5, 4, 3) (.branch (.branch (.branch .leaf (5, 5, 0) .leaf) (5, 5, 1) .leaf) (5, 5, 2) (.branch .leaf (5, 5, 3) (.branch (.branch (.branch .leaf (5, 6, 0) .leaf) (5, 6, 1) .leaf) (5, 6, 2) (.branch .leaf (5, 6, 3) (.branch (.branch .leaf (5, 7, 0) .leaf) (5, 7, 1) (.branch .leaf (5, 7, 2) (.branch .leaf (5, 7, 3) (.branch (.branch (.branch (.branch .leaf (5, 8, 0) .leaf) (5, 8, 1) .leaf) (5, 8, 2) (.branch .leaf (5, 8, 3) (.branch (.branch .leaf (5, 9, 0) (.branch .leaf (5, 9, 1) .leaf)) (5, 9, 2) (.branch .leaf (5, 9, 3) (.branch .leaf (5, 10, 0) (.branch .leaf (5, 10, 1) .leaf)))))) (5, 10, 2) (.branch .leaf (5, 10, 3) (.branch (.branch (.branch .leaf (5, 11, 0) .leaf) (5, 11, 1) .leaf) (5, 11, 2) (.branch .leaf (5, 11, 3) (.branch (.branch (.branch .leaf (5, 12, 0) .leaf) (5, 12, 1) .leaf) (5, 12, 2) (.branch .leaf (5, 12, 3) .leaf))))))))))))))))) (6, 0, 0) (.branch .leaf (6, 0, 1) .leaf))) (6, 0, 2) (.branch .leaf (6, 0, 3) (.branch (.branch (.branch .leaf (6, 1, 0) .leaf) (6, 1, 1) .leaf) (6, 1, 2) (.branch .leaf (6, 1, 3) (.branch (.branch (.branch .leaf (6, 2, 0) .leaf) (6, 2, 1) .leaf) (6, 2, 2) (.branch .leaf (6, 2, 3) (.branch (.branch (.branch .leaf (6, 3, 0) .leaf) (6, 3, 1) (.branch (.branch .leaf (6, 3, 2) (.branch .leaf (6, 3, 3) (.branch (.branch .leaf (6, 4, 0) .leaf) (6, 4, 1) (.branch .leaf (6, 4, 2) (.branch .leaf (6, 4, 3) (.branch (.branch .leaf (6, 5, 0) .leaf) (6, 5, 1) (.branch .leaf (6, 5, 2) (.branch .leaf (6, 5, 3) (.branch (.branch (.branch .leaf (6, 6, 0) .leaf) (6, 6, 1) .leaf) (6, 6, 2) (.branch .leaf (6, 6, 3) (.branch (.branch (.branch .leaf (6, 7, 0) .leaf) (6, 7, 1) .leaf) (6, 7, 2) (.branch .leaf (6, 7, 3) (.branch (.branch (.branch (.branch (.branch .leaf (6, 8, 0) .leaf) (6, 8, 1) .leaf) (6, 8, 2) (.branch .leaf (6, 8, 3) (.branch .leaf (6, 9, 2) (.branch .leaf (6, 9, 3) (.branch .leaf (6, 10, 0) (.branch .leaf (6, 10, 1) .leaf)))))) (6, 10, 2) (.branch .leaf (6, 10, 3) (.branch (.branch .leaf (6, 11, 0) .leaf) (6, 11, 1) .leaf))) (6, 11, 2) (.branch .leaf (6, 11, 3) (.branch (.branch (.branch .leaf (6, 12, 0) .leaf) (6, 12, 1) .leaf) (6, 12, 2) (.branch .leaf (6, 12, 3) .leaf)))))))))))))))) (7, 0, 0) (.branch .leaf (7, 0, 1) .leaf))) (7, 0, 2) (.branch .leaf (7, 0, 3) (.branch (.branch (.branch (.branch .leaf (7, 1, 0) .leaf) (7, 1, 1) .leaf) (7, 1, 2) (.branch .leaf (7, 1, 3) (.branch (.branch .leaf (7, 2, 0) .leaf) (7, 2, 1) .leaf))) (7, 2, 2) (.branch .leaf (7, 2, 3) (.branch (.branch (.branch .leaf (7, 3, 0) .leaf) (7, 3, 1) (.branch .leaf (7, 3, 2) (.branch .leaf (7, 3, 3) (.branch (.branch (.branch .leaf (7, 4, 0) .leaf) (7, 4, 1) (.branch .leaf (7, 4, 2) (.branch .leaf (7, 4, 3) (.branch (.branch .leaf (7, 5, 0) .leaf) (7, 5, 1) (.branch .leaf (7, 5, 2) (.branch .leaf (7, 5, 3) (.branch (.branch (.branch .leaf (7, 6, 0) .leaf) (7, 6, 1) .leaf) (7, 6, 2) (.branch .leaf (7, 6, 3) (.branch (.branch (.branch .leaf (7, 7, 0) .leaf) (7, 7, 1) (.branch .leaf (7, 7, 2) (.branch .leaf (7, 7, 3) .leaf))) (7, 11, 2) (.branch .leaf (7, 11, 3) (.branch (.branch (.branch .leaf (7, 12, 0) .leaf) (7, 12, 1) .leaf) (7, 12, 2) (.branch .leaf (7, 12, 3) .leaf)))))))))))) (8, 0, 0) (.branch .leaf (8, 0, 1) .leaf))))) (8, 0, 2) (.branch .leaf (8, 0, 3) (.branch (.branch (.branch (.branch .leaf (8, 1, 0) .leaf) (8, 1, 1) .leaf) (8, 1, 2) (.branch .leaf (8, 1, 3) (.branch (.branch .leaf (8, 2, 0) .leaf) (8, 2, 1) .leaf))) (8, 2, 2) (.branch .leaf (8, 2, 3) (.branch (.branch .leaf (8, 3, 0) .leaf) (8, 3, 1) (.branch .leaf (8, 3, 2) (.branch .leaf (8, 3, 3) (.branch (.branch (.branch .leaf (8, 4, 0) .leaf) (8, 4, 1) (.branch (.branch .leaf (8, 4, 2) (.branch .leaf (8, 4, 3) (.branch (.branch .leaf (8, 5, 0) .leaf) (8, 5, 1) (.branch .leaf (8, 5, 2) (.branch .leaf (8, 5, 3) (.branch (.branch .leaf (8, 6, 0) .leaf) (8, 6, 1) (.branch .leaf (8, 6, 2) (.branch .leaf (8, 6, 3) .leaf)))))))) (9, 0, 0) (.branch .leaf (9, 0, 1) .leaf))) (9, 0, 2) (.branch .leaf (9, 0, 3) (.branch (.branch (.branch (.branch .leaf (9, 1, 0) .leaf) (9, 1, 1) .leaf) (9, 1, 2) (.branch .leaf (9, 1, 3) (.branch (.branch (.branch .leaf (9, 2, 0) .leaf) (9, 2, 1) .leaf) (9, 2, 2) (.branch .leaf (9, 2, 3) (.branch (.branch .leaf (9, 3, 0) .leaf) (9, 3, 1) .leaf))))) (9, 3, 2) (.branch .leaf (9, 3, 3) (.branch (.branch (.branch (.branch .leaf (9, 4, 0) .leaf) (9, 4, 1) (.branch .leaf (9, 4, 2) (.branch .leaf (9, 4, 3) (.branch (.branch .leaf (9, 5, 0) .leaf) (9, 5, 1) (.branch .leaf (9, 5, 2) (.branch .leaf (9, 5, 3) (.branch (.branch .leaf (9, 6, 0) .leaf) (9, 6, 1) .leaf))))))) (10, 0, 0) (.branch .leaf (10, 0, 1) .leaf)) (10, 0, 2) (.branch .leaf (10, 0, 3) (.branch (.branch .leaf (10, 1, 0) .leaf) (10, 1, 1) (.branch .leaf (10, 1, 2) (.branch .leaf (10, 1, 3) (.branch (.branch (.branch .leaf (10, 2, 0) .leaf) (10, 2, 1) .leaf) (10, 2, 2) (.branch .leaf (10, 2, 3) (.branch (.branch (.branch .leaf (10, 3, 0) .leaf) (10, 3, 1) .leaf) (10, 3, 2) (.branch .leaf (10, 3, 3) (.branch (.branch (.branch .leaf (10, 4, 0) .leaf) (10, 4, 1) (.branch (.branch .leaf (10, 4, 2) (.branch .leaf (10, 4, 3) (.branch (.branch .leaf (10, 5, 0) .leaf) (10, 5, 1) (.branch .leaf (10, 5, 2) (.branch .leaf (10, 5, 3) (.branch (.branch .leaf (10, 6, 0) .leaf) (10, 6, 1) (.branch .leaf (10, 6, 2) (.branch .leaf (10, 6, 3) .leaf)))))))) (11, 0, 0) (.branch .leaf (11, 0, 1) .leaf))) (11, 0, 2) (.branch .leaf (11, 0, 3) (.branch (.branch (.branch .leaf (11, 1, 0) .leaf) (11, 1, 1) .leaf) (11, 1, 2) (.branch .leaf (11, 1, 3) (.branch (.branch (.branch .leaf (11, 2, 0) .leaf) (11, 2, 1) .leaf) (11, 2, 2) (.branch .leaf (11, 2, 3) (.branch (.branch (.branch (.branch (.branch .leaf (11, 3, 0) .leaf) (11, 3, 1) .leaf) (11, 3, 2) (.branch .leaf (11, 3, 3) (.branch (.branch .leaf (11, 4, 0) .leaf) (11, 4, 1) (.branch .leaf (11, 4, 2) (.branch .leaf (11, 4, 3) (.branch (.branch (.branch .leaf (11, 5, 0) .leaf) (11, 5, 1) (.branch .leaf (11, 5, 2) (.branch .leaf (11, 5, 3) (.branch (.branch .leaf (11, 6, 0) .leaf) (11, 6, 1) .leaf)))) (12, 0, 0) (.branch .leaf (12, 0, 1) .leaf))))))) (12, 0, 2) (.branch .leaf (12, 0, 3) (.branch (.branch (.branch .leaf (12, 1, 0) .leaf) (12, 1, 1) .leaf) (12, 1, 2) (.branch .leaf (12, 1, 3) (.branch (.branch .leaf (12, 2, 0) .leaf) (12, 2, 1) .leaf))))) (12, 2, 2) (.branch .leaf (12, 2, 3) (.branch (.branch .leaf (12, 3, 0) .leaf) (12, 3, 1) (.branch .leaf (12, 3, 2) (.branch .leaf (12, 3, 3) (.branch (.branch .leaf (12, 4, 0) .leaf) (12, 4, 1) (.branch .leaf (12, 4, 2) (.branch .leaf (12, 4, 3) (.branch (.branch .leaf (12, 5, 0) .leaf) (12, 5, 1) (.branch .leaf (12, 5, 2) (.branch .leaf (12, 5, 3) (.branch (.branch .leaf (12, 6, 0) .leaf) (12, 6, 1) .leaf))))))))))))))))))))))))))))))))))))))))))))))))))))))))))))))))))))))))))

/-- Simulation snapshot: heap after segment 8 of the day-17 a-run. -/
def d17aHeap9 : Heap := (.node ⟨⟨10, 4⟩, .Up, 72⟩ [(.node ⟨⟨7, 7⟩, .Left, 72⟩ [(.node ⟨⟨7, 7⟩, .Up, 72⟩ [(.node ⟨⟨12, 5⟩, .Left, 77⟩ [(.node ⟨⟨12, 7⟩, .Down, 81⟩ [(.node ⟨⟨12, 3⟩, .Up, 79⟩ [(.node ⟨⟨12, 2⟩, .Up, 81⟩ [(.node ⟨⟨12, 2⟩, .Down, 81⟩ [])]), (.node ⟨⟨12, 3⟩, .Down, 79⟩ [])]), (.node ⟨⟨12, 8⟩, .Down, 86⟩ [(.node ⟨⟨12, 8⟩, .Up, 86⟩ [])]), (.node ⟨⟨12, 7⟩, .Up, 81⟩ [])]), (.node ⟨⟨12, 5⟩, .Right, 77⟩ [])]), (.node ⟨⟨5, 12⟩, .Right, 76⟩ [(.node ⟨⟨8, 12⟩, .Left, 82⟩ [(.node ⟨⟨9, 12⟩, .Left, 85⟩ [(.node ⟨⟨9, 12⟩, .Right, 85⟩ [])]), (.node ⟨⟨8, 12⟩, .Right, 82⟩ [])]), (.node ⟨⟨6, 2⟩, .Up, 69⟩ [(.node ⟨⟨6, 2⟩, .Down, 69⟩ [])]), (.node ⟨⟨5, 12⟩, .Left, 76⟩ [])]), (.node ⟨⟨8, 5⟩, .Up, 75⟩ [(.node ⟨⟨7, 8⟩, .Down, 79⟩ [(.node ⟨⟨7, 8⟩, .Up, 79⟩ [])]), (.node ⟨⟨8, 5⟩, .Down, 75⟩ [])])]), (.node ⟨⟨6, 10⟩, .Down, 75⟩ [(.node ⟨⟨5, 3⟩, .Up, 68⟩ [(.node ⟨⟨9, 6⟩, .Right, 78⟩ [(.node ⟨⟨9, 6⟩, .Left, 78⟩ [])]), (.node ⟨⟨5, 3⟩, .Down, 68⟩ [])]), (.node ⟨⟨6, 7⟩, .Right, 79⟩ [(.node ⟨⟨6, 7⟩, .Left, 79⟩ [])]), (.node ⟨⟨2, 11⟩, .Right, 74⟩ [(.node ⟨⟨2, 11⟩, .Left, 74⟩ [])]), (.node ⟨⟨7, 9⟩, .Up, 86⟩ [(.node ⟨⟨7, 8⟩, .Up, 93⟩ [(.node ⟨⟨7, 8⟩, .Down, 93⟩ [])]), (.node ⟨⟨7, 9⟩, .Down, 86⟩ [])]), (.node ⟨⟨11, 6⟩, .Left, 77⟩ [(.node ⟨⟨8, 6⟩, .Right, 85⟩ [(.node ⟨⟨7, 6⟩, .Right, 92⟩ [(.node ⟨⟨7, 6⟩, .Left, 92⟩ [])]), (.node ⟨⟨8, 6⟩, .Left, 85⟩ [])]), (.node ⟨⟨6, 11⟩, .Down, 81⟩ [(.node ⟨⟨6, 12⟩, .Down, 87⟩ [(.node ⟨⟨6, 12⟩, .Up, 87⟩ [])]), (.node ⟨⟨6, 11⟩, .Up, 81⟩ [])]), (.node ⟨⟨12, 6⟩, .Left, 81⟩ [(.node ⟨⟨12, 6⟩, .Right, 81⟩ [])]), (.node ⟨⟨11, 6⟩, .Right, 77⟩ [])]), (.node ⟨⟨6, 7⟩, .Up, 85⟩ [(.node ⟨⟨6, 6⟩, .Up, 91⟩ [(.node ⟨⟨6, 6⟩, .Down, 91⟩ [])]), (.node ⟨⟨6, 7⟩, .Down, 85⟩ [])]), (.node ⟨⟨6, 10⟩, .Up, 75⟩ [])]), (.node ⟨⟨5, 8⟩, .Up, 73⟩ [(.node ⟨⟨5, 7⟩, .Up, 80⟩ [(.node ⟨⟨5, 7⟩, .Down, 80⟩ [])]), (.node ⟨⟨5, 8⟩, .Down, 73⟩ [])]), (.node ⟨⟨6, 8⟩, .Down, 72⟩ [(.node ⟨⟨9, 1⟩, .Up, 71⟩ [(.node ⟨⟨9, 1⟩, .Down, 71⟩ [])]), (.node ⟨⟨11, 6⟩, .Down, 75⟩ [(.node ⟨⟨7, 8⟩, .Left, 77⟩ [(.node ⟨⟨7, 8⟩, .Right, 77⟩ [])]), (.node ⟨⟨3, 7⟩, .Right, 69⟩ [(.node ⟨⟨6, 9⟩, .Down, 77⟩ [(.node ⟨⟨9, 7⟩, .Down, 81⟩ [(.node ⟨⟨9, 8⟩, .Down, 89⟩ [(.node ⟨⟨9, 8⟩, .Up, 89⟩ [])]), (.node ⟨⟨9, 7⟩, .Up, 81⟩ [])]), (.node ⟨⟨6, 10⟩, .Down, 84⟩ [(.node ⟨⟨6, 10⟩, .Up, 84⟩ [])]), (.node ⟨⟨6, 9⟩, .Up, 77⟩ [])]), (.node ⟨⟨11, 6⟩, .Left, 81⟩ [(.node ⟨⟨12, 6⟩, .Left, 85⟩ [(.node ⟨⟨12, 6⟩, .Right, 85⟩ [])]), (.node ⟨⟨11, 6⟩, .Right, 81⟩ [])]), (.node ⟨⟨2, 7⟩, .Right, 75⟩ [(.node ⟨⟨2, 7⟩, .Left, 75⟩ [])]), (.node ⟨⟨3, 7⟩, .Left, 69⟩ [])]), (.node ⟨⟨5, 5⟩, .Right, 69⟩ [(.node ⟨⟨5, 10⟩, .Down, 74⟩ [(.node ⟨⟨5, 10⟩, .Up, 74⟩ [])]), (.node ⟨⟨4, 5⟩, .Right, 74⟩ [(.node ⟨⟨4, 5⟩, .Left, 74⟩ [])]), (.node ⟨⟨5, 5⟩, .Left, 69⟩ [])]), (.node ⟨⟨6, 8⟩, .Up, 76⟩ [(.node ⟨⟨6, 8⟩, .Down, 76⟩ [])]), (.node ⟨⟨11, 7⟩, .Down, 83⟩ [(.node ⟨⟨11, 8⟩, .Down, 91⟩ [(.node ⟨⟨11, 8⟩, .Up, 91⟩ [])]), (.node ⟨⟨11, 7⟩, .Up, 83⟩ [])]), (.node ⟨⟨11, 3⟩, .Up, 78⟩ [(.node ⟨⟨11, 2⟩, .Up, 82⟩ [(.node ⟨⟨11, 2⟩, .Down, 82⟩ [])]), (.node ⟨⟨11, 3⟩, .Down, 78⟩ [])]), (.node ⟨⟨11, 6⟩, .Up, 75⟩ [])]), (.node ⟨⟨6, 5⟩, .Right, 70⟩ [(.node ⟨⟨10, 7⟩, .Down, 79⟩ [(.node ⟨⟨10, 7⟩, .Up, 79⟩ [])]), (.node ⟨⟨5, 5⟩, .Right, 79⟩ [(.node ⟨⟨5, 5⟩, .Left, 79⟩ [])]), (.node ⟨⟨6, 5⟩, .Left, 70⟩ [])]), (.node ⟨⟨7, 10⟩, .Up, 77⟩ [(.node ⟨⟨7, 10⟩, .Down, 77⟩ [])]), (.node ⟨⟨6, 8⟩, .Up, 72⟩ [])]), (.node ⟨⟨8, 11⟩, .Left, 80⟩ [(.node ⟨⟨11, 6⟩, .Right, 83⟩ [(.node ⟨⟨11, 6⟩, .Left, 83⟩ [])]), (.node ⟨⟨5, 7⟩, .Up, 77⟩ [(.node ⟨⟨5, 6⟩, .Up, 85⟩ [(.node ⟨⟨5, 6⟩, .Down, 85⟩ [])]), (.node ⟨⟨5, 7⟩, .Down, 77⟩ [])]), (.node ⟨⟨8, 11⟩, .Right, 80⟩ [])]), (.node ⟨⟨12, 6⟩, .Left, 76⟩ [(.node ⟨⟨6, 4⟩, .Up, 69⟩ [(.node ⟨⟨5, 5⟩, .Up, 70⟩ [(.node ⟨⟨8, 3⟩, .Up, 72⟩ [(.node ⟨⟨8, 2⟩, .Up, 77⟩ [(.node ⟨⟨8, 2⟩, .Down, 77⟩ [])]), (.node ⟨⟨8, 3⟩, .Down, 72⟩ [])]), (.node ⟨⟨5, 4⟩, .Up, 75⟩ [(.node ⟨⟨5, 4⟩, .Down, 75⟩ [])]), (.node ⟨⟨5, 5⟩, .Down, 70⟩ [])]), (.node ⟨⟨6, 9⟩, .Down, 78⟩ [(.node ⟨⟨6, 9⟩, .Up, 78⟩ [])]), (.node ⟨⟨6, 3⟩, .Up, 76⟩ [(.node ⟨⟨6, 3⟩, .Down, 76⟩ [])]), (.node ⟨⟨6, 4⟩, .Down, 69⟩ [])]), (.node ⟨⟨4, 5⟩, .Up, 68⟩ [(.node ⟨⟨7, 8⟩, .Left, 77⟩ [(.node ⟨⟨8, 8⟩, .Left, 85⟩ [(.node ⟨⟨8, 8⟩, .Right, 85⟩ [])]), (.node ⟨⟨7, 8⟩, .Right, 77⟩ [])]), (.node ⟨⟨8, 7⟩, .Left, 81⟩ [(.node ⟨⟨9, 7⟩, .Left, 90⟩ [(.node ⟨⟨9, 7⟩, .Right, 90⟩ [])]), (.node ⟨⟨8, 7⟩, .Right, 81⟩ [])]), (.node ⟨⟨9, 5⟩, .Right, 79⟩ [(.node ⟨⟨8, 5⟩, .Right, 85⟩ [(.node ⟨⟨8, 5⟩, .Left, 85⟩ [])]), (.node ⟨⟨9, 5⟩, .Left, 79⟩ [])]), (.node ⟨⟨4, 5⟩, .Down, 68⟩ [])]), (.node ⟨⟨5, 10⟩, .Right, 77⟩ [(.node ⟨⟨7, 10⟩, .Left, 79⟩ [(.node ⟨⟨7, 10⟩, .Right, 79⟩ [])]), (.node ⟨⟨4, 10⟩, .Right, 82⟩ [(.node ⟨⟨3, 10⟩, .Right, 86⟩ [(.node ⟨⟨3, 10⟩, .Left, 86⟩ [])]), (.node ⟨⟨4, 10⟩, .Left, 82⟩ [])]), (.node ⟨⟨10, 4⟩, .Up, 87⟩ [(.node ⟨⟨10, 3⟩, .Up, 91⟩ [(.node ⟨⟨10, 3⟩, .Down, 91⟩ [])]), (.node ⟨⟨10, 4⟩, .Down, 87⟩ [])]), (.node ⟨⟨5, 10⟩, .Left, 77⟩ [])]), (.node ⟨⟨2, 6⟩, .Right, 67⟩ [(.node ⟨⟨7, 3⟩, .Up, 71⟩ [(.node ⟨⟨7, 2⟩, .Up, 74⟩ [(.node ⟨⟨7, 2⟩, .Down, 74⟩ [])]), (.node ⟨⟨7, 3⟩, .Down, 71⟩ [])]), (.node ⟨⟨6, 11⟩, .Up, 76⟩ [(.node ⟨⟨6, 10⟩, .Up, 83⟩ [(.node ⟨⟨6, 9⟩, .Up, 90⟩ [(.node ⟨⟨6, 9⟩, .Down, 90⟩ [])]), (.node ⟨⟨6, 10⟩, .Down, 83⟩ [])]), (.node ⟨⟨10, 5⟩, .Right, 81⟩ [(.node ⟨⟨9, 5⟩, .Right, 88⟩ [(.node ⟨⟨9, 5⟩, .Left, 88⟩ [])]), (.node ⟨⟨10, 5⟩, .Left, 81⟩ [])]), (.node ⟨⟨6, 11⟩, .Down, 76⟩ [])]), (.node ⟨⟨2, 6⟩, .Left, 67⟩ [])]), (.node ⟨⟨7, 7⟩, .Down, 73⟩ [(.node ⟨⟨12, 1⟩, .Up, 73⟩ [(.node ⟨⟨5, 7⟩, .Right, 86⟩ [(.node ⟨⟨4, 7⟩, .Right, 94⟩ [(.node ⟨⟨4, 7⟩, .Left, 94⟩ [])]), (.node ⟨⟨5, 7⟩, .Left, 86⟩ [])]), (.node ⟨⟨6, 12⟩, .Down, 78⟩ [(.node ⟨⟨6, 12⟩, .Up, 78⟩ [])]), (.node ⟨⟨12, 1⟩, .Down, 73⟩ [])]), (.node ⟨⟨4, 8⟩, .Up, 73⟩ [(.node ⟨⟨5, 6⟩, .Right, 77⟩ [(.node ⟨⟨6, 8⟩, .Up, 81⟩ [(.node ⟨⟨6, 7⟩, .Up, 90⟩ [(.node ⟨⟨6, 7⟩, .Down, 90⟩ [])]), (.node ⟨⟨6, 8⟩, .Down, 81⟩ [])]), (.node ⟨⟨4, 6⟩, .Right, 84⟩ [(.node ⟨⟨4, 6⟩, .Left, 84⟩ [])]), (.node ⟨⟨5, 6⟩, .Left, 77⟩ [])]), (.node ⟨⟨4, 8⟩, .Down, 73⟩ [])]), (.node ⟨⟨7, 11⟩, .Up, 78⟩ [(.node ⟨⟨7, 10⟩, .Up, 84⟩ [(.node ⟨⟨7, 9⟩, .Up, 93⟩ [(.node ⟨⟨7, 9⟩, .Down, 93⟩ [])]), (.node ⟨⟨7, 10⟩, .Down, 84⟩ [])]), (.node ⟨⟨4, 12⟩, .Right, 82⟩ [(.node ⟨⟨3, 12⟩, .Right, 84⟩ [(.node ⟨⟨3, 12⟩, .Left, 84⟩ [])]), (.node ⟨⟨4, 12⟩, .Left, 82⟩ [])]), (.node ⟨⟨7, 11⟩, .Down, 78⟩ [])]), (.node ⟨⟨7, 7⟩, .Up, 73⟩ [])]), (.node ⟨⟨6, 4⟩, .Right, 76⟩ [(.node ⟨⟨6, 4⟩, .Left, 76⟩ [])]), (.node ⟨⟨7, 11⟩, .Left, 77⟩ [(.node ⟨⟨7, 11⟩, .Right, 77⟩ [])]), (.node ⟨⟨5, 6⟩, .Up, 73⟩ [(.node ⟨⟨3, 5⟩, .Right, 71⟩ [(.node ⟨⟨3, 5⟩, .Left, 71⟩ [])]), (.node ⟨⟨5, 5⟩, .Up, 82⟩ [(.node ⟨⟨5, 5⟩, .Down, 82⟩ [])]), (.node ⟨⟨5, 6⟩, .Down, 73⟩ [])]), (.node ⟨⟨9, 6⟩, .Left, 78⟩ [(.node ⟨⟨9, 6⟩, .Right, 78⟩ [])]), (.node ⟨⟨12, 6⟩, .Right, 76⟩ [])]), (.node ⟨⟨10, 7⟩, .Down, 81⟩ [(.node ⟨⟨10, 8⟩, .Down, 87⟩ [(.node ⟨⟨10, 9⟩, .Down, 92⟩ [(.node ⟨⟨10, 9⟩, .Up, 92⟩ [])]), (.node ⟨⟨10, 8⟩, .Up, 87⟩ [])]), (.node ⟨⟨8, 10⟩, .Left, 87⟩ [(.node ⟨⟨9, 10⟩, .Left, 91⟩ [(.node ⟨⟨9, 10⟩, .Right, 91⟩ [])]), (.node ⟨⟨8, 10⟩, .Right, 87⟩ [])]), (.node ⟨⟨10, 7⟩, .Up, 81⟩ [])]), (.node ⟨⟨8, 5⟩, .Right, 76⟩ [(.node ⟨⟨5, 8⟩, .Right, 79⟩ [(.node ⟨⟨5, 8⟩, .Left, 79⟩ [])]), (.node ⟨⟨7, 5⟩, .Right, 83⟩ [(.node ⟨⟨7, 5⟩, .Left, 83⟩ [])]), (.node ⟨⟨8, 5⟩, .Left, 76⟩ [])]), (.node ⟨⟨8, 7⟩, .Left, 79⟩ [(.node ⟨⟨9, 7⟩, .Left, 88⟩ [(.node ⟨⟨10, 7⟩, .Left, 96⟩ [(.node ⟨⟨10, 7⟩, .Right, 96⟩ [])]), (.node ⟨⟨9, 7⟩, .Right, 88⟩ [])]), (.node ⟨⟨8, 7⟩, .Right, 79⟩ [])]), (.node ⟨⟨7, 7⟩, .Right, 72⟩ [])]), (.node ⟨⟨9, 6⟩, .Left, 73⟩ [(.node ⟨⟨3, 9⟩, .Right, 76⟩ [(.node ⟨⟨7, 9⟩, .Left, 80⟩ [(.node ⟨⟨8, 9⟩, .Left, 86⟩ [(.node ⟨⟨8, 9⟩, .Right, 86⟩ [])]), (.node ⟨⟨7, 9⟩, .Right, 80⟩ [])]), (.node ⟨⟨6, 6⟩, .Right, 77⟩ [(.node ⟨⟨5, 6⟩, .Right, 85⟩ [(.node ⟨⟨5, 6⟩, .Left, 85⟩ [])]), (.node ⟨⟨6, 6⟩, .Left, 77⟩ [])]), (.node ⟨⟨2, 9⟩, .Right, 80⟩ [(.node ⟨⟨2, 9⟩, .Left, 80⟩ [])]), (.node ⟨⟨3, 9⟩, .Left, 76⟩ [])]), (.node ⟨⟨10, 6⟩, .Left, 79⟩ [(.node ⟨⟨11, 6⟩, .Left, 87⟩ [(.node ⟨⟨11, 6⟩, .Right, 87⟩ [])]), (.node ⟨⟨10, 6⟩, .Right, 79⟩ [])]), (.node ⟨⟨9, 6⟩, .Right, 73⟩ [])]), (.node ⟨⟨6, 9⟩, .Down, 73⟩ [(.node ⟨⟨7, 10⟩, .Left, 75⟩ [(.node ⟨⟨10, 4⟩, .Right, 73⟩ [(.node ⟨⟨4, 6⟩, .Right, 70⟩ [(.node ⟨⟨10, 5⟩, .Up, 81⟩ [(.node ⟨⟨10, 5⟩, .Down, 81⟩ [])]), (.node ⟨⟨9, 7⟩, .Down, 81⟩ [(.node ⟨⟨9, 7⟩, .Up, 81⟩ [])]), (.node ⟨⟨5, 4⟩, .Right, 71⟩ [(.node ⟨⟨5, 4⟩, .Left, 71⟩ [])]), (.node ⟨⟨3, 6⟩, .Right, 75⟩ [(.node ⟨⟨3, 6⟩, .Left, 75⟩ [])]), (.node ⟨⟨4, 6⟩, .Left, 70⟩ [])]), (.node ⟨⟨12, 6⟩, .Down, 77⟩ [(.node ⟨⟨6, 7⟩, .Up, 75⟩ [(.node ⟨⟨6, 7⟩, .Down, 75⟩ [])]), (.node ⟨⟨12, 6⟩, .Up, 77⟩ [])]), (.node ⟨⟨5, 9⟩, .Up, 80⟩ [(.node ⟨⟨5, 9⟩, .Down, 80⟩ [])]), (.node ⟨⟨8, 6⟩, .Right, 74⟩ [(.node ⟨⟨7, 6⟩, .Right, 81⟩ [(.node ⟨⟨6, 6⟩, .Right, 87⟩ [(.node ⟨⟨6, 6⟩, .Left, 87⟩ [])]), (.node ⟨⟨7, 6⟩, .Left, 81⟩ [])]), (.node ⟨⟨8, 6⟩, .Left, 74⟩ [])]), (.node ⟨⟨9, 4⟩, .Right, 79⟩ [(.node ⟨⟨9, 4⟩, .Left, 79⟩ [])]), (.node ⟨⟨10, 4⟩, .Left, 73⟩ [])]), (.node ⟨⟨4, 9⟩, .Up, 72⟩ [(.node ⟨⟨7, 4⟩, .Right, 78⟩ [(.node ⟨⟨7, 4⟩, .Left, 78⟩ [])]), (.node ⟨⟨4, 9⟩, .Down, 72⟩ [])]), (.node ⟨⟨11, 1⟩, .Up, 75⟩ [(.node ⟨⟨11, 1⟩, .Down, 75⟩ [])]), (.node ⟨⟨12, 6⟩, .Down, 77⟩ [(.node ⟨⟨3, 8⟩, .Right, 72⟩ [(.node ⟨⟨6, 5⟩, .Up, 75⟩ [(.node ⟨⟨6, 4⟩, .Up, 83⟩ [(.node ⟨⟨6, 4⟩, .Down, 83⟩ [])]), (.node ⟨⟨6, 5⟩, .Down, 75⟩ [])]), (.node ⟨⟨2, 8⟩, .Right, 77⟩ [(.node ⟨⟨2, 8⟩, .Left, 77⟩ [])]), (.node ⟨⟨3, 8⟩, .Left, 72⟩ [])]), (.node ⟨⟨12, 7⟩, .Down, 83⟩ [(.node ⟨⟨12, 7⟩, .Up, 83⟩ [])]), (.node ⟨⟨12, 6⟩, .Up, 77⟩ [])]), (.node ⟨⟨11, 5⟩, .Left, 75⟩ [(.node ⟨⟨11, 5⟩, .Right, 75⟩ [])]), (.node ⟨⟨9, 3⟩, .Up, 73⟩ [(.node ⟨⟨9, 2⟩, .Up, 79⟩ [(.node ⟨⟨9, 2⟩, .Down, 79⟩ [])]), (.node ⟨⟨9, 3⟩, .Down, 73⟩ [])]), (.node ⟨⟨7, 10⟩, .Right, 75⟩ [])]), (.node ⟨⟨1, 9⟩, .Right, 69⟩ [(.node ⟨⟨10, 6⟩, .Right, 89⟩ [(.node ⟨⟨9, 6⟩, .Right, 98⟩ [(.node ⟨⟨9, 6⟩, .Left, 98⟩ [])]), (.node ⟨⟨10, 6⟩, .Left, 89⟩ [])]), (.node ⟨⟨8, 12⟩, .Left, 80⟩ [(.node ⟨⟨8, 12⟩, .Right, 80⟩ [])]), (.node ⟨⟨4, 6⟩, .Up, 74⟩ [(.node ⟨⟨8, 8⟩, .Left, 85⟩ [(.node ⟨⟨9, 8⟩, .Left, 93⟩ [(.node ⟨⟨9, 8⟩, .Right, 93⟩ [])]), (.node ⟨⟨8, 8⟩, .Right, 85⟩ [])]), (.node ⟨⟨4, 6⟩, .Down, 74⟩ [])]), (.node ⟨⟨9, 4⟩, .Right, 72⟩ [(.node ⟨⟨4, 8⟩, .Right, 85⟩ [(.node ⟨⟨3, 8⟩, .Right, 89⟩ [(.node ⟨⟨3, 8⟩, .Left, 89⟩ [])]), (.node ⟨⟨4, 8⟩, .Left, 85⟩ [])]), (.node ⟨⟨6, 10⟩, .Down, 80⟩ [(.node ⟨⟨6, 11⟩, .Down, 86⟩ [(.node ⟨⟨6, 11⟩, .Up, 86⟩ [])]), (.node ⟨⟨6, 10⟩, .Up, 80⟩ [])]), (.node ⟨⟨8, 4⟩, .Right, 81⟩ [(.node ⟨⟨8, 4⟩, .Left, 81⟩ [])]), (.node ⟨⟨9, 4⟩, .Left, 72⟩ [])]), (.node ⟨⟨1, 9⟩, .Left, 69⟩ [])]), (.node ⟨⟨8, 7⟩, .Down, 77⟩ [(.node ⟨⟨7, 9⟩, .Down, 87⟩ [(.node ⟨⟨7, 10⟩, .Down, 93⟩ [(.node ⟨⟨7, 10⟩, .Up, 93⟩ [])]), (.node ⟨⟨7, 9⟩, .Up, 87⟩ [])]), (.node ⟨⟨7, 8⟩, .Down, 77⟩ [(.node ⟨⟨7, 4⟩, .Up, 76⟩ [(.node ⟨⟨7, 3⟩, .Up, 83⟩ [(.node ⟨⟨7, 3⟩, .Down, 83⟩ [])]), (.node ⟨⟨7, 4⟩, .Down, 76⟩ [])]), (.node ⟨⟨7, 9⟩, .Down, 86⟩ [(.node ⟨⟨7, 9⟩, .Up, 86⟩ [])]), (.node ⟨⟨7, 8⟩, .Up, 77⟩ [])]), (.node ⟨⟨8, 7⟩, .Up, 77⟩ [])]), (.node ⟨⟨10, 5⟩, .Left, 74⟩ [(.node ⟨⟨7, 8⟩, .Down, 78⟩ [(.node ⟨⟨7, 6⟩, .Up, 78⟩ [(.node ⟨⟨7, 6⟩, .Down, 78⟩ [])]), (.node ⟨⟨7, 5⟩, .Up, 85⟩ [(.node ⟨⟨7, 4⟩, .Up, 93⟩ [(.node ⟨⟨7, 4⟩, .Down, 93⟩ [])]), (.node ⟨⟨7, 5⟩, .Down, 85⟩ [])]), (.node ⟨⟨7, 8⟩, .Up, 78⟩ [])]), (.node ⟨⟨8, 1⟩, .Up, 70⟩ [(.node ⟨⟨4, 7⟩, .Up, 73⟩ [(.node ⟨⟨4, 7⟩, .Down, 73⟩ [])]), (.node ⟨⟨8, 1⟩, .Down, 70⟩ [])]), (.node ⟨⟨8, 7⟩, .Left, 80⟩ [(.node ⟨⟨8, 7⟩, .Right, 80⟩ [])]), (.node ⟨⟨10, 5⟩, .Right, 74⟩ [])]), (.node ⟨⟨1, 10⟩, .Right, 70⟩ [(.node ⟨⟨10, 7⟩, .Down, 80⟩ [(.node ⟨⟨10, 8⟩, .Down, 86⟩ [(.node ⟨⟨10, 8⟩, .Up, 86⟩ [])]), (.node ⟨⟨10, 7⟩, .Up, 80⟩ [])]), (.node ⟨⟨1, 10⟩, .Left, 70⟩ [])]), (.node ⟨⟨6, 9⟩, .Up, 73⟩ [])]), (.node ⟨⟨6, 9⟩, .Up, 73⟩ [(.node ⟨⟨8, 3⟩, .Right, 70⟩ [(.node ⟨⟨7, 8⟩, .Left, 76⟩ [(.node ⟨⟨12, 4⟩, .Up, 77⟩ [(.node ⟨⟨12, 4⟩, .Down, 77⟩ [])]), (.node ⟨⟨7, 8⟩, .Right, 76⟩ [])]), (.node ⟨⟨2, 12⟩, .Right, 76⟩ [(.node ⟨⟨2, 12⟩, .Left, 76⟩ [])]), (.node ⟨⟨8, 3⟩, .Left, 70⟩ [])]), (.node ⟨⟨8, 7⟩, .Down, 75⟩ [(.node ⟨⟨5, 11⟩, .Right, 77⟩ [(.node ⟨⟨11, 7⟩, .Down, 80⟩ [(.node ⟨⟨8, 7⟩, .Down, 78⟩ [(.node ⟨⟨8, 8⟩, .Down, 86⟩ [(.node ⟨⟨8, 9⟩, .Down, 92⟩ [(.node ⟨⟨8, 9⟩, .Up, 92⟩ [])]), (.node ⟨⟨8, 8⟩, .Up, 86⟩ [])]), (.node ⟨⟨8, 4⟩, .Up, 84⟩ [(.node ⟨⟨8, 3⟩, .Up, 88⟩ [(.node ⟨⟨8, 3⟩, .Down, 88⟩ [])]), (.node ⟨⟨8, 4⟩, .Down, 84⟩ [])]), (.node ⟨⟨8, 7⟩, .Up, 78⟩ [])]), (.node ⟨⟨11, 7⟩, .Up, 80⟩ [])]), (.node ⟨⟨5, 12⟩, .Right, 84⟩ [(.node ⟨⟨4, 12⟩, .Right, 90⟩ [(.node ⟨⟨4, 12⟩, .Left, 90⟩ [])]), (.node ⟨⟨5, 12⟩, .Left, 84⟩ [])]), (.node ⟨⟨6, 12⟩, .Right, 80⟩ [(.node ⟨⟨6, 12⟩, .Left, 80⟩ [])]), (.node ⟨⟨9, 12⟩, .Left, 84⟩ [(.node ⟨⟨10, 12⟩, .Left, 87⟩ [(.node ⟨⟨10, 12⟩, .Right, 87⟩ [])]), (.node ⟨⟨9, 12⟩, .Right, 84⟩ [])]), (.node ⟨⟨8, 12⟩, .Left, 81⟩ [(.node ⟨⟨8, 12⟩, .Right, 81⟩ [])]), (.node ⟨⟨4, 11⟩, .Right, 80⟩ [(.node ⟨⟨3, 11⟩, .Right, 85⟩ [(.node ⟨⟨3, 11⟩, .Left, 85⟩ [])]), (.node ⟨⟨4, 11⟩, .Left, 80⟩ [])]), (.node ⟨⟨10, 6⟩, .Right, 78⟩ [(.node ⟨⟨9, 6⟩, .Right, 87⟩ [(.node ⟨⟨8, 6⟩, .Right, 94⟩ [(.node ⟨⟨8, 6⟩, .Left, 94⟩ [])]), (.node ⟨⟨9, 6⟩, .Left, 87⟩ [])]), (.node ⟨⟨8, 11⟩, .Left, 85⟩ [(.node ⟨⟨9, 11⟩, .Left, 90⟩ [(.node ⟨⟨9, 11⟩, .Right, 90⟩ [])]), (.node ⟨⟨8, 11⟩, .Right, 85⟩ [])]), (.node ⟨⟨10, 6⟩, .Left, 78⟩ [])]), (.node ⟨⟨5, 11⟩, .Left, 77⟩ [])]), (.node ⟨⟨7, 9⟩, .Left, 79⟩ [(.node ⟨⟨7, 9⟩, .Right, 79⟩ [])]), (.node ⟨⟨6, 6⟩, .Up, 81⟩ [(.node ⟨⟨6, 5⟩, .Up, 88⟩ [(.node ⟨⟨6, 5⟩, .Down, 88⟩ [])]), (.node ⟨⟨6, 6⟩, .Down, 81⟩ [])]), (.node ⟨⟨8, 8⟩, .Down, 83⟩ [(.node ⟨⟨8, 8⟩, .Up, 83⟩ [])]), (.node ⟨⟨8, 7⟩, .Up, 75⟩ [])]), (.node ⟨⟨9, 6⟩, .Left, 79⟩ [(.node ⟨⟨10, 6⟩, .Left, 85⟩ [(.node ⟨⟨10, 6⟩, .Right, 85⟩ [])]), (.node ⟨⟨9, 6⟩, .Right, 79⟩ [])]), (.node ⟨⟨4, 7⟩, .Right, 78⟩ [(.node ⟨⟨3, 7⟩, .Right, 86⟩ [(.node ⟨⟨3, 7⟩, .Left, 86⟩ [])]), (.node ⟨⟨4, 7⟩, .Left, 78⟩ [])]), (.node ⟨⟨6, 9⟩, .Down, 73⟩ [])]), (.node ⟨⟨5, 9⟩, .Down, 72⟩ [(.node ⟨⟨7, 5⟩, .Right, 71⟩ [(.node ⟨⟨5, 11⟩, .Down, 75⟩ [(.node ⟨⟨5, 11⟩, .Up, 75⟩ [])]), (.node ⟨⟨6, 5⟩, .Right, 78⟩ [(.node ⟨⟨6, 5⟩, .Left, 78⟩ [])]), (.node ⟨⟨7, 5⟩, .Left, 71⟩ [])]), (.node ⟨⟨5, 8⟩, .Up, 81⟩ [(.node ⟨⟨5, 8⟩, .Down, 81⟩ [])])]), (.node ⟨⟨3, 10⟩, .Right, 73⟩ [(.node ⟨⟨7, 10⟩, .Left, 77⟩ [(.node ⟨⟨6, 9⟩, .Up, 80⟩ [(.node ⟨⟨6, 8⟩, .Up, 88⟩ [(.node ⟨⟨6, 8⟩, .Down, 88⟩ [])]), (.node ⟨⟨6, 9⟩, .Down, 80⟩ [])]), (.node ⟨⟨8, 10⟩, .Left, 85⟩ [(.node ⟨⟨8, 10⟩, .Right, 85⟩ [])]), (.node ⟨⟨7, 10⟩, .Right, 77⟩ [])]), (.node ⟨⟨2, 10⟩, .Right, 75⟩ [(.node ⟨⟨2, 10⟩, .Left, 75⟩ [])]), (.node ⟨⟨3, 10⟩, .Left, 73⟩ [])]), (.node ⟨⟨10, 3⟩, .Up, 76⟩ [(.node ⟨⟨10, 2⟩, .Up, 78⟩ [(.node ⟨⟨10, 2⟩, .Down, 78⟩ [])]), (.node ⟨⟨10, 3⟩, .Down, 76⟩ [])]), (.node ⟨⟨10, 4⟩, .Down, 72⟩ [])])

/-- Simulation snapshot: visited set after segment 9 of the day-17 a-run. -/
def d17aSeen10 : SeenTree := (.branch (.branch .leaf (0, 0, 0) .leaf) (0, 0, 1) (.branch (.branch .leaf (0, 0, 2) .leaf) (0, 0, 3) (.branch (.branch (.branch .leaf (0, 1, 0) .leaf) (0, 1, 1) (.branch (.branch (.branch (.branch .leaf (0, 1, 2) .leaf) (0, 1, 3) .leaf) (0, 2, 0) .leaf) (0, 2, 1) (.branch (.branch .leaf (0, 2, 2) .leaf) (0, 2, 3) (.branch (.branch .leaf (0, 3, 0) .leaf) (0, 3, 1) (.branch (.branch (.branch (.branch (.branch .leaf (0, 3, 2) .leaf) (0, 3, 3) .leaf) (0, 4, 0) .leaf) (0, 4, 1) (.branch (.branch (.branch (.branch .leaf (0, 4, 2) .leaf) (0, 4, 3) .leaf) (0, 5, 0) .leaf) (0, 5, 1) (.branch (.branch (.branch (.branch .leaf (0, 5, 2) .leaf) (0, 5, 3) .leaf) (0, 6, 0) .leaf) (0, 6, 1) (.branch (.branch (.branch (.branch .leaf (0, 6, 2) .leaf) (0, 6, 3) .leaf) (0, 7, 0) .leaf) (0, 7, 1) (.branch (.branch (.branch (.branch .leaf (0, 7, 2) .leaf) (0, 7, 3) .leaf) (0, 8, 0) .leaf) (0, 8, 1) (.branch (.branch (.branch (.branch .leaf (0, 8, 2) .leaf) (0, 8, 3) .leaf) (0, 9, 0) .leaf) (0, 9, 1) (.branch (.branch (.branch (.branch .leaf (0, 9, 2) .leaf) (0, 9, 3) .leaf) (0, 10, 0) .leaf) (0, 10, 1) (.branch (.branch (.branch (.branch .leaf (0, 10, 2) .leaf) (0, 10, 3) .leaf) (0, 11, 0) .leaf) (0, 11, 1) (.branch (.branch (.branch (.branch .leaf (0, 11, 2) .leaf) (0, 11, 3) .leaf) (0, 12, 0) .leaf) (0, 12, 1) (.branch (.branch .leaf (0, 12, 2) .leaf) (0, 12, 3) .leaf)))))))))) (1, 0, 0) (.branch .leaf (1, 0, 1) .leaf)))))) (1, 0, 2) (.branch .leaf (1, 0, 3) (.branch (.branch .leaf (1, 1, 0) .leaf) (1, 1, 1) (.branch (.branch (.branch (.branch .leaf (1, 1, 2) (.branch .leaf (1, 1, 3) .leaf)) (1, 2, 0) .leaf) (1, 2, 1) .leaf) (1, 2, 2) (.branch .leaf (1, 2, 3) (.branch (.branch (.branch .leaf (1, 3, 0) .leaf) (1, 3, 1) (.branch (.branch .leaf (1, 3, 2) (.branch .leaf (1, 3, 3) (.branch (.branch .leaf (1, 4, 0) .leaf) (1, 4, 1) (.branch .leaf (1, 4, 2) (.branch .leaf (1, 4, 3) (.branch (.branch .leaf (1, 5, 0) .leaf) (1, 5, 1) (.branch .leaf (1, 5, 2) (.branch .leaf (1, 5, 3) (.branch (.branch .leaf (1, 6, 0) .leaf) (1, 6, 1) (.branch .leaf (1, 6, 2) (.branch .leaf (1, 6, 3) (.branch (.branch .leaf (1, 7, 0) .leaf) (1, 7, 1) (.branch (.branch .leaf (1, 7, 2) (.branch .leaf (1, 7, 3) (.branch (.branch .leaf (1, 8, 0) .leaf) (1, 8, 1) .leaf))) (1, 8, 2) (.branch .leaf (1, 8, 3) (.branch (.branch .leaf (1, 9, 0) .leaf) (1, 9, 1) (.branch .leaf (1, 9, 2) (.branch .leaf (1, 9, 3) (.branch (.branch (.branch .leaf (1, 10, 0) .leaf) (1, 10, 1) (.branch .leaf (1, 10, 2) (.branch .leaf (1, 10, 3) (.branch (.branch .leaf (1, 11, 0) .leaf) (1, 11, 1) .leaf)))) (1, 11, 2) (.branch .leaf (1, 11, 3) (.branch (.branch .leaf (1, 12, 0) .leaf) (1, 12, 1) (.branch .leaf (1, 12, 2) (.branch .leaf (1, 12, 3) .leaf)))))))))))))))))))))) (2, 0, 0) (.branch .leaf (2, 0, 1) .leaf))) (2, 0, 2) (.branch .leaf (2, 0, 3) (.branch (.branch (.branch .leaf (2, 1, 0) .leaf) (2, 1, 1) .leaf) (2, 1, 2) (.branch .leaf (2, 1, 3) (.branch (.branch (.branch (.branch .leaf (2, 2, 0) .leaf) (2, 2, 1) .leaf) (2, 2, 2) (.branch .leaf (2, 2, 3) (.branch (.branch (.branch .leaf (2, 3, 0) .leaf) (2, 3, 1) (.branch .leaf (2, 3, 2) (.branch .leaf (2, 3, 3) (.branch (.branch (.branch .leaf (2, 4, 0) .leaf) (2, 4, 1) .leaf) (2, 4, 2) (.branch .leaf (2, 4, 3) (.branch (.branch .leaf (2, 5, 0) .leaf) (2, 5, 1) (.branch .leaf (2, 5, 2) (.branch .leaf (2, 5, 3) (.branch (.branch .leaf (2, 6, 0) .leaf) (2, 6, 1) (.branch .leaf (2, 6, 2) (.branch .leaf (2, 6, 3) (.branch (.branch .leaf (2, 7, 0) .leaf) (2, 7, 1) (.branch .leaf (2, 7, 2) (.branch .leaf (2, 7, 3) (.branch (.branch (.branch .leaf (2, 8, 0) .leaf) (2, 8, 1) .leaf) (2, 8, 2) (.branch .leaf (2, 8, 3) (.branch (.branch (.branch .leaf (2, 9, 0) .leaf) (2, 9, 1) .leaf) (2, 9, 2) (.branch .leaf (2, 9, 3) (.branch (.branch .leaf (2, 10, 0) .leaf) (2, 10, 1) (.branch .leaf (2, 10, 2) (.branch .leaf (2, 10, 3) (.branch (.branch (.branch .leaf (2, 11, 0) .leaf) (2, 11, 1) .leaf) (2, 11, 2) (.branch .leaf (2, 11, 3) (.branch (.branch (.branch .leaf (2, 12, 0) .leaf) (2, 12, 1) .leaf) (2, 12, 2) (.branch .leaf (2, 12, 3) .leaf))))))))))))))))))))))))) (3, 0, 0) (.branch .leaf (3, 0, 1) .leaf)))) (3, 0, 2) (.branch .leaf (3, 0, 3) (.branch (.branch (.branch .leaf (3, 1, 0) .leaf) (3, 1, 1) .leaf) (3, 1, 2) (.branch .leaf (3, 1, 3) (.branch (.branch .leaf (3, 2, 0) .leaf) (3, 2, 1) (.branch .leaf (3, 2, 2) (.branch .leaf (3, 2, 3) (.branch (.branch (.branch (.branch .leaf (3, 3, 0) .leaf) (3, 3, 1) (.branch (.branch .leaf (3, 3, 2) (.branch .leaf (3, 3, 3) (.branch (.branch .leaf (3, 4, 0) .leaf) (3, 4, 1) .leaf))) (3, 4, 2) (.branch .leaf (3, 4, 3) (.branch (.branch (.branch (.branch .leaf (3, 5, 0) .leaf) (3, 5, 1) .leaf) (3, 5, 2) (.branch .leaf (3, 5, 3) (.branch (.branch (.branch .leaf (3, 6, 0) .leaf) (3, 6, 1) .leaf) (3, 6, 2) (.branch .leaf (3, 6, 3) (.branch (.branch .leaf (3, 7, 0) .leaf) (3, 7, 1) (.branch .leaf (3, 7, 2) (.branch .leaf (3, 7, 3) (.branch (.branch (.branch .leaf (3, 8, 0) .leaf) (3, 8, 1) .leaf) (3, 8, 2) (.branch .leaf (3, 8, 3) (.branch (.branch (.branch .leaf (3, 9, 0) .leaf) (3, 9, 1) .leaf) (3, 9, 2) (.branch .leaf (3, 9, 3) (.branch (.branch (.branch .leaf (3, 10, 0) .leaf) (3, 10, 1) .leaf) (3, 10, 2) (.branch .leaf (3, 10, 3) (.branch (.branch (.branch .leaf (3, 11, 0) .leaf) (3, 11, 1) (.branch .leaf (3, 11, 2) (.branch .leaf (3, 11, 3) (.branch (.branch .leaf (3, 12, 0) .leaf) (3, 12, 1) .leaf)))) (3, 12, 2) (.branch .leaf (3, 12, 3) .leaf))))))))))))))) (4, 0, 0) (.branch .leaf (4, 0, 1) .leaf))))) (4, 0, 2) (.branch .leaf (4, 0, 3) (.branch (.branch .leaf (4, 1, 0) .leaf) (4, 1, 1) .leaf))) (4, 1, 2) (.branch .leaf (4, 1, 3) (.branch (.branch (.branch (.branch .leaf (4, 2, 0) .leaf) (4, 2, 1) .leaf) (4, 2, 2) (.branch .leaf (4, 2, 3) (.branch (.branch (.branch .leaf (4, 3, 0) .leaf) (4, 3, 1) (.branch .leaf (4, 3, 2) (.branch .leaf (4, 3, 3) (.branch (.branch (.branch .leaf (4, 4, 0) .leaf) (4, 4, 1) .leaf) (4, 4, 2) (.branch .leaf (4, 4, 3) (.branch (.branch .leaf (4, 5, 0) .leaf) (4, 5, 1) (.branch .leaf (4, 5, 2) (.branch .leaf (4, 5, 3) (.branch (.branch (.branch .leaf (4, 6, 0) .leaf) (4, 6, 1) .leaf) (4, 6, 2) (.branch .leaf (4, 6, 3) (.branch (.branch .leaf (4, 7, 0) .leaf) (4, 7, 1) (.branch .leaf (4, 7, 2) (.branch .leaf (4, 7, 3) (.branch (.branch (.branch .leaf (4, 8, 0) .leaf) (4, 8, 1) .leaf) (4, 8, 2) (.branch .leaf (4, 8, 3) (.branch (.branch (.branch (.branch .leaf (4, 9, 0) .leaf) (4, 9, 1) .leaf) (4, 9, 2) (.branch .leaf (4, 9, 3) (.branch (.branch .leaf (4, 10, 0) .leaf) (4, 10, 1) .leaf))) (4, 10, 2) (.branch .leaf (4, 10, 3) (.branch (.branch (.branch .leaf (4, 11, 0) .leaf) (4, 11, 1) .leaf) (4, 11, 2) (.branch .leaf (4, 11, 3) (.branch (.branch (.branch .leaf (4, 12, 0) .leaf) (4, 12, 1) .leaf) (4, 12, 2) (.branch .leaf (4, 12, 3) .leaf))))))))))))))))))))) (5, 0, 0) (.branch .leaf (5, 0, 1) .leaf)))) (5, 0, 2) (.branch .leaf (5, 0, 3) (.branch (.branch (.branch .leaf (5, 1, 0) .leaf) (5, 1, 1) .leaf) (5, 1, 2) (.branch .leaf (5, 1, 3) (.branch (.branch (.branch .leaf (5, 2, 0) .leaf) (5, 2, 1) .leaf) (5, 2, 2) (.branch .leaf (5, 2, 3) (.branch (.branch (.branch .leaf (5, 3, 0) .leaf) (5, 3, 1) (.branch (.branch .leaf (5, 3, 2) (.branch .leaf (5, 3, 3) (.branch (.branch (.branch .leaf (5, 4, 0) .leaf) (5, 4, 1) .leaf) (5, 4, 2) (.branch .leaf (5, 4, 3) (.branch (.branch (.branch .leaf (5, 5, 0) .leaf) (5, 5, 1) .leaf) (5, 5, 2) (.branch .leaf (5, 5, 3) (.branch (.branch (.branch .leaf (5, 6, 0) .leaf) (5, 6, 1) .leaf) (5, 6, 2) (.branch .leaf (5, 6, 3) (.branch (.branch .leaf (5, 7, 0) .leaf) (5, 7, 1) (.branch .leaf (5, 7, 2) (.branch .leaf (5, 7, 3) (.branch (.branch (.branch (.branch .leaf (5, 8, 0) .leaf) (5, 8, 1) .leaf) (5, 8, 2) (.branch .leaf (5, 8, 3) (.branch (.branch .leaf (5, 9, 0) (.branch .leaf (5, 9, 1) .leaf)) (5, 9, 2) (.branch .leaf (5, 9, 3) (.branch .leaf (5, 10, 0) (.branch .leaf (5, 10, 1) .leaf)))))) (5, 10, 2) (.branch .leaf (5, 10, 3) (.branch (.branch (.branch .leaf (5, 11, 0) .leaf) (5, 11, 1) .leaf) (5, 11, 2) (.branch .leaf (5, 11, 3) (.branch (.branch (.branch .leaf (5, 12, 0) .leaf) (5, 12, 1) .leaf) (5, 12, 2) (.branch .leaf (5, 12, 3) .leaf))))))))))))))))) (6, 0, 0) (.branch .leaf (6, 0, 1) .leaf))) (6, 0, 2) (.branch .leaf (6, 0, 3) (.branch (.branch (.branch .leaf (6, 1, 0) .leaf) (6, 1, 1) .leaf) (6, 1, 2) (.branch .leaf (6, 1, 3) (.branch (.branch (.branch .leaf (6, 2, 0) .leaf) (6, 2, 1) .leaf) (6, 2, 2) (.branch .leaf (6, 2, 3) (.branch (.branch (.branch .leaf (6, 3, 0) .leaf) (6, 3, 1) (.branch (.branch .leaf (6, 3, 2) (.branch .leaf (6, 3, 3) (.branch (.branch .leaf (6, 4, 0) .leaf) (6, 4, 1) (.branch .leaf (6, 4, 2) (.branch .leaf (6, 4, 3) (.branch (.branch .leaf (6, 5, 0) .leaf) (6, 5, 1) (.branch .leaf (6, 5, 2) (.branch .leaf (6, 5, 3) (.branch (.branch (.branch .leaf (6, 6, 0) .leaf) (6, 6, 1) .leaf) (6, 6, 2) (.branch .leaf (6, 6, 3) (.branch (.branch (.branch .leaf (6, 7, 0) .leaf) (6, 7, 1) .leaf) (6, 7, 2) (.branch .leaf (6, 7, 3) (.branch (.branch (.branch (.branch (.branch .leaf (6, 8, 0) .leaf) (6, 8, 1) .leaf) (6, 8, 2) (.branch .leaf (6, 8, 3) (.branch (.branch (.branch .leaf (6, 9, 0) .leaf) (6, 9, 1) .leaf) (6, 9, 2) (.branch .leaf (6, 9, 3) (.branch .leaf (6, 10, 0) (.branch .leaf (6, 10, 1) .leaf)))))) (6, 10, 2) (.branch .leaf (6, 10, 3) (.branch (.branch .leaf (6, 11, 0) .leaf) (6, 11, 1) .leaf))) (6, 11, 2) (.branch .leaf (6, 11, 3) (.branch (.branch (.branch .leaf (6, 12, 0) .leaf) (6, 12, 1) .leaf) (6, 12, 2) (.branch .leaf (6, 12, 3) .leaf)))))))))))))))) (7, 0, 0) (.branch .leaf (7, 0, 1) .leaf))) (7, 0, 2) (.branch .leaf (7, 0, 3) (.branch (.branch (.branch (.branch .leaf (7, 1, 0) .leaf) (7, 1, 1) .leaf) (7, 1, 2) (.branch .leaf (7, 1, 3) (.branch (.branch .leaf (7, 2, 0) .leaf) (7, 2, 1) .leaf))) (7, 2, 2) (.branch .leaf (7, 2, 3) (.branch (.branch (.branch .leaf (7, 3, 0) .leaf) (7, 3, 1) (.branch .leaf (7, 3, 2) (.branch .leaf (7, 3, 3) (.branch (.branch (.branch .leaf (7, 4, 0) .leaf) (7, 4, 1) (.branch .leaf (7, 4, 2) (.branch .leaf (7, 4, 3) (.branch (.branch .leaf (7, 5, 0) .leaf) (7, 5, 1) (.branch .leaf (7, 5, 2) (.branch .leaf (7, 5, 3) (.branch (.branch (.branch .leaf (7, 6, 0) .leaf) (7, 6, 1) .leaf) (7, 6, 2) (.branch .leaf (7, 6, 3) (.branch (.branch (.branch .leaf (7, 7, 0) .leaf) (7, 7, 1) (.branch .leaf (7, 7, 2) (.branch .leaf (7, 7, 3) (.branch (.branch (.branch (.branch (.branch .leaf (7, 8, 0) .leaf) (7, 8, 1) .leaf) (7, 8, 2) (.branch .leaf (7, 8, 3) (.branch .leaf (7, 9, 2) (.branch .leaf (7, 9, 3) .leaf)))) (7, 10, 0) (.branch .leaf (7, 10, 1) .leaf)) (7, 10, 2) (.branch .leaf (7, 10, 3) (.branch .leaf (7, 11, 0) (.branch .leaf (7, 11, 1) .leaf))))))) (7, 11, 2) (.branch .leaf (7, 11, 3) (.branch (.branch (.branch .leaf (7, 12, 0) .leaf) (7, 12, 1) .leaf) (7, 12, 2) (.branch .leaf (7, 12, 3) .leaf)))))))))))) (8, 0, 0) (.branch .leaf (8, 0, 1) .leaf))))) (8, 0, 2) (.branch .leaf (8, 0, 3) (.branch (.branch (.branch (.branch .leaf (8, 1, 0) .leaf) (8, 1, 1) .leaf) (8, 1, 2) (.branch .leaf (8, 1, 3) (.branch (.branch .leaf (8, 2, 0) .leaf) (8, 2, 1) .leaf))) (8, 2, 2) (.branch .leaf (8, 2, 3) (.branch (.branch .leaf (8, 3, 0) .leaf) (8, 3, 1) (.branch .leaf (8, 3, 2) (.branch .leaf (8, 3, 3) (.branch (.branch (.branch .leaf (8, 4, 0) .leaf) (8, 4, 1) (.branch (.branch .leaf (8, 4, 2) (.branch .leaf (8, 4, 3) (.branch (.branch .leaf (8, 5, 0) .leaf) (8, 5, 1) (.branch .leaf (8, 5, 2) (.branch .leaf (8, 5, 3) (.branch (.branch .leaf (8, 6, 0) .leaf) (8, 6, 1) (.branch .leaf (8, 6, 2) (.branch .leaf (8, 6, 3) (.branch (.branch .leaf (8, 7, 0) .leaf) (8, 7, 1) (.branch (.branch (.branch .leaf (8, 7, 2) (.branch .leaf (8, 7, 3) .leaf)) (8, 11, 2) (.branch .leaf (8, 11, 3) .leaf)) (8, 12, 2) (.branch .leaf (8, 12, 3) .leaf))))))))))) (9, 0, 0) (.branch .leaf (9, 0, 1) .leaf))) (9, 0, 2) (.branch .leaf (9, 0, 3) (.branch (.branch (.branch (.branch .leaf (9, 1, 0) .leaf) (9, 1, 1) .leaf) (9, 1, 2) (.branch .leaf (9, 1, 3) (.branch (.branch (.branch .leaf (9, 2, 0) .leaf) (9, 2, 1) .leaf) (9, 2, 2) (.branch .leaf (9, 2, 3) (.branch (.branch .leaf (9, 3, 0) .leaf) (9, 3, 1) .leaf))))) (9, 3, 2) (.branch .leaf (9, 3, 3) (.branch (.branch (.branch (.branch .leaf (9, 4, 0) .leaf) (9, 4, 1) (.branch .leaf (9, 4, 2) (.branch .leaf (9, 4, 3) (.branch (.branch .leaf (9, 5, 0) .leaf) (9, 5, 1) (.branch .leaf (9, 5, 2) (.branch .leaf (9, 5, 3) (.branch (.branch .leaf (9, 6, 0) .leaf) (9, 6, 1) (.branch .leaf (9, 6, 2) (.branch .leaf (9, 6, 3) (.branch .leaf (9, 12, 2) (.branch .leaf (9, 12, 3) .leaf))))))))))) (10, 0, 0) (.branch .leaf (10, 0, 1) .leaf)) (10, 0, 2) (.branch .leaf (10, 0, 3) (.branch (.branch .leaf (10, 1, 0) .leaf) (10, 1, 1) (.branch .leaf (10, 1, 2) (.branch .leaf (10, 1, 3) (.branch (.branch (.branch .leaf (10, 2, 0) .leaf) (10, 2, 1) .leaf) (10, 2, 2) (.branch .leaf (10, 2, 3) (.branch (.branch (.branch .leaf (10, 3, 0) .leaf) (10, 3, 1) .leaf) (10, 3, 2) (.branch .leaf (10, 3, 3) (.branch (.branch (.branch .leaf (10, 4, 0) .leaf) (10, 4, 1) (.branch (.branch .leaf (10, 4, 2) (.branch .leaf (10, 4, 3) (.branch (.branch .leaf (10, 5, 0) .leaf) (10, 5, 1) (.branch .leaf (10, 5, 2) (.branch .leaf (10, 5, 3) (.branch (.branch .leaf (10, 6, 0) .leaf) (10, 6, 1) (.branch .leaf (10, 6, 2) (.branch .leaf (10, 6, 3) (.branch (.branch .leaf (10, 7, 0) .leaf) (10, 7, 1) .leaf))))))))) (11, 0, 0) (.branch .leaf (11, 0, 1) .leaf))) (11, 0, 2) (.branch .leaf (11, 0, 3) (.branch (.branch (.branch .leaf (11, 1, 0) .leaf) (11, 1, 1) .leaf) (11, 1, 2) (.branch .leaf (11, 1, 3) (.branch (.branch (.branch .leaf (11, 2, 0) .leaf) (11, 2, 1) .leaf) (11, 2, 2) (.branch .leaf (11, 2, 3) (.branch (.branch (.branch (.branch (.branch .leaf (11, 3, 0) .leaf) (11, 3, 1) .leaf) (11, 3, 2) (.branch .leaf (11, 3, 3) (.branch (.branch .leaf (11, 4, 0) .leaf) (11, 4, 1) (.branch .leaf (11, 4, 2) (.branch .leaf (11, 4, 3) (.branch (.branch (.branch .leaf (11, 5, 0) .leaf) (11, 5, 1) (.branch .leaf (11, 5, 2) (.branch .leaf (11, 5, 3) (.branch (.branch .leaf (11, 6, 0) .leaf) (11, 6, 1) (.branch .leaf (11, 6, 2) (.branch .leaf (11, 6, 3) (.branch (.branch .leaf (11, 7, 0) .leaf) (11, 7, 1) .leaf))))))) (12, 0, 0) (.branch .leaf (12, 0, 1) .leaf))))))) (12, 0, 2) (.branch .leaf (12, 0, 3) (.branch (.branch (.branch .leaf (12, 1, 0) .leaf) (12, 1, 1) .leaf) (12, 1, 2) (.branch .leaf (12, 1, 3) (.branch (.branch .leaf (12, 2, 0) .leaf) (12, 2, 1) .leaf))))) (12, 2, 2) (.branch .leaf (12, 2, 3) (.branch (.branch .leaf (12, 3, 0) .leaf) (12, 3, 1) (.branch .leaf (12, 3, 2) (.branch .leaf (12, 3, 3) (.branch (.branch .leaf (12, 4, 0) .leaf) (12, 4, 1) (.branch .leaf (12, 4, 2) (.branch .leaf (12, 4, 3) (.branch (.branch .leaf (12, 5, 0) .leaf) (12, 5, 1) (.branch .leaf (12, 5, 2) (.branch .leaf (12, 5, 3) (.branch (.branch .leaf (12, 6, 0) .leaf) (12, 6, 1) (.branch .leaf (12, 6, 2) (.branch .leaf (12, 6, 3) (.branch (.branch .leaf (12, 7, 0) .leaf) (12, 7, 1) .leaf)))))))))))))))))))))))))))))))))))))))))))))))))))))))))))))))))))))))))))))

/-- Simulation snapshot: heap after segment 9 of the day-17 a-run. -/
def d17aHeap10 : Heap := (.node ⟨⟨6, 9⟩, .Down, 80⟩ [(.node ⟨⟨9, 7⟩, .Down, 81⟩ [(.node ⟨⟨3, 11⟩, .Right, 85⟩ [(.node ⟨⟨3, 11⟩, .Left, 85⟩ [])]), (.node ⟨⟨12, 7⟩, .Left, 86⟩ [(.node ⟨⟨9, 6⟩, .Right, 87⟩ [(.node ⟨⟨8, 6⟩, .Right, 94⟩ [(.node ⟨⟨8, 6⟩, .Left, 94⟩ [])]), (.node ⟨⟨9, 6⟩, .Left, 87⟩ [])]), (.node ⟨⟨10, 7⟩, .Right, 88⟩ [(.node ⟨⟨10, 7⟩, .Left, 88⟩ [])]), (.node ⟨⟨12, 7⟩, .Right, 86⟩ [])]), (.node ⟨⟨2, 8⟩, .Right, 77⟩ [(.node ⟨⟨2, 8⟩, .Left, 77⟩ [])]), (.node ⟨⟨2, 7⟩, .Right, 75⟩ [(.node ⟨⟨12, 6⟩, .Left, 85⟩ [(.node ⟨⟨12, 6⟩, .Right, 85⟩ [])]), (.node ⟨⟨2, 7⟩, .Left, 75⟩ [])]), (.node ⟨⟨9, 8⟩, .Down, 89⟩ [(.node ⟨⟨9, 8⟩, .Up, 89⟩ [])]), (.node ⟨⟨9, 7⟩, .Up, 81⟩ [])]), (.node ⟨⟨9, 7⟩, .Down, 81⟩ [(.node ⟨⟨5, 8⟩, .Right, 79⟩ [(.node ⟨⟨8, 8⟩, .Down, 83⟩ [(.node ⟨⟨9, 7⟩, .Left, 88⟩ [(.node ⟨⟨8, 5⟩, .Up, 92⟩ [(.node ⟨⟨8, 4⟩, .Up, 101⟩ [(.node ⟨⟨8, 4⟩, .Down, 101⟩ [])]), (.node ⟨⟨8, 5⟩, .Down, 92⟩ [])]), (.node ⟨⟨7, 8⟩, .Up, 91⟩ [(.node ⟨⟨7, 7⟩, .Up, 100⟩ [(.node ⟨⟨7, 7⟩, .Down, 100⟩ [])]), (.node ⟨⟨7, 8⟩, .Down, 91⟩ [])]), (.node ⟨⟨10, 7⟩, .Left, 96⟩ [(.node ⟨⟨10, 7⟩, .Right, 96⟩ [])]), (.node ⟨⟨9, 7⟩, .Right, 88⟩ [])]), (.node ⟨⟨6, 11⟩, .Down, 86⟩ [(.node ⟨⟨6, 11⟩, .Up, 86⟩ [])]), (.node ⟨⟨8, 4⟩, .Right, 81⟩ [(.node ⟨⟨4, 8⟩, .Right, 85⟩ [(.node ⟨⟨3, 8⟩, .Right, 89⟩ [(.node ⟨⟨3, 8⟩, .Left, 89⟩ [])]), (.node ⟨⟨4, 8⟩, .Left, 85⟩ [])]), (.node ⟨⟨8, 4⟩, .Left, 81⟩ [])]), (.node ⟨⟨8, 8⟩, .Left, 85⟩ [(.node ⟨⟨9, 8⟩, .Left, 93⟩ [(.node ⟨⟨9, 8⟩, .Right, 93⟩ [])]), (.node ⟨⟨8, 8⟩, .Right, 85⟩ [])]), (.node ⟨⟨6, 4⟩, .Up, 83⟩ [(.node ⟨⟨6, 4⟩, .Down, 83⟩ [])]), (.node ⟨⟨9, 2⟩, .Up, 79⟩ [(.node ⟨⟨9, 2⟩, .Down, 79⟩ [])]), (.node ⟨⟨9, 7⟩, .Left, 84⟩ [(.node ⟨⟨9, 7⟩, .Right, 84⟩ [])]), (.node ⟨⟨6, 6⟩, .Up, 81⟩ [(.node ⟨⟨6, 5⟩, .Up, 88⟩ [(.node ⟨⟨6, 5⟩, .Down, 88⟩ [])]), (.node ⟨⟨6, 6⟩, .Down, 81⟩ [])]), (.node ⟨⟨8, 8⟩, .Up, 83⟩ [])]), (.node ⟨⟨10, 5⟩, .Right, 81⟩ [(.node ⟨⟨8, 8⟩, .Left, 85⟩ [(.node ⟨⟨7, 5⟩, .Right, 83⟩ [(.node ⟨⟨7, 5⟩, .Left, 83⟩ [])]), (.node ⟨⟨8, 8⟩, .Right, 85⟩ [])]), (.node ⟨⟨12, 5⟩, .Up, 83⟩ [(.node ⟨⟨12, 5⟩, .Down, 83⟩ [])]), (.node ⟨⟨6, 10⟩, .Up, 83⟩ [(.node ⟨⟨6, 9⟩, .Up, 90⟩ [(.node ⟨⟨6, 9⟩, .Down, 90⟩ [])]), (.node ⟨⟨6, 10⟩, .Down, 83⟩ [])]), (.node ⟨⟨9, 5⟩, .Right, 88⟩ [(.node ⟨⟨9, 5⟩, .Left, 88⟩ [])]), (.node ⟨⟨10, 5⟩, .Left, 81⟩ [])]), (.node ⟨⟨8, 10⟩, .Left, 87⟩ [(.node ⟨⟨9, 10⟩, .Left, 91⟩ [(.node ⟨⟨9, 10⟩, .Right, 91⟩ [])]), (.node ⟨⟨8, 10⟩, .Right, 87⟩ [])]), (.node ⟨⟨10, 8⟩, .Down, 87⟩ [(.node ⟨⟨10, 9⟩, .Down, 92⟩ [(.node ⟨⟨10, 9⟩, .Up, 92⟩ [])]), (.node ⟨⟨10, 8⟩, .Up, 87⟩ [])]), (.node ⟨⟨5, 8⟩, .Left, 79⟩ [])]), (.node ⟨⟨12, 2⟩, .Up, 81⟩ [(.node ⟨⟨10, 6⟩, .Left, 85⟩ [(.node ⟨⟨8, 9⟩, .Down, 93⟩ [(.node ⟨⟨8, 10⟩, .Down, 101⟩ [(.node ⟨⟨8, 10⟩, .Up, 101⟩ [])]), (.node ⟨⟨8, 9⟩, .Up, 93⟩ [])]), (.node ⟨⟨10, 6⟩, .Right, 85⟩ [])]), (.node ⟨⟨8, 8⟩, .Down, 87⟩ [(.node ⟨⟨8, 8⟩, .Up, 87⟩ [])]), (.node ⟨⟨12, 2⟩, .Down, 81⟩ [])]), (.node ⟨⟨10, 12⟩, .Left, 87⟩ [(.node ⟨⟨8, 11⟩, .Left, 85⟩ [(.node ⟨⟨8, 6⟩, .Up, 86⟩ [(.node ⟨⟨8, 6⟩, .Down, 86⟩ [])]), (.node ⟨⟨12, 8⟩, .Down, 86⟩ [(.node ⟨⟨12, 8⟩, .Up, 86⟩ [])]), (.node ⟨⟨9, 11⟩, .Left, 90⟩ [(.node ⟨⟨9, 11⟩, .Right, 90⟩ [])]), (.node ⟨⟨8, 11⟩, .Right, 85⟩ [])]), (.node ⟨⟨9, 11⟩, .Up, 89⟩ [(.node ⟨⟨9, 10⟩, .Up, 93⟩ [(.node ⟨⟨9, 9⟩, .Up, 99⟩ [(.node ⟨⟨9, 9⟩, .Down, 99⟩ [])]), (.node ⟨⟨9, 10⟩, .Down, 93⟩ [])]), (.node ⟨⟨9, 11⟩, .Down, 89⟩ [])]), (.node ⟨⟨5, 12⟩, .Right, 84⟩ [(.node ⟨⟨4, 12⟩, .Right, 90⟩ [(.node ⟨⟨4, 12⟩, .Left, 90⟩ [])]), (.node ⟨⟨5, 12⟩, .Left, 84⟩ [])]), (.node ⟨⟨10, 12⟩, .Right, 87⟩ [])]), (.node ⟨⟨8, 7⟩, .Left, 81⟩ [(.node ⟨⟨8, 8⟩, .Left, 85⟩ [(.node ⟨⟨11, 7⟩, .Right, 89⟩ [(.node ⟨⟨9, 7⟩, .Right, 97⟩ [(.node ⟨⟨8, 7⟩, .Right, 106⟩ [(.node ⟨⟨8, 7⟩, .Left, 106⟩ [])]), (.node ⟨⟨9, 7⟩, .Left, 97⟩ [])]), (.node ⟨⟨11, 7⟩, .Left, 89⟩ [])]), (.node ⟨⟨8, 8⟩, .Right, 85⟩ [])]), (.node ⟨⟨8, 5⟩, .Right, 85⟩ [(.node ⟨⟨8, 5⟩, .Left, 85⟩ [])]), (.node ⟨⟨9, 7⟩, .Left, 90⟩ [(.node ⟨⟨9, 7⟩, .Right, 90⟩ [])]), (.node ⟨⟨8, 7⟩, .Right, 81⟩ [])]), (.node ⟨⟨7, 8⟩, .Up, 86⟩ [(.node ⟨⟨5, 5⟩, .Up, 82⟩ [(.node ⟨⟨5, 5⟩, .Down, 82⟩ [])]), (.node ⟨⟨7, 8⟩, .Down, 86⟩ [])]), (.node ⟨⟨6, 7⟩, .Right, 79⟩ [(.node ⟨⟨6, 7⟩, .Left, 79⟩ [])]), (.node ⟨⟨10, 7⟩, .Right, 97⟩ [(.node ⟨⟨9, 7⟩, .Right, 106⟩ [(.node ⟨⟨9, 7⟩, .Left, 106⟩ [])]), (.node ⟨⟨10, 7⟩, .Left, 97⟩ [])]), (.node ⟨⟨3, 6⟩, .Right, 75⟩ [(.node ⟨⟨3, 6⟩, .Left, 75⟩ [])]), (.node ⟨⟨8, 12⟩, .Down, 87⟩ [(.node ⟨⟨8, 9⟩, .Up, 94⟩ [(.node ⟨⟨8, 8⟩, .Up, 102⟩ [(.node ⟨⟨8, 8⟩, .Down, 102⟩ [])]), (.node ⟨⟨8, 9⟩, .Down, 94⟩ [])]), (.node ⟨⟨8, 12⟩, .Up, 87⟩ [])]), (.node ⟨⟨9, 7⟩, .Up, 81⟩ [])]), (.node ⟨⟨8, 7⟩, .Right, 80⟩ [(.node ⟨⟨8, 8⟩, .Down, 86⟩ [(.node ⟨⟨7, 9⟩, .Down, 87⟩ [(.node ⟨⟨7, 5⟩, .Up, 85⟩ [(.node ⟨⟨7, 4⟩, .Up, 93⟩ [(.node ⟨⟨7, 4⟩, .Down, 93⟩ [])]), (.node ⟨⟨7, 5⟩, .Down, 85⟩ [])]), (.node ⟨⟨7, 10⟩, .Down, 93⟩ [(.node ⟨⟨7, 10⟩, .Up, 93⟩ [])]), (.node ⟨⟨7, 9⟩, .Up, 87⟩ [])]), (.node ⟨⟨7, 7⟩, .Up, 95⟩ [(.node ⟨⟨7, 6⟩, .Up, 102⟩ [(.node ⟨⟨7, 6⟩, .Down, 102⟩ [])]), (.node ⟨⟨7, 7⟩, .Down, 95⟩ [])]), (.node ⟨⟨8, 4⟩, .Up, 84⟩ [(.node ⟨⟨8, 3⟩, .Up, 88⟩ [(.node ⟨⟨8, 3⟩, .Down, 88⟩ [])]), (.node ⟨⟨8, 4⟩, .Down, 84⟩ [])]), (.node ⟨⟨8, 9⟩, .Down, 92⟩ [(.node ⟨⟨8, 9⟩, .Up, 92⟩ [])]), (.node ⟨⟨8, 8⟩, .Up, 86⟩ [])]), (.node ⟨⟨10, 2⟩, .Up, 78⟩ [(.node ⟨⟨7, 4⟩, .Right, 78⟩ [(.node ⟨⟨7, 9⟩, .Down, 85⟩ [(.node ⟨⟨7, 7⟩, .Up, 85⟩ [(.node ⟨⟨7, 7⟩, .Down, 85⟩ [])]), (.node ⟨⟨8, 10⟩, .Up, 88⟩ [(.node ⟨⟨8, 10⟩, .Down, 88⟩ [])]), (.node ⟨⟨7, 10⟩, .Down, 91⟩ [(.node ⟨⟨7, 11⟩, .Down, 96⟩ [(.node ⟨⟨7, 11⟩, .Up, 96⟩ [])]), (.node ⟨⟨7, 10⟩, .Up, 91⟩ [])]), (.node ⟨⟨7, 6⟩, .Up, 92⟩ [(.node ⟨⟨7, 5⟩, .Up, 99⟩ [(.node ⟨⟨7, 5⟩, .Down, 99⟩ [])]), (.node ⟨⟨7, 6⟩, .Down, 92⟩ [])]), (.node ⟨⟨7, 9⟩, .Up, 85⟩ [])]), (.node ⟨⟨7, 4⟩, .Left, 78⟩ [])]), (.node ⟨⟨7, 9⟩, .Left, 82⟩ [(.node ⟨⟨5, 8⟩, .Up, 81⟩ [(.node ⟨⟨5, 8⟩, .Down, 81⟩ [])]), (.node ⟨⟨7, 9⟩, .Right, 82⟩ [])]), (.node ⟨⟨10, 2⟩, .Down, 78⟩ [])]), (.node ⟨⟨6, 5⟩, .Right, 78⟩ [(.node ⟨⟨6, 11⟩, .Right, 84⟩ [(.node ⟨⟨8, 10⟩, .Up, 96⟩ [(.node ⟨⟨8, 9⟩, .Up, 102⟩ [(.node ⟨⟨8, 9⟩, .Down, 102⟩ [])]), (.node ⟨⟨8, 10⟩, .Down, 96⟩ [])]), (.node ⟨⟨8, 11⟩, .Up, 88⟩ [(.node ⟨⟨8, 11⟩, .Down, 88⟩ [])]), (.node ⟨⟨9, 11⟩, .Left, 91⟩ [(.node ⟨⟨10, 11⟩, .Left, 97⟩ [(.node ⟨⟨10, 11⟩, .Right, 97⟩ [])]), (.node ⟨⟨9, 11⟩, .Right, 91⟩ [])]), (.node ⟨⟨8, 11⟩, .Left, 86⟩ [(.node ⟨⟨8, 11⟩, .Right, 86⟩ [])]), (.node ⟨⟨5, 11⟩, .Right, 89⟩ [(.node ⟨⟨4, 11⟩, .Right, 92⟩ [(.node ⟨⟨4, 11⟩, .Left, 92⟩ [])]), (.node ⟨⟨5, 11⟩, .Left, 89⟩ [])]), (.node ⟨⟨11, 8⟩, .Down, 93⟩ [(.node ⟨⟨11, 9⟩, .Down, 100⟩ [(.node ⟨⟨11, 9⟩, .Up, 100⟩ [])]), (.node ⟨⟨11, 8⟩, .Up, 93⟩ [])]), (.node ⟨⟨6, 11⟩, .Left, 84⟩ [])]), (.node ⟨⟨6, 5⟩, .Left, 78⟩ [])])]), (.node ⟨⟨11, 7⟩, .Down, 85⟩ [(.node ⟨⟨7, 9⟩, .Down, 86⟩ [(.node ⟨⟨6, 8⟩, .Right, 85⟩ [(.node ⟨⟨9, 8⟩, .Left, 93⟩ [(.node ⟨⟨10, 8⟩, .Left, 99⟩ [(.node ⟨⟨10, 8⟩, .Right, 99⟩ [])]), (.node ⟨⟨9, 8⟩, .Right, 93⟩ [])]), (.node ⟨⟨5, 8⟩, .Right, 94⟩ [(.node ⟨⟨4, 8⟩, .Right, 100⟩ [(.node ⟨⟨4, 8⟩, .Left, 100⟩ [])]), (.node ⟨⟨5, 8⟩, .Left, 94⟩ [])]), (.node ⟨⟨6, 8⟩, .Left, 85⟩ [])]), (.node ⟨⟨7, 3⟩, .Up, 83⟩ [(.node ⟨⟨7, 3⟩, .Down, 83⟩ [])]), (.node ⟨⟨7, 9⟩, .Up, 86⟩ [])]), (.node ⟨⟨6, 10⟩, .Right, 84⟩ [(.node ⟨⟨7, 9⟩, .Up, 86⟩ [(.node ⟨⟨6, 7⟩, .Up, 85⟩ [(.node ⟨⟨6, 6⟩, .Up, 91⟩ [(.node ⟨⟨6, 6⟩, .Down, 91⟩ [])]), (.node ⟨⟨6, 7⟩, .Down, 85⟩ [])]), (.node ⟨⟨7, 8⟩, .Up, 93⟩ [(.node ⟨⟨7, 8⟩, .Down, 93⟩ [])]), (.node ⟨⟨7, 9⟩, .Down, 86⟩ [])]), (.node ⟨⟨6, 10⟩, .Left, 84⟩ [])]), (.node ⟨⟨6, 12⟩, .Down, 87⟩ [(.node ⟨⟨7, 11⟩, .Down, 90⟩ [(.node ⟨⟨7, 12⟩, .Down, 93⟩ [(.node ⟨⟨7, 12⟩, .Up, 93⟩ [])]), (.node ⟨⟨7, 11⟩, .Up, 90⟩ [])]), (.node ⟨⟨8, 6⟩, .Right, 85⟩ [(.node ⟨⟨7, 6⟩, .Right, 92⟩ [(.node ⟨⟨7, 6⟩, .Left, 92⟩ [])]), (.node ⟨⟨8, 6⟩, .Left, 85⟩ [])]), (.node ⟨⟨6, 12⟩, .Up, 87⟩ [])]), (.node ⟨⟨12, 8⟩, .Down, 87⟩ [(.node ⟨⟨12, 4⟩, .Up, 89⟩ [(.node ⟨⟨12, 3⟩, .Up, 91⟩ [(.node ⟨⟨12, 3⟩, .Down, 91⟩ [])]), (.node ⟨⟨12, 4⟩, .Down, 89⟩ [])]), (.node ⟨⟨10, 6⟩, .Right, 89⟩ [(.node ⟨⟨9, 6⟩, .Right, 98⟩ [(.node ⟨⟨9, 6⟩, .Left, 98⟩ [])]), (.node ⟨⟨10, 6⟩, .Left, 89⟩ [])]), (.node ⟨⟨12, 9⟩, .Down, 92⟩ [(.node ⟨⟨12, 9⟩, .Up, 92⟩ [])]), (.node ⟨⟨12, 8⟩, .Up, 87⟩ [])]), (.node ⟨⟨8, 10⟩, .Left, 85⟩ [(.node ⟨⟨8, 10⟩, .Right, 85⟩ [])]), (.node ⟨⟨9, 10⟩, .Left, 89⟩ [(.node ⟨⟨10, 10⟩, .Left, 94⟩ [(.node ⟨⟨10, 10⟩, .Right, 94⟩ [])]), (.node ⟨⟨9, 10⟩, .Right, 89⟩ [])]), (.node ⟨⟨11, 7⟩, .Up, 85⟩ [])]), (.node ⟨⟨11, 5⟩, .Up, 81⟩ [(.node ⟨⟨11, 6⟩, .Right, 83⟩ [(.node ⟨⟨5, 6⟩, .Up, 85⟩ [(.node ⟨⟨5, 6⟩, .Down, 85⟩ [])]), (.node ⟨⟨4, 10⟩, .Right, 82⟩ [(.node ⟨⟨10, 4⟩, .Up, 87⟩ [(.node ⟨⟨10, 3⟩, .Up, 91⟩ [(.node ⟨⟨10, 3⟩, .Down, 91⟩ [])]), (.node ⟨⟨10, 4⟩, .Down, 87⟩ [])]), (.node ⟨⟨3, 10⟩, .Right, 86⟩ [(.node ⟨⟨3, 10⟩, .Left, 86⟩ [])]), (.node ⟨⟨4, 10⟩, .Left, 82⟩ [])]), (.node ⟨⟨11, 6⟩, .Left, 83⟩ [])]), (.node ⟨⟨2, 9⟩, .Right, 80⟩ [(.node ⟨⟨5, 6⟩, .Right, 85⟩ [(.node ⟨⟨5, 6⟩, .Left, 85⟩ [])]), (.node ⟨⟨2, 9⟩, .Left, 80⟩ [])]), (.node ⟨⟨8, 9⟩, .Left, 86⟩ [(.node ⟨⟨11, 6⟩, .Left, 87⟩ [(.node ⟨⟨11, 6⟩, .Right, 87⟩ [])]), (.node ⟨⟨8, 9⟩, .Right, 86⟩ [])]), (.node ⟨⟨9, 7⟩, .Down, 82⟩ [(.node ⟨⟨4, 7⟩, .Right, 78⟩ [(.node ⟨⟨3, 7⟩, .Right, 86⟩ [(.node ⟨⟨3, 7⟩, .Left, 86⟩ [])]), (.node ⟨⟨4, 7⟩, .Left, 78⟩ [])]), (.node ⟨⟨9, 8⟩, .Down, 90⟩ [(.node ⟨⟨9, 9⟩, .Down, 96⟩ [(.node ⟨⟨9, 9⟩, .Up, 96⟩ [])]), (.node ⟨⟨9, 8⟩, .Up, 90⟩ [])]), (.node ⟨⟨4, 9⟩, .Right, 88⟩ [(.node ⟨⟨3, 9⟩, .Right, 93⟩ [(.node ⟨⟨3, 9⟩, .Left, 93⟩ [])]), (.node ⟨⟨4, 9⟩, .Left, 88⟩ [])]), (.node ⟨⟨9, 7⟩, .Up, 82⟩ [])]), (.node ⟨⟨9, 4⟩, .Right, 79⟩ [(.node ⟨⟨7, 10⟩, .Down, 85⟩ [(.node ⟨⟨7, 10⟩, .Up, 85⟩ [])]), (.node ⟨⟨10, 5⟩, .Up, 81⟩ [(.node ⟨⟨10, 5⟩, .Down, 81⟩ [])]), (.node ⟨⟨9, 5⟩, .Up, 80⟩ [(.node ⟨⟨5, 9⟩, .Right, 81⟩ [(.node ⟨⟨9, 4⟩, .Up, 86⟩ [(.node ⟨⟨9, 3⟩, .Up, 90⟩ [(.node ⟨⟨9, 3⟩, .Down, 90⟩ [])]), (.node ⟨⟨9, 4⟩, .Down, 86⟩ [])]), (.node ⟨⟨5, 9⟩, .Left, 81⟩ [])]), (.node ⟨⟨8, 9⟩, .Left, 88⟩ [(.node ⟨⟨9, 9⟩, .Left, 94⟩ [(.node ⟨⟨9, 9⟩, .Right, 94⟩ [])]), (.node ⟨⟨8, 9⟩, .Right, 88⟩ [])]), (.node ⟨⟨9, 5⟩, .Down, 80⟩ [])]), (.node ⟨⟨7, 6⟩, .Right, 81⟩ [(.node ⟨⟨6, 6⟩, .Right, 87⟩ [(.node ⟨⟨6, 6⟩, .Left, 87⟩ [])]), (.node ⟨⟨7, 6⟩, .Left, 81⟩ [])]), (.node ⟨⟨5, 9⟩, .Up, 80⟩ [(.node ⟨⟨5, 9⟩, .Down, 80⟩ [])]), (.node ⟨⟨9, 4⟩, .Left, 79⟩ [])]), (.node ⟨⟨11, 2⟩, .Up, 82⟩ [(.node ⟨⟨11, 2⟩, .Down, 82⟩ [])]), (.node ⟨⟨11, 7⟩, .Down, 83⟩ [(.node ⟨⟨11, 8⟩, .Down, 91⟩ [(.node ⟨⟨11, 8⟩, .Up, 91⟩ [])]), (.node ⟨⟨11, 7⟩, .Up, 83⟩ [])]), (.node ⟨⟨5, 7⟩, .Up, 80⟩ [(.node ⟨⟨5, 7⟩, .Down, 80⟩ [])]), (.node ⟨⟨11, 4⟩, .Up, 86⟩ [(.node ⟨⟨11, 3⟩, .Up, 92⟩ [(.node ⟨⟨11, 3⟩, .Down, 92⟩ [])]), (.node ⟨⟨11, 4⟩, .Down, 86⟩ [])]), (.node ⟨⟨5, 10⟩, .Right, 88⟩ [(.node ⟨⟨4, 10⟩, .Right, 93⟩ [(.node ⟨⟨4, 10⟩, .Left, 93⟩ [])]), (.node ⟨⟨5, 10⟩, .Left, 88⟩ [])]), (.node ⟨⟨11, 5⟩, .Down, 81⟩ [])]), (.node ⟨⟨6, 4⟩, .Right, 76⟩ [(.node ⟨⟨11, 7⟩, .Left, 87⟩ [(.node ⟨⟨8, 7⟩, .Right, 97⟩ [(.node ⟨⟨7, 7⟩, .Right, 106⟩ [(.node ⟨⟨7, 7⟩, .Left, 106⟩ [])]), (.node ⟨⟨8, 7⟩, .Left, 97⟩ [])]), (.node ⟨⟨9, 7⟩, .Right, 88⟩ [(.node ⟨⟨9, 7⟩, .Left, 88⟩ [])]), (.node ⟨⟨12, 7⟩, .Left, 93⟩ [(.node ⟨⟨12, 7⟩, .Right, 93⟩ [])]), (.node ⟨⟨11, 7⟩, .Right, 87⟩ [])]), (.node ⟨⟨10, 8⟩, .Down, 86⟩ [(.node ⟨⟨10, 8⟩, .Up, 86⟩ [])]), (.node ⟨⟨6, 10⟩, .Down, 84⟩ [(.node ⟨⟨6, 10⟩, .Up, 84⟩ [])]), (.node ⟨⟨5, 6⟩, .Right, 77⟩ [(.node ⟨⟨7, 10⟩, .Up, 84⟩ [(.node ⟨⟨7, 9⟩, .Up, 93⟩ [(.node ⟨⟨7, 9⟩, .Down, 93⟩ [])]), (.node ⟨⟨7, 10⟩, .Down, 84⟩ [])]), (.node ⟨⟨6, 8⟩, .Up, 81⟩ [(.node ⟨⟨6, 7⟩, .Up, 90⟩ [(.node ⟨⟨6, 7⟩, .Down, 90⟩ [])]), (.node ⟨⟨6, 8⟩, .Down, 81⟩ [])]), (.node ⟨⟨4, 6⟩, .Right, 84⟩ [(.node ⟨⟨4, 6⟩, .Left, 84⟩ [])]), (.node ⟨⟨5, 6⟩, .Left, 77⟩ [])]), (.node ⟨⟨4, 12⟩, .Right, 82⟩ [(.node ⟨⟨3, 12⟩, .Right, 84⟩ [(.node ⟨⟨3, 12⟩, .Left, 84⟩ [])]), (.node ⟨⟨4, 12⟩, .Left, 82⟩ [])]), (.node ⟨⟨6, 4⟩, .Left, 76⟩ [])]), (.node ⟨⟨6, 3⟩, .Up, 76⟩ [(.node ⟨⟨7, 9⟩, .Up, 84⟩ [(.node ⟨⟨5, 5⟩, .Right, 79⟩ [(.node ⟨⟨5, 5⟩, .Left, 79⟩ [])]), (.node ⟨⟨7, 9⟩, .Down, 84⟩ [])]), (.node ⟨⟨6, 3⟩, .Down, 76⟩ [])]), (.node ⟨⟨5, 4⟩, .Up, 75⟩ [(.node ⟨⟨8, 2⟩, .Up, 77⟩ [(.node ⟨⟨8, 2⟩, .Down, 77⟩ [])]), (.node ⟨⟨5, 4⟩, .Down, 75⟩ [])]), (.node ⟨⟨7, 7⟩, .Right, 84⟩ [(.node ⟨⟨5, 7⟩, .Right, 86⟩ [(.node ⟨⟨4, 7⟩, .Right, 94⟩ [(.node ⟨⟨4, 7⟩, .Left, 94⟩ [])]), (.node ⟨⟨5, 7⟩, .Left, 86⟩ [])]), (.node ⟨⟨6, 7⟩, .Right, 93⟩ [(.node ⟨⟨5, 7⟩, .Right, 100⟩ [(.node ⟨⟨5, 7⟩, .Left, 100⟩ [])]), (.node ⟨⟨6, 7⟩, .Left, 93⟩ [])]), (.node ⟨⟨10, 7⟩, .Left, 92⟩ [(.node ⟨⟨11, 7⟩, .Left, 100⟩ [(.node ⟨⟨11, 7⟩, .Right, 100⟩ [])]), (.node ⟨⟨10, 7⟩, .Right, 92⟩ [])]), (.node ⟨⟨7, 7⟩, .Left, 84⟩ [])]), (.node ⟨⟨8, 10⟩, .Left, 85⟩ [(.node ⟨⟨6, 8⟩, .Up, 88⟩ [(.node ⟨⟨6, 8⟩, .Down, 88⟩ [])]), (.node ⟨⟨8, 10⟩, .Right, 85⟩ [])])])

/-- Simulation snapshot: visited set after segment 10 of the day-17 a-run. -/
def d17aSeen11 : SeenTree := (.branch (.branch .leaf (0, 0, 0) .leaf) (0, 0, 1) (.branch (.branch .leaf (0, 0, 2) .leaf) (0, 0, 3) (.branch (.branch (.branch .leaf (0, 1, 0) .leaf) (0, 1, 1) (.branch (.branch (.branch (.branch .leaf (0, 1, 2) .leaf) (0, 1, 3) .leaf) (0, 2, 0) .leaf) (0, 2, 1) (.branch (.branch .leaf (0, 2, 2) .leaf) (0, 2, 3) (.branch (.branch .leaf (0, 3, 0) .leaf) (0, 3, 1) (.branch (.branch (.branch (.branch (.branch .leaf (0, 3, 2) .leaf) (0, 3, 3) .leaf) (0, 4, 0) .leaf) (0, 4, 1) (.branch (.branch (.branch (.branch .leaf (0, 4, 2) .leaf) (0, 4, 3) .leaf) (0, 5, 0) .leaf) (0, 5, 1) (.branch (.branch (.branch (.branch .leaf (0, 5, 2) .leaf) (0, 5, 3) .leaf) (0, 6, 0) .leaf) (0, 6, 1) (.branch (.branch (.branch (.branch .leaf (0, 6, 2) .leaf) (0, 6, 3) .leaf) (0, 7, 0) .leaf) (0, 7, 1) (.branch (.branch (.branch (.branch .leaf (0, 7, 2) .leaf) (0, 7, 3) .leaf) (0, 8, 0) .leaf) (0, 8, 1) (.branch (.branch (.branch (.branch .leaf (0, 8, 2) .leaf) (0, 8, 3) .leaf) (0, 9, 0) .leaf) (0, 9, 1) (.branch (.branch (.branch (.branch .leaf (0, 9, 2) .leaf) (0, 9, 3) .leaf) (0, 10, 0) .leaf) (0, 10, 1) (.branch (.branch (.branch (.branch .leaf (0, 10, 2) .leaf) (0, 10, 3) .leaf) (0, 11, 0) .leaf) (0, 11, 1) (.branch (.branch (.branch (.branch .leaf (0, 11, 2) .leaf) (0, 11, 3) .leaf) (0, 12, 0) .leaf) (0, 12, 1) (.branch (.branch .leaf (0, 12, 2) .leaf) (0, 12, 3) .leaf)))))))))) (1, 0, 0) (.branch .leaf (1, 0, 1) .leaf)))))) (1, 0, 2) (.branch .leaf (1, 0, 3) (.branch (.branch .leaf (1, 1, 0) .leaf) (1, 1, 1) (.branch (.branch (.branch (.branch .leaf (1, 1, 2) (.branch .leaf (1, 1, 3) .leaf)) (1, 2, 0) .leaf) (1, 2, 1) .leaf) (1, 2, 2) (.branch .leaf (1, 2, 3) (.branch (.branch (.branch .leaf (1, 3, 0) .leaf) (1, 3, 1) (.branch (.branch .leaf (1, 3, 2) (.branch .leaf (1, 3, 3) (.branch (.branch .leaf (1, 4, 0) .leaf) (1, 4, 1) (.branch .leaf (1, 4, 2) (.branch .leaf (1, 4, 3) (.branch (.branch .leaf (1, 5, 0) .leaf) (1, 5, 1) (.branch .leaf (1, 5, 2) (.branch .leaf (1, 5, 3) (.branch (.branch .leaf (1, 6, 0) .leaf) (1, 6, 1) (.branch .leaf (1, 6, 2) (.branch .leaf (1, 6, 3) (.branch (.branch .leaf (1, 7, 0) .leaf) (1, 7, 1) (.branch (.branch .leaf (1, 7, 2) (.branch .leaf (1, 7, 3) (.branch (.branch .leaf (1, 8, 0) .leaf) (1, 8, 1) .leaf))) (1, 8, 2) (.branch .leaf (1, 8, 3) (.branch (.branch .leaf (1, 9, 0) .leaf) (1, 9, 1) (.branch .leaf (1, 9, 2) (.branch .leaf (1, 9, 3) (.branch (.branch (.branch .leaf (1, 10, 0) .leaf) (1, 10, 1) (.branch .leaf (1, 10, 2) (.branch .leaf (1, 10, 3) (.branch (.branch .leaf (1, 11, 0) .leaf) (1, 11, 1) .leaf)))) (1, 11, 2) (.branch .leaf (1, 11, 3) (.branch (.branch .leaf (1, 12, 0) .leaf) (1, 12, 1) (.branch .leaf (1, 12, 2) (.branch .leaf (1, 12, 3) .leaf)))))))))))))))))))))) (2, 0, 0) (.branch .leaf (2, 0, 1) .leaf))) (2, 0, 2) (.branch .leaf (2, 0, 3) (.branch (.branch (.branch .leaf (2, 1, 0) .leaf) (2, 1, 1) .leaf) (2, 1, 2) (.branch .leaf (2, 1, 3) (.branch (.branch (.branch (.branch .leaf (2, 2, 0) .leaf) (2, 2, 1) .leaf) (2, 2, 2) (.branch .leaf (2, 2, 3) (.branch (.branch (.branch .leaf (2, 3, 0) .leaf) (2, 3, 1) (.branch .leaf (2, 3, 2) (.branch .leaf (2, 3, 3) (.branch (.branch (.branch .leaf (2, 4, 0) .leaf) (2, 4, 1) .leaf) (2, 4, 2) (.branch .leaf (2, 4, 3) (.branch (.branch .leaf (2, 5, 0) .leaf) (2, 5, 1) (.branch .leaf (2, 5, 2) (.branch .leaf (2, 5, 3) (.branch (.branch .leaf (2, 6, 0) .leaf) (2, 6, 1) (.branch .leaf (2, 6, 2) (.branch .leaf (2, 6, 3) (.branch (.branch .leaf (2, 7, 0) .leaf) (2, 7, 1) (.branch .leaf (2, 7, 2) (.branch .leaf (2, 7, 3) (.branch (.branch (.branch .leaf (2, 8, 0) .leaf) (2, 8, 1) .leaf) (2, 8, 2) (.branch .leaf (2, 8, 3) (.branch (.branch (.branch .leaf (2, 9, 0) .leaf) (2, 9, 1) .leaf) (2, 9, 2) (.branch .leaf (2, 9, 3) (.branch (.branch .leaf (2, 10, 0) .leaf) (2, 10, 1) (.branch .leaf (2, 10, 2) (.branch .leaf (2, 10, 3) (.branch (.branch (.branch .leaf (2, 11, 0) .leaf) (2, 11, 1) .leaf) (2, 11, 2) (.branch .leaf (2, 11, 3) (.branch (.branch (.branch .leaf (2, 12, 0) .leaf) (2, 12, 1) .leaf) (2, 12, 2) (.branch .leaf (2, 12, 3) .leaf))))))))))))))))))))))))) (3, 0, 0) (.branch .leaf (3, 0, 1) .leaf)))) (3, 0, 2) (.branch .leaf (3, 0, 3) (.branch (.branch (.branch .leaf (3, 1, 0) .leaf) (3, 1, 1) .leaf) (3, 1, 2) (.branch .leaf (3, 1, 3) (.branch (.branch .leaf (3, 2, 0) .leaf) (3, 2, 1) (.branch .leaf (3, 2, 2) (.branch .leaf (3, 2, 3) (.branch (.branch (.branch (.branch .leaf (3, 3, 0) .leaf) (3, 3, 1) (.branch (.branch .leaf (3, 3, 2) (.branch .leaf (3, 3, 3) (.branch (.branch .leaf (3, 4, 0) .leaf) (3, 4, 1) .leaf))) (3, 4, 2) (.branch .leaf (3, 4, 3) (.branch (.branch (.branch (.branch .leaf (3, 5, 0) .leaf) (3, 5, 1) .leaf) (3, 5, 2) (.branch .leaf (3, 5, 3) (.branch (.branch (.branch .leaf (3, 6, 0) .leaf) (3, 6, 1) .leaf) (3, 6, 2) (.branch .leaf (3, 6, 3) (.branch (.branch .leaf (3, 7, 0) .leaf) (3, 7, 1) (.branch .leaf (3, 7, 2) (.branch .leaf (3, 7, 3) (.branch (.branch (.branch .leaf (3, 8, 0) .leaf) (3, 8, 1) .leaf) (3, 8, 2) (.branch .leaf (3, 8, 3) (.branch (.branch (.branch .leaf (3, 9, 0) .leaf) (3, 9, 1) .leaf) (3, 9, 2) (.branch .leaf (3, 9, 3) (.branch (.branch (.branch .leaf (3, 10, 0) .leaf) (3, 10, 1) .leaf) (3, 10, 2) (.branch .leaf (3, 10, 3) (.branch (.branch (.branch .leaf (3, 11, 0) .leaf) (3, 11, 1) (.branch .leaf (3, 11, 2) (.branch .leaf (3, 11, 3) (.branch (.branch .leaf (3, 12, 0) .leaf) (3, 12, 1) .leaf)))) (3, 12, 2) (.branch .leaf (3, 12, 3) .leaf))))))))))))))) (4, 0, 0) (.branch .leaf (4, 0, 1) .leaf))))) (4, 0, 2) (.branch .leaf (4, 0, 3) (.branch (.branch .leaf (4, 1, 0) .leaf) (4, 1, 1) .leaf))) (4, 1, 2) (.branch .leaf (4, 1, 3) (.branch (.branch (.branch (.branch .leaf (4, 2, 0) .leaf) (4, 2, 1) .leaf) (4, 2, 2) (.branch .leaf (4, 2, 3) (.branch (.branch (.branch .leaf (4, 3, 0) .leaf) (4, 3, 1) (.branch .leaf (4, 3, 2) (.branch .leaf (4, 3, 3) (.branch (.branch (.branch .leaf (4, 4, 0) .leaf) (4, 4, 1) .leaf) (4, 4, 2) (.branch .leaf (4, 4, 3) (.branch (.branch .leaf (4, 5, 0) .leaf) (4, 5, 1) (.branch .leaf (4, 5, 2) (.branch .leaf (4, 5, 3) (.branch (.branch (.branch .leaf (4, 6, 0) .leaf) (4, 6, 1) .leaf) (4, 6, 2) (.branch .leaf (4, 6, 3) (.branch (.branch .leaf (4, 7, 0) .leaf) (4, 7, 1) (.branch .leaf (4, 7, 2) (.branch .leaf (4, 7, 3) (.branch (.branch (.branch .leaf (4, 8, 0) .leaf) (4, 8, 1) .leaf) (4, 8, 2) (.branch .leaf (4, 8, 3) (.branch (.branch (.branch (.branch .leaf (4, 9, 0) .leaf) (4, 9, 1) .leaf) (4, 9, 2) (.branch .leaf (4, 9, 3) (.branch (.branch .leaf (4, 10, 0) .leaf) (4, 10, 1) .leaf))) (4, 10, 2) (.branch .leaf (4, 10, 3) (.branch (.branch (.branch .leaf (4, 11, 0) .leaf) (4, 11, 1) .leaf) (4, 11, 2) (.branch .leaf (4, 11, 3) (.branch (.branch (.branch .leaf (4, 12, 0) .leaf) (4, 12, 1) .leaf) (4, 12, 2) (.branch .leaf (4, 12, 3) .leaf))))))))))))))))))))) (5, 0, 0) (.branch .leaf (5, 0, 1) .leaf)))) (5, 0, 2) (.branch .leaf (5, 0, 3) (.branch (.branch (.branch .leaf (5, 1, 0) .leaf) (5, 1, 1) .leaf) (5, 1, 2) (.branch .leaf (5, 1, 3) (.branch (.branch (.branch .leaf (5, 2, 0) .leaf) (5, 2, 1) .leaf) (5, 2, 2) (.branch .leaf (5, 2, 3) (.branch (.branch (.branch .leaf (5, 3, 0) .leaf) (5, 3, 1) (.branch (.branch .leaf (5, 3, 2) (.branch .leaf (5, 3, 3) (.branch (.branch (.branch .leaf (5, 4, 0) .leaf) (5, 4, 1) .leaf) (5, 4, 2) (.branch .leaf (5, 4, 3) (.branch (.branch (.branch .leaf (5, 5, 0) .leaf) (5, 5, 1) .leaf) (5, 5, 2) (.branch .leaf (5, 5, 3) (.branch (.branch (.branch .leaf (5, 6, 0) .leaf) (5, 6, 1) .leaf) (5, 6, 2) (.branch .leaf (5, 6, 3) (.branch (.branch .leaf (5, 7, 0) .leaf) (5, 7, 1) (.branch .leaf (5, 7, 2) (.branch .leaf (5, 7, 3) (.branch (.branch (.branch (.branch .leaf (5, 8, 0) .leaf) (5, 8, 1) .leaf) (5, 8, 2) (.branch .leaf (5, 8, 3) (.branch (.branch .leaf (5, 9, 0) (.branch .leaf (5, 9, 1) .leaf)) (5, 9, 2) (.branch .leaf (5, 9, 3) (.branch .leaf (5, 10, 0) (.branch .leaf (5, 10, 1) .leaf)))))) (5, 10, 2) (.branch .leaf (5, 10, 3) (.branch (.branch (.branch .leaf (5, 11, 0) .leaf) (5, 11, 1) .leaf) (5, 11, 2) (.branch .leaf (5, 11, 3) (.branch (.branch (.branch .leaf (5, 12, 0) .leaf) (5, 12, 1) .leaf) (5, 12, 2) (.branch .leaf (5, 12, 3) .leaf))))))))))))))))) (6, 0, 0) (.branch .leaf (6, 0, 1) .leaf))) (6, 0, 2) (.branch .leaf (6, 0, 3) (.branch (.branch (.branch .leaf (6, 1, 0) .leaf) (6, 1, 1) .leaf) (6, 1, 2) (.branch .leaf (6, 1, 3) (.branch (.branch (.branch .leaf (6, 2, 0) .leaf) (6, 2, 1) .leaf) (6, 2, 2) (.branch .leaf (6, 2, 3) (.branch (.branch (.branch .leaf (6, 3, 0) .leaf) (6, 3, 1) (.branch (.branch .leaf (6, 3, 2) (.branch .leaf (6, 3, 3) (.branch (.branch .leaf (6, 4, 0) .leaf) (6, 4, 1) (.branch .leaf (6, 4, 2) (.branch .leaf (6, 4, 3) (.branch (.branch .leaf (6, 5, 0) .leaf) (6, 5, 1) (.branch .leaf (6, 5, 2) (.branch .leaf (6, 5, 3) (.branch (.branch (.branch .leaf (6, 6, 0) .leaf) (6, 6, 1) .leaf) (6, 6, 2) (.branch .leaf (6, 6, 3) (.branch (.branch (.branch .leaf (6, 7, 0) .leaf) (6, 7, 1) .leaf) (6, 7, 2) (.branch .leaf (6, 7, 3) (.branch (.branch (.branch (.branch (.branch .leaf (6, 8, 0) .leaf) (6, 8, 1) .leaf) (6, 8, 2) (.branch .leaf (6, 8, 3) (.branch (.branch (.branch .leaf (6, 9, 0) .leaf) (6, 9, 1) .leaf) (6, 9, 2) (.branch .leaf (6, 9, 3) (.branch .leaf (6, 10, 0) (.branch .leaf (6, 10, 1) .leaf)))))) (6, 10, 2) (.branch .leaf (6, 10, 3) (.branch (.branch .leaf (6, 11, 0) .leaf) (6, 11, 1) .leaf))) (6, 11, 2) (.branch .leaf (6, 11, 3) (.branch (.branch (.branch .leaf (6, 12, 0) .leaf) (6, 12, 1) .leaf) (6, 12, 2) (.branch .leaf (6, 12, 3) .leaf)))))))))))))))) (7, 0, 0) (.branch .leaf (7, 0, 1) .leaf))) (7, 0, 2) (.branch .leaf (7, 0, 3) (.branch (.branch (.branch (.branch .leaf (7, 1, 0) .leaf) (7, 1, 1) .leaf) (7, 1, 2) (.branch .leaf (7, 1, 3) (.branch (.branch .leaf (7, 2, 0) .leaf) (7, 2, 1) .leaf))) (7, 2, 2) (.branch .leaf (7, 2, 3) (.branch (.branch (.branch .leaf (7, 3, 0) .leaf) (7, 3, 1) (.branch .leaf (7, 3, 2) (.branch .leaf (7, 3, 3) (.branch (.branch (.branch .leaf (7, 4, 0) .leaf) (7, 4, 1) (.branch .leaf (7, 4, 2) (.branch .leaf (7, 4, 3) (.branch (.branch .leaf (7, 5, 0) .leaf) (7, 5, 1) (.branch .leaf (7, 5, 2) (.branch .leaf (7, 5, 3) (.branch (.branch (.branch .leaf (7, 6, 0) .leaf) (7, 6, 1) .leaf) (7, 6, 2) (.branch .leaf (7, 6, 3) (.branch (.branch (.branch .leaf (7, 7, 0) .leaf) (7, 7, 1) (.branch .leaf (7, 7, 2) (.branch .leaf (7, 7, 3) (.branch (.branch (.branch (.branch (.branch .leaf (7, 8, 0) .leaf) (7, 8, 1) .leaf) (7, 8, 2) (.branch .leaf (7, 8, 3) (.branch (.branch .leaf (7, 9, 0) (.branch .leaf (7, 9, 1) .leaf)) (7, 9, 2) (.branch .leaf (7, 9, 3) .leaf)))) (7, 10, 0) (.branch .leaf (7, 10, 1) .leaf)) (7, 10, 2) (.branch .leaf (7, 10, 3) (.branch .leaf (7, 11, 0) (.branch .leaf (7, 11, 1) .leaf))))))) (7, 11, 2) (.branch .leaf (7, 11, 3) (.branch (.branch (.branch .leaf (7, 12, 0) .leaf) (7, 12, 1) .leaf) (7, 12, 2) (.branch .leaf (7, 12, 3) .leaf)))))))))))) (8, 0, 0) (.branch .leaf (8, 0, 1) .leaf))))) (8, 0, 2) (.branch .leaf (8, 0, 3) (.branch (.branch (.branch (.branch .leaf (8, 1, 0) .leaf) (8, 1, 1) .leaf) (8, 1, 2) (.branch .leaf (8, 1, 3) (.branch (.branch .leaf (8, 2, 0) .leaf) (8, 2, 1) .leaf))) (8, 2, 2) (.branch .leaf (8, 2, 3) (.branch (.branch .leaf (8, 3, 0) .leaf) (8, 3, 1) (.branch .leaf (8, 3, 2) (.branch .leaf (8, 3, 3) (.branch (.branch (.branch .leaf (8, 4, 0) .leaf) (8, 4, 1) (.branch (.branch .leaf (8, 4, 2) (.branch .leaf (8, 4, 3) (.branch (.branch .leaf (8, 5, 0) .leaf) (8, 5, 1) (.branch .leaf (8, 5, 2) (.branch .leaf (8, 5, 3) (.branch (.branch .leaf (8, 6, 0) .leaf) (8, 6, 1) (.branch .leaf (8, 6, 2) (.branch .leaf (8, 6, 3) (.branch (.branch .leaf (8, 7, 0) .leaf) (8, 7, 1) (.branch (.branch (.branch .leaf (8, 7, 2) (.branch .leaf (8, 7, 3) (.branch (.branch .leaf (8, 8, 0) .leaf) (8, 8, 1) (.branch (.branch .leaf (8, 8, 2) (.branch .leaf (8, 8, 3) (.branch .leaf (8, 9, 2) (.branch .leaf (8, 9, 3) (.branch .leaf (8, 10, 0) (.branch .leaf (8, 10, 1) .leaf)))))) (8, 10, 2) (.branch .leaf (8, 10, 3) (.branch .leaf (8, 11, 0) (.branch .leaf (8, 11, 1) .leaf))))))) (8, 11, 2) (.branch .leaf (8, 11, 3) (.branch (.branch .leaf (8, 12, 0) .leaf) (8, 12, 1) .leaf))) (8, 12, 2) (.branch .leaf (8, 12, 3) .leaf))))))))))) (9, 0, 0) (.branch .leaf (9, 0, 1) .leaf))) (9, 0, 2) (.branch .leaf (9, 0, 3) (.branch (.branch (.branch (.branch .leaf (9, 1, 0) .leaf) (9, 1, 1) .leaf) (9, 1, 2) (.branch .leaf (9, 1, 3) (.branch (.branch (.branch .leaf (9, 2, 0) .leaf) (9, 2, 1) .leaf) (9, 2, 2) (.branch .leaf (9, 2, 3) (.branch (.branch .leaf (9, 3, 0) .leaf) (9, 3, 1) .leaf))))) (9, 3, 2) (.branch .leaf (9, 3, 3) (.branch (.branch (.branch (.branch .leaf (9, 4, 0) .leaf) (9, 4, 1) (.branch .leaf (9, 4, 2) (.branch .leaf (9, 4, 3) (.branch (.branch .leaf (9, 5, 0) .leaf) (9, 5, 1) (.branch .leaf (9, 5, 2) (.branch .leaf (9, 5, 3) (.branch (.branch .leaf (9, 6, 0) .leaf) (9, 6, 1) (.branch .leaf (9, 6, 2) (.branch .leaf (9, 6, 3) (.branch (.branch (.branch .leaf (9, 7, 0) .leaf) (9, 7, 1) (.branch .leaf (9, 7, 2) (.branch .leaf (9, 7, 3) (.branch (.branch (.branch (.branch .leaf (9, 8, 0) .leaf) (9, 8, 1) .leaf) (9, 10, 2) (.branch .leaf (9, 10, 3) .leaf)) (9, 11, 0) (.branch .leaf (9, 11, 1) (.branch .leaf (9, 11, 2) (.branch .leaf (9, 11, 3) (.branch (.branch .leaf (9, 12, 0) .leaf) (9, 12, 1) .leaf)))))))) (9, 12, 2) (.branch .leaf (9, 12, 3) .leaf))))))))))) (10, 0, 0) (.branch .leaf (10, 0, 1) .leaf)) (10, 0, 2) (.branch .leaf (10, 0, 3) (.branch (.branch .leaf (10, 1, 0) .leaf) (10, 1, 1) (.branch .leaf (10, 1, 2) (.branch .leaf (10, 1, 3) (.branch (.branch (.branch .leaf (10, 2, 0) .leaf) (10, 2, 1) .leaf) (10, 2, 2) (.branch .leaf (10, 2, 3) (.branch (.branch (.branch .leaf (10, 3, 0) .leaf) (10, 3, 1) .leaf) (10, 3, 2) (.branch .leaf (10, 3, 3) (.branch (.branch (.branch .leaf (10, 4, 0) .leaf) (10, 4, 1) (.branch (.branch .leaf (10, 4, 2) (.branch .leaf (10, 4, 3) (.branch (.branch .leaf (10, 5, 0) .leaf) (10, 5, 1) (.branch .leaf (10, 5, 2) (.branch .leaf (10, 5, 3) (.branch (.branch .leaf (10, 6, 0) .leaf) (10, 6, 1) (.branch .leaf (10, 6, 2) (.branch .leaf (10, 6, 3) (.branch (.branch .leaf (10, 7, 0) .leaf) (10, 7, 1) (.branch (.branch (.branch (.branch (.branch .leaf (10, 7, 2) .leaf) (10, 7, 3) .leaf) (10, 8, 0) .leaf) (10, 8, 1) (.branch .leaf (10, 11, 0) (.branch .leaf (10, 11, 1) .leaf))) (10, 12, 2) (.branch .leaf (10, 12, 3) .leaf))))))))))) (11, 0, 0) (.branch .leaf (11, 0, 1) .leaf))) (11, 0, 2) (.branch .leaf (11, 0, 3) (.branch (.branch (.branch .leaf (11, 1, 0) .leaf) (11, 1, 1) .leaf) (11, 1, 2) (.branch .leaf (11, 1, 3) (.branch (.branch (.branch .leaf (11, 2, 0) .leaf) (11, 2, 1) .leaf) (11, 2, 2) (.branch .leaf (11, 2, 3) (.branch (.branch (.branch (.branch (.branch .leaf (11, 3, 0) .leaf) (11, 3, 1) .leaf) (11, 3, 2) (.branch .leaf (11, 3, 3) (.branch (.branch .leaf (11, 4, 0) .leaf) (11, 4, 1) (.branch .leaf (11, 4, 2) (.branch .leaf (11, 4, 3) (.branch (.branch (.branch .leaf (11, 5, 0) .leaf) (11, 5, 1) (.branch .leaf (11, 5, 2) (.branch .leaf (11, 5, 3) (.branch (.branch .leaf (11, 6, 0) .leaf) (11, 6, 1) (.branch .leaf (11, 6, 2) (.branch .leaf (11, 6, 3) (.branch (.branch .leaf (11, 7, 0) .leaf) (11, 7, 1) (.branch .leaf (11, 7, 2) (.branch .leaf (11, 7, 3) (.branch (.branch .leaf (11, 8, 0) .leaf) (11, 8, 1) .leaf)))))))))) (12, 0, 0) (.branch .leaf (12, 0, 1) .leaf))))))) (12, 0, 2) (.branch .leaf (12, 0, 3) (.branch (.branch (.branch .leaf (12, 1, 0) .leaf) (12, 1, 1) .leaf) (12, 1, 2) (.branch .leaf (12, 1, 3) (.branch (.branch .leaf (12, 2, 0) .leaf) (12, 2, 1) .leaf))))) (12, 2, 2) (.branch .leaf (12, 2, 3) (.branch (.branch .leaf (12, 3, 0) .leaf) (12, 3, 1) (.branch .leaf (12, 3, 2) (.branch .leaf (12, 3, 3) (.branch (.branch .leaf (12, 4, 0) .leaf) (12, 4, 1) (.branch .leaf (12, 4, 2) (.branch .leaf (12, 4, 3) (.branch (.branch .leaf (12, 5, 0) .leaf) (12, 5, 1) (.branch .leaf (12, 5, 2) (.branch .leaf (12, 5, 3) (.branch (.branch .leaf (12, 6, 0) .leaf) (12, 6, 1) (.branch .leaf (12, 6, 2) (.branch .leaf (12, 6, 3) (.branch (.branch .leaf (12, 7, 0) .leaf) (12, 7, 1) (.branch (.branch (.branch .leaf (12, 7, 2) (.branch .leaf (12, 7, 3) .leaf)) (12, 8, 0) .leaf) (12, 8, 1) (.branch (.branch .leaf (12, 9, 0) .leaf) (12, 9, 1) .leaf)))))))))))))))))))))))))))))))))))))))))))))))))))))))))))))))))))))))))))))))

/-- Simulation snapshot: heap after segment 10 of the day-17 a-run. -/
def d17aHeap11 : Heap := (.node ⟨⟨9, 4⟩, .Up, 86⟩ [(.node ⟨⟨3, 10⟩, .Right, 86⟩ [(.node ⟨⟨7, 10⟩, .Down, 93⟩ [(.node ⟨⟨7, 4⟩, .Up, 93⟩ [(.node ⟨⟨7, 4⟩, .Down, 93⟩ [])]), (.node ⟨⟨7, 7⟩, .Up, 95⟩ [(.node ⟨⟨7, 6⟩, .Up, 102⟩ [(.node ⟨⟨7, 6⟩, .Down, 102⟩ [])]), (.node ⟨⟨7, 7⟩, .Down, 95⟩ [])]), (.node ⟨⟨7, 10⟩, .Up, 93⟩ [])]), (.node ⟨⟨5, 10⟩, .Right, 88⟩ [(.node ⟨⟨9, 8⟩, .Left, 93⟩ [(.node ⟨⟨5, 8⟩, .Right, 94⟩ [(.node ⟨⟨4, 8⟩, .Right, 100⟩ [(.node ⟨⟨4, 8⟩, .Left, 100⟩ [])]), (.node ⟨⟨5, 8⟩, .Left, 94⟩ [])]), (.node ⟨⟨10, 8⟩, .Left, 99⟩ [(.node ⟨⟨10, 8⟩, .Right, 99⟩ [])]), (.node ⟨⟨9, 8⟩, .Right, 93⟩ [])]), (.node ⟨⟨9, 11⟩, .Right, 98⟩ [(.node ⟨⟨11, 12⟩, .Left, 101⟩ [(.node ⟨⟨12, 12⟩, .Left, 104⟩ [(.node ⟨⟨12, 12⟩, .Right, 104⟩ [])]), (.node ⟨⟨11, 12⟩, .Right, 101⟩ [])]), (.node ⟨⟨9, 11⟩, .Left, 98⟩ [])]), (.node ⟨⟨12, 8⟩, .Left, 96⟩ [(.node ⟨⟨12, 8⟩, .Right, 96⟩ [])]), (.node ⟨⟨5, 11⟩, .Right, 89⟩ [(.node ⟨⟨4, 12⟩, .Right, 90⟩ [(.node ⟨⟨8, 9⟩, .Up, 94⟩ [(.node ⟨⟨8, 8⟩, .Up, 102⟩ [(.node ⟨⟨8, 8⟩, .Down, 102⟩ [])]), (.node ⟨⟨8, 9⟩, .Down, 94⟩ [])]), (.node ⟨⟨8, 10⟩, .Down, 94⟩ [(.node ⟨⟨11, 6⟩, .Up, 95⟩ [(.node ⟨⟨11, 5⟩, .Up, 99⟩ [(.node ⟨⟨11, 4⟩, .Up, 104⟩ [(.node ⟨⟨11, 4⟩, .Down, 104⟩ [])]), (.node ⟨⟨11, 5⟩, .Down, 99⟩ [])]), (.node ⟨⟨8, 11⟩, .Down, 102⟩ [(.node ⟨⟨8, 12⟩, .Down, 109⟩ [(.node ⟨⟨8, 12⟩, .Up, 109⟩ [])]), (.node ⟨⟨8, 11⟩, .Up, 102⟩ [])]), (.node ⟨⟨11, 6⟩, .Down, 95⟩ [])]), (.node ⟨⟨8, 10⟩, .Up, 94⟩ [])]), (.node ⟨⟨9, 10⟩, .Up, 93⟩ [(.node ⟨⟨9, 9⟩, .Up, 99⟩ [(.node ⟨⟨9, 9⟩, .Down, 99⟩ [])]), (.node ⟨⟨9, 10⟩, .Down, 93⟩ [])]), (.node ⟨⟨4, 12⟩, .Left, 90⟩ [])]), (.node ⟨⟨12, 9⟩, .Down, 96⟩ [(.node ⟨⟨12, 10⟩, .Down, 101⟩ [(.node ⟨⟨12, 10⟩, .Up, 101⟩ [])]), (.node ⟨⟨12, 9⟩, .Up, 96⟩ [])]), (.node ⟨⟨10, 11⟩, .Left, 97⟩ [(.node ⟨⟨10, 11⟩, .Right, 97⟩ [])]), (.node ⟨⟨9, 8⟩, .Left, 91⟩ [(.node ⟨⟨10, 8⟩, .Left, 97⟩ [(.node ⟨⟨11, 8⟩, .Left, 105⟩ [(.node ⟨⟨11, 8⟩, .Right, 105⟩ [])]), (.node ⟨⟨10, 8⟩, .Right, 97⟩ [])]), (.node ⟨⟨9, 8⟩, .Right, 91⟩ [])]), (.node ⟨⟨11, 8⟩, .Down, 93⟩ [(.node ⟨⟨11, 9⟩, .Down, 100⟩ [(.node ⟨⟨11, 9⟩, .Up, 100⟩ [])]), (.node ⟨⟨11, 8⟩, .Up, 93⟩ [])]), (.node ⟨⟨4, 11⟩, .Right, 92⟩ [(.node ⟨⟨4, 11⟩, .Left, 92⟩ [])]), (.node ⟨⟨5, 11⟩, .Left, 89⟩ [])]), (.node ⟨⟨8, 9⟩, .Down, 92⟩ [(.node ⟨⟨10, 8⟩, .Left, 95⟩ [(.node ⟨⟨10, 8⟩, .Right, 95⟩ [])]), (.node ⟨⟨6, 9⟩, .Right, 91⟩ [(.node ⟨⟨6, 9⟩, .Left, 91⟩ [])]), (.node ⟨⟨8, 9⟩, .Up, 92⟩ [])]), (.node ⟨⟨7, 10⟩, .Down, 91⟩ [(.node ⟨⟨12, 7⟩, .Left, 93⟩ [(.node ⟨⟨8, 7⟩, .Right, 97⟩ [(.node ⟨⟨7, 7⟩, .Right, 106⟩ [(.node ⟨⟨7, 7⟩, .Left, 106⟩ [])]), (.node ⟨⟨8, 7⟩, .Left, 97⟩ [])]), (.node ⟨⟨12, 7⟩, .Right, 93⟩ [])]), (.node ⟨⟨9, 8⟩, .Down, 92⟩ [(.node ⟨⟨7, 10⟩, .Right, 94⟩ [(.node ⟨⟨7, 10⟩, .Left, 94⟩ [])]), (.node ⟨⟨11, 8⟩, .Left, 94⟩ [(.node ⟨⟨8, 8⟩, .Right, 102⟩ [(.node ⟨⟨7, 8⟩, .Right, 109⟩ [(.node ⟨⟨7, 8⟩, .Left, 109⟩ [])]), (.node ⟨⟨8, 8⟩, .Left, 102⟩ [])]), (.node ⟨⟨9, 8⟩, .Right, 94⟩ [(.node ⟨⟨9, 8⟩, .Left, 94⟩ [])]), (.node ⟨⟨12, 8⟩, .Left, 99⟩ [(.node ⟨⟨12, 8⟩, .Right, 99⟩ [])]), (.node ⟨⟨11, 8⟩, .Right, 94⟩ [])]), (.node ⟨⟨9, 9⟩, .Down, 98⟩ [(.node ⟨⟨9, 10⟩, .Down, 102⟩ [(.node ⟨⟨9, 10⟩, .Up, 102⟩ [])]), (.node ⟨⟨9, 9⟩, .Up, 98⟩ [])]), (.node ⟨⟨9, 9⟩, .Left, 96⟩ [(.node ⟨⟨10, 9⟩, .Left, 101⟩ [(.node ⟨⟨10, 9⟩, .Right, 101⟩ [])]), (.node ⟨⟨9, 9⟩, .Right, 96⟩ [])]), (.node ⟨⟨9, 8⟩, .Up, 92⟩ [])]), (.node ⟨⟨9, 11⟩, .Down, 94⟩ [(.node ⟨⟨9, 9⟩, .Up, 95⟩ [(.node ⟨⟨9, 8⟩, .Up, 103⟩ [(.node ⟨⟨9, 7⟩, .Up, 112⟩ [(.node ⟨⟨9, 7⟩, .Down, 112⟩ [])]), (.node ⟨⟨9, 8⟩, .Down, 103⟩ [])]), (.node ⟨⟨10, 10⟩, .Left, 97⟩ [(.node ⟨⟨11, 10⟩, .Left, 104⟩ [(.node ⟨⟨11, 10⟩, .Right, 104⟩ [])]), (.node ⟨⟨10, 10⟩, .Right, 97⟩ [])]), (.node ⟨⟨9, 9⟩, .Down, 95⟩ [])]), (.node ⟨⟨9, 10⟩, .Up, 94⟩ [(.node ⟨⟨9, 10⟩, .Down, 94⟩ [])]), (.node ⟨⟨9, 12⟩, .Down, 97⟩ [(.node ⟨⟨9, 12⟩, .Up, 97⟩ [])]), (.node ⟨⟨9, 11⟩, .Up, 94⟩ [])]), (.node ⟨⟨7, 6⟩, .Up, 92⟩ [(.node ⟨⟨7, 5⟩, .Up, 99⟩ [(.node ⟨⟨7, 5⟩, .Down, 99⟩ [])]), (.node ⟨⟨7, 6⟩, .Down, 92⟩ [])]), (.node ⟨⟨7, 11⟩, .Down, 96⟩ [(.node ⟨⟨7, 11⟩, .Up, 96⟩ [])]), (.node ⟨⟨7, 10⟩, .Up, 91⟩ [])]), (.node ⟨⟨11, 3⟩, .Up, 92⟩ [(.node ⟨⟨11, 3⟩, .Down, 92⟩ [])]), (.node ⟨⟨4, 10⟩, .Right, 93⟩ [(.node ⟨⟨4, 10⟩, .Left, 93⟩ [])]), (.node ⟨⟨5, 10⟩, .Left, 88⟩ [])]), (.node ⟨⟨8, 3⟩, .Up, 88⟩ [(.node ⟨⟨8, 3⟩, .Down, 88⟩ [])]), (.node ⟨⟨8, 7⟩, .Right, 90⟩ [(.node ⟨⟨10, 10⟩, .Up, 98⟩ [(.node ⟨⟨8, 6⟩, .Right, 94⟩ [(.node ⟨⟨8, 6⟩, .Left, 94⟩ [])]), (.node ⟨⟨10, 7⟩, .Right, 97⟩ [(.node ⟨⟨9, 7⟩, .Right, 106⟩ [(.node ⟨⟨9, 7⟩, .Left, 106⟩ [])]), (.node ⟨⟨10, 7⟩, .Left, 97⟩ [])]), (.node ⟨⟨10, 9⟩, .Up, 103⟩ [(.node ⟨⟨10, 9⟩, .Down, 103⟩ [])]), (.node ⟨⟨10, 10⟩, .Down, 98⟩ [])]), (.node ⟨⟨7, 7⟩, .Right, 99⟩ [(.node ⟨⟨6, 7⟩, .Right, 108⟩ [(.node ⟨⟨6, 7⟩, .Left, 108⟩ [])]), (.node ⟨⟨7, 7⟩, .Left, 99⟩ [])]), (.node ⟨⟨8, 7⟩, .Left, 90⟩ [])]), (.node ⟨⟨8, 9⟩, .Down, 93⟩ [(.node ⟨⟨8, 10⟩, .Down, 101⟩ [(.node ⟨⟨8, 10⟩, .Up, 101⟩ [])]), (.node ⟨⟨8, 9⟩, .Up, 93⟩ [])]), (.node ⟨⟨8, 6⟩, .Up, 101⟩ [(.node ⟨⟨8, 5⟩, .Up, 107⟩ [(.node ⟨⟨8, 5⟩, .Down, 107⟩ [])]), (.node ⟨⟨8, 6⟩, .Down, 101⟩ [])]), (.node ⟨⟨8, 7⟩, .Up, 94⟩ [(.node ⟨⟨8, 7⟩, .Down, 94⟩ [])]), (.node ⟨⟨7, 9⟩, .Up, 93⟩ [(.node ⟨⟨6, 8⟩, .Right, 98⟩ [(.node ⟨⟨5, 8⟩, .Right, 107⟩ [(.node ⟨⟨5, 8⟩, .Left, 107⟩ [])]), (.node ⟨⟨6, 8⟩, .Left, 98⟩ [])]), (.node ⟨⟨7, 9⟩, .Down, 93⟩ [])]), (.node ⟨⟨10, 4⟩, .Up, 87⟩ [(.node ⟨⟨5, 6⟩, .Up, 85⟩ [(.node ⟨⟨5, 6⟩, .Down, 85⟩ [])]), (.node ⟨⟨10, 3⟩, .Up, 91⟩ [(.node ⟨⟨10, 3⟩, .Down, 91⟩ [])]), (.node ⟨⟨10, 4⟩, .Down, 87⟩ [])]), (.node ⟨⟨3, 10⟩, .Left, 86⟩ [])]), (.node ⟨⟨11, 11⟩, .Left, 96⟩ [(.node ⟨⟨8, 12⟩, .Right, 100⟩ [(.node ⟨⟨7, 12⟩, .Right, 103⟩ [(.node ⟨⟨6, 12⟩, .Right, 109⟩ [(.node ⟨⟨6, 12⟩, .Left, 109⟩ [])]), (.node ⟨⟨7, 12⟩, .Left, 103⟩ [])]), (.node ⟨⟨8, 11⟩, .Right, 106⟩ [(.node ⟨⟨7, 11⟩, .Right, 111⟩ [(.node ⟨⟨7, 11⟩, .Left, 111⟩ [])]), (.node ⟨⟨8, 11⟩, .Left, 106⟩ [])]), (.node ⟨⟨8, 12⟩, .Left, 100⟩ [])]), (.node ⟨⟨12, 11⟩, .Left, 99⟩ [(.node ⟨⟨12, 11⟩, .Right, 99⟩ [])]), (.node ⟨⟨11, 11⟩, .Right, 96⟩ [])]), (.node ⟨⟨8, 11⟩, .Down, 93⟩ [(.node ⟨⟨3, 8⟩, .Right, 89⟩ [(.node ⟨⟨3, 8⟩, .Left, 89⟩ [])]), (.node ⟨⟨8, 8⟩, .Up, 99⟩ [(.node ⟨⟨8, 7⟩, .Up, 108⟩ [(.node ⟨⟨8, 7⟩, .Down, 108⟩ [])]), (.node ⟨⟨8, 8⟩, .Down, 99⟩ [])]), (.node ⟨⟨8, 12⟩, .Down, 100⟩ [(.node ⟨⟨8, 12⟩, .Up, 100⟩ [])]), (.node ⟨⟨8, 11⟩, .Up, 93⟩ [])]), (.node ⟨⟨10, 6⟩, .Right, 89⟩ [(.node ⟨⟨8, 9⟩, .Down, 91⟩ [(.node ⟨⟨8, 10⟩, .Down, 99⟩ [(.node ⟨⟨8, 7⟩, .Up, 103⟩ [(.node ⟨⟨8, 6⟩, .Up, 110⟩ [(.node ⟨⟨8, 6⟩, .Down, 110⟩ [])]), (.node ⟨⟨8, 7⟩, .Down, 103⟩ [])]), (.node ⟨⟨8, 11⟩, .Down, 107⟩ [(.node ⟨⟨8, 11⟩, .Up, 107⟩ [])]), (.node ⟨⟨8, 10⟩, .Up, 99⟩ [])]), (.node ⟨⟨8, 9⟩, .Up, 91⟩ [])]), (.node ⟨⟨12, 4⟩, .Up, 89⟩ [(.node ⟨⟨5, 6⟩, .Right, 85⟩ [(.node ⟨⟨5, 6⟩, .Left, 85⟩ [])]), (.node ⟨⟨10, 10⟩, .Left, 94⟩ [(.node ⟨⟨10, 10⟩, .Right, 94⟩ [])]), (.node ⟨⟨12, 3⟩, .Up, 91⟩ [(.node ⟨⟨12, 3⟩, .Down, 91⟩ [])]), (.node ⟨⟨12, 4⟩, .Down, 89⟩ [])]), (.node ⟨⟨11, 9⟩, .Right, 99⟩ [(.node ⟨⟨11, 9⟩, .Left, 99⟩ [])]), (.node ⟨⟨12, 5⟩, .Up, 97⟩ [(.node ⟨⟨12, 4⟩, .Up, 103⟩ [(.node ⟨⟨12, 4⟩, .Down, 103⟩ [])]), (.node ⟨⟨12, 5⟩, .Down, 97⟩ [])]), (.node ⟨⟨9, 6⟩, .Right, 98⟩ [(.node ⟨⟨9, 6⟩, .Left, 98⟩ [])]), (.node ⟨⟨10, 6⟩, .Left, 89⟩ [])]), (.node ⟨⟨9, 8⟩, .Left, 93⟩ [(.node ⟨⟨9, 8⟩, .Right, 93⟩ [])]), (.node ⟨⟨8, 9⟩, .Left, 90⟩ [(.node ⟨⟨5, 7⟩, .Right, 86⟩ [(.node ⟨⟨9, 9⟩, .Up, 100⟩ [(.node ⟨⟨9, 8⟩, .Up, 108⟩ [(.node ⟨⟨9, 8⟩, .Down, 108⟩ [])]), (.node ⟨⟨9, 9⟩, .Down, 100⟩ [])]), (.node ⟨⟨8, 8⟩, .Up, 94⟩ [(.node ⟨⟨8, 8⟩, .Down, 94⟩ [])]), (.node ⟨⟨10, 7⟩, .Left, 92⟩ [(.node ⟨⟨6, 7⟩, .Right, 93⟩ [(.node ⟨⟨5, 7⟩, .Right, 100⟩ [(.node ⟨⟨5, 7⟩, .Left, 100⟩ [])]), (.node ⟨⟨6, 7⟩, .Left, 93⟩ [])]), (.node ⟨⟨11, 7⟩, .Left, 100⟩ [(.node ⟨⟨11, 7⟩, .Right, 100⟩ [])]), (.node ⟨⟨10, 7⟩, .Right, 92⟩ [])]), (.node ⟨⟨6, 8⟩, .Up, 88⟩ [(.node ⟨⟨6, 8⟩, .Down, 88⟩ [])]), (.node ⟨⟨4, 7⟩, .Right, 94⟩ [(.node ⟨⟨4, 7⟩, .Left, 94⟩ [])]), (.node ⟨⟨5, 7⟩, .Left, 86⟩ [])]), (.node ⟨⟨10, 12⟩, .Left, 96⟩ [(.node ⟨⟨10, 12⟩, .Right, 96⟩ [])]), (.node ⟨⟨9, 8⟩, .Right, 105⟩ [(.node ⟨⟨8, 8⟩, .Right, 113⟩ [(.node ⟨⟨8, 8⟩, .Left, 113⟩ [])]), (.node ⟨⟨9, 8⟩, .Left, 105⟩ [])]), (.node ⟨⟨10, 8⟩, .Right, 97⟩ [(.node ⟨⟨10, 8⟩, .Left, 97⟩ [])]), (.node ⟨⟨10, 9⟩, .Down, 92⟩ [(.node ⟨⟨10, 9⟩, .Up, 92⟩ [])]), (.node ⟨⟨7, 6⟩, .Right, 92⟩ [(.node ⟨⟨11, 9⟩, .Down, 102⟩ [(.node ⟨⟨11, 10⟩, .Down, 109⟩ [(.node ⟨⟨11, 10⟩, .Up, 109⟩ [])]), (.node ⟨⟨11, 9⟩, .Up, 102⟩ [])]), (.node ⟨⟨7, 6⟩, .Left, 92⟩ [])]), (.node ⟨⟨9, 5⟩, .Right, 88⟩ [(.node ⟨⟨9, 7⟩, .Left, 90⟩ [(.node ⟨⟨10, 11⟩, .Left, 95⟩ [(.node ⟨⟨6, 6⟩, .Up, 91⟩ [(.node ⟨⟨6, 6⟩, .Down, 91⟩ [])]), (.node ⟨⟨7, 8⟩, .Up, 93⟩ [(.node ⟨⟨7, 8⟩, .Down, 93⟩ [])]), (.node ⟨⟨11, 11⟩, .Left, 98⟩ [(.node ⟨⟨12, 11⟩, .Left, 101⟩ [(.node ⟨⟨12, 11⟩, .Right, 101⟩ [])]), (.node ⟨⟨11, 11⟩, .Right, 98⟩ [])]), (.node ⟨⟨7, 11⟩, .Right, 102⟩ [(.node ⟨⟨6, 11⟩, .Right, 108⟩ [(.node ⟨⟨6, 11⟩, .Left, 108⟩ [])]), (.node ⟨⟨7, 11⟩, .Left, 102⟩ [])]), (.node ⟨⟨10, 11⟩, .Right, 95⟩ [])]), (.node ⟨⟨9, 7⟩, .Right, 97⟩ [(.node ⟨⟨8, 7⟩, .Right, 106⟩ [(.node ⟨⟨8, 7⟩, .Left, 106⟩ [])]), (.node ⟨⟨9, 7⟩, .Left, 97⟩ [])]), (.node ⟨⟨9, 7⟩, .Right, 90⟩ [])]), (.node ⟨⟨10, 7⟩, .Left, 96⟩ [(.node ⟨⟨10, 7⟩, .Right, 96⟩ [])]), (.node ⟨⟨7, 8⟩, .Up, 91⟩ [(.node ⟨⟨8, 5⟩, .Up, 92⟩ [(.node ⟨⟨8, 4⟩, .Up, 101⟩ [(.node ⟨⟨8, 4⟩, .Down, 101⟩ [])]), (.node ⟨⟨8, 5⟩, .Down, 92⟩ [])]), (.node ⟨⟨7, 7⟩, .Up, 100⟩ [(.node ⟨⟨7, 7⟩, .Down, 100⟩ [])]), (.node ⟨⟨7, 8⟩, .Down, 91⟩ [])]), (.node ⟨⟨11, 8⟩, .Down, 95⟩ [(.node ⟨⟨11, 8⟩, .Up, 95⟩ [])]), (.node ⟨⟨7, 8⟩, .Right, 90⟩ [(.node ⟨⟨7, 8⟩, .Left, 90⟩ [])]), (.node ⟨⟨6, 9⟩, .Up, 90⟩ [(.node ⟨⟨6, 9⟩, .Down, 90⟩ [])]), (.node ⟨⟨9, 5⟩, .Left, 88⟩ [])]), (.node ⟨⟨7, 12⟩, .Down, 93⟩ [(.node ⟨⟨7, 12⟩, .Up, 93⟩ [])]), (.node ⟨⟨9, 6⟩, .Up, 93⟩ [(.node ⟨⟨9, 6⟩, .Down, 93⟩ [])]), (.node ⟨⟨8, 9⟩, .Right, 90⟩ [])]), (.node ⟨⟨8, 8⟩, .Right, 97⟩ [(.node ⟨⟨7, 8⟩, .Right, 104⟩ [(.node ⟨⟨6, 8⟩, .Right, 112⟩ [(.node ⟨⟨6, 8⟩, .Left, 112⟩ [])]), (.node ⟨⟨7, 8⟩, .Left, 104⟩ [])]), (.node ⟨⟨8, 8⟩, .Left, 97⟩ [])]), (.node ⟨⟨9, 8⟩, .Down, 90⟩ [(.node ⟨⟨11, 8⟩, .Right, 94⟩ [(.node ⟨⟨11, 8⟩, .Left, 94⟩ [])]), (.node ⟨⟨10, 8⟩, .Right, 100⟩ [(.node ⟨⟨9, 8⟩, .Right, 108⟩ [(.node ⟨⟨9, 8⟩, .Left, 108⟩ [])]), (.node ⟨⟨10, 8⟩, .Left, 100⟩ [])]), (.node ⟨⟨3, 7⟩, .Right, 86⟩ [(.node ⟨⟨3, 7⟩, .Left, 86⟩ [])]), (.node ⟨⟨4, 9⟩, .Right, 88⟩ [(.node ⟨⟨3, 9⟩, .Right, 93⟩ [(.node ⟨⟨3, 9⟩, .Left, 93⟩ [])]), (.node ⟨⟨4, 9⟩, .Left, 88⟩ [])]), (.node ⟨⟨9, 9⟩, .Down, 96⟩ [(.node ⟨⟨9, 9⟩, .Up, 96⟩ [])]), (.node ⟨⟨9, 8⟩, .Up, 90⟩ [])]), (.node ⟨⟨11, 8⟩, .Left, 103⟩ [(.node ⟨⟨12, 8⟩, .Left, 108⟩ [(.node ⟨⟨12, 8⟩, .Right, 108⟩ [])]), (.node ⟨⟨11, 8⟩, .Right, 103⟩ [])]), (.node ⟨⟨11, 12⟩, .Left, 98⟩ [(.node ⟨⟨10, 6⟩, .Up, 94⟩ [(.node ⟨⟨10, 5⟩, .Up, 102⟩ [(.node ⟨⟨10, 4⟩, .Up, 108⟩ [(.node ⟨⟨10, 4⟩, .Down, 108⟩ [])]), (.node ⟨⟨10, 5⟩, .Down, 102⟩ [])]), (.node ⟨⟨10, 6⟩, .Down, 94⟩ [])]), (.node ⟨⟨8, 11⟩, .Right, 97⟩ [(.node ⟨⟨10, 11⟩, .Left, 99⟩ [(.node ⟨⟨11, 11⟩, .Left, 102⟩ [(.node ⟨⟨11, 11⟩, .Right, 102⟩ [])]), (.node ⟨⟨10, 11⟩, .Right, 99⟩ [])]), (.node ⟨⟨8, 11⟩, .Left, 97⟩ [])]), (.node ⟨⟨10, 9⟩, .Right, 104⟩ [(.node ⟨⟨9, 9⟩, .Right, 110⟩ [(.node ⟨⟨9, 9⟩, .Left, 110⟩ [])]), (.node ⟨⟨10, 9⟩, .Left, 104⟩ [])]), (.node ⟨⟨6, 5⟩, .Up, 88⟩ [(.node ⟨⟨6, 12⟩, .Right, 96⟩ [(.node ⟨⟨5, 9⟩, .Right, 99⟩ [(.node ⟨⟨4, 9⟩, .Right, 106⟩ [(.node ⟨⟨4, 9⟩, .Left, 106⟩ [])]), (.node ⟨⟨5, 9⟩, .Left, 99⟩ [])]), (.node ⟨⟨5, 12⟩, .Right, 100⟩ [(.node ⟨⟨5, 12⟩, .Left, 100⟩ [])]), (.node ⟨⟨6, 12⟩, .Left, 96⟩ [])]), (.node ⟨⟨9, 5⟩, .Up, 100⟩ [(.node ⟨⟨9, 4⟩, .Up, 106⟩ [(.node ⟨⟨9, 4⟩, .Down, 106⟩ [])]), (.node ⟨⟨9, 5⟩, .Down, 100⟩ [])]), (.node ⟨⟨6, 5⟩, .Down, 88⟩ [])]), (.node ⟨⟨11, 12⟩, .Right, 98⟩ [])]), (.node ⟨⟨4, 6⟩, .Right, 84⟩ [(.node ⟨⟨11, 7⟩, .Left, 97⟩ [(.node ⟨⟨12, 7⟩, .Left, 103⟩ [(.node ⟨⟨12, 7⟩, .Right, 103⟩ [])]), (.node ⟨⟨11, 7⟩, .Right, 97⟩ [])]), (.node ⟨⟨6, 6⟩, .Right, 87⟩ [(.node ⟨⟨6, 6⟩, .Left, 87⟩ [])]), (.node ⟨⟨8, 9⟩, .Up, 91⟩ [(.node ⟨⟨8, 9⟩, .Down, 91⟩ [])]), (.node ⟨⟨6, 7⟩, .Up, 90⟩ [(.node ⟨⟨6, 7⟩, .Down, 90⟩ [])]), (.node ⟨⟨4, 6⟩, .Left, 84⟩ [])]), (.node ⟨⟨10, 8⟩, .Down, 94⟩ [(.node ⟨⟨10, 9⟩, .Down, 99⟩ [(.node ⟨⟨10, 10⟩, .Down, 104⟩ [(.node ⟨⟨10, 10⟩, .Up, 104⟩ [])]), (.node ⟨⟨10, 9⟩, .Up, 99⟩ [])]), (.node ⟨⟨10, 8⟩, .Up, 94⟩ [])]), (.node ⟨⟨9, 10⟩, .Left, 92⟩ [(.node ⟨⟨7, 11⟩, .Right, 93⟩ [(.node ⟨⟨8, 10⟩, .Up, 96⟩ [(.node ⟨⟨8, 9⟩, .Up, 102⟩ [(.node ⟨⟨8, 9⟩, .Down, 102⟩ [])]), (.node ⟨⟨8, 10⟩, .Down, 96⟩ [])]), (.node ⟨⟨7, 11⟩, .Left, 93⟩ [])]), (.node ⟨⟨9, 11⟩, .Left, 93⟩ [(.node ⟨⟨6, 11⟩, .Right, 99⟩ [(.node ⟨⟨5, 11⟩, .Right, 104⟩ [(.node ⟨⟨5, 11⟩, .Left, 104⟩ [])]), (.node ⟨⟨6, 11⟩, .Left, 99⟩ [])]), (.node ⟨⟨9, 11⟩, .Right, 93⟩ [])]), (.node ⟨⟨6, 10⟩, .Right, 101⟩ [(.node ⟨⟨5, 10⟩, .Right, 105⟩ [(.node ⟨⟨5, 10⟩, .Left, 105⟩ [])]), (.node ⟨⟨6, 10⟩, .Left, 101⟩ [])]), (.node ⟨⟨9, 10⟩, .Right, 92⟩ [])]), (.node ⟨⟨9, 9⟩, .Left, 94⟩ [(.node ⟨⟨9, 9⟩, .Right, 94⟩ [])]), (.node ⟨⟨9, 3⟩, .Up, 90⟩ [(.node ⟨⟨9, 3⟩, .Down, 90⟩ [])]), (.node ⟨⟨9, 4⟩, .Down, 86⟩ [])])

/-- Simulation snapshot: visited set after segment 0 of the day-17 b-run. -/
def d17bSeen1 : SeenTree := (.branch .leaf (0, 0, 1) (.branch .leaf (0, 0, 3) (.branch (.branch .leaf (0, 4, 0) .leaf) (0, 4, 1) (.branch (.branch (.branch (.branch (.branch .leaf (0, 4, 2) .leaf) (0, 4, 3) .leaf) (0, 5, 0) .leaf) (0, 5, 1) (.branch (.branch (.branch (.branch .leaf (0, 5, 2) .leaf) (0, 5, 3) .leaf) (0, 6, 0) .leaf) (0, 6, 1) (.branch (.branch (.branch (.branch .leaf (0, 6, 2) .leaf) (0, 6, 3) .leaf) (0, 7, 0) .leaf) (0, 7, 1) (.branch (.branch .leaf (0, 8, 0) .leaf) (0, 8, 1) (.branch (.branch .leaf (0, 9, 0) .leaf) (0, 9, 1) (.branch (.branch .leaf (0, 10, 0) .leaf) (0, 10, 1) (.branch (.branch (.branch (.branch (.branch .leaf (0, 11, 0) .leaf) (0, 11, 1) (.branch (.branch .leaf (0, 12, 0) .leaf) (0, 12, 1) .leaf)) (1, 4, 2) .leaf) (1, 4, 3) (.branch (.branch .leaf (2, 4, 2) .leaf) (2, 4, 3) .leaf)) (4, 0, 0) (.branch .leaf (4, 0, 1) .leaf)))))))) (4, 0, 2) (.branch .leaf (4, 0, 3) (.branch (.branch (.branch (.branch (.branch (.branch .leaf (4, 1, 0) (.branch .leaf (4, 1, 1) .leaf)) (4, 2, 0) (.branch .leaf (4, 2, 1) .leaf)) (4, 4, 0) .leaf) (4, 4, 1) .leaf) (4, 4, 2) (.branch .leaf (4, 4, 3) (.branch (.branch (.branch (.branch .leaf (4, 5, 0) .leaf) (4, 5, 1) .leaf) (4, 5, 2) (.branch .leaf (4, 5, 3) (.branch (.branch .leaf (4, 6, 0) .leaf) (4, 6, 1) .leaf))) (4, 6, 2) (.branch .leaf (4, 6, 3) (.branch (.branch (.branch (.branch .leaf (4, 7, 0) .leaf) (4, 7, 1) .leaf) (4, 7, 2) (.branch .leaf (4, 7, 3) (.branch (.branch .leaf (4, 8, 0) .leaf) (4, 8, 1) .leaf))) (4, 8, 2) (.branch .leaf (4, 8, 3) (.branch (.branch (.branch (.branch .leaf (4, 9, 0) .leaf) (4, 9, 1) .leaf) (4, 9, 2) (.branch .leaf (4, 9, 3) (.branch (.branch .leaf (4, 10, 0) .leaf) (4, 10, 1) .leaf))) (4, 10, 2) (.branch .leaf (4, 10, 3) (.branch (.branch (.branch (.branch .leaf (4, 11, 0) .leaf) (4, 11, 1) .leaf) (4, 12, 0) .leaf) (4, 12, 1) (.branch .leaf (5, 0, 0) (.branch .leaf (5, 0, 1) .leaf))))))))))) (5, 0, 2) (.branch .leaf (5, 0, 3) (.branch (.branch (.branch (.branch .leaf (5, 4, 0) .leaf) (5, 4, 1) .leaf) (5, 4, 2) (.branch .leaf (5, 4, 3) (.branch (.branch (.branch .leaf (5, 5, 0) .leaf) (5, 5, 1) (.branch (.branch .leaf (5, 5, 2) (.branch .leaf (5, 5, 3) (.branch (.branch .leaf (5, 6, 0) .leaf) (5, 6, 1) .leaf))) (5, 6, 2) (.branch .leaf (5, 6, 3) (.branch (.branch (.branch (.branch .leaf (5, 7, 0) .leaf) (5, 7, 1) .leaf) (5, 7, 2) (.branch .leaf (5, 7, 3) (.branch (.branch .leaf (5, 8, 0) .leaf) (5, 8, 1) .leaf))) (5, 8, 2) (.branch .leaf (5, 8, 3) (.branch .leaf (5, 9, 2) (.branch .leaf (5, 9, 3) .leaf))))))) (5, 10, 2) (.branch .leaf (5, 10, 3) (.branch (.branch .leaf (5, 12, 0) .leaf) (5, 12, 1) (.branch .leaf (6, 0, 0) (.branch .leaf (6, 0, 1) .leaf))))))) (6, 0, 2) (.branch .leaf (6, 0, 3) (.branch (.branch (.branch .leaf (6, 4, 0) .leaf) (6, 4, 1) (.branch .leaf (6, 4, 2) (.branch .leaf (6, 4, 3) (.branch (.branch (.branch .leaf (6, 5, 0) .leaf) (6, 5, 1) (.branch (.branch .leaf (6, 5, 2) (.branch .leaf (6, 5, 3) (.branch (.branch .leaf (6, 6, 0) .leaf) (6, 6, 1) .leaf))) (6, 6, 2) (.branch .leaf (6, 6, 3) (.branch (.branch (.branch (.branch .leaf (6, 7, 0) .leaf) (6, 7, 1) .leaf) (6, 7, 2) (.branch .leaf (6, 7, 3) .leaf)) (6, 8, 2) (.branch .leaf (6, 8, 3) (.branch .leaf (6, 9, 2) (.branch .leaf (6, 9, 3) .leaf))))))) (6, 10, 2) (.branch .leaf (6, 10, 3) .leaf))))) (7, 0, 2) (.branch .leaf (7, 0, 3) (.branch (.branch (.branch .leaf (7, 4, 0) .leaf) (7, 4, 1) (.branch .leaf (7, 4, 2) (.branch .leaf (7, 4, 3) (.branch (.branch .leaf (7, 5, 0) .leaf) (7, 5, 1) (.branch (.branch (.branch (.branch (.branch .leaf (7, 5, 2) (.branch .leaf (7, 5, 3) .leaf)) (7, 6, 0) .leaf) (7, 6, 1) .leaf) (7, 6, 2) (.branch .leaf (7, 6, 3) (.branch (.branch (.branch .leaf (7, 7, 0) .leaf) (7, 7, 1) .leaf) (7, 8, 2) (.branch .leaf (7, 8, 3) (.branch .leaf (7, 9, 2) (.branch .leaf (7, 9, 3) .leaf)))))) (7, 10, 2) (.branch .leaf (7, 10, 3) .leaf)))))) (8, 0, 2) (.branch .leaf (8, 0, 3) (.branch (.branch (.branch .leaf (8, 4, 0) .leaf) (8, 4, 1) (.branch (.branch (.branch .leaf (8, 4, 2) (.branch .leaf (8, 4, 3) .leaf)) (8, 5, 0) .leaf) (8, 5, 1) (.branch (.branch (.branch .leaf (8, 5, 2) (.branch .leaf (8, 5, 3) .leaf)) (8, 6, 0) .leaf) (8, 6, 1) (.branch (.branch .leaf (8, 6, 2) (.branch .leaf (8, 6, 3) (.branch (.branch (.branch .leaf (8, 7, 0) .leaf) (8, 7, 1) .leaf) (8, 8, 2) (.branch .leaf (8, 8, 3) (.branch .leaf (8, 9, 2) (.branch .leaf (8, 9, 3) .leaf)))))) (8, 10, 2) (.branch .leaf (8, 10, 3) .leaf))))) (9, 0, 2) (.branch .leaf (9, 0, 3) (.branch (.branch (.branch .leaf (9, 4, 0) .leaf) (9, 4, 1) (.branch (.branch (.branch .leaf (9, 4, 2) (.branch .leaf (9, 4, 3) .leaf)) (9, 5, 0) .leaf) (9, 5, 1) (.branch (.branch (.branch .leaf (9, 5, 2) (.branch .leaf (9, 5, 3) .leaf)) (9, 6, 0) .leaf) (9, 6, 1) (.branch .leaf (9, 10, 2) (.branch .leaf (9, 10, 3) .leaf))))) (10, 0, 2) (.branch .leaf (10, 0, 3) (.branch (.branch .leaf (10, 4, 0) .leaf) (10, 4, 1) (.branch (.branch .leaf (10, 5, 0) .leaf) (10, 5, 1) (.branch (.branch .leaf (10, 6, 0) .leaf) (10, 6, 1) (.branch (.branch .leaf (10, 7, 0) .leaf) (10, 7, 1) (.branch (.branch .leaf (10, 8, 0) .leaf) (10, 8, 1) (.branch (.branch .leaf (10, 10, 2) (.branch .leaf (10, 10, 3) .leaf)) (11, 0, 2) (.branch .leaf (11, 0, 3) (.branch .leaf (11, 4, 2) (.branch .leaf (11, 4, 3) (.branch .leaf (12, 4, 2) (.branch .leaf (12, 4, 3) .leaf))))))))))))))))))))))))))))

/-- Simulation snapshot: heap after segment 0 of the day-17 b-run. -/
def d17bHeap1 : Heap := (.node ⟨⟨11, 0⟩, .Left, 68⟩ [(.node ⟨⟨9, 4⟩, .Left, 70⟩ [(.node ⟨⟨10, 6⟩, .Up, 101⟩ [(.node ⟨⟨10, 3⟩, .Up, 119⟩ [(.node ⟨⟨10, 1⟩, .Up, 123⟩ [(.node ⟨⟨10, 0⟩, .Up, 124⟩ [(.node ⟨⟨10, 0⟩, .Down, 124⟩ [])]), (.node ⟨⟨10, 1⟩, .Down, 123⟩ [])]), (.node ⟨⟨10, 2⟩, .Up, 121⟩ [(.node ⟨⟨10, 2⟩, .Down, 121⟩ [])]), (.node ⟨⟨10, 3⟩, .Down, 119⟩ [])]), (.node ⟨⟨10, 5⟩, .Up, 109⟩ [(.node ⟨⟨10, 4⟩, .Up, 115⟩ [(.node ⟨⟨10, 4⟩, .Down, 115⟩ [])]), (.node ⟨⟨10, 5⟩, .Down, 109⟩ [])]), (.node ⟨⟨8, 3⟩, .Up, 116⟩ [(.node ⟨⟨8, 1⟩, .Up, 127⟩ [(.node ⟨⟨8, 0⟩, .Up, 131⟩ [(.node ⟨⟨8, 0⟩, .Down, 131⟩ [])]), (.node ⟨⟨8, 1⟩, .Down, 127⟩ [])]), (.node ⟨⟨8, 2⟩, .Up, 121⟩ [(.node ⟨⟨8, 2⟩, .Down, 121⟩ [])]), (.node ⟨⟨8, 3⟩, .Down, 116⟩ [])]), (.node ⟨⟨10, 6⟩, .Down, 101⟩ [])]), (.node ⟨⟨12, 0⟩, .Left, 71⟩ [(.node ⟨⟨12, 9⟩, .Down, 99⟩ [(.node ⟨⟨8, 5⟩, .Up, 103⟩ [(.node ⟨⟨8, 4⟩, .Up, 112⟩ [(.node ⟨⟨8, 4⟩, .Down, 112⟩ [])]), (.node ⟨⟨8, 5⟩, .Down, 103⟩ [])]), (.node ⟨⟨12, 11⟩, .Down, 107⟩ [(.node ⟨⟨12, 12⟩, .Down, 110⟩ [(.node ⟨⟨12, 12⟩, .Up, 110⟩ [])]), (.node ⟨⟨12, 11⟩, .Up, 107⟩ [])]), (.node ⟨⟨12, 10⟩, .Down, 104⟩ [(.node ⟨⟨12, 10⟩, .Up, 104⟩ [])]), (.node ⟨⟨12, 9⟩, .Up, 99⟩ [])]), (.node ⟨⟨4, 3⟩, .Up, 71⟩ [(.node ⟨⟨0, 9⟩, .Right, 77⟩ [(.node ⟨⟨5, 7⟩, .Right, 109⟩ [(.node ⟨⟨3, 7⟩, .Right, 125⟩ [(.node ⟨⟨2, 7⟩, .Right, 131⟩ [(.node ⟨⟨2, 7⟩, .Left, 131⟩ [])]), (.node ⟨⟨3, 7⟩, .Left, 125⟩ [])]), (.node ⟨⟨4, 7⟩, .Right, 117⟩ [(.node ⟨⟨4, 7⟩, .Left, 117⟩ [])]), (.node ⟨⟨5, 7⟩, .Left, 109⟩ [])]), (.node ⟨⟨6, 7⟩, .Right, 102⟩ [(.node ⟨⟨6, 7⟩, .Left, 102⟩ [])]), (.node ⟨⟨0, 10⟩, .Right, 78⟩ [(.node ⟨⟨11, 10⟩, .Left, 104⟩ [(.node ⟨⟨12, 10⟩, .Left, 109⟩ [(.node ⟨⟨12, 10⟩, .Right, 109⟩ [])]), (.node ⟨⟨11, 10⟩, .Right, 104⟩ [])]), (.node ⟨⟨0, 10⟩, .Left, 78⟩ [])]), (.node ⟨⟨9, 10⟩, .Left, 92⟩ [(.node ⟨⟨10, 10⟩, .Left, 97⟩ [(.node ⟨⟨10, 10⟩, .Right, 97⟩ [])]), (.node ⟨⟨9, 10⟩, .Right, 92⟩ [])]), (.node ⟨⟨8, 10⟩, .Left, 88⟩ [(.node ⟨⟨8, 10⟩, .Right, 88⟩ [])]), (.node ⟨⟨11, 9⟩, .Left, 110⟩ [(.node ⟨⟨12, 9⟩, .Left, 115⟩ [(.node ⟨⟨12, 9⟩, .Right, 115⟩ [])]), (.node ⟨⟨11, 9⟩, .Right, 110⟩ [])]), (.node ⟨⟨0, 9⟩, .Left, 77⟩ [])]), (.node ⟨⟨4, 1⟩, .Up, 80⟩ [(.node ⟨⟨4, 0⟩, .Up, 84⟩ [(.node ⟨⟨4, 0⟩, .Down, 84⟩ [])]), (.node ⟨⟨4, 1⟩, .Down, 80⟩ [])]), (.node ⟨⟨4, 2⟩, .Up, 75⟩ [(.node ⟨⟨4, 2⟩, .Down, 75⟩ [])]), (.node ⟨⟨4, 3⟩, .Down, 71⟩ [])]), (.node ⟨⟨8, 7⟩, .Left, 88⟩ [(.node ⟨⟨7, 6⟩, .Up, 91⟩ [(.node ⟨⟨5, 6⟩, .Right, 95⟩ [(.node ⟨⟨3, 6⟩, .Right, 107⟩ [(.node ⟨⟨2, 6⟩, .Right, 112⟩ [(.node ⟨⟨2, 6⟩, .Left, 112⟩ [])]), (.node ⟨⟨3, 6⟩, .Left, 107⟩ [])]), (.node ⟨⟨4, 6⟩, .Right, 102⟩ [(.node ⟨⟨4, 6⟩, .Left, 102⟩ [])]), (.node ⟨⟨5, 6⟩, .Left, 95⟩ [])]), (.node ⟨⟨7, 5⟩, .Up, 98⟩ [(.node ⟨⟨7, 4⟩, .Up, 106⟩ [(.node ⟨⟨7, 4⟩, .Down, 106⟩ [])]), (.node ⟨⟨7, 5⟩, .Down, 98⟩ [])]), (.node ⟨⟨1, 6⟩, .Right, 115⟩ [(.node ⟨⟨0, 6⟩, .Right, 117⟩ [(.node ⟨⟨0, 6⟩, .Left, 117⟩ [])]), (.node ⟨⟨1, 6⟩, .Left, 115⟩ [])]), (.node ⟨⟨7, 6⟩, .Down, 91⟩ [])]), (.node ⟨⟨9, 7⟩, .Left, 97⟩ [(.node ⟨⟨10, 7⟩, .Left, 105⟩ [(.node ⟨⟨10, 7⟩, .Right, 105⟩ [])]), (.node ⟨⟨9, 7⟩, .Right, 97⟩ [])]), (.node ⟨⟨7, 3⟩, .Up, 113⟩ [(.node ⟨⟨7, 1⟩, .Up, 122⟩ [(.node ⟨⟨7, 0⟩, .Up, 125⟩ [(.node ⟨⟨7, 0⟩, .Down, 125⟩ [])]), (.node ⟨⟨7, 1⟩, .Down, 122⟩ [])]), (.node ⟨⟨7, 2⟩, .Up, 116⟩ [(.node ⟨⟨7, 2⟩, .Down, 116⟩ [])]), (.node ⟨⟨7, 3⟩, .Down, 113⟩ [])]), (.node ⟨⟨8, 7⟩, .Right, 88⟩ [])]), (.node ⟨⟨8, 12⟩, .Left, 80⟩ [(.node ⟨⟨9, 12⟩, .Left, 83⟩ [(.node ⟨⟨10, 12⟩, .Left, 86⟩ [(.node ⟨⟨10, 12⟩, .Right, 86⟩ [])]), (.node ⟨⟨9, 12⟩, .Right, 83⟩ [])]), (.node ⟨⟨8, 12⟩, .Right, 80⟩ [])]), (.node ⟨⟨12, 0⟩, .Right, 71⟩ [])]), (.node ⟨⟨1, 5⟩, .Right, 65⟩ [(.node ⟨⟨12, 0⟩, .Up, 83⟩ [(.node ⟨⟨12, 8⟩, .Down, 94⟩ [(.node ⟨⟨12, 8⟩, .Up, 94⟩ [])]), (.node ⟨⟨3, 7⟩, .Right, 112⟩ [(.node ⟨⟨1, 7⟩, .Right, 123⟩ [(.node ⟨⟨0, 7⟩, .Right, 126⟩ [(.node ⟨⟨0, 7⟩, .Left, 126⟩ [])]), (.node ⟨⟨1, 7⟩, .Left, 123⟩ [])]), (.node ⟨⟨2, 7⟩, .Right, 118⟩ [(.node ⟨⟨2, 7⟩, .Left, 118⟩ [])]), (.node ⟨⟨3, 7⟩, .Left, 112⟩ [])]), (.node ⟨⟨12, 0⟩, .Down, 83⟩ [])]), (.node ⟨⟨11, 0⟩, .Up, 88⟩ [(.node ⟨⟨4, 7⟩, .Right, 104⟩ [(.node ⟨⟨11, 11⟩, .Down, 116⟩ [(.node ⟨⟨11, 12⟩, .Down, 121⟩ [(.node ⟨⟨11, 12⟩, .Up, 121⟩ [])]), (.node ⟨⟨11, 11⟩, .Up, 116⟩ [])]), (.node ⟨⟨4, 7⟩, .Left, 104⟩ [])]), (.node ⟨⟨11, 9⟩, .Down, 106⟩ [(.node ⟨⟨11, 10⟩, .Down, 113⟩ [(.node ⟨⟨11, 10⟩, .Up, 113⟩ [])]), (.node ⟨⟨11, 9⟩, .Up, 106⟩ [])]), (.node ⟨⟨11, 8⟩, .Down, 99⟩ [(.node ⟨⟨11, 8⟩, .Up, 99⟩ [])]), (.node ⟨⟨12, 7⟩, .Left, 102⟩ [(.node ⟨⟨12, 7⟩, .Right, 102⟩ [])]), (.node ⟨⟨9, 11⟩, .Down, 111⟩ [(.node ⟨⟨9, 12⟩, .Down, 114⟩ [(.node ⟨⟨9, 12⟩, .Up, 114⟩ [])]), (.node ⟨⟨9, 11⟩, .Up, 111⟩ [])]), (.node ⟨⟨11, 0⟩, .Down, 88⟩ [])]), (.node ⟨⟨9, 1⟩, .Up, 91⟩ [(.node ⟨⟨11, 7⟩, .Down, 107⟩ [(.node ⟨⟨11, 9⟩, .Down, 122⟩ [(.node ⟨⟨11, 10⟩, .Down, 129⟩ [(.node ⟨⟨11, 10⟩, .Up, 129⟩ [])]), (.node ⟨⟨11, 9⟩, .Up, 122⟩ [])]), (.node ⟨⟨11, 8⟩, .Down, 115⟩ [(.node ⟨⟨11, 8⟩, .Up, 115⟩ [])]), (.node ⟨⟨11, 7⟩, .Up, 107⟩ [])]), (.node ⟨⟨9, 0⟩, .Up, 95⟩ [(.node ⟨⟨9, 0⟩, .Down, 95⟩ [])]), (.node ⟨⟨9, 1⟩, .Down, 91⟩ [])]), (.node ⟨⟨9, 9⟩, .Down, 102⟩ [(.node ⟨⟨9, 10⟩, .Down, 106⟩ [(.node ⟨⟨9, 10⟩, .Up, 106⟩ [])]), (.node ⟨⟨9, 9⟩, .Up, 102⟩ [])]), (.node ⟨⟨11, 5⟩, .Down, 91⟩ [(.node ⟨⟨11, 6⟩, .Down, 99⟩ [(.node ⟨⟨11, 6⟩, .Up, 99⟩ [])]), (.node ⟨⟨11, 5⟩, .Up, 91⟩ [])]), (.node ⟨⟨11, 5⟩, .Left, 77⟩ [(.node ⟨⟨5, 11⟩, .Down, 78⟩ [(.node ⟨⟨5, 9⟩, .Down, 78⟩ [(.node ⟨⟨5, 11⟩, .Down, 87⟩ [(.node ⟨⟨5, 12⟩, .Down, 91⟩ [(.node ⟨⟨5, 12⟩, .Up, 91⟩ [])]), (.node ⟨⟨5, 11⟩, .Up, 87⟩ [])]), (.node ⟨⟨9, 6⟩, .Left, 83⟩ [(.node ⟨⟨11, 6⟩, .Left, 97⟩ [(.node ⟨⟨12, 6⟩, .Left, 101⟩ [(.node ⟨⟨12, 6⟩, .Right, 101⟩ [])]), (.node ⟨⟨11, 6⟩, .Right, 97⟩ [])]), (.node ⟨⟨10, 6⟩, .Left, 89⟩ [(.node ⟨⟨10, 6⟩, .Right, 89⟩ [])]), (.node ⟨⟨9, 6⟩, .Right, 83⟩ [])]), (.node ⟨⟨5, 10⟩, .Down, 82⟩ [(.node ⟨⟨5, 10⟩, .Up, 82⟩ [])]), (.node ⟨⟨5, 9⟩, .Up, 78⟩ [])]), (.node ⟨⟨9, 12⟩, .Left, 88⟩ [(.node ⟨⟨11, 12⟩, .Left, 96⟩ [(.node ⟨⟨12, 12⟩, .Left, 99⟩ [(.node ⟨⟨12, 12⟩, .Right, 99⟩ [])]), (.node ⟨⟨11, 12⟩, .Right, 96⟩ [])]), (.node ⟨⟨10, 12⟩, .Left, 91⟩ [(.node ⟨⟨10, 12⟩, .Right, 91⟩ [])]), (.node ⟨⟨9, 12⟩, .Right, 88⟩ [])]), (.node ⟨⟨5, 1⟩, .Up, 92⟩ [(.node ⟨⟨5, 0⟩, .Up, 93⟩ [(.node ⟨⟨5, 0⟩, .Down, 93⟩ [])]), (.node ⟨⟨5, 1⟩, .Down, 92⟩ [])]), (.node ⟨⟨5, 3⟩, .Up, 85⟩ [(.node ⟨⟨5, 2⟩, .Up, 88⟩ [(.node ⟨⟨5, 2⟩, .Down, 88⟩ [])]), (.node ⟨⟨5, 3⟩, .Down, 85⟩ [])]), (.node ⟨⟨5, 4⟩, .Up, 77⟩ [(.node ⟨⟨5, 4⟩, .Down, 77⟩ [])]), (.node ⟨⟨5, 12⟩, .Down, 82⟩ [(.node ⟨⟨5, 12⟩, .Up, 82⟩ [])]), (.node ⟨⟨5, 11⟩, .Up, 78⟩ [])]), (.node ⟨⟨6, 9⟩, .Down, 79⟩ [(.node ⟨⟨6, 11⟩, .Down, 92⟩ [(.node ⟨⟨6, 12⟩, .Down, 98⟩ [(.node ⟨⟨6, 12⟩, .Up, 98⟩ [])]), (.node ⟨⟨6, 11⟩, .Up, 92⟩ [])]), (.node ⟨⟨6, 10⟩, .Down, 86⟩ [(.node ⟨⟨6, 10⟩, .Up, 86⟩ [])]), (.node ⟨⟨6, 9⟩, .Up, 79⟩ [])]), (.node ⟨⟨6, 12⟩, .Down, 82⟩ [(.node ⟨⟨6, 6⟩, .Right, 87⟩ [(.node ⟨⟨6, 6⟩, .Left, 87⟩ [])]), (.node ⟨⟨6, 4⟩, .Up, 86⟩ [(.node ⟨⟨6, 3⟩, .Up, 93⟩ [(.node ⟨⟨6, 2⟩, .Up, 98⟩ [(.node ⟨⟨6, 2⟩, .Down, 98⟩ [])]), (.node ⟨⟨6, 3⟩, .Down, 93⟩ [])]), (.node ⟨⟨1, 5⟩, .Right, 100⟩ [(.node ⟨⟨0, 5⟩, .Right, 103⟩ [(.node ⟨⟨0, 5⟩, .Left, 103⟩ [])]), (.node ⟨⟨1, 5⟩, .Left, 100⟩ [])]), (.node ⟨⟨6, 4⟩, .Down, 86⟩ [])]), (.node ⟨⟨6, 1⟩, .Up, 102⟩ [(.node ⟨⟨6, 0⟩, .Up, 106⟩ [(.node ⟨⟨6, 0⟩, .Down, 106⟩ [])]), (.node ⟨⟨6, 1⟩, .Down, 102⟩ [])]), (.node ⟨⟨6, 12⟩, .Up, 82⟩ [])]), (.node ⟨⟨7, 0⟩, .Up, 69⟩ [(.node ⟨⟨6, 2⟩, .Up, 78⟩ [(.node ⟨⟨7, 11⟩, .Down, 100⟩ [(.node ⟨⟨7, 12⟩, .Down, 103⟩ [(.node ⟨⟨7, 12⟩, .Up, 103⟩ [])]), (.node ⟨⟨7, 11⟩, .Up, 100⟩ [])]), (.node ⟨⟨6, 2⟩, .Down, 78⟩ [])]), (.node ⟨⟨7, 9⟩, .Down, 89⟩ [(.node ⟨⟨7, 10⟩, .Down, 95⟩ [(.node ⟨⟨7, 10⟩, .Up, 95⟩ [])]), (.node ⟨⟨7, 9⟩, .Up, 89⟩ [])]), (.node ⟨⟨7, 8⟩, .Down, 80⟩ [(.node ⟨⟨7, 8⟩, .Up, 80⟩ [])]), (.node ⟨⟨1, 5⟩, .Right, 80⟩ [(.node ⟨⟨0, 5⟩, .Right, 83⟩ [(.node ⟨⟨0, 5⟩, .Left, 83⟩ [])]), (.node ⟨⟨1, 5⟩, .Left, 80⟩ [])]), (.node ⟨⟨7, 0⟩, .Down, 69⟩ [])]), (.node ⟨⟨1, 6⟩, .Right, 71⟩ [(.node ⟨⟨9, 6⟩, .Left, 80⟩ [(.node ⟨⟨11, 6⟩, .Left, 94⟩ [(.node ⟨⟨12, 6⟩, .Left, 98⟩ [(.node ⟨⟨12, 6⟩, .Right, 98⟩ [])]), (.node ⟨⟨11, 6⟩, .Right, 94⟩ [])]), (.node ⟨⟨10, 6⟩, .Left, 86⟩ [(.node ⟨⟨10, 6⟩, .Right, 86⟩ [])]), (.node ⟨⟨9, 6⟩, .Right, 80⟩ [])]), (.node ⟨⟨0, 6⟩, .Right, 73⟩ [(.node ⟨⟨0, 6⟩, .Left, 73⟩ [])]), (.node ⟨⟨1, 6⟩, .Left, 71⟩ [])]), (.node ⟨⟨12, 5⟩, .Left, 84⟩ [(.node ⟨⟨12, 5⟩, .Right, 84⟩ [])]), (.node ⟨⟨11, 5⟩, .Right, 77⟩ [])]), (.node ⟨⟨10, 5⟩, .Left, 78⟩ [(.node ⟨⟨10, 5⟩, .Right, 78⟩ [])]), (.node ⟨⟨11, 5⟩, .Left, 82⟩ [(.node ⟨⟨12, 5⟩, .Left, 89⟩ [(.node ⟨⟨12, 5⟩, .Right, 89⟩ [])]), (.node ⟨⟨11, 5⟩, .Right, 82⟩ [])]), (.node ⟨⟨0, 5⟩, .Right, 68⟩ [(.node ⟨⟨0, 5⟩, .Left, 68⟩ [])]), (.node ⟨⟨1, 5⟩, .Left, 65⟩ [])]), (.node ⟨⟨4, 3⟩, .Up, 71⟩ [(.node ⟨⟨4, 2⟩, .Up, 75⟩ [(.node ⟨⟨4, 2⟩, .Down, 75⟩ [])]), (.node ⟨⟨4, 3⟩, .Down, 71⟩ [])]), (.node ⟨⟨4, 0⟩, .Up, 62⟩ [(.node ⟨⟨4, 1⟩, .Up, 80⟩ [(.node ⟨⟨4, 0⟩, .Up, 84⟩ [(.node ⟨⟨4, 0⟩, .Down, 84⟩ [])]), (.node ⟨⟨4, 1⟩, .Down, 80⟩ [])]), (.node ⟨⟨4, 0⟩, .Down, 62⟩ [])]), (.node ⟨⟨10, 4⟩, .Left, 71⟩ [(.node ⟨⟨11, 4⟩, .Down, 87⟩ [(.node ⟨⟨11, 4⟩, .Up, 87⟩ [])]), (.node ⟨⟨1, 8⟩, .Right, 85⟩ [(.node ⟨⟨9, 8⟩, .Left, 98⟩ [(.node ⟨⟨11, 8⟩, .Left, 112⟩ [(.node ⟨⟨12, 8⟩, .Left, 117⟩ [(.node ⟨⟨12, 8⟩, .Right, 117⟩ [])]), (.node ⟨⟨11, 8⟩, .Right, 112⟩ [])]), (.node ⟨⟨10, 8⟩, .Left, 104⟩ [(.node ⟨⟨10, 8⟩, .Right, 104⟩ [])]), (.node ⟨⟨9, 8⟩, .Right, 98⟩ [])]), (.node ⟨⟨0, 8⟩, .Right, 86⟩ [(.node ⟨⟨0, 8⟩, .Left, 86⟩ [])]), (.node ⟨⟨1, 8⟩, .Left, 85⟩ [])]), (.node ⟨⟨4, 12⟩, .Left, 82⟩ [(.node ⟨⟨4, 12⟩, .Right, 82⟩ [])]), (.node ⟨⟨0, 1⟩, .Up, 71⟩ [(.node ⟨⟨2, 0⟩, .Up, 75⟩ [(.node ⟨⟨2, 11⟩, .Down, 91⟩ [(.node ⟨⟨2, 12⟩, .Down, 95⟩ [(.node ⟨⟨2, 12⟩, .Up, 95⟩ [])]), (.node ⟨⟨2, 11⟩, .Up, 91⟩ [])]), (.node ⟨⟨2, 0⟩, .Down, 75⟩ [])]), (.node ⟨⟨2, 9⟩, .Down, 84⟩ [(.node ⟨⟨2, 10⟩, .Down, 86⟩ [(.node ⟨⟨2, 10⟩, .Up, 86⟩ [])]), (.node ⟨⟨2, 9⟩, .Up, 84⟩ [])]), (.node ⟨⟨2, 8⟩, .Down, 80⟩ [(.node ⟨⟨2, 8⟩, .Up, 80⟩ [])]), (.node ⟨⟨0, 0⟩, .Up, 73⟩ [(.node ⟨⟨0, 0⟩, .Down, 73⟩ [])]), (.node ⟨⟨0, 1⟩, .Down, 71⟩ [])]), (.node ⟨⟨11, 4⟩, .Left, 76⟩ [(.node ⟨⟨12, 4⟩, .Left, 82⟩ [(.node ⟨⟨12, 4⟩, .Right, 82⟩ [])]), (.node ⟨⟨11, 4⟩, .Right, 76⟩ [])]), (.node ⟨⟨0, 11⟩, .Right, 80⟩ [(.node ⟨⟨7, 4⟩, .Up, 94⟩ [(.node ⟨⟨7, 3⟩, .Up, 101⟩ [(.node ⟨⟨7, 2⟩, .Up, 104⟩ [(.node ⟨⟨7, 2⟩, .Down, 104⟩ [])]), (.node ⟨⟨7, 3⟩, .Down, 101⟩ [])]), (.node ⟨⟨1, 6⟩, .Right, 103⟩ [(.node ⟨⟨0, 6⟩, .Right, 105⟩ [(.node ⟨⟨0, 6⟩, .Left, 105⟩ [])]), (.node ⟨⟨1, 6⟩, .Left, 103⟩ [])]), (.node ⟨⟨7, 4⟩, .Down, 94⟩ [])]), (.node ⟨⟨8, 11⟩, .Left, 90⟩ [(.node ⟨⟨8, 10⟩, .Down, 96⟩ [(.node ⟨⟨8, 1⟩, .Up, 95⟩ [(.node ⟨⟨8, 0⟩, .Up, 99⟩ [(.node ⟨⟨8, 0⟩, .Down, 99⟩ [])]), (.node ⟨⟨8, 1⟩, .Down, 95⟩ [])]), (.node ⟨⟨8, 10⟩, .Up, 96⟩ [])]), (.node ⟨⟨8, 11⟩, .Down, 104⟩ [(.node ⟨⟨8, 12⟩, .Down, 111⟩ [(.node ⟨⟨8, 12⟩, .Up, 111⟩ [])]), (.node ⟨⟨8, 11⟩, .Up, 104⟩ [])]), (.node ⟨⟨8, 11⟩, .Right, 90⟩ [])]), (.node ⟨⟨9, 11⟩, .Left, 95⟩ [(.node ⟨⟨11, 11⟩, .Left, 104⟩ [(.node ⟨⟨12, 11⟩, .Left, 107⟩ [(.node ⟨⟨12, 11⟩, .Right, 107⟩ [])]), (.node ⟨⟨11, 11⟩, .Right, 104⟩ [])]), (.node ⟨⟨10, 11⟩, .Left, 101⟩ [(.node ⟨⟨10, 11⟩, .Right, 101⟩ [])]), (.node ⟨⟨9, 11⟩, .Right, 95⟩ [])]), (.node ⟨⟨0, 11⟩, .Left, 80⟩ [])]), (.node ⟨⟨4, 11⟩, .Down, 73⟩ [(.node ⟨⟨5, 9⟩, .Down, 75⟩ [(.node ⟨⟨5, 11⟩, .Down, 84⟩ [(.node ⟨⟨5, 12⟩, .Down, 88⟩ [(.node ⟨⟨5, 12⟩, .Up, 88⟩ [])]), (.node ⟨⟨5, 11⟩, .Up, 84⟩ [])]), (.node ⟨⟨5, 10⟩, .Down, 79⟩ [(.node ⟨⟨5, 10⟩, .Up, 79⟩ [])]), (.node ⟨⟨5, 9⟩, .Up, 75⟩ [])]), (.node ⟨⟨4, 5⟩, .Up, 75⟩ [(.node ⟨⟨4, 4⟩, .Up, 81⟩ [(.node ⟨⟨4, 4⟩, .Down, 81⟩ [])]), (.node ⟨⟨4, 5⟩, .Down, 75⟩ [])]), (.node ⟨⟨4, 6⟩, .Up, 70⟩ [(.node ⟨⟨4, 6⟩, .Down, 70⟩ [])]), (.node ⟨⟨4, 12⟩, .Down, 79⟩ [(.node ⟨⟨4, 12⟩, .Up, 79⟩ [])]), (.node ⟨⟨4, 11⟩, .Up, 73⟩ [])]), (.node ⟨⟨10, 4⟩, .Right, 71⟩ [])]), (.node ⟨⟨9, 8⟩, .Down, 98⟩ [(.node ⟨⟨9, 9⟩, .Down, 104⟩ [(.node ⟨⟨9, 11⟩, .Down, 113⟩ [(.node ⟨⟨9, 12⟩, .Down, 116⟩ [(.node ⟨⟨9, 12⟩, .Up, 116⟩ [])]), (.node ⟨⟨9, 11⟩, .Up, 113⟩ [])]), (.node ⟨⟨9, 10⟩, .Down, 108⟩ [(.node ⟨⟨9, 10⟩, .Up, 108⟩ [])]), (.node ⟨⟨9, 9⟩, .Up, 104⟩ [])]), (.node ⟨⟨9, 8⟩, .Up, 98⟩ [])]), (.node ⟨⟨4, 10⟩, .Down, 72⟩ [(.node ⟨⟨11, 4⟩, .Left, 81⟩ [(.node ⟨⟨12, 4⟩, .Left, 87⟩ [(.node ⟨⟨12, 4⟩, .Right, 87⟩ [])]), (.node ⟨⟨11, 4⟩, .Right, 81⟩ [])]), (.node ⟨⟨4, 10⟩, .Up, 72⟩ [])]), (.node ⟨⟨10, 4⟩, .Left, 71⟩ [(.node ⟨⟨9, 0⟩, .Up, 84⟩ [(.node ⟨⟨9, 0⟩, .Down, 84⟩ [])]), (.node ⟨⟨10, 4⟩, .Right, 71⟩ [])]), (.node ⟨⟨10, 9⟩, .Down, 77⟩ [(.node ⟨⟨6, 5⟩, .Right, 79⟩ [(.node ⟨⟨5, 5⟩, .Right, 88⟩ [(.node ⟨⟨3, 5⟩, .Right, 101⟩ [(.node ⟨⟨2, 5⟩, .Right, 105⟩ [(.node ⟨⟨2, 5⟩, .Left, 105⟩ [])]), (.node ⟨⟨3, 5⟩, .Left, 101⟩ [])]), (.node ⟨⟨4, 5⟩, .Right, 93⟩ [(.node ⟨⟨4, 5⟩, .Left, 93⟩ [])]), (.node ⟨⟨5, 5⟩, .Left, 88⟩ [])]), (.node ⟨⟨5, 5⟩, .Up, 84⟩ [(.node ⟨⟨5, 3⟩, .Up, 97⟩ [(.node ⟨⟨5, 1⟩, .Up, 104⟩ [(.node ⟨⟨5, 0⟩, .Up, 105⟩ [(.node ⟨⟨5, 0⟩, .Down, 105⟩ [])]), (.node ⟨⟨5, 1⟩, .Down, 104⟩ [])]), (.node ⟨⟨5, 2⟩, .Up, 100⟩ [(.node ⟨⟨5, 2⟩, .Down, 100⟩ [])]), (.node ⟨⟨5, 3⟩, .Down, 97⟩ [])]), (.node ⟨⟨3, 4⟩, .Right, 91⟩ [(.node ⟨⟨1, 4⟩, .Right, 97⟩ [(.node ⟨⟨0, 4⟩, .Right, 101⟩ [(.node ⟨⟨0, 4⟩, .Left, 101⟩ [])]), (.node ⟨⟨1, 4⟩, .Left, 97⟩ [])]), (.node ⟨⟨2, 4⟩, .Right, 93⟩ [(.node ⟨⟨2, 4⟩, .Left, 93⟩ [])]), (.node ⟨⟨3, 4⟩, .Left, 91⟩ [])]), (.node ⟨⟨5, 4⟩, .Up, 89⟩ [(.node ⟨⟨5, 4⟩, .Down, 89⟩ [])]), (.node ⟨⟨5, 5⟩, .Down, 84⟩ [])]), (.node ⟨⟨6, 5⟩, .Left, 79⟩ [])]), (.node ⟨⟨10, 6⟩, .Left, 84⟩ [(.node ⟨⟨0, 7⟩, .Right, 76⟩ [(.node ⟨⟨11, 7⟩, .Left, 113⟩ [(.node ⟨⟨12, 7⟩, .Left, 119⟩ [(.node ⟨⟨12, 7⟩, .Right, 119⟩ [])]), (.node ⟨⟨11, 7⟩, .Right, 113⟩ [])]), (.node ⟨⟨0, 7⟩, .Left, 76⟩ [])]), (.node ⟨⟨10, 6⟩, .Right, 84⟩ [])]), (.node ⟨⟨10, 10⟩, .Down, 82⟩ [(.node ⟨⟨10, 10⟩, .Up, 82⟩ [])]), (.node ⟨⟨10, 9⟩, .Up, 77⟩ [])]), (.node ⟨⟨10, 4⟩, .Left, 76⟩ [(.node ⟨⟨10, 4⟩, .Right, 76⟩ [])]), (.node ⟨⟨9, 4⟩, .Right, 70⟩ [])]), (.node ⟨⟨10, 4⟩, .Left, 71⟩ [(.node ⟨⟨0, 10⟩, .Down, 69⟩ [(.node ⟨⟨0, 10⟩, .Up, 69⟩ [])]), (.node ⟨⟨6, 8⟩, .Down, 72⟩ [(.node ⟨⟨0, 11⟩, .Down, 71⟩ [(.node ⟨⟨0, 12⟩, .Down, 74⟩ [(.node ⟨⟨0, 12⟩, .Up, 74⟩ [])]), (.node ⟨⟨0, 11⟩, .Up, 71⟩ [])]), (.node ⟨⟨1, 4⟩, .Right, 64⟩ [(.node ⟨⟨0, 4⟩, .Right, 68⟩ [(.node ⟨⟨0, 4⟩, .Left, 68⟩ [])]), (.node ⟨⟨1, 4⟩, .Left, 64⟩ [])]), (.node ⟨⟨6, 8⟩, .Up, 72⟩ [])]), (.node ⟨⟨1, 8⟩, .Down, 67⟩ [(.node ⟨⟨0, 10⟩, .Down, 69⟩ [(.node ⟨⟨6, 8⟩, .Right, 103⟩ [(.node ⟨⟨3, 7⟩, .Right, 100⟩ [(.node ⟨⟨1, 7⟩, .Right, 111⟩ [(.node ⟨⟨0, 7⟩, .Right, 114⟩ [(.node ⟨⟨0, 7⟩, .Left, 114⟩ [])]), (.node ⟨⟨1, 7⟩, .Left, 111⟩ [])]), (.node ⟨⟨2, 7⟩, .Right, 106⟩ [(.node ⟨⟨2, 7⟩, .Left, 106⟩ [])]), (.node ⟨⟨3, 7⟩, .Left, 100⟩ [])]), (.node ⟨⟨6, 8⟩, .Left, 103⟩ [])]), (.node ⟨⟨5, 8⟩, .Right, 112⟩ [(.node ⟨⟨3, 8⟩, .Right, 122⟩ [(.node ⟨⟨2, 8⟩, .Right, 127⟩ [(.node ⟨⟨2, 8⟩, .Left, 127⟩ [])]), (.node ⟨⟨3, 8⟩, .Left, 122⟩ [])]), (.node ⟨⟨4, 8⟩, .Right, 118⟩ [(.node ⟨⟨4, 8⟩, .Left, 118⟩ [])]), (.node ⟨⟨5, 8⟩, .Left, 112⟩ [])]), (.node ⟨⟨1, 8⟩, .Right, 130⟩ [(.node ⟨⟨0, 8⟩, .Right, 131⟩ [(.node ⟨⟨0, 8⟩, .Left, 131⟩ [])]), (.node ⟨⟨1, 8⟩, .Left, 130⟩ [])]), (.node ⟨⟨0, 10⟩, .Up, 69⟩ [])]), (.node ⟨⟨7, 8⟩, .Down, 75⟩ [(.node ⟨⟨7, 8⟩, .Up, 75⟩ [])]), (.node ⟨⟨11, 7⟩, .Left, 102⟩ [(.node ⟨⟨12, 7⟩, .Left, 108⟩ [(.node ⟨⟨12, 7⟩, .Right, 108⟩ [])]), (.node ⟨⟨11, 7⟩, .Right, 102⟩ [])]), (.node ⟨⟨7, 1⟩, .Up, 84⟩ [(.node ⟨⟨7, 9⟩, .Down, 92⟩ [(.node ⟨⟨7, 10⟩, .Down, 98⟩ [(.node ⟨⟨7, 10⟩, .Up, 98⟩ [])]), (.node ⟨⟨7, 9⟩, .Up, 92⟩ [])]), (.node ⟨⟨8, 9⟩, .Down, 95⟩ [(.node ⟨⟨8, 11⟩, .Down, 111⟩ [(.node ⟨⟨8, 12⟩, .Down, 118⟩ [(.node ⟨⟨8, 12⟩, .Up, 118⟩ [])]), (.node ⟨⟨8, 11⟩, .Up, 111⟩ [])]), (.node ⟨⟨8, 10⟩, .Down, 103⟩ [(.node ⟨⟨8, 10⟩, .Up, 103⟩ [])]), (.node ⟨⟨8, 9⟩, .Up, 95⟩ [])]), (.node ⟨⟨7, 0⟩, .Up, 87⟩ [(.node ⟨⟨7, 0⟩, .Down, 87⟩ [])]), (.node ⟨⟨7, 1⟩, .Down, 84⟩ [])]), (.node ⟨⟨6, 11⟩, .Down, 91⟩ [(.node ⟨⟨10, 7⟩, .Left, 99⟩ [(.node ⟨⟨10, 7⟩, .Right, 99⟩ [])]), (.node ⟨⟨6, 3⟩, .Up, 91⟩ [(.node ⟨⟨6, 1⟩, .Up, 100⟩ [(.node ⟨⟨6, 0⟩, .Up, 104⟩ [(.node ⟨⟨6, 0⟩, .Down, 104⟩ [])]), (.node ⟨⟨6, 1⟩, .Down, 100⟩ [])]), (.node ⟨⟨6, 2⟩, .Up, 96⟩ [(.node ⟨⟨6, 2⟩, .Down, 96⟩ [])]), (.node ⟨⟨6, 3⟩, .Down, 91⟩ [])]), (.node ⟨⟨6, 12⟩, .Down, 97⟩ [(.node ⟨⟨6, 12⟩, .Up, 97⟩ [])]), (.node ⟨⟨6, 11⟩, .Up, 91⟩ [])]), (.node ⟨⟨6, 8⟩, .Down, 72⟩ [(.node ⟨⟨6, 8⟩, .Up, 72⟩ [])]), (.node ⟨⟨6, 10⟩, .Down, 82⟩ [(.node ⟨⟨6, 11⟩, .Down, 88⟩ [(.node ⟨⟨6, 12⟩, .Down, 94⟩ [(.node ⟨⟨6, 12⟩, .Up, 94⟩ [])]), (.node ⟨⟨6, 11⟩, .Up, 88⟩ [])]), (.node ⟨⟨6, 1⟩, .Up, 82⟩ [(.node ⟨⟨6, 0⟩, .Up, 86⟩ [(.node ⟨⟨6, 0⟩, .Down, 86⟩ [])]), (.node ⟨⟨6, 1⟩, .Down, 82⟩ [])]), (.node ⟨⟨6, 10⟩, .Up, 82⟩ [])]), (.node ⟨⟨11, 6⟩, .Left, 89⟩ [(.node ⟨⟨3, 6⟩, .Right, 85⟩ [(.node ⟨⟨2, 6⟩, .Right, 90⟩ [(.node ⟨⟨2, 6⟩, .Left, 90⟩ [])]), (.node ⟨⟨3, 6⟩, .Left, 85⟩ [])]), (.node ⟨⟨1, 7⟩, .Right, 85⟩ [(.node ⟨⟨9, 7⟩, .Left, 94⟩ [(.node ⟨⟨11, 7⟩, .Left, 110⟩ [(.node ⟨⟨12, 7⟩, .Left, 116⟩ [(.node ⟨⟨12, 7⟩, .Right, 116⟩ [])]), (.node ⟨⟨11, 7⟩, .Right, 110⟩ [])]), (.node ⟨⟨10, 7⟩, .Left, 102⟩ [(.node ⟨⟨10, 7⟩, .Right, 102⟩ [])]), (.node ⟨⟨9, 7⟩, .Right, 94⟩ [])]), (.node ⟨⟨0, 7⟩, .Right, 88⟩ [(.node ⟨⟨0, 7⟩, .Left, 88⟩ [])]), (.node ⟨⟨1, 7⟩, .Left, 85⟩ [])]), (.node ⟨⟨12, 6⟩, .Left, 93⟩ [(.node ⟨⟨12, 6⟩, .Right, 93⟩ [])]), (.node ⟨⟨11, 6⟩, .Right, 89⟩ [])]), (.node ⟨⟨1, 0⟩, .Up, 62⟩ [(.node ⟨⟨1, 11⟩, .Down, 80⟩ [(.node ⟨⟨1, 12⟩, .Down, 83⟩ [(.node ⟨⟨1, 12⟩, .Up, 83⟩ [])]), (.node ⟨⟨1, 11⟩, .Up, 80⟩ [])]), (.node ⟨⟨1, 0⟩, .Down, 62⟩ [])]), (.node ⟨⟨1, 9⟩, .Down, 72⟩ [(.node ⟨⟨1, 10⟩, .Down, 78⟩ [(.node ⟨⟨1, 10⟩, .Up, 78⟩ [])]), (.node ⟨⟨1, 9⟩, .Up, 72⟩ [])]), (.node ⟨⟨7, 11⟩, .Down, 94⟩ [(.node ⟨⟨7, 12⟩, .Down, 97⟩ [(.node ⟨⟨7, 12⟩, .Up, 97⟩ [])]), (.node ⟨⟨7, 11⟩, .Up, 94⟩ [])]), (.node ⟨⟨1, 8⟩, .Up, 67⟩ [])]), (.node ⟨⟨11, 4⟩, .Left, 76⟩ [(.node ⟨⟨12, 4⟩, .Left, 82⟩ [(.node ⟨⟨12, 4⟩, .Right, 82⟩ [])]), (.node ⟨⟨11, 4⟩, .Right, 76⟩ [])]), (.node ⟨⟨7, 9⟩, .Down, 84⟩ [(.node ⟨⟨7, 10⟩, .Down, 90⟩ [(.node ⟨⟨7, 10⟩, .Up, 90⟩ [])]), (.node ⟨⟨7, 9⟩, .Up, 84⟩ [])]), (.node ⟨⟨5, 4⟩, .Right, 80⟩ [(.node ⟨⟨3, 4⟩, .Right, 91⟩ [(.node ⟨⟨2, 4⟩, .Right, 93⟩ [(.node ⟨⟨2, 4⟩, .Left, 93⟩ [])]), (.node ⟨⟨3, 4⟩, .Left, 91⟩ [])]), (.node ⟨⟨4, 4⟩, .Right, 86⟩ [(.node ⟨⟨4, 4⟩, .Left, 86⟩ [])]), (.node ⟨⟨5, 4⟩, .Left, 80⟩ [])]), (.node ⟨⟨5, 6⟩, .Up, 78⟩ [(.node ⟨⟨5, 5⟩, .Up, 87⟩ [(.node ⟨⟨5, 4⟩, .Up, 92⟩ [(.node ⟨⟨5, 4⟩, .Down, 92⟩ [])]), (.node ⟨⟨5, 5⟩, .Down, 87⟩ [])]), (.node ⟨⟨1, 4⟩, .Right, 97⟩ [(.node ⟨⟨0, 4⟩, .Right, 101⟩ [(.node ⟨⟨0, 4⟩, .Left, 101⟩ [])]), (.node ⟨⟨1, 4⟩, .Left, 97⟩ [])]), (.node ⟨⟨5, 6⟩, .Down, 78⟩ [])]), (.node ⟨⟨5, 3⟩, .Up, 100⟩ [(.node ⟨⟨5, 1⟩, .Up, 107⟩ [(.node ⟨⟨5, 0⟩, .Up, 108⟩ [(.node ⟨⟨5, 0⟩, .Down, 108⟩ [])]), (.node ⟨⟨5, 1⟩, .Down, 107⟩ [])]), (.node ⟨⟨5, 2⟩, .Up, 103⟩ [(.node ⟨⟨5, 2⟩, .Down, 103⟩ [])]), (.node ⟨⟨5, 3⟩, .Down, 100⟩ [])]), (.node ⟨⟨10, 4⟩, .Right, 71⟩ [])]), (.node ⟨⟨2, 0⟩, .Right, 73⟩ [(.node ⟨⟨8, 3⟩, .Up, 106⟩ [(.node ⟨⟨8, 2⟩, .Up, 111⟩ [(.node ⟨⟨8, 2⟩, .Down, 111⟩ [])]), (.node ⟨⟨8, 3⟩, .Down, 106⟩ [])]), (.node ⟨⟨8, 4⟩, .Up, 102⟩ [(.node ⟨⟨8, 4⟩, .Down, 102⟩ [])]), (.node ⟨⟨8, 12⟩, .Down, 100⟩ [(.node ⟨⟨8, 1⟩, .Up, 117⟩ [(.node ⟨⟨8, 0⟩, .Up, 121⟩ [(.node ⟨⟨8, 0⟩, .Down, 121⟩ [])]), (.node ⟨⟨8, 1⟩, .Down, 117⟩ [])]), (.node ⟨⟨8, 12⟩, .Up, 100⟩ [])]), (.node ⟨⟨2, 0⟩, .Left, 73⟩ [])]), (.node ⟨⟨0, 0⟩, .Right, 59⟩ [(.node ⟨⟨9, 9⟩, .Left, 79⟩ [(.node ⟨⟨9, 2⟩, .Left, 80⟩ [(.node ⟨⟨5, 6⟩, .Right, 94⟩ [(.node ⟨⟨7, 5⟩, .Up, 97⟩ [(.node ⟨⟨3, 6⟩, .Right, 106⟩ [(.node ⟨⟨1, 6⟩, .Right, 114⟩ [(.node ⟨⟨0, 6⟩, .Right, 116⟩ [(.node ⟨⟨0, 6⟩, .Left, 116⟩ [])]), (.node ⟨⟨1, 6⟩, .Left, 114⟩ [])]), (.node ⟨⟨2, 6⟩, .Right, 111⟩ [(.node ⟨⟨2, 6⟩, .Left, 111⟩ [])]), (.node ⟨⟨3, 6⟩, .Left, 106⟩ [])]), (.node ⟨⟨7, 4⟩, .Up, 105⟩ [(.node ⟨⟨7, 4⟩, .Down, 105⟩ [])]), (.node ⟨⟨7, 5⟩, .Down, 97⟩ [])]), (.node ⟨⟨4, 6⟩, .Right, 101⟩ [(.node ⟨⟨4, 6⟩, .Left, 101⟩ [])]), (.node ⟨⟨5, 6⟩, .Left, 94⟩ [])]), (.node ⟨⟨1, 12⟩, .Right, 84⟩ [(.node ⟨⟨9, 5⟩, .Up, 110⟩ [(.node ⟨⟨9, 4⟩, .Up, 116⟩ [(.node ⟨⟨9, 4⟩, .Down, 116⟩ [])]), (.node ⟨⟨9, 5⟩, .Down, 110⟩ [])]), (.node ⟨⟨9, 6⟩, .Up, 103⟩ [(.node ⟨⟨9, 6⟩, .Down, 103⟩ [])]), (.node ⟨⟨0, 12⟩, .Right, 87⟩ [(.node ⟨⟨0, 12⟩, .Left, 87⟩ [])]), (.node ⟨⟨1, 12⟩, .Left, 84⟩ [])]), (.node ⟨⟨11, 2⟩, .Left, 86⟩ [(.node ⟨⟨12, 2⟩, .Left, 88⟩ [(.node ⟨⟨12, 2⟩, .Right, 88⟩ [])]), (.node ⟨⟨11, 2⟩, .Right, 86⟩ [])]), (.node ⟨⟨10, 2⟩, .Left, 82⟩ [(.node ⟨⟨10, 2⟩, .Right, 82⟩ [])]), (.node ⟨⟨9, 2⟩, .Right, 80⟩ [])]), (.node ⟨⟨5, 5⟩, .Right, 86⟩ [(.node ⟨⟨6, 5⟩, .Up, 88⟩ [(.node ⟨⟨3, 5⟩, .Right, 99⟩ [(.node ⟨⟨1, 5⟩, .Right, 108⟩ [(.node ⟨⟨0, 5⟩, .Right, 111⟩ [(.node ⟨⟨0, 5⟩, .Left, 111⟩ [])]), (.node ⟨⟨1, 5⟩, .Left, 108⟩ [])]), (.node ⟨⟨2, 5⟩, .Right, 103⟩ [(.node ⟨⟨2, 5⟩, .Left, 103⟩ [])]), (.node ⟨⟨3, 5⟩, .Left, 99⟩ [])]), (.node ⟨⟨6, 4⟩, .Up, 96⟩ [(.node ⟨⟨6, 4⟩, .Down, 96⟩ [])]), (.node ⟨⟨6, 5⟩, .Down, 88⟩ [])]), (.node ⟨⟨4, 5⟩, .Right, 91⟩ [(.node ⟨⟨4, 5⟩, .Left, 91⟩ [])]), (.node ⟨⟨5, 5⟩, .Left, 86⟩ [])]), (.node ⟨⟨10, 9⟩, .Left, 84⟩ [(.node ⟨⟨10, 9⟩, .Right, 84⟩ [])]), (.node ⟨⟨9, 9⟩, .Right, 79⟩ [])]), (.node ⟨⟨4, 5⟩, .Up, 69⟩ [(.node ⟨⟨6, 4⟩, .Right, 75⟩ [(.node ⟨⟨11, 5⟩, .Left, 87⟩ [(.node ⟨⟨12, 5⟩, .Left, 94⟩ [(.node ⟨⟨12, 5⟩, .Right, 94⟩ [])]), (.node ⟨⟨11, 5⟩, .Right, 87⟩ [])]), (.node ⟨⟨4, 3⟩, .Up, 81⟩ [(.node ⟨⟨4, 1⟩, .Up, 90⟩ [(.node ⟨⟨4, 0⟩, .Up, 94⟩ [(.node ⟨⟨4, 0⟩, .Down, 94⟩ [])]), (.node ⟨⟨4, 1⟩, .Down, 90⟩ [])]), (.node ⟨⟨4, 2⟩, .Up, 85⟩ [(.node ⟨⟨4, 2⟩, .Down, 85⟩ [])]), (.node ⟨⟨4, 3⟩, .Down, 81⟩ [])]), (.node ⟨⟨6, 4⟩, .Left, 75⟩ [])]), (.node ⟨⟨4, 3⟩, .Up, 87⟩ [(.node ⟨⟨4, 1⟩, .Up, 96⟩ [(.node ⟨⟨4, 0⟩, .Up, 100⟩ [(.node ⟨⟨4, 0⟩, .Down, 100⟩ [])]), (.node ⟨⟨4, 1⟩, .Down, 96⟩ [])]), (.node ⟨⟨4, 2⟩, .Up, 91⟩ [(.node ⟨⟨4, 2⟩, .Down, 91⟩ [])]), (.node ⟨⟨4, 3⟩, .Down, 87⟩ [])]), (.node ⟨⟨9, 5⟩, .Left, 75⟩ [(.node ⟨⟨10, 5⟩, .Left, 83⟩ [(.node ⟨⟨10, 5⟩, .Right, 83⟩ [])]), (.node ⟨⟨9, 5⟩, .Right, 75⟩ [])]), (.node ⟨⟨4, 4⟩, .Up, 75⟩ [(.node ⟨⟨4, 4⟩, .Down, 75⟩ [])]), (.node ⟨⟨4, 5⟩, .Down, 69⟩ [])]), (.node ⟨⟨0, 11⟩, .Down, 71⟩ [(.node ⟨⟨0, 1⟩, .Up, 76⟩ [(.node ⟨⟨0, 0⟩, .Up, 78⟩ [(.node ⟨⟨0, 0⟩, .Down, 78⟩ [])]), (.node ⟨⟨0, 1⟩, .Down, 76⟩ [])]), (.node ⟨⟨0, 2⟩, .Up, 72⟩ [(.node ⟨⟨0, 2⟩, .Down, 72⟩ [])]), (.node ⟨⟨0, 12⟩, .Down, 74⟩ [(.node ⟨⟨0, 12⟩, .Up, 74⟩ [])]), (.node ⟨⟨0, 11⟩, .Up, 71⟩ [])]), (.node ⟨⟨5, 12⟩, .Left, 86⟩ [(.node ⟨⟨7, 12⟩, .Left, 95⟩ [(.node ⟨⟨9, 12⟩, .Left, 105⟩ [(.node ⟨⟨10, 12⟩, .Left, 108⟩ [(.node ⟨⟨10, 12⟩, .Right, 108⟩ [])]), (.node ⟨⟨9, 12⟩, .Right, 105⟩ [])]), (.node ⟨⟨8, 12⟩, .Left, 102⟩ [(.node ⟨⟨8, 12⟩, .Right, 102⟩ [])]), (.node ⟨⟨7, 12⟩, .Right, 95⟩ [])]), (.node ⟨⟨6, 12⟩, .Left, 92⟩ [(.node ⟨⟨6, 12⟩, .Right, 92⟩ [])]), (.node ⟨⟨5, 12⟩, .Right, 86⟩ [])]), (.node ⟨⟨9, 7⟩, .Down, 75⟩ [(.node ⟨⟨4, 12⟩, .Down, 76⟩ [(.node ⟨⟨4, 12⟩, .Up, 76⟩ [])]), (.node ⟨⟨0, 8⟩, .Right, 68⟩ [(.node ⟨⟨8, 8⟩, .Left, 87⟩ [(.node ⟨⟨2, 6⟩, .Right, 80⟩ [(.node ⟨⟨11, 8⟩, .Left, 109⟩ [(.node ⟨⟨12, 8⟩, .Left, 114⟩ [(.node ⟨⟨12, 8⟩, .Right, 114⟩ [])]), (.node ⟨⟨11, 8⟩, .Right, 109⟩ [])]), (.node ⟨⟨2, 6⟩, .Left, 80⟩ [])]), (.node ⟨⟨9, 8⟩, .Left, 95⟩ [(.node ⟨⟨10, 8⟩, .Left, 101⟩ [(.node ⟨⟨10, 8⟩, .Right, 101⟩ [])]), (.node ⟨⟨9, 8⟩, .Right, 95⟩ [])]), (.node ⟨⟨11, 6⟩, .Left, 92⟩ [(.node ⟨⟨12, 6⟩, .Left, 96⟩ [(.node ⟨⟨12, 6⟩, .Right, 96⟩ [])]), (.node ⟨⟨11, 6⟩, .Right, 92⟩ [])]), (.node ⟨⟨8, 8⟩, .Right, 87⟩ [])]), (.node ⟨⟨1, 6⟩, .Right, 83⟩ [(.node ⟨⟨0, 6⟩, .Right, 85⟩ [(.node ⟨⟨0, 6⟩, .Left, 85⟩ [])]), (.node ⟨⟨1, 6⟩, .Left, 83⟩ [])]), (.node ⟨⟨0, 8⟩, .Left, 68⟩ [])]), (.node ⟨⟨5, 9⟩, .Down, 75⟩ [(.node ⟨⟨5, 10⟩, .Down, 79⟩ [(.node ⟨⟨5, 10⟩, .Up, 79⟩ [])]), (.node ⟨⟨5, 9⟩, .Up, 75⟩ [])]), (.node ⟨⟨9, 9⟩, .Down, 89⟩ [(.node ⟨⟨9, 10⟩, .Down, 93⟩ [(.node ⟨⟨9, 10⟩, .Up, 93⟩ [])]), (.node ⟨⟨9, 9⟩, .Up, 89⟩ [])]), (.node ⟨⟨9, 8⟩, .Down, 83⟩ [(.node ⟨⟨9, 8⟩, .Up, 83⟩ [])]), (.node ⟨⟨9, 7⟩, .Up, 75⟩ [])]), (.node ⟨⟨8, 2⟩, .Left, 74⟩ [(.node ⟨⟨0, 2⟩, .Right, 69⟩ [(.node ⟨⟨7, 3⟩, .Up, 112⟩ [(.node ⟨⟨7, 1⟩, .Up, 121⟩ [(.node ⟨⟨7, 0⟩, .Up, 124⟩ [(.node ⟨⟨7, 0⟩, .Down, 124⟩ [])]), (.node ⟨⟨7, 1⟩, .Down, 121⟩ [])]), (.node ⟨⟨7, 2⟩, .Up, 115⟩ [(.node ⟨⟨7, 2⟩, .Down, 115⟩ [])]), (.node ⟨⟨7, 3⟩, .Down, 112⟩ [])]), (.node ⟨⟨0, 2⟩, .Left, 69⟩ [])]), (.node ⟨⟨8, 2⟩, .Right, 74⟩ [])]), (.node ⟨⟨6, 3⟩, .Up, 103⟩ [(.node ⟨⟨6, 1⟩, .Up, 112⟩ [(.node ⟨⟨6, 0⟩, .Up, 116⟩ [(.node ⟨⟨6, 0⟩, .Down, 116⟩ [])]), (.node ⟨⟨6, 1⟩, .Down, 112⟩ [])]), (.node ⟨⟨6, 2⟩, .Up, 108⟩ [(.node ⟨⟨6, 2⟩, .Down, 108⟩ [])]), (.node ⟨⟨6, 3⟩, .Down, 103⟩ [])]), (.node ⟨⟨0, 0⟩, .Left, 59⟩ [])]), (.node ⟨⟨4, 1⟩, .Up, 63⟩ [(.node ⟨⟨9, 8⟩, .Left, 79⟩ [(.node ⟨⟨7, 12⟩, .Down, 86⟩ [(.node ⟨⟨8, 9⟩, .Down, 96⟩ [(.node ⟨⟨8, 11⟩, .Down, 112⟩ [(.node ⟨⟨8, 12⟩, .Down, 119⟩ [(.node ⟨⟨8, 12⟩, .Up, 119⟩ [])]), (.node ⟨⟨8, 11⟩, .Up, 112⟩ [])]), (.node ⟨⟨8, 10⟩, .Down, 104⟩ [(.node ⟨⟨8, 10⟩, .Up, 104⟩ [])]), (.node ⟨⟨8, 9⟩, .Up, 96⟩ [])]), (.node ⟨⟨12, 6⟩, .Left, 89⟩ [(.node ⟨⟨3, 6⟩, .Right, 95⟩ [(.node ⟨⟨2, 6⟩, .Right, 100⟩ [(.node ⟨⟨2, 6⟩, .Left, 100⟩ [])]), (.node ⟨⟨3, 6⟩, .Left, 95⟩ [])]), (.node ⟨⟨4, 6⟩, .Right, 90⟩ [(.node ⟨⟨4, 6⟩, .Left, 90⟩ [])]), (.node ⟨⟨7, 11⟩, .Down, 103⟩ [(.node ⟨⟨7, 12⟩, .Down, 106⟩ [(.node ⟨⟨7, 12⟩, .Up, 106⟩ [])]), (.node ⟨⟨7, 11⟩, .Up, 103⟩ [])]), (.node ⟨⟨12, 6⟩, .Right, 89⟩ [])]), (.node ⟨⟨9, 9⟩, .Left, 98⟩ [(.node ⟨⟨10, 9⟩, .Left, 103⟩ [(.node ⟨⟨10, 9⟩, .Right, 103⟩ [])]), (.node ⟨⟨9, 9⟩, .Right, 98⟩ [])]), (.node ⟨⟨8, 9⟩, .Left, 92⟩ [(.node ⟨⟨8, 9⟩, .Right, 92⟩ [])]), (.node ⟨⟨7, 1⟩, .Up, 110⟩ [(.node ⟨⟨7, 0⟩, .Up, 113⟩ [(.node ⟨⟨7, 0⟩, .Down, 113⟩ [])]), (.node ⟨⟨7, 1⟩, .Down, 110⟩ [])]), (.node ⟨⟨7, 12⟩, .Up, 86⟩ [])]), (.node ⟨⟨5, 3⟩, .Up, 84⟩ [(.node ⟨⟨5, 1⟩, .Up, 91⟩ [(.node ⟨⟨5, 0⟩, .Up, 92⟩ [(.node ⟨⟨5, 0⟩, .Down, 92⟩ [])]), (.node ⟨⟨5, 1⟩, .Down, 91⟩ [])]), (.node ⟨⟨5, 2⟩, .Up, 87⟩ [(.node ⟨⟨5, 2⟩, .Down, 87⟩ [])]), (.node ⟨⟨5, 3⟩, .Down, 84⟩ [])]), (.node ⟨⟨10, 8⟩, .Left, 85⟩ [(.node ⟨⟨10, 8⟩, .Right, 85⟩ [])]), (.node ⟨⟨9, 8⟩, .Right, 79⟩ [])]), (.node ⟨⟨4, 12⟩, .Down, 74⟩ [(.node ⟨⟨4, 12⟩, .Up, 74⟩ [])]), (.node ⟨⟨7, 7⟩, .Left, 72⟩ [(.node ⟨⟨5, 1⟩, .Up, 66⟩ [(.node ⟨⟨8, 6⟩, .Left, 74⟩ [(.node ⟨⟨8, 6⟩, .Right, 74⟩ [])]), (.node ⟨⟨5, 0⟩, .Up, 67⟩ [(.node ⟨⟨5, 0⟩, .Down, 67⟩ [])]), (.node ⟨⟨5, 1⟩, .Down, 66⟩ [])]), (.node ⟨⟨9, 7⟩, .Left, 90⟩ [(.node ⟨⟨10, 7⟩, .Left, 98⟩ [(.node ⟨⟨10, 7⟩, .Right, 98⟩ [])]), (.node ⟨⟨9, 7⟩, .Right, 90⟩ [])]), (.node ⟨⟨8, 7⟩, .Left, 81⟩ [(.node ⟨⟨8, 7⟩, .Right, 81⟩ [])]), (.node ⟨⟨7, 7⟩, .Right, 72⟩ [])]), (.node ⟨⟨4, 0⟩, .Up, 67⟩ [(.node ⟨⟨4, 0⟩, .Down, 67⟩ [])]), (.node ⟨⟨4, 1⟩, .Down, 63⟩ [])]), (.node ⟨⟨8, 8⟩, .Down, 79⟩ [(.node ⟨⟨4, 4⟩, .Right, 76⟩ [(.node ⟨⟨4, 4⟩, .Left, 76⟩ [])]), (.node ⟨⟨5, 4⟩, .Right, 80⟩ [(.node ⟨⟨3, 4⟩, .Right, 81⟩ [(.node ⟨⟨1, 4⟩, .Right, 87⟩ [(.node ⟨⟨0, 4⟩, .Right, 91⟩ [(.node ⟨⟨0, 4⟩, .Left, 91⟩ [])]), (.node ⟨⟨1, 4⟩, .Left, 87⟩ [])]), (.node ⟨⟨2, 4⟩, .Right, 83⟩ [(.node ⟨⟨2, 4⟩, .Left, 83⟩ [])]), (.node ⟨⟨3, 4⟩, .Left, 81⟩ [])]), (.node ⟨⟨4, 4⟩, .Right, 86⟩ [(.node ⟨⟨4, 4⟩, .Left, 86⟩ [])]), (.node ⟨⟨5, 4⟩, .Left, 80⟩ [])]), (.node ⟨⟨8, 9⟩, .Down, 85⟩ [(.node ⟨⟨8, 10⟩, .Down, 93⟩ [(.node ⟨⟨8, 10⟩, .Up, 93⟩ [])]), (.node ⟨⟨8, 9⟩, .Up, 85⟩ [])]), (.node ⟨⟨8, 8⟩, .Up, 79⟩ [])]), (.node ⟨⟨5, 10⟩, .Down, 73⟩ [(.node ⟨⟨9, 5⟩, .Left, 73⟩ [(.node ⟨⟨8, 2⟩, .Up, 89⟩ [(.node ⟨⟨8, 6⟩, .Up, 97⟩ [(.node ⟨⟨8, 3⟩, .Up, 116⟩ [(.node ⟨⟨8, 1⟩, .Up, 127⟩ [(.node ⟨⟨8, 0⟩, .Up, 131⟩ [(.node ⟨⟨8, 0⟩, .Down, 131⟩ [])]), (.node ⟨⟨8, 1⟩, .Down, 127⟩ [])]), (.node ⟨⟨8, 2⟩, .Up, 121⟩ [(.node ⟨⟨8, 2⟩, .Down, 121⟩ [])]), (.node ⟨⟨8, 3⟩, .Down, 116⟩ [])]), (.node ⟨⟨8, 5⟩, .Up, 103⟩ [(.node ⟨⟨8, 4⟩, .Up, 112⟩ [(.node ⟨⟨8, 4⟩, .Down, 112⟩ [])]), (.node ⟨⟨8, 5⟩, .Down, 103⟩ [])]), (.node ⟨⟨1, 7⟩, .Right, 136⟩ [(.node ⟨⟨0, 7⟩, .Right, 139⟩ [(.node ⟨⟨0, 7⟩, .Left, 139⟩ [])]), (.node ⟨⟨1, 7⟩, .Left, 136⟩ [])]), (.node ⟨⟨8, 6⟩, .Down, 97⟩ [])]), (.node ⟨⟨2, 7⟩, .Right, 93⟩ [(.node ⟨⟨11, 7⟩, .Left, 107⟩ [(.node ⟨⟨12, 7⟩, .Left, 113⟩ [(.node ⟨⟨12, 7⟩, .Right, 113⟩ [])]), (.node ⟨⟨11, 7⟩, .Right, 107⟩ [])]), (.node ⟨⟨2, 7⟩, .Left, 93⟩ [])]), (.node ⟨⟨1, 7⟩, .Right, 98⟩ [(.node ⟨⟨0, 7⟩, .Right, 101⟩ [(.node ⟨⟨0, 7⟩, .Left, 101⟩ [])]), (.node ⟨⟨1, 7⟩, .Left, 98⟩ [])]), (.node ⟨⟨8, 2⟩, .Down, 89⟩ [])]), (.node ⟨⟨4, 11⟩, .Left, 79⟩ [(.node ⟨⟨0, 1⟩, .Right, 70⟩ [(.node ⟨⟨9, 1⟩, .Left, 83⟩ [(.node ⟨⟨10, 1⟩, .Left, 85⟩ [(.node ⟨⟨10, 1⟩, .Right, 85⟩ [])]), (.node ⟨⟨9, 1⟩, .Right, 83⟩ [])]), (.node ⟨⟨8, 1⟩, .Left, 78⟩ [(.node ⟨⟨8, 1⟩, .Right, 78⟩ [])]), (.node ⟨⟨9, 3⟩, .Up, 120⟩ [(.node ⟨⟨9, 1⟩, .Up, 131⟩ [(.node ⟨⟨9, 0⟩, .Up, 135⟩ [(.node ⟨⟨9, 0⟩, .Down, 135⟩ [])]), (.node ⟨⟨9, 1⟩, .Down, 131⟩ [])]), (.node ⟨⟨9, 2⟩, .Up, 126⟩ [(.node ⟨⟨9, 2⟩, .Down, 126⟩ [])]), (.node ⟨⟨9, 3⟩, .Down, 120⟩ [])]), (.node ⟨⟨0, 1⟩, .Left, 70⟩ [])]), (.node ⟨⟨8, 1⟩, .Up, 90⟩ [(.node ⟨⟨8, 0⟩, .Up, 94⟩ [(.node ⟨⟨8, 0⟩, .Down, 94⟩ [])]), (.node ⟨⟨8, 1⟩, .Down, 90⟩ [])]), (.node ⟨⟨7, 11⟩, .Left, 95⟩ [(.node ⟨⟨9, 11⟩, .Left, 108⟩ [(.node ⟨⟨10, 11⟩, .Left, 114⟩ [(.node ⟨⟨10, 11⟩, .Right, 114⟩ [])]), (.node ⟨⟨9, 11⟩, .Right, 108⟩ [])]), (.node ⟨⟨8, 11⟩, .Left, 103⟩ [(.node ⟨⟨8, 11⟩, .Right, 103⟩ [])]), (.node ⟨⟨7, 11⟩, .Right, 95⟩ [])]), (.node ⟨⟨5, 11⟩, .Left, 84⟩ [(.node ⟨⟨6, 11⟩, .Left, 90⟩ [(.node ⟨⟨6, 11⟩, .Right, 90⟩ [])]), (.node ⟨⟨5, 11⟩, .Right, 84⟩ [])]), (.node ⟨⟨11, 1⟩, .Left, 90⟩ [(.node ⟨⟨12, 1⟩, .Left, 93⟩ [(.node ⟨⟨12, 1⟩, .Right, 93⟩ [])]), (.node ⟨⟨11, 1⟩, .Right, 90⟩ [])]), (.node ⟨⟨4, 11⟩, .Right, 79⟩ [])]), (.node ⟨⟨8, 0⟩, .Up, 78⟩ [(.node ⟨⟨8, 8⟩, .Down, 89⟩ [(.node ⟨⟨8, 8⟩, .Up, 89⟩ [])]), (.node ⟨⟨1, 6⟩, .Right, 93⟩ [(.node ⟨⟨0, 6⟩, .Right, 95⟩ [(.node ⟨⟨0, 6⟩, .Left, 95⟩ [])]), (.node ⟨⟨1, 6⟩, .Left, 93⟩ [])]), (.node ⟨⟨8, 0⟩, .Down, 78⟩ [])]), (.node ⟨⟨9, 6⟩, .Left, 74⟩ [(.node ⟨⟨10, 6⟩, .Left, 80⟩ [(.node ⟨⟨10, 6⟩, .Right, 80⟩ [])]), (.node ⟨⟨9, 6⟩, .Right, 74⟩ [])]), (.node ⟨⟨11, 5⟩, .Left, 81⟩ [(.node ⟨⟨2, 5⟩, .Right, 75⟩ [(.node ⟨⟨2, 5⟩, .Left, 75⟩ [])]), (.node ⟨⟨12, 5⟩, .Left, 88⟩ [(.node ⟨⟨12, 5⟩, .Right, 88⟩ [])]), (.node ⟨⟨11, 5⟩, .Right, 81⟩ [])]), (.node ⟨⟨10, 5⟩, .Left, 81⟩ [(.node ⟨⟨10, 5⟩, .Right, 81⟩ [])]), (.node ⟨⟨9, 5⟩, .Right, 73⟩ [])]), (.node ⟨⟨12, 4⟩, .Left, 77⟩ [(.node ⟨⟨3, 4⟩, .Right, 69⟩ [(.node ⟨⟨5, 1⟩, .Up, 74⟩ [(.node ⟨⟨5, 0⟩, .Up, 75⟩ [(.node ⟨⟨5, 0⟩, .Down, 75⟩ [])]), (.node ⟨⟨5, 1⟩, .Down, 74⟩ [])]), (.node ⟨⟨2, 4⟩, .Right, 71⟩ [(.node ⟨⟨2, 4⟩, .Left, 71⟩ [])]), (.node ⟨⟨3, 4⟩, .Left, 69⟩ [])]), (.node ⟨⟨5, 2⟩, .Up, 70⟩ [(.node ⟨⟨5, 2⟩, .Down, 70⟩ [])]), (.node ⟨⟨12, 4⟩, .Right, 77⟩ [])]), (.node ⟨⟨10, 5⟩, .Left, 77⟩ [(.node ⟨⟨6, 9⟩, .Down, 79⟩ [(.node ⟨⟨6, 10⟩, .Down, 86⟩ [(.node ⟨⟨6, 10⟩, .Up, 86⟩ [])]), (.node ⟨⟨6, 9⟩, .Up, 79⟩ [])]), (.node ⟨⟨6, 6⟩, .Up, 83⟩ [(.node ⟨⟨6, 5⟩, .Up, 90⟩ [(.node ⟨⟨6, 4⟩, .Up, 98⟩ [(.node ⟨⟨6, 4⟩, .Down, 98⟩ [])]), (.node ⟨⟨6, 5⟩, .Down, 90⟩ [])]), (.node ⟨⟨1, 5⟩, .Right, 110⟩ [(.node ⟨⟨0, 5⟩, .Right, 113⟩ [(.node ⟨⟨0, 5⟩, .Left, 113⟩ [])]), (.node ⟨⟨1, 5⟩, .Left, 110⟩ [])]), (.node ⟨⟨6, 6⟩, .Down, 83⟩ [])]), (.node ⟨⟨6, 3⟩, .Up, 105⟩ [(.node ⟨⟨6, 1⟩, .Up, 114⟩ [(.node ⟨⟨6, 0⟩, .Up, 118⟩ [(.node ⟨⟨6, 0⟩, .Down, 118⟩ [])]), (.node ⟨⟨6, 1⟩, .Down, 114⟩ [])]), (.node ⟨⟨6, 2⟩, .Up, 110⟩ [(.node ⟨⟨6, 2⟩, .Down, 110⟩ [])]), (.node ⟨⟨6, 3⟩, .Down, 105⟩ [])]), (.node ⟨⟨10, 5⟩, .Right, 77⟩ [])]), (.node ⟨⟨5, 11⟩, .Down, 80⟩ [(.node ⟨⟨6, 9⟩, .Down, 83⟩ [(.node ⟨⟨6, 1⟩, .Up, 77⟩ [(.node ⟨⟨3, 5⟩, .Right, 81⟩ [(.node ⟨⟨1, 5⟩, .Right, 90⟩ [(.node ⟨⟨0, 5⟩, .Right, 93⟩ [(.node ⟨⟨0, 5⟩, .Left, 93⟩ [])]), (.node ⟨⟨1, 5⟩, .Left, 90⟩ [])]), (.node ⟨⟨2, 5⟩, .Right, 85⟩ [(.node ⟨⟨2, 5⟩, .Left, 85⟩ [])]), (.node ⟨⟨3, 5⟩, .Left, 81⟩ [])]), (.node ⟨⟨6, 0⟩, .Up, 81⟩ [(.node ⟨⟨6, 0⟩, .Down, 81⟩ [])]), (.node ⟨⟨6, 1⟩, .Down, 77⟩ [])]), (.node ⟨⟨6, 11⟩, .Down, 96⟩ [(.node ⟨⟨6, 12⟩, .Down, 102⟩ [(.node ⟨⟨6, 12⟩, .Up, 102⟩ [])]), (.node ⟨⟨6, 11⟩, .Up, 96⟩ [])]), (.node ⟨⟨6, 10⟩, .Down, 90⟩ [(.node ⟨⟨6, 10⟩, .Up, 90⟩ [])]), (.node ⟨⟨6, 9⟩, .Up, 83⟩ [])]), (.node ⟨⟨3, 5⟩, .Right, 91⟩ [(.node ⟨⟨2, 5⟩, .Right, 95⟩ [(.node ⟨⟨2, 5⟩, .Left, 95⟩ [])]), (.node ⟨⟨3, 5⟩, .Left, 91⟩ [])]), (.node ⟨⟨4, 5⟩, .Right, 83⟩ [(.node ⟨⟨4, 5⟩, .Left, 83⟩ [])]), (.node ⟨⟨12, 5⟩, .Left, 81⟩ [(.node ⟨⟨12, 5⟩, .Right, 81⟩ [])]), (.node ⟨⟨5, 12⟩, .Down, 84⟩ [(.node ⟨⟨5, 12⟩, .Up, 84⟩ [])]), (.node ⟨⟨5, 11⟩, .Up, 80⟩ [])]), (.node ⟨⟨1, 4⟩, .Right, 75⟩ [(.node ⟨⟨0, 4⟩, .Right, 79⟩ [(.node ⟨⟨0, 4⟩, .Left, 79⟩ [])]), (.node ⟨⟨1, 4⟩, .Left, 75⟩ [])]), (.node ⟨⟨5, 10⟩, .Up, 73⟩ [])]), (.node ⟨⟨1, 0⟩, .Right, 63⟩ [(.node ⟨⟨10, 0⟩, .Left, 74⟩ [(.node ⟨⟨11, 0⟩, .Left, 76⟩ [(.node ⟨⟨12, 0⟩, .Left, 80⟩ [(.node ⟨⟨12, 0⟩, .Right, 80⟩ [])]), (.node ⟨⟨11, 0⟩, .Right, 76⟩ [])]), (.node ⟨⟨1, 0⟩, .Right, 76⟩ [(.node ⟨⟨0, 0⟩, .Right, 78⟩ [(.node ⟨⟨0, 0⟩, .Left, 78⟩ [])]), (.node ⟨⟨1, 0⟩, .Left, 76⟩ [])]), (.node ⟨⟨10, 0⟩, .Right, 74⟩ [])]), (.node ⟨⟨0, 0⟩, .Right, 65⟩ [(.node ⟨⟨0, 0⟩, .Left, 65⟩ [])]), (.node ⟨⟨1, 0⟩, .Left, 63⟩ [])]), (.node ⟨⟨0, 0⟩, .Up, 59⟩ [(.node ⟨⟨0, 0⟩, .Down, 59⟩ [])]), (.node ⟨⟨0, 12⟩, .Right, 72⟩ [(.node ⟨⟨11, 12⟩, .Left, 91⟩ [(.node ⟨⟨12, 12⟩, .Left, 94⟩ [(.node ⟨⟨12, 12⟩, .Right, 94⟩ [])]), (.node ⟨⟨11, 12⟩, .Right, 91⟩ [])]), (.node ⟨⟨0, 12⟩, .Left, 72⟩ [])]), (.node ⟨⟨7, 10⟩, .Down, 89⟩ [(.node ⟨⟨7, 1⟩, .Up, 89⟩ [(.node ⟨⟨7, 0⟩, .Up, 92⟩ [(.node ⟨⟨7, 0⟩, .Down, 92⟩ [])]), (.node ⟨⟨7, 1⟩, .Down, 89⟩ [])]), (.node ⟨⟨7, 10⟩, .Up, 89⟩ [])]), (.node ⟨⟨7, 2⟩, .Up, 83⟩ [(.node ⟨⟨7, 2⟩, .Down, 83⟩ [])]), (.node ⟨⟨12, 0⟩, .Left, 72⟩ [(.node ⟨⟨12, 0⟩, .Right, 72⟩ [])]), (.node ⟨⟨11, 0⟩, .Right, 68⟩ [])])

/-- Simulation snapshot: visited set after segment 1 of the day-17 b-run. -/
def d17bSeen2 : SeenTree := (.branch (.branch .leaf (0, 0, 0) .leaf) (0, 0, 1) (.branch (.branch .leaf (0, 0, 2) .leaf) (0, 0, 3) (.branch (.branch (.branch (.branch .leaf (0, 2, 2) .leaf) (0, 2, 3) .leaf) (0, 4, 0) .leaf) (0, 4, 1) (.branch (.branch (.branch (.branch (.branch .leaf (0, 4, 2) .leaf) (0, 4, 3) .leaf) (0, 5, 0) .leaf) (0, 5, 1) (.branch (.branch (.branch (.branch .leaf (0, 5, 2) .leaf) (0, 5, 3) .leaf) (0, 6, 0) .leaf) (0, 6, 1) (.branch (.branch (.branch (.branch .leaf (0, 6, 2) .leaf) (0, 6, 3) .leaf) (0, 7, 0) .leaf) (0, 7, 1) (.branch (.branch .leaf (0, 8, 0) .leaf) (0, 8, 1) (.branch (.branch (.branch (.branch .leaf (0, 8, 2) .leaf) (0, 8, 3) .leaf) (0, 9, 0) .leaf) (0, 9, 1) (.branch (.branch (.branch (.branch .leaf (0, 9, 2) .leaf) (0, 9, 3) .leaf) (0, 10, 0) .leaf) (0, 10, 1) (.branch (.branch (.branch (.branch (.branch (.branch (.branch .leaf (0, 10, 2) .leaf) (0, 10, 3) .leaf) (0, 11, 0) .leaf) (0, 11, 1) (.branch (.branch .leaf (0, 12, 0) .leaf) (0, 12, 1) (.branch (.branch .leaf (0, 12, 2) .leaf) (0, 12, 3) (.branch .leaf (1, 0, 0) (.branch .leaf (1, 0, 1) (.branch (.branch .leaf (1, 0, 2) .leaf) (1, 0, 3) .leaf)))))) (1, 4, 2) .leaf) (1, 4, 3) (.branch (.branch (.branch (.branch (.branch (.branch .leaf (1, 5, 2) .leaf) (1, 5, 3) (.branch (.branch .leaf (1, 6, 2) .leaf) (1, 6, 3) .leaf)) (1, 8, 0) .leaf) (1, 8, 1) (.branch (.branch .leaf (1, 9, 0) .leaf) (1, 9, 1) (.branch (.branch .leaf (1, 10, 0) .leaf) (1, 10, 1) (.branch (.branch .leaf (1, 11, 0) .leaf) (1, 11, 1) .leaf)))) (2, 4, 2) .leaf) (2, 4, 3) (.branch (.branch (.branch (.branch .leaf (2, 5, 2) .leaf) (2, 5, 3) .leaf) (3, 4, 2) .leaf) (3, 4, 3) .leaf))) (4, 0, 0) (.branch .leaf (4, 0, 1) .leaf)))))))) (4, 0, 2) (.branch .leaf (4, 0, 3) (.branch (.branch (.branch (.branch (.branch (.branch .leaf (4, 1, 0) (.branch .leaf (4, 1, 1) .leaf)) (4, 2, 0) (.branch .leaf (4, 2, 1) (.branch .leaf (4, 3, 0) (.branch .leaf (4, 3, 1) .leaf)))) (4, 4, 0) .leaf) (4, 4, 1) .leaf) (4, 4, 2) (.branch .leaf (4, 4, 3) (.branch (.branch (.branch (.branch .leaf (4, 5, 0) .leaf) (4, 5, 1) .leaf) (4, 5, 2) (.branch .leaf (4, 5, 3) (.branch (.branch .leaf (4, 6, 0) .leaf) (4, 6, 1) .leaf))) (4, 6, 2) (.branch .leaf (4, 6, 3) (.branch (.branch (.branch (.branch .leaf (4, 7, 0) .leaf) (4, 7, 1) .leaf) (4, 7, 2) (.branch .leaf (4, 7, 3) (.branch (.branch .leaf (4, 8, 0) .leaf) (4, 8, 1) .leaf))) (4, 8, 2) (.branch .leaf (4, 8, 3) (.branch (.branch (.branch (.branch .leaf (4, 9, 0) .leaf) (4, 9, 1) .leaf) (4, 9, 2) (.branch .leaf (4, 9, 3) (.branch (.branch .leaf (4, 10, 0) .leaf) (4, 10, 1) .leaf))) (4, 10, 2) (.branch .leaf (4, 10, 3) (.branch (.branch (.branch (.branch .leaf (4, 11, 0) .leaf) (4, 11, 1) (.branch .leaf (4, 11, 2) (.branch .leaf (4, 11, 3) .leaf))) (4, 12, 0) .leaf) (4, 12, 1) (.branch (.branch .leaf (4, 12, 2) (.branch .leaf (4, 12, 3) .leaf)) (5, 0, 0) (.branch .leaf (5, 0, 1) .leaf))))))))))) (5, 0, 2) (.branch .leaf (5, 0, 3) (.branch (.branch (.branch (.branch (.branch .leaf (5, 1, 0) (.branch .leaf (5, 1, 1) (.branch .leaf (5, 2, 0) (.branch .leaf (5, 2, 1) .leaf)))) (5, 4, 0) .leaf) (5, 4, 1) .leaf) (5, 4, 2) (.branch .leaf (5, 4, 3) (.branch (.branch (.branch .leaf (5, 5, 0) .leaf) (5, 5, 1) (.branch (.branch .leaf (5, 5, 2) (.branch .leaf (5, 5, 3) (.branch (.branch .leaf (5, 6, 0) .leaf) (5, 6, 1) .leaf))) (5, 6, 2) (.branch .leaf (5, 6, 3) (.branch (.branch (.branch (.branch .leaf (5, 7, 0) .leaf) (5, 7, 1) .leaf) (5, 7, 2) (.branch .leaf (5, 7, 3) (.branch (.branch .leaf (5, 8, 0) .leaf) (5, 8, 1) .leaf))) (5, 8, 2) (.branch .leaf (5, 8, 3) (.branch (.branch (.branch .leaf (5, 9, 0) .leaf) (5, 9, 1) .leaf) (5, 9, 2) (.branch .leaf (5, 9, 3) (.branch (.branch .leaf (5, 10, 0) .leaf) (5, 10, 1) .leaf)))))))) (5, 10, 2) (.branch .leaf (5, 10, 3) (.branch (.branch (.branch (.branch .leaf (5, 11, 0) .leaf) (5, 11, 1) .leaf) (5, 12, 0) .leaf) (5, 12, 1) (.branch .leaf (6, 0, 0) (.branch .leaf (6, 0, 1) .leaf))))))) (6, 0, 2) (.branch .leaf (6, 0, 3) (.branch (.branch (.branch .leaf (6, 4, 0) .leaf) (6, 4, 1) (.branch .leaf (6, 4, 2) (.branch .leaf (6, 4, 3) (.branch (.branch (.branch .leaf (6, 5, 0) .leaf) (6, 5, 1) (.branch (.branch .leaf (6, 5, 2) (.branch .leaf (6, 5, 3) (.branch (.branch .leaf (6, 6, 0) .leaf) (6, 6, 1) .leaf))) (6, 6, 2) (.branch .leaf (6, 6, 3) (.branch (.branch (.branch (.branch .leaf (6, 7, 0) .leaf) (6, 7, 1) .leaf) (6, 7, 2) (.branch .leaf (6, 7, 3) (.branch (.branch .leaf (6, 8, 0) .leaf) (6, 8, 1) .leaf))) (6, 8, 2) (.branch .leaf (6, 8, 3) (.branch (.branch (.branch .leaf (6, 9, 0) .leaf) (6, 9, 1) .leaf) (6, 9, 2) (.branch .leaf (6, 9, 3) (.branch (.branch .leaf (6, 10, 0) .leaf) (6, 10, 1) .leaf)))))))) (6, 10, 2) (.branch .leaf (6, 10, 3) (.branch (.branch (.branch .leaf (6, 12, 0) .leaf) (6, 12, 1) .leaf) (7, 0, 0) (.branch .leaf (7, 0, 1) .leaf))))))) (7, 0, 2) (.branch .leaf (7, 0, 3) (.branch (.branch (.branch .leaf (7, 4, 0) .leaf) (7, 4, 1) (.branch .leaf (7, 4, 2) (.branch .leaf (7, 4, 3) (.branch (.branch .leaf (7, 5, 0) .leaf) (7, 5, 1) (.branch (.branch (.branch (.branch (.branch .leaf (7, 5, 2) (.branch .leaf (7, 5, 3) .leaf)) (7, 6, 0) .leaf) (7, 6, 1) .leaf) (7, 6, 2) (.branch .leaf (7, 6, 3) (.branch (.branch (.branch .leaf (7, 7, 0) .leaf) (7, 7, 1) (.branch .leaf (7, 7, 2) (.branch .leaf (7, 7, 3) (.branch (.branch .leaf (7, 8, 0) .leaf) (7, 8, 1) .leaf)))) (7, 8, 2) (.branch .leaf (7, 8, 3) (.branch .leaf (7, 9, 2) (.branch .leaf (7, 9, 3) .leaf)))))) (7, 10, 2) (.branch .leaf (7, 10, 3) (.branch (.branch .leaf (7, 12, 0) .leaf) (7, 12, 1) .leaf))))))) (8, 0, 2) (.branch .leaf (8, 0, 3) (.branch (.branch (.branch (.branch .leaf (8, 2, 2) (.branch .leaf (8, 2, 3) .leaf)) (8, 4, 0) .leaf) (8, 4, 1) (.branch (.branch (.branch .leaf (8, 4, 2) (.branch .leaf (8, 4, 3) .leaf)) (8, 5, 0) .leaf) (8, 5, 1) (.branch (.branch (.branch .leaf (8, 5, 2) (.branch .leaf (8, 5, 3) .leaf)) (8, 6, 0) .leaf) (8, 6, 1) (.branch (.branch .leaf (8, 6, 2) (.branch .leaf (8, 6, 3) (.branch (.branch (.branch .leaf (8, 7, 0) .leaf) (8, 7, 1) (.branch (.branch (.branch .leaf (8, 7, 2) (.branch .leaf (8, 7, 3) .leaf)) (8, 8, 0) .leaf) (8, 8, 1) .leaf)) (8, 8, 2) (.branch .leaf (8, 8, 3) (.branch .leaf (8, 9, 2) (.branch .leaf (8, 9, 3) .leaf)))))) (8, 10, 2) (.branch .leaf (8, 10, 3) (.branch .leaf (8, 12, 2) (.branch .leaf (8, 12, 3) .leaf))))))) (9, 0, 2) (.branch .leaf (9, 0, 3) (.branch (.branch (.branch .leaf (9, 4, 0) .leaf) (9, 4, 1) (.branch (.branch (.branch .leaf (9, 4, 2) (.branch .leaf (9, 4, 3) .leaf)) (9, 5, 0) .leaf) (9, 5, 1) (.branch (.branch (.branch .leaf (9, 5, 2) (.branch .leaf (9, 5, 3) .leaf)) (9, 6, 0) .leaf) (9, 6, 1) (.branch (.branch .leaf (9, 6, 2) (.branch .leaf (9, 6, 3) (.branch (.branch .leaf (9, 7, 0) .leaf) (9, 7, 1) (.branch (.branch (.branch (.branch .leaf (9, 8, 0) .leaf) (9, 8, 1) .leaf) (9, 8, 2) (.branch .leaf (9, 8, 3) .leaf)) (9, 9, 2) (.branch .leaf (9, 9, 3) .leaf))))) (9, 10, 2) (.branch .leaf (9, 10, 3) (.branch .leaf (9, 12, 2) (.branch .leaf (9, 12, 3) .leaf))))))) (10, 0, 2) (.branch .leaf (10, 0, 3) (.branch (.branch .leaf (10, 4, 0) .leaf) (10, 4, 1) (.branch (.branch (.branch .leaf (10, 4, 2) (.branch .leaf (10, 4, 3) .leaf)) (10, 5, 0) .leaf) (10, 5, 1) (.branch (.branch (.branch .leaf (10, 5, 2) (.branch .leaf (10, 5, 3) .leaf)) (10, 6, 0) .leaf) (10, 6, 1) (.branch (.branch (.branch .leaf (10, 6, 2) (.branch .leaf (10, 6, 3) .leaf)) (10, 7, 0) .leaf) (10, 7, 1) (.branch (.branch .leaf (10, 8, 0) .leaf) (10, 8, 1) (.branch (.branch (.branch (.branch (.branch .leaf (10, 8, 2) (.branch .leaf (10, 8, 3) .leaf)) (10, 9, 0) .leaf) (10, 9, 1) (.branch (.branch (.branch .leaf (10, 9, 2) (.branch .leaf (10, 9, 3) .leaf)) (10, 10, 0) .leaf) (10, 10, 1) .leaf)) (10, 10, 2) (.branch .leaf (10, 10, 3) (.branch .leaf (10, 12, 2) (.branch .leaf (10, 12, 3) .leaf)))) (11, 0, 2) (.branch .leaf (11, 0, 3) (.branch .leaf (11, 4, 2) (.branch .leaf (11, 4, 3) (.branch (.branch (.branch .leaf (11, 5, 2) (.branch .leaf (11, 5, 3) .leaf)) (12, 0, 2) (.branch .leaf (12, 0, 3) .leaf)) (12, 4, 2) (.branch .leaf (12, 4, 3) (.branch .leaf (12, 5, 2) (.branch .leaf (12, 5, 3) .leaf))))))))))))))))))))))))))))))

/-- Simulation snapshot: heap after segment 1 of the day-17 b-run. -/
def d17bHeap2 : Heap := (.node ⟨⟨6, 9⟩, .Down, 83⟩ [(.node ⟨⟨10, 5⟩, .Right, 83⟩ [(.node ⟨⟨5, 0⟩, .Up, 75⟩ [(.node ⟨⟨1, 12⟩, .Down, 83⟩ [(.node ⟨⟨6, 11⟩, .Down, 88⟩ [(.node ⟨⟨6, 1⟩, .Up, 82⟩ [(.node ⟨⟨7, 11⟩, .Down, 94⟩ [(.node ⟨⟨6, 10⟩, .Left, 100⟩ [(.node ⟨⟨7, 10⟩, .Left, 106⟩ [(.node ⟨⟨7, 10⟩, .Right, 106⟩ [])]), (.node ⟨⟨6, 10⟩, .Right, 100⟩ [])]), (.node ⟨⟨7, 12⟩, .Down, 97⟩ [(.node ⟨⟨7, 12⟩, .Up, 97⟩ [])]), (.node ⟨⟨7, 11⟩, .Up, 94⟩ [])]), (.node ⟨⟨6, 0⟩, .Up, 86⟩ [(.node ⟨⟨6, 0⟩, .Down, 86⟩ [])]), (.node ⟨⟨6, 1⟩, .Down, 82⟩ [])]), (.node ⟨⟨8, 0⟩, .Left, 84⟩ [(.node ⟨⟨8, 5⟩, .Up, 132⟩ [(.node ⟨⟨8, 3⟩, .Up, 145⟩ [(.node ⟨⟨8, 2⟩, .Up, 150⟩ [(.node ⟨⟨8, 2⟩, .Down, 150⟩ [])]), (.node ⟨⟨8, 3⟩, .Down, 145⟩ [])]), (.node ⟨⟨8, 4⟩, .Up, 141⟩ [(.node ⟨⟨8, 4⟩, .Down, 141⟩ [])]), (.node ⟨⟨8, 5⟩, .Down, 132⟩ [])]), (.node ⟨⟨10, 0⟩, .Left, 89⟩ [(.node ⟨⟨11, 0⟩, .Left, 91⟩ [(.node ⟨⟨11, 0⟩, .Right, 91⟩ [])]), (.node ⟨⟨10, 0⟩, .Right, 89⟩ [])]), (.node ⟨⟨9, 0⟩, .Left, 88⟩ [(.node ⟨⟨9, 0⟩, .Right, 88⟩ [])]), (.node ⟨⟨8, 0⟩, .Right, 84⟩ [])]), (.node ⟨⟨6, 12⟩, .Down, 94⟩ [(.node ⟨⟨6, 12⟩, .Up, 94⟩ [])]), (.node ⟨⟨6, 11⟩, .Up, 88⟩ [])]), (.node ⟨⟨11, 6⟩, .Left, 89⟩ [(.node ⟨⟨3, 6⟩, .Right, 85⟩ [(.node ⟨⟨2, 6⟩, .Right, 90⟩ [(.node ⟨⟨2, 6⟩, .Left, 90⟩ [])]), (.node ⟨⟨3, 6⟩, .Left, 85⟩ [])]), (.node ⟨⟨1, 7⟩, .Right, 85⟩ [(.node ⟨⟨9, 7⟩, .Left, 94⟩ [(.node ⟨⟨11, 7⟩, .Left, 110⟩ [(.node ⟨⟨12, 7⟩, .Left, 116⟩ [(.node ⟨⟨12, 7⟩, .Right, 116⟩ [])]), (.node ⟨⟨11, 7⟩, .Right, 110⟩ [])]), (.node ⟨⟨10, 7⟩, .Left, 102⟩ [(.node ⟨⟨10, 7⟩, .Right, 102⟩ [])]), (.node ⟨⟨9, 7⟩, .Right, 94⟩ [])]), (.node ⟨⟨0, 7⟩, .Right, 88⟩ [(.node ⟨⟨0, 7⟩, .Left, 88⟩ [])]), (.node ⟨⟨1, 7⟩, .Left, 85⟩ [])]), (.node ⟨⟨12, 6⟩, .Left, 93⟩ [(.node ⟨⟨12, 6⟩, .Right, 93⟩ [])]), (.node ⟨⟨11, 6⟩, .Right, 89⟩ [])]), (.node ⟨⟨1, 12⟩, .Up, 83⟩ [])]), (.node ⟨⟨1, 0⟩, .Right, 76⟩ [(.node ⟨⟨0, 0⟩, .Right, 78⟩ [(.node ⟨⟨0, 0⟩, .Left, 78⟩ [])]), (.node ⟨⟨1, 0⟩, .Left, 76⟩ [])]), (.node ⟨⟨1, 12⟩, .Right, 101⟩ [(.node ⟨⟨10, 5⟩, .Up, 130⟩ [(.node ⟨⟨10, 3⟩, .Up, 140⟩ [(.node ⟨⟨10, 2⟩, .Up, 142⟩ [(.node ⟨⟨10, 2⟩, .Down, 142⟩ [])]), (.node ⟨⟨10, 3⟩, .Down, 140⟩ [])]), (.node ⟨⟨10, 4⟩, .Up, 136⟩ [(.node ⟨⟨10, 4⟩, .Down, 136⟩ [])]), (.node ⟨⟨10, 5⟩, .Down, 130⟩ [])]), (.node ⟨⟨10, 7⟩, .Up, 116⟩ [(.node ⟨⟨10, 6⟩, .Up, 122⟩ [(.node ⟨⟨10, 6⟩, .Down, 122⟩ [])]), (.node ⟨⟨10, 7⟩, .Down, 116⟩ [])]), (.node ⟨⟨10, 8⟩, .Up, 108⟩ [(.node ⟨⟨10, 8⟩, .Down, 108⟩ [])]), (.node ⟨⟨0, 12⟩, .Right, 104⟩ [(.node ⟨⟨0, 12⟩, .Left, 104⟩ [])]), (.node ⟨⟨1, 12⟩, .Left, 101⟩ [])]), (.node ⟨⟨5, 0⟩, .Down, 75⟩ [])]), (.node ⟨⟨4, 2⟩, .Up, 75⟩ [(.node ⟨⟨6, 2⟩, .Up, 78⟩ [(.node ⟨⟨5, 4⟩, .Right, 80⟩ [(.node ⟨⟨3, 4⟩, .Right, 81⟩ [(.node ⟨⟨1, 4⟩, .Right, 87⟩ [(.node ⟨⟨0, 4⟩, .Right, 91⟩ [(.node ⟨⟨0, 4⟩, .Left, 91⟩ [])]), (.node ⟨⟨1, 4⟩, .Left, 87⟩ [])]), (.node ⟨⟨2, 4⟩, .Right, 83⟩ [(.node ⟨⟨2, 4⟩, .Left, 83⟩ [])]), (.node ⟨⟨3, 4⟩, .Left, 81⟩ [])]), (.node ⟨⟨4, 4⟩, .Right, 86⟩ [(.node ⟨⟨4, 4⟩, .Left, 86⟩ [])]), (.node ⟨⟨5, 4⟩, .Left, 80⟩ [])]), (.node ⟨⟨6, 10⟩, .Down, 86⟩ [(.node ⟨⟨6, 6⟩, .Right, 87⟩ [(.node ⟨⟨6, 6⟩, .Left, 87⟩ [])]), (.node ⟨⟨6, 4⟩, .Up, 86⟩ [(.node ⟨⟨6, 1⟩, .Up, 102⟩ [(.node ⟨⟨6, 0⟩, .Up, 106⟩ [(.node ⟨⟨6, 0⟩, .Down, 106⟩ [])]), (.node ⟨⟨6, 1⟩, .Down, 102⟩ [])]), (.node ⟨⟨6, 3⟩, .Up, 93⟩ [(.node ⟨⟨6, 2⟩, .Up, 98⟩ [(.node ⟨⟨6, 2⟩, .Down, 98⟩ [])]), (.node ⟨⟨6, 3⟩, .Down, 93⟩ [])]), (.node ⟨⟨1, 5⟩, .Right, 100⟩ [(.node ⟨⟨0, 5⟩, .Right, 103⟩ [(.node ⟨⟨0, 5⟩, .Left, 103⟩ [])]), (.node ⟨⟨1, 5⟩, .Left, 100⟩ [])]), (.node ⟨⟨6, 4⟩, .Down, 86⟩ [])]), (.node ⟨⟨1, 5⟩, .Right, 80⟩ [(.node ⟨⟨0, 5⟩, .Right, 83⟩ [(.node ⟨⟨0, 5⟩, .Left, 83⟩ [])]), (.node ⟨⟨1, 5⟩, .Left, 80⟩ [])]), (.node ⟨⟨6, 11⟩, .Down, 92⟩ [(.node ⟨⟨6, 12⟩, .Down, 98⟩ [(.node ⟨⟨6, 12⟩, .Up, 98⟩ [])]), (.node ⟨⟨6, 11⟩, .Up, 92⟩ [])]), (.node ⟨⟨6, 10⟩, .Up, 86⟩ [])]), (.node ⟨⟨10, 12⟩, .Left, 98⟩ [(.node ⟨⟨12, 9⟩, .Down, 101⟩ [(.node ⟨⟨12, 10⟩, .Down, 106⟩ [(.node ⟨⟨12, 10⟩, .Up, 106⟩ [])]), (.node ⟨⟨12, 9⟩, .Up, 101⟩ [])]), (.node ⟨⟨12, 11⟩, .Down, 109⟩ [(.node ⟨⟨12, 12⟩, .Down, 112⟩ [(.node ⟨⟨12, 12⟩, .Up, 112⟩ [])]), (.node ⟨⟨12, 11⟩, .Up, 109⟩ [])]), (.node ⟨⟨10, 12⟩, .Right, 98⟩ [])]), (.node ⟨⟨7, 9⟩, .Down, 89⟩ [(.node ⟨⟨7, 10⟩, .Down, 95⟩ [(.node ⟨⟨7, 10⟩, .Up, 95⟩ [])]), (.node ⟨⟨7, 9⟩, .Up, 89⟩ [])]), (.node ⟨⟨7, 11⟩, .Down, 100⟩ [(.node ⟨⟨7, 12⟩, .Down, 103⟩ [(.node ⟨⟨7, 12⟩, .Up, 103⟩ [])]), (.node ⟨⟨7, 11⟩, .Up, 100⟩ [])]), (.node ⟨⟨6, 2⟩, .Down, 78⟩ [])]), (.node ⟨⟨8, 7⟩, .Left, 88⟩ [(.node ⟨⟨5, 7⟩, .Right, 109⟩ [(.node ⟨⟨3, 7⟩, .Right, 125⟩ [(.node ⟨⟨2, 7⟩, .Right, 131⟩ [(.node ⟨⟨2, 7⟩, .Left, 131⟩ [])]), (.node ⟨⟨3, 7⟩, .Left, 125⟩ [])]), (.node ⟨⟨4, 7⟩, .Right, 117⟩ [(.node ⟨⟨4, 7⟩, .Left, 117⟩ [])]), (.node ⟨⟨5, 7⟩, .Left, 109⟩ [])]), (.node ⟨⟨7, 6⟩, .Up, 91⟩ [(.node ⟨⟨5, 6⟩, .Right, 95⟩ [(.node ⟨⟨3, 6⟩, .Right, 107⟩ [(.node ⟨⟨2, 6⟩, .Right, 112⟩ [(.node ⟨⟨2, 6⟩, .Left, 112⟩ [])]), (.node ⟨⟨3, 6⟩, .Left, 107⟩ [])]), (.node ⟨⟨4, 6⟩, .Right, 102⟩ [(.node ⟨⟨4, 6⟩, .Left, 102⟩ [])]), (.node ⟨⟨5, 6⟩, .Left, 95⟩ [])]), (.node ⟨⟨7, 5⟩, .Up, 98⟩ [(.node ⟨⟨7, 4⟩, .Up, 106⟩ [(.node ⟨⟨7, 4⟩, .Down, 106⟩ [])]), (.node ⟨⟨7, 5⟩, .Down, 98⟩ [])]), (.node ⟨⟨1, 6⟩, .Right, 115⟩ [(.node ⟨⟨0, 6⟩, .Right, 117⟩ [(.node ⟨⟨0, 6⟩, .Left, 117⟩ [])]), (.node ⟨⟨1, 6⟩, .Left, 115⟩ [])]), (.node ⟨⟨7, 6⟩, .Down, 91⟩ [])]), (.node ⟨⟨9, 7⟩, .Left, 97⟩ [(.node ⟨⟨10, 7⟩, .Left, 105⟩ [(.node ⟨⟨10, 7⟩, .Right, 105⟩ [])]), (.node ⟨⟨9, 7⟩, .Right, 97⟩ [])]), (.node ⟨⟨7, 3⟩, .Up, 113⟩ [(.node ⟨⟨7, 1⟩, .Up, 122⟩ [(.node ⟨⟨7, 0⟩, .Up, 125⟩ [(.node ⟨⟨7, 0⟩, .Down, 125⟩ [])]), (.node ⟨⟨7, 1⟩, .Down, 122⟩ [])]), (.node ⟨⟨7, 2⟩, .Up, 116⟩ [(.node ⟨⟨7, 2⟩, .Down, 116⟩ [])]), (.node ⟨⟨7, 3⟩, .Down, 113⟩ [])]), (.node ⟨⟨8, 7⟩, .Right, 88⟩ [])]), (.node ⟨⟨8, 8⟩, .Left, 87⟩ [(.node ⟨⟨3, 0⟩, .Right, 81⟩ [(.node ⟨⟨3, 0⟩, .Up, 86⟩ [(.node ⟨⟨1, 0⟩, .Right, 87⟩ [(.node ⟨⟨0, 0⟩, .Right, 89⟩ [(.node ⟨⟨0, 0⟩, .Left, 89⟩ [])]), (.node ⟨⟨1, 0⟩, .Left, 87⟩ [])]), (.node ⟨⟨3, 0⟩, .Down, 86⟩ [])]), (.node ⟨⟨3, 9⟩, .Down, 99⟩ [(.node ⟨⟨3, 11⟩, .Down, 108⟩ [(.node ⟨⟨3, 12⟩, .Down, 110⟩ [(.node ⟨⟨3, 12⟩, .Up, 110⟩ [])]), (.node ⟨⟨3, 11⟩, .Up, 108⟩ [])]), (.node ⟨⟨3, 10⟩, .Down, 103⟩ [(.node ⟨⟨3, 10⟩, .Up, 103⟩ [])]), (.node ⟨⟨3, 9⟩, .Up, 99⟩ [])]), (.node ⟨⟨2, 0⟩, .Right, 84⟩ [(.node ⟨⟨2, 0⟩, .Left, 84⟩ [])]), (.node ⟨⟨3, 0⟩, .Left, 81⟩ [])]), (.node ⟨⟨12, 5⟩, .Down, 91⟩ [(.node ⟨⟨9, 10⟩, .Down, 101⟩ [(.node ⟨⟨9, 11⟩, .Down, 106⟩ [(.node ⟨⟨9, 12⟩, .Down, 109⟩ [(.node ⟨⟨9, 12⟩, .Up, 109⟩ [])]), (.node ⟨⟨9, 11⟩, .Up, 106⟩ [])]), (.node ⟨⟨9, 1⟩, .Up, 102⟩ [(.node ⟨⟨9, 0⟩, .Up, 106⟩ [(.node ⟨⟨9, 0⟩, .Down, 106⟩ [])]), (.node ⟨⟨9, 1⟩, .Down, 102⟩ [])]), (.node ⟨⟨9, 10⟩, .Up, 101⟩ [])]), (.node ⟨⟨9, 2⟩, .Up, 97⟩ [(.node ⟨⟨9, 2⟩, .Down, 97⟩ [])]), (.node ⟨⟨12, 7⟩, .Down, 101⟩ [(.node ⟨⟨12, 9⟩, .Down, 111⟩ [(.node ⟨⟨12, 10⟩, .Down, 116⟩ [(.node ⟨⟨12, 10⟩, .Up, 116⟩ [])]), (.node ⟨⟨12, 9⟩, .Up, 111⟩ [])]), (.node ⟨⟨12, 8⟩, .Down, 106⟩ [(.node ⟨⟨12, 8⟩, .Up, 106⟩ [])]), (.node ⟨⟨12, 7⟩, .Up, 101⟩ [])]), (.node ⟨⟨12, 6⟩, .Down, 95⟩ [(.node ⟨⟨12, 6⟩, .Up, 95⟩ [])]), (.node ⟨⟨12, 5⟩, .Up, 91⟩ [])]), (.node ⟨⟨5, 7⟩, .Right, 109⟩ [(.node ⟨⟨4, 7⟩, .Right, 117⟩ [(.node ⟨⟨4, 7⟩, .Left, 117⟩ [])]), (.node ⟨⟨5, 7⟩, .Left, 109⟩ [])]), (.node ⟨⟨1, 1⟩, .Right, 79⟩ [(.node ⟨⟨9, 1⟩, .Left, 87⟩ [(.node ⟨⟨10, 1⟩, .Left, 89⟩ [(.node ⟨⟨10, 1⟩, .Right, 89⟩ [])]), (.node ⟨⟨9, 1⟩, .Right, 87⟩ [])]), (.node ⟨⟨3, 7⟩, .Right, 125⟩ [(.node ⟨⟨1, 7⟩, .Right, 136⟩ [(.node ⟨⟨0, 7⟩, .Right, 139⟩ [(.node ⟨⟨0, 7⟩, .Left, 139⟩ [])]), (.node ⟨⟨1, 7⟩, .Left, 136⟩ [])]), (.node ⟨⟨2, 7⟩, .Right, 131⟩ [(.node ⟨⟨2, 7⟩, .Left, 131⟩ [])]), (.node ⟨⟨3, 7⟩, .Left, 125⟩ [])]), (.node ⟨⟨0, 1⟩, .Right, 83⟩ [(.node ⟨⟨0, 1⟩, .Left, 83⟩ [])]), (.node ⟨⟨1, 1⟩, .Left, 79⟩ [])]), (.node ⟨⟨1, 6⟩, .Right, 83⟩ [(.node ⟨⟨0, 6⟩, .Right, 85⟩ [(.node ⟨⟨0, 6⟩, .Left, 85⟩ [])]), (.node ⟨⟨1, 6⟩, .Left, 83⟩ [])]), (.node ⟨⟨2, 6⟩, .Right, 80⟩ [(.node ⟨⟨11, 8⟩, .Left, 109⟩ [(.node ⟨⟨12, 8⟩, .Left, 114⟩ [(.node ⟨⟨12, 8⟩, .Right, 114⟩ [])]), (.node ⟨⟨11, 8⟩, .Right, 109⟩ [])]), (.node ⟨⟨2, 6⟩, .Left, 80⟩ [])]), (.node ⟨⟨9, 8⟩, .Left, 95⟩ [(.node ⟨⟨10, 8⟩, .Left, 101⟩ [(.node ⟨⟨10, 8⟩, .Right, 101⟩ [])]), (.node ⟨⟨9, 8⟩, .Right, 95⟩ [])]), (.node ⟨⟨11, 6⟩, .Left, 92⟩ [(.node ⟨⟨12, 6⟩, .Left, 96⟩ [(.node ⟨⟨12, 6⟩, .Right, 96⟩ [])]), (.node ⟨⟨11, 6⟩, .Right, 92⟩ [])]), (.node ⟨⟨8, 8⟩, .Right, 87⟩ [])]), (.node ⟨⟨4, 1⟩, .Up, 80⟩ [(.node ⟨⟨4, 0⟩, .Up, 84⟩ [(.node ⟨⟨4, 0⟩, .Down, 84⟩ [])]), (.node ⟨⟨4, 1⟩, .Down, 80⟩ [])]), (.node ⟨⟨4, 2⟩, .Down, 75⟩ [])]), (.node ⟨⟨5, 10⟩, .Left, 93⟩ [(.node ⟨⟨10, 4⟩, .Up, 113⟩ [(.node ⟨⟨10, 3⟩, .Up, 117⟩ [(.node ⟨⟨10, 2⟩, .Up, 119⟩ [(.node ⟨⟨10, 2⟩, .Down, 119⟩ [])]), (.node ⟨⟨10, 3⟩, .Down, 117⟩ [])]), (.node ⟨⟨10, 4⟩, .Down, 113⟩ [])]), (.node ⟨⟨5, 10⟩, .Right, 93⟩ [])])]), (.node ⟨⟨0, 6⟩, .Up, 85⟩ [(.node ⟨⟨8, 11⟩, .Left, 117⟩ [(.node ⟨⟨10, 11⟩, .Left, 128⟩ [(.node ⟨⟨11, 11⟩, .Left, 131⟩ [(.node ⟨⟨11, 11⟩, .Right, 131⟩ [])]), (.node ⟨⟨10, 11⟩, .Right, 128⟩ [])]), (.node ⟨⟨9, 11⟩, .Left, 122⟩ [(.node ⟨⟨9, 11⟩, .Right, 122⟩ [])]), (.node ⟨⟨8, 11⟩, .Right, 117⟩ [])]), (.node ⟨⟨6, 11⟩, .Left, 104⟩ [(.node ⟨⟨7, 11⟩, .Left, 109⟩ [(.node ⟨⟨7, 11⟩, .Right, 109⟩ [])]), (.node ⟨⟨6, 11⟩, .Right, 104⟩ [])]), (.node ⟨⟨5, 11⟩, .Left, 98⟩ [(.node ⟨⟨5, 11⟩, .Right, 98⟩ [])]), (.node ⟨⟨0, 3⟩, .Up, 95⟩ [(.node ⟨⟨0, 1⟩, .Up, 100⟩ [(.node ⟨⟨0, 0⟩, .Up, 102⟩ [(.node ⟨⟨0, 0⟩, .Down, 102⟩ [])]), (.node ⟨⟨0, 1⟩, .Down, 100⟩ [])]), (.node ⟨⟨0, 2⟩, .Up, 96⟩ [(.node ⟨⟨0, 2⟩, .Down, 96⟩ [])]), (.node ⟨⟨0, 3⟩, .Down, 95⟩ [])]), (.node ⟨⟨0, 5⟩, .Up, 88⟩ [(.node ⟨⟨0, 4⟩, .Up, 92⟩ [(.node ⟨⟨0, 4⟩, .Down, 92⟩ [])]), (.node ⟨⟨0, 5⟩, .Down, 88⟩ [])]), (.node ⟨⟨0, 3⟩, .Up, 93⟩ [(.node ⟨⟨0, 1⟩, .Up, 98⟩ [(.node ⟨⟨0, 0⟩, .Up, 100⟩ [(.node ⟨⟨0, 0⟩, .Down, 100⟩ [])]), (.node ⟨⟨0, 1⟩, .Down, 98⟩ [])]), (.node ⟨⟨0, 2⟩, .Up, 94⟩ [(.node ⟨⟨0, 2⟩, .Down, 94⟩ [])]), (.node ⟨⟨0, 3⟩, .Down, 93⟩ [])]), (.node ⟨⟨0, 6⟩, .Down, 85⟩ [])]), (.node ⟨⟨12, 4⟩, .Down, 84⟩ [(.node ⟨⟨8, 10⟩, .Left, 88⟩ [(.node ⟨⟨0, 5⟩, .Up, 86⟩ [(.node ⟨⟨0, 4⟩, .Up, 90⟩ [(.node ⟨⟨0, 4⟩, .Down, 90⟩ [])]), (.node ⟨⟨0, 5⟩, .Down, 86⟩ [])]), (.node ⟨⟨11, 10⟩, .Left, 104⟩ [(.node ⟨⟨6, 7⟩, .Right, 102⟩ [(.node ⟨⟨6, 7⟩, .Left, 102⟩ [])]), (.node ⟨⟨12, 10⟩, .Left, 109⟩ [(.node ⟨⟨12, 10⟩, .Right, 109⟩ [])]), (.node ⟨⟨11, 10⟩, .Right, 104⟩ [])]), (.node ⟨⟨11, 9⟩, .Left, 110⟩ [(.node ⟨⟨12, 9⟩, .Left, 115⟩ [(.node ⟨⟨12, 9⟩, .Right, 115⟩ [])]), (.node ⟨⟨11, 9⟩, .Right, 110⟩ [])]), (.node ⟨⟨9, 10⟩, .Left, 92⟩ [(.node ⟨⟨10, 10⟩, .Left, 97⟩ [(.node ⟨⟨10, 10⟩, .Right, 97⟩ [])]), (.node ⟨⟨9, 10⟩, .Right, 92⟩ [])]), (.node ⟨⟨8, 10⟩, .Right, 88⟩ [])]), (.node ⟨⟨5, 5⟩, .Up, 84⟩ [(.node ⟨⟨5, 5⟩, .Right, 88⟩ [(.node ⟨⟨3, 5⟩, .Right, 101⟩ [(.node ⟨⟨2, 5⟩, .Right, 105⟩ [(.node ⟨⟨2, 5⟩, .Left, 105⟩ [])]), (.node ⟨⟨3, 5⟩, .Left, 101⟩ [])]), (.node ⟨⟨4, 5⟩, .Right, 93⟩ [(.node ⟨⟨4, 5⟩, .Left, 93⟩ [])]), (.node ⟨⟨5, 5⟩, .Left, 88⟩ [])]), (.node ⟨⟨5, 3⟩, .Up, 97⟩ [(.node ⟨⟨5, 1⟩, .Up, 104⟩ [(.node ⟨⟨5, 0⟩, .Up, 105⟩ [(.node ⟨⟨5, 0⟩, .Down, 105⟩ [])]), (.node ⟨⟨5, 1⟩, .Down, 104⟩ [])]), (.node ⟨⟨5, 2⟩, .Up, 100⟩ [(.node ⟨⟨5, 2⟩, .Down, 100⟩ [])]), (.node ⟨⟨5, 3⟩, .Down, 97⟩ [])]), (.node ⟨⟨3, 4⟩, .Right, 91⟩ [(.node ⟨⟨1, 4⟩, .Right, 97⟩ [(.node ⟨⟨0, 4⟩, .Right, 101⟩ [(.node ⟨⟨0, 4⟩, .Left, 101⟩ [])]), (.node ⟨⟨1, 4⟩, .Left, 97⟩ [])]), (.node ⟨⟨2, 4⟩, .Right, 93⟩ [(.node ⟨⟨2, 4⟩, .Left, 93⟩ [])]), (.node ⟨⟨3, 4⟩, .Left, 91⟩ [])]), (.node ⟨⟨5, 4⟩, .Up, 89⟩ [(.node ⟨⟨5, 4⟩, .Down, 89⟩ [])]), (.node ⟨⟨5, 5⟩, .Down, 84⟩ [])]), (.node ⟨⟨10, 6⟩, .Left, 84⟩ [(.node ⟨⟨10, 1⟩, .Up, 91⟩ [(.node ⟨⟨9, 11⟩, .Left, 102⟩ [(.node ⟨⟨11, 11⟩, .Left, 111⟩ [(.node ⟨⟨12, 11⟩, .Left, 114⟩ [(.node ⟨⟨12, 11⟩, .Right, 114⟩ [])]), (.node ⟨⟨11, 11⟩, .Right, 111⟩ [])]), (.node ⟨⟨10, 11⟩, .Left, 108⟩ [(.node ⟨⟨10, 11⟩, .Right, 108⟩ [])]), (.node ⟨⟨9, 11⟩, .Right, 102⟩ [])]), (.node ⟨⟨10, 9⟩, .Down, 102⟩ [(.node ⟨⟨10, 11⟩, .Down, 113⟩ [(.node ⟨⟨10, 12⟩, .Down, 116⟩ [(.node ⟨⟨10, 12⟩, .Up, 116⟩ [])]), (.node ⟨⟨10, 11⟩, .Up, 113⟩ [])]), (.node ⟨⟨10, 10⟩, .Down, 107⟩ [(.node ⟨⟨10, 10⟩, .Up, 107⟩ [])]), (.node ⟨⟨10, 9⟩, .Up, 102⟩ [])]), (.node ⟨⟨10, 0⟩, .Up, 92⟩ [(.node ⟨⟨10, 0⟩, .Down, 92⟩ [])]), (.node ⟨⟨10, 1⟩, .Down, 91⟩ [])]), (.node ⟨⟨0, 7⟩, .Right, 76⟩ [(.node ⟨⟨11, 7⟩, .Left, 113⟩ [(.node ⟨⟨12, 7⟩, .Left, 119⟩ [(.node ⟨⟨12, 7⟩, .Right, 119⟩ [])]), (.node ⟨⟨11, 7⟩, .Right, 113⟩ [])]), (.node ⟨⟨0, 7⟩, .Left, 76⟩ [])]), (.node ⟨⟨10, 6⟩, .Right, 84⟩ [])]), (.node ⟨⟨4, 2⟩, .Up, 75⟩ [(.node ⟨⟨4, 1⟩, .Up, 80⟩ [(.node ⟨⟨6, 8⟩, .Left, 99⟩ [(.node ⟨⟨7, 8⟩, .Left, 106⟩ [(.node ⟨⟨7, 8⟩, .Right, 106⟩ [])]), (.node ⟨⟨6, 8⟩, .Right, 99⟩ [])]), (.node ⟨⟨4, 0⟩, .Up, 84⟩ [(.node ⟨⟨4, 0⟩, .Down, 84⟩ [])]), (.node ⟨⟨4, 1⟩, .Down, 80⟩ [])]), (.node ⟨⟨4, 2⟩, .Down, 75⟩ [])]), (.node ⟨⟨9, 8⟩, .Up, 106⟩ [(.node ⟨⟨9, 5⟩, .Up, 131⟩ [(.node ⟨⟨9, 3⟩, .Up, 141⟩ [(.node ⟨⟨9, 2⟩, .Up, 147⟩ [(.node ⟨⟨9, 2⟩, .Down, 147⟩ [])]), (.node ⟨⟨9, 3⟩, .Down, 141⟩ [])]), (.node ⟨⟨9, 4⟩, .Up, 137⟩ [(.node ⟨⟨9, 4⟩, .Down, 137⟩ [])]), (.node ⟨⟨9, 5⟩, .Down, 131⟩ [])]), (.node ⟨⟨9, 7⟩, .Up, 115⟩ [(.node ⟨⟨9, 6⟩, .Up, 124⟩ [(.node ⟨⟨9, 6⟩, .Down, 124⟩ [])]), (.node ⟨⟨9, 7⟩, .Down, 115⟩ [])]), (.node ⟨⟨1, 10⟩, .Right, 128⟩ [(.node ⟨⟨0, 10⟩, .Right, 131⟩ [(.node ⟨⟨0, 10⟩, .Left, 131⟩ [])]), (.node ⟨⟨1, 10⟩, .Left, 128⟩ [])]), (.node ⟨⟨9, 8⟩, .Down, 106⟩ [])]), (.node ⟨⟨12, 0⟩, .Up, 83⟩ [(.node ⟨⟨9, 1⟩, .Up, 91⟩ [(.node ⟨⟨9, 9⟩, .Down, 102⟩ [(.node ⟨⟨9, 10⟩, .Down, 106⟩ [(.node ⟨⟨9, 10⟩, .Up, 106⟩ [])]), (.node ⟨⟨9, 9⟩, .Up, 102⟩ [])]), (.node ⟨⟨11, 7⟩, .Down, 107⟩ [(.node ⟨⟨11, 9⟩, .Down, 122⟩ [(.node ⟨⟨11, 10⟩, .Down, 129⟩ [(.node ⟨⟨11, 10⟩, .Up, 129⟩ [])]), (.node ⟨⟨11, 9⟩, .Up, 122⟩ [])]), (.node ⟨⟨11, 8⟩, .Down, 115⟩ [(.node ⟨⟨11, 8⟩, .Up, 115⟩ [])]), (.node ⟨⟨11, 7⟩, .Up, 107⟩ [])]), (.node ⟨⟨9, 0⟩, .Up, 95⟩ [(.node ⟨⟨9, 0⟩, .Down, 95⟩ [])]), (.node ⟨⟨9, 1⟩, .Down, 91⟩ [])]), (.node ⟨⟨11, 0⟩, .Up, 88⟩ [(.node ⟨⟨4, 7⟩, .Right, 104⟩ [(.node ⟨⟨11, 11⟩, .Down, 116⟩ [(.node ⟨⟨11, 12⟩, .Down, 121⟩ [(.node ⟨⟨11, 12⟩, .Up, 121⟩ [])]), (.node ⟨⟨11, 11⟩, .Up, 116⟩ [])]), (.node ⟨⟨4, 7⟩, .Left, 104⟩ [])]), (.node ⟨⟨11, 9⟩, .Down, 106⟩ [(.node ⟨⟨11, 10⟩, .Down, 113⟩ [(.node ⟨⟨11, 10⟩, .Up, 113⟩ [])]), (.node ⟨⟨11, 9⟩, .Up, 106⟩ [])]), (.node ⟨⟨11, 8⟩, .Down, 99⟩ [(.node ⟨⟨11, 8⟩, .Up, 99⟩ [])]), (.node ⟨⟨12, 7⟩, .Left, 102⟩ [(.node ⟨⟨12, 7⟩, .Right, 102⟩ [])]), (.node ⟨⟨9, 11⟩, .Down, 111⟩ [(.node ⟨⟨9, 12⟩, .Down, 114⟩ [(.node ⟨⟨9, 12⟩, .Up, 114⟩ [])]), (.node ⟨⟨9, 11⟩, .Up, 111⟩ [])]), (.node ⟨⟨11, 0⟩, .Down, 88⟩ [])]), (.node ⟨⟨12, 8⟩, .Down, 94⟩ [(.node ⟨⟨12, 8⟩, .Up, 94⟩ [])]), (.node ⟨⟨3, 7⟩, .Right, 112⟩ [(.node ⟨⟨1, 7⟩, .Right, 123⟩ [(.node ⟨⟨0, 7⟩, .Right, 126⟩ [(.node ⟨⟨0, 7⟩, .Left, 126⟩ [])]), (.node ⟨⟨1, 7⟩, .Left, 123⟩ [])]), (.node ⟨⟨2, 7⟩, .Right, 118⟩ [(.node ⟨⟨2, 7⟩, .Left, 118⟩ [])]), (.node ⟨⟨3, 7⟩, .Left, 112⟩ [])]), (.node ⟨⟨12, 0⟩, .Down, 83⟩ [])]), (.node ⟨⟨12, 9⟩, .Down, 99⟩ [(.node ⟨⟨8, 5⟩, .Up, 103⟩ [(.node ⟨⟨8, 4⟩, .Up, 112⟩ [(.node ⟨⟨8, 4⟩, .Down, 112⟩ [])]), (.node ⟨⟨8, 5⟩, .Down, 103⟩ [])]), (.node ⟨⟨12, 11⟩, .Down, 107⟩ [(.node ⟨⟨12, 12⟩, .Down, 110⟩ [(.node ⟨⟨12, 12⟩, .Up, 110⟩ [])]), (.node ⟨⟨12, 11⟩, .Up, 107⟩ [])]), (.node ⟨⟨12, 10⟩, .Down, 104⟩ [(.node ⟨⟨12, 10⟩, .Up, 104⟩ [])]), (.node ⟨⟨12, 9⟩, .Up, 99⟩ [])]), (.node ⟨⟨12, 4⟩, .Up, 84⟩ [])]), (.node ⟨⟨5, 11⟩, .Left, 84⟩ [(.node ⟨⟨2, 9⟩, .Down, 95⟩ [(.node ⟨⟨2, 1⟩, .Up, 89⟩ [(.node ⟨⟨2, 0⟩, .Up, 92⟩ [(.node ⟨⟨2, 0⟩, .Down, 92⟩ [])]), (.node ⟨⟨2, 1⟩, .Down, 89⟩ [])]), (.node ⟨⟨2, 11⟩, .Down, 102⟩ [(.node ⟨⟨2, 12⟩, .Down, 106⟩ [(.node ⟨⟨2, 12⟩, .Up, 106⟩ [])]), (.node ⟨⟨2, 11⟩, .Up, 102⟩ [])]), (.node ⟨⟨2, 10⟩, .Down, 97⟩ [(.node ⟨⟨2, 10⟩, .Up, 97⟩ [])]), (.node ⟨⟨2, 9⟩, .Up, 95⟩ [])]), (.node ⟨⟨5, 3⟩, .Up, 85⟩ [(.node ⟨⟨5, 1⟩, .Up, 92⟩ [(.node ⟨⟨5, 0⟩, .Up, 93⟩ [(.node ⟨⟨5, 0⟩, .Down, 93⟩ [])]), (.node ⟨⟨5, 1⟩, .Down, 92⟩ [])]), (.node ⟨⟨5, 2⟩, .Up, 88⟩ [(.node ⟨⟨5, 2⟩, .Down, 88⟩ [])]), (.node ⟨⟨5, 3⟩, .Down, 85⟩ [])]), (.node ⟨⟨4, 5⟩, .Right, 83⟩ [(.node ⟨⟨12, 1⟩, .Up, 94⟩ [(.node ⟨⟨10, 11⟩, .Down, 110⟩ [(.node ⟨⟨10, 12⟩, .Down, 113⟩ [(.node ⟨⟨10, 12⟩, .Up, 113⟩ [])]), (.node ⟨⟨10, 11⟩, .Up, 110⟩ [])]), (.node ⟨⟨12, 0⟩, .Up, 98⟩ [(.node ⟨⟨12, 0⟩, .Down, 98⟩ [])]), (.node ⟨⟨12, 1⟩, .Down, 94⟩ [])]), (.node ⟨⟨4, 5⟩, .Left, 83⟩ [])]), (.node ⟨⟨0, 3⟩, .Up, 83⟩ [(.node ⟨⟨0, 3⟩, .Right, 90⟩ [(.node ⟨⟨4, 8⟩, .Right, 109⟩ [(.node ⟨⟨4, 8⟩, .Left, 109⟩ [])]), (.node ⟨⟨3, 8⟩, .Right, 113⟩ [(.node ⟨⟨1, 8⟩, .Right, 121⟩ [(.node ⟨⟨0, 8⟩, .Right, 122⟩ [(.node ⟨⟨0, 8⟩, .Left, 122⟩ [])]), (.node ⟨⟨1, 8⟩, .Left, 121⟩ [])]), (.node ⟨⟨2, 8⟩, .Right, 118⟩ [(.node ⟨⟨2, 8⟩, .Left, 118⟩ [])]), (.node ⟨⟨3, 8⟩, .Left, 113⟩ [])]), (.node ⟨⟨0, 3⟩, .Left, 90⟩ [])]), (.node ⟨⟨0, 1⟩, .Up, 88⟩ [(.node ⟨⟨0, 0⟩, .Up, 90⟩ [(.node ⟨⟨0, 0⟩, .Down, 90⟩ [])]), (.node ⟨⟨0, 1⟩, .Down, 88⟩ [])]), (.node ⟨⟨0, 2⟩, .Up, 84⟩ [(.node ⟨⟨0, 2⟩, .Down, 84⟩ [])]), (.node ⟨⟨0, 3⟩, .Down, 83⟩ [])]), (.node ⟨⟨1, 4⟩, .Right, 75⟩ [(.node ⟨⟨9, 10⟩, .Left, 98⟩ [(.node ⟨⟨11, 10⟩, .Left, 110⟩ [(.node ⟨⟨12, 10⟩, .Left, 115⟩ [(.node ⟨⟨12, 10⟩, .Right, 115⟩ [])]), (.node ⟨⟨11, 10⟩, .Right, 110⟩ [])]), (.node ⟨⟨10, 10⟩, .Left, 103⟩ [(.node ⟨⟨10, 10⟩, .Right, 103⟩ [])]), (.node ⟨⟨9, 10⟩, .Right, 98⟩ [])]), (.node ⟨⟨0, 4⟩, .Right, 79⟩ [(.node ⟨⟨0, 4⟩, .Left, 79⟩ [])]), (.node ⟨⟨1, 4⟩, .Left, 75⟩ [])]), (.node ⟨⟨0, 1⟩, .Right, 70⟩ [(.node ⟨⟨8, 2⟩, .Up, 89⟩ [(.node ⟨⟨8, 6⟩, .Up, 97⟩ [(.node ⟨⟨8, 3⟩, .Up, 116⟩ [(.node ⟨⟨8, 1⟩, .Up, 127⟩ [(.node ⟨⟨8, 0⟩, .Up, 131⟩ [(.node ⟨⟨8, 0⟩, .Down, 131⟩ [])]), (.node ⟨⟨8, 1⟩, .Down, 127⟩ [])]), (.node ⟨⟨8, 2⟩, .Up, 121⟩ [(.node ⟨⟨8, 2⟩, .Down, 121⟩ [])]), (.node ⟨⟨8, 3⟩, .Down, 116⟩ [])]), (.node ⟨⟨8, 5⟩, .Up, 103⟩ [(.node ⟨⟨8, 4⟩, .Up, 112⟩ [(.node ⟨⟨8, 4⟩, .Down, 112⟩ [])]), (.node ⟨⟨8, 5⟩, .Down, 103⟩ [])]), (.node ⟨⟨1, 7⟩, .Right, 136⟩ [(.node ⟨⟨0, 7⟩, .Right, 139⟩ [(.node ⟨⟨0, 7⟩, .Left, 139⟩ [])]), (.node ⟨⟨1, 7⟩, .Left, 136⟩ [])]), (.node ⟨⟨8, 6⟩, .Down, 97⟩ [])]), (.node ⟨⟨2, 7⟩, .Right, 93⟩ [(.node ⟨⟨11, 7⟩, .Left, 107⟩ [(.node ⟨⟨12, 7⟩, .Left, 113⟩ [(.node ⟨⟨12, 7⟩, .Right, 113⟩ [])]), (.node ⟨⟨11, 7⟩, .Right, 107⟩ [])]), (.node ⟨⟨2, 7⟩, .Left, 93⟩ [])]), (.node ⟨⟨1, 7⟩, .Right, 98⟩ [(.node ⟨⟨0, 7⟩, .Right, 101⟩ [(.node ⟨⟨0, 7⟩, .Left, 101⟩ [])]), (.node ⟨⟨1, 7⟩, .Left, 98⟩ [])]), (.node ⟨⟨8, 2⟩, .Down, 89⟩ [])]), (.node ⟨⟨9, 1⟩, .Left, 83⟩ [(.node ⟨⟨10, 1⟩, .Left, 85⟩ [(.node ⟨⟨10, 1⟩, .Right, 85⟩ [])]), (.node ⟨⟨9, 1⟩, .Right, 83⟩ [])]), (.node ⟨⟨8, 1⟩, .Left, 78⟩ [(.node ⟨⟨8, 1⟩, .Right, 78⟩ [])]), (.node ⟨⟨9, 3⟩, .Up, 120⟩ [(.node ⟨⟨9, 1⟩, .Up, 131⟩ [(.node ⟨⟨9, 0⟩, .Up, 135⟩ [(.node ⟨⟨9, 0⟩, .Down, 135⟩ [])]), (.node ⟨⟨9, 1⟩, .Down, 131⟩ [])]), (.node ⟨⟨9, 2⟩, .Up, 126⟩ [(.node ⟨⟨9, 2⟩, .Down, 126⟩ [])]), (.node ⟨⟨9, 3⟩, .Down, 120⟩ [])]), (.node ⟨⟨0, 1⟩, .Left, 70⟩ [])]), (.node ⟨⟨7, 11⟩, .Left, 95⟩ [(.node ⟨⟨8, 1⟩, .Up, 90⟩ [(.node ⟨⟨8, 0⟩, .Up, 94⟩ [(.node ⟨⟨8, 0⟩, .Down, 94⟩ [])]), (.node ⟨⟨8, 1⟩, .Down, 90⟩ [])]), (.node ⟨⟨9, 11⟩, .Left, 108⟩ [(.node ⟨⟨10, 11⟩, .Left, 114⟩ [(.node ⟨⟨10, 11⟩, .Right, 114⟩ [])]), (.node ⟨⟨9, 11⟩, .Right, 108⟩ [])]), (.node ⟨⟨8, 11⟩, .Left, 103⟩ [(.node ⟨⟨8, 11⟩, .Right, 103⟩ [])]), (.node ⟨⟨7, 11⟩, .Right, 95⟩ [])]), (.node ⟨⟨11, 1⟩, .Left, 90⟩ [(.node ⟨⟨12, 1⟩, .Left, 93⟩ [(.node ⟨⟨12, 1⟩, .Right, 93⟩ [])]), (.node ⟨⟨11, 1⟩, .Right, 90⟩ [])]), (.node ⟨⟨6, 11⟩, .Left, 90⟩ [(.node ⟨⟨6, 11⟩, .Right, 90⟩ [])]), (.node ⟨⟨5, 11⟩, .Right, 84⟩ [])]), (.node ⟨⟨9, 6⟩, .Right, 83⟩ [(.node ⟨⟨7, 9⟩, .Down, 84⟩ [(.node ⟨⟨9, 2⟩, .Left, 80⟩ [(.node ⟨⟨10, 6⟩, .Left, 86⟩ [(.node ⟨⟨12, 5⟩, .Left, 89⟩ [(.node ⟨⟨1, 10⟩, .Down, 90⟩ [(.node ⟨⟨7, 3⟩, .Up, 112⟩ [(.node ⟨⟨7, 1⟩, .Up, 121⟩ [(.node ⟨⟨7, 0⟩, .Up, 124⟩ [(.node ⟨⟨7, 0⟩, .Down, 124⟩ [])]), (.node ⟨⟨7, 1⟩, .Down, 121⟩ [])]), (.node ⟨⟨7, 2⟩, .Up, 115⟩ [(.node ⟨⟨7, 2⟩, .Down, 115⟩ [])]), (.node ⟨⟨7, 3⟩, .Down, 112⟩ [])]), (.node ⟨⟨6, 3⟩, .Up, 103⟩ [(.node ⟨⟨6, 1⟩, .Up, 112⟩ [(.node ⟨⟨6, 0⟩, .Up, 116⟩ [(.node ⟨⟨6, 0⟩, .Down, 116⟩ [])]), (.node ⟨⟨6, 1⟩, .Down, 112⟩ [])]), (.node ⟨⟨6, 2⟩, .Up, 108⟩ [(.node ⟨⟨6, 2⟩, .Down, 108⟩ [])]), (.node ⟨⟨6, 3⟩, .Down, 103⟩ [])]), (.node ⟨⟨1, 1⟩, .Up, 88⟩ [(.node ⟨⟨1, 0⟩, .Up, 91⟩ [(.node ⟨⟨1, 0⟩, .Down, 91⟩ [])]), (.node ⟨⟨1, 1⟩, .Down, 88⟩ [])]), (.node ⟨⟨1, 2⟩, .Up, 86⟩ [(.node ⟨⟨1, 2⟩, .Down, 86⟩ [])]), (.node ⟨⟨1, 11⟩, .Down, 92⟩ [(.node ⟨⟨1, 12⟩, .Down, 95⟩ [(.node ⟨⟨1, 12⟩, .Up, 95⟩ [])]), (.node ⟨⟨1, 11⟩, .Up, 92⟩ [])]), (.node ⟨⟨11, 3⟩, .Left, 111⟩ [(.node ⟨⟨12, 3⟩, .Left, 113⟩ [(.node ⟨⟨12, 3⟩, .Right, 113⟩ [])]), (.node ⟨⟨11, 3⟩, .Right, 111⟩ [])]), (.node ⟨⟨1, 10⟩, .Up, 90⟩ [])]), (.node ⟨⟨8, 3⟩, .Left, 97⟩ [(.node ⟨⟨8, 3⟩, .Right, 97⟩ [])]), (.node ⟨⟨1, 2⟩, .Right, 84⟩ [(.node ⟨⟨0, 2⟩, .Right, 85⟩ [(.node ⟨⟨0, 2⟩, .Left, 85⟩ [])]), (.node ⟨⟨1, 2⟩, .Left, 84⟩ [])]), (.node ⟨⟨12, 5⟩, .Right, 89⟩ [])]), (.node ⟨⟨0, 6⟩, .Down, 81⟩ [(.node ⟨⟨0, 9⟩, .Down, 86⟩ [(.node ⟨⟨0, 11⟩, .Down, 91⟩ [(.node ⟨⟨0, 12⟩, .Down, 94⟩ [(.node ⟨⟨0, 12⟩, .Up, 94⟩ [])]), (.node ⟨⟨0, 11⟩, .Up, 91⟩ [])]), (.node ⟨⟨0, 10⟩, .Down, 89⟩ [(.node ⟨⟨0, 10⟩, .Up, 89⟩ [])]), (.node ⟨⟨0, 9⟩, .Up, 86⟩ [])]), (.node ⟨⟨0, 7⟩, .Down, 84⟩ [(.node ⟨⟨0, 8⟩, .Down, 85⟩ [(.node ⟨⟨0, 8⟩, .Up, 85⟩ [])]), (.node ⟨⟨0, 7⟩, .Up, 84⟩ [])]), (.node ⟨⟨1, 8⟩, .Right, 133⟩ [(.node ⟨⟨0, 8⟩, .Right, 134⟩ [(.node ⟨⟨0, 8⟩, .Left, 134⟩ [])]), (.node ⟨⟨1, 8⟩, .Left, 133⟩ [])]), (.node ⟨⟨0, 6⟩, .Up, 81⟩ [])]), (.node ⟨⟨12, 8⟩, .Left, 106⟩ [(.node ⟨⟨12, 8⟩, .Right, 106⟩ [])]), (.node ⟨⟨11, 6⟩, .Left, 94⟩ [(.node ⟨⟨12, 6⟩, .Left, 98⟩ [(.node ⟨⟨12, 6⟩, .Right, 98⟩ [])]), (.node ⟨⟨11, 6⟩, .Right, 94⟩ [])]), (.node ⟨⟨10, 6⟩, .Right, 86⟩ [])]), (.node ⟨⟨5, 8⟩, .Right, 115⟩ [(.node ⟨⟨3, 8⟩, .Right, 125⟩ [(.node ⟨⟨2, 8⟩, .Right, 130⟩ [(.node ⟨⟨2, 8⟩, .Left, 130⟩ [])]), (.node ⟨⟨3, 8⟩, .Left, 125⟩ [])]), (.node ⟨⟨4, 8⟩, .Right, 121⟩ [(.node ⟨⟨4, 8⟩, .Left, 121⟩ [])]), (.node ⟨⟨5, 8⟩, .Left, 115⟩ [])]), (.node ⟨⟨5, 12⟩, .Left, 86⟩ [(.node ⟨⟨9, 9⟩, .Down, 89⟩ [(.node ⟨⟨9, 10⟩, .Down, 93⟩ [(.node ⟨⟨9, 10⟩, .Up, 93⟩ [])]), (.node ⟨⟨9, 9⟩, .Up, 89⟩ [])]), (.node ⟨⟨10, 0⟩, .Up, 80⟩ [(.node ⟨⟨10, 6⟩, .Up, 101⟩ [(.node ⟨⟨10, 3⟩, .Up, 119⟩ [(.node ⟨⟨10, 1⟩, .Up, 123⟩ [(.node ⟨⟨10, 0⟩, .Up, 124⟩ [(.node ⟨⟨10, 0⟩, .Down, 124⟩ [])]), (.node ⟨⟨10, 1⟩, .Down, 123⟩ [])]), (.node ⟨⟨10, 2⟩, .Up, 121⟩ [(.node ⟨⟨10, 2⟩, .Down, 121⟩ [])]), (.node ⟨⟨10, 3⟩, .Down, 119⟩ [])]), (.node ⟨⟨10, 5⟩, .Up, 109⟩ [(.node ⟨⟨10, 4⟩, .Up, 115⟩ [(.node ⟨⟨10, 4⟩, .Down, 115⟩ [])]), (.node ⟨⟨10, 5⟩, .Down, 109⟩ [])]), (.node ⟨⟨8, 3⟩, .Up, 116⟩ [(.node ⟨⟨8, 1⟩, .Up, 127⟩ [(.node ⟨⟨8, 0⟩, .Up, 131⟩ [(.node ⟨⟨8, 0⟩, .Down, 131⟩ [])]), (.node ⟨⟨8, 1⟩, .Down, 127⟩ [])]), (.node ⟨⟨8, 2⟩, .Up, 121⟩ [(.node ⟨⟨8, 2⟩, .Down, 121⟩ [])]), (.node ⟨⟨8, 3⟩, .Down, 116⟩ [])]), (.node ⟨⟨10, 6⟩, .Down, 101⟩ [])]), (.node ⟨⟨10, 8⟩, .Down, 99⟩ [(.node ⟨⟨10, 8⟩, .Up, 99⟩ [])]), (.node ⟨⟨10, 0⟩, .Down, 80⟩ [])]), (.node ⟨⟨7, 12⟩, .Left, 95⟩ [(.node ⟨⟨9, 12⟩, .Left, 105⟩ [(.node ⟨⟨10, 12⟩, .Left, 108⟩ [(.node ⟨⟨10, 12⟩, .Right, 108⟩ [])]), (.node ⟨⟨9, 12⟩, .Right, 105⟩ [])]), (.node ⟨⟨8, 12⟩, .Left, 102⟩ [(.node ⟨⟨8, 12⟩, .Right, 102⟩ [])]), (.node ⟨⟨7, 12⟩, .Right, 95⟩ [])]), (.node ⟨⟨6, 12⟩, .Left, 92⟩ [(.node ⟨⟨6, 12⟩, .Right, 92⟩ [])]), (.node ⟨⟨5, 12⟩, .Right, 86⟩ [])]), (.node ⟨⟨9, 7⟩, .Left, 90⟩ [(.node ⟨⟨10, 5⟩, .Up, 112⟩ [(.node ⟨⟨10, 4⟩, .Up, 118⟩ [(.node ⟨⟨10, 4⟩, .Down, 118⟩ [])]), (.node ⟨⟨10, 5⟩, .Down, 112⟩ [])]), (.node ⟨⟨9, 2⟩, .Left, 89⟩ [(.node ⟨⟨1, 10⟩, .Right, 90⟩ [(.node ⟨⟨0, 10⟩, .Right, 93⟩ [(.node ⟨⟨0, 10⟩, .Left, 93⟩ [])]), (.node ⟨⟨1, 10⟩, .Left, 90⟩ [])]), (.node ⟨⟨5, 10⟩, .Right, 111⟩ [(.node ⟨⟨3, 10⟩, .Right, 120⟩ [(.node ⟨⟨2, 10⟩, .Right, 122⟩ [(.node ⟨⟨2, 10⟩, .Left, 122⟩ [])]), (.node ⟨⟨3, 10⟩, .Left, 120⟩ [])]), (.node ⟨⟨4, 10⟩, .Right, 116⟩ [(.node ⟨⟨4, 10⟩, .Left, 116⟩ [])]), (.node ⟨⟨5, 10⟩, .Left, 111⟩ [])]), (.node ⟨⟨11, 2⟩, .Left, 95⟩ [(.node ⟨⟨12, 2⟩, .Left, 97⟩ [(.node ⟨⟨12, 2⟩, .Right, 97⟩ [])]), (.node ⟨⟨11, 2⟩, .Right, 95⟩ [])]), (.node ⟨⟨10, 2⟩, .Left, 91⟩ [(.node ⟨⟨10, 2⟩, .Right, 91⟩ [])]), (.node ⟨⟨9, 2⟩, .Right, 89⟩ [])]), (.node ⟨⟨10, 8⟩, .Left, 101⟩ [(.node ⟨⟨10, 8⟩, .Right, 101⟩ [])]), (.node ⟨⟨10, 7⟩, .Left, 98⟩ [(.node ⟨⟨10, 7⟩, .Right, 98⟩ [])]), (.node ⟨⟨9, 7⟩, .Right, 90⟩ [])]), (.node ⟨⟨6, 11⟩, .Down, 91⟩ [(.node ⟨⟨9, 9⟩, .Left, 103⟩ [(.node ⟨⟨11, 9⟩, .Left, 115⟩ [(.node ⟨⟨12, 9⟩, .Left, 120⟩ [(.node ⟨⟨12, 9⟩, .Right, 120⟩ [])]), (.node ⟨⟨11, 9⟩, .Right, 115⟩ [])]), (.node ⟨⟨10, 9⟩, .Left, 108⟩ [(.node ⟨⟨10, 9⟩, .Right, 108⟩ [])]), (.node ⟨⟨9, 9⟩, .Right, 103⟩ [])]), (.node ⟨⟨7, 11⟩, .Down, 99⟩ [(.node ⟨⟨7, 3⟩, .Up, 101⟩ [(.node ⟨⟨7, 1⟩, .Up, 110⟩ [(.node ⟨⟨7, 0⟩, .Up, 113⟩ [(.node ⟨⟨7, 0⟩, .Down, 113⟩ [])]), (.node ⟨⟨7, 1⟩, .Down, 110⟩ [])]), (.node ⟨⟨7, 2⟩, .Up, 104⟩ [(.node ⟨⟨7, 2⟩, .Down, 104⟩ [])]), (.node ⟨⟨7, 3⟩, .Down, 101⟩ [])]), (.node ⟨⟨6, 9⟩, .Right, 105⟩ [(.node ⟨⟨5, 9⟩, .Right, 113⟩ [(.node ⟨⟨4, 9⟩, .Right, 120⟩ [(.node ⟨⟨4, 9⟩, .Left, 120⟩ [])]), (.node ⟨⟨5, 9⟩, .Left, 113⟩ [])]), (.node ⟨⟨6, 9⟩, .Left, 105⟩ [])]), (.node ⟨⟨1, 8⟩, .Right, 99⟩ [(.node ⟨⟨0, 8⟩, .Right, 100⟩ [(.node ⟨⟨0, 8⟩, .Left, 100⟩ [])]), (.node ⟨⟨1, 8⟩, .Left, 99⟩ [])]), (.node ⟨⟨7, 12⟩, .Down, 102⟩ [(.node ⟨⟨7, 12⟩, .Up, 102⟩ [])]), (.node ⟨⟨7, 11⟩, .Up, 99⟩ [])]), (.node ⟨⟨5, 8⟩, .Left, 91⟩ [(.node ⟨⟨8, 8⟩, .Left, 114⟩ [(.node ⟨⟨10, 8⟩, .Left, 128⟩ [(.node ⟨⟨11, 8⟩, .Left, 136⟩ [(.node ⟨⟨11, 8⟩, .Right, 136⟩ [])]), (.node ⟨⟨10, 8⟩, .Right, 128⟩ [])]), (.node ⟨⟨9, 8⟩, .Left, 122⟩ [(.node ⟨⟨9, 8⟩, .Right, 122⟩ [])]), (.node ⟨⟨8, 8⟩, .Right, 114⟩ [])]), (.node ⟨⟨5, 8⟩, .Right, 91⟩ [])]), (.node ⟨⟨11, 7⟩, .Left, 102⟩ [(.node ⟨⟨12, 7⟩, .Left, 108⟩ [(.node ⟨⟨12, 7⟩, .Right, 108⟩ [])]), (.node ⟨⟨11, 7⟩, .Right, 102⟩ [])]), (.node ⟨⟨7, 1⟩, .Up, 84⟩ [(.node ⟨⟨7, 9⟩, .Down, 92⟩ [(.node ⟨⟨7, 10⟩, .Down, 98⟩ [(.node ⟨⟨7, 10⟩, .Up, 98⟩ [])]), (.node ⟨⟨7, 9⟩, .Up, 92⟩ [])]), (.node ⟨⟨8, 9⟩, .Down, 95⟩ [(.node ⟨⟨8, 11⟩, .Down, 111⟩ [(.node ⟨⟨8, 12⟩, .Down, 118⟩ [(.node ⟨⟨8, 12⟩, .Up, 118⟩ [])]), (.node ⟨⟨8, 11⟩, .Up, 111⟩ [])]), (.node ⟨⟨8, 10⟩, .Down, 103⟩ [(.node ⟨⟨8, 10⟩, .Up, 103⟩ [])]), (.node ⟨⟨8, 9⟩, .Up, 95⟩ [])]), (.node ⟨⟨7, 0⟩, .Up, 87⟩ [(.node ⟨⟨7, 0⟩, .Down, 87⟩ [])]), (.node ⟨⟨7, 1⟩, .Down, 84⟩ [])]), (.node ⟨⟨10, 7⟩, .Left, 99⟩ [(.node ⟨⟨10, 7⟩, .Right, 99⟩ [])]), (.node ⟨⟨6, 3⟩, .Up, 91⟩ [(.node ⟨⟨6, 1⟩, .Up, 100⟩ [(.node ⟨⟨6, 0⟩, .Up, 104⟩ [(.node ⟨⟨6, 0⟩, .Down, 104⟩ [])]), (.node ⟨⟨6, 1⟩, .Down, 100⟩ [])]), (.node ⟨⟨6, 2⟩, .Up, 96⟩ [(.node ⟨⟨6, 2⟩, .Down, 96⟩ [])]), (.node ⟨⟨6, 3⟩, .Down, 91⟩ [])]), (.node ⟨⟨6, 12⟩, .Down, 97⟩ [(.node ⟨⟨6, 12⟩, .Up, 97⟩ [])]), (.node ⟨⟨6, 11⟩, .Up, 91⟩ [])]), (.node ⟨⟨5, 5⟩, .Right, 86⟩ [(.node ⟨⟨6, 5⟩, .Up, 88⟩ [(.node ⟨⟨3, 5⟩, .Right, 99⟩ [(.node ⟨⟨1, 5⟩, .Right, 108⟩ [(.node ⟨⟨0, 5⟩, .Right, 111⟩ [(.node ⟨⟨0, 5⟩, .Left, 111⟩ [])]), (.node ⟨⟨1, 5⟩, .Left, 108⟩ [])]), (.node ⟨⟨2, 5⟩, .Right, 103⟩ [(.node ⟨⟨2, 5⟩, .Left, 103⟩ [])]), (.node ⟨⟨3, 5⟩, .Left, 99⟩ [])]), (.node ⟨⟨6, 4⟩, .Up, 96⟩ [(.node ⟨⟨6, 4⟩, .Down, 96⟩ [])]), (.node ⟨⟨6, 5⟩, .Down, 88⟩ [])]), (.node ⟨⟨4, 5⟩, .Right, 91⟩ [(.node ⟨⟨4, 5⟩, .Left, 91⟩ [])]), (.node ⟨⟨5, 5⟩, .Left, 86⟩ [])]), (.node ⟨⟨2, 0⟩, .Right, 73⟩ [(.node ⟨⟨8, 3⟩, .Up, 106⟩ [(.node ⟨⟨8, 2⟩, .Up, 111⟩ [(.node ⟨⟨8, 2⟩, .Down, 111⟩ [])]), (.node ⟨⟨8, 3⟩, .Down, 106⟩ [])]), (.node ⟨⟨8, 4⟩, .Up, 102⟩ [(.node ⟨⟨8, 4⟩, .Down, 102⟩ [])]), (.node ⟨⟨8, 12⟩, .Down, 100⟩ [(.node ⟨⟨8, 1⟩, .Up, 117⟩ [(.node ⟨⟨8, 0⟩, .Up, 121⟩ [(.node ⟨⟨8, 0⟩, .Down, 121⟩ [])]), (.node ⟨⟨8, 1⟩, .Down, 117⟩ [])]), (.node ⟨⟨8, 12⟩, .Up, 100⟩ [])]), (.node ⟨⟨2, 0⟩, .Left, 73⟩ [])]), (.node ⟨⟨5, 6⟩, .Right, 94⟩ [(.node ⟨⟨7, 5⟩, .Up, 97⟩ [(.node ⟨⟨3, 6⟩, .Right, 106⟩ [(.node ⟨⟨1, 6⟩, .Right, 114⟩ [(.node ⟨⟨0, 6⟩, .Right, 116⟩ [(.node ⟨⟨0, 6⟩, .Left, 116⟩ [])]), (.node ⟨⟨1, 6⟩, .Left, 114⟩ [])]), (.node ⟨⟨2, 6⟩, .Right, 111⟩ [(.node ⟨⟨2, 6⟩, .Left, 111⟩ [])]), (.node ⟨⟨3, 6⟩, .Left, 106⟩ [])]), (.node ⟨⟨7, 4⟩, .Up, 105⟩ [(.node ⟨⟨7, 4⟩, .Down, 105⟩ [])]), (.node ⟨⟨7, 5⟩, .Down, 97⟩ [])]), (.node ⟨⟨4, 6⟩, .Right, 101⟩ [(.node ⟨⟨4, 6⟩, .Left, 101⟩ [])]), (.node ⟨⟨5, 6⟩, .Left, 94⟩ [])]), (.node ⟨⟨1, 12⟩, .Right, 84⟩ [(.node ⟨⟨9, 5⟩, .Up, 110⟩ [(.node ⟨⟨9, 4⟩, .Up, 116⟩ [(.node ⟨⟨9, 4⟩, .Down, 116⟩ [])]), (.node ⟨⟨9, 5⟩, .Down, 110⟩ [])]), (.node ⟨⟨9, 6⟩, .Up, 103⟩ [(.node ⟨⟨9, 6⟩, .Down, 103⟩ [])]), (.node ⟨⟨0, 12⟩, .Right, 87⟩ [(.node ⟨⟨0, 12⟩, .Left, 87⟩ [])]), (.node ⟨⟨1, 12⟩, .Left, 84⟩ [])]), (.node ⟨⟨11, 2⟩, .Left, 86⟩ [(.node ⟨⟨12, 2⟩, .Left, 88⟩ [(.node ⟨⟨12, 2⟩, .Right, 88⟩ [])]), (.node ⟨⟨11, 2⟩, .Right, 86⟩ [])]), (.node ⟨⟨10, 2⟩, .Left, 82⟩ [(.node ⟨⟨10, 2⟩, .Right, 82⟩ [])]), (.node ⟨⟨9, 2⟩, .Right, 80⟩ [])]), (.node ⟨⟨11, 12⟩, .Left, 104⟩ [(.node ⟨⟨12, 12⟩, .Left, 107⟩ [(.node ⟨⟨12, 12⟩, .Right, 107⟩ [])]), (.node ⟨⟨11, 12⟩, .Right, 104⟩ [])]), (.node ⟨⟨10, 12⟩, .Down, 104⟩ [(.node ⟨⟨10, 1⟩, .Up, 121⟩ [(.node ⟨⟨10, 0⟩, .Up, 122⟩ [(.node ⟨⟨10, 0⟩, .Down, 122⟩ [])]), (.node ⟨⟨10, 1⟩, .Down, 121⟩ [])]), (.node ⟨⟨10, 12⟩, .Up, 104⟩ [])]), (.node ⟨⟨12, 6⟩, .Left, 89⟩ [(.node ⟨⟨7, 1⟩, .Up, 110⟩ [(.node ⟨⟨7, 0⟩, .Up, 113⟩ [(.node ⟨⟨7, 0⟩, .Down, 113⟩ [])]), (.node ⟨⟨7, 1⟩, .Down, 110⟩ [])]), (.node ⟨⟨8, 9⟩, .Left, 92⟩ [(.node ⟨⟨9, 9⟩, .Left, 98⟩ [(.node ⟨⟨10, 9⟩, .Left, 103⟩ [(.node ⟨⟨10, 9⟩, .Right, 103⟩ [])]), (.node ⟨⟨9, 9⟩, .Right, 98⟩ [])]), (.node ⟨⟨8, 9⟩, .Right, 92⟩ [])]), (.node ⟨⟨8, 9⟩, .Down, 96⟩ [(.node ⟨⟨8, 11⟩, .Down, 112⟩ [(.node ⟨⟨8, 12⟩, .Down, 119⟩ [(.node ⟨⟨8, 12⟩, .Up, 119⟩ [])]), (.node ⟨⟨8, 11⟩, .Up, 112⟩ [])]), (.node ⟨⟨8, 10⟩, .Down, 104⟩ [(.node ⟨⟨8, 10⟩, .Up, 104⟩ [])]), (.node ⟨⟨8, 9⟩, .Up, 96⟩ [])]), (.node ⟨⟨3, 6⟩, .Right, 95⟩ [(.node ⟨⟨2, 6⟩, .Right, 100⟩ [(.node ⟨⟨2, 6⟩, .Left, 100⟩ [])]), (.node ⟨⟨3, 6⟩, .Left, 95⟩ [])]), (.node ⟨⟨4, 6⟩, .Right, 90⟩ [(.node ⟨⟨4, 6⟩, .Left, 90⟩ [])]), (.node ⟨⟨7, 11⟩, .Down, 103⟩ [(.node ⟨⟨7, 12⟩, .Down, 106⟩ [(.node ⟨⟨7, 12⟩, .Up, 106⟩ [])]), (.node ⟨⟨7, 11⟩, .Up, 103⟩ [])]), (.node ⟨⟨12, 6⟩, .Right, 89⟩ [])]), (.node ⟨⟨11, 0⟩, .Left, 80⟩ [(.node ⟨⟨5, 3⟩, .Up, 84⟩ [(.node ⟨⟨5, 1⟩, .Up, 91⟩ [(.node ⟨⟨5, 0⟩, .Up, 92⟩ [(.node ⟨⟨5, 0⟩, .Down, 92⟩ [])]), (.node ⟨⟨5, 1⟩, .Down, 91⟩ [])]), (.node ⟨⟨5, 2⟩, .Up, 87⟩ [(.node ⟨⟨5, 2⟩, .Down, 87⟩ [])]), (.node ⟨⟨5, 3⟩, .Down, 84⟩ [])]), (.node ⟨⟨6, 3⟩, .Up, 105⟩ [(.node ⟨⟨6, 1⟩, .Up, 114⟩ [(.node ⟨⟨6, 0⟩, .Up, 118⟩ [(.node ⟨⟨6, 0⟩, .Down, 118⟩ [])]), (.node ⟨⟨6, 1⟩, .Down, 114⟩ [])]), (.node ⟨⟨6, 2⟩, .Up, 110⟩ [(.node ⟨⟨6, 2⟩, .Down, 110⟩ [])]), (.node ⟨⟨6, 3⟩, .Down, 105⟩ [])]), (.node ⟨⟨0, 2⟩, .Up, 72⟩ [(.node ⟨⟨0, 1⟩, .Up, 76⟩ [(.node ⟨⟨0, 0⟩, .Up, 78⟩ [(.node ⟨⟨0, 0⟩, .Down, 78⟩ [])]), (.node ⟨⟨0, 1⟩, .Down, 76⟩ [])]), (.node ⟨⟨0, 2⟩, .Down, 72⟩ [])]), (.node ⟨⟨8, 9⟩, .Left, 118⟩ [(.node ⟨⟨10, 9⟩, .Left, 129⟩ [(.node ⟨⟨11, 9⟩, .Left, 136⟩ [(.node ⟨⟨11, 9⟩, .Right, 136⟩ [])]), (.node ⟨⟨10, 9⟩, .Right, 129⟩ [])]), (.node ⟨⟨9, 9⟩, .Left, 124⟩ [(.node ⟨⟨9, 9⟩, .Right, 124⟩ [])]), (.node ⟨⟨8, 9⟩, .Right, 118⟩ [])]), (.node ⟨⟨6, 9⟩, .Left, 103⟩ [(.node ⟨⟨7, 9⟩, .Left, 112⟩ [(.node ⟨⟨7, 9⟩, .Right, 112⟩ [])]), (.node ⟨⟨6, 9⟩, .Right, 103⟩ [])]), (.node ⟨⟨5, 9⟩, .Left, 96⟩ [(.node ⟨⟨5, 9⟩, .Right, 96⟩ [])]), (.node ⟨⟨12, 0⟩, .Left, 84⟩ [(.node ⟨⟨12, 0⟩, .Right, 84⟩ [])]), (.node ⟨⟨11, 0⟩, .Right, 80⟩ [])]), (.node ⟨⟨8, 9⟩, .Down, 85⟩ [(.node ⟨⟨0, 1⟩, .Up, 71⟩ [(.node ⟨⟨12, 4⟩, .Left, 87⟩ [(.node ⟨⟨9, 0⟩, .Up, 84⟩ [(.node ⟨⟨11, 8⟩, .Left, 109⟩ [(.node ⟨⟨12, 8⟩, .Left, 114⟩ [(.node ⟨⟨12, 8⟩, .Right, 114⟩ [])]), (.node ⟨⟨11, 8⟩, .Right, 109⟩ [])]), (.node ⟨⟨9, 8⟩, .Down, 98⟩ [(.node ⟨⟨9, 9⟩, .Down, 104⟩ [(.node ⟨⟨9, 11⟩, .Down, 113⟩ [(.node ⟨⟨9, 12⟩, .Down, 116⟩ [(.node ⟨⟨9, 12⟩, .Up, 116⟩ [])]), (.node ⟨⟨9, 11⟩, .Up, 113⟩ [])]), (.node ⟨⟨9, 10⟩, .Down, 108⟩ [(.node ⟨⟨9, 10⟩, .Up, 108⟩ [])]), (.node ⟨⟨9, 9⟩, .Up, 104⟩ [])]), (.node ⟨⟨9, 8⟩, .Up, 98⟩ [])]), (.node ⟨⟨9, 0⟩, .Down, 84⟩ [])]), (.node ⟨⟨12, 4⟩, .Right, 87⟩ [])]), (.node ⟨⟨10, 9⟩, .Down, 104⟩ [(.node ⟨⟨2, 8⟩, .Right, 96⟩ [(.node ⟨⟨2, 8⟩, .Left, 96⟩ [])]), (.node ⟨⟨10, 11⟩, .Down, 115⟩ [(.node ⟨⟨10, 12⟩, .Down, 118⟩ [(.node ⟨⟨10, 12⟩, .Up, 118⟩ [])]), (.node ⟨⟨10, 11⟩, .Up, 115⟩ [])]), (.node ⟨⟨10, 10⟩, .Down, 109⟩ [(.node ⟨⟨10, 10⟩, .Up, 109⟩ [])]), (.node ⟨⟨10, 9⟩, .Up, 104⟩ [])]), (.node ⟨⟨11, 4⟩, .Down, 87⟩ [(.node ⟨⟨1, 8⟩, .Right, 85⟩ [(.node ⟨⟨9, 8⟩, .Left, 98⟩ [(.node ⟨⟨11, 8⟩, .Left, 112⟩ [(.node ⟨⟨12, 8⟩, .Left, 117⟩ [(.node ⟨⟨12, 8⟩, .Right, 117⟩ [])]), (.node ⟨⟨11, 8⟩, .Right, 112⟩ [])]), (.node ⟨⟨10, 8⟩, .Left, 104⟩ [(.node ⟨⟨10, 8⟩, .Right, 104⟩ [])]), (.node ⟨⟨9, 8⟩, .Right, 98⟩ [])]), (.node ⟨⟨0, 8⟩, .Right, 86⟩ [(.node ⟨⟨0, 8⟩, .Left, 86⟩ [])]), (.node ⟨⟨1, 8⟩, .Left, 85⟩ [])]), (.node ⟨⟨11, 4⟩, .Up, 87⟩ [])]), (.node ⟨⟨2, 0⟩, .Up, 75⟩ [(.node ⟨⟨2, 11⟩, .Down, 91⟩ [(.node ⟨⟨2, 12⟩, .Down, 95⟩ [(.node ⟨⟨2, 12⟩, .Up, 95⟩ [])]), (.node ⟨⟨2, 11⟩, .Up, 91⟩ [])]), (.node ⟨⟨2, 0⟩, .Down, 75⟩ [])]), (.node ⟨⟨2, 9⟩, .Down, 84⟩ [(.node ⟨⟨2, 10⟩, .Down, 86⟩ [(.node ⟨⟨2, 10⟩, .Up, 86⟩ [])]), (.node ⟨⟨2, 9⟩, .Up, 84⟩ [])]), (.node ⟨⟨2, 8⟩, .Down, 80⟩ [(.node ⟨⟨2, 8⟩, .Up, 80⟩ [])]), (.node ⟨⟨0, 0⟩, .Up, 73⟩ [(.node ⟨⟨0, 0⟩, .Down, 73⟩ [])]), (.node ⟨⟨0, 1⟩, .Down, 71⟩ [])]), (.node ⟨⟨6, 10⟩, .Down, 86⟩ [(.node ⟨⟨2, 9⟩, .Right, 103⟩ [(.node ⟨⟨1, 9⟩, .Right, 108⟩ [(.node ⟨⟨0, 9⟩, .Right, 109⟩ [(.node ⟨⟨0, 9⟩, .Left, 109⟩ [])]), (.node ⟨⟨1, 9⟩, .Left, 108⟩ [])]), (.node ⟨⟨11, 9⟩, .Left, 112⟩ [(.node ⟨⟨4, 4⟩, .Up, 123⟩ [(.node ⟨⟨4, 2⟩, .Up, 133⟩ [(.node ⟨⟨4, 1⟩, .Up, 138⟩ [(.node ⟨⟨4, 1⟩, .Down, 138⟩ [])]), (.node ⟨⟨4, 2⟩, .Down, 133⟩ [])]), (.node ⟨⟨4, 3⟩, .Up, 129⟩ [(.node ⟨⟨4, 3⟩, .Down, 129⟩ [])]), (.node ⟨⟨4, 4⟩, .Down, 123⟩ [])]), (.node ⟨⟨4, 6⟩, .Up, 112⟩ [(.node ⟨⟨4, 5⟩, .Up, 117⟩ [(.node ⟨⟨4, 5⟩, .Down, 117⟩ [])]), (.node ⟨⟨4, 6⟩, .Down, 112⟩ [])]), (.node ⟨⟨4, 7⟩, .Up, 105⟩ [(.node ⟨⟨4, 7⟩, .Down, 105⟩ [])]), (.node ⟨⟨12, 9⟩, .Left, 117⟩ [(.node ⟨⟨12, 9⟩, .Right, 117⟩ [])]), (.node ⟨⟨11, 9⟩, .Right, 112⟩ [])]), (.node ⟨⟨2, 9⟩, .Left, 103⟩ [])]), (.node ⟨⟨6, 6⟩, .Up, 83⟩ [(.node ⟨⟨6, 5⟩, .Up, 90⟩ [(.node ⟨⟨6, 4⟩, .Up, 98⟩ [(.node ⟨⟨6, 4⟩, .Down, 98⟩ [])]), (.node ⟨⟨6, 5⟩, .Down, 90⟩ [])]), (.node ⟨⟨1, 5⟩, .Right, 110⟩ [(.node ⟨⟨0, 5⟩, .Right, 113⟩ [(.node ⟨⟨0, 5⟩, .Left, 113⟩ [])]), (.node ⟨⟨1, 5⟩, .Left, 110⟩ [])]), (.node ⟨⟨6, 6⟩, .Down, 83⟩ [])]), (.node ⟨⟨6, 10⟩, .Up, 86⟩ [])]), (.node ⟨⟨10, 10⟩, .Down, 104⟩ [(.node ⟨⟨10, 2⟩, .Up, 100⟩ [(.node ⟨⟨10, 2⟩, .Down, 100⟩ [])]), (.node ⟨⟨10, 1⟩, .Up, 102⟩ [(.node ⟨⟨10, 0⟩, .Up, 103⟩ [(.node ⟨⟨10, 0⟩, .Down, 103⟩ [])]), (.node ⟨⟨10, 1⟩, .Down, 102⟩ [])]), (.node ⟨⟨10, 10⟩, .Up, 104⟩ [])]), (.node ⟨⟨10, 9⟩, .Left, 105⟩ [(.node ⟨⟨10, 9⟩, .Right, 105⟩ [])]), (.node ⟨⟨8, 6⟩, .Down, 100⟩ [(.node ⟨⟨9, 3⟩, .Left, 101⟩ [(.node ⟨⟨10, 3⟩, .Left, 105⟩ [(.node ⟨⟨10, 3⟩, .Right, 105⟩ [])]), (.node ⟨⟨9, 3⟩, .Right, 101⟩ [])]), (.node ⟨⟨8, 9⟩, .Down, 123⟩ [(.node ⟨⟨8, 11⟩, .Down, 139⟩ [(.node ⟨⟨8, 12⟩, .Down, 146⟩ [(.node ⟨⟨8, 12⟩, .Up, 146⟩ [])]), (.node ⟨⟨8, 11⟩, .Up, 139⟩ [])]), (.node ⟨⟨8, 10⟩, .Down, 131⟩ [(.node ⟨⟨8, 10⟩, .Up, 131⟩ [])]), (.node ⟨⟨8, 9⟩, .Up, 123⟩ [])]), (.node ⟨⟨8, 7⟩, .Down, 109⟩ [(.node ⟨⟨8, 8⟩, .Down, 117⟩ [(.node ⟨⟨8, 8⟩, .Up, 117⟩ [])]), (.node ⟨⟨8, 7⟩, .Up, 109⟩ [])]), (.node ⟨⟨8, 6⟩, .Up, 100⟩ [])]), (.node ⟨⟨9, 12⟩, .Down, 97⟩ [(.node ⟨⟨6, 10⟩, .Right, 107⟩ [(.node ⟨⟨6, 10⟩, .Left, 107⟩ [])]), (.node ⟨⟨1, 11⟩, .Right, 93⟩ [(.node ⟨⟨9, 3⟩, .Up, 114⟩ [(.node ⟨⟨9, 2⟩, .Up, 120⟩ [(.node ⟨⟨9, 2⟩, .Down, 120⟩ [])]), (.node ⟨⟨9, 3⟩, .Down, 114⟩ [])]), (.node ⟨⟨9, 4⟩, .Up, 110⟩ [(.node ⟨⟨9, 4⟩, .Down, 110⟩ [])]), (.node ⟨⟨0, 11⟩, .Right, 95⟩ [(.node ⟨⟨0, 11⟩, .Left, 95⟩ [])]), (.node ⟨⟨1, 11⟩, .Left, 93⟩ [])]), (.node ⟨⟨9, 1⟩, .Up, 125⟩ [(.node ⟨⟨9, 0⟩, .Up, 129⟩ [(.node ⟨⟨9, 0⟩, .Down, 129⟩ [])]), (.node ⟨⟨9, 1⟩, .Down, 125⟩ [])]), (.node ⟨⟨9, 12⟩, .Up, 97⟩ [])]), (.node ⟨⟨11, 1⟩, .Up, 97⟩ [(.node ⟨⟨11, 0⟩, .Up, 99⟩ [(.node ⟨⟨11, 0⟩, .Down, 99⟩ [])]), (.node ⟨⟨11, 1⟩, .Down, 97⟩ [])]), (.node ⟨⟨8, 10⟩, .Down, 93⟩ [(.node ⟨⟨8, 10⟩, .Up, 93⟩ [])]), (.node ⟨⟨8, 9⟩, .Up, 85⟩ [])]), (.node ⟨⟨2, 10⟩, .Right, 97⟩ [(.node ⟨⟨4, 7⟩, .Up, 111⟩ [(.node ⟨⟨4, 6⟩, .Up, 118⟩ [(.node ⟨⟨4, 6⟩, .Down, 118⟩ [])]), (.node ⟨⟨4, 7⟩, .Down, 111⟩ [])]), (.node ⟨⟨1, 10⟩, .Right, 103⟩ [(.node ⟨⟨0, 10⟩, .Right, 106⟩ [(.node ⟨⟨0, 10⟩, .Left, 106⟩ [])]), (.node ⟨⟨1, 10⟩, .Left, 103⟩ [])]), (.node ⟨⟨2, 10⟩, .Left, 97⟩ [])]), (.node ⟨⟨8, 11⟩, .Down, 111⟩ [(.node ⟨⟨8, 3⟩, .Up, 107⟩ [(.node ⟨⟨8, 1⟩, .Up, 118⟩ [(.node ⟨⟨8, 0⟩, .Up, 122⟩ [(.node ⟨⟨8, 0⟩, .Down, 122⟩ [])]), (.node ⟨⟨8, 1⟩, .Down, 118⟩ [])]), (.node ⟨⟨8, 2⟩, .Up, 112⟩ [(.node ⟨⟨8, 2⟩, .Down, 112⟩ [])]), (.node ⟨⟨8, 3⟩, .Down, 107⟩ [])]), (.node ⟨⟨8, 12⟩, .Down, 118⟩ [(.node ⟨⟨8, 12⟩, .Up, 118⟩ [])]), (.node ⟨⟨8, 11⟩, .Up, 111⟩ [])]), (.node ⟨⟨7, 10⟩, .Down, 90⟩ [(.node ⟨⟨7, 10⟩, .Up, 90⟩ [])]), (.node ⟨⟨7, 9⟩, .Up, 84⟩ [])]), (.node ⟨⟨10, 12⟩, .Left, 91⟩ [(.node ⟨⟨11, 5⟩, .Down, 91⟩ [(.node ⟨⟨11, 6⟩, .Down, 99⟩ [(.node ⟨⟨11, 6⟩, .Up, 99⟩ [])]), (.node ⟨⟨11, 5⟩, .Up, 91⟩ [])]), (.node ⟨⟨11, 12⟩, .Left, 96⟩ [(.node ⟨⟨12, 12⟩, .Left, 99⟩ [(.node ⟨⟨12, 12⟩, .Right, 99⟩ [])]), (.node ⟨⟨11, 12⟩, .Right, 96⟩ [])]), (.node ⟨⟨10, 12⟩, .Right, 91⟩ [])]), (.node ⟨⟨5, 11⟩, .Down, 87⟩ [(.node ⟨⟨11, 6⟩, .Left, 97⟩ [(.node ⟨⟨12, 6⟩, .Left, 101⟩ [(.node ⟨⟨12, 6⟩, .Right, 101⟩ [])]), (.node ⟨⟨11, 6⟩, .Right, 97⟩ [])]), (.node ⟨⟨5, 12⟩, .Down, 91⟩ [(.node ⟨⟨5, 12⟩, .Up, 91⟩ [])]), (.node ⟨⟨5, 11⟩, .Up, 87⟩ [])]), (.node ⟨⟨10, 6⟩, .Left, 89⟩ [(.node ⟨⟨10, 6⟩, .Right, 89⟩ [])])]), (.node ⟨⟨5, 4⟩, .Right, 80⟩ [(.node ⟨⟨3, 12⟩, .Right, 104⟩ [(.node ⟨⟨1, 12⟩, .Right, 111⟩ [(.node ⟨⟨0, 12⟩, .Right, 114⟩ [(.node ⟨⟨0, 12⟩, .Left, 114⟩ [])]), (.node ⟨⟨1, 12⟩, .Left, 111⟩ [])]), (.node ⟨⟨2, 12⟩, .Right, 108⟩ [(.node ⟨⟨2, 12⟩, .Left, 108⟩ [])]), (.node ⟨⟨3, 12⟩, .Left, 104⟩ [])]), (.node ⟨⟨8, 8⟩, .Up, 110⟩ [(.node ⟨⟨8, 7⟩, .Up, 119⟩ [(.node ⟨⟨8, 6⟩, .Up, 126⟩ [(.node ⟨⟨8, 6⟩, .Down, 126⟩ [])]), (.node ⟨⟨8, 7⟩, .Down, 119⟩ [])]), (.node ⟨⟨8, 8⟩, .Down, 110⟩ [])]), (.node ⟨⟨1, 9⟩, .Down, 81⟩ [(.node ⟨⟨11, 5⟩, .Left, 87⟩ [(.node ⟨⟨0, 4⟩, .Up, 80⟩ [(.node ⟨⟨11, 1⟩, .Left, 94⟩ [(.node ⟨⟨12, 1⟩, .Left, 97⟩ [(.node ⟨⟨12, 1⟩, .Right, 97⟩ [])]), (.node ⟨⟨11, 1⟩, .Right, 94⟩ [])]), (.node ⟨⟨0, 4⟩, .Down, 80⟩ [])]), (.node ⟨⟨4, 3⟩, .Up, 81⟩ [(.node ⟨⟨4, 1⟩, .Up, 90⟩ [(.node ⟨⟨4, 0⟩, .Up, 94⟩ [(.node ⟨⟨4, 0⟩, .Down, 94⟩ [])]), (.node ⟨⟨4, 1⟩, .Down, 90⟩ [])]), (.node ⟨⟨4, 2⟩, .Up, 85⟩ [(.node ⟨⟨4, 2⟩, .Down, 85⟩ [])]), (.node ⟨⟨4, 3⟩, .Down, 81⟩ [])]), (.node ⟨⟨4, 3⟩, .Up, 87⟩ [(.node ⟨⟨4, 1⟩, .Up, 96⟩ [(.node ⟨⟨4, 0⟩, .Up, 100⟩ [(.node ⟨⟨4, 0⟩, .Down, 100⟩ [])]), (.node ⟨⟨4, 1⟩, .Down, 96⟩ [])]), (.node ⟨⟨4, 2⟩, .Up, 91⟩ [(.node ⟨⟨4, 2⟩, .Down, 91⟩ [])]), (.node ⟨⟨4, 3⟩, .Down, 87⟩ [])]), (.node ⟨⟨12, 5⟩, .Left, 94⟩ [(.node ⟨⟨12, 5⟩, .Right, 94⟩ [])]), (.node ⟨⟨11, 5⟩, .Right, 87⟩ [])]), (.node ⟨⟨5, 8⟩, .Right, 112⟩ [(.node ⟨⟨1, 8⟩, .Right, 130⟩ [(.node ⟨⟨0, 8⟩, .Right, 131⟩ [(.node ⟨⟨0, 8⟩, .Left, 131⟩ [])]), (.node ⟨⟨1, 8⟩, .Left, 130⟩ [])]), (.node ⟨⟨3, 8⟩, .Right, 122⟩ [(.node ⟨⟨2, 8⟩, .Right, 127⟩ [(.node ⟨⟨2, 8⟩, .Left, 127⟩ [])]), (.node ⟨⟨3, 8⟩, .Left, 122⟩ [])]), (.node ⟨⟨4, 8⟩, .Right, 118⟩ [(.node ⟨⟨4, 8⟩, .Left, 118⟩ [])]), (.node ⟨⟨5, 8⟩, .Left, 112⟩ [])]), (.node ⟨⟨1, 1⟩, .Up, 77⟩ [(.node ⟨⟨1, 0⟩, .Up, 80⟩ [(.node ⟨⟨1, 0⟩, .Down, 80⟩ [])]), (.node ⟨⟨1, 1⟩, .Down, 77⟩ [])]), (.node ⟨⟨1, 11⟩, .Down, 89⟩ [(.node ⟨⟨1, 12⟩, .Down, 92⟩ [(.node ⟨⟨1, 12⟩, .Up, 92⟩ [])]), (.node ⟨⟨1, 11⟩, .Up, 89⟩ [])]), (.node ⟨⟨1, 10⟩, .Down, 87⟩ [(.node ⟨⟨1, 10⟩, .Up, 87⟩ [])]), (.node ⟨⟨1, 9⟩, .Up, 81⟩ [])]), (.node ⟨⟨8, 10⟩, .Left, 114⟩ [(.node ⟨⟨10, 10⟩, .Left, 123⟩ [(.node ⟨⟨11, 10⟩, .Left, 130⟩ [(.node ⟨⟨11, 10⟩, .Right, 130⟩ [])]), (.node ⟨⟨10, 10⟩, .Right, 123⟩ [])]), (.node ⟨⟨9, 10⟩, .Left, 118⟩ [(.node ⟨⟨9, 10⟩, .Right, 118⟩ [])]), (.node ⟨⟨8, 10⟩, .Right, 114⟩ [])]), (.node ⟨⟨1, 4⟩, .Right, 97⟩ [(.node ⟨⟨0, 4⟩, .Right, 101⟩ [(.node ⟨⟨0, 4⟩, .Left, 101⟩ [])]), (.node ⟨⟨1, 4⟩, .Left, 97⟩ [])]), (.node ⟨⟨6, 8⟩, .Right, 103⟩ [(.node ⟨⟨5, 3⟩, .Up, 100⟩ [(.node ⟨⟨5, 1⟩, .Up, 107⟩ [(.node ⟨⟨5, 0⟩, .Up, 108⟩ [(.node ⟨⟨5, 0⟩, .Down, 108⟩ [])]), (.node ⟨⟨5, 1⟩, .Down, 107⟩ [])]), (.node ⟨⟨5, 2⟩, .Up, 103⟩ [(.node ⟨⟨5, 2⟩, .Down, 103⟩ [])]), (.node ⟨⟨5, 3⟩, .Down, 100⟩ [])]), (.node ⟨⟨3, 7⟩, .Right, 100⟩ [(.node ⟨⟨1, 7⟩, .Right, 111⟩ [(.node ⟨⟨0, 7⟩, .Right, 114⟩ [(.node ⟨⟨0, 7⟩, .Left, 114⟩ [])]), (.node ⟨⟨1, 7⟩, .Left, 111⟩ [])]), (.node ⟨⟨2, 7⟩, .Right, 106⟩ [(.node ⟨⟨2, 7⟩, .Left, 106⟩ [])]), (.node ⟨⟨3, 7⟩, .Left, 100⟩ [])]), (.node ⟨⟨6, 8⟩, .Left, 103⟩ [])]), (.node ⟨⟨5, 5⟩, .Up, 87⟩ [(.node ⟨⟨5, 4⟩, .Up, 92⟩ [(.node ⟨⟨5, 4⟩, .Down, 92⟩ [])]), (.node ⟨⟨5, 5⟩, .Down, 87⟩ [])]), (.node ⟨⟨3, 4⟩, .Right, 91⟩ [(.node ⟨⟨2, 4⟩, .Right, 93⟩ [(.node ⟨⟨2, 4⟩, .Left, 93⟩ [])]), (.node ⟨⟨3, 4⟩, .Left, 91⟩ [])]), (.node ⟨⟨4, 4⟩, .Right, 86⟩ [(.node ⟨⟨4, 4⟩, .Left, 86⟩ [])]), (.node ⟨⟨5, 4⟩, .Left, 80⟩ [])]), (.node ⟨⟨8, 0⟩, .Up, 78⟩ [(.node ⟨⟨12, 5⟩, .Left, 88⟩ [(.node ⟨⟨12, 5⟩, .Right, 88⟩ [])]), (.node ⟨⟨8, 8⟩, .Down, 89⟩ [(.node ⟨⟨8, 8⟩, .Up, 89⟩ [])]), (.node ⟨⟨1, 6⟩, .Right, 93⟩ [(.node ⟨⟨0, 6⟩, .Right, 95⟩ [(.node ⟨⟨0, 6⟩, .Left, 95⟩ [])]), (.node ⟨⟨1, 6⟩, .Left, 93⟩ [])]), (.node ⟨⟨8, 0⟩, .Down, 78⟩ [])]), (.node ⟨⟨5, 11⟩, .Down, 84⟩ [(.node ⟨⟨10, 10⟩, .Left, 105⟩ [(.node ⟨⟨4, 8⟩, .Up, 103⟩ [(.node ⟨⟨4, 8⟩, .Down, 103⟩ [])]), (.node ⟨⟨11, 10⟩, .Left, 112⟩ [(.node ⟨⟨12, 10⟩, .Left, 117⟩ [(.node ⟨⟨12, 10⟩, .Right, 117⟩ [])]), (.node ⟨⟨11, 10⟩, .Right, 112⟩ [])]), (.node ⟨⟨4, 5⟩, .Up, 123⟩ [(.node ⟨⟨4, 3⟩, .Up, 135⟩ [(.node ⟨⟨4, 2⟩, .Up, 139⟩ [(.node ⟨⟨4, 2⟩, .Down, 139⟩ [])]), (.node ⟨⟨4, 3⟩, .Down, 135⟩ [])]), (.node ⟨⟨4, 4⟩, .Up, 129⟩ [(.node ⟨⟨4, 4⟩, .Down, 129⟩ [])]), (.node ⟨⟨4, 5⟩, .Down, 123⟩ [])]), (.node ⟨⟨10, 10⟩, .Right, 105⟩ [])]), (.node ⟨⟨11, 12⟩, .Left, 91⟩ [(.node ⟨⟨0, 11⟩, .Right, 80⟩ [(.node ⟨⟨1, 9⟩, .Right, 96⟩ [(.node ⟨⟨0, 9⟩, .Right, 97⟩ [(.node ⟨⟨0, 9⟩, .Left, 97⟩ [])]), (.node ⟨⟨1, 9⟩, .Left, 96⟩ [])]), (.node ⟨⟨7, 4⟩, .Up, 94⟩ [(.node ⟨⟨7, 3⟩, .Up, 101⟩ [(.node ⟨⟨7, 2⟩, .Up, 104⟩ [(.node ⟨⟨7, 2⟩, .Down, 104⟩ [])]), (.node ⟨⟨7, 3⟩, .Down, 101⟩ [])]), (.node ⟨⟨1, 6⟩, .Right, 103⟩ [(.node ⟨⟨0, 6⟩, .Right, 105⟩ [(.node ⟨⟨0, 6⟩, .Left, 105⟩ [])]), (.node ⟨⟨1, 6⟩, .Left, 103⟩ [])]), (.node ⟨⟨7, 4⟩, .Down, 94⟩ [])]), (.node ⟨⟨8, 11⟩, .Left, 90⟩ [(.node ⟨⟨8, 10⟩, .Down, 96⟩ [(.node ⟨⟨8, 1⟩, .Up, 95⟩ [(.node ⟨⟨8, 0⟩, .Up, 99⟩ [(.node ⟨⟨8, 0⟩, .Down, 99⟩ [])]), (.node ⟨⟨8, 1⟩, .Down, 95⟩ [])]), (.node ⟨⟨8, 10⟩, .Up, 96⟩ [])]), (.node ⟨⟨8, 11⟩, .Down, 104⟩ [(.node ⟨⟨8, 12⟩, .Down, 111⟩ [(.node ⟨⟨8, 12⟩, .Up, 111⟩ [])]), (.node ⟨⟨8, 11⟩, .Up, 104⟩ [])]), (.node ⟨⟨8, 11⟩, .Right, 90⟩ [])]), (.node ⟨⟨9, 11⟩, .Left, 95⟩ [(.node ⟨⟨11, 11⟩, .Left, 104⟩ [(.node ⟨⟨12, 11⟩, .Left, 107⟩ [(.node ⟨⟨12, 11⟩, .Right, 107⟩ [])]), (.node ⟨⟨11, 11⟩, .Right, 104⟩ [])]), (.node ⟨⟨10, 11⟩, .Left, 101⟩ [(.node ⟨⟨10, 11⟩, .Right, 101⟩ [])]), (.node ⟨⟨9, 11⟩, .Right, 95⟩ [])]), (.node ⟨⟨0, 11⟩, .Left, 80⟩ [])]), (.node ⟨⟨1, 4⟩, .Down, 75⟩ [(.node ⟨⟨3, 8⟩, .Down, 94⟩ [(.node ⟨⟨3, 8⟩, .Up, 94⟩ [])]), (.node ⟨⟨1, 7⟩, .Down, 88⟩ [(.node ⟨⟨1, 9⟩, .Down, 96⟩ [(.node ⟨⟨1, 10⟩, .Down, 102⟩ [(.node ⟨⟨1, 10⟩, .Up, 102⟩ [])]), (.node ⟨⟨1, 9⟩, .Up, 96⟩ [])]), (.node ⟨⟨1, 8⟩, .Down, 91⟩ [(.node ⟨⟨1, 8⟩, .Up, 91⟩ [])]), (.node ⟨⟨1, 7⟩, .Up, 88⟩ [])]), (.node ⟨⟨1, 5⟩, .Down, 80⟩ [(.node ⟨⟨1, 6⟩, .Down, 83⟩ [(.node ⟨⟨1, 6⟩, .Up, 83⟩ [])]), (.node ⟨⟨1, 5⟩, .Up, 80⟩ [])]), (.node ⟨⟨9, 3⟩, .Up, 122⟩ [(.node ⟨⟨9, 1⟩, .Up, 133⟩ [(.node ⟨⟨9, 0⟩, .Up, 137⟩ [(.node ⟨⟨9, 0⟩, .Down, 137⟩ [])]), (.node ⟨⟨9, 1⟩, .Down, 133⟩ [])]), (.node ⟨⟨9, 2⟩, .Up, 128⟩ [(.node ⟨⟨9, 2⟩, .Down, 128⟩ [])]), (.node ⟨⟨9, 3⟩, .Down, 122⟩ [])]), (.node ⟨⟨1, 4⟩, .Up, 75⟩ [])]), (.node ⟨⟨11, 12⟩, .Left, 103⟩ [(.node ⟨⟨2, 12⟩, .Right, 98⟩ [(.node ⟨⟨2, 12⟩, .Left, 98⟩ [])]), (.node ⟨⟨12, 12⟩, .Left, 106⟩ [(.node ⟨⟨12, 12⟩, .Right, 106⟩ [])]), (.node ⟨⟨11, 12⟩, .Right, 103⟩ [])]), (.node ⟨⟨11, 9⟩, .Down, 108⟩ [(.node ⟨⟨9, 5⟩, .Up, 112⟩ [(.node ⟨⟨9, 4⟩, .Up, 118⟩ [(.node ⟨⟨9, 4⟩, .Down, 118⟩ [])]), (.node ⟨⟨9, 5⟩, .Down, 112⟩ [])]), (.node ⟨⟨11, 11⟩, .Down, 118⟩ [(.node ⟨⟨11, 12⟩, .Down, 123⟩ [(.node ⟨⟨11, 12⟩, .Up, 123⟩ [])]), (.node ⟨⟨11, 11⟩, .Up, 118⟩ [])]), (.node ⟨⟨11, 10⟩, .Down, 115⟩ [(.node ⟨⟨11, 10⟩, .Up, 115⟩ [])]), (.node ⟨⟨11, 9⟩, .Up, 108⟩ [])]), (.node ⟨⟨6, 0⟩, .Left, 77⟩ [(.node ⟨⟨7, 0⟩, .Left, 80⟩ [(.node ⟨⟨7, 0⟩, .Right, 80⟩ [])]), (.node ⟨⟨6, 0⟩, .Right, 77⟩ [])]), (.node ⟨⟨3, 8⟩, .Right, 102⟩ [(.node ⟨⟨1, 8⟩, .Right, 110⟩ [(.node ⟨⟨0, 8⟩, .Right, 111⟩ [(.node ⟨⟨0, 8⟩, .Left, 111⟩ [])]), (.node ⟨⟨1, 8⟩, .Left, 110⟩ [])]), (.node ⟨⟨2, 8⟩, .Right, 107⟩ [(.node ⟨⟨2, 8⟩, .Left, 107⟩ [])]), (.node ⟨⟨3, 8⟩, .Left, 102⟩ [])]), (.node ⟨⟨11, 8⟩, .Left, 105⟩ [(.node ⟨⟨12, 8⟩, .Left, 110⟩ [(.node ⟨⟨12, 8⟩, .Right, 110⟩ [])]), (.node ⟨⟨11, 8⟩, .Right, 105⟩ [])]), (.node ⟨⟨0, 5⟩, .Up, 87⟩ [(.node ⟨⟨0, 3⟩, .Up, 94⟩ [(.node ⟨⟨0, 2⟩, .Up, 95⟩ [(.node ⟨⟨0, 2⟩, .Down, 95⟩ [])]), (.node ⟨⟨0, 3⟩, .Down, 94⟩ [])]), (.node ⟨⟨0, 4⟩, .Up, 91⟩ [(.node ⟨⟨0, 4⟩, .Down, 91⟩ [])]), (.node ⟨⟨0, 5⟩, .Down, 87⟩ [])]), (.node ⟨⟨0, 7⟩, .Up, 82⟩ [(.node ⟨⟨0, 6⟩, .Up, 84⟩ [(.node ⟨⟨0, 6⟩, .Down, 84⟩ [])]), (.node ⟨⟨0, 7⟩, .Down, 82⟩ [])]), (.node ⟨⟨0, 8⟩, .Up, 79⟩ [(.node ⟨⟨0, 8⟩, .Down, 79⟩ [])]), (.node ⟨⟨7, 10⟩, .Down, 89⟩ [(.node ⟨⟨7, 2⟩, .Up, 83⟩ [(.node ⟨⟨7, 2⟩, .Down, 83⟩ [])]), (.node ⟨⟨7, 1⟩, .Up, 89⟩ [(.node ⟨⟨7, 0⟩, .Up, 92⟩ [(.node ⟨⟨7, 0⟩, .Down, 92⟩ [])]), (.node ⟨⟨7, 1⟩, .Down, 89⟩ [])]), (.node ⟨⟨7, 10⟩, .Up, 89⟩ [])]), (.node ⟨⟨3, 9⟩, .Right, 125⟩ [(.node ⟨⟨1, 9⟩, .Right, 134⟩ [(.node ⟨⟨0, 9⟩, .Right, 135⟩ [(.node ⟨⟨0, 9⟩, .Left, 135⟩ [])]), (.node ⟨⟨1, 9⟩, .Left, 134⟩ [])]), (.node ⟨⟨2, 9⟩, .Right, 129⟩ [(.node ⟨⟨2, 9⟩, .Left, 129⟩ [])]), (.node ⟨⟨3, 9⟩, .Left, 125⟩ [])]), (.node ⟨⟨12, 12⟩, .Left, 94⟩ [(.node ⟨⟨12, 12⟩, .Right, 94⟩ [])]), (.node ⟨⟨11, 12⟩, .Right, 91⟩ [])]), (.node ⟨⟨10, 3⟩, .Up, 122⟩ [(.node ⟨⟨10, 1⟩, .Up, 126⟩ [(.node ⟨⟨10, 0⟩, .Up, 127⟩ [(.node ⟨⟨10, 0⟩, .Down, 127⟩ [])]), (.node ⟨⟨10, 1⟩, .Down, 126⟩ [])]), (.node ⟨⟨10, 2⟩, .Up, 124⟩ [(.node ⟨⟨10, 2⟩, .Down, 124⟩ [])]), (.node ⟨⟨10, 3⟩, .Down, 122⟩ [])]), (.node ⟨⟨4, 4⟩, .Up, 81⟩ [(.node ⟨⟨4, 4⟩, .Down, 81⟩ [])]), (.node ⟨⟨5, 12⟩, .Down, 88⟩ [(.node ⟨⟨5, 12⟩, .Up, 88⟩ [])]), (.node ⟨⟨5, 11⟩, .Up, 84⟩ [])]), (.node ⟨⟨3, 5⟩, .Right, 91⟩ [(.node ⟨⟨2, 5⟩, .Right, 95⟩ [(.node ⟨⟨2, 5⟩, .Left, 95⟩ [])]), (.node ⟨⟨3, 5⟩, .Left, 91⟩ [])]), (.node ⟨⟨6, 1⟩, .Up, 77⟩ [(.node ⟨⟨3, 5⟩, .Right, 81⟩ [(.node ⟨⟨1, 5⟩, .Right, 90⟩ [(.node ⟨⟨0, 5⟩, .Right, 93⟩ [(.node ⟨⟨0, 5⟩, .Left, 93⟩ [])]), (.node ⟨⟨1, 5⟩, .Left, 90⟩ [])]), (.node ⟨⟨2, 5⟩, .Right, 85⟩ [(.node ⟨⟨2, 5⟩, .Left, 85⟩ [])]), (.node ⟨⟨3, 5⟩, .Left, 81⟩ [])]), (.node ⟨⟨6, 0⟩, .Up, 81⟩ [(.node ⟨⟨6, 0⟩, .Down, 81⟩ [])]), (.node ⟨⟨6, 1⟩, .Down, 77⟩ [])]), (.node ⟨⟨6, 11⟩, .Down, 96⟩ [(.node ⟨⟨6, 12⟩, .Down, 102⟩ [(.node ⟨⟨6, 12⟩, .Up, 102⟩ [])]), (.node ⟨⟨6, 11⟩, .Up, 96⟩ [])]), (.node ⟨⟨6, 10⟩, .Down, 90⟩ [(.node ⟨⟨6, 10⟩, .Up, 90⟩ [])]), (.node ⟨⟨6, 9⟩, .Up, 83⟩ [])])

end day17

namespace day14

/-- The cell enum of day_14.rs. -/
inductive Rock
  | Round
  | Cube
  | Empty
deriving DecidableEq, Repr

/-- A rock with its coordinates, `Position` of day_14.rs (fields `row`,
`col`, `rock`). -/
structure Position where
  row : Nat
  col : Nat
  rock : Rock
deriving DecidableEq, Repr

/-- Sort key of `tilt_north`/`tilt_south` (`sort_unstable_by_key(row)`). -/
def byRow (p q : Position) : Prop := p.row ≤ q.row

/-- Sort key of `tilt_west`/`tilt_east` (`sort_unstable_by_key(col)`). -/
def byCol (p q : Position) : Prop := p.col ≤ q.col

/-- Sort key of the `part_2` main loop
(`sort_unstable_by_key(|p| (p.row, p.col))`, lexicographic). -/
def byRowCol (p q : Position) : Prop :=
  p.row < q.row ∨ (p.row = q.row ∧ p.col ≤ q.col)

instance : DecidableRel byRow := fun p q => inferInstanceAs (Decidable (p.row ≤ q.row))

instance : DecidableRel byCol := fun p q => inferInstanceAs (Decidable (p.col ≤ q.col))

instance : DecidableRel byRowCol := fun p q =>
  inferInstanceAs (Decidable (p.row < q.row ∨ (p.row = q.row ∧ p.col ≤ q.col)))

instance : IsTotal Position byRow := ⟨fun a b => Nat.le_total a.row b.row⟩

instance : IsTrans Position byRow := ⟨fun _ _ _ h1 h2 => Nat.le_trans h1 h2⟩

instance : IsTotal Position byCol := ⟨fun a b => Nat.le_total a.col b.col⟩

instance : IsTrans Position byCol := ⟨fun _ _ _ h1 h2 => Nat.le_trans h1 h2⟩

instance : IsTotal Position byRowCol :=
  ⟨fun a b => by unfold byRowCol; omega⟩

instance : IsTrans Position byRowCol :=
  ⟨fun a b c h1 h2 => by unfold byRowCol at *; omega⟩

/-- Point update of an offsets table (`offsets[i] = v`); the `vec![..]`
offset arrays of the tilt functions are modelled as functions from index
to value, which keeps updates at distinct indices commutative by
construction. -/
def updateF (f : Nat → Nat) (i v : Nat) : Nat → Nat :=
  fun j => if i = j then v else f j

/-- The `map` body of `tilt_north` (day_14.rs lines 97-108) over the
row-sorted positions: a cube at row `r` resets its column's offset to
`r + 1`; a round rock lands at its column's offset, which then advances. -/
def tiltNorthGo (off : Nat → Nat) : List Position → List Position
  | [] => []
  | p :: rest =>
    match p.rock with
    | .Cube => p :: tiltNorthGo (updateF off p.col (p.row + 1)) rest
    | .Round =>
      { row := off p.col, col := p.col, rock := .Round } ::
        tiltNorthGo (updateF off p.col (off p.col + 1)) rest
    | .Empty => p :: tiltNorthGo off rest

/-- `tilt_north` of day_14.rs (lines 91-109); `height`/`width` appear only
in the source's `debug_assert`. -/
def tilt_north (positions : List Position) (_height _width : Nat) : List Position :=
  tiltNorthGo (fun _ => 0) (List.insertionSort byRow positions)

/-- The `map` body of `tilt_south` (day_14.rs lines 118-128) over the
row-descending positions: a cube at row `r` resets its column's offset to
`r`; a round rock's column offset retreats and the rock lands on it. -/
def tiltSouthGo (off : Nat → Nat) : List Position → List Position
  | [] => []
  | p :: rest =>
    match p.rock with
    | .Cube => p :: tiltSouthGo (updateF off p.col p.row) rest
    | .Round =>
      { row := off p.col - 1, col := p.col, rock := .Round } ::
        tiltSouthGo (updateF off p.col (off p.col - 1)) rest
    | .Empty => p :: tiltSouthGo off rest

/-- `tilt_south` of day_14.rs (lines 111-130): sort by row, reverse, run
with offsets initialised to `height`. -/
def tilt_south (positions : List Position) (height _width : Nat) : List Position :=
  tiltSouthGo (fun _ => height) (List.insertionSort byRow positions).reverse

/-- The `map` body of `tilt_west` (day_14.rs lines 138-148), the row/column
mirror of `tiltNorthGo`. -/
def tiltWestGo (off : Nat → Nat) : List Position → List Position
  | [] => []
  | p :: rest =>
    match p.rock with
    | .Cube => p :: tiltWestGo (updateF off p.row (p.col + 1)) rest
    | .Round =>
      { row := p.row, col := off p.row, rock := .Round } ::
        tiltWestGo (updateF off p.row (off p.row + 1)) rest
    | .Empty => p :: tiltWestGo off rest

/-- `tilt_west` of day_14.rs (lines 132-150). -/
def tilt_west (positions : List Position) (_height _width : Nat) : List Position :=
  tiltWestGo (fun _ => 0) (List.insertionSort byCol positions)

/-- The `map` body of `tilt_east` (day_14.rs lines 159-169), the row/column
mirror of `tiltSouthGo`. -/
def tiltEastGo (off : Nat → Nat) : List Position → List Position
  | [] => []
  | p :: rest =>
    match p.rock with
    | .Cube => p :: tiltEastGo (updateF off p.row p.col) rest
    | .Round =>
      { row := p.row, col := off p.row - 1, rock := .Round } ::
        tiltEastGo (updateF off p.row (off p.row - 1)) rest
    | .Empty => p :: tiltEastGo off rest

/-- `tilt_east` of day_14.rs (lines 152-171). -/
def tilt_east (positions : List Position) (_height width : Nat) : List Position :=
  tiltEastGo (fun _ => width) (List.insertionSort byCol positions).reverse

/-- `cycle_directions` of day_14.rs (lines 173-179): north, west, south,
east. -/
def cycle_directions (positions : List Position) (height width : Nat) : List Position :=
  tilt_east (tilt_south (tilt_west (tilt_north positions height width)
    height width) height width) height width

/-- `get_north_load` of day_14.rs (lines 181-188). -/
def get_north_load (positions : List Position) (height : Nat) : Nat :=
  (positions.map (fun p =>
    match p.rock with
    | .Round => height - p.row
    | _ => 0)).sum

/-- The main-loop canonicalising sort of `part_2` (day_14.rs line 83). -/
def sortPositions (l : List Position) : List Position :=
  List.insertionSort byRowCol l

/-- One iteration of the `part_2` main loop applied to a snapshot: spin
cycle, then sort by (row, col). -/
def canonStep (height width : Nat) (ps : List Position) : List Position :=
  sortPositions (cycle_directions ps height width)

/-- The snapshot after `k` main-loop iterations from `p0`. -/
def stepAt (height width : Nat) (p0 : List Position) (k : Nat) : List Position :=
  (canonStep height width)^[k] p0

/-- Plain repeated `cycle_directions`, the claim's brute-force comparand. -/
def directSim (height width n : Nat) (p0 : List Position) : List Position :=
  (fun ps => cycle_directions ps height width)^[n] p0

/-- The `HashMap<Vec<Position>, usize>` of `part_2`, modelled as an
association list (keys are pairwise distinct snapshots, so the scan order
is irrelevant). -/
def lookupSteps (ps : List Position) : List (List Position × Nat) → Option Nat
  | [] => none
  | (key, step) :: rest => if key = ps then some step else lookupSteps ps rest

/-- The `for cycle in 0..target` loop of `part_2` (day_14.rs lines 74-85),
with the loop bound `1_000_000_000` generalised to `target` (it occurs both
as iteration count and in the fast-forward remainder): on the first
repeated snapshot, fast-forward by `(target - cycle) % cycle_length` raw
`cycle_directions` steps (no sorting, exactly as the source's inner `for`)
and stop; otherwise record the snapshot, spin and sort.  `fuel` counts the
remaining loop iterations, starting at `target`. -/
def part2Go (height width target : Nat) :
    Nat → List (List Position × Nat) → Nat → List Position → List Position
  | 0, _, _, ps => ps
  | fuel + 1, table, cycle, ps =>
    match lookupSteps ps table with
    | some previous_cycle =>
      (fun x => cycle_directions x height width)^[(target - cycle) % (cycle - previous_cycle)] ps
    | none =>
      part2Go height width target fuel ((ps, cycle) :: table) (cycle + 1)
        (sortPositions (cycle_directions ps height width))

/-- The `part_2` simulation from an initial snapshot. -/
def part2Sim (height width target : Nat) (p0 : List Position) : List Position :=
  part2Go height width target target [] 0 p0

/-- The day-14 puzzle structure: the grid rows. -/
structure Puzzle where
  lines : List (List Rock)
deriving DecidableEq, Repr

/-- The position extraction of `part_2` (day_14.rs lines 65-70): all cells
in row-major order, `Empty` cells dropped. -/
def initialPositions (lines : List (List Rock)) : List Position :=
  (lines.enum.flatMap (fun rl =>
    rl.2.enum.map (fun cr => { row := rl.1, col := cr.1, rock := cr.2 }))).filter
    (fun p => p.rock != Rock.Empty)

/-- `Puzzle::part_2` of day_14.rs (lines 64-88). -/
def Puzzle.part_2 (p : Puzzle) : String :=
  let height := p.lines.length
  let width := (p.lines.headD []).length
  toString (get_north_load
    (part2Sim height width 1000000000 (initialPositions p.lines)) height)

/-- The 10x10 day-14 example grid, exactly the structure asserted by the
`new` test of day_14.rs (lines 208-220). -/
def examplePuzzle : Puzzle :=
  { lines :=
      [ [.Round, .Empty, .Empty, .Empty, .Empty, .Cube, .Empty, .Empty, .Empty, .Empty]
      , [.Round, .Empty, .Round, .Round, .Cube, .Empty, .Empty, .Empty, .Empty, .Cube]
      , [.Empty, .Empty, .Empty, .Empty, .Empty, .Cube, .Cube, .Empty, .Empty, .Empty]
      , [.Round, .Round, .Empty, .Cube, .Round, .Empty, .Empty, .Empty, .Empty, .Round]
      , [.Empty, .Round, .Empty, .Empty, .Empty, .Empty, .Empty, .Round, .Cube, .Empty]
      , [.Round, .Empty, .Cube, .Empty, .Empty, .Round, .Empty, .Cube, .Empty, .Cube]
      , [.Empty, .Empty, .Round, .Empty, .Empty, .Cube, .Round, .Empty, .Empty, .Round]
      , [.Empty, .Empty, .Empty, .Empty, .Empty, .Empty, .Empty, .Round, .Empty, .Empty]
      , [.Cube, .Empty, .Empty, .Empty, .Empty, .Cube, .Cube, .Cube, .Empty, .Empty]
      , [.Cube, .Round, .Round, .Empty, .Empty, .Cube, .Empty, .Empty, .Empty, .Empty] ] }

/-- The entries of one column, in order (used to analyse the tilts one
offset cell at a time). -/
def filterCol (c : Nat) (l : List Position) : List Position :=
  l.filter (fun p => p.col == c)

/-- The entries of one row, in order. -/
def filterRow (r : Nat) (l : List Position) : List Position :=
  l.filter (fun p => p.row == r)

/-- `tiltNorthGo` restricted to a single column: the offsets table
collapses to the single counter `s`. -/
def tiltNorthColGo (s : Nat) : List Position → List Position
  | [] => []
  | p :: rest =>
    match p.rock with
    | .Cube => p :: tiltNorthColGo (p.row + 1) rest
    | .Round => { row := s, col := p.col, rock := .Round } :: tiltNorthColGo (s + 1) rest
    | .Empty => p :: tiltNorthColGo s rest

/-- `tiltSouthGo` restricted to a single column. -/
def tiltSouthColGo (s : Nat) : List Position → List Position
  | [] => []
  | p :: rest =>
    match p.rock with
    | .Cube => p :: tiltSouthColGo p.row rest
    | .Round => { row := s - 1, col := p.col, rock := .Round } :: tiltSouthColGo (s - 1) rest
    | .Empty => p :: tiltSouthColGo s rest

/-- `tiltWestGo` restricted to a single row. -/
def tiltWestRowGo (s : Nat) : List Position → List Position
  | [] => []
  | p :: rest =>
    match p.rock with
    | .Cube => p :: tiltWestRowGo (p.col + 1) rest
    | .Round => { row := p.row, col := s, rock := .Round } :: tiltWestRowGo (s + 1) rest
    | .Empty => p :: tiltWestRowGo s rest

/-- `tiltEastGo` restricted to a single row. -/
def tiltEastRowGo (s : Nat) : List Position → List Position
  | [] => []
  | p :: rest =>
    match p.rock with
    | .Cube => p :: tiltEastRowGo p.col rest
    | .Round => { row := p.row, col := s - 1, rock := .Round } :: tiltEastRowGo (s - 1) rest
    | .Empty => p :: tiltEastRowGo s rest

/-- Cells are pairwise distinct (two entries never share both row and
column), as holds for every grid-derived snapshot. -/
def distinctCells (l : List Position) : Prop :=
  l.Pairwise (fun p q => p.row ≠ q.row ∨ p.col ≠ q.col)

/-- No `Empty` entry (the `part_2` extraction filters them out). -/
def noEmptyRocks (l : List Position) : Prop :=
  ∀ p ∈ l, p.rock ≠ Rock.Empty

/-- All entries lie inside the grid. -/
def inBoundsPos (height width : Nat) (l : List Position) : Prop :=
  ∀ p ∈ l, p.row < height ∧ p.col < width

/-- Validity of a snapshot: pairwise distinct cells, no `Empty` entries,
everything inside the grid.  Holds for the `part_2` extraction of any
parsed grid and is preserved by the spin cycle. -/
def validPos (height width : Nat) (l : List Position) : Prop :=
  distinctCells l ∧ noEmptyRocks l ∧ inBoundsPos height width l

instance (l : List Position) : Decidable (distinctCells l) :=
  inferInstanceAs (Decidable (l.Pairwise _))

instance (l : List Position) : Decidable (noEmptyRocks l) :=
  inferInstanceAs (Decidable (∀ p ∈ l, p.rock ≠ Rock.Empty))

instance (height width : Nat) (l : List Position) : Decidable (inBoundsPos height width l) :=
  inferInstanceAs (Decidable (∀ p ∈ l, p.row < height ∧ p.col < width))

instance (height width : Nat) (l : List Position) : Decidable (validPos height width l) :=
  inferInstanceAs (Decidable
    (distinctCells l ∧ noEmptyRocks l ∧ inBoundsPos height width l))

/-- The lookup table contents after `k` loop iterations of `part_2`: the
snapshots `0..k`, newest first. -/
def tableOf (height width : Nat) (p0 : List Position) : Nat → List (List Position × Nat)
  | 0 => []
  | k + 1 => (stepAt height width p0 k, k) :: tableOf height width p0 k

end day14

namespace puzzleLib

/-- Model of a nom parser `&str -> IResult<&str, A>`: `some (rest, value)`
on success, `none` for `Err(ParseError)` (the error detail is not
inspected by any caller in the source, only propagated). -/
def Parser (α : Type) : Type :=
  List Char → Option (List Char × α)

/-- nom `character::complete::line_ending`: matches "\n" or "\r\n". -/
def line_ending : Parser (List Char) := fun input =>
  match input with
  | '\n' :: rest => some (rest, ['\n'])
  | '\r' :: '\n' :: rest => some (rest, ['\r', '\n'])
  | _ => none

/-- nom `character::complete::digit1`: one or more ASCII digits. -/
def digit1 : Parser (List Char) := fun input =>
  let digits := input.takeWhile (fun c => c.isDigit)
  if digits.isEmpty then none
  else some (input.drop digits.length, digits)

/-- The iteration of nom `multi::separated_list1` after the first element:
try separator then element; stop (without consuming the separator) when
either fails.  `fuel` bounds the number of iterations (the input length
suffices for the separators/items used here, which always consume). -/
def sepGo {α β : Type} (sep : Parser β) (item : Parser α) :
    Nat → List Char → List α → List Char × List α
  | 0, input, acc => (input, acc)
  | fuel + 1, input, acc =>
    match sep input with
    | none => (input, acc)
    | some (rest2, _) =>
      match item rest2 with
      | none => (input, acc)
      | some (rest3, b) => sepGo sep item fuel rest3 (acc ++ [b])

/-- nom `multi::separated_list1`: one element, then separator-prefixed
elements while both succeed; fails only if the first element fails. -/
def separatedList1 {α β : Type} (sep : Parser β) (item : Parser α) : Parser (List α) :=
  fun input =>
    match item input with
    | none => none
    | some (rest, a) => some (sepGo sep item input.length rest [a])

/-- nom `sequence::terminated`. -/
def terminatedBy {α β : Type} (p : Parser α) (q : Parser β) : Parser α := fun input =>
  match p input with
  | none => none
  | some (rest, a) =>
    match q rest with
    | none => none
    | some (rest2, _) => some (rest2, a)

/-- The default `PuzzleBase::new` of lib.rs (lines 8-12):
`terminated(Self::parse, line_ending).parse(data).unwrap().1`.  The
`unwrap` panic on a parse error is the fatal outcome, modelled as `none`:
no puzzle value, no partial result. -/
def newDefault {α : Type} (p : Parser α) (data : List Char) : Option α :=
  (terminatedBy p line_ending data).map (fun x => x.2)

/-- The overridden `new` used by day_04.rs through day_07.rs and others:
`Puzzle::parse(data).unwrap().1` (same fatal `unwrap`, no trailing
line-ending requirement). -/
def newFromParse {α : Type} (p : Parser α) (data : List Char) : Option α :=
  (p data).map (fun x => x.2)

/-- The day-17 grid parser (day_17.rs lines 18-32):
`separated_list1(line_ending, digit1)` with each digit character converted
by `to_digit(10)`. -/
def day17parseChars : Parser day17.Puzzle := fun input =>
  (separatedList1 line_ending digit1 input).map
    (fun x => (x.1, ⟨x.2.map (fun line => line.map (fun c => c.toNat - 48))⟩))

end puzzleLib

namespace day05

theorem sumLengths_perm {l₁ l₂ : List Slice} (h : l₁.Perm l₂) :
    sumLengths l₁ = sumLengths l₂ := by
  induction h with
  | nil => rfl
  | cons x _ ih => simp [sumLengths, ih]
  | swap x y l => simp [sumLengths]; omega
  | trans _ _ ih₁ ih₂ => omega

theorem advanceRanges_eq_append (s : Nat) (l : List Range) :
    ∃ u, l = u ++ advanceRanges s l ∧
      ∀ r ∈ u, ¬(s < r.source_start ∨ s - r.source_start < r.length) := by
  induction l with
  | nil => exact ⟨[], rfl, by simp⟩
  | cons r rest ih =>
    by_cases h : s < r.source_start ∨ s - r.source_start < r.length
    · exact ⟨[], by simp [advanceRanges, h], by simp⟩
    · obtain ⟨u, hu1, hu2⟩ := ih
      refine ⟨r :: u, ?_, ?_⟩
      · simpa [advanceRanges, h] using hu1
      · intro r' hr'
        rcases List.mem_cons.mp hr' with h' | h'
        · exact h' ▸ h
        · exact hu2 r' h'

theorem advanceRanges_head {s : Nat} {l tl : List Range} {r : Range}
    (h : advanceRanges s l = r :: tl) :
    s < r.source_start ∨ s - r.source_start < r.length := by
  induction l with
  | nil => simp [advanceRanges] at h
  | cons a rest ih =>
    by_cases hc : s < a.source_start ∨ s - a.source_start < a.length
    · simp only [advanceRanges, if_pos hc, List.cons.injEq] at h
      exact h.1 ▸ hc
    · simp only [advanceRanges, if_neg hc] at h
      exact ih h

theorem mapRangesGo_of_no_match {s : Nat} {l : List Range}
    (h : ∀ r ∈ l, ¬(r.source_start ≤ s ∧ s - r.source_start < r.length)) :
    mapRangesGo l s = s := by
  induction l with
  | nil => rfl
  | cons r rest ih =>
    have hr := h r (by simp)
    simp only [mapRangesGo, if_neg hr]
    exact ih fun r' hr' => h r' (List.mem_cons_of_mem _ hr')

theorem mapRangesGo_append_skip {s : Nat} {u v : List Range}
    (h : ∀ r ∈ u, ¬(r.source_start ≤ s ∧ s - r.source_start < r.length)) :
    mapRangesGo (u ++ v) s = mapRangesGo v s := by
  induction u with
  | nil => rfl
  | cons r rest ih =>
    have hr := h r (by simp)
    simp only [List.cons_append, mapRangesGo, if_neg hr]
    exact ih fun r' hr' => h r' (List.mem_cons_of_mem _ hr')

theorem mapSlicesGo_sumLengths :
    ∀ (fuel : Nat) (ranges : List Range) (stack : List Slice),
      sliceMeasure stack ≤ fuel →
      sumLengths (mapSlicesGo fuel ranges stack) = sumLengths stack := by
  intro fuel
  induction fuel with
  | zero =>
    intro ranges stack h
    cases stack with
    | nil => rfl
    | cons s rest => simp [sliceMeasure] at h
  | succ fuel ih =>
    intro ranges stack h
    cases stack with
    | nil => rfl
    | cons slice rest =>
      simp only [sliceMeasure] at h
      rcases hadv : advanceRanges slice.start ranges with _ | ⟨range, tl⟩
      · simp only [mapSlicesGo, hadv, sumLengths]
        rw [ih [] rest (by omega)]
      · have hhead := advanceRanges_head hadv
        by_cases hlt : slice.start < range.source_start
        · have hm2 : non_matching_length slice range ≤ slice.length := Nat.min_le_left _ _
          by_cases hrem : non_matching_length slice range < slice.length
          · have hm1 : 0 < non_matching_length slice range :=
              lt_min (by omega) (by omega)
            simp only [mapSlicesGo, hadv, if_pos hlt, if_pos hrem, sumLengths]
            rw [ih (range :: tl) _ (by simp only [sliceMeasure]; omega)]
            simp only [sumLengths]
            omega
          · simp only [mapSlicesGo, hadv, if_pos hlt, if_neg hrem, sumLengths]
            rw [ih (range :: tl) rest (by omega)]
            omega
        · have hm2 : matching_length slice range ≤ slice.length := Nat.min_le_left _ _
          by_cases hrem : matching_length slice range < slice.length
          · have hm1 : 0 < matching_length slice range :=
              lt_min (by omega) (by omega)
            simp only [mapSlicesGo, hadv, if_neg hlt, if_pos hrem, sumLengths]
            rw [ih (range :: tl) _ (by simp only [sliceMeasure]; omega)]
            simp only [sumLengths]
            omega
          · simp only [mapSlicesGo, hadv, if_neg hlt, if_neg hrem, sumLengths]
            rw [ih (range :: tl) rest (by omega)]
            omega

theorem mapSlicesGo_pos_lengths :
    ∀ (fuel : Nat) (ranges : List Range) (stack : List Slice),
      sliceMeasure stack ≤ fuel →
      (∀ s ∈ stack, 0 < s.length) →
      ∀ t ∈ mapSlicesGo fuel ranges stack, 0 < t.length := by
  intro fuel
  induction fuel with
  | zero =>
    intro ranges stack h hpos t ht
    cases stack with
    | nil => simp [mapSlicesGo] at ht
    | cons s rest => simp [sliceMeasure] at h
  | succ fuel ih =>
    intro ranges stack h hpos t ht
    cases stack with
    | nil => simp [mapSlicesGo] at ht
    | cons slice rest =>
      simp only [sliceMeasure] at h
      have hslice : 0 < slice.length := hpos slice (by simp)
      have hrest : ∀ s ∈ rest, 0 < s.length :=
        fun s hs => hpos s (List.mem_cons_of_mem _ hs)
      rcases hadv : advanceRanges slice.start ranges with _ | ⟨range, tl⟩
      · simp only [mapSlicesGo, hadv, List.mem_cons] at ht
        rcases ht with rfl | ht
        · exact hslice
        · exact ih [] rest (by omega) hrest t ht
      · have hhead := advanceRanges_head hadv
        by_cases hlt : slice.start < range.source_start
        · have hm2 : non_matching_length slice range ≤ slice.length := Nat.min_le_left _ _
          have hm : 0 < non_matching_length slice range :=
            lt_min (by omega) (by omega)
          by_cases hrem : non_matching_length slice range < slice.length
          · simp only [mapSlicesGo, hadv, if_pos hlt, if_pos hrem, List.mem_cons] at ht
            rcases ht with rfl | ht
            · exact hm
            · refine ih (range :: tl) _
                (by simp only [sliceMeasure]; omega) ?_ t ht
              intro s hs
              rcases List.mem_cons.mp hs with rfl | hs
              · simpa using hrem
              · exact hrest s hs
          · simp only [mapSlicesGo, hadv, if_pos hlt, if_neg hrem, List.mem_cons] at ht
            rcases ht with rfl | ht
            · exact hm
            · exact ih (range :: tl) rest (by omega) hrest t ht
        · have hm2 : matching_length slice range ≤ slice.length := Nat.min_le_left _ _
          have hm : 0 < matching_length slice range :=
            lt_min (by omega) (by omega)
          by_cases hrem : matching_length slice range < slice.length
          · simp only [mapSlicesGo, hadv, if_neg hlt, if_pos hrem, List.mem_cons] at ht
            rcases ht with rfl | ht
            · exact hm
            · refine ih (range :: tl) _
                (by simp only [sliceMeasure]; omega) ?_ t ht
              intro s hs
              rcases List.mem_cons.mp hs with rfl | hs
              · simpa using hrem
              · exact hrest s hs
          · simp only [mapSlicesGo, hadv, if_neg hlt, if_neg hrem, List.mem_cons] at ht
            rcases ht with rfl | ht
            · exact hm
            · exact ih (range :: tl) rest (by omega) hrest t ht

theorem map_slices_singleton (m : Map)
    (hsorted : m.ranges.Pairwise (fun a b => a.source_start ≤ b.source_start))
    (s : Nat) :
    m.map_slices [{ start := s, length := 1 }] = [{ start := m.map s, length := 1 }] := by
  obtain ⟨u, hsplit, hu⟩ := advanceRanges_eq_append s m.ranges
  have hskip : ∀ r ∈ u, ¬(r.source_start ≤ s ∧ s - r.source_start < r.length) :=
    fun r hr hc => (not_or.mp (hu r hr)).2 hc.2
  have hmap : m.map s = mapRangesGo (advanceRanges s m.ranges) s := by
    rw [Map.map]
    conv_lhs => rw [hsplit]
    exact mapRangesGo_append_skip hskip
  have hsuffix : (advanceRanges s m.ranges).Pairwise
      (fun a b => a.source_start ≤ b.source_start) := by
    refine List.Pairwise.sublist ?_ hsorted
    conv_rhs => rw [hsplit]
    exact List.sublist_append_right u _
  show mapSlicesGo (sliceMeasure [{ start := s, length := 1 }]) m.ranges
      [{ start := s, length := 1 }] = _
  rcases hadv : advanceRanges s m.ranges with _ | ⟨range, tl⟩
  · rw [hadv] at hmap
    simp [mapSlicesGo, hadv, sliceMeasure, hmap, mapRangesGo]
  · rw [hadv] at hmap hsuffix
    have hhead := advanceRanges_head hadv
    by_cases hlt : s < range.source_start
    · have hm : non_matching_length { start := s, length := 1 } range = 1 :=
        Nat.min_eq_left (by simp only; omega)
      have htl : mapRangesGo tl s = s := by
        refine mapRangesGo_of_no_match fun r' hr' hc => ?_
        have := (List.pairwise_cons.mp hsuffix).1 r' hr'
        omega
      have hmapval : m.map s = s := by
        rw [hmap, mapRangesGo, if_neg (by omega), htl]
      simp [mapSlicesGo, hadv, sliceMeasure, hlt, hm, hmapval]
    · have hs2 : s - range.source_start < range.length := by
        rcases hhead with h | h
        · omega
        · exact h
      have hm : matching_length { start := s, length := 1 } range = 1 :=
        Nat.min_eq_left (by simp only; omega)
      have hmapval : m.map s = range.destination_start + (s - range.source_start) := by
        rw [hmap, mapRangesGo, if_pos ⟨by omega, hs2⟩, Nat.add_comm]
      simp [mapSlicesGo, hadv, sliceMeasure, hlt, hm, hmapval]

end day05

namespace day17

theorem goSteps_add_inl (grid : List (List Nat)) (lo hi height width : Nat) :
    ∀ (m n : Nat) (seen : SeenTree) (heap : Heap) (seen' : SeenTree) (heap' : Heap),
      goSteps grid lo hi height width m seen heap = .inl (seen', heap') →
      goSteps grid lo hi height width (m + n) seen heap =
        goSteps grid lo hi height width n seen' heap' := by
  intro m
  induction m with
  | zero =>
    intro n seen heap seen' heap' h
    simp only [goSteps, Sum.inl.injEq, Prod.mk.injEq] at h
    obtain ⟨rfl, rfl⟩ := h
    rw [Nat.zero_add]
  | succ m ih =>
    intro n seen heap seen' heap' h
    rw [Nat.succ_add]
    simp only [goSteps] at h ⊢
    rcases hpop : Heap.pop heap with _ | ⟨state, heap2⟩
    · rw [hpop] at h
      simp at h
    · rw [hpop] at h
      by_cases hm : SeenTree.member (sdKey state.position state.direction) seen = true
      · simp only [if_pos hm] at h ⊢
        exact ih n _ _ _ _ h
      · by_cases ht : state.position.row = height - 1 ∧ state.position.col = width - 1
        · simp only [if_neg hm, if_pos ht] at h
          simp at h
        · simp only [if_neg hm, if_neg ht] at h ⊢
          exact ih n _ _ _ _ h

theorem goSteps_add_inr (grid : List (List Nat)) (lo hi height width : Nat) :
    ∀ (m n : Nat) (seen : SeenTree) (heap : Heap) (v : Nat),
      goSteps grid lo hi height width m seen heap = .inr v →
      goSteps grid lo hi height width (m + n) seen heap = .inr v := by
  intro m
  induction m with
  | zero =>
    intro n seen heap v h
    simp [goSteps] at h
  | succ m ih =>
    intro n seen heap v h
    rw [Nat.succ_add]
    simp only [goSteps] at h ⊢
    rcases hpop : Heap.pop heap with _ | ⟨state, heap2⟩
    · rw [hpop] at h
      simpa using h
    · rw [hpop] at h
      by_cases hm : SeenTree.member (sdKey state.position state.direction) seen = true
      · simp only [if_pos hm] at h ⊢
        exact ih n _ _ _ h
      · by_cases ht : state.position.row = height - 1 ∧ state.position.col = width - 1
        · simp only [if_neg hm, if_pos ht] at h ⊢
          exact h
        · simp only [if_neg hm, if_neg ht] at h ⊢
          exact ih n _ _ _ h

theorem get_minimal_heat_loss_of_goSteps (grid : List (List Nat)) (lo hi v : Nat)
    (h : goSteps grid lo hi grid.length ((grid.headD []).length)
      (heatLossFuel grid.length ((grid.headD []).length) hi)
      SeenTree.leaf initialHeap = .inr v) :
    get_minimal_heat_loss grid lo hi = v := by
  show (match goSteps grid lo hi grid.length ((grid.headD []).length)
      (heatLossFuel grid.length ((grid.headD []).length) hi)
      SeenTree.leaf initialHeap with
    | .inl _ => u32MAX
    | .inr v => v) = v
  rw [h]

theorem chunk17a_0 : goSteps examplePuzzle.grid 1 3 13 13 250 SeenTree.leaf initialHeap = .inl (d17aSeen1, d17aHeap1) := rfl

theorem chunk17a_1 : goSteps examplePuzzle.grid 1 3 13 13 250 d17aSeen1 d17aHeap1 = .inl (d17aSeen2, d17aHeap2) := rfl

theorem chunk17a_2 : goSteps examplePuzzle.grid 1 3 13 13 250 d17aSeen2 d17aHeap2 = .inl (d17aSeen3, d17aHeap3) := rfl

theorem chunk17a_3 : goSteps examplePuzzle.grid 1 3 13 13 250 d17aSeen3 d17aHeap3 = .inl (d17aSeen4, d17aHeap4) := rfl

theorem chunk17a_4 : goSteps examplePuzzle.grid 1 3 13 13 250 d17aSeen4 d17aHeap4 = .inl (d17aSeen5, d17aHeap5) := rfl

theorem chunk17a_5 : goSteps examplePuzzle.grid 1 3 13 13 250 d17aSeen5 d17aHeap5 = .inl (d17aSeen6, d17aHeap6) := rfl

theorem chunk17a_6 : goSteps examplePuzzle.grid 1 3 13 13 250 d17aSeen6 d17aHeap6 = .inl (d17aSeen7, d17aHeap7) := rfl

theorem chunk17a_7 : goSteps examplePuzzle.grid 1 3 13 13 250 d17aSeen7 d17aHeap7 = .inl (d17aSeen8, d17aHeap8) := rfl

theorem chunk17a_8 : goSteps examplePuzzle.grid 1 3 13 13 250 d17aSeen8 d17aHeap8 = .inl (d17aSeen9, d17aHeap9) := rfl

theorem chunk17a_9 : goSteps examplePuzzle.grid 1 3 13 13 250 d17aSeen9 d17aHeap9 = .inl (d17aSeen10, d17aHeap10) := rfl

theorem chunk17a_10 : goSteps examplePuzzle.grid 1 3 13 13 250 d17aSeen10 d17aHeap10 = .inl (d17aSeen11, d17aHeap11) := rfl

theorem chunk17a_11 : goSteps examplePuzzle.grid 1 3 13 13 250 d17aSeen11 d17aHeap11 = .inr 102 := rfl
theorem chunk17b_0 : goSteps examplePuzzle.grid 4 10 13 13 250 SeenTree.leaf initialHeap = .inl (d17bSeen1, d17bHeap1) := rfl

theorem chunk17b_1 : goSteps examplePuzzle.grid 4 10 13 13 250 d17bSeen1 d17bHeap1 = .inl (d17bSeen2, d17bHeap2) := rfl

theorem chunk17b_2 : goSteps examplePuzzle.grid 4 10 13 13 250 d17bSeen2 d17bHeap2 = .inr 94 := rfl

end day17

namespace day14

theorem updateF_same (f : Nat → Nat) (i v : Nat) : updateF f i v i = v := by
  simp [updateF]

theorem updateF_other (f : Nat → Nat) (i v j : Nat) (h : i ≠ j) :
    updateF f i v j = f j := by
  simp [updateF, h]

theorem filterCol_cons_pos {c : Nat} {p : Position} (rest : List Position)
    (h : p.col = c) : filterCol c (p :: rest) = p :: filterCol c rest := by
  simp [filterCol, h]

theorem filterCol_cons_neg {c : Nat} {p : Position} (rest : List Position)
    (h : ¬p.col = c) : filterCol c (p :: rest) = filterCol c rest := by
  simp [filterCol, h]

theorem filterRow_cons_pos {r : Nat} {p : Position} (rest : List Position)
    (h : p.row = r) : filterRow r (p :: rest) = p :: filterRow r rest := by
  simp [filterRow, h]

theorem filterRow_cons_neg {r : Nat} {p : Position} (rest : List Position)
    (h : ¬p.row = r) : filterRow r (p :: rest) = filterRow r rest := by
  simp [filterRow, h]

theorem tiltNorthGo_filterCol (c : Nat) (off : Nat → Nat) (l : List Position) :
    filterCol c (tiltNorthGo off l) = tiltNorthColGo (off c) (filterCol c l) := by
  induction l generalizing off with
  | nil => rfl
  | cons p rest ih =>
    rcases hr : p.rock with _ | _ | _ <;>
      by_cases hc : p.col = c <;>
        simp [tiltNorthGo, hr, tiltNorthColGo, filterCol_cons_pos, filterCol_cons_neg, ih, updateF, hc]

theorem tiltSouthGo_filterCol (c : Nat) (off : Nat → Nat) (l : List Position) :
    filterCol c (tiltSouthGo off l) = tiltSouthColGo (off c) (filterCol c l) := by
  induction l generalizing off with
  | nil => rfl
  | cons p rest ih =>
    rcases hr : p.rock with _ | _ | _ <;>
      by_cases hc : p.col = c <;>
        simp [tiltSouthGo, hr, tiltSouthColGo, filterCol_cons_pos, filterCol_cons_neg, ih, updateF, hc]

theorem tiltWestGo_filterRow (r : Nat) (off : Nat → Nat) (l : List Position) :
    filterRow r (tiltWestGo off l) = tiltWestRowGo (off r) (filterRow r l) := by
  induction l generalizing off with
  | nil => rfl
  | cons p rest ih =>
    rcases hr : p.rock with _ | _ | _ <;>
      by_cases hc : p.row = r <;>
        simp [tiltWestGo, hr, tiltWestRowGo, filterRow_cons_pos, filterRow_cons_neg, ih, updateF, hc]

theorem tiltEastGo_filterRow (r : Nat) (off : Nat → Nat) (l : List Position) :
    filterRow r (tiltEastGo off l) = tiltEastRowGo (off r) (filterRow r l) := by
  induction l generalizing off with
  | nil => rfl
  | cons p rest ih =>
    rcases hr : p.rock with _ | _ | _ <;>
      by_cases hc : p.row = r <;>
        simp [tiltEastGo, hr, tiltEastRowGo, filterRow_cons_pos, filterRow_cons_neg, ih, updateF, hc]

theorem tiltNorthColGo_strict (c : Nat) :
    ∀ (s : Nat) (l : List Position),
      (∀ p ∈ l, p.col = c) →
      (∀ p ∈ l, p.rock ≠ Rock.Empty) →
      l.Pairwise (fun p q => p.row < q.row) →
      (∀ p ∈ l, s ≤ p.row) →
      (tiltNorthColGo s l).Pairwise (fun p q => p.row < q.row) ∧
        ∀ q ∈ tiltNorthColGo s l, q.col = c ∧ s ≤ q.row ∧
          ∀ b, (∀ p ∈ l, p.row < b) → q.row < b := by
  intro s l
  induction l generalizing s with
  | nil => intro _ _ _ _; exact ⟨List.Pairwise.nil, by simp [tiltNorthColGo]⟩
  | cons p rest ih =>
    intro hcol hne hsort hlb
    obtain ⟨hp_rest, hsort_rest⟩ := List.pairwise_cons.mp hsort
    have hps : s ≤ p.row := hlb p (List.mem_cons_self p rest)
    rcases hr : p.rock with _ | _ | _
    · -- Round
      have hrec := ih (s + 1) (fun q hq => hcol q (List.mem_cons_of_mem p hq))
        (fun q hq => hne q (List.mem_cons_of_mem p hq)) hsort_rest
        (fun q hq => by have := hp_rest q hq; omega)
      simp only [tiltNorthColGo, hr]
      refine ⟨List.pairwise_cons.mpr ⟨?_, hrec.1⟩, ?_⟩
      · intro q hq
        have := (hrec.2 q hq).2.1
        show s < q.row
        omega
      · intro q hq
        rcases List.mem_cons.mp hq with rfl | hq
        · refine ⟨hcol p (List.mem_cons_self p rest), Nat.le_refl s, ?_⟩
          intro b hb
          have := hb p (List.mem_cons_self p rest)
          show s < b
          omega
        · obtain ⟨h1, h2, h3⟩ := hrec.2 q hq
          exact ⟨h1, by omega, fun b hb => h3 b (fun q hq => hb q (List.mem_cons_of_mem p hq))⟩
    · -- Cube
      have hrec := ih (p.row + 1) (fun q hq => hcol q (List.mem_cons_of_mem p hq))
        (fun q hq => hne q (List.mem_cons_of_mem p hq)) hsort_rest
        (fun q hq => by have := hp_rest q hq; omega)
      simp only [tiltNorthColGo, hr]
      refine ⟨List.pairwise_cons.mpr ⟨?_, hrec.1⟩, ?_⟩
      · intro q hq
        have := (hrec.2 q hq).2.1
        omega
      · intro q hq
        rcases List.mem_cons.mp hq with rfl | hq
        · exact ⟨hcol q (List.mem_cons_self q rest), hps,
            fun b hb => hb q (List.mem_cons_self q rest)⟩
        · obtain ⟨h1, h2, h3⟩ := hrec.2 q hq
          exact ⟨h1, by omega, fun b hb => h3 b (fun q hq => hb q (List.mem_cons_of_mem p hq))⟩
    · exact absurd hr (hne p (List.mem_cons_self p rest))

theorem tiltSouthColGo_strict (c : Nat) :
    ∀ (s : Nat) (l : List Position),
      (∀ p ∈ l, p.col = c) →
      (∀ p ∈ l, p.rock ≠ Rock.Empty) →
      l.Pairwise (fun p q => q.row < p.row) →
      (∀ p ∈ l, p.row < s) →
      (tiltSouthColGo s l).Pairwise (fun p q => q.row < p.row) ∧
        ∀ q ∈ tiltSouthColGo s l, q.col = c ∧ q.row < s := by
  intro s l
  induction l generalizing s with
  | nil => intro _ _ _ _; exact ⟨List.Pairwise.nil, by simp [tiltSouthColGo]⟩
  | cons p rest ih =>
    intro hcol hne hsort hub
    obtain ⟨hp_rest, hsort_rest⟩ := List.pairwise_cons.mp hsort
    have hps : p.row < s := hub p (List.mem_cons_self p rest)
    rcases hr : p.rock with _ | _ | _
    · -- Round: lands on s - 1
      have hrec := ih (s - 1) (fun q hq => hcol q (List.mem_cons_of_mem p hq))
        (fun q hq => hne q (List.mem_cons_of_mem p hq)) hsort_rest
        (fun q hq => by have := hp_rest q hq; omega)
      simp only [tiltSouthColGo, hr]
      refine ⟨List.pairwise_cons.mpr ⟨?_, hrec.1⟩, ?_⟩
      · intro q hq
        have := (hrec.2 q hq).2
        show q.row < s - 1
        omega
      · intro q hq
        rcases List.mem_cons.mp hq with rfl | hq
        · exact ⟨hcol p (List.mem_cons_self p rest), by show s - 1 < s; omega⟩
        · obtain ⟨h1, h2⟩ := hrec.2 q hq
          exact ⟨h1, by omega⟩
    · -- Cube: resets the offset to its own row
      have hrec := ih p.row (fun q hq => hcol q (List.mem_cons_of_mem p hq))
        (fun q hq => hne q (List.mem_cons_of_mem p hq)) hsort_rest
        (fun q hq => hp_rest q hq)
      simp only [tiltSouthColGo, hr]
      refine ⟨List.pairwise_cons.mpr ⟨?_, hrec.1⟩, ?_⟩
      · intro q hq
        exact (hrec.2 q hq).2
      · intro q hq
        rcases List.mem_cons.mp hq with rfl | hq
        · exact ⟨hcol q (List.mem_cons_self q rest), hps⟩
        · obtain ⟨h1, h2⟩ := hrec.2 q hq
          exact ⟨h1, by omega⟩
    · exact absurd hr (hne p (List.mem_cons_self p rest))

theorem tiltWestRowGo_strict (r : Nat) :
    ∀ (s : Nat) (l : List Position),
      (∀ p ∈ l, p.row = r) →
      (∀ p ∈ l, p.rock ≠ Rock.Empty) →
      l.Pairwise (fun p q => p.col < q.col) →
      (∀ p ∈ l, s ≤ p.col) →
      (tiltWestRowGo s l).Pairwise (fun p q => p.col < q.col) ∧
        ∀ q ∈ tiltWestRowGo s l, q.row = r ∧ s ≤ q.col ∧
          ∀ b, (∀ p ∈ l, p.col < b) → q.col < b := by
  intro s l
  induction l generalizing s with
  | nil => intro _ _ _ _; exact ⟨List.Pairwise.nil, by simp [tiltWestRowGo]⟩
  | cons p rest ih =>
    intro hrow hne hsort hlb
    obtain ⟨hp_rest, hsort_rest⟩ := List.pairwise_cons.mp hsort
    have hps : s ≤ p.col := hlb p (List.mem_cons_self p rest)
    rcases hr : p.rock with _ | _ | _
    · have hrec := ih (s + 1) (fun q hq => hrow q (List.mem_cons_of_mem p hq))
        (fun q hq => hne q (List.mem_cons_of_mem p hq)) hsort_rest
        (fun q hq => by have := hp_rest q hq; omega)
      simp only [tiltWestRowGo, hr]
      refine ⟨List.pairwise_cons.mpr ⟨?_, hrec.1⟩, ?_⟩
      · intro q hq
        have := (hrec.2 q hq).2.1
        show s < q.col
        omega
      · intro q hq
        rcases List.mem_cons.mp hq with rfl | hq
        · refine ⟨hrow p (List.mem_cons_self p rest), Nat.le_refl s, ?_⟩
          intro b hb
          have := hb p (List.mem_cons_self p rest)
          show s < b
          omega
        · obtain ⟨h1, h2, h3⟩ := hrec.2 q hq
          exact ⟨h1, by omega, fun b hb => h3 b (fun q hq => hb q (List.mem_cons_of_mem p hq))⟩
    · have hrec := ih (p.col + 1) (fun q hq => hrow q (List.mem_cons_of_mem p hq))
        (fun q hq => hne q (List.mem_cons_of_mem p hq)) hsort_rest
        (fun q hq => by have := hp_rest q hq; omega)
      simp only [tiltWestRowGo, hr]
      refine ⟨List.pairwise_cons.mpr ⟨?_, hrec.1⟩, ?_⟩
      · intro q hq
        have := (hrec.2 q hq).2.1
        omega
      · intro q hq
        rcases List.mem_cons.mp hq with rfl | hq
        · exact ⟨hrow q (List.mem_cons_self q rest), hps,
            fun b hb => hb q (List.mem_cons_self q rest)⟩
        · obtain ⟨h1, h2, h3⟩ := hrec.2 q hq
          exact ⟨h1, by omega, fun b hb => h3 b (fun q hq => hb q (List.mem_cons_of_mem p hq))⟩
    · exact absurd hr (hne p (List.mem_cons_self p rest))

theorem tiltEastRowGo_strict (r : Nat) :
    ∀ (s : Nat) (l : List Position),
      (∀ p ∈ l, p.row = r) →
      (∀ p ∈ l, p.rock ≠ Rock.Empty) →
      l.Pairwise (fun p q => q.col < p.col) →
      (∀ p ∈ l, p.col < s) →
      (tiltEastRowGo s l).Pairwise (fun p q => q.col < p.col) ∧
        ∀ q ∈ tiltEastRowGo s l, q.row = r ∧ q.col < s := by
  intro s l
  induction l generalizing s with
  | nil => intro _ _ _ _; exact ⟨List.Pairwise.nil, by simp [tiltEastRowGo]⟩
  | cons p rest ih =>
    intro hrow hne hsort hub
    obtain ⟨hp_rest, hsort_rest⟩ := List.pairwise_cons.mp hsort
    have hps : p.col < s := hub p (List.mem_cons_self p rest)
    rcases hr : p.rock with _ | _ | _
    · have hrec := ih (s - 1) (fun q hq => hrow q (List.mem_cons_of_mem p hq))
        (fun q hq => hne q (List.mem_cons_of_mem p hq)) hsort_rest
        (fun q hq => by have := hp_rest q hq; omega)
      simp only [tiltEastRowGo, hr]
      refine ⟨List.pairwise_cons.mpr ⟨?_, hrec.1⟩, ?_⟩
      · intro q hq
        have := (hrec.2 q hq).2
        show q.col < s - 1
        omega
      · intro q hq
        rcases List.mem_cons.mp hq with rfl | hq
        · exact ⟨hrow p (List.mem_cons_self p rest), by show s - 1 < s; omega⟩
        · obtain ⟨h1, h2⟩ := hrec.2 q hq
          exact ⟨h1, by omega⟩
    · have hrec := ih p.col (fun q hq => hrow q (List.mem_cons_of_mem p hq))
        (fun q hq => hne q (List.mem_cons_of_mem p hq)) hsort_rest
        (fun q hq => hp_rest q hq)
      simp only [tiltEastRowGo, hr]
      refine ⟨List.pairwise_cons.mpr ⟨?_, hrec.1⟩, ?_⟩
      · intro q hq
        exact (hrec.2 q hq).2
      · intro q hq
        rcases List.mem_cons.mp hq with rfl | hq
        · exact ⟨hrow q (List.mem_cons_self q rest), hps⟩
        · obtain ⟨h1, h2⟩ := hrec.2 q hq
          exact ⟨h1, by omega⟩
    · exact absurd hr (hne p (List.mem_cons_self p rest))

theorem distinct_of_cols (l : List Position)
    (h : ∀ c, (filterCol c l).Pairwise (fun p q => p.row ≠ q.row)) :
    distinctCells l := by
  induction l with
  | nil => exact List.Pairwise.nil
  | cons p rest ih =>
    refine List.pairwise_cons.mpr ⟨?_, ?_⟩
    · intro q hq
      by_cases hc : q.col = p.col
      · have h2 := h p.col
        rw [filterCol_cons_pos _ rfl] at h2
        have hmem : q ∈ filterCol p.col rest := by
          simp [filterCol, List.mem_filter, hq, hc]
        exact Or.inl ((List.pairwise_cons.mp h2).1 q hmem)
      · exact Or.inr (fun hcc => hc (hcc.symm))
    · refine ih ?_
      intro c
      have h2 := h c
      by_cases hpc : p.col = c
      · rw [filterCol_cons_pos _ hpc] at h2
        exact (List.pairwise_cons.mp h2).2
      · rwa [filterCol_cons_neg _ hpc] at h2

theorem distinct_of_rows (l : List Position)
    (h : ∀ r, (filterRow r l).Pairwise (fun p q => p.col ≠ q.col)) :
    distinctCells l := by
  induction l with
  | nil => exact List.Pairwise.nil
  | cons p rest ih =>
    refine List.pairwise_cons.mpr ⟨?_, ?_⟩
    · intro q hq
      by_cases hc : q.row = p.row
      · have h2 := h p.row
        rw [filterRow_cons_pos _ rfl] at h2
        have hmem : q ∈ filterRow p.row rest := by
          simp [filterRow, List.mem_filter, hq, hc]
        exact Or.inr ((List.pairwise_cons.mp h2).1 q hmem)
      · exact Or.inl (fun hcc => hc (hcc.symm))
    · refine ih ?_
      intro r
      have h2 := h r
      by_cases hpc : p.row = r
      · rw [filterRow_cons_pos _ hpc] at h2
        exact (List.pairwise_cons.mp h2).2
      · rwa [filterRow_cons_neg _ hpc] at h2

theorem tiltNorthGo_mem (off : Nat → Nat) (l : List Position) :
    ∀ q ∈ tiltNorthGo off l, ∃ p ∈ l, q.col = p.col ∧ q.rock = p.rock := by
  induction l generalizing off with
  | nil => intro q hq; simp [tiltNorthGo] at hq
  | cons p rest ih =>
    intro q hq
    rcases hr : p.rock with _ | _ | _
    · rw [tiltNorthGo, hr] at hq
      rcases List.mem_cons.mp hq with hq1 | hq1
      · exact ⟨p, List.mem_cons_self p rest, by rw [hq1], by rw [hq1, hr]⟩
      · obtain ⟨p', hp', h1, h2⟩ := ih _ q hq1
        exact ⟨p', List.mem_cons_of_mem p hp', h1, h2⟩
    · rw [tiltNorthGo, hr] at hq
      rcases List.mem_cons.mp hq with hq1 | hq1
      · exact ⟨p, List.mem_cons_self p rest, by rw [hq1], by rw [hq1]⟩
      · obtain ⟨p', hp', h1, h2⟩ := ih _ q hq1
        exact ⟨p', List.mem_cons_of_mem p hp', h1, h2⟩
    · rw [tiltNorthGo, hr] at hq
      rcases List.mem_cons.mp hq with hq1 | hq1
      · exact ⟨p, List.mem_cons_self p rest, by rw [hq1], by rw [hq1]⟩
      · obtain ⟨p', hp', h1, h2⟩ := ih _ q hq1
        exact ⟨p', List.mem_cons_of_mem p hp', h1, h2⟩

theorem tiltSouthGo_mem (off : Nat → Nat) (l : List Position) :
    ∀ q ∈ tiltSouthGo off l, ∃ p ∈ l, q.col = p.col ∧ q.rock = p.rock := by
  induction l generalizing off with
  | nil => intro q hq; simp [tiltSouthGo] at hq
  | cons p rest ih =>
    intro q hq
    rcases hr : p.rock with _ | _ | _
    · rw [tiltSouthGo, hr] at hq
      rcases List.mem_cons.mp hq with hq1 | hq1
      · exact ⟨p, List.mem_cons_self p rest, by rw [hq1], by rw [hq1, hr]⟩
      · obtain ⟨p', hp', h1, h2⟩ := ih _ q hq1
        exact ⟨p', List.mem_cons_of_mem p hp', h1, h2⟩
    · rw [tiltSouthGo, hr] at hq
      rcases List.mem_cons.mp hq with hq1 | hq1
      · exact ⟨p, List.mem_cons_self p rest, by rw [hq1], by rw [hq1]⟩
      · obtain ⟨p', hp', h1, h2⟩ := ih _ q hq1
        exact ⟨p', List.mem_cons_of_mem p hp', h1, h2⟩
    · rw [tiltSouthGo, hr] at hq
      rcases List.mem_cons.mp hq with hq1 | hq1
      · exact ⟨p, List.mem_cons_self p rest, by rw [hq1], by rw [hq1]⟩
      · obtain ⟨p', hp', h1, h2⟩ := ih _ q hq1
        exact ⟨p', List.mem_cons_of_mem p hp', h1, h2⟩

theorem tiltWestGo_mem (off : Nat → Nat) (l : List Position) :
    ∀ q ∈ tiltWestGo off l, ∃ p ∈ l, q.row = p.row ∧ q.rock = p.rock := by
  induction l generalizing off with
  | nil => intro q hq; simp [tiltWestGo] at hq
  | cons p rest ih =>
    intro q hq
    rcases hr : p.rock with _ | _ | _
    · rw [tiltWestGo, hr] at hq
      rcases List.mem_cons.mp hq with hq1 | hq1
      · exact ⟨p, List.mem_cons_self p rest, by rw [hq1], by rw [hq1, hr]⟩
      · obtain ⟨p', hp', h1, h2⟩ := ih _ q hq1
        exact ⟨p', List.mem_cons_of_mem p hp', h1, h2⟩
    · rw [tiltWestGo, hr] at hq
      rcases List.mem_cons.mp hq with hq1 | hq1
      · exact ⟨p, List.mem_cons_self p rest, by rw [hq1], by rw [hq1]⟩
      · obtain ⟨p', hp', h1, h2⟩ := ih _ q hq1
        exact ⟨p', List.mem_cons_of_mem p hp', h1, h2⟩
    · rw [tiltWestGo, hr] at hq
      rcases List.mem_cons.mp hq with hq1 | hq1
      · exact ⟨p, List.mem_cons_self p rest, by rw [hq1], by rw [hq1]⟩
      · obtain ⟨p', hp', h1, h2⟩ := ih _ q hq1
        exact ⟨p', List.mem_cons_of_mem p hp', h1, h2⟩

theorem tiltEastGo_mem (off : Nat → Nat) (l : List Position) :
    ∀ q ∈ tiltEastGo off l, ∃ p ∈ l, q.row = p.row ∧ q.rock = p.rock := by
  induction l generalizing off with
  | nil => intro q hq; simp [tiltEastGo] at hq
  | cons p rest ih =>
    intro q hq
    rcases hr : p.rock with _ | _ | _
    · rw [tiltEastGo, hr] at hq
      rcases List.mem_cons.mp hq with hq1 | hq1
      · exact ⟨p, List.mem_cons_self p rest, by rw [hq1], by rw [hq1, hr]⟩
      · obtain ⟨p', hp', h1, h2⟩ := ih _ q hq1
        exact ⟨p', List.mem_cons_of_mem p hp', h1, h2⟩
    · rw [tiltEastGo, hr] at hq
      rcases List.mem_cons.mp hq with hq1 | hq1
      · exact ⟨p, List.mem_cons_self p rest, by rw [hq1], by rw [hq1]⟩
      · obtain ⟨p', hp', h1, h2⟩ := ih _ q hq1
        exact ⟨p', List.mem_cons_of_mem p hp', h1, h2⟩
    · rw [tiltEastGo, hr] at hq
      rcases List.mem_cons.mp hq with hq1 | hq1
      · exact ⟨p, List.mem_cons_self p rest, by rw [hq1], by rw [hq1]⟩
      · obtain ⟨p', hp', h1, h2⟩ := ih _ q hq1
        exact ⟨p', List.mem_cons_of_mem p hp', h1, h2⟩

theorem distinct_perm {x y : List Position} (h : x.Perm y) (hd : distinctCells x) :
    distinctCells y :=
  (h.pairwise_iff (fun {_ _} hab => hab.imp Ne.symm Ne.symm)).mp hd

theorem noEmpty_perm {x y : List Position} (h : x.Perm y) (hd : noEmptyRocks x) :
    noEmptyRocks y :=
  fun p hp => hd p (h.mem_iff.mpr hp)

theorem inBounds_perm {hgt w : Nat} {x y : List Position} (h : x.Perm y)
    (hd : inBoundsPos hgt w x) : inBoundsPos hgt w y :=
  fun p hp => hd p (h.mem_iff.mpr hp)

theorem filterCol_sortRow_eq (c : Nat) {x y : List Position} (hperm : x.Perm y)
    (hdx : distinctCells x) :
    filterCol c (List.insertionSort byRow x) = filterCol c (List.insertionSort byRow y) := by
  haveI : IsAntisymm Position (fun p q => p.row < q.row) :=
    ⟨fun a b h1 h2 => absurd (h1.trans h2) (lt_irrefl _)⟩
  have hp : (filterCol c (List.insertionSort byRow x)).Perm
      (filterCol c (List.insertionSort byRow y)) := by
    refine List.Perm.filter _ ?_
    exact (List.perm_insertionSort byRow x).trans (hperm.trans (List.perm_insertionSort byRow y).symm)
  have hstrict : ∀ (z : List Position), distinctCells z →
      (filterCol c (List.insertionSort byRow z)).Pairwise (fun p q => p.row < q.row) := by
    intro z hdz
    have hsorted : (List.insertionSort byRow z).Pairwise byRow :=
      List.sorted_insertionSort byRow z
    have hdist : distinctCells (List.insertionSort byRow z) :=
      distinct_perm (List.perm_insertionSort byRow z).symm hdz
    have h1 : (filterCol c (List.insertionSort byRow z)).Pairwise byRow :=
      hsorted.filter _
    have h2 : (filterCol c (List.insertionSort byRow z)).Pairwise
        (fun p q => p.row ≠ q.row ∨ p.col ≠ q.col) := hdist.filter _
    have h3 : (filterCol c (List.insertionSort byRow z)).Pairwise
        (fun p q => p.row ≠ q.row) := by
      refine h2.imp_of_mem ?_
      intro a b ha hb hab
      rcases hab with hab | hab
      · exact hab
      · exfalso
        have hac : a.col = c := by
          have := List.mem_filter.mp ha
          simpa [filterCol] using (List.mem_filter.mp ha).2
        have hbc : b.col = c := by
          simpa [filterCol] using (List.mem_filter.mp hb).2
        exact hab (hac.trans hbc.symm)
    have := h1.and h3
    exact this.imp (fun {a b} hab => lt_of_le_of_ne hab.1 hab.2)
  exact List.eq_of_perm_of_sorted hp (hstrict x hdx) (hstrict y (distinct_perm hperm hdx))

theorem filterRow_sortCol_eq (r : Nat) {x y : List Position} (hperm : x.Perm y)
    (hdx : distinctCells x) :
    filterRow r (List.insertionSort byCol x) = filterRow r (List.insertionSort byCol y) := by
  haveI : IsAntisymm Position (fun p q => p.col < q.col) :=
    ⟨fun a b h1 h2 => absurd (h1.trans h2) (lt_irrefl _)⟩
  have hp : (filterRow r (List.insertionSort byCol x)).Perm
      (filterRow r (List.insertionSort byCol y)) := by
    refine List.Perm.filter _ ?_
    exact (List.perm_insertionSort byCol x).trans (hperm.trans (List.perm_insertionSort byCol y).symm)
  have hstrict : ∀ (z : List Position), distinctCells z →
      (filterRow r (List.insertionSort byCol z)).Pairwise (fun p q => p.col < q.col) := by
    intro z hdz
    have hsorted : (List.insertionSort byCol z).Pairwise byCol :=
      List.sorted_insertionSort byCol z
    have hdist : distinctCells (List.insertionSort byCol z) :=
      distinct_perm (List.perm_insertionSort byCol z).symm hdz
    have h1 : (filterRow r (List.insertionSort byCol z)).Pairwise byCol :=
      hsorted.filter _
    have h2 : (filterRow r (List.insertionSort byCol z)).Pairwise
        (fun p q => p.row ≠ q.row ∨ p.col ≠ q.col) := hdist.filter _
    have h3 : (filterRow r (List.insertionSort byCol z)).Pairwise
        (fun p q => p.col ≠ q.col) := by
      refine h2.imp_of_mem ?_
      intro a b ha hb hab
      rcases hab with hab | hab
      · exfalso
        have har : a.row = r := by
          simpa [filterRow] using (List.mem_filter.mp ha).2
        have hbr : b.row = r := by
          simpa [filterRow] using (List.mem_filter.mp hb).2
        exact hab (har.trans hbr.symm)
      · exact hab
    have := h1.and h3
    exact this.imp (fun {a b} hab => lt_of_le_of_ne hab.1 hab.2)
  exact List.eq_of_perm_of_sorted hp (hstrict x hdx) (hstrict y (distinct_perm hperm hdx))

theorem filterCol_sortRow_strict (c : Nat) (z : List Position) (hdz : distinctCells z) :
    (filterCol c (List.insertionSort byRow z)).Pairwise (fun p q => p.row < q.row) := by
  have hsorted : (List.insertionSort byRow z).Pairwise byRow :=
    List.sorted_insertionSort byRow z
  have hdist : distinctCells (List.insertionSort byRow z) :=
    distinct_perm (List.perm_insertionSort byRow z).symm hdz
  have h1 : (filterCol c (List.insertionSort byRow z)).Pairwise byRow :=
    hsorted.filter _
  have h3 : (filterCol c (List.insertionSort byRow z)).Pairwise
      (fun p q => p.row ≠ q.row) := by
    refine (hdist.filter _).imp_of_mem ?_
    intro a b ha hb hab
    rcases hab with hab | hab
    · exact hab
    · exfalso
      have hac : a.col = c := by
        simpa [filterCol] using (List.mem_filter.mp ha).2
      have hbc : b.col = c := by
        simpa [filterCol] using (List.mem_filter.mp hb).2
      exact hab (hac.trans hbc.symm)
  exact (h1.and h3).imp (fun {a b} hab => lt_of_le_of_ne hab.1 hab.2)

theorem filterRow_sortCol_strict (r : Nat) (z : List Position) (hdz : distinctCells z) :
    (filterRow r (List.insertionSort byCol z)).Pairwise (fun p q => p.col < q.col) := by
  have hsorted : (List.insertionSort byCol z).Pairwise byCol :=
    List.sorted_insertionSort byCol z
  have hdist : distinctCells (List.insertionSort byCol z) :=
    distinct_perm (List.perm_insertionSort byCol z).symm hdz
  have h1 : (filterRow r (List.insertionSort byCol z)).Pairwise byCol :=
    hsorted.filter _
  have h3 : (filterRow r (List.insertionSort byCol z)).Pairwise
      (fun p q => p.col ≠ q.col) := by
    refine (hdist.filter _).imp_of_mem ?_
    intro a b ha hb hab
    rcases hab with hab | hab
    · exfalso
      have har : a.row = r := by
        simpa [filterRow] using (List.mem_filter.mp ha).2
      have hbr : b.row = r := by
        simpa [filterRow] using (List.mem_filter.mp hb).2
      exact hab (har.trans hbr.symm)
    · exact hab
  exact (h1.and h3).imp (fun {a b} hab => lt_of_le_of_ne hab.1 hab.2)

theorem filterCol_mem_col {c : Nat} {l : List Position} {p : Position}
    (h : p ∈ filterCol c l) : p ∈ l ∧ p.col = c := by
  have := List.mem_filter.mp h
  exact ⟨this.1, by simpa using this.2⟩

theorem filterRow_mem_row {r : Nat} {l : List Position} {p : Position}
    (h : p ∈ filterRow r l) : p ∈ l ∧ p.row = r := by
  have := List.mem_filter.mp h
  exact ⟨this.1, by simpa using this.2⟩

theorem filterCol_reverse (c : Nat) (l : List Position) :
    filterCol c l.reverse = (filterCol c l).reverse := by
  simp [filterCol, List.filter_reverse]

theorem filterRow_reverse (r : Nat) (l : List Position) :
    filterRow r l.reverse = (filterRow r l).reverse := by
  simp [filterRow, List.filter_reverse]

theorem self_mem_filterCol {l : List Position} {q : Position} (h : q ∈ l) :
    q ∈ filterCol q.col l :=
  List.mem_filter.mpr ⟨h, by simp⟩

theorem self_mem_filterRow {l : List Position} {q : Position} (h : q ∈ l) :
    q ∈ filterRow q.row l :=
  List.mem_filter.mpr ⟨h, by simp⟩

theorem validPos_perm {height width : Nat} {x y : List Position} (h : x.Perm y)
    (hv : validPos height width x) : validPos height width y :=
  ⟨distinct_perm h hv.1, noEmpty_perm h hv.2.1, inBounds_perm h hv.2.2⟩

theorem tilt_north_valid (height width : Nat) {x : List Position}
    (hv : validPos height width x) :
    validPos height width (tilt_north x height width) := by
  obtain ⟨hd, hne, hb⟩ := hv
  have hsx : (List.insertionSort byRow x).Perm x := List.perm_insertionSort byRow x
  have hcolGo : ∀ c, filterCol c (tilt_north x height width) =
      tiltNorthColGo 0 (filterCol c (List.insertionSort byRow x)) := by
    intro c
    exact tiltNorthGo_filterCol c _ _
  have hstrictIn : ∀ c, (filterCol c (List.insertionSort byRow x)).Pairwise
      (fun p q => p.row < q.row) := fun c => filterCol_sortRow_strict c x hd
  have hspec : ∀ c, (tiltNorthColGo 0 (filterCol c (List.insertionSort byRow x))).Pairwise
        (fun p q => p.row < q.row) ∧
      ∀ q ∈ tiltNorthColGo 0 (filterCol c (List.insertionSort byRow x)),
        q.col = c ∧ 0 ≤ q.row ∧ ∀ b,
          (∀ p ∈ filterCol c (List.insertionSort byRow x), p.row < b) → q.row < b := by
    intro c
    refine tiltNorthColGo_strict c 0 _ ?_ ?_ (hstrictIn c) (fun _ _ => Nat.zero_le _)
    · exact fun p hp => (filterCol_mem_col hp).2
    · intro p hp
      exact hne p (hsx.mem_iff.mp (filterCol_mem_col hp).1)
  refine ⟨?_, ?_, ?_⟩
  · refine distinct_of_cols _ ?_
    intro c
    rw [hcolGo c]
    exact (hspec c).1.imp (fun hlt => Nat.ne_of_lt hlt)
  · intro q hq
    obtain ⟨p, hp, _, hrock⟩ := tiltNorthGo_mem _ _ q hq
    rw [hrock]
    exact hne p (hsx.mem_iff.mp hp)
  · intro q hq
    have hqf : q ∈ filterCol q.col (tilt_north x height width) := self_mem_filterCol hq
    rw [hcolGo q.col] at hqf
    obtain ⟨hqc, _, hbnd⟩ := (hspec q.col).2 q hqf
    constructor
    · refine hbnd height ?_
      intro p hp
      exact (hb p (hsx.mem_iff.mp (filterCol_mem_col hp).1)).1
    · obtain ⟨p, hp, hqcol, _⟩ := tiltNorthGo_mem _ _ q hq
      rw [hqcol]
      exact (hb p (hsx.mem_iff.mp hp)).2

theorem tilt_south_valid (height width : Nat) {x : List Position}
    (hv : validPos height width x) :
    validPos height width (tilt_south x height width) := by
  obtain ⟨hd, hne, hb⟩ := hv
  have hsx : (List.insertionSort byRow x).reverse.Perm x :=
    (List.reverse_perm _).trans (List.perm_insertionSort byRow x)
  have hcolGo : ∀ c, filterCol c (tilt_south x height width) =
      tiltSouthColGo height ((filterCol c (List.insertionSort byRow x)).reverse) := by
    intro c
    show filterCol c (tiltSouthGo _ _) = _
    rw [tiltSouthGo_filterCol, filterCol_reverse]
  have hstrictIn : ∀ c, ((filterCol c (List.insertionSort byRow x)).reverse).Pairwise
      (fun p q => q.row < p.row) := by
    intro c
    rw [List.pairwise_reverse]
    exact filterCol_sortRow_strict c x hd
  have hspec : ∀ c, (tiltSouthColGo height
        ((filterCol c (List.insertionSort byRow x)).reverse)).Pairwise
        (fun p q => q.row < p.row) ∧
      ∀ q ∈ tiltSouthColGo height ((filterCol c (List.insertionSort byRow x)).reverse),
        q.col = c ∧ q.row < height := by
    intro c
    refine tiltSouthColGo_strict c height _ ?_ ?_ (hstrictIn c) ?_
    · intro p hp
      rw [List.mem_reverse] at hp
      exact (filterCol_mem_col hp).2
    · intro p hp
      rw [List.mem_reverse] at hp
      exact hne p ((List.perm_insertionSort byRow x).mem_iff.mp (filterCol_mem_col hp).1)
    · intro p hp
      rw [List.mem_reverse] at hp
      exact (hb p ((List.perm_insertionSort byRow x).mem_iff.mp (filterCol_mem_col hp).1)).1
  refine ⟨?_, ?_, ?_⟩
  · refine distinct_of_cols _ ?_
    intro c
    rw [hcolGo c]
    exact (hspec c).1.imp (fun hlt => fun hEq => absurd (hEq ▸ hlt) (lt_irrefl _))
  · intro q hq
    obtain ⟨p, hp, _, hrock⟩ := tiltSouthGo_mem _ _ q hq
    rw [hrock]
    exact hne p (hsx.mem_iff.mp hp)
  · intro q hq
    have hqf : q ∈ filterCol q.col (tilt_south x height width) := self_mem_filterCol hq
    rw [hcolGo q.col] at hqf
    obtain ⟨hqc, hlt⟩ := (hspec q.col).2 q hqf
    constructor
    · exact hlt
    · obtain ⟨p, hp, hqcol, _⟩ := tiltSouthGo_mem _ _ q hq
      rw [hqcol]
      exact (hb p (hsx.mem_iff.mp hp)).2

theorem tilt_west_valid (height width : Nat) {x : List Position}
    (hv : validPos height width x) :
    validPos height width (tilt_west x height width) := by
  obtain ⟨hd, hne, hb⟩ := hv
  have hsx : (List.insertionSort byCol x).Perm x := List.perm_insertionSort byCol x
  have hrowGo : ∀ r, filterRow r (tilt_west x height width) =
      tiltWestRowGo 0 (filterRow r (List.insertionSort byCol x)) := by
    intro r
    exact tiltWestGo_filterRow r _ _
  have hstrictIn : ∀ r, (filterRow r (List.insertionSort byCol x)).Pairwise
      (fun p q => p.col < q.col) := fun r => filterRow_sortCol_strict r x hd
  have hspec : ∀ r, (tiltWestRowGo 0 (filterRow r (List.insertionSort byCol x))).Pairwise
        (fun p q => p.col < q.col) ∧
      ∀ q ∈ tiltWestRowGo 0 (filterRow r (List.insertionSort byCol x)),
        q.row = r ∧ 0 ≤ q.col ∧ ∀ b,
          (∀ p ∈ filterRow r (List.insertionSort byCol x), p.col < b) → q.col < b := by
    intro r
    refine tiltWestRowGo_strict r 0 _ ?_ ?_ (hstrictIn r) (fun _ _ => Nat.zero_le _)
    · exact fun p hp => (filterRow_mem_row hp).2
    · intro p hp
      exact hne p (hsx.mem_iff.mp (filterRow_mem_row hp).1)
  refine ⟨?_, ?_, ?_⟩
  · refine distinct_of_rows _ ?_
    intro r
    rw [hrowGo r]
    exact (hspec r).1.imp (fun hlt => Nat.ne_of_lt hlt)
  · intro q hq
    obtain ⟨p, hp, _, hrock⟩ := tiltWestGo_mem _ _ q hq
    rw [hrock]
    exact hne p (hsx.mem_iff.mp hp)
  · intro q hq
    have hqf : q ∈ filterRow q.row (tilt_west x height width) := self_mem_filterRow hq
    rw [hrowGo q.row] at hqf
    obtain ⟨hqr, _, hbnd⟩ := (hspec q.row).2 q hqf
    constructor
    · obtain ⟨p, hp, hqrow, _⟩ := tiltWestGo_mem _ _ q hq
      rw [hqrow]
      exact (hb p (hsx.mem_iff.mp hp)).1
    · refine hbnd width ?_
      intro p hp
      exact (hb p (hsx.mem_iff.mp (filterRow_mem_row hp).1)).2

theorem tilt_east_valid (height width : Nat) {x : List Position}
    (hv : validPos height width x) :
    validPos height width (tilt_east x height width) := by
  obtain ⟨hd, hne, hb⟩ := hv
  have hsx : (List.insertionSort byCol x).reverse.Perm x :=
    (List.reverse_perm _).trans (List.perm_insertionSort byCol x)
  have hrowGo : ∀ r, filterRow r (tilt_east x height width) =
      tiltEastRowGo width ((filterRow r (List.insertionSort byCol x)).reverse) := by
    intro r
    show filterRow r (tiltEastGo _ _) = _
    rw [tiltEastGo_filterRow, filterRow_reverse]
  have hstrictIn : ∀ r, ((filterRow r (List.insertionSort byCol x)).reverse).Pairwise
      (fun p q => q.col < p.col) := by
    intro r
    rw [List.pairwise_reverse]
    exact filterRow_sortCol_strict r x hd
  have hspec : ∀ r, (tiltEastRowGo width
        ((filterRow r (List.insertionSort byCol x)).reverse)).Pairwise
        (fun p q => q.col < p.col) ∧
      ∀ q ∈ tiltEastRowGo width ((filterRow r (List.insertionSort byCol x)).reverse),
        q.row = r ∧ q.col < width := by
    intro r
    refine tiltEastRowGo_strict r width _ ?_ ?_ (hstrictIn r) ?_
    · intro p hp
      rw [List.mem_reverse] at hp
      exact (filterRow_mem_row hp).2
    · intro p hp
      rw [List.mem_reverse] at hp
      exact hne p ((List.perm_insertionSort byCol x).mem_iff.mp (filterRow_mem_row hp).1)
    · intro p hp
      rw [List.mem_reverse] at hp
      exact (hb p ((List.perm_insertionSort byCol x).mem_iff.mp (filterRow_mem_row hp).1)).2
  refine ⟨?_, ?_, ?_⟩
  · refine distinct_of_rows _ ?_
    intro r
    rw [hrowGo r]
    exact (hspec r).1.imp (fun hlt => fun hEq => absurd (hEq ▸ hlt) (lt_irrefl _))
  · intro q hq
    obtain ⟨p, hp, _, hrock⟩ := tiltEastGo_mem _ _ q hq
    rw [hrock]
    exact hne p (hsx.mem_iff.mp hp)
  · intro q hq
    have hqf : q ∈ filterRow q.row (tilt_east x height width) := self_mem_filterRow hq
    rw [hrowGo q.row] at hqf
    obtain ⟨hqr, hlt⟩ := (hspec q.row).2 q hqf
    constructor
    · obtain ⟨p, hp, hqrow, _⟩ := tiltEastGo_mem _ _ q hq
      rw [hqrow]
      exact (hb p (hsx.mem_iff.mp hp)).1
    · exact hlt


theorem count_filterCol_self (l : List Position) (e : Position) :
    (filterCol e.col l).count e = l.count e :=
  List.count_filter (by simp)

theorem count_filterRow_self (l : List Position) (e : Position) :
    (filterRow e.row l).count e = l.count e :=
  List.count_filter (by simp)

theorem tilt_north_perm (height width : Nat) {x y : List Position}
    (hperm : x.Perm y) (hd : distinctCells x) :
    (tilt_north x height width).Perm (tilt_north y height width) := by
  rw [List.perm_iff_count]
  intro e
  rw [← count_filterCol_self (tilt_north x height width) e,
      ← count_filterCol_self (tilt_north y height width) e]
  have hx : filterCol e.col (tilt_north x height width)
      = tiltNorthColGo 0 (filterCol e.col (List.insertionSort byRow x)) :=
    tiltNorthGo_filterCol e.col _ _
  have hy : filterCol e.col (tilt_north y height width)
      = tiltNorthColGo 0 (filterCol e.col (List.insertionSort byRow y)) :=
    tiltNorthGo_filterCol e.col _ _
  rw [hx, hy, filterCol_sortRow_eq e.col hperm hd]

theorem tilt_south_perm (height width : Nat) {x y : List Position}
    (hperm : x.Perm y) (hd : distinctCells x) :
    (tilt_south x height width).Perm (tilt_south y height width) := by
  rw [List.perm_iff_count]
  intro e
  rw [← count_filterCol_self (tilt_south x height width) e,
      ← count_filterCol_self (tilt_south y height width) e]
  have hx : filterCol e.col (tilt_south x height width)
      = tiltSouthColGo height ((filterCol e.col (List.insertionSort byRow x)).reverse) := by
    show filterCol e.col (tiltSouthGo _ _) = _
    rw [tiltSouthGo_filterCol, filterCol_reverse]
  have hy : filterCol e.col (tilt_south y height width)
      = tiltSouthColGo height ((filterCol e.col (List.insertionSort byRow y)).reverse) := by
    show filterCol e.col (tiltSouthGo _ _) = _
    rw [tiltSouthGo_filterCol, filterCol_reverse]
  rw [hx, hy, filterCol_sortRow_eq e.col hperm hd]

theorem tilt_west_perm (height width : Nat) {x y : List Position}
    (hperm : x.Perm y) (hd : distinctCells x) :
    (tilt_west x height width).Perm (tilt_west y height width) := by
  rw [List.perm_iff_count]
  intro e
  rw [← count_filterRow_self (tilt_west x height width) e,
      ← count_filterRow_self (tilt_west y height width) e]
  have hx : filterRow e.row (tilt_west x height width)
      = tiltWestRowGo 0 (filterRow e.row (List.insertionSort byCol x)) :=
    tiltWestGo_filterRow e.row _ _
  have hy : filterRow e.row (tilt_west y height width)
      = tiltWestRowGo 0 (filterRow e.row (List.insertionSort byCol y)) :=
    tiltWestGo_filterRow e.row _ _
  rw [hx, hy, filterRow_sortCol_eq e.row hperm hd]

theorem tilt_east_perm (height width : Nat) {x y : List Position}
    (hperm : x.Perm y) (hd : distinctCells x) :
    (tilt_east x height width).Perm (tilt_east y height width) := by
  rw [List.perm_iff_count]
  intro e
  rw [← count_filterRow_self (tilt_east x height width) e,
      ← count_filterRow_self (tilt_east y height width) e]
  have hx : filterRow e.row (tilt_east x height width)
      = tiltEastRowGo width ((filterRow e.row (List.insertionSort byCol x)).reverse) := by
    show filterRow e.row (tiltEastGo _ _) = _
    rw [tiltEastGo_filterRow, filterRow_reverse]
  have hy : filterRow e.row (tilt_east y height width)
      = tiltEastRowGo width ((filterRow e.row (List.insertionSort byCol y)).reverse) := by
    show filterRow e.row (tiltEastGo _ _) = _
    rw [tiltEastGo_filterRow, filterRow_reverse]
  rw [hx, hy, filterRow_sortCol_eq e.row hperm hd]

theorem cycle_directions_valid (height width : Nat) {x : List Position}
    (hv : validPos height width x) :
    validPos height width (cycle_directions x height width) :=
  tilt_east_valid height width (tilt_south_valid height width
    (tilt_west_valid height width (tilt_north_valid height width hv)))

theorem cycle_directions_perm (height width : Nat) {x y : List Position}
    (hperm : x.Perm y) (hv : validPos height width x) :
    (cycle_directions x height width).Perm (cycle_directions y height width) := by
  have v1 := tilt_north_valid height width hv
  have h1 := tilt_north_perm height width hperm hv.1
  have v2 := tilt_west_valid height width v1
  have h2 := tilt_west_perm height width h1 v1.1
  have v3 := tilt_south_valid height width v2
  have h3 := tilt_south_perm height width h2 v2.1
  exact tilt_east_perm height width h3 v3.1

theorem sortPositions_perm (l : List Position) : (sortPositions l).Perm l :=
  List.perm_insertionSort byRowCol l

theorem canonStep_valid (height width : Nat) {x : List Position}
    (hv : validPos height width x) :
    validPos height width (canonStep height width x) :=
  validPos_perm (sortPositions_perm _).symm (cycle_directions_valid height width hv)

theorem stepAt_succ (height width : Nat) (p0 : List Position) (n : Nat) :
    stepAt height width p0 (n + 1) = canonStep height width (stepAt height width p0 n) := by
  unfold stepAt
  rw [Function.iterate_succ_apply']

theorem directSim_succ (height width n : Nat) (p0 : List Position) :
    directSim height width (n + 1) p0
      = cycle_directions (directSim height width n p0) height width := by
  unfold directSim
  rw [Function.iterate_succ_apply']

theorem stepAt_perm_direct (height width : Nat) {p0 : List Position}
    (hv : validPos height width p0) :
    forall k, (stepAt height width p0 k).Perm (directSim height width k p0) ∧
      validPos height width (stepAt height width p0 k) := by
  intro k
  induction k with
  | zero =>
    refine ⟨?_, ?_⟩
    · simp [stepAt, directSim]
    · simpa [stepAt] using hv
  | succ n ih =>
    obtain ⟨hp, hvn⟩ := ih
    refine ⟨?_, ?_⟩
    · rw [stepAt_succ, directSim_succ]
      exact (sortPositions_perm _).trans (cycle_directions_perm height width hp hvn)
    · rw [stepAt_succ]
      exact canonStep_valid height width hvn

theorem get_north_load_perm {x y : List Position} (h : x.Perm y) (height : Nat) :
    get_north_load x height = get_north_load y height :=
  List.Perm.sum_eq (h.map _)

theorem stepAt_eq_propagate (height width : Nat) (p0 : List Position) {i j : Nat}
    (h : stepAt height width p0 i = stepAt height width p0 j) :
    forall d, stepAt height width p0 (i + d) = stepAt height width p0 (j + d) := by
  intro d
  induction d with
  | zero => simpa using h
  | succ n ih =>
    show stepAt height width p0 ((i + n) + 1) = stepAt height width p0 ((j + n) + 1)
    rw [stepAt_succ, stepAt_succ, ih]

theorem stepAt_period (height width : Nat) (p0 : List Position) (p c : Nat)
    (hpc : p < c) (hcyc : stepAt height width p0 p = stepAt height width p0 c) :
    forall m, p ≤ m →
      stepAt height width p0 (m + (c - p)) = stepAt height width p0 m := by
  intro m hm
  have h1 : m + (c - p) = c + (m - p) := by omega
  have h2 : p + (m - p) = m := by omega
  rw [h1, stepAt_eq_propagate height width p0 hcyc.symm (m - p), h2]

theorem stepAt_period_mul (height width : Nat) (p0 : List Position) (p c : Nat)
    (hpc : p < c) (hcyc : stepAt height width p0 p = stepAt height width p0 c) :
    forall q m, p ≤ m →
      stepAt height width p0 (m + q * (c - p)) = stepAt height width p0 m := by
  intro q
  induction q with
  | zero => intro m hm; simp
  | succ n ih =>
    intro m hm
    have h1 : m + (n + 1) * (c - p) = (m + (c - p)) + n * (c - p) := by ring
    rw [h1, ih (m + (c - p)) (by omega),
      stepAt_period height width p0 p c hpc hcyc m hm]

theorem stepAt_mod (height width : Nat) (p0 : List Position) (p c target : Nat)
    (hpc : p < c) (hcyc : stepAt height width p0 p = stepAt height width p0 c)
    (hct : c ≤ target) :
    stepAt height width p0 (c + (target - c) % (c - p))
      = stepAt height width p0 target := by
  have hdm := Nat.div_add_mod (target - c) (c - p)
  rw [Nat.mul_comm] at hdm
  have h1 : target
      = (c + (target - c) % (c - p)) + ((target - c) / (c - p)) * (c - p) := by omega
  conv_rhs => rw [h1]
  exact (stepAt_period_mul height width p0 p c hpc hcyc _ _ (by omega)).symm

theorem cdIter_perm (height width : Nat) (r : Nat) {x y : List Position}
    (hperm : x.Perm y) (hv : validPos height width x) :
    ((fun z => cycle_directions z height width)^[r] x).Perm
      ((fun z => cycle_directions z height width)^[r] y) := by
  induction r generalizing x y with
  | zero => simpa using hperm
  | succ n ih =>
    rw [Function.iterate_succ_apply, Function.iterate_succ_apply]
    exact ih (cycle_directions_perm height width hperm hv)
      (cycle_directions_valid height width hv)

theorem directSim_add (height width a b : Nat) (p0 : List Position) :
    directSim height width (a + b) p0
      = (fun ps => cycle_directions ps height width)^[b] (directSim height width a p0) := by
  unfold directSim
  rw [Nat.add_comm, Function.iterate_add_apply]

theorem lookupSteps_tableOf_none (height width : Nat) (p0 ps : List Position)
    (m : Nat) (h : forall j, j < m → stepAt height width p0 j ≠ ps) :
    lookupSteps ps (tableOf height width p0 m) = none := by
  induction m with
  | zero => rfl
  | succ n ih =>
    show lookupSteps ps ((stepAt height width p0 n, n) :: tableOf height width p0 n) = none
    rw [lookupSteps, if_neg (h n (Nat.lt_succ_self n))]
    exact ih (fun j hj => h j (Nat.lt_succ_of_lt hj))

theorem lookupSteps_tableOf_some (height width : Nat) (p0 ps : List Position) (p : Nat) :
    forall m, p < m → stepAt height width p0 p = ps →
      (forall j, p < j → j < m → stepAt height width p0 j ≠ ps) →
      lookupSteps ps (tableOf height width p0 m) = some p := by
  intro m
  induction m with
  | zero => omega
  | succ n ih =>
    intro hpm hps hnon
    show lookupSteps ps ((stepAt height width p0 n, n) :: tableOf height width p0 n) = some p
    by_cases hpn : p = n
    · subst hpn
      rw [lookupSteps, if_pos hps]
    · have hlt : p < n := by omega
      rw [lookupSteps, if_neg (hnon n hlt (Nat.lt_succ_self n))]
      exact ih hlt hps (fun j h1 h2 => hnon j h1 (Nat.lt_succ_of_lt h2))

theorem part2Go_run (height width target : Nat) (p0 : List Position)
    (p c : Nat) (hpc : p < c)
    (hcyc : stepAt height width p0 p = stepAt height width p0 c)
    (hfirst : forall i, i < c → forall j, j < i →
      stepAt height width p0 j ≠ stepAt height width p0 i) :
    forall d k, c - k = d → k ≤ c → k ≤ target →
      part2Go height width target (target - k) (tableOf height width p0 k) k
          (stepAt height width p0 k)
        = if target ≤ c then stepAt height width p0 target
          else (fun x => cycle_directions x height width)^[(target - c) % (c - p)]
            (stepAt height width p0 c) := by
  intro d
  induction d with
  | zero =>
    intro k hd hkc hkt
    have hkc2 : k = c := by omega
    rw [hkc2] at hkt ⊢
    by_cases hts : target ≤ c
    · have h0 : target - c = 0 := by omega
      have htk : target = c := by omega
      rw [h0, if_pos hts, part2Go, htk]
    · have h1 : target - c = (target - c - 1) + 1 := by omega
      rw [if_neg hts]
      conv_lhs => rw [h1]
      rw [part2Go]
      have hsome : lookupSteps (stepAt height width p0 c) (tableOf height width p0 c)
          = some p := by
        refine lookupSteps_tableOf_some height width p0 _ p c hpc hcyc ?_
        intro j hj1 hj2 hEq
        exact hfirst j hj2 p hj1 (hcyc.trans hEq.symm)
      rw [hsome]
  | succ n ih =>
    intro k hd hkc hkt
    have hkc2 : k < c := by omega
    by_cases htk : target = k
    · have h0 : target - k = 0 := by omega
      rw [h0, part2Go, if_pos (by omega), htk]
    · have h1 : target - k = (target - (k + 1)) + 1 := by omega
      rw [h1, part2Go]
      have hnone : lookupSteps (stepAt height width p0 k) (tableOf height width p0 k)
          = none := by
        refine lookupSteps_tableOf_none height width p0 _ k ?_
        intro j hj
        exact hfirst k hkc2 j hj
      rw [hnone]
      have hstep : sortPositions (cycle_directions (stepAt height width p0 k) height width)
          = stepAt height width p0 (k + 1) := (stepAt_succ height width p0 k).symm
      rw [hstep]
      exact ih (k + 1) (by omega) (by omega) (by omega)

theorem part2Sim_run (height width target : Nat) (p0 : List Position)
    (p c : Nat) (hpc : p < c)
    (hcyc : stepAt height width p0 p = stepAt height width p0 c)
    (hfirst : forall i, i < c → forall j, j < i →
      stepAt height width p0 j ≠ stepAt height width p0 i)
    (_hct : c ≤ target) :
    part2Sim height width target p0
      = if target ≤ c then stepAt height width p0 target
        else (fun x => cycle_directions x height width)^[(target - c) % (c - p)]
          (stepAt height width p0 c) := by
  have h0 : stepAt height width p0 0 = p0 := rfl
  have := part2Go_run height width target p0 p c hpc hcyc hfirst c 0 rfl
    (Nat.zero_le c) (Nat.zero_le target)
  rw [h0] at this
  simpa [part2Sim, tableOf] using this

end day14

-- ===== claim theorems: day 14 =====

open day14 in
/-- Claim C3: for the day-14 puzzle and every target step count at least the
step `c` at which a snapshot first recurs (`stepAt p = stepAt c` with
`p < c` and no recurrence among the snapshots before `c`), the
fast-forwarded computation of `part_2` — detect the cycle via the
snapshot-to-step lookup table, then simulate exactly
`(target - c) % (c - p)` more raw `cycle_directions` steps — produces the
same final rock configuration (the final lists are permutations of one
another; the canonicalising sorts of the main loop only permute order) and
hence the same north load as simulating `cycle_directions` `target` times
directly. -/
theorem day14_fast_forward_equiv (height width target : Nat) (p0 : List Position)
    (hv : validPos height width p0) (p c : Nat) (hpc : p < c) (hct : c ≤ target)
    (hcyc : stepAt height width p0 p = stepAt height width p0 c)
    (hfirst : ∀ i, i < c → ∀ j, j < i →
      stepAt height width p0 j ≠ stepAt height width p0 i) :
    (part2Sim height width target p0).Perm (directSim height width target p0) ∧
      get_north_load (part2Sim height width target p0) height
        = get_north_load (directSim height width target p0) height := by
  have hmain : (part2Sim height width target p0).Perm (directSim height width target p0) := by
    rw [part2Sim_run height width target p0 p c hpc hcyc hfirst hct]
    by_cases hts : target ≤ c
    · rw [if_pos hts]
      exact (stepAt_perm_direct height width hv target).1
    · rw [if_neg hts]
      have hSc := stepAt_perm_direct height width hv c
      have h1 := cdIter_perm height width ((target - c) % (c - p)) hSc.1 hSc.2
      have h2 : (fun ps => cycle_directions ps height width)^[(target - c) % (c - p)]
            (directSim height width c p0)
          = directSim height width (c + (target - c) % (c - p)) p0 :=
        (directSim_add height width c ((target - c) % (c - p)) p0).symm
      have h3 := stepAt_mod height width p0 p c target hpc hcyc hct
      refine h1.trans ?_
      rw [h2]
      refine ((stepAt_perm_direct height width hv (c + (target - c) % (c - p))).1.symm.trans ?_)
      rw [h3]
      exact (stepAt_perm_direct height width hv target).1
  exact ⟨hmain, get_north_load_perm hmain height⟩

open day14 in
theorem day14_fast_forward_equiv_witness :
    (part2Sim 10 10 30 (initialPositions examplePuzzle.lines)).Perm
        (directSim 10 10 30 (initialPositions examplePuzzle.lines)) ∧
      get_north_load (part2Sim 10 10 30 (initialPositions examplePuzzle.lines)) 10
        = get_north_load (directSim 10 10 30 (initialPositions examplePuzzle.lines)) 10 :=
  day14_fast_forward_equiv 10 10 30 (initialPositions examplePuzzle.lines)
    (by decide) 3 10 (by decide) (by decide) (by decide) (by decide)

-- ===== claim theorems: day 5 =====

/-- Claim C2: for the day-5 puzzle parsed from the 7-stage example map table
with seeds 79 14 55 13 (seed ranges [79,93) and [55,68)), `part_2` folds the
seed slices through all seven stages with `map_slices` and returns the
string "46", the minimum start value across the final stage's output
ranges. -/
theorem day05_part2_example :
    day05.Puzzle.part_2 day05.examplePuzzle = some "46" := by
  rfl

/-- Claim C6 counterexample: `map_slices` does emit a zero-length slice.  A
single input slice of length 0 is forwarded as a single zero-length output
slice (here through the uncovered-prefix case of the stand-alone test map),
not discarded: the output is nonempty and contains a zero-length slice. -/
theorem day05_zero_length_forwarded :
    day05.Map.map_slices day05.testMap [{ start := 3, length := 0 }] =
        [{ start := 3, length := 0 }] ∧
      ∃ t ∈ day05.Map.map_slices day05.testMap [{ start := 3, length := 0 }],
        t.length = 0 := by
  constructor
  · rfl
  · exact ⟨{ start := 3, length := 0 }, by rw [show day05.Map.map_slices day05.testMap
      [{ start := 3, length := 0 }] = [{ start := 3, length := 0 }] from rfl]; simp, rfl⟩

/-- Claim C6 amended: for every `Map` stage, `map_slices` never emits a
zero-length slice provided every input slice has positive length (a
zero-length input slice, by contrast, is forwarded as a zero-length output
slice rather than discarded, see the counterexample). -/
theorem day05_map_slices_pos_lengths (m : day05.Map) (slices : List day05.Slice)
    (hpos : ∀ s ∈ slices, 0 < s.length) :
    ∀ t ∈ m.map_slices slices, 0 < t.length := by
  refine day05.mapSlicesGo_pos_lengths _ _ _ le_rfl ?_
  intro s hs
  exact hpos s ((List.perm_insertionSort _ slices).mem_iff.mp hs)

/-- Witness for `day05_map_slices_pos_lengths` at a concrete positive-length
input on the stand-alone test map. -/
theorem day05_map_slices_pos_lengths_witness :
    (∀ s ∈ [({ start := 3, length := 15 } : day05.Slice)], 0 < s.length) ∧
      ∀ t ∈ day05.Map.map_slices day05.testMap [{ start := 3, length := 15 }],
        0 < t.length :=
  ⟨by decide, day05_map_slices_pos_lengths day05.testMap _ (by decide)⟩

/-- Claim C7: for every identity-only `Map` stage (each rule's
`destination_start` equals its `source_start`) and every input slice list,
`map_slices` preserves the total measure: the sum of output lengths equals
the sum of input lengths.  (The proof factors through
`mapSlicesGo_sumLengths`, which shows the conservation holds for every
stage, identity-only or not.) -/
theorem day05_identity_map_measure_preserved (m : day05.Map)
    (_hid : ∀ r ∈ m.ranges, r.destination_start = r.source_start)
    (slices : List day05.Slice) :
    day05.sumLengths (m.map_slices slices) = day05.sumLengths slices := by
  rw [day05.Map.map_slices]
  rw [day05.mapSlicesGo_sumLengths _ _ _ le_rfl]
  exact day05.sumLengths_perm (List.perm_insertionSort _ slices)

/-- Witness for `day05_identity_map_measure_preserved` on a concrete
identity-only stage. -/
theorem day05_identity_map_measure_preserved_witness :
    (∀ r ∈ day05.identityMap.ranges, r.destination_start = r.source_start) ∧
      day05.sumLengths (day05.identityMap.map_slices
          [{ start := 8, length := 20 }, { start := 40, length := 2 }]) =
        day05.sumLengths [{ start := 8, length := 20 }, { start := 40, length := 2 }] :=
  ⟨by decide, day05_identity_map_measure_preserved day05.identityMap (by decide) _⟩

/-- Claim C10: for every `Map` whose rules are sorted by `source_start`
(as `Map::parse` produces) and pairwise non-overlapping in their source
intervals, and every value `s`, `map_slices` on the single slice
`{start := s, length := 1}` returns exactly one slice of length 1 whose
start is `Map::map s`: the range pipeline of part 2 agrees pointwise with
the scalar mapping of part 1.  (Sortedness suffices; the disjointness
hypothesis of the claim is carried but not needed.) -/
theorem day05_map_slices_pointwise (m : day05.Map)
    (hsorted : m.ranges.Pairwise (fun a b => a.source_start ≤ b.source_start))
    (_hdisj : m.ranges.Pairwise (fun a b =>
      a.source_start + a.length ≤ b.source_start ∨
        b.source_start + b.length ≤ a.source_start))
    (s : Nat) :
    m.map_slices [{ start := s, length := 1 }] = [{ start := m.map s, length := 1 }] :=
  day05.map_slices_singleton m hsorted s

/-- Witness for `day05_map_slices_pointwise` on the stand-alone test map at
a value covered by its first rule. -/
theorem day05_map_slices_pointwise_witness :
    (day05.testMap.ranges.Pairwise (fun a b => a.source_start ≤ b.source_start) ∧
      day05.testMap.ranges.Pairwise (fun a b =>
        a.source_start + a.length ≤ b.source_start ∨
          b.source_start + b.length ≤ a.source_start)) ∧
      day05.testMap.map_slices [{ start := 23, length := 1 }] =
        [{ start := day05.testMap.map 23, length := 1 }] :=
  ⟨⟨by decide, by decide⟩, day05_map_slices_pointwise day05.testMap (by decide) (by decide) 23⟩

-- ===== claim theorems: day 17 =====

/-- Claim C1: on the 13x13 example digit grid of day 17,
`get_minimal_heat_loss` returns 102 for the run-length range 1..=3 (so
`part_1` returns "102") and 94 for the range 4..=10 (so `part_2` returns
"94").  The search run is replayed in verified 250-pop segments
(`chunk17a_*`, `chunk17b_*`) glued by `goSteps_add_inl`/`goSteps_add_inr`. -/
theorem day17_example_heat_losses :
    day17.get_minimal_heat_loss day17.examplePuzzle.grid 1 3 = 102 ∧
      day17.get_minimal_heat_loss day17.examplePuzzle.grid 4 10 = 94 ∧
      day17.Puzzle.part_1 day17.examplePuzzle = "102" ∧
      day17.Puzzle.part_2 day17.examplePuzzle = "94" := by
  have h1 : day17.goSteps day17.examplePuzzle.grid 1 3 13 13 5411
      day17.SeenTree.leaf day17.initialHeap = .inr 102 := by
    refine Eq.trans (day17.goSteps_add_inl _ _ _ _ _ 250 5161 _ _ _ _ day17.chunk17a_0) ?_
    refine Eq.trans (day17.goSteps_add_inl _ _ _ _ _ 250 4911 _ _ _ _ day17.chunk17a_1) ?_
    refine Eq.trans (day17.goSteps_add_inl _ _ _ _ _ 250 4661 _ _ _ _ day17.chunk17a_2) ?_
    refine Eq.trans (day17.goSteps_add_inl _ _ _ _ _ 250 4411 _ _ _ _ day17.chunk17a_3) ?_
    refine Eq.trans (day17.goSteps_add_inl _ _ _ _ _ 250 4161 _ _ _ _ day17.chunk17a_4) ?_
    refine Eq.trans (day17.goSteps_add_inl _ _ _ _ _ 250 3911 _ _ _ _ day17.chunk17a_5) ?_
    refine Eq.trans (day17.goSteps_add_inl _ _ _ _ _ 250 3661 _ _ _ _ day17.chunk17a_6) ?_
    refine Eq.trans (day17.goSteps_add_inl _ _ _ _ _ 250 3411 _ _ _ _ day17.chunk17a_7) ?_
    refine Eq.trans (day17.goSteps_add_inl _ _ _ _ _ 250 3161 _ _ _ _ day17.chunk17a_8) ?_
    refine Eq.trans (day17.goSteps_add_inl _ _ _ _ _ 250 2911 _ _ _ _ day17.chunk17a_9) ?_
    refine Eq.trans (day17.goSteps_add_inl _ _ _ _ _ 250 2661 _ _ _ _ day17.chunk17a_10) ?_
    exact day17.goSteps_add_inr _ _ _ _ _ 250 2411 _ _ _ day17.chunk17a_11
  have h2 : day17.goSteps day17.examplePuzzle.grid 4 10 13 13 14875
      day17.SeenTree.leaf day17.initialHeap = .inr 94 := by
    refine Eq.trans (day17.goSteps_add_inl _ _ _ _ _ 250 14625 _ _ _ _ day17.chunk17b_0) ?_
    refine Eq.trans (day17.goSteps_add_inl _ _ _ _ _ 250 14375 _ _ _ _ day17.chunk17b_1) ?_
    exact day17.goSteps_add_inr _ _ _ _ _ 250 14125 _ _ _ day17.chunk17b_2
  have ha : day17.get_minimal_heat_loss day17.examplePuzzle.grid 1 3 = 102 :=
    day17.get_minimal_heat_loss_of_goSteps _ _ _ _ h1
  have hb : day17.get_minimal_heat_loss day17.examplePuzzle.grid 4 10 = 94 :=
    day17.get_minimal_heat_loss_of_goSteps _ _ _ _ h2
  refine ⟨ha, hb, ?_, ?_⟩
  · show toString (day17.get_minimal_heat_loss day17.examplePuzzle.grid 1 3) = "102"
    rw [ha]
    decide
  · show toString (day17.get_minimal_heat_loss day17.examplePuzzle.grid 4 10) = "94"
    rw [hb]
    decide

/-- Claim C4 counterexample: the priority queue is not keyed by accumulated
cost alone.  The state at (3,3) with cost 6 is strictly greater in the heap
order (so it pops first) than the state at (0,0) with the strictly smaller
cost 5. -/
theorem day17_heap_order_not_cost_alone :
    day17.stateCmp ⟨⟨3, 3⟩, day17.Direction.Right, 6⟩ ⟨⟨0, 0⟩, day17.Direction.Right, 5⟩ =
        Ordering.gt ∧ (5 : Nat) < 6 := by
  decide

/-- Claim C4 amended: the min-priority order implemented by the source
`Ord` is accumulated cost minus the coordinate sum (an A*-style key), with
ties broken by accumulated cost — not accumulated cost alone; a
(position, direction) state is settled the first time it is popped, later
pops of the same pair are skipped, and the first popped state sitting on
the target cell has its accumulated cost returned. -/
theorem day17_queue_discipline :
    (∀ a b : day17.State, day17.stateCmp a b = Ordering.gt ↔
      (day17.stateKey a < day17.stateKey b ∨
        (day17.stateKey a = day17.stateKey b ∧ a.heat_loss < b.heat_loss))) ∧
    (∀ (grid : List (List Nat)) (lo hi height width fuel : Nat) (seen : day17.SeenTree)
      (state : day17.State) (heap heap' : day17.Heap),
      day17.Heap.pop heap = some (state, heap') →
      day17.SeenTree.member (day17.sdKey state.position state.direction) seen = true →
      day17.goSteps grid lo hi height width (fuel + 1) seen heap =
        day17.goSteps grid lo hi height width fuel seen heap') ∧
    (∀ (grid : List (List Nat)) (lo hi height width fuel : Nat) (seen : day17.SeenTree)
      (state : day17.State) (heap heap' : day17.Heap),
      day17.Heap.pop heap = some (state, heap') →
      day17.SeenTree.member (day17.sdKey state.position state.direction) seen = false →
      state.position.row = height - 1 → state.position.col = width - 1 →
      day17.goSteps grid lo hi height width (fuel + 1) seen heap = .inr state.heat_loss) := by
  refine ⟨?_, ?_, ?_⟩
  · intro a b
    show ((compare (a.heat_loss + b.position.row + b.position.col)
        (b.heat_loss + a.position.row + a.position.col)).then
      (compare a.heat_loss b.heat_loss)).swap = Ordering.gt ↔ _
    rcases Nat.lt_trichotomy (a.heat_loss + b.position.row + b.position.col)
        (b.heat_loss + a.position.row + a.position.col) with h | h | h
    · rw [Nat.compare_eq_lt.mpr h]
      simp only [Ordering.then, Ordering.swap]
      constructor
      · intro; left; unfold day17.stateKey; omega
      · intro _; trivial
    · rw [Nat.compare_eq_eq.mpr h]
      simp only [Ordering.then]
      rcases Nat.lt_trichotomy a.heat_loss b.heat_loss with h2 | h2 | h2
      · rw [Nat.compare_eq_lt.mpr h2]
        simp only [Ordering.swap]
        constructor
        · intro _; right; unfold day17.stateKey; exact ⟨by omega, h2⟩
        · intro _; trivial
      · rw [Nat.compare_eq_eq.mpr h2]
        simp only [Ordering.swap]
        constructor
        · intro hc; exact absurd hc (by decide)
        · intro hc
          rcases hc with hc | hc
          · exfalso; unfold day17.stateKey at hc; omega
          · omega
      · rw [Nat.compare_eq_gt.mpr h2]
        simp only [Ordering.swap]
        constructor
        · intro hc; exact absurd hc (by decide)
        · intro hc
          rcases hc with hc | hc
          · exfalso; unfold day17.stateKey at hc; omega
          · omega
    · rw [Nat.compare_eq_gt.mpr h]
      simp only [Ordering.then, Ordering.swap]
      constructor
      · intro hc; exact absurd hc (by decide)
      · intro hc
        rcases hc with hc | hc
        · exfalso; unfold day17.stateKey at hc; omega
        · exfalso; unfold day17.stateKey at hc; omega
  · intro grid lo hi height width fuel seen state heap heap' hpop hmem
    simp only [day17.goSteps]
    rw [hpop]
    simp [hmem]
  · intro grid lo hi height width fuel seen state heap heap' hpop hmem ht1 ht2
    simp only [day17.goSteps]
    rw [hpop]
    simp [hmem, ht1, ht2]

/-- Witness for `day17_queue_discipline`: the three components applied at
concrete states, a concrete already-settled pop (skipped) and a concrete
target pop (cost returned). -/
theorem day17_queue_discipline_witness :
    (day17.stateCmp ⟨⟨0, 0⟩, day17.Direction.Right, 3⟩ ⟨⟨2, 2⟩, day17.Direction.Down, 4⟩ =
        Ordering.gt ↔
      (day17.stateKey ⟨⟨0, 0⟩, day17.Direction.Right, 3⟩ <
          day17.stateKey ⟨⟨2, 2⟩, day17.Direction.Down, 4⟩ ∨
        (day17.stateKey ⟨⟨0, 0⟩, day17.Direction.Right, 3⟩ =
            day17.stateKey ⟨⟨2, 2⟩, day17.Direction.Down, 4⟩ ∧ (3 : Nat) < 4))) ∧
      day17.goSteps [[1, 2], [3, 4]] 1 1 2 2 1
          (day17.SeenTree.branch day17.SeenTree.leaf (0, 0, 3) day17.SeenTree.leaf)
          (day17.Heap.node ⟨⟨0, 0⟩, day17.Direction.Right, 5⟩ []) =
        day17.goSteps [[1, 2], [3, 4]] 1 1 2 2 0
          (day17.SeenTree.branch day17.SeenTree.leaf (0, 0, 3) day17.SeenTree.leaf)
          day17.Heap.empty ∧
      day17.goSteps [[1, 2], [3, 4]] 1 1 2 2 1 day17.SeenTree.leaf
          (day17.Heap.node ⟨⟨1, 1⟩, day17.Direction.Right, 9⟩ []) = .inr 9 :=
  ⟨day17_queue_discipline.1 _ _,
    day17_queue_discipline.2.1 _ _ _ _ _ _ _ _ _ _ rfl rfl,
    day17_queue_discipline.2.2 [[1, 2], [3, 4]] 1 1 2 2 0 day17.SeenTree.leaf
      ⟨⟨1, 1⟩, day17.Direction.Right, 9⟩
      (day17.Heap.node ⟨⟨1, 1⟩, day17.Direction.Right, 9⟩ []) day17.Heap.empty
      rfl rfl rfl rfl⟩

/-- Claim C8 counterexample: on a 2x2 grid with run-length range 4..=10 the
queue empties without the target ever being popped, and the solver returns
the value `u32::MAX` = 4294967295 as an ordinary numeric result through the
normal return path — it does not raise any fatal error. -/
theorem day17_unreachable_target_value :
    day17.get_minimal_heat_loss [[1, 1], [1, 1]] 4 10 = day17.u32MAX := by
  decide

/-- Claim C8 amended: if the priority queue is empty (and at least one loop
iteration remains), the search loop returns the sentinel `u32::MAX` as an
ordinary value rather than signalling a fatal error. -/
theorem day17_empty_queue_returns_sentinel (grid : List (List Nat))
    (lo hi height width fuel : Nat) (seen : day17.SeenTree) :
    day17.goSteps grid lo hi height width (fuel + 1) seen day17.Heap.empty =
      .inr day17.u32MAX :=
  rfl

/-- Claim C9 counterexample: the claimed bounds contract for `get_at` fails
for a starting position outside the grid: from row 100 moving up 1 inside a
5x5 grid, the displaced cell (99,0) lies outside the grid yet `get_at`
returns `some` of it rather than `none`. -/
theorem day17_get_at_spec_fails_outside_start :
    ¬ day17.getAtSpec ⟨100, 0⟩ 1 day17.Direction.Up 5 5 := by
  intro hspec
  have hout : day17.outsideGrid 5 5 (day17.displaced ⟨100, 0⟩ 1 day17.Direction.Up) := by
    unfold day17.outsideGrid day17.displaced
    decide
  exact absurd (hspec.1 hout) (by decide)

/-- Claim C9 amended: for every starting position that lies inside the
grid, every distance, direction and bounds, `get_at` returns `none` exactly
when the displaced cell would leave the grid (row or column below 0 or
reaching height/width) and `some` of the displaced cell otherwise; the
total model never panics. -/
theorem day17_get_at_spec_in_grid (p : day17.Position) (distance : Nat)
    (direction : day17.Direction) (height width : Nat)
    (hrow : p.row < height) (hcol : p.col < width) :
    day17.getAtSpec p distance direction height width := by
  obtain ⟨r, c⟩ := p
  simp only [day17.getAtSpec, day17.displaced, day17.outsideGrid,
    day17.Position.get_at, day17.checkedSub] at hrow hcol ⊢
  rcases direction with _ | _ | _ | _ <;> simp only [] <;> constructor
  · intro hout
    rw [if_neg (by omega)]
    rfl
  · intro hout
    push_neg at hout
    rw [if_pos (by omega)]
    simp only [Option.map_some', Option.some.injEq, day17.Position.mk.injEq]
    omega
  · intro hout
    rw [if_neg (by omega)]
  · intro hout
    push_neg at hout
    rw [if_pos (by omega)]
    simp only [Option.some.injEq, day17.Position.mk.injEq]
    omega
  · intro hout
    rw [if_neg (by omega)]
    rfl
  · intro hout
    push_neg at hout
    rw [if_pos (by omega)]
    simp only [Option.map_some', Option.some.injEq, day17.Position.mk.injEq]
    omega
  · intro hout
    rw [if_neg (by omega)]
  · intro hout
    push_neg at hout
    rw [if_pos (by omega)]
    simp only [Option.some.injEq, day17.Position.mk.injEq]
    omega

-- ===== claim theorems: puzzle contract (lib.rs) =====

/-- Claim C5 counterexample: construction is not fatal on every input text
that fails to match the day's expected grammar.  On the non-grammar input
"12\n34\nxyz" the default day-17 construction succeeds: `Puzzle::parse`
consumes the grid prefix "12\n34" (`separated_list1` stops at the
unparseable "xyz" without consuming the preceding separator), the
terminating `line_ending` consumes "\n", and the leftover garbage "xyz" is
silently discarded by `.unwrap().1`, yielding a puzzle built from a prefix
of the malformed input — a silently recovered partial result. -/
theorem lib_trailing_garbage_accepted :
    puzzleLib.terminatedBy puzzleLib.day17parseChars puzzleLib.line_ending
        ("12\n34\nxyz".toList)
      = some ("xyz".toList, { grid := [[1, 2], [3, 4]] }) ∧
    puzzleLib.newDefault puzzleLib.day17parseChars ("12\n34\nxyz".toList)
      = some { grid := [[1, 2], [3, 4]] } := by
  constructor <;> rfl

/-- Claim C5 (amended): whenever the day's parser itself returns a parse
error, construction is fatal with the error propagated: both the default
`PuzzleBase::new` (terminated parse + unwrap) and the per-day overridden
`new` (parse + unwrap) yield no puzzle value and no partial result.  This
is weaker than the original claim: an input that fails the full grammar
but has a parseable prefix is not a parser error, and construction then
succeeds with the leftover silently discarded (see
`lib_trailing_garbage_accepted`).  The statement is generic in the day's
parser, so it covers every day. -/
theorem lib_parse_failure_fatal :
    (∀ (α : Type) (p : puzzleLib.Parser α) (input : List Char),
      p input = none → puzzleLib.newDefault p input = none) ∧
    (∀ (α : Type) (p : puzzleLib.Parser α) (input : List Char),
      p input = none → puzzleLib.newFromParse p input = none) := by
  constructor
  · intro α p input h
    simp only [puzzleLib.newDefault, puzzleLib.terminatedBy, h]
    rfl
  · intro α p input h
    simp only [puzzleLib.newFromParse, h]
    rfl

/-- Witness for `lib_parse_failure_fatal`: the day-17 grid parser fails on
the non-grid input "ab", and both construction paths are fatal there. -/
theorem lib_parse_failure_fatal_witness :
    puzzleLib.day17parseChars "ab".toList = none ∧
      puzzleLib.newDefault puzzleLib.day17parseChars "ab".toList = none ∧
      puzzleLib.newFromParse puzzleLib.day17parseChars "ab".toList = none :=
  ⟨by decide,
    lib_parse_failure_fatal.1 _ puzzleLib.day17parseChars _ (by decide),
    lib_parse_failure_fatal.2 _ puzzleLib.day17parseChars _ (by decide)⟩

/-- Witness for `day17_get_at_spec_in_grid` at a concrete in-grid start. -/
theorem day17_get_at_spec_in_grid_witness :
    ((2 : Nat) < 5 ∧ (3 : Nat) < 5) ∧
      day17.getAtSpec ⟨2, 3⟩ 4 day17.Direction.Up 5 5 :=
  ⟨by decide, day17_get_at_spec_in_grid ⟨2, 3⟩ 4 day17.Direction.Up 5 5
    (by decide) (by decide)⟩

